import Mathlib

/-! win-xenvif: frontend state machine and transmit ring.

A shallow embedding of `src/xenvif/frontend.c` (`FrontendSetState`) and of the
transmit-ring code of `src/xenvif/transmitter.c`, followed by theorems about
these definitions.

Conventions.
* C pointers to packets are natural numbers indexing a packet heap.
* `ULONG` / `RING_IDX` values are naturals kept below `2 ^ 32`; every
  increment and subtraction is written with an explicit `% 2 ^ 32`.
* Calls into code that is not part of the repository sources (object caches,
  the grant table, the packet parser, the MAC module) take their outcome from
  an oracle stream carried by the ring; every call consumes one answer.
-/

set_option linter.all false

namespace Xenvif

/-! ## Part 1: definitions -/

/-! ### frontend.c -/

/-- The enumeration `XENVIF_FRONTEND_STATE`. -/
inductive XENVIF_FRONTEND_STATE where
  | FRONTEND_UNKNOWN
  | FRONTEND_CLOSED
  | FRONTEND_PREPARED
  | FRONTEND_CONNECTED
  | FRONTEND_ENABLED
  deriving DecidableEq, Repr

open XENVIF_FRONTEND_STATE

/-- Position of a state on the chain UNKNOWN, CLOSED, PREPARED, CONNECTED,
ENABLED (the numeric value of the enumerator). -/
def XENVIF_FRONTEND_STATE.toNat : XENVIF_FRONTEND_STATE → Nat
  | FRONTEND_UNKNOWN => 0
  | FRONTEND_CLOSED => 1
  | FRONTEND_PREPARED => 2
  | FRONTEND_CONNECTED => 3
  | FRONTEND_ENABLED => 4

/-- Things `FrontendSetState` does, in program order: calls of the sub-steps
(with their outcome where they can fail) and assignments to
`Frontend->State` (old value, new value). -/
inductive FrontendEvent where
  | Prepare (ok : Bool)
  | Connect (ok : Bool)
  | Enable (ok : Bool)
  | Close
  | Disconnect
  | Disable
  | Assign (old new : XENVIF_FRONTEND_STATE)
  deriving DecidableEq, Repr

/-- Result of one pass through the body of the `while` loop of
`FrontendSetState`. -/
structure FrontendStep where
  State : XENVIF_FRONTEND_STATE
  Failed : Bool
  Events : List FrontendEvent
  deriving DecidableEq, Repr

/-- One pass through the body of the `while` loop of `FrontendSetState`
(frontend.c:1770-1890): `cur` is `Frontend->State`, `target` the requested
`State`, and `ok` the outcome (`NT_SUCCESS`) of the fallible sub-step
(`FrontendPrepare`, `FrontendConnect` or `FrontendEnable`) if this pass calls
one.  The `default: ASSERT(FALSE)` arms leave everything unchanged. -/
def FrontendSetStateBody (ok : Bool) (target cur : XENVIF_FRONTEND_STATE) : FrontendStep :=
  match cur with
  | FRONTEND_UNKNOWN =>
    match target with
    | FRONTEND_CLOSED | FRONTEND_PREPARED | FRONTEND_CONNECTED | FRONTEND_ENABLED =>
      if ok then
        ⟨FRONTEND_PREPARED, false,
          [FrontendEvent.Prepare true, FrontendEvent.Assign FRONTEND_UNKNOWN FRONTEND_PREPARED]⟩
      else
        ⟨FRONTEND_UNKNOWN, true, [FrontendEvent.Prepare false]⟩
    | FRONTEND_UNKNOWN => ⟨FRONTEND_UNKNOWN, false, []⟩
  | FRONTEND_CLOSED =>
    match target with
    | FRONTEND_PREPARED | FRONTEND_CONNECTED | FRONTEND_ENABLED =>
      if ok then
        ⟨FRONTEND_PREPARED, false,
          [FrontendEvent.Prepare true, FrontendEvent.Assign FRONTEND_CLOSED FRONTEND_PREPARED]⟩
      else
        ⟨FRONTEND_CLOSED, true, [FrontendEvent.Prepare false]⟩
    | FRONTEND_UNKNOWN =>
      ⟨FRONTEND_UNKNOWN, false, [FrontendEvent.Assign FRONTEND_CLOSED FRONTEND_UNKNOWN]⟩
    | FRONTEND_CLOSED => ⟨FRONTEND_CLOSED, false, []⟩
  | FRONTEND_PREPARED =>
    match target with
    | FRONTEND_CONNECTED | FRONTEND_ENABLED =>
      if ok then
        ⟨FRONTEND_CONNECTED, false,
          [FrontendEvent.Connect true, FrontendEvent.Assign FRONTEND_PREPARED FRONTEND_CONNECTED]⟩
      else
        ⟨FRONTEND_CLOSED, true,
          [FrontendEvent.Connect false, FrontendEvent.Close,
           FrontendEvent.Assign FRONTEND_PREPARED FRONTEND_CLOSED]⟩
    | FRONTEND_CLOSED | FRONTEND_UNKNOWN =>
      ⟨FRONTEND_CLOSED, false,
        [FrontendEvent.Close, FrontendEvent.Assign FRONTEND_PREPARED FRONTEND_CLOSED]⟩
    | FRONTEND_PREPARED => ⟨FRONTEND_PREPARED, false, []⟩
  | FRONTEND_CONNECTED =>
    match target with
    | FRONTEND_ENABLED =>
      if ok then
        ⟨FRONTEND_ENABLED, false,
          [FrontendEvent.Enable true, FrontendEvent.Assign FRONTEND_CONNECTED FRONTEND_ENABLED]⟩
      else
        ⟨FRONTEND_CLOSED, true,
          [FrontendEvent.Enable false, FrontendEvent.Close,
           FrontendEvent.Assign FRONTEND_CONNECTED FRONTEND_CLOSED, FrontendEvent.Disconnect]⟩
    | FRONTEND_PREPARED | FRONTEND_CLOSED | FRONTEND_UNKNOWN =>
      ⟨FRONTEND_CLOSED, false,
        [FrontendEvent.Close, FrontendEvent.Assign FRONTEND_CONNECTED FRONTEND_CLOSED,
         FrontendEvent.Disconnect]⟩
    | FRONTEND_CONNECTED => ⟨FRONTEND_CONNECTED, false, []⟩
  | FRONTEND_ENABLED =>
    match target with
    | FRONTEND_CONNECTED | FRONTEND_PREPARED | FRONTEND_CLOSED | FRONTEND_UNKNOWN =>
      ⟨FRONTEND_CONNECTED, false,
        [FrontendEvent.Disable, FrontendEvent.Assign FRONTEND_ENABLED FRONTEND_CONNECTED]⟩
    | FRONTEND_ENABLED => ⟨FRONTEND_ENABLED, false, []⟩

/-- The loop `while (Frontend->State != State && !Failed)` of
`FrontendSetState` (frontend.c:1767-1895).  `oracle i` is the outcome of the
fallible sub-step called by pass number `i`; `pass` counts the passes made so
far.  `none` means that `fuel` passes did not end the loop. -/
def FrontendSetStateLoop (oracle : Nat → Bool) (target : XENVIF_FRONTEND_STATE) :
    Nat → Nat → XENVIF_FRONTEND_STATE → Option FrontendStep
  | fuel, pass, cur =>
    if cur = target then some ⟨cur, false, []⟩
    else
      match fuel with
      | 0 => none
      | fuel + 1 =>
        let s := FrontendSetStateBody (oracle pass) target cur
        if s.Failed then some s
        else
          match FrontendSetStateLoop oracle target fuel (pass + 1) s.State with
          | none => none
          | some r => some ⟨r.State, r.Failed, s.Events ++ r.Events⟩

/-- The status values the modelled functions return. -/
inductive NTSTATUS where
  | STATUS_SUCCESS
  | STATUS_UNSUCCESSFUL
  | STATUS_NO_MEMORY
  | STATUS_BUFFER_OVERFLOW
  | STATUS_INVALID_PARAMETER
  | STATUS_ALLOTTED_SPACE_EXCEEDED
  | STATUS_NOT_SUPPORTED
  deriving DecidableEq, Repr

open NTSTATUS

/-- The macro `NT_SUCCESS`: of the values above only `STATUS_SUCCESS` is
non-negative (`STATUS_BUFFER_OVERFLOW` is `0x80000005`). -/
def NT_SUCCESS (status : NTSTATUS) : Bool :=
  decide (status = STATUS_SUCCESS)

/-- What a call of `FrontendSetState` leaves behind: the value it returns,
`Frontend->State` on return, and what it did on the way. -/
structure FrontendSetStateResult where
  status : NTSTATUS
  State : XENVIF_FRONTEND_STATE
  Events : List FrontendEvent
  deriving DecidableEq, Repr

/-- `FrontendSetState` (frontend.c:1750-1902): runs the loop and returns
`(!Failed) ? STATUS_SUCCESS : STATUS_UNSUCCESSFUL`. -/
def FrontendSetState (fuel : Nat) (oracle : Nat → Bool)
    (cur target : XENVIF_FRONTEND_STATE) : Option FrontendSetStateResult :=
  match FrontendSetStateLoop oracle target fuel 0 cur with
  | none => none
  | some r =>
    some ⟨if r.Failed then STATUS_UNSUCCESSFUL else STATUS_SUCCESS, r.State, r.Events⟩

/-- The assignments to `Frontend->State` among a list of events. -/
def stateAssignments : List FrontendEvent → List (XENVIF_FRONTEND_STATE × XENVIF_FRONTEND_STATE)
  | [] => []
  | FrontendEvent.Assign a b :: es => (a, b) :: stateAssignments es
  | _ :: es => stateAssignments es

/-- Two states are neighbours on the chain UNKNOWN, CLOSED, PREPARED,
CONNECTED, ENABLED. -/
def adjacentStates (a b : XENVIF_FRONTEND_STATE) : Bool :=
  decide (a.toNat + 1 = b.toNat) || decide (b.toNat + 1 = a.toNat)

/-- The state changes `FrontendSetState` makes: neighbours on the chain,
or UNKNOWN to PREPARED (a successful `FrontendPrepare`), or CONNECTED to
CLOSED (`FrontendClose` then `FrontendDisconnect`). -/
def allowedAssignment (a b : XENVIF_FRONTEND_STATE) : Bool :=
  adjacentStates a b ||
  (decide (a = FRONTEND_UNKNOWN) && decide (b = FRONTEND_PREPARED)) ||
  (decide (a = FRONTEND_CONNECTED) && decide (b = FRONTEND_CLOSED))

/-- Number of passes through the loop of `FrontendSetState` that separate
`cur` from `target` when no sub-step fails. -/
def passesToTarget : XENVIF_FRONTEND_STATE → XENVIF_FRONTEND_STATE → Nat
  | FRONTEND_UNKNOWN, FRONTEND_UNKNOWN => 0
  | FRONTEND_UNKNOWN, FRONTEND_CLOSED => 2
  | FRONTEND_UNKNOWN, FRONTEND_PREPARED => 1
  | FRONTEND_UNKNOWN, FRONTEND_CONNECTED => 2
  | FRONTEND_UNKNOWN, FRONTEND_ENABLED => 3
  | FRONTEND_CLOSED, FRONTEND_UNKNOWN => 1
  | FRONTEND_CLOSED, FRONTEND_CLOSED => 0
  | FRONTEND_CLOSED, FRONTEND_PREPARED => 1
  | FRONTEND_CLOSED, FRONTEND_CONNECTED => 2
  | FRONTEND_CLOSED, FRONTEND_ENABLED => 3
  | FRONTEND_PREPARED, FRONTEND_UNKNOWN => 2
  | FRONTEND_PREPARED, FRONTEND_CLOSED => 1
  | FRONTEND_PREPARED, FRONTEND_PREPARED => 0
  | FRONTEND_PREPARED, FRONTEND_CONNECTED => 1
  | FRONTEND_PREPARED, FRONTEND_ENABLED => 2
  | FRONTEND_CONNECTED, FRONTEND_UNKNOWN => 2
  | FRONTEND_CONNECTED, FRONTEND_CLOSED => 1
  | FRONTEND_CONNECTED, FRONTEND_PREPARED => 2
  | FRONTEND_CONNECTED, FRONTEND_CONNECTED => 0
  | FRONTEND_CONNECTED, FRONTEND_ENABLED => 1
  | FRONTEND_ENABLED, FRONTEND_UNKNOWN => 3
  | FRONTEND_ENABLED, FRONTEND_CLOSED => 2
  | FRONTEND_ENABLED, FRONTEND_PREPARED => 3
  | FRONTEND_ENABLED, FRONTEND_CONNECTED => 1
  | FRONTEND_ENABLED, FRONTEND_ENABLED => 0

/-! ### transmitter.c: constants and machine arithmetic -/

/-- The page size of the platform. -/
def PAGE_SIZE : Nat := 4096

/-- Modelled from the spec: `XEN_NETIF_NR_SLOTS_MIN`, the per-packet ring-slot
budget guaranteed by the protocol (the Xen interface header, which is not
part of the sources, defines it as 18). -/
def XEN_NETIF_NR_SLOTS_MIN : Nat := 18

/-- Modelled from the spec: `ETHERNET_MIN`, the smallest frame length (60
bytes before the FCS). -/
def ETHERNET_MIN : Nat := 60

/-- The size of `ETHERNET_TAG` (two 16-bit fields). -/
def sizeof_ETHERNET_TAG : Nat := 4

/-- `#define XENVIF_TRANSMITTER_MAXIMUM_FRAGMENT_ID 0x03FF`. -/
def XENVIF_TRANSMITTER_MAXIMUM_FRAGMENT_ID : Nat := 0x03FF

/-- Modelled from the spec: `XENVIF_TRANSMITTER_RING_SIZE`, that is
`__CONST_RING_SIZE(netif_tx, PAGE_SIZE)`: the number of 12-byte slots that
fit in one 4 KiB shared page after its 64-byte header, rounded down to a
power of two.  It is also the value `FRONT_RING_INIT` stores in
`Front.nr_ents`, which is what `RING_SIZE(&Ring->Front)` reads. -/
def XENVIF_TRANSMITTER_RING_SIZE : Nat := 256

/-- `x + 1` on a `ULONG` / `RING_IDX`. -/
def ULONG_inc (x : Nat) : Nat := (x + 1) % 4294967296

/-- `x + y` on `ULONG`s. -/
def ULONG_add (x y : Nat) : Nat := (x + y) % 4294967296

/-- `x - y` on `ULONG`s. -/
def ULONG_sub (x y : Nat) : Nat := (x + 4294967296 - y % 4294967296) % 4294967296

/-- `x + 1` on a `ULONG_PTR` (64 bits). -/
def ULONG_PTR_inc (x : Nat) : Nat := (x + 1) % 18446744073709551616

/-- `x - 1` on a `ULONG_PTR` (64 bits). -/
def ULONG_PTR_dec (x : Nat) : Nat := (x + 18446744073709551615) % 18446744073709551616

/-- The response codes of the transmit ring (`NETIF_RSP_*` of the Xen
interface header); `status` is a signed 16-bit field. -/
def NETIF_RSP_DROPPED : Int := -2

/-- See `NETIF_RSP_DROPPED`. -/
def NETIF_RSP_ERROR : Int := -1

/-- See `NETIF_RSP_DROPPED`. -/
def NETIF_RSP_OKAY : Int := 0

/-- See `NETIF_RSP_DROPPED`. -/
def NETIF_RSP_NULL : Int := 1

/-- Request flag `NETTXF_csum_blank`. -/
def NETTXF_csum_blank : Nat := 1

/-- Request flag `NETTXF_data_validated`. -/
def NETTXF_data_validated : Nat := 2

/-- Request flag `NETTXF_more_data`. -/
def NETTXF_more_data : Nat := 4

/-- Request flag `NETTXF_extra_info`. -/
def NETTXF_extra_info : Nat := 8

/-! ### transmitter.c: data -/

/-- A memory descriptor: `ByteOffset` into its first page, `ByteCount`, and
its page-frame array (`MmGetMdlPfnArray`).  A chain of descriptors
(`Mdl->Next`) is a list. -/
structure MDL where
  ByteOffset : Nat
  ByteCount : Nat
  PfnArray : List Nat
  deriving DecidableEq, Repr

/-- `XENVIF_PACKET_PAYLOAD`: the not yet consumed part of a packet. -/
structure XENVIF_PACKET_PAYLOAD where
  Mdl : List MDL
  Offset : Nat
  Length : Nat
  deriving DecidableEq, Repr

/-- One `{Offset, Length}` pair of `XENVIF_PACKET_INFO`. -/
structure XENVIF_PACKET_HEADER where
  Offset : Nat
  Length : Nat
  deriving DecidableEq, Repr

/-- `XENVIF_PACKET_INFO`, the result of the packet parser. -/
structure XENVIF_PACKET_INFO where
  Length : Nat
  IsAFragment : Bool
  EthernetHeader : XENVIF_PACKET_HEADER
  IpHeader : XENVIF_PACKET_HEADER
  IpOptions : XENVIF_PACKET_HEADER
  TcpHeader : XENVIF_PACKET_HEADER
  TcpOptions : XENVIF_PACKET_HEADER
  UdpHeader : XENVIF_PACKET_HEADER
  deriving DecidableEq, Repr

/-- `XENVIF_TRANSMITTER_PACKET_SEND_INFO`: the offload options, the segment
size and the tag of a packet. -/
structure XENVIF_TRANSMITTER_PACKET_SEND_INFO where
  OffloadTagManipulation : Bool
  OffloadIpVersion4LargePacket : Bool
  OffloadIpVersion4HeaderChecksum : Bool
  OffloadIpVersion4TcpChecksum : Bool
  OffloadIpVersion4UdpChecksum : Bool
  OffloadIpVersion6LargePacket : Bool
  OffloadIpVersion6TcpChecksum : Bool
  OffloadIpVersion6UdpChecksum : Bool
  MaximumSegmentSize : Nat
  TagControlInformation : Nat
  deriving DecidableEq, Repr

/-- Completion status of a packet; `PACKET_STATUS_ZERO` is the all-zero
value of a completion area that has not been written. -/
inductive XENVIF_TRANSMITTER_PACKET_STATUS where
  | PACKET_STATUS_ZERO
  | XENVIF_TRANSMITTER_PACKET_PENDING
  | XENVIF_TRANSMITTER_PACKET_OK
  | XENVIF_TRANSMITTER_PACKET_DROPPED
  | XENVIF_TRANSMITTER_PACKET_ERROR
  deriving DecidableEq, Repr

open XENVIF_TRANSMITTER_PACKET_STATUS

/-- `ETHERNET_ADDRESS_TYPE`. -/
inductive ETHERNET_ADDRESS_TYPE where
  | ETHERNET_ADDRESS_TYPE_INVALID
  | ETHERNET_ADDRESS_UNICAST
  | ETHERNET_ADDRESS_MULTICAST
  | ETHERNET_ADDRESS_BROADCAST
  deriving DecidableEq, Repr

open ETHERNET_ADDRESS_TYPE

/-- `XENVIF_TRANSMITTER_PACKET_COMPLETION_INFO`. -/
structure XENVIF_TRANSMITTER_PACKET_COMPLETION_INFO where
  Type_ : ETHERNET_ADDRESS_TYPE
  Status : XENVIF_TRANSMITTER_PACKET_STATUS
  PacketLength : Nat
  PayloadLength : Nat
  deriving DecidableEq, Repr

/-- `XENVIF_TRANSMITTER_PACKET`.  `Value` counts the fragments of the packet
that are outstanding.  The last two fields stand for the bytes of the packet,
which are not modelled: `Parse` is what the packet parser finds in them
(`none` when it rejects the packet) and `DestinationType` is the type of the
destination address in the Ethernet header. -/
structure XENVIF_TRANSMITTER_PACKET where
  Value : Nat
  Send : XENVIF_TRANSMITTER_PACKET_SEND_INFO
  Mdl : List MDL
  Offset : Nat
  Length : Nat
  Completion : XENVIF_TRANSMITTER_PACKET_COMPLETION_INFO
  Parse : Option XENVIF_PACKET_INFO
  DestinationType : ETHERNET_ADDRESS_TYPE
  deriving DecidableEq, Repr

/-- `XENVIF_TRANSMITTER_BUFFER`: a bounce page.  `Pfn` is the page frame
of `Buffer->Mdl`, `ByteCount` is `Buffer->Mdl->ByteCount`; `Context` is the
owning packet, if any. -/
structure XENVIF_TRANSMITTER_BUFFER where
  Pfn : Nat
  ByteCount : Nat
  Context : Option Nat
  Reference : Nat
  deriving DecidableEq, Repr

/-- `XENVIF_TRANSMITTER_MULTICAST_CONTROL_TYPE`. -/
inductive XENVIF_TRANSMITTER_MULTICAST_CONTROL_TYPE where
  | XENVIF_TRANSMITTER_MULTICAST_CONTROL_TYPE_INVALID
  | XENVIF_TRANSMITTER_MULTICAST_CONTROL_TYPE_ADD
  | XENVIF_TRANSMITTER_MULTICAST_CONTROL_TYPE_REMOVE
  deriving DecidableEq, Repr

open XENVIF_TRANSMITTER_MULTICAST_CONTROL_TYPE

/-- `XENVIF_TRANSMITTER_MULTICAST_CONTROL`; the address is its six bytes. -/
structure XENVIF_TRANSMITTER_MULTICAST_CONTROL where
  Type_ : XENVIF_TRANSMITTER_MULTICAST_CONTROL_TYPE
  Address : List Nat
  Reference : Nat
  deriving DecidableEq, Repr

/-- The fields `Type` and `Context` of a fragment taken together: the type
says what the context pointer points to.  A buffer or control block is owned
by exactly one fragment and is stored with it; a packet is a pointer. -/
inductive FragmentContext where
  | INVALID
  | PACKET (Packet : Nat)
  | BUFFER (Buffer : XENVIF_TRANSMITTER_BUFFER)
  | MULTICAST_CONTROL (Control : XENVIF_TRANSMITTER_MULTICAST_CONTROL)
  deriving DecidableEq, Repr

/-- `XENVIF_TRANSMITTER_FRAGMENT`.  `Entry` is the grant-table entry (the
page frame the backend may read), `none` for `NULL`. -/
structure XENVIF_TRANSMITTER_FRAGMENT where
  Id : Nat
  Context : FragmentContext
  Entry : Option Nat
  Offset : Nat
  Length : Nat
  Extra : Bool
  deriving DecidableEq, Repr

/-- `Fragment->Type == XENVIF_TRANSMITTER_FRAGMENT_TYPE_MULTICAST_CONTROL`. -/
def XENVIF_TRANSMITTER_FRAGMENT.isMulticastControl (f : XENVIF_TRANSMITTER_FRAGMENT) : Bool :=
  match f.Context with
  | FragmentContext.MULTICAST_CONTROL _ => true
  | _ => false

/-- `XENVIF_TRANSMITTER_STATE`: the packet being fragmented.  `StartVa` tells
whether the pointer to the header bytes is set. -/
structure XENVIF_TRANSMITTER_STATE where
  Packet : Option Nat
  Send : XENVIF_TRANSMITTER_PACKET_SEND_INFO
  StartVa : Bool
  Info : XENVIF_PACKET_INFO
  Payload : XENVIF_PACKET_PAYLOAD
  Count : Nat
  List : List XENVIF_TRANSMITTER_FRAGMENT
  deriving DecidableEq, Repr

/-- `XENVIF_TRANSMITTER_REQUEST`: a queued control action with its
parameters (the type and the union together). -/
inductive XENVIF_TRANSMITTER_REQUEST where
  | INVALID
  | ARP (Address : List Nat)
  | NEIGHBOUR_ADVERTISEMENT (Address : List Nat)
  | MULTICAST_CONTROL (Address : List Nat) (Add : Bool)
  deriving DecidableEq, Repr

/-- `netif_tx_request_t`. -/
structure netif_tx_request_t where
  gref : Nat
  offset : Nat
  flags : Nat
  id : Nat
  size : Nat
  deriving DecidableEq, Repr

/-- The part of `struct netif_extra_info` the transmitter writes. -/
inductive netif_extra_info where
  | GSO (gso_type : Nat) (size : Nat)
  | MCAST_ADD (addr : List Nat)
  | MCAST_DEL (addr : List Nat)
  deriving DecidableEq, Repr

/-- What the frontend wrote into a slot of the shared ring. -/
inductive RequestSlot where
  | empty
  | request (req : netif_tx_request_t)
  | extra (info : netif_extra_info)
  deriving DecidableEq, Repr

/-- `netif_tx_response_t`. -/
structure netif_tx_response_t where
  id : Nat
  status : Int
  deriving DecidableEq, Repr

/-- `netif_tx_front_ring_t`: the private indices. -/
structure netif_tx_front_ring_t where
  req_prod_pvt : Nat
  rsp_cons : Nat
  deriving DecidableEq, Repr

/-- `netif_tx_sring_t`: the shared page.  A slot of the ring is a union of a
request and a response; the two views are kept as two arrays indexed by slot
number (`Req` is what the frontend wrote, `Rsp` is what a response read from
the slot yields). -/
structure netif_tx_sring_t where
  req_prod : Nat
  req_event : Nat
  rsp_prod : Nat
  rsp_event : Nat
  Req : Nat → RequestSlot
  Rsp : Nat → netif_tx_response_t

/-- The transmitter statistics kept by the frontend
(`FrontendIncrementStatistic` adds to them). -/
structure TransmitterStatistics where
  PacketsDropped : Nat
  BackendErrors : Nat
  FrontendErrors : Nat
  UnicastPackets : Nat
  UnicastOctets : Nat
  MulticastPackets : Nat
  MulticastOctets : Nat
  BroadcastPackets : Nat
  BroadcastOctets : Nat
  deriving DecidableEq, Repr

/-- The word `Ring->Lock`: the lock bit and the packets pushed by
`__TransmitterRingQueuePackets`, most recent first (the order in which the
`Blink` chain is walked). -/
structure LockWord where
  LockBit : Bool
  Stash : List Nat
  deriving DecidableEq, Repr

/-- `XENVIF_TRANSMITTER_RING` together with what it reaches through
pointers.

* `Packets` is the memory holding the packets; a packet pointer is an index
  into it.
* `AlwaysCopy` is `Transmitter->AlwaysCopy`, `MaximumFrameSize` what
  `MacQueryMaximumFrameSize` reports, `Statistics` the frontend statistics.
* `Oracle` and `Tick` decide the calls that can fail for reasons outside the
  ring: call number `Tick` succeeds iff `Oracle Tick`.
* `FreeIds` are the fragment ids not in use, `BuffersHeld` and `GrantsHeld`
  count the buffers taken from the buffer cache and the grant entries
  permitted and not yet returned or revoked.
* `Returned` are the packets handed back to the caller so far. -/
structure XENVIF_TRANSMITTER_RING where
  Front : netif_tx_front_ring_t
  Shared : netif_tx_sring_t
  Connected : Bool
  Enabled : Bool
  Stopped : Bool
  Lock : LockWord
  PacketQueue : List Nat
  RequestQueue : List XENVIF_TRANSMITTER_REQUEST
  State : XENVIF_TRANSMITTER_STATE
  PacketsQueued : Nat
  PacketsGranted : Nat
  PacketsCopied : Nat
  PacketsFaked : Nat
  PacketsUnprepared : Nat
  PacketsPrepared : Nat
  Pending : Nat → Option XENVIF_TRANSMITTER_FRAGMENT
  RequestsPosted : Nat
  RequestsPushed : Nat
  ResponsesProcessed : Nat
  PacketsSent : Nat
  PacketComplete : List Nat
  PacketsCompleted : Nat
  Packets : Nat → XENVIF_TRANSMITTER_PACKET
  AlwaysCopy : Nat
  MaximumFrameSize : Nat
  Statistics : TransmitterStatistics
  Oracle : Nat → Bool
  Tick : Nat
  FreeIds : List Nat
  BuffersHeld : Nat
  GrantsHeld : Nat
  Returned : List Nat
  Notifications : Nat

/-- The all-zero `XENVIF_PACKET_INFO`. -/
def XENVIF_PACKET_INFO.zero : XENVIF_PACKET_INFO :=
  { Length := 0, IsAFragment := false, EthernetHeader := ⟨0, 0⟩, IpHeader := ⟨0, 0⟩,
    IpOptions := ⟨0, 0⟩, TcpHeader := ⟨0, 0⟩, TcpOptions := ⟨0, 0⟩, UdpHeader := ⟨0, 0⟩ }

/-- The all-zero `XENVIF_TRANSMITTER_PACKET_SEND_INFO`. -/
def XENVIF_TRANSMITTER_PACKET_SEND_INFO.zero : XENVIF_TRANSMITTER_PACKET_SEND_INFO :=
  { OffloadTagManipulation := false, OffloadIpVersion4LargePacket := false,
    OffloadIpVersion4HeaderChecksum := false, OffloadIpVersion4TcpChecksum := false,
    OffloadIpVersion4UdpChecksum := false, OffloadIpVersion6LargePacket := false,
    OffloadIpVersion6TcpChecksum := false, OffloadIpVersion6UdpChecksum := false,
    MaximumSegmentSize := 0, TagControlInformation := 0 }

/-- The all-zero `XENVIF_PACKET_PAYLOAD`. -/
def XENVIF_PACKET_PAYLOAD.zero : XENVIF_PACKET_PAYLOAD :=
  { Mdl := [], Offset := 0, Length := 0 }

/-- The all-zero `XENVIF_TRANSMITTER_STATE`. -/
def XENVIF_TRANSMITTER_STATE.zero : XENVIF_TRANSMITTER_STATE :=
  { Packet := none, Send := XENVIF_TRANSMITTER_PACKET_SEND_INFO.zero, StartVa := false,
    Info := XENVIF_PACKET_INFO.zero, Payload := XENVIF_PACKET_PAYLOAD.zero, Count := 0,
    List := [] }

/-- Store `v` at index `i` of an array modelled as a function. -/
def setAt {α : Type} (f : Nat → α) (i : Nat) (v : α) : Nat → α :=
  fun j => if j = i then v else f j

/-- Change the packet at pointer `p`. -/
def XENVIF_TRANSMITTER_RING.updatePacket (Ring : XENVIF_TRANSMITTER_RING) (p : Nat)
    (g : XENVIF_TRANSMITTER_PACKET → XENVIF_TRANSMITTER_PACKET) : XENVIF_TRANSMITTER_RING :=
  { Ring with Packets := setAt Ring.Packets p (g (Ring.Packets p)) }

/-! ### transmitter.c: caches and grant table

The object caches, the range set of fragment ids and the grant table are
used through interfaces whose code is not part of the sources.  A `Get`
or `PermitForeignAccess` consumes one oracle answer and fails when the
answer is `false`. -/

/-- `__TransmitterGetBuffer` (transmitter.c:361): a fresh buffer has
`Mdl->ByteCount == 0`, no context and no reference; `NULL` is `none`.  The
number of the call stands for the page frame of the buffer. -/
def __TransmitterGetBuffer (Ring : XENVIF_TRANSMITTER_RING) :
    Option XENVIF_TRANSMITTER_BUFFER × XENVIF_TRANSMITTER_RING :=
  if Ring.Oracle Ring.Tick then
    (some { Pfn := Ring.Tick, ByteCount := 0, Context := none, Reference := 0 },
     { Ring with Tick := Ring.Tick + 1, BuffersHeld := Ring.BuffersHeld + 1 })
  else
    (none, { Ring with Tick := Ring.Tick + 1 })

/-- `__TransmitterPutBuffer` (transmitter.c:383). -/
def __TransmitterPutBuffer (Ring : XENVIF_TRANSMITTER_RING)
    (_Buffer : XENVIF_TRANSMITTER_BUFFER) : XENVIF_TRANSMITTER_RING :=
  { Ring with BuffersHeld := Ring.BuffersHeld - 1 }

/-- Modelled from the spec: the fragment pool behind `__TransmitterGetFragment`
(transmitter.c:535; the cache and the range set are not part of the sources).
A fragment carries an id drawn from the range set when it is constructed and
keeps it until it is destroyed, so a fragment handed out has an id that no
other fragment in use has: the model hands out the first id of `FreeIds`.
All other fields of a fresh fragment are zero. -/
def __TransmitterGetFragment (Ring : XENVIF_TRANSMITTER_RING) :
    Option XENVIF_TRANSMITTER_FRAGMENT × XENVIF_TRANSMITTER_RING :=
  if Ring.Oracle Ring.Tick then
    match Ring.FreeIds with
    | [] => (none, { Ring with Tick := Ring.Tick + 1 })
    | Id :: rest =>
      (some { Id := Id, Context := FragmentContext.INVALID, Entry := none, Offset := 0,
              Length := 0, Extra := false },
       { Ring with Tick := Ring.Tick + 1, FreeIds := rest })
  else
    (none, { Ring with Tick := Ring.Tick + 1 })

/-- `__TransmitterPutFragment` (transmitter.c:552): the fragment, and with it
its id, is free again. -/
def __TransmitterPutFragment (Ring : XENVIF_TRANSMITTER_RING)
    (Fragment : XENVIF_TRANSMITTER_FRAGMENT) : XENVIF_TRANSMITTER_RING :=
  { Ring with FreeIds := Fragment.Id :: Ring.FreeIds }

/-- `XENBUS_GNTTAB(PermitForeignAccess, ...)` for page frame `Pfn`: the new
entry, or `none` on failure. -/
def PermitForeignAccess (Ring : XENVIF_TRANSMITTER_RING) (Pfn : Nat) :
    Option Nat × XENVIF_TRANSMITTER_RING :=
  if Ring.Oracle Ring.Tick then
    (some Pfn, { Ring with Tick := Ring.Tick + 1, GrantsHeld := Ring.GrantsHeld + 1 })
  else
    (none, { Ring with Tick := Ring.Tick + 1 })

/-- `XENBUS_GNTTAB(RevokeForeignAccess, ...)`; nothing is held by a `NULL`
entry. -/
def RevokeForeignAccess (Ring : XENVIF_TRANSMITTER_RING) (Entry : Option Nat) :
    XENVIF_TRANSMITTER_RING :=
  match Entry with
  | none => Ring
  | some _ => { Ring with GrantsHeld := Ring.GrantsHeld - 1 }

/-- `Packet->Value++`. -/
def incValue (Ring : XENVIF_TRANSMITTER_RING) (Packet : Nat) : XENVIF_TRANSMITTER_RING :=
  Ring.updatePacket Packet (fun P => { P with Value := ULONG_PTR_inc P.Value })

/-- `Packet->Value--`. -/
def decValue (Ring : XENVIF_TRANSMITTER_RING) (Packet : Nat) : XENVIF_TRANSMITTER_RING :=
  Ring.updatePacket Packet (fun P => { P with Value := ULONG_PTR_dec P.Value })

/-- `InsertTailList(&State->List, &Fragment->ListEntry); State->Count++`. -/
def insertTailFragment (Ring : XENVIF_TRANSMITTER_RING)
    (Fragment : XENVIF_TRANSMITTER_FRAGMENT) : XENVIF_TRANSMITTER_RING :=
  { Ring with State := { Ring.State with List := Ring.State.List ++ [Fragment],
                                         Count := Ring.State.Count + 1 } }

/-! ### transmitter.c: preparing a packet -/

/-- The `while (Length != 0)` loop of `TransmitterRingPullup`
(transmitter.c:744-771) on the chain `Mdl`, returning the final `Mdl` and
`Offset`.  A pass either ends the loop or moves to `Mdl->Next`.  The source
asserts `Mdl != NULL`; on a chain that ends early the model ends the walk. -/
def TransmitterRingPullupWalk : List MDL → Nat → Nat → List MDL × Nat
  | [], Offset, _ => ([], Offset)
  | Mdl :: Next, Offset, Length =>
    if Length = 0 then (Mdl :: Next, Offset)
    else
      let MdlByteCount := ULONG_sub Mdl.ByteCount Offset
      let CopyLength := min MdlByteCount Length
      if MdlByteCount - CopyLength = 0 then
        TransmitterRingPullupWalk Next 0 (Length - CopyLength)
      else
        (Mdl :: Next, ULONG_add Offset CopyLength)

/-- `TransmitterRingPullup` (transmitter.c:723): take `Length` bytes off the
front of the payload; `FALSE` (and an unchanged payload) when the payload is
shorter. -/
def TransmitterRingPullup (Payload : XENVIF_PACKET_PAYLOAD) (Length : Nat) :
    Bool × XENVIF_PACKET_PAYLOAD :=
  if Payload.Length < Length then (false, Payload)
  else
    let w := TransmitterRingPullupWalk Payload.Mdl Payload.Offset Length
    (true, { Mdl := w.1, Offset := w.2, Length := Payload.Length - Length })

/-- Modelled from the spec: `ParsePacket` (parse.c is not part of the
sources) copies and parses the header region of the packet: on success it
has pulled the `Info.Length` header bytes up from the payload.  `Parse` is
what the parser finds in the bytes of the packet. -/
def ParsePacket (Parse : Option XENVIF_PACKET_INFO) (Payload : XENVIF_PACKET_PAYLOAD) :
    Option (XENVIF_PACKET_INFO × XENVIF_PACKET_PAYLOAD) :=
  match Parse with
  | none => none
  | some Info =>
    match TransmitterRingPullup Payload Info.Length with
    | (true, Payload) => some (Info, Payload)
    | (false, _) => none

/-- The unwinding loop at `fail1` of `__TransmitterRingCopyPayload`
(transmitter.c:894-933): `while (Packet->Value != 1)` take the tail fragment
off `State->List`, revoke its grant and give fragment and buffer back.
`fuel` bounds the passes; the callers pass the length of the list (the source
asserts that the list is not empty when it takes an entry). -/
def CopyPayloadUnwind (Packet : Nat) :
    Nat → XENVIF_TRANSMITTER_RING → XENVIF_TRANSMITTER_RING
  | 0, Ring => Ring
  | fuel + 1, Ring =>
    if (Ring.Packets Packet).Value = 1 then Ring
    else
      match Ring.State.List.getLast? with
      | none => Ring
      | some Fragment =>
        let Ring := { Ring with State := { Ring.State with Count := Ring.State.Count - 1,
                                                           List := Ring.State.List.dropLast } }
        let Ring := RevokeForeignAccess Ring Fragment.Entry
        let Ring := __TransmitterPutFragment Ring Fragment
        let Ring := decValue Ring Packet
        let Ring :=
          match Fragment.Context with
          | FragmentContext.BUFFER Buffer => __TransmitterPutBuffer Ring Buffer
          | _ => Ring
        CopyPayloadUnwind Packet fuel Ring

/-- The `while (Payload.Length != 0)` loop of `__TransmitterRingCopyPayload`
(transmitter.c:808-863) with the exits `fail1`, `fail2`, `fail3` up to (not
including) the unwinding loop.  `Payload` is the local copy of
`State->Payload`.  Each pass takes `min(Payload.Length, PAGE_SIZE)` bytes.
Returns the status on failure. -/
def CopyPayloadLoop (Packet : Nat) :
    Nat → XENVIF_PACKET_PAYLOAD → XENVIF_TRANSMITTER_RING →
      Option NTSTATUS × XENVIF_TRANSMITTER_RING
  | 0, _, Ring => (none, Ring)
  | fuel + 1, Payload, Ring =>
    if Payload.Length = 0 then (none, Ring)
    else
      match __TransmitterGetBuffer Ring with
      | (none, Ring) => (some STATUS_NO_MEMORY, Ring)
      | (some Buffer, Ring) =>
        let Buffer := { Buffer with Context := some Packet }
        let Ring := incValue Ring Packet
        let Length := min Payload.Length PAGE_SIZE
        let Payload := (TransmitterRingPullup Payload Length).2
        let Buffer := { Buffer with ByteCount := Length }
        match __TransmitterGetFragment Ring with
        | (none, Ring) =>
          let Ring := decValue Ring Packet
          (some STATUS_NO_MEMORY, __TransmitterPutBuffer Ring { Buffer with Context := none })
        | (some Fragment, Ring) =>
          let Buffer := { Buffer with Reference := Buffer.Reference + 1 }
          match PermitForeignAccess Ring Buffer.Pfn with
          | (none, Ring) =>
            let Buffer := { Buffer with Reference := Buffer.Reference - 1 }
            let Ring := __TransmitterPutFragment Ring Fragment
            let Ring := decValue Ring Packet
            (some STATUS_UNSUCCESSFUL,
             __TransmitterPutBuffer Ring { Buffer with Context := none })
          | (some Entry, Ring) =>
            let Fragment := { Fragment with Context := FragmentContext.BUFFER Buffer,
                                            Entry := some Entry, Offset := 0,
                                            Length := Buffer.ByteCount }
            CopyPayloadLoop Packet fuel Payload (insertTailFragment Ring Fragment)

/-- `__TransmitterRingCopyPayload` (transmitter.c:784): bounce-copy the
payload page by page.  On success `PacketsCopied++`; on failure the fragments
added are taken off again. -/
def __TransmitterRingCopyPayload (Ring : XENVIF_TRANSMITTER_RING) :
    NTSTATUS × XENVIF_TRANSMITTER_RING :=
  match Ring.State.Packet with
  | none => (STATUS_UNSUCCESSFUL, Ring)
  | some Packet =>
    match CopyPayloadLoop Packet Ring.State.Payload.Length Ring.State.Payload Ring with
    | (none, Ring) =>
      (STATUS_SUCCESS, { Ring with PacketsCopied := ULONG_inc Ring.PacketsCopied })
    | (some status, Ring) =>
      (status, CopyPayloadUnwind Packet Ring.State.List.length Ring)

/-- The unwinding loop at `fail1` of `__TransmitterRingGrantPayload`
(transmitter.c:1059-1089). -/
def GrantPayloadUnwind (Packet : Nat) :
    Nat → XENVIF_TRANSMITTER_RING → XENVIF_TRANSMITTER_RING
  | 0, Ring => Ring
  | fuel + 1, Ring =>
    if (Ring.Packets Packet).Value = 1 then Ring
    else
      match Ring.State.List.getLast? with
      | none => Ring
      | some Fragment =>
        let Ring := { Ring with State := { Ring.State with Count := Ring.State.Count - 1,
                                                           List := Ring.State.List.dropLast } }
        let Ring := RevokeForeignAccess Ring Fragment.Entry
        let Ring := decValue Ring Packet
        let Ring := __TransmitterPutFragment Ring Fragment
        GrantPayloadUnwind Packet fuel Ring

/-- The inner loop `while (MdlLength != 0)` of `__TransmitterRingGrantPayload`
(transmitter.c:978-1029): one fragment per page slice of the descriptor `Mdl`.
A pass consumes at least one byte of `MdlLength`, which bounds the passes.
Returns the remaining `Length`, or the status of the failing exit (`fail1`,
`fail2`, `fail3`, up to the unwinding loop). -/
def GrantPayloadPages (Packet : Nat) (Mdl : MDL) :
    Nat → Nat → Nat → Nat → XENVIF_TRANSMITTER_RING →
      Except NTSTATUS Nat × XENVIF_TRANSMITTER_RING
  | 0, _, _, Length, Ring => (Except.ok Length, Ring)
  | fuel + 1, MdlOffset, MdlLength, Length, Ring =>
    if MdlLength = 0 then (Except.ok Length, Ring)
    else
      match __TransmitterGetFragment Ring with
      | (none, Ring) => (Except.error STATUS_NO_MEMORY, Ring)
      | (some Fragment, Ring) =>
        let Ring := incValue Ring Packet
        let Pfn := Mdl.PfnArray.getD (MdlOffset / PAGE_SIZE) 0
        let PageOffset := MdlOffset % PAGE_SIZE
        let PageLength := min MdlLength (PAGE_SIZE - PageOffset)
        match PermitForeignAccess Ring Pfn with
        | (none, Ring) =>
          let Ring := decValue Ring Packet
          (Except.error STATUS_UNSUCCESSFUL, __TransmitterPutFragment Ring Fragment)
        | (some Entry, Ring) =>
          let Fragment := { Fragment with Context := FragmentContext.PACKET Packet,
                                          Entry := some Entry, Offset := PageOffset,
                                          Length := PageLength }
          let Ring := insertTailFragment Ring Fragment
          if Ring.State.Count > XEN_NETIF_NR_SLOTS_MIN then
            (Except.error STATUS_BUFFER_OVERFLOW, Ring)
          else
            GrantPayloadPages Packet Mdl fuel (ULONG_add MdlOffset PageLength)
              (MdlLength - PageLength) (Length - PageLength) Ring

/-- The outer loop `while (Length != 0)` of `__TransmitterRingGrantPayload`
(transmitter.c:968-1033) over the descriptor chain.  The source follows
`Mdl->Next` without a check; on a chain that ends early the model ends the
walk. -/
def GrantPayloadLoop (Packet : Nat) :
    List MDL → Nat → Nat → XENVIF_TRANSMITTER_RING →
      Option NTSTATUS × XENVIF_TRANSMITTER_RING
  | [], _, _, Ring => (none, Ring)
  | Mdl :: Next, Offset, Length, Ring =>
    if Length = 0 then (none, Ring)
    else
      let MdlOffset := ULONG_add Mdl.ByteOffset Offset
      let MdlByteCount := ULONG_sub Mdl.ByteCount Offset
      let MdlLength := min MdlByteCount Length
      match GrantPayloadPages Packet Mdl MdlLength MdlOffset MdlLength Length Ring with
      | (Except.error status, Ring) => (some status, Ring)
      | (Except.ok Length, Ring) => GrantPayloadLoop Packet Next 0 Length Ring

/-- `__TransmitterRingGrantPayload` (transmitter.c:938): grant the payload
pages in place.  On success `PacketsGranted++`; when the fragment count
exceeds `XEN_NETIF_NR_SLOTS_MIN` it fails with `STATUS_BUFFER_OVERFLOW`; on
every failure the fragments added are taken off again. -/
def __TransmitterRingGrantPayload (Ring : XENVIF_TRANSMITTER_RING) :
    NTSTATUS × XENVIF_TRANSMITTER_RING :=
  match Ring.State.Packet with
  | none => (STATUS_UNSUCCESSFUL, Ring)
  | some Packet =>
    match GrantPayloadLoop Packet Ring.State.Payload.Mdl Ring.State.Payload.Offset
        Ring.State.Payload.Length Ring with
    | (none, Ring) =>
      (STATUS_SUCCESS, { Ring with PacketsGranted := ULONG_inc Ring.PacketsGranted })
    | (some status, Ring) =>
      (status, GrantPayloadUnwind Packet Ring.State.List.length Ring)

/-- The fix-up of the packet information after a tag was inserted
(transmitter.c:1198-1215): the Ethernet header and the whole header grow by
`sizeof (ETHERNET_TAG)` and every later header that is present moves. -/
def tagFixup (Info : XENVIF_PACKET_INFO) : XENVIF_PACKET_INFO :=
  let move := fun (h : XENVIF_PACKET_HEADER) =>
    if h.Length ≠ 0 then { h with Offset := ULONG_add h.Offset sizeof_ETHERNET_TAG } else h
  { Info with
    EthernetHeader := { Info.EthernetHeader with
      Length := ULONG_add Info.EthernetHeader.Length sizeof_ETHERNET_TAG }
    Length := ULONG_add Info.Length sizeof_ETHERNET_TAG
    IpHeader := move Info.IpHeader
    IpOptions := move Info.IpOptions
    UdpHeader := move Info.UdpHeader
    TcpHeader := move Info.TcpHeader
    TcpOptions := move Info.TcpOptions }

/-- The large-packet fix-up of the send information
(transmitter.c:1218-1292): checksum calculation is offloaded for large
packets, and a packet whose payload is a single segment is no longer large. -/
def largePacketFixup (Send : XENVIF_TRANSMITTER_PACKET_SEND_INFO) (PayloadLength : Nat) :
    XENVIF_TRANSMITTER_PACKET_SEND_INFO :=
  let Send :=
    if Send.OffloadIpVersion4LargePacket then
      let Send := { Send with OffloadIpVersion4HeaderChecksum := true,
                              OffloadIpVersion4TcpChecksum := true }
      if Send.MaximumSegmentSize = PayloadLength then
        { Send with OffloadIpVersion4LargePacket := false }
      else Send
    else Send
  if Send.OffloadIpVersion6LargePacket then
    let Send := { Send with OffloadIpVersion6TcpChecksum := true }
    if Send.MaximumSegmentSize = PayloadLength then
      { Send with OffloadIpVersion6LargePacket := false }
    else Send
  else Send

/-- The exits `fail3` and `fail2` of `__TransmitterRingPrepareHeader`
(transmitter.c:1349-1360): the buffer goes back to its cache with no bytes and
no context, and `Packet->Value--`. -/
def PrepareHeaderFail3 (Ring : XENVIF_TRANSMITTER_RING) (Packet : Nat)
    (Buffer : XENVIF_TRANSMITTER_BUFFER) : XENVIF_TRANSMITTER_RING :=
  let Ring := decValue Ring Packet
  __TransmitterPutBuffer Ring { Buffer with ByteCount := 0, Context := none }

/-- The exit `fail4` of `__TransmitterRingPrepareHeader`
(transmitter.c:1338-1347): the fragment goes back to its cache, then
`fail3`. -/
def PrepareHeaderFail4 (Ring : XENVIF_TRANSMITTER_RING) (Packet : Nat)
    (Buffer : XENVIF_TRANSMITTER_BUFFER) (Fragment : XENVIF_TRANSMITTER_FRAGMENT) :
    XENVIF_TRANSMITTER_RING :=
  let Buffer := { Buffer with Reference := Buffer.Reference - 1 }
  let Ring := __TransmitterPutFragment Ring Fragment
  PrepareHeaderFail3 Ring Packet Buffer

/-- The second half of `__TransmitterRingPrepareHeader`
(transmitter.c:1171-1317), entered with the buffer `Buffer` holding the
parsed header, the fragment `Fragment` and the grant entry `Entry` of the
buffer page: the fragment's length is the length of the whole packet; insert
the tag, fix up large packets, and reject (exit `fail5`) a packet that is not
large and exceeds the maximum frame size. -/
def PrepareHeaderFinish (Ring : XENVIF_TRANSMITTER_RING) (Packet : Nat)
    (Buffer : XENVIF_TRANSMITTER_BUFFER) (Fragment : XENVIF_TRANSMITTER_FRAGMENT)
    (Entry : Nat) : NTSTATUS × XENVIF_TRANSMITTER_RING :=
  let Length := ULONG_add Buffer.ByteCount Ring.State.Payload.Length
  let Tagged := Ring.State.Send.OffloadTagManipulation
  let Buffer :=
    if Tagged then
      { Buffer with ByteCount := ULONG_add Buffer.ByteCount sizeof_ETHERNET_TAG }
    else Buffer
  let Length := if Tagged then ULONG_add Length sizeof_ETHERNET_TAG else Length
  let Info := if Tagged then tagFixup Ring.State.Info else Ring.State.Info
  let Send := largePacketFixup Ring.State.Send Ring.State.Payload.Length
  let Ring := { Ring with State := { Ring.State with Info := Info, Send := Send } }
  if !Send.OffloadIpVersion4LargePacket && !Send.OffloadIpVersion6LargePacket &&
      decide (Length > Ring.MaximumFrameSize) then
    let Ring := RevokeForeignAccess Ring (some Entry)
    (STATUS_INVALID_PARAMETER, PrepareHeaderFail4 Ring Packet Buffer Fragment)
  else
    let Fragment := { Fragment with Context := FragmentContext.BUFFER Buffer,
                                    Entry := some Entry, Offset := 0,
                                    Length := Length }
    (STATUS_SUCCESS, insertTailFragment Ring Fragment)

/-- `__TransmitterRingPrepareHeader` (transmitter.c:1094): take a buffer,
parse the header into it, take a fragment and grant the buffer page, then
finish as `PrepareHeaderFinish` does.  The exits `fail1` to `fail5` give back
what was taken.  The bytes written into the buffer are not modelled.  The
source asserts that `State->Packet` is set. -/
def __TransmitterRingPrepareHeader (Ring : XENVIF_TRANSMITTER_RING) :
    NTSTATUS × XENVIF_TRANSMITTER_RING :=
  match Ring.State.Packet with
  | none => (STATUS_UNSUCCESSFUL, Ring)
  | some Packet =>
    match __TransmitterGetBuffer Ring with
    | (none, Ring) => (STATUS_NO_MEMORY, Ring)
    | (some Buffer, Ring) =>
      let Buffer := { Buffer with Context := some Packet }
      let Ring := incValue Ring Packet
      match ParsePacket (Ring.Packets Packet).Parse Ring.State.Payload with
      | none =>
        let Ring := decValue Ring Packet
        (STATUS_UNSUCCESSFUL, __TransmitterPutBuffer Ring { Buffer with Context := none })
      | some (Info, Payload) =>
        let Ring := { Ring with State := { Ring.State with StartVa := true, Info := Info,
                                                           Payload := Payload } }
        let Buffer := { Buffer with ByteCount := Info.Length }
        match __TransmitterGetFragment Ring with
        | (none, Ring) => (STATUS_NO_MEMORY, PrepareHeaderFail3 Ring Packet Buffer)
        | (some Fragment, Ring) =>
          let Buffer := { Buffer with Reference := Buffer.Reference + 1 }
          match PermitForeignAccess Ring Buffer.Pfn with
          | (none, Ring) =>
            (STATUS_UNSUCCESSFUL, PrepareHeaderFail4 Ring Packet Buffer Fragment)
          | (some Entry, Ring) => PrepareHeaderFinish Ring Packet Buffer Fragment Entry

/-- The packet a fragment belongs to, as the `switch (Fragment->Type)` of
`__TransmitterRingUnprepareFragments` and `TransmitterRingPoll` finds it:
through the buffer for a buffer fragment, directly for a packet fragment,
`NULL` otherwise. -/
def XENVIF_TRANSMITTER_FRAGMENT.packet (Fragment : XENVIF_TRANSMITTER_FRAGMENT) : Option Nat :=
  match Fragment.Context with
  | FragmentContext.BUFFER Buffer => Buffer.Context
  | FragmentContext.PACKET Packet => some Packet
  | FragmentContext.MULTICAST_CONTROL _ => none
  | FragmentContext.INVALID => none

/-- Give back what a fragment owns, as the `switch (Fragment->Type)` of
`__TransmitterRingUnprepareFragments` and `TransmitterRingPoll` does: the
buffer of a buffer fragment goes back to the buffer cache (the multicast
control cache is not modelled). -/
def releaseContext (Ring : XENVIF_TRANSMITTER_RING)
    (Fragment : XENVIF_TRANSMITTER_FRAGMENT) : XENVIF_TRANSMITTER_RING :=
  match Fragment.Context with
  | FragmentContext.BUFFER Buffer => __TransmitterPutBuffer Ring Buffer
  | _ => Ring

/-- One pass of the loop `while (Count != 0)` of
`__TransmitterRingUnprepareFragments` (transmitter.c:1387-1467) for the
fragment `Fragment` at the tail of `State->List`: take it off the list,
revoke its grant, release what it owns, decrement the packet's `Value` and
give the fragment back. -/
def UnprepareFragment (Ring : XENVIF_TRANSMITTER_RING)
    (Fragment : XENVIF_TRANSMITTER_FRAGMENT) : XENVIF_TRANSMITTER_RING :=
  let Ring := { Ring with State := { Ring.State with List := Ring.State.List.dropLast } }
  let Ring := RevokeForeignAccess Ring Fragment.Entry
  let Ring := releaseContext Ring Fragment
  let Ring :=
    match Fragment.packet with
    | some Packet => decValue Ring Packet
    | none => Ring
  __TransmitterPutFragment Ring Fragment

/-- The loop `while (Count != 0)` of `__TransmitterRingUnprepareFragments`
(transmitter.c:1387-1467): take the fragments off the tail of `State->List`.
`State->Count` itself is not touched by the loop. -/
def UnprepareFragmentsLoop : Nat → XENVIF_TRANSMITTER_RING → XENVIF_TRANSMITTER_RING
  | 0, Ring => Ring
  | Count + 1, Ring =>
    match Ring.State.List.getLast? with
    | none => Ring
    | some Fragment => UnprepareFragmentsLoop Count (UnprepareFragment Ring Fragment)

/-- The end of the fragment loop of `__TransmitterRingUnprepareFragments`
(transmitter.c:1469-1474): `if (State->Count != 0)` the list head is zeroed
and `State->Count = 0`. -/
def UnprepareClearCount (Ring : XENVIF_TRANSMITTER_RING) : XENVIF_TRANSMITTER_RING :=
  if Ring.State.Count ≠ 0 then
    { Ring with State := { Ring.State with List := [], Count := 0 } }
  else Ring

/-- The body of `if (Packet != NULL)` of `__TransmitterRingUnprepareFragments`
(transmitter.c:1478-1487): `PacketsUnprepared++`, the payload is zeroed, the
packet gets back the send information and `State->Packet = NULL`. -/
def UnprepareReturnPacket (Ring : XENVIF_TRANSMITTER_RING) (Packet : Nat) :
    XENVIF_TRANSMITTER_RING :=
  let Ring := { Ring with PacketsUnprepared := ULONG_inc Ring.PacketsUnprepared }
  let Ring := { Ring with State := { Ring.State with Payload := XENVIF_PACKET_PAYLOAD.zero } }
  let Ring := Ring.updatePacket Packet (fun P => { P with Send := Ring.State.Send })
  { Ring with State := { Ring.State with
      Send := XENVIF_TRANSMITTER_PACKET_SEND_INFO.zero, Packet := none } }

/-- `__TransmitterRingUnprepareFragments` (transmitter.c:1370): undo the
fragments in `State`, and if `State` holds a packet count it as unprepared,
give it back its send information and return it.  `State->StartVa` and
`State->Info` are not written. -/
def __TransmitterRingUnprepareFragments (Ring : XENVIF_TRANSMITTER_RING) :
    Option Nat × XENVIF_TRANSMITTER_RING :=
  let Ring := UnprepareClearCount (UnprepareFragmentsLoop Ring.State.Count Ring)
  match Ring.State.Packet with
  | none => (none, Ring)
  | some Packet => (some Packet, UnprepareReturnPacket Ring Packet)

/-- Apply `g` to the last fragment of a list (`State->List.Blink`). -/
def modifyTail (g : XENVIF_TRANSMITTER_FRAGMENT → XENVIF_TRANSMITTER_FRAGMENT) :
    List XENVIF_TRANSMITTER_FRAGMENT → List XENVIF_TRANSMITTER_FRAGMENT
  | [] => []
  | [x] => [g x]
  | x :: y :: rest => x :: modifyTail g (y :: rest)

/-- Apply `g` to the first fragment of a list (`State->List.Flink`). -/
def modifyFirst (g : XENVIF_TRANSMITTER_FRAGMENT → XENVIF_TRANSMITTER_FRAGMENT) :
    List XENVIF_TRANSMITTER_FRAGMENT → List XENVIF_TRANSMITTER_FRAGMENT
  | [] => []
  | x :: rest => g x :: rest

/-- The padding of the tail fragment of a runt packet
(transmitter.c:1551-1572): `Trailer` zero bytes go to the end of its buffer,
and the fragment grows unless it is the only fragment. -/
def padTailFragment (Trailer : Nat) (SingleFragment : Bool)
    (Fragment : XENVIF_TRANSMITTER_FRAGMENT) : XENVIF_TRANSMITTER_FRAGMENT :=
  let Context :=
    match Fragment.Context with
    | FragmentContext.BUFFER Buffer =>
      FragmentContext.BUFFER { Buffer with ByteCount := ULONG_add Buffer.ByteCount Trailer }
    | c => c
  { Fragment with
      Context := Context
      Length := if SingleFragment then Fragment.Length else ULONG_add Fragment.Length Trailer }

/-- The padding of the header fragment of a runt packet
(transmitter.c:1574-1579): `Fragment->Length += Trailer`. -/
def padHeadFragment (Trailer : Nat)
    (Fragment : XENVIF_TRANSMITTER_FRAGMENT) : XENVIF_TRANSMITTER_FRAGMENT :=
  { Fragment with Length := ULONG_add Fragment.Length Trailer }

/-- The padding of a runt packet (transmitter.c:1550-1579): first the tail
fragment (`State->List.Blink`), then the header fragment
(`State->List.Flink`). -/
def padRunt (Trailer : Nat) (SingleFragment : Bool)
    (Fragments : List XENVIF_TRANSMITTER_FRAGMENT) : List XENVIF_TRANSMITTER_FRAGMENT :=
  modifyFirst (padHeadFragment Trailer)
    (modifyTail (padTailFragment Trailer SingleFragment) Fragments)

/-- The exit `fail1` of `__TransmitterRingPreparePacket`
(transmitter.c:1606-1624): clear `State` and give the packet the send
information found in `State`. -/
def PreparePacketFail1 (Ring : XENVIF_TRANSMITTER_RING) (Packet : Nat) :
    XENVIF_TRANSMITTER_RING :=
  let Ring := { Ring with State := { Ring.State with
    StartVa := false, Info := XENVIF_PACKET_INFO.zero, List := [],
    Payload := XENVIF_PACKET_PAYLOAD.zero } }
  let Ring := Ring.updatePacket Packet (fun P => { P with Send := Ring.State.Send })
  { Ring with State := { Ring.State with
      Send := XENVIF_TRANSMITTER_PACKET_SEND_INFO.zero, Packet := none } }

/-- The payload step of `__TransmitterRingPreparePacket`
(transmitter.c:1533-1591): a runt is copied and padded; otherwise the payload
is granted unless `AlwaysCopy`, and copied if `AlwaysCopy` or if granting
failed with `STATUS_BUFFER_OVERFLOW`. -/
def PreparePacketPayload (Ring : XENVIF_TRANSMITTER_RING) :
    NTSTATUS × XENVIF_TRANSMITTER_RING :=
  if ULONG_add Ring.State.Info.Length Ring.State.Payload.Length < ETHERNET_MIN then
    let Trailer :=
      ULONG_sub (ULONG_sub ETHERNET_MIN Ring.State.Payload.Length) Ring.State.Info.Length
    let SingleFragment := decide (Ring.State.Payload.Length = 0)
    match __TransmitterRingCopyPayload Ring with
    | (STATUS_SUCCESS, Ring) =>
      (STATUS_SUCCESS,
       { Ring with State := { Ring.State with
           List := padRunt Trailer SingleFragment Ring.State.List } })
    | (status, Ring) => (status, Ring)
  else
    if Ring.AlwaysCopy = 0 then
      match __TransmitterRingGrantPayload Ring with
      | (STATUS_BUFFER_OVERFLOW, Ring) => __TransmitterRingCopyPayload Ring
      | (status, Ring) => (status, Ring)
    else
      __TransmitterRingCopyPayload Ring

/-- The entry of `__TransmitterRingPreparePacket` (transmitter.c:1510-1523):
the packet, its send information and its payload move into `State`, the send
information of the packet is zeroed, and `State->List` is initialised. -/
def PreparePacketEnter (Ring : XENVIF_TRANSMITTER_RING) (Packet : Nat) :
    XENVIF_TRANSMITTER_RING :=
  let Ring := { Ring with State := { Ring.State with
    Packet := some Packet
    Send := (Ring.Packets Packet).Send
    Payload := { Mdl := (Ring.Packets Packet).Mdl, Offset := (Ring.Packets Packet).Offset,
                 Length := (Ring.Packets Packet).Length }
    List := [] } }
  Ring.updatePacket Packet
    (fun P => { P with Send := XENVIF_TRANSMITTER_PACKET_SEND_INFO.zero })

/-- `__TransmitterRingPreparePacket` (transmitter.c:1494): move the packet
into `State`, prepare its header and its payload; on success
`PacketsPrepared++`.  When the payload step fails `fail2` runs
`__TransmitterRingUnprepareFragments` and falls through to `fail1`. -/
def __TransmitterRingPreparePacket (Ring : XENVIF_TRANSMITTER_RING) (Packet : Nat) :
    NTSTATUS × XENVIF_TRANSMITTER_RING :=
  let Ring := PreparePacketEnter Ring Packet
  match __TransmitterRingPrepareHeader Ring with
  | (STATUS_SUCCESS, Ring) =>
    match PreparePacketPayload Ring with
    | (STATUS_SUCCESS, Ring) =>
      (STATUS_SUCCESS, { Ring with PacketsPrepared := ULONG_inc Ring.PacketsPrepared })
    | (status, Ring) =>
      (status, PreparePacketFail1 (__TransmitterRingUnprepareFragments Ring).2 Packet)
  | (status, Ring) => (status, PreparePacketFail1 Ring Packet)

/-- The common shape of `__TransmitterRingPrepareArp` (transmitter.c:1627) and
`__TransmitterRingPrepareNeighbourAdvertisement` (transmitter.c:1768): build
a frame of `ByteCount` bytes in a buffer, take a fragment, grant the buffer
page and make the fragment the only entry of `State->List`.  The buffer has
no owning packet.  The bytes are not modelled. -/
def PrepareControlFrame (Ring : XENVIF_TRANSMITTER_RING) (ByteCount : Nat) :
    NTSTATUS × XENVIF_TRANSMITTER_RING :=
  match __TransmitterGetBuffer Ring with
  | (none, Ring) => (STATUS_NO_MEMORY, Ring)
  | (some Buffer, Ring) =>
    let Buffer := { Buffer with ByteCount := ByteCount }
    match __TransmitterGetFragment Ring with
    | (none, Ring) => (STATUS_NO_MEMORY, __TransmitterPutBuffer Ring { Buffer with ByteCount := 0 })
    | (some Fragment, Ring) =>
      let Buffer := { Buffer with Reference := Buffer.Reference + 1 }
      match PermitForeignAccess Ring Buffer.Pfn with
      | (none, Ring) =>
        let Ring := __TransmitterPutFragment Ring Fragment
        (STATUS_UNSUCCESSFUL,
         __TransmitterPutBuffer Ring { Buffer with ByteCount := 0, Reference := 0 })
      | (some Entry, Ring) =>
        let Fragment := { Fragment with Context := FragmentContext.BUFFER Buffer,
                                        Entry := some Entry, Offset := 0,
                                        Length := Buffer.ByteCount }
        (STATUS_SUCCESS,
         { Ring with State := { Ring.State with List := [Fragment],
                                                Count := Ring.State.Count + 1 } })

/-- `__TransmitterRingPrepareArp` (transmitter.c:1627): an Ethernet header (14
bytes), an ARP header (8 bytes) and two hardware and two IPv4 addresses. -/
def __TransmitterRingPrepareArp (Ring : XENVIF_TRANSMITTER_RING) (_Address : List Nat) :
    NTSTATUS × XENVIF_TRANSMITTER_RING :=
  PrepareControlFrame Ring (14 + 8 + 6 + 4 + 6 + 4)

/-- `__TransmitterRingPrepareNeighbourAdvertisement` (transmitter.c:1768): an
Ethernet header (14 bytes), an IPv6 header (40 bytes), an ICMPv6 header (8
bytes), the target address and the sender hardware address. -/
def __TransmitterRingPrepareNeighbourAdvertisement (Ring : XENVIF_TRANSMITTER_RING)
    (_Address : List Nat) : NTSTATUS × XENVIF_TRANSMITTER_RING :=
  PrepareControlFrame Ring (14 + 40 + 8 + 16 + 6)

/-- `__TransmitterRingPrepareMulticastControl` (transmitter.c:1935): a control
block and a fragment without a grant entry. -/
def __TransmitterRingPrepareMulticastControl (Ring : XENVIF_TRANSMITTER_RING)
    (Address : List Nat) (Add : Bool) : NTSTATUS × XENVIF_TRANSMITTER_RING :=
  if Ring.Oracle Ring.Tick then
    let Ring := { Ring with Tick := Ring.Tick + 1 }
    let Control : XENVIF_TRANSMITTER_MULTICAST_CONTROL :=
      { Type_ := if Add then XENVIF_TRANSMITTER_MULTICAST_CONTROL_TYPE_ADD
                 else XENVIF_TRANSMITTER_MULTICAST_CONTROL_TYPE_REMOVE
        Address := Address
        Reference := 0 }
    match __TransmitterGetFragment Ring with
    | (none, Ring) => (STATUS_NO_MEMORY, Ring)
    | (some Fragment, Ring) =>
      let Control := { Control with Reference := Control.Reference + 1 }
      let Fragment := { Fragment with Context := FragmentContext.MULTICAST_CONTROL Control }
      (STATUS_SUCCESS,
       { Ring with State := { Ring.State with List := [Fragment],
                                              Count := Ring.State.Count + 1 } })
  else
    (STATUS_NO_MEMORY, { Ring with Tick := Ring.Tick + 1 })

/-! ### transmitter.c: posting requests -/

/-- The macro `RING_SLOTS_AVAILABLE` (transmitter.c:1993), in `RING_IDX`
arithmetic. -/
def RING_SLOTS_AVAILABLE (req_prod rsp_cons : Nat) : Nat :=
  ULONG_sub XENVIF_TRANSMITTER_RING_SIZE (ULONG_sub req_prod rsp_cons)

/-- The condition under which the first request is followed by an extra-info
slot (transmitter.c:2036-2038 and 2087-2089): a large packet, or a first
fragment of type multicast control. -/
def needsExtra (Send : XENVIF_TRANSMITTER_PACKET_SEND_INFO)
    (Fragment : Option XENVIF_TRANSMITTER_FRAGMENT) : Bool :=
  Send.OffloadIpVersion4LargePacket || Send.OffloadIpVersion6LargePacket ||
    (match Fragment with
     | some Fragment => Fragment.isMulticastControl
     | none => false)

/-- The local `Extra` of `__TransmitterRingPostFragments`
(transmitter.c:2036-2040), computed from the first fragment of
`State->List`. -/
def PostFragmentsExtra (State : XENVIF_TRANSMITTER_STATE) : Nat :=
  if needsExtra State.Send State.List.head? then 1 else 0

/-- The local variables of the loop of `__TransmitterRingPostFragments`;
`req` is the slot of the request written last. -/
structure PostFragmentsLocals where
  req_prod : Nat
  FirstRequest : Bool
  PacketLength : Nat
  req : Option Nat
  deriving DecidableEq, Repr

/-- The extra-info record written after the first request
(transmitter.c:2099-2128). -/
def extraInfoFor (Send : XENVIF_TRANSMITTER_PACKET_SEND_INFO)
    (Fragment : XENVIF_TRANSMITTER_FRAGMENT) : netif_extra_info :=
  if Send.OffloadIpVersion4LargePacket || Send.OffloadIpVersion6LargePacket then
    netif_extra_info.GSO (if Send.OffloadIpVersion4LargePacket then 1 else 2)
      Send.MaximumSegmentSize
  else
    match Fragment.Context with
    | FragmentContext.MULTICAST_CONTROL Control =>
      if Control.Type_ = XENVIF_TRANSMITTER_MULTICAST_CONTROL_TYPE_ADD then
        netif_extra_info.MCAST_ADD Control.Address
      else
        netif_extra_info.MCAST_DEL Control.Address
    | _ => netif_extra_info.MCAST_DEL []

/-- Write a request slot of the shared ring (`RING_GET_REQUEST` at index
`idx`). -/
def writeRequest (Ring : XENVIF_TRANSMITTER_RING) (idx : Nat) (slot : RequestSlot) :
    XENVIF_TRANSMITTER_RING :=
  { Ring with Shared := { Ring.Shared with
      Req := setAt Ring.Shared.Req (idx % XENVIF_TRANSMITTER_RING_SIZE) slot } }

/-- One pass of the loop `while (State->Count != 0)` of
`__TransmitterRingPostFragments` (transmitter.c:2052-2141) for the fragment
at the head of `State->List`, whose removal from the list the caller has
done: write the request, on the first request set the checksum flags and
write the extra-info slot, and store the fragment in `Pending[req->id]`. -/
def PostFragment (L : PostFragmentsLocals) (Ring : XENVIF_TRANSMITTER_RING)
    (Fragment : XENVIF_TRANSMITTER_FRAGMENT) : PostFragmentsLocals × XENVIF_TRANSMITTER_RING :=
  let Send := Ring.State.Send
  let reqSlot := L.req_prod
  let req_prod := ULONG_inc L.req_prod
  let Ring := { Ring with RequestsPosted := ULONG_inc Ring.RequestsPosted }
  let flags := NETTXF_more_data
  let csum := Send.OffloadIpVersion4TcpChecksum || Send.OffloadIpVersion4UdpChecksum ||
              Send.OffloadIpVersion6TcpChecksum || Send.OffloadIpVersion6UdpChecksum
  let extra := L.FirstRequest && needsExtra Send (some Fragment)
  let flags :=
    if L.FirstRequest && csum then flags ||| (NETTXF_csum_blank ||| NETTXF_data_validated)
    else flags
  let flags := if extra then flags ||| NETTXF_extra_info else flags
  let Ring := if extra then writeRequest Ring req_prod (RequestSlot.extra (extraInfoFor Send Fragment))
              else Ring
  let Ring := if extra then { Ring with RequestsPosted := ULONG_inc Ring.RequestsPosted } else Ring
  let req_prod := if extra then ULONG_inc req_prod else req_prod
  let Fragment := if extra then { Fragment with Extra := true } else Fragment
  let req : netif_tx_request_t :=
    { id := Fragment.Id
      gref := match Fragment.Entry with
              | some Entry => Entry
              | none => 0
      offset := Fragment.Offset % 65536
      size := Fragment.Length % 65536
      flags := flags }
  let Ring := writeRequest Ring reqSlot (RequestSlot.request req)
  let Ring := { Ring with Pending := setAt Ring.Pending req.id (some Fragment) }
  ({ req_prod := req_prod
     FirstRequest := false
     PacketLength := if L.FirstRequest then Fragment.Length else L.PacketLength
     req := some reqSlot }, Ring)

/-- The loop `while (State->Count != 0)` of `__TransmitterRingPostFragments`
(transmitter.c:2052-2141).  The source asserts that the list holds an entry
whenever `State->Count` is not zero. -/
def PostFragmentsLoop :
    Nat → PostFragmentsLocals → XENVIF_TRANSMITTER_RING →
      PostFragmentsLocals × XENVIF_TRANSMITTER_RING
  | 0, L, Ring => (L, Ring)
  | fuel + 1, L, Ring =>
    if Ring.State.Count = 0 then (L, Ring)
    else
      match Ring.State.List with
      | [] => (L, Ring)
      | Fragment :: rest =>
        let Ring := { Ring with State := { Ring.State with Count := Ring.State.Count - 1,
                                                           List := rest } }
        let r := PostFragment L Ring Fragment
        PostFragmentsLoop fuel r.1 r.2

/-- `req->flags &= ~NETTXF_more_data` on the request in slot `idx`
(transmitter.c:2145). -/
def clearMoreData (Ring : XENVIF_TRANSMITTER_RING) (idx : Nat) : XENVIF_TRANSMITTER_RING :=
  match Ring.Shared.Req (idx % XENVIF_TRANSMITTER_RING_SIZE) with
  | RequestSlot.request req =>
    writeRequest Ring idx (RequestSlot.request { req with flags := req.flags &&& 0xFFFB })
  | _ => Ring

/-- The end of the request loop of `__TransmitterRingPostFragments`
(transmitter.c:2143-2150): the request written last loses `NETTXF_more_data`,
the private producer index is stored and the list head is zeroed. -/
def PostFragmentsFinish (Ring : XENVIF_TRANSMITTER_RING) (L : PostFragmentsLocals) :
    XENVIF_TRANSMITTER_RING :=
  let Ring :=
    match L.req with
    | some idx => clearMoreData Ring idx
    | none => Ring
  let Ring := { Ring with Front := { Ring.Front with req_prod_pvt := L.req_prod } }
  { Ring with State := { Ring.State with List := [] } }

/-- The body of `if (Packet != NULL)` at the end of
`__TransmitterRingPostFragments` (transmitter.c:2153-2181): set the initial
completion information of the packet, clear `State` and count the packet as
sent. -/
def PostFragmentsPacket (Ring : XENVIF_TRANSMITTER_RING) (Packet : Nat)
    (PacketLength PayloadLength : Nat) : XENVIF_TRANSMITTER_RING :=
  let Ring := Ring.updatePacket Packet (fun P => { P with
    Completion := { Type_ := P.DestinationType
                    Status := XENVIF_TRANSMITTER_PACKET_PENDING
                    PacketLength := PacketLength % 65536
                    PayloadLength := PayloadLength % 65536 } })
  let Ring := { Ring with State := { Ring.State with
    StartVa := false
    Info := XENVIF_PACKET_INFO.zero
    Payload := XENVIF_PACKET_PAYLOAD.zero
    Send := XENVIF_TRANSMITTER_PACKET_SEND_INFO.zero
    Packet := none } }
  { Ring with PacketsSent := ULONG_inc Ring.PacketsSent }

/-- `__TransmitterRingPostFragments` (transmitter.c:1996): fail with
`STATUS_ALLOTTED_SPACE_EXCEEDED`, changing nothing, when the fragments in
`State` and the extra slot do not fit into the free slots of the ring;
otherwise turn every fragment into a request, publish the private producer
index, and for a packet set the completion information, clear `State` and
count the packet as sent. -/
def __TransmitterRingPostFragments (Ring : XENVIF_TRANSMITTER_RING) :
    NTSTATUS × XENVIF_TRANSMITTER_RING :=
  let Packet := Ring.State.Packet
  let PayloadLength := Ring.State.Payload.Length
  let req_prod := Ring.Front.req_prod_pvt
  let rsp_cons := Ring.Front.rsp_cons
  let Extra := PostFragmentsExtra Ring.State
  if ULONG_add Ring.State.Count Extra > RING_SLOTS_AVAILABLE req_prod rsp_cons then
    (STATUS_ALLOTTED_SPACE_EXCEEDED, Ring)
  else
    let r := PostFragmentsLoop Ring.State.Count
      { req_prod := req_prod, FirstRequest := true, PacketLength := 0, req := none } Ring
    let Ring := PostFragmentsFinish r.2 r.1
    match Packet with
    | none => (STATUS_SUCCESS, Ring)
    | some Packet =>
      (STATUS_SUCCESS, PostFragmentsPacket Ring Packet r.1.PacketLength PayloadLength)

/-! ### transmitter.c: responses -/

/-- The local variables of the loop of `__TransmitterRingFakeResponses`
together with the response array it writes. -/
structure FakeResponsesLocals where
  rsp_prod : Nat
  Count : Nat
  Rsp : Nat → netif_tx_response_t

/-- One pass of the loop `for (id = 0; id <= MAXIMUM_FRAGMENT_ID; id++)` of
`__TransmitterRingFakeResponses` (transmitter.c:2214-2237): for a fragment in
`Pending[id]` write a `NETIF_RSP_DROPPED` response carrying the fragment's
id, and after it, if the fragment has an extra slot, a response whose status
is `NETIF_RSP_NULL`. -/
def FakeResponse (Pending : Nat → Option XENVIF_TRANSMITTER_FRAGMENT)
    (L : FakeResponsesLocals) (id : Nat) : FakeResponsesLocals :=
  match Pending id with
  | none => L
  | some Fragment =>
    let L : FakeResponsesLocals :=
      { rsp_prod := ULONG_inc L.rsp_prod
        Count := ULONG_inc L.Count
        Rsp := setAt L.Rsp (L.rsp_prod % XENVIF_TRANSMITTER_RING_SIZE)
                 { id := Fragment.Id, status := NETIF_RSP_DROPPED } }
    if Fragment.Extra then
      { rsp_prod := ULONG_inc L.rsp_prod
        Count := ULONG_inc L.Count
        Rsp := setAt L.Rsp (L.rsp_prod % XENVIF_TRANSMITTER_RING_SIZE)
                 { L.Rsp (L.rsp_prod % XENVIF_TRANSMITTER_RING_SIZE) with
                     status := NETIF_RSP_NULL } }
    else L

/-- The whole loop of `__TransmitterRingFakeResponses` over the ids
`0 .. XENVIF_TRANSMITTER_MAXIMUM_FRAGMENT_ID`, started at `rsp_prod =
Front.rsp_cons`. -/
def FakeResponsesLoop (Ring : XENVIF_TRANSMITTER_RING) : FakeResponsesLocals :=
  (List.range (XENVIF_TRANSMITTER_MAXIMUM_FRAGMENT_ID + 1)).foldl (FakeResponse Ring.Pending)
    { rsp_prod := Ring.Front.rsp_cons, Count := 0, Rsp := Ring.Shared.Rsp }

/-- `__TransmitterRingFakeResponses` (transmitter.c:2192): re-initialise the
indices of the shared ring (`SHARED_RING_INIT`: producers 0, events 1), write
the responses and publish `rsp_prod`. -/
def __TransmitterRingFakeResponses (Ring : XENVIF_TRANSMITTER_RING) :
    XENVIF_TRANSMITTER_RING :=
  let L := FakeResponsesLoop Ring
  { Ring with Shared := { Ring.Shared with
      req_prod := 0, req_event := 1, rsp_event := 1, rsp_prod := L.rsp_prod, Rsp := L.Rsp } }

/-- `FrontendIncrementStatistic` for the statistics touched by
`__TransmitterRingCompletePacket` (transmitter.c:2273-2319). -/
def completionStatistics (S : TransmitterStatistics)
    (Completion : XENVIF_TRANSMITTER_PACKET_COMPLETION_INFO) : TransmitterStatistics :=
  if Completion.Status ≠ XENVIF_TRANSMITTER_PACKET_OK then
    let S := { S with PacketsDropped := S.PacketsDropped + 1 }
    if Completion.Status = XENVIF_TRANSMITTER_PACKET_ERROR then
      { S with BackendErrors := S.BackendErrors + 1 }
    else S
  else
    match Completion.Type_ with
    | ETHERNET_ADDRESS_UNICAST =>
      { S with UnicastPackets := S.UnicastPackets + 1,
               UnicastOctets := S.UnicastOctets + Completion.PacketLength }
    | ETHERNET_ADDRESS_MULTICAST =>
      { S with MulticastPackets := S.MulticastPackets + 1,
               MulticastOctets := S.MulticastOctets + Completion.PacketLength }
    | ETHERNET_ADDRESS_BROADCAST =>
      { S with BroadcastPackets := S.BroadcastPackets + 1,
               BroadcastOctets := S.BroadcastOctets + Completion.PacketLength }
    | ETHERNET_ADDRESS_TYPE_INVALID => S

/-- `__TransmitterRingCompletePacket` (transmitter.c:2259): count the packet
in the statistics, put it at the tail of `PacketComplete`,
`PacketsCompleted++`. -/
def __TransmitterRingCompletePacket (Ring : XENVIF_TRANSMITTER_RING) (Packet : Nat) :
    XENVIF_TRANSMITTER_RING :=
  { Ring with
    Statistics := completionStatistics Ring.Statistics (Ring.Packets Packet).Completion
    PacketComplete := Ring.PacketComplete ++ [Packet]
    PacketsCompleted := ULONG_inc Ring.PacketsCompleted }

/-- The translation of a response status into a completion status
(transmitter.c:2452-2467): only a status that is still pending changes, to
`DROPPED` or `ERROR`; `NETIF_RSP_OKAY` and any other code change nothing. -/
def translateStatus (status : Int) (Status : XENVIF_TRANSMITTER_PACKET_STATUS) :
    XENVIF_TRANSMITTER_PACKET_STATUS :=
  if status ≠ NETIF_RSP_OKAY ∧ Status = XENVIF_TRANSMITTER_PACKET_PENDING then
    if status = NETIF_RSP_DROPPED then XENVIF_TRANSMITTER_PACKET_DROPPED
    else if status = NETIF_RSP_ERROR then XENVIF_TRANSMITTER_PACKET_ERROR
    else Status
  else Status

/-- `RtlZeroMemory(rsp, sizeof (netif_tx_response_t))` on the response in
slot `idx`. -/
def zeroResponse (Ring : XENVIF_TRANSMITTER_RING) (idx : Nat) : XENVIF_TRANSMITTER_RING :=
  { Ring with Shared := { Ring.Shared with
      Rsp := setAt Ring.Shared.Rsp (idx % XENVIF_TRANSMITTER_RING_SIZE)
               { id := 0, status := 0 } } }

/-- The part of a pass of the response loop of `TransmitterRingPoll` that
deals with the fragment found in `Pending[id]` (transmitter.c:2367-2438):
the slot is cleared, what the fragment owns is released, its grant is revoked
and the fragment goes back to its cache. -/
def PollRelease (Ring : XENVIF_TRANSMITTER_RING) (id : Nat)
    (Fragment : XENVIF_TRANSMITTER_FRAGMENT) : XENVIF_TRANSMITTER_RING :=
  let Ring := { Ring with Pending := setAt Ring.Pending id none }
  let Ring := releaseContext Ring Fragment
  let Ring := RevokeForeignAccess Ring Fragment.Entry
  __TransmitterPutFragment Ring Fragment

/-- The part of a pass of the response loop of `TransmitterRingPoll` that
deals with the packet of the fragment (transmitter.c:2445-2478):
`Packet->Value--`, the status of the response is translated, the response is
zeroed, and when `Packet->Value` has reached zero a status that is still
pending becomes `OK` and the packet is completed. -/
def PollPacket (Ring : XENVIF_TRANSMITTER_RING) (Packet : Nat) (status : Int)
    (rsp_cons : Nat) : XENVIF_TRANSMITTER_RING :=
  let Ring := decValue Ring Packet
  let Ring := Ring.updatePacket Packet (fun P => { P with
    Completion := { P.Completion with
      Status := translateStatus status P.Completion.Status } })
  let Ring := zeroResponse Ring rsp_cons
  if (Ring.Packets Packet).Value ≠ 0 then Ring
  else
    let Ring := Ring.updatePacket Packet (fun P => { P with
      Completion := { P.Completion with
        Status := if P.Completion.Status = XENVIF_TRANSMITTER_PACKET_PENDING
                  then XENVIF_TRANSMITTER_PACKET_OK else P.Completion.Status } })
    __TransmitterRingCompletePacket Ring Packet

/-- The start of a pass of the response loop of `TransmitterRingPoll`
(transmitter.c:2360-2361): `Ring->ResponsesProcessed++` and
`Ring->Stopped = FALSE`. -/
def PollCount (Ring : XENVIF_TRANSMITTER_RING) : XENVIF_TRANSMITTER_RING :=
  { Ring with ResponsesProcessed := ULONG_inc Ring.ResponsesProcessed, Stopped := false }

/-- One pass of the loop `while (rsp_cons != rsp_prod)` of
`TransmitterRingPoll` (transmitter.c:2353-2478) for the response at index
`rsp_cons`.  `none` stands for the two things the source only asserts
against: an id beyond the `Pending` array and an empty `Pending[id]`, which
the source would dereference. -/
def PollResponse (Ring : XENVIF_TRANSMITTER_RING) (rsp_cons : Nat) :
    Option XENVIF_TRANSMITTER_RING :=
  let rsp := Ring.Shared.Rsp (rsp_cons % XENVIF_TRANSMITTER_RING_SIZE)
  let Ring := PollCount Ring
  if rsp.status = NETIF_RSP_NULL then some Ring
  else if rsp.id > XENVIF_TRANSMITTER_MAXIMUM_FRAGMENT_ID then none
  else
    match Ring.Pending rsp.id with
    | none => none
    | some Fragment =>
      let Ring := PollRelease Ring rsp.id Fragment
      match Fragment.packet with
      | none => some (zeroResponse Ring rsp_cons)
      | some Packet => some (PollPacket Ring Packet rsp.status rsp_cons)

/-- The loop `while (rsp_cons != rsp_prod)` of `TransmitterRingPoll`: `n`
responses starting at index `rsp_cons`. -/
def PollLoop : Nat → Nat → XENVIF_TRANSMITTER_RING → Option XENVIF_TRANSMITTER_RING
  | 0, _, Ring => some Ring
  | n + 1, rsp_cons, Ring =>
    match PollResponse Ring rsp_cons with
    | none => none
    | some Ring => PollLoop n (ULONG_inc rsp_cons) Ring

/-- `TransmitterRingPoll` (transmitter.c:2325): process the responses from
`Front.rsp_cons` up to the published `rsp_prod`, which are
`rsp_prod - rsp_cons` (as `RING_IDX`) many, then store the consumer index and
set `rsp_event`.  The shared page does not change while the function runs, so
the next pass of the outer `for (;;)` finds the indices equal and leaves. -/
def TransmitterRingPoll (Ring : XENVIF_TRANSMITTER_RING) : Option XENVIF_TRANSMITTER_RING :=
  let rsp_prod := Ring.Shared.rsp_prod
  let rsp_cons := Ring.Front.rsp_cons
  if rsp_cons = rsp_prod then some Ring
  else
    match PollLoop (ULONG_sub rsp_prod rsp_cons) rsp_cons Ring with
    | none => none
    | some Ring =>
      let Ring := { Ring with Front := { Ring.Front with rsp_cons := rsp_prod } }
      let Delta := ULONG_sub Ring.Front.req_prod_pvt rsp_prod
      let Delta := min Delta (XENVIF_TRANSMITTER_RING_SIZE / 4)
      let Delta := max Delta 1
      some { Ring with Shared := { Ring.Shared with rsp_event := ULONG_add rsp_prod Delta } }

/-- `__TransmitterRingSend` (transmitter.c:2494): notify the backend if the
ring is connected. -/
def __TransmitterRingSend (Ring : XENVIF_TRANSMITTER_RING) : XENVIF_TRANSMITTER_RING :=
  if !Ring.Connected then Ring
  else { Ring with Notifications := Ring.Notifications + 1 }

/-- `__TransmitterRingPushRequests` (transmitter.c:2525):
`RING_PUSH_REQUESTS_AND_CHECK_NOTIFY` publishes the private producer index
and asks for a notification when the backend's `req_event` lies in the range
just published. -/
def __TransmitterRingPushRequests (Ring : XENVIF_TRANSMITTER_RING) :
    XENVIF_TRANSMITTER_RING :=
  if Ring.RequestsPosted = Ring.RequestsPushed then Ring
  else
    let old := Ring.Shared.req_prod
    let new := Ring.Front.req_prod_pvt
    let Ring := { Ring with Shared := { Ring.Shared with req_prod := new } }
    let Notify := decide (ULONG_sub new Ring.Shared.req_event < ULONG_sub new old)
    let Ring := if Notify then __TransmitterRingSend Ring else Ring
    { Ring with RequestsPushed := Ring.RequestsPosted }

/-! ### transmitter.c: lock, queueing and scheduling -/

/-- The loop of `TransmitterRingSwizzle` (transmitter.c:2581-2590) over the
chain taken from the lock word: every entry is put at the head of the local
`List`, and `Count` counts the entries. -/
def SwizzleLoop : List Nat → List Nat → Nat → List Nat × Nat
  | [], List, Count => (List, Count)
  | ListEntry :: NextEntry, List, Count =>
    SwizzleLoop NextEntry (ListEntry :: List) (ULONG_inc Count)

/-- `TransmitterRingSwizzle` (transmitter.c:2553): exchange the lock word for
the bare lock bit and append the packets found there, oldest first, to
`PacketQueue`; `PacketsQueued` grows by their number. -/
def TransmitterRingSwizzle (Ring : XENVIF_TRANSMITTER_RING) : XENVIF_TRANSMITTER_RING :=
  let ListEntry := Ring.Lock.Stash
  let Ring := { Ring with Lock := { LockBit := true, Stash := [] } }
  match ListEntry with
  | [] => Ring
  | _ :: _ =>
    let r := SwizzleLoop ListEntry [] 0
    if r.1 ≠ [] then
      { Ring with PacketQueue := Ring.PacketQueue ++ r.1,
                  PacketsQueued := ULONG_add Ring.PacketsQueued r.2 }
    else Ring

/-- The part of `TransmitterRingSchedule` and of
`__TransmitterRingAbortPackets` that fakes a packet
(transmitter.c:2690-2701 and 3802-3809): count it as prepared, sent and
faked, set its status to `DROPPED` and complete it.  `FrontendError` tells
whether `XENVIF_TRANSMITTER_FRONTEND_ERRORS` is incremented (the scheduler
does, the abort does not). -/
def fakePacket (Ring : XENVIF_TRANSMITTER_RING) (Packet : Nat) (FrontendError : Bool) :
    XENVIF_TRANSMITTER_RING :=
  let Ring := { Ring with PacketsPrepared := ULONG_inc Ring.PacketsPrepared,
                          PacketsSent := ULONG_inc Ring.PacketsSent,
                          PacketsFaked := ULONG_inc Ring.PacketsFaked }
  let Ring := Ring.updatePacket Packet (fun P => { P with
    Completion := { P.Completion with Status := XENVIF_TRANSMITTER_PACKET_DROPPED } })
  let Ring :=
    if FrontendError then
      { Ring with Statistics := { Ring.Statistics with
          FrontendErrors := Ring.Statistics.FrontendErrors + 1 } }
    else Ring
  __TransmitterRingCompletePacket Ring Packet

/-- The `switch (Request->Type)` of `TransmitterRingSchedule`
(transmitter.c:2641-2660); the status of the preparation is ignored. -/
def prepareRequest (Ring : XENVIF_TRANSMITTER_RING) (Request : XENVIF_TRANSMITTER_REQUEST) :
    XENVIF_TRANSMITTER_RING :=
  match Request with
  | XENVIF_TRANSMITTER_REQUEST.ARP Address => (__TransmitterRingPrepareArp Ring Address).2
  | XENVIF_TRANSMITTER_REQUEST.NEIGHBOUR_ADVERTISEMENT Address =>
    (__TransmitterRingPrepareNeighbourAdvertisement Ring Address).2
  | XENVIF_TRANSMITTER_REQUEST.MULTICAST_CONTROL Address Add =>
    (__TransmitterRingPrepareMulticastControl Ring Address Add).2
  | XENVIF_TRANSMITTER_REQUEST.INVALID => Ring

/-- The part of a pass of the loop of `TransmitterRingSchedule` that takes a
packet off `PacketQueue` (transmitter.c:2667-2706), the removal being done by
the caller: `Packet->Value = 0`, prepare the packet, and fake it if the
preparation fails. -/
def schedulePacket (Ring : XENVIF_TRANSMITTER_RING) (Packet : Nat) : XENVIF_TRANSMITTER_RING :=
  let Ring := Ring.updatePacket Packet (fun P => { P with Value := 0 })
  match __TransmitterRingPreparePacket Ring Packet with
  | (STATUS_SUCCESS, Ring) => Ring
  | (_, Ring) => fakePacket Ring Packet true

/-- The start of a pass of the loop of `TransmitterRingSchedule`
(transmitter.c:2617-2623): `if (State->Count != 0)` post the fragments held
in `State`. -/
def schedulePost (Ring : XENVIF_TRANSMITTER_RING) : NTSTATUS × XENVIF_TRANSMITTER_RING :=
  if Ring.State.Count ≠ 0 then __TransmitterRingPostFragments Ring
  else (STATUS_SUCCESS, Ring)

/-- The second step of a pass of the loop of `TransmitterRingSchedule`
(transmitter.c:2625-2627): push the requests when a quarter of the ring is
posted but not pushed. -/
def schedulePush (Ring : XENVIF_TRANSMITTER_RING) : XENVIF_TRANSMITTER_RING :=
  if ULONG_sub Ring.RequestsPosted Ring.RequestsPushed ≥ XENVIF_TRANSMITTER_RING_SIZE / 4
  then __TransmitterRingPushRequests Ring
  else Ring

/-- The loop `for (;;)` of `TransmitterRingSchedule` (transmitter.c:2613-2709).
A pass posts the fragments held in `State` (stopping the ring when they do
not fit), pushes the requests when a quarter of the ring is unpushed, and
then prepares the next control request or else the next packet; the loop ends
when both queues are empty.  `none` means that `fuel` passes did not end the
loop. -/
def TransmitterRingScheduleLoop :
    Nat → XENVIF_TRANSMITTER_RING → Option XENVIF_TRANSMITTER_RING
  | 0, _ => none
  | fuel + 1, Ring =>
    let posted := schedulePost Ring
    if !NT_SUCCESS posted.1 then some { posted.2 with Stopped := true }
    else
      let Ring := schedulePush posted.2
      match Ring.RequestQueue with
      | Request :: rest =>
        let Ring := { Ring with RequestQueue := rest }
        TransmitterRingScheduleLoop fuel (prepareRequest Ring Request)
      | [] =>
        match Ring.PacketQueue with
        | Packet :: rest =>
          let Ring := { Ring with PacketQueue := rest }
          TransmitterRingScheduleLoop fuel (schedulePacket Ring Packet)
        | [] => some Ring

/-- `TransmitterRingSchedule` (transmitter.c:2601): nothing when the ring is
not enabled or is stopped; otherwise the loop, then
`__TransmitterRingPushRequests`.  Every pass that does not end the loop takes
an entry off one of the two queues, so one pass more than their joint length
is enough. -/
def TransmitterRingSchedule (Ring : XENVIF_TRANSMITTER_RING) :
    Option XENVIF_TRANSMITTER_RING :=
  if !Ring.Enabled || Ring.Stopped then some Ring
  else
    match TransmitterRingScheduleLoop
        (Ring.RequestQueue.length + Ring.PacketQueue.length + 1) Ring with
    | none => none
    | some Ring => some (__TransmitterRingPushRequests Ring)

/-- `__TransmitterRingAcquireLock` (transmitter.c:2763) when the lock is free:
set the lock bit, keeping the packets pushed onto the word. -/
def __TransmitterRingAcquireLock (Ring : XENVIF_TRANSMITTER_RING) : XENVIF_TRANSMITTER_RING :=
  { Ring with Lock := { Ring.Lock with LockBit := true } }

/-- `__TransmitterRingReleaseLock` (transmitter.c:2822) with no other thread
pushing packets meanwhile: swizzle, schedule, take `PacketComplete` aside,
clear the lock word (the compare-and-exchange succeeds at once because the
swizzle left the bare lock bit), and return the completed packets. -/
def __TransmitterRingReleaseLock (Ring : XENVIF_TRANSMITTER_RING) :
    Option XENVIF_TRANSMITTER_RING :=
  match TransmitterRingSchedule (TransmitterRingSwizzle Ring) with
  | none => none
  | some Ring =>
    let List := Ring.PacketComplete
    some { Ring with PacketComplete := [],
                     Lock := { LockBit := false, Stash := [] },
                     Returned := Ring.Returned ++ List }

/-- The first part of `__TransmitterRingDisable` (transmitter.c:3549-3575),
under the lock: clear `Enabled`, un-prepare what is held in `State`, put a
packet found there back at the head of `PacketQueue`, and discard the control
requests. -/
def DisablePrologue (Ring : XENVIF_TRANSMITTER_RING) : XENVIF_TRANSMITTER_RING :=
  let Ring := { Ring with Enabled := false }
  let r := __TransmitterRingUnprepareFragments Ring
  let Ring := r.2
  let Ring :=
    match r.1 with
    | some Packet => { Ring with PacketQueue := Packet :: Ring.PacketQueue }
    | none => Ring
  { Ring with RequestQueue := [] }

/-- The value `XenbusStateConnected` of the backend state. -/
def XenbusStateConnected : Nat := 4

/-- The last step of a pass of the loop of `__TransmitterRingDisable`
(transmitter.c:3604-3605): `if (State != XenbusStateConnected)` fake the
responses. -/
def DisableFake (State : Nat) (Ring : XENVIF_TRANSMITTER_RING) : XENVIF_TRANSMITTER_RING :=
  if State ≠ XenbusStateConnected then __TransmitterRingFakeResponses Ring
  else Ring

/-- The loop `while (Ring->ResponsesProcessed != Ring->RequestsPushed)` of
`__TransmitterRingDisable` (transmitter.c:3595-3612) with a backend that
writes nothing more: notify, poll, and fake the responses if the backend
state read before the loop is not `Connected`.  `none` means that a poll hit
an empty `Pending` slot or that `fuel` passes did not end the loop. -/
def DisableLoop (State : Nat) : Nat → XENVIF_TRANSMITTER_RING → Option XENVIF_TRANSMITTER_RING
  | 0, Ring => if Ring.ResponsesProcessed = Ring.RequestsPushed then some Ring else none
  | fuel + 1, Ring =>
    if Ring.ResponsesProcessed = Ring.RequestsPushed then some Ring
    else
      match TransmitterRingPoll (__TransmitterRingSend Ring) with
      | none => none
      | some Ring => DisableLoop State fuel (DisableFake State Ring)

/-- `__TransmitterRingDisable` (transmitter.c:3533), `State` being the backend
state read from the store: take the lock, run the first part and the loop,
release the lock. -/
def __TransmitterRingDisable (State : Nat) (fuel : Nat) (Ring : XENVIF_TRANSMITTER_RING) :
    Option XENVIF_TRANSMITTER_RING :=
  match DisableLoop State fuel (DisablePrologue (__TransmitterRingAcquireLock Ring)) with
  | none => none
  | some Ring => __TransmitterRingReleaseLock Ring

/-- The loop `while (!IsListEmpty(&Ring->PacketQueue))` of
`__TransmitterRingAbortPackets` (transmitter.c:3792-3810): every queued
packet is faked. -/
def AbortPacketsLoop : List Nat → XENVIF_TRANSMITTER_RING → XENVIF_TRANSMITTER_RING
  | [], Ring => Ring
  | Packet :: rest, Ring =>
    AbortPacketsLoop rest (fakePacket { Ring with PacketQueue := rest } Packet false)

/-- The part of `__TransmitterRingAbortPackets` (transmitter.c:3783) that runs
between taking and releasing the lock: swizzle, then fake every packet of
`PacketQueue`. -/
def AbortPacketsBody (Ring : XENVIF_TRANSMITTER_RING) : XENVIF_TRANSMITTER_RING :=
  let Ring := TransmitterRingSwizzle Ring
  AbortPacketsLoop Ring.PacketQueue Ring

/-- `__TransmitterRingAbortPackets` (transmitter.c:3783). -/
def __TransmitterRingAbortPackets (Ring : XENVIF_TRANSMITTER_RING) :
    Option XENVIF_TRANSMITTER_RING :=
  __TransmitterRingReleaseLock (AbortPacketsBody (__TransmitterRingAcquireLock Ring))

/-- The compare-and-exchange of `__TransmitterRingQueuePackets`
(transmitter.c:3764-3772): the list is pushed onto the lock word, its last
packet becoming the head of the chain; the lock bit is kept. -/
def pushPackets (Ring : XENVIF_TRANSMITTER_RING) (List : List Nat) : XENVIF_TRANSMITTER_RING :=
  { Ring with Lock := { Ring.Lock with Stash := List.reverse ++ Ring.Lock.Stash } }

/-- `__TransmitterRingQueuePackets` (transmitter.c:3754): push the list, then
take and release the lock if it is free. -/
def __TransmitterRingQueuePackets (Ring : XENVIF_TRANSMITTER_RING) (List : List Nat) :
    Option XENVIF_TRANSMITTER_RING :=
  let Ring := pushPackets Ring List
  if Ring.Lock.LockBit then some Ring
  else __TransmitterRingReleaseLock (__TransmitterRingAcquireLock Ring)

/-! ### Concrete packets and rings -/

/-- A parse result for a frame with a 14-byte Ethernet header and nothing
else recognised. -/
def ethernetOnlyInfo : XENVIF_PACKET_INFO :=
  { XENVIF_PACKET_INFO.zero with Length := 14, EthernetHeader := ⟨0, 14⟩ }

/-- The completion area of a packet that has not been posted. -/
def zeroCompletion : XENVIF_TRANSMITTER_PACKET_COMPLETION_INFO :=
  { Type_ := ETHERNET_ADDRESS_TYPE_INVALID, Status := PACKET_STATUS_ZERO,
    PacketLength := 0, PayloadLength := 0 }

/-- A unicast packet of `Length` bytes (a 14-byte Ethernet header and
`Length - 14` bytes of payload) held contiguously by one descriptor that
starts at a page boundary, with no offload requested. -/
def plainPacket (Length : Nat) : XENVIF_TRANSMITTER_PACKET :=
  { Value := 0
    Send := XENVIF_TRANSMITTER_PACKET_SEND_INFO.zero
    Mdl := [{ ByteOffset := 0, ByteCount := Length,
              PfnArray := List.range ((Length + PAGE_SIZE - 1) / PAGE_SIZE) }]
    Offset := 0
    Length := Length
    Completion := zeroCompletion
    Parse := some ethernetOnlyInfo
    DestinationType := ETHERNET_ADDRESS_UNICAST }

/-- An empty shared page: indices as `SHARED_RING_INIT` leaves them. -/
def emptyShared : netif_tx_sring_t :=
  { req_prod := 0, req_event := 1, rsp_prod := 0, rsp_event := 1,
    Req := fun _ => RequestSlot.empty, Rsp := fun _ => { id := 0, status := 0 } }

/-- A connected and enabled ring on which nothing has happened yet: all
counters zero, nothing pending, every fragment id from 1 to 1023 free, the
lock free.  Every packet pointer points to a `plainPacket Length`, the
maximum frame size is `MaximumFrameSize`, and call number `t` to a cache or
to the grant table succeeds iff `Oracle t`. -/
def freshRing (Length MaximumFrameSize AlwaysCopy : Nat) (Oracle : Nat → Bool) :
    XENVIF_TRANSMITTER_RING :=
  { Front := { req_prod_pvt := 0, rsp_cons := 0 }
    Shared := emptyShared
    Connected := true
    Enabled := true
    Stopped := false
    Lock := { LockBit := false, Stash := [] }
    PacketQueue := []
    RequestQueue := []
    State := XENVIF_TRANSMITTER_STATE.zero
    PacketsQueued := 0
    PacketsGranted := 0
    PacketsCopied := 0
    PacketsFaked := 0
    PacketsUnprepared := 0
    PacketsPrepared := 0
    Pending := fun _ => none
    RequestsPosted := 0
    RequestsPushed := 0
    ResponsesProcessed := 0
    PacketsSent := 0
    PacketComplete := []
    PacketsCompleted := 0
    Packets := fun _ => plainPacket Length
    AlwaysCopy := AlwaysCopy
    MaximumFrameSize := MaximumFrameSize
    Statistics := ⟨0, 0, 0, 0, 0, 0, 0, 0, 0⟩
    Oracle := Oracle
    Tick := 0
    FreeIds := List.range' 1 1023
    BuffersHeld := 0
    GrantsHeld := 0
    Returned := []
    Notifications := 0 }

/-- The fragment of the `i`-th packet of `inFlightRing` (counting from 1):
the header fragment of a 14-byte packet padded to `ETHERNET_MIN`, as
`__TransmitterRingPreparePacket` builds it when the buffer, the fragment and
the grant entry come from the calls number `3 * (i - 1)`, `3 * (i - 1) + 1`
and `3 * (i - 1) + 2`. -/
def inFlightFragment (i : Nat) : XENVIF_TRANSMITTER_FRAGMENT :=
  { Id := i
    Context := FragmentContext.BUFFER
      { Pfn := 3 * (i - 1), ByteCount := 60, Context := some (i - 1), Reference := 1 }
    Entry := some (3 * (i - 1))
    Offset := 0
    Length := 60
    Extra := false }

/-- The ring after `n` packets of 14 bytes (packet pointers `0 .. n - 1`)
were queued one by one on a fresh ring, prepared, posted and pushed, and
before the backend has answered any of them: every packet occupies one slot
and one entry of `Pending`. -/
def inFlightRing (n : Nat) : XENVIF_TRANSMITTER_RING :=
  { freshRing 14 1514 0 (fun _ => true) with
    Front := { req_prod_pvt := n, rsp_cons := 0 }
    Shared := { emptyShared with
      req_prod := n
      Req := fun i =>
        if i < n then
          RequestSlot.request { id := i + 1, gref := 3 * i, offset := 0, size := 60, flags := 0 }
        else RequestSlot.empty }
    PacketsQueued := n
    PacketsCopied := n
    PacketsPrepared := n
    PacketsSent := n
    RequestsPosted := n
    RequestsPushed := n
    Pending := fun i => if 1 ≤ i ∧ i ≤ n then some (inFlightFragment i) else none
    Packets := fun p =>
      if p < n then
        { plainPacket 14 with
          Value := 1
          Completion := { Type_ := ETHERNET_ADDRESS_UNICAST
                          Status := XENVIF_TRANSMITTER_PACKET_PENDING
                          PacketLength := 60
                          PayloadLength := 0 } }
      else plainPacket 14
    Tick := 3 * n
    FreeIds := List.range' (n + 1) (1023 - n)
    BuffersHeld := n
    GrantsHeld := n
    Notifications := min n 1 }

/-- The ring `inFlightRing n` after the backend has answered every one of
the `n` requests with `status` and published the responses. -/
def answeredRing (n : Nat) (status : Int) : XENVIF_TRANSMITTER_RING :=
  { inFlightRing n with
    Shared := { (inFlightRing n).Shared with
      rsp_prod := n
      Rsp := fun i => if i < n then { id := i + 1, status := status }
                      else { id := 0, status := 0 } } }

/-! ### Frames and invariants used by the theorems -/

/-- The ring without what the preparation of a packet writes: the fragment
list and count of `State`, the packets, and the state of the caches and of
the grant table. -/
def prepFrame (Ring : XENVIF_TRANSMITTER_RING) : XENVIF_TRANSMITTER_RING :=
  { Ring with
    State := { Ring.State with List := [], Count := 0 }
    Packets := fun _ => plainPacket 0
    Tick := 0
    FreeIds := []
    BuffersHeld := 0
    GrantsHeld := 0 }

/-- `PacketsPrepared == PacketsCopied + PacketsGranted + PacketsFaked`, in
`ULONG` arithmetic. -/
def PreparedInvariant (Ring : XENVIF_TRANSMITTER_RING) : Prop :=
  Ring.PacketsPrepared % 4294967296 =
    (Ring.PacketsCopied + Ring.PacketsGranted + Ring.PacketsFaked) % 4294967296

/-- The number of packets that are prepared and held in `State`, waiting
to be posted: 1 if `State.Packet` is set, else 0. -/
def parked (Ring : XENVIF_TRANSMITTER_RING) : Nat :=
  if Ring.State.Packet.isSome then 1 else 0

/-- `PacketsSent == PacketsPrepared - PacketsUnprepared`, in `ULONG`
arithmetic. -/
def SentInvariant (Ring : XENVIF_TRANSMITTER_RING) : Prop :=
  Ring.PacketsSent % 4294967296 =
    ULONG_sub Ring.PacketsPrepared Ring.PacketsUnprepared

/-- `PacketsSent + parked == PacketsPrepared - PacketsUnprepared`, in
`ULONG` arithmetic, and `State` holds a packet only together with
fragments. -/
def SentParkedInvariant (Ring : XENVIF_TRANSMITTER_RING) : Prop :=
  (Ring.PacketsSent + parked Ring) % 4294967296 =
      ULONG_sub Ring.PacketsPrepared Ring.PacketsUnprepared ∧
    (Ring.State.Count = 0 → Ring.State.Packet = none)

/-- `PacketsQueued == PacketsPrepared - PacketsUnprepared + |PacketQueue|`,
in `ULONG` arithmetic. -/
def QueuedInvariant (Ring : XENVIF_TRANSMITTER_RING) : Prop :=
  Ring.PacketsQueued % 4294967296 =
    ULONG_add (ULONG_sub Ring.PacketsPrepared Ring.PacketsUnprepared) Ring.PacketQueue.length

/-- The ring without what preparing and un-preparing write: the whole of
`State` in addition to what `prepFrame` leaves out. -/
def outerFrame (Ring : XENVIF_TRANSMITTER_RING) : XENVIF_TRANSMITTER_RING :=
  { prepFrame Ring with State := XENVIF_TRANSMITTER_STATE.zero }

/-- The ring without what preparing, un-preparing and their counters write:
`outerFrame` without the counters `PacketsPrepared`, `PacketsCopied`,
`PacketsGranted` and `PacketsUnprepared`. -/
def counterFrame (Ring : XENVIF_TRANSMITTER_RING) : XENVIF_TRANSMITTER_RING :=
  { outerFrame Ring with
    PacketsPrepared := 0
    PacketsCopied := 0
    PacketsGranted := 0
    PacketsUnprepared := 0 }

/-- The ring without what the payload step of a preparation writes:
`prepFrame` without the counters `PacketsCopied` and `PacketsGranted`. -/
def payloadFrame (Ring : XENVIF_TRANSMITTER_RING) : XENVIF_TRANSMITTER_RING :=
  { prepFrame Ring with
    PacketsCopied := 0
    PacketsGranted := 0 }

/-- The ring without what posting requests writes: the private and shared
indices and slots, `Pending`, `RequestsPosted`, and the fragment list and
count of `State`. -/
def postFrame (Ring : XENVIF_TRANSMITTER_RING) : XENVIF_TRANSMITTER_RING :=
  { Ring with
    Front := { req_prod_pvt := 0, rsp_cons := 0 }
    Shared := emptyShared
    Pending := fun _ => none
    RequestsPosted := 0
    State := { Ring.State with List := [], Count := 0 } }

/-- The packet counters that only preparing, un-preparing, faking and
queueing write, together with the two queues and `Enabled`. -/
def ledger (Ring : XENVIF_TRANSMITTER_RING) :
    (Nat × Nat × Nat × Nat × Nat × Nat) × List Nat × List XENVIF_TRANSMITTER_REQUEST × Bool :=
  ((Ring.PacketsPrepared, Ring.PacketsCopied, Ring.PacketsGranted, Ring.PacketsFaked,
    Ring.PacketsUnprepared, Ring.PacketsQueued), Ring.PacketQueue, Ring.RequestQueue,
   Ring.Enabled)

/-- Every fragment in `Pending` sits at the index that is its id. -/
def PendingIds (Ring : XENVIF_TRANSMITTER_RING) : Prop :=
  ∀ i Fragment, Ring.Pending i = some Fragment → Fragment.Id = i

/-! ### Counting the preparations that fail in the payload step -/

/-- 1 if the pass of the scheduler loop for `Packet` prepares the header
of the packet and then fails in the payload step (the exit `fail2` of
`__TransmitterRingPreparePacket`), else 0. -/
def scheduleSlip (Ring : XENVIF_TRANSMITTER_RING) (Packet : Nat) : Nat :=
  let Ring := Ring.updatePacket Packet (fun P => { P with Value := 0 })
  if (__TransmitterRingPrepareHeader (PreparePacketEnter Ring Packet)).1 = STATUS_SUCCESS ∧
      (__TransmitterRingPreparePacket Ring Packet).1 ≠ STATUS_SUCCESS then 1
  else 0

/-- The number of passes of `TransmitterRingScheduleLoop` in which the
preparation of a packet fails in the payload step.  The function follows the
loop pass by pass. -/
def ScheduleLoopSlips : Nat → XENVIF_TRANSMITTER_RING → Nat
  | 0, _ => 0
  | fuel + 1, Ring =>
    let posted := schedulePost Ring
    if !NT_SUCCESS posted.1 then 0
    else
      let Ring := schedulePush posted.2
      match Ring.RequestQueue with
      | Request :: rest =>
        let Ring := { Ring with RequestQueue := rest }
        ScheduleLoopSlips fuel (prepareRequest Ring Request)
      | [] =>
        match Ring.PacketQueue with
        | Packet :: rest =>
          let Ring := { Ring with PacketQueue := rest }
          scheduleSlip Ring Packet + ScheduleLoopSlips fuel (schedulePacket Ring Packet)
        | [] => 0

/-- The number of preparations that fail in the payload step while
`__TransmitterRingReleaseLock` runs. -/
def ReleaseLockSlips (Ring : XENVIF_TRANSMITTER_RING) : Nat :=
  let Ring := TransmitterRingSwizzle Ring
  if !Ring.Enabled || Ring.Stopped then 0
  else ScheduleLoopSlips (Ring.RequestQueue.length + Ring.PacketQueue.length + 1) Ring

/-- `PacketsSent + parked == PacketsPrepared - PacketsUnprepared + k`, in
`ULONG` arithmetic, and `State` holds a packet only together with
fragments. -/
def SentParkedOff (k : Nat) (Ring : XENVIF_TRANSMITTER_RING) : Prop :=
  (Ring.PacketsSent + parked Ring) % 4294967296 =
      (ULONG_sub Ring.PacketsPrepared Ring.PacketsUnprepared + k) % 4294967296 ∧
    (Ring.State.Count = 0 → Ring.State.Packet = none)

/-! ### The responses processed for a packet -/

/-- The status of the response at index `rsp_cons` if the response loop of
`TransmitterRingPoll` will count it for the packet `Packet`: the response is
not a `NETIF_RSP_NULL` one and the fragment in `Pending[rsp->id]` belongs to
the packet. -/
def responseFor (Ring : XENVIF_TRANSMITTER_RING) (rsp_cons : Nat) (Packet : Nat) :
    Option Int :=
  let rsp := Ring.Shared.Rsp (rsp_cons % XENVIF_TRANSMITTER_RING_SIZE)
  if rsp.status = NETIF_RSP_NULL then none
  else
    match Ring.Pending rsp.id with
    | none => none
    | some Fragment => if Fragment.packet = some Packet then some rsp.status else none

/-- The statuses of the responses that `PollLoop n rsp_cons Ring` processes
for the packet `Packet`, in the order in which it processes them. -/
def packetResponses (Packet : Nat) : Nat → Nat → XENVIF_TRANSMITTER_RING → List Int
  | 0, _, _ => []
  | n + 1, rsp_cons, Ring =>
    match PollResponse Ring rsp_cons with
    | none => []
    | some Ring' =>
      (responseFor Ring rsp_cons Packet).toList ++
        packetResponses Packet n (ULONG_inc rsp_cons) Ring'

/-- The completion status the spec gives a packet whose responses had the
statuses `statuses`: `OK` if all were `NETIF_RSP_OKAY`, otherwise the
translation of the first one that was not. -/
def finalStatus (statuses : List Int) : XENVIF_TRANSMITTER_PACKET_STATUS :=
  match statuses.find? (fun s => decide (s ≠ NETIF_RSP_OKAY)) with
  | none => XENVIF_TRANSMITTER_PACKET_OK
  | some s =>
    if s = NETIF_RSP_DROPPED then XENVIF_TRANSMITTER_PACKET_DROPPED
    else XENVIF_TRANSMITTER_PACKET_ERROR

/-- The statuses a response of the protocol may have besides
`NETIF_RSP_NULL`. -/
def protocolStatus (s : Int) : Prop :=
  s = NETIF_RSP_OKAY ∨ s = NETIF_RSP_DROPPED ∨ s = NETIF_RSP_ERROR

/-! ### The responses the spec expects `__TransmitterRingFakeResponses` to write -/

/-- The responses the spec expects for the entry `Pending[id]`: none if it
is null, else a `NETIF_RSP_DROPPED` response carrying the id of the fragment,
followed by a `NETIF_RSP_NULL` response (whose id does not matter) if the
fragment has its `Extra` flag set. -/
def fakeEntry (Pending : Nat → Option XENVIF_TRANSMITTER_FRAGMENT) (id : Nat) :
    List (Option Nat × Int) :=
  match Pending id with
  | none => []
  | some Fragment =>
    (some Fragment.Id, NETIF_RSP_DROPPED) ::
      (if Fragment.Extra then [(none, NETIF_RSP_NULL)] else [])

/-- The responses the spec expects for the entries of `Pending` with the
ids `ids`, in the order of `ids`. -/
def expectedFake (Pending : Nat → Option XENVIF_TRANSMITTER_FRAGMENT) :
    List Nat → List (Option Nat × Int)
  | [] => []
  | id :: rest => fakeEntry Pending id ++ expectedFake Pending rest

/-- A response has the status, and where one is named the id, of an
expected response. -/
def responseMatches (rsp : netif_tx_response_t) (e : Option Nat × Int) : Prop :=
  rsp.status = e.2 ∧ ∀ id, e.1 = some id → rsp.id = id

/-- The number of entries of `Pending` with an id in `ids` whose fragment
belongs to the packet `Packet`. -/
def pendingCount (Pending : Nat → Option XENVIF_TRANSMITTER_FRAGMENT) (Packet : Nat) :
    List Nat → Nat
  | [] => 0
  | id :: rest =>
    (match Pending id with
     | some Fragment => if Fragment.packet = some Packet then 1 else 0
     | none => 0) + pendingCount Pending Packet rest

/-! ### Sequences of calls -/

/-- Successive calls of `__TransmitterRingQueuePackets`, one for each list
of `Lists`, in order. -/
def QueuePacketsSeq : List (List Nat) → XENVIF_TRANSMITTER_RING → Option XENVIF_TRANSMITTER_RING
  | [], Ring => some Ring
  | List :: rest, Ring =>
    match __TransmitterRingQueuePackets Ring List with
    | none => none
    | some Ring => QueuePacketsSeq rest Ring

/-! ### What a post writes -/

/-- The request that `__TransmitterRingPostFragments` writes for a fragment
(transmitter.c:2071-2080), carrying the flags `flags`: the id, the grant
reference (0 without a grant entry) and the offset and length of the
fragment, the last two cast to `USHORT`. -/
def requestOf (Fragment : XENVIF_TRANSMITTER_FRAGMENT) (flags : Nat) : netif_tx_request_t :=
  { id := Fragment.Id
    gref := match Fragment.Entry with
            | some Entry => Entry
            | none => 0
    offset := Fragment.Offset % 65536
    size := Fragment.Length % 65536
    flags := flags }

/-- The flags of the first request of a post before `NETTXF_more_data` is
cleared on the last request (transmitter.c:2080-2128): `NETTXF_more_data`,
the two checksum flags if a checksum offload is requested, and
`NETTXF_extra_info` if an extra-info slot follows. -/
def firstFlags (Send : XENVIF_TRANSMITTER_PACKET_SEND_INFO)
    (Fragment : XENVIF_TRANSMITTER_FRAGMENT) : Nat :=
  let flags := NETTXF_more_data
  let flags :=
    if Send.OffloadIpVersion4TcpChecksum || Send.OffloadIpVersion4UdpChecksum ||
        Send.OffloadIpVersion6TcpChecksum || Send.OffloadIpVersion6UdpChecksum
    then flags ||| (NETTXF_csum_blank ||| NETTXF_data_validated)
    else flags
  if needsExtra Send (some Fragment) then flags ||| NETTXF_extra_info else flags

/-- The slot of the shared ring that holds the `k`-th data request
(counting from 0) of a post that starts at the producer index `req_prod`:
the requests follow each other, and `Extra` slots (0 or 1) lie between the
first request and the second. -/
def dataSlot (req_prod Extra k : Nat) : Nat :=
  (req_prod + k + (if k = 0 then 0 else Extra)) % XENVIF_TRANSMITTER_RING_SIZE

/-- The entries of `Pending` after the fragments `Fragments` were stored one
after the other, each at the index that is its id. -/
def storePending (Pending : Nat → Option XENVIF_TRANSMITTER_FRAGMENT)
    (Fragments : List XENVIF_TRANSMITTER_FRAGMENT) :
    Nat → Option XENVIF_TRANSMITTER_FRAGMENT :=
  Fragments.foldl (fun P Fragment => setAt P Fragment.Id (some Fragment)) Pending

/-- The flags of the `k`-th data request (counting from 0) of a post of `N`
fragments, as they stand when the post returns: the first request has the
flags of `firstFlags`, every later one `NETTXF_more_data`, and the last one
has lost `NETTXF_more_data` (transmitter.c:2145). -/
def postedFlags (Send : XENVIF_TRANSMITTER_PACKET_SEND_INFO)
    (First : XENVIF_TRANSMITTER_FRAGMENT) (N k : Nat) : Nat :=
  let flags := if k = 0 then firstFlags Send First else NETTXF_more_data
  if k + 1 = N then flags &&& 0xFFFB else flags

/-- The slot `slot` after `req->flags &= ~NETTXF_more_data`. -/
def clearFlag (slot : RequestSlot) : RequestSlot :=
  match slot with
  | RequestSlot.request req => RequestSlot.request { req with flags := req.flags &&& 0xFFFB }
  | s => s

/-! ### Concrete rings holding a prepared packet -/

/-- The ring `freshRing 1000 1514 0` (grants allowed, every allocation
succeeds) after `__TransmitterRingPreparePacket` has prepared packet 0, a
1000-byte packet: `State` holds the header fragment and one granted payload
fragment. -/
def preparedRing : XENVIF_TRANSMITTER_RING :=
  (__TransmitterRingPreparePacket (freshRing 1000 1514 0 (fun _ => true)) 0).2

/-- A parse result for a TCP/IPv4 frame without options: a 14-byte Ethernet
header, a 20-byte IP header and a 20-byte TCP header. -/
def tcpInfo : XENVIF_PACKET_INFO :=
  { XENVIF_PACKET_INFO.zero with
    Length := 54, EthernetHeader := ⟨0, 14⟩, IpHeader := ⟨14, 20⟩, TcpHeader := ⟨34, 20⟩ }

/-- A 3000-byte TCP/IPv4 large-send packet (54 bytes of headers, 2946 bytes
of payload) with a maximum segment size of 1460 that also asks for a tag. -/
def largePacket : XENVIF_TRANSMITTER_PACKET :=
  { plainPacket 3000 with
    Parse := some tcpInfo
    Send := { XENVIF_TRANSMITTER_PACKET_SEND_INFO.zero with
      OffloadTagManipulation := true
      OffloadIpVersion4LargePacket := true
      MaximumSegmentSize := 1460
      TagControlInformation := 5 } }

/-- A fresh ring whose packets are `largePacket`s, after
`__TransmitterRingPreparePacket` has prepared packet 0: `State` holds the
header fragment and one granted payload fragment, and the large-packet flag
is still set. -/
def preparedLargeRing : XENVIF_TRANSMITTER_RING :=
  (__TransmitterRingPreparePacket
    { freshRing 3000 1514 0 (fun _ => true) with Packets := fun _ => largePacket } 0).2

/-! ### Tracking what the fragments of `State` hold -/

/-- The number of fragments of a list that hold a grant entry. -/
def grantCount (Fragments : List XENVIF_TRANSMITTER_FRAGMENT) : Nat :=
  (Fragments.filter (fun F => F.Entry.isSome)).length

/-- `Fragment->Type == XENVIF_TRANSMITTER_FRAGMENT_TYPE_BUFFER`. -/
def XENVIF_TRANSMITTER_FRAGMENT.isBuffer (f : XENVIF_TRANSMITTER_FRAGMENT) : Bool :=
  match f.Context with
  | FragmentContext.BUFFER _ => true
  | _ => false

/-- The number of fragments of a list that own a buffer. -/
def bufferCount (Fragments : List XENVIF_TRANSMITTER_FRAGMENT) : Nat :=
  (Fragments.filter (fun F => F.isBuffer)).length

/-- The fragments in `State->List` account for everything that the ring
holds beyond a base line: `G` grant entries, `B` buffers, the free fragment
ids `Ids` and the packets `Pk`.  Each fragment with a grant entry holds one
entry, each buffer fragment one buffer, each fragment its id, and each
fragment counts once in the `Value` of the packet `Packet`, to which all of
them belong; `State->Count` is the length of the list. -/
def Tracked (G B : Nat) (Ids : List Nat) (Pk : Nat → XENVIF_TRANSMITTER_PACKET)
    (Packet : Nat) (Ring : XENVIF_TRANSMITTER_RING) : Prop :=
  Ring.GrantsHeld = G + grantCount Ring.State.List ∧
  Ring.BuffersHeld = B + bufferCount Ring.State.List ∧
  Ring.State.List.map (fun F => F.Id) ++ Ring.FreeIds = Ids ∧
  Ring.Packets =
    setAt Pk Packet { Pk Packet with Value := (Pk Packet).Value + Ring.State.List.length } ∧
  (∀ F, F ∈ Ring.State.List → F.packet = some Packet) ∧
  Ring.State.Count = Ring.State.List.length

/-- The number of bytes in the buffer of a buffer fragment
(`Buffer->Mdl->ByteCount`), 0 for a fragment without a buffer. -/
def bufferBytes (Fragment : XENVIF_TRANSMITTER_FRAGMENT) : Nat :=
  match Fragment.Context with
  | FragmentContext.BUFFER Buffer => Buffer.ByteCount
  | _ => 0

/-- One pass of the unwinding loop of `__TransmitterRingCopyPayload`
(transmitter.c:897-932) for the fragment `Fragment` found at the tail of the
list. -/
def CopyUnwindStep (Ring : XENVIF_TRANSMITTER_RING) (Fragment : XENVIF_TRANSMITTER_FRAGMENT)
    (Packet : Nat) : XENVIF_TRANSMITTER_RING :=
  let Ring := { Ring with State := { Ring.State with Count := Ring.State.Count - 1,
                                                     List := Ring.State.List.dropLast } }
  let Ring := RevokeForeignAccess Ring Fragment.Entry
  let Ring := __TransmitterPutFragment Ring Fragment
  let Ring := decValue Ring Packet
  match Fragment.Context with
  | FragmentContext.BUFFER Buffer => __TransmitterPutBuffer Ring Buffer
  | _ => Ring

/-- One pass of the unwinding loop of `__TransmitterRingGrantPayload`
(transmitter.c:1062-1088) for the fragment `Fragment` found at the tail of
the list. -/
def GrantUnwindStep (Ring : XENVIF_TRANSMITTER_RING) (Fragment : XENVIF_TRANSMITTER_FRAGMENT)
    (Packet : Nat) : XENVIF_TRANSMITTER_RING :=
  let Ring := { Ring with State := { Ring.State with Count := Ring.State.Count - 1,
                                                     List := Ring.State.List.dropLast } }
  let Ring := RevokeForeignAccess Ring Fragment.Entry
  let Ring := decValue Ring Packet
  __TransmitterPutFragment Ring Fragment

/-! ### The values computed by the header step -/

/-- The length given to the header fragment (transmitter.c:1171 and 1196):
the bytes of the header in the buffer plus the payload, plus
`sizeof (ETHERNET_TAG)` when a tag is inserted. -/
def headerLength (Tagged : Bool) (ByteCount PayloadLength : Nat) : Nat :=
  if Tagged then ULONG_add (ULONG_add ByteCount PayloadLength) sizeof_ETHERNET_TAG
  else ULONG_add ByteCount PayloadLength

/-- The test of transmitter.c:1294-1305 on the send information `Send` as it
stands after the large-packet fix-up: no large-packet flag is set and the
fragment length exceeds the maximum frame size. -/
def tooLarge (Send : XENVIF_TRANSMITTER_PACKET_SEND_INFO) (Length MaximumFrameSize : Nat) :
    Bool :=
  !Send.OffloadIpVersion4LargePacket && !Send.OffloadIpVersion6LargePacket &&
    decide (Length > MaximumFrameSize)

/-- The header fragment that `__TransmitterRingPrepareHeader` puts on the
list (transmitter.c:1161-1196 and 1311-1316), built from the fragment
`Fragment` and the buffer `Buffer` holding `Buffer.ByteCount` bytes of
header. -/
def headerFragment (Fragment : XENVIF_TRANSMITTER_FRAGMENT) (Buffer : XENVIF_TRANSMITTER_BUFFER)
    (Entry : Nat) (Tagged : Bool) (PayloadLength : Nat) : XENVIF_TRANSMITTER_FRAGMENT :=
  { Fragment with
    Context := FragmentContext.BUFFER
      (if Tagged then
         { Buffer with ByteCount := ULONG_add Buffer.ByteCount sizeof_ETHERNET_TAG }
       else Buffer)
    Entry := some Entry
    Offset := 0
    Length := headerLength Tagged Buffer.ByteCount PayloadLength }

/-- What `Tracked` says about the grant entries, the buffers, the ids and
the packets, without the clause on `State->Count` (which
`__TransmitterRingUnprepareFragments` does not keep up to date while it
walks the list). -/
def TrackedRes (G B : Nat) (Ids : List Nat) (Pk : Nat → XENVIF_TRANSMITTER_PACKET)
    (Packet : Nat) (Ring : XENVIF_TRANSMITTER_RING) : Prop :=
  Tracked G B Ids Pk Packet
    { Ring with State := { Ring.State with Count := Ring.State.List.length } }

/-! ### The fragments added by the payload step -/

/-- The fragments `added` are what a successful
`__TransmitterRingCopyPayload` adds for a payload of `Length` bytes: buffer
fragments with a grant entry, offset 0 and the length of their buffer, which
together hold the payload, a page each but for the last. -/
def CopiedFragments (added : List XENVIF_TRANSMITTER_FRAGMENT) (Length : Nat) : Prop :=
  (∀ F, F ∈ added → F.isBuffer = true ∧ F.Offset = 0 ∧ F.Length = bufferBytes F ∧
    F.Extra = false ∧ F.Entry.isSome = true ∧ 1 ≤ F.Length ∧ F.Length ≤ PAGE_SIZE) ∧
  (added.map bufferBytes).sum = Length ∧
  added.length * PAGE_SIZE < Length + PAGE_SIZE ∧
  Length ≤ added.length * PAGE_SIZE

/-- The fragments `added` are what a successful
`__TransmitterRingGrantPayload` adds: fragments with a grant entry that own
no buffer. -/
def GrantedFragments (added : List XENVIF_TRANSMITTER_FRAGMENT) : Prop :=
  ∀ F, F ∈ added → F.isBuffer = false ∧ F.Extra = false ∧ F.Entry.isSome = true

/-- The test of transmitter.c:1534: the header and the payload together are
shorter than `ETHERNET_MIN`. -/
def isRunt (InfoLength PayloadLength : Nat) : Prop :=
  ULONG_add InfoLength PayloadLength < ETHERNET_MIN

instance (InfoLength PayloadLength : Nat) : Decidable (isRunt InfoLength PayloadLength) := by
  unfold isRunt; infer_instance

/-- The local `Trailer` of transmitter.c:1538. -/
def runtTrailer (InfoLength PayloadLength : Nat) : Nat :=
  ULONG_sub (ULONG_sub ETHERNET_MIN PayloadLength) InfoLength

/-! ### Concrete rings on which a preparation fails -/

/-- A fresh ring (maximum frame size 1514) whose packets are 3000-byte
TCP/IPv4 large-send packets with a maximum segment size of 2946, the length
of their payload: the fix-up makes them ordinary packets, which are too
large. -/
def singleSegmentRing : XENVIF_TRANSMITTER_RING :=
  { freshRing 3000 1514 0 (fun _ => true) with
    Packets := fun _ =>
      { plainPacket 3000 with
        Parse := some tcpInfo
        Send := { XENVIF_TRANSMITTER_PACKET_SEND_INFO.zero with
          OffloadIpVersion4LargePacket := true
          MaximumSegmentSize := 2946 } } }

/-- A fresh ring with `AlwaysCopy` set whose packets are 1000-byte packets
that ask for a tag, and on which the fourth allocation (the bounce buffer of
the payload) fails. -/
def payloadFailureRing : XENVIF_TRANSMITTER_RING :=
  { freshRing 1000 1514 1 (fun t => t != 3) with
    Packets := fun _ =>
      { plainPacket 1000 with
        Send := { XENVIF_TRANSMITTER_PACKET_SEND_INFO.zero with
          OffloadTagManipulation := true
          TagControlInformation := 5 } } }

/-- A 1000-byte unicast packet scattered over twenty descriptors of 50
bytes, each in a page of its own. -/
def scatteredPacket : XENVIF_TRANSMITTER_PACKET :=
  { plainPacket 1000 with
    Mdl := (List.range 20).map (fun k => { ByteOffset := 0, ByteCount := 50, PfnArray := [k] }) }

/-- A fresh ring that grants payloads and whose packets are `scatteredPacket`. -/
def scatteredRing : XENVIF_TRANSMITTER_RING :=
  { freshRing 1000 1514 0 (fun _ => true) with Packets := fun _ => scatteredPacket }

/-- What the source asserts when it stores a fragment in `Pending`
(transmitter.c:2139, `ASSERT3P(Ring->Pending[req->id], ==, NULL)`), said of
the fragments held in `State`: they have different ids, and the slot of
`Pending` that each id names is empty. -/
def IdsFresh (Ring : XENVIF_TRANSMITTER_RING) : Prop :=
  (Ring.State.List.map (fun F => F.Id)).Nodup ∧
  ∀ F, F ∈ Ring.State.List → Ring.Pending F.Id = none

/-- The order of the request counters and the bound on the private ring
indices, with the differences taken as `ULONG`s: `ResponsesProcessed`,
`RequestsPushed` and `RequestsPosted` follow each other in this order (the
two distances add up to the distance from the first to the last), the
requests posted and not yet answered are those between the private indices
`Front.rsp_cons` and `Front.req_prod_pvt`, and they are at most
`RING_SIZE`. -/
def RingIndexInvariant (Ring : XENVIF_TRANSMITTER_RING) : Prop :=
  ULONG_sub Ring.RequestsPushed Ring.ResponsesProcessed +
      ULONG_sub Ring.RequestsPosted Ring.RequestsPushed =
    ULONG_sub Ring.RequestsPosted Ring.ResponsesProcessed ∧
  ULONG_sub Ring.RequestsPosted Ring.ResponsesProcessed =
    ULONG_sub Ring.Front.req_prod_pvt Ring.Front.rsp_cons ∧
  ULONG_sub Ring.Front.req_prod_pvt Ring.Front.rsp_cons ≤ XENVIF_TRANSMITTER_RING_SIZE

/-- The backend has published no more responses than requests were pushed
to it: the responses between `Front.rsp_cons` and the shared `rsp_prod` are
not more than the requests pushed and not yet answered. -/
def BackendBound (Ring : XENVIF_TRANSMITTER_RING) : Prop :=
  ULONG_sub Ring.Shared.rsp_prod Ring.Front.rsp_cons ≤
    ULONG_sub Ring.RequestsPushed Ring.ResponsesProcessed

/-! ### frontend.c: what a retry of `FrontendSetState` does -/

/-- From `cur`, the first pass of the loop of `FrontendSetState` towards
`target` calls `FrontendPrepare`: the arms `FRONTEND_UNKNOWN` with a target
other than UNKNOWN, and `FRONTEND_CLOSED` with a target above CLOSED
(frontend.c:1771-1815). -/
def startsWithPrepare (cur target : XENVIF_FRONTEND_STATE) : Bool :=
  (decide (cur = FRONTEND_UNKNOWN) && decide (target ≠ FRONTEND_UNKNOWN)) ||
  (decide (cur = FRONTEND_CLOSED) && decide (2 ≤ target.toNat))

/-! ### frontend.c: queue counts -/

/-- `FrontendSetMaxQueues` (frontend.c:213-233), the value it stores in
`Frontend->MaxQueues`: the processor count, lowered to the registry value
`FrontendMaxQueues` when that can be read and is smaller.  `Processors` is
what `KeQueryActiveProcessorCountEx` returns, `FrontendMaxQueues` the registry
value (`none` when `RegistryQueryDwordValue` fails); both are ULONGs. -/
def FrontendSetMaxQueues (Processors : Nat) (FrontendMaxQueues : Option Nat) : Nat :=
  let MaxQueues := Processors % 4294967296
  match FrontendMaxQueues with
  | some v => if v % 4294967296 < MaxQueues then v % 4294967296 else MaxQueues
  | none => MaxQueues

/-- `FrontendSetNumQueues` (frontend.c:1438-1466), the value it stores in
`Frontend->NumQueues`: `__min(MaxQueues, BackendMaxQueues)`, where
`BackendMaxQueues` is the number read from the backend node
`multi-queue-max-queues` (`Node`, the result of `strtoul`), or 1 when the node
cannot be read (`none`). -/
def FrontendSetNumQueues (MaxQueues : Nat) (Node : Option Nat) : Nat :=
  let BackendMaxQueues :=
    match Node with
    | some v => v % 4294967296
    | none => 1
  if MaxQueues < BackendMaxQueues then MaxQueues else BackendMaxQueues

/-! ### transmitter.c: spreading packets over the rings -/

/-- The local `LONG NumQueues` of `TransmitterQueuePackets`
(transmitter.c:4585-4588): the ULONG returned by `FrontendGetNumQueues`
converted to a signed 32-bit value. -/
def LONG_of_ULONG (x : Nat) : Int :=
  if x % 4294967296 < 2147483648 then (x % 4294967296 : Nat)
  else ((x % 4294967296 : Nat) : Int) - 4294967296

/-- The divisor of `Packet->Value % NumQueues` (transmitter.c:4614): the
`LONG` converted to the type of `Packet->Value`, `ULONG_PTR`. -/
def ULONG_PTR_of_LONG (x : Int) : Nat :=
  (x % 18446744073709551616).toNat

/-- The inner loop of `TransmitterQueuePackets` (transmitter.c:4603-4626).
`Divisor` is `NumQueues` as an `ULONG_PTR`, `Value p` is `Packet->Value` of
packet `p`, `Ring` the array `Transmitter->Ring`.  Each pass removes the head
of `List`; when its hash differs from `Index` the packets gathered in
`HashList` are queued on ring `Index` and a new `HashList` is begun.  A zero
divisor is a division by zero: `none`.  `none` also when a ring does not
finish the call. -/
def TransmitterQueuePacketsInner (Divisor : Nat) (Value : Nat → Nat) :
    List Nat → List Nat → Nat → (Nat → XENVIF_TRANSMITTER_RING) →
    Option (List Nat × Nat × (Nat → XENVIF_TRANSMITTER_RING))
  | [], HashList, Index, Ring => some (HashList, Index, Ring)
  | Packet :: List, HashList, Index, Ring =>
    if Divisor = 0 then none
    else
      let Hash := (Value Packet % Divisor) % 4294967296
      if Hash ≠ Index then
        if HashList ≠ [] then
          match __TransmitterRingQueuePackets (Ring Index) HashList with
          | none => none
          | some R =>
            TransmitterQueuePacketsInner Divisor Value List [Packet] Hash (setAt Ring Index R)
        else TransmitterQueuePacketsInner Divisor Value List [Packet] Hash Ring
      else TransmitterQueuePacketsInner Divisor Value List (HashList ++ [Packet]) Index Ring

/-- The step after the inner loop of `TransmitterQueuePackets`
(transmitter.c:4628-4634): the packets left in `HashList` are queued on ring
`Index`. -/
def TransmitterQueuePacketsFlush :
    Option (List Nat × Nat × (Nat → XENVIF_TRANSMITTER_RING)) →
    Option (Nat → XENVIF_TRANSMITTER_RING)
  | none => none
  | some (HashList, Index, Ring) =>
    if HashList ≠ [] then
      match __TransmitterRingQueuePackets (Ring Index) HashList with
      | none => none
      | some R => some (setAt Ring Index R)
    else some Ring

/-- `TransmitterQueuePackets` (transmitter.c:4577-4641).  `NumQueues` is what
`FrontendGetNumQueues` returns.  The result is the array of rings and the
caller's list as the function leaves them; with one queue the list head is
not touched, otherwise every entry has been removed from it.  The outer loop
makes one pass, because the inner loop empties `List`. -/
def TransmitterQueuePackets (NumQueues : Nat) (Value : Nat → Nat)
    (Ring : Nat → XENVIF_TRANSMITTER_RING) :
    List Nat → Option ((Nat → XENVIF_TRANSMITTER_RING) × List Nat) := fun List =>
  if LONG_of_ULONG NumQueues = 1 then
    match __TransmitterRingQueuePackets (Ring 0) List with
    | none => none
    | some R => some (setAt Ring 0 R, List)
  else
    match List with
    | [] => some (Ring, [])
    | _ :: _ =>
      match TransmitterQueuePacketsFlush
          (TransmitterQueuePacketsInner (ULONG_PTR_of_LONG (LONG_of_ULONG NumQueues)) Value
            List [] 0 Ring) with
      | none => none
      | some Ring => some (Ring, [])

/-- The calls of `__TransmitterRingQueuePackets` that the inner loop of
`TransmitterQueuePackets` and the step after it make, as pairs of ring index
and list, when every packet `p` hashes to `hash p`: the same walk as
`TransmitterQueuePacketsInner`, without the rings. -/
def hashCalls (hash : Nat → Nat) : List Nat → List Nat → Nat → List (Nat × List Nat)
  | [], HashList, Index => if HashList ≠ [] then [(Index, HashList)] else []
  | Packet :: List, HashList, Index =>
    if hash Packet ≠ Index then
      (if HashList ≠ [] then [(Index, HashList)] else []) ++
        hashCalls hash List [Packet] (hash Packet)
    else hashCalls hash List (HashList ++ [Packet]) Index

/-- Successive calls of `__TransmitterRingQueuePackets` on the rings of an
array: each pair is a ring index and the list queued on that ring. -/
def QueueCalls : List (Nat × List Nat) → (Nat → XENVIF_TRANSMITTER_RING) →
    Option (Nat → XENVIF_TRANSMITTER_RING)
  | [], Ring => some Ring
  | call :: rest, Ring =>
    match __TransmitterRingQueuePackets (Ring call.1) call.2 with
    | none => none
    | some R => QueueCalls rest (setAt Ring call.1 R)

/-! ### transmitter.c: queueing a multicast control request -/

/-- `__TransmitterGetRequest` (transmitter.c:600): a request from the request
cache; the result tells whether the pointer returned is not `NULL`. -/
def __TransmitterGetRequest (Ring : XENVIF_TRANSMITTER_RING) :
    Bool × XENVIF_TRANSMITTER_RING :=
  (Ring.Oracle Ring.Tick, { Ring with Tick := Ring.Tick + 1 })

/-- The ring as `__TransmitterRingQueueMulticastControl` hands it to
`__TransmitterRingReleaseLock` on its successful path
(transmitter.c:3948-3954): the request has been filled in and inserted at the
tail of `RequestQueue`. -/
def insertMulticastControl (Ring : XENVIF_TRANSMITTER_RING) (Address : List Nat)
    (Add : Bool) : XENVIF_TRANSMITTER_RING :=
  { Ring with RequestQueue :=
      Ring.RequestQueue ++ [XENVIF_TRANSMITTER_REQUEST.MULTICAST_CONTROL Address Add] }

/-- `__TransmitterRingQueueMulticastControl` (transmitter.c:3922-3980), with
the lock free on entry.  `MulticastControl` is `Transmitter->MulticastControl`.
The second component is the ring on return (`none` when the scheduler run by
`__TransmitterRingReleaseLock` does not finish). -/
def __TransmitterRingQueueMulticastControl (MulticastControl : Bool)
    (Ring : XENVIF_TRANSMITTER_RING) (Address : List Nat) (Add : Bool) :
    NTSTATUS × Option XENVIF_TRANSMITTER_RING :=
  if !MulticastControl then (STATUS_NOT_SUPPORTED, some Ring)
  else
    let Ring := __TransmitterRingAcquireLock Ring
    if !Ring.Enabled then (STATUS_UNSUCCESSFUL, __TransmitterRingReleaseLock Ring)
    else
      match __TransmitterGetRequest Ring with
      | (false, Ring) => (STATUS_NO_MEMORY, __TransmitterRingReleaseLock Ring)
      | (true, Ring) =>
        (STATUS_SUCCESS, __TransmitterRingReleaseLock (insertMulticastControl Ring Address Add))

/-- `TransmitterQueueMulticastControl` (transmitter.c:4688-4698): the request
goes to ring 0 and the status is dropped. -/
def TransmitterQueueMulticastControl (MulticastControl : Bool)
    (Ring : Nat → XENVIF_TRANSMITTER_RING) (Address : List Nat) (Add : Bool) :
    Option (Nat → XENVIF_TRANSMITTER_RING) :=
  match (__TransmitterRingQueueMulticastControl MulticastControl (Ring 0) Address Add).2 with
  | none => none
  | some R => some (setAt Ring 0 R)

/-! ### transmitter.c: states handed to `__TransmitterRingUnprepareFragments` -/

/-- The ring `payloadFailureRing` at the point where `fail2` of
`__TransmitterRingPreparePacket` calls `__TransmitterRingUnprepareFragments`:
the header of packet 0 has been prepared and the payload step has failed. -/
def payloadFailedRing : XENVIF_TRANSMITTER_RING :=
  (PreparePacketPayload
    (__TransmitterRingPrepareHeader (PreparePacketEnter payloadFailureRing 0)).2).2

/-- A fresh ring after `__TransmitterRingPrepareArp`: `State` holds the
single fragment of a control request. -/
def controlRing : XENVIF_TRANSMITTER_RING :=
  (__TransmitterRingPrepareArp (freshRing 1000 1514 0 (fun _ => true)) []).2

/-! ### transmitter.c: the rings of `TransmitterInitialize` -/

/-- The part of `XENVIF_TRANSMITTER` that the ring loops of
`TransmitterInitialize` write.  A ring is named by the index it was
initialised for.  `Ring` is the array `Transmitter->Ring` (`none` is `NULL`);
`TornDown` lists the rings passed to `__TransmitterRingTeardown`, in call
order. -/
structure TransmitterRings where
  Ring : Nat → Option Nat
  TornDown : List Nat

/-- The loop `while (Index < MaxQueues)` of `TransmitterInitialize`
(transmitter.c:4068-4077).  `ok Index` tells whether
`__TransmitterRingInitialize` succeeds for ring `Index`.  The result is the
value of `Index` at the exit and whether the exit is the `goto fail3`. -/
def TransmitterInitializeLoop (ok : Nat → Bool) (MaxQueues : Nat) :
    Nat → Nat → TransmitterRings → Nat × Bool × TransmitterRings
  | 0, Index, T => (Index, false, T)
  | fuel + 1, Index, T =>
    if Index < MaxQueues then
      if !ok Index then (Index, true, T)
      else
        TransmitterInitializeLoop ok MaxQueues fuel (Index + 1)
          { T with Ring := setAt T.Ring Index (some Index) }
    else (Index, false, T)

/-- The loop `while (--Index > 0)` at `fail3` of `TransmitterInitialize`
(transmitter.c:4085-4090), entered with `Index`: a pass decrements `Index`,
and if the result is above zero clears that slot and tears the ring found in
it down. -/
def TransmitterInitializeFail3 : Nat → TransmitterRings → TransmitterRings
  | 0, T => T
  | Index + 1, T =>
    if Index > 0 then
      TransmitterInitializeFail3 Index
        { Ring := setAt T.Ring Index none,
          TornDown := T.TornDown ++ (T.Ring Index).toList }
    else T

/-- The ring part of `TransmitterInitialize` (transmitter.c:4060-4093) for
`MaxQueues` rings, none of them initialised on entry: the status
(`STATUS_UNSUCCESSFUL` stands for the failure status that
`__TransmitterRingInitialize` returned), and the rings as they are when the
array `Transmitter->Ring` is freed on failure or kept on success. -/
def TransmitterInitialize (ok : Nat → Bool) (MaxQueues : Nat) : NTSTATUS × TransmitterRings :=
  match TransmitterInitializeLoop ok MaxQueues MaxQueues 0
      { Ring := fun _ => none, TornDown := [] } with
  | (Index, true, T) => (STATUS_UNSUCCESSFUL, TransmitterInitializeFail3 Index T)
  | (_, false, T) => (STATUS_SUCCESS, T)

/-! ### frontend.c: the handshake with the backend

The values of `XenbusState` and `DOMID_INVALID` come from the Xen public
headers, which are not part of the sources; `XenbusStateConnected` is
declared above. -/

/-- `XenbusStateUnknown`. -/
def XenbusStateUnknown : Nat := 0

/-- `XenbusStateInitialising`. -/
def XenbusStateInitialising : Nat := 1

/-- `XenbusStateInitWait`. -/
def XenbusStateInitWait : Nat := 2

/-- `XenbusStateInitialised`. -/
def XenbusStateInitialised : Nat := 3

/-- `XenbusStateClosing`. -/
def XenbusStateClosing : Nat := 5

/-- `XenbusStateClosed`. -/
def XenbusStateClosed : Nat := 6

/-- `DOMID_INVALID`. -/
def DOMID_INVALID : Nat := 0x7FF4

/-- The assertions of the handshake code: `ASSERT(FrontendIsOnline(Frontend))`
in `FrontendSetXenbusState` and `FrontendWaitForBackendXenbusStateChange`,
`ASSERT(FALSE)` in the `default` arm of a handshake loop,
`ASSERT(Frontend->Watch != NULL)` in `FrontendClose`, and the two assertions
of `FrontendReleaseBackend`. -/
inductive FrontendAssert where
  | IsOnline
  | Unexpected
  | WatchNotNull
  | BackendDomainValid
  | BackendPathNotNull
  deriving DecidableEq, Repr

/-- The fields of `XENVIF_FRONTEND` that the handshake reads and writes.
`BackendPath` and `Watch` are pointers (`none` is `NULL`).  Two fields are
not in the structure: `Published` lists the values written to the frontend's
`state` node, oldest first, and `Asserts` lists the assertions evaluated so
far with their outcome. -/
structure XENVIF_FRONTEND where
  State : XENVIF_FRONTEND_STATE
  Online : Bool
  BackendPath : Option String
  BackendDomain : Nat
  Watch : Option Nat
  Published : List Nat
  Asserts : List (FrontendAssert × Bool)
  deriving DecidableEq, Repr

/-- An `ASSERT` whose condition evaluates to `ok`. -/
def FrontendAssertion (F : XENVIF_FRONTEND) (a : FrontendAssert) (ok : Bool) :
    XENVIF_FRONTEND :=
  { F with Asserts := F.Asserts ++ [(a, ok)] }

/-- `FrontendSetOnline` (frontend.c:952). -/
def FrontendSetOnline (F : XENVIF_FRONTEND) : XENVIF_FRONTEND :=
  { F with Online := true }

/-- `FrontendSetOffline` (frontend.c:964); the eject request is not
modelled. -/
def FrontendSetOffline (F : XENVIF_FRONTEND) : XENVIF_FRONTEND :=
  { F with Online := false }

/-- `FrontendSetXenbusState` (frontend.c:977-1007).  `Online` is the value of
its local of that name: no eject has been requested and the backend's
`online` node reads as true. -/
def FrontendSetXenbusState (Online : Bool) (F : XENVIF_FRONTEND) (State : Nat) :
    XENVIF_FRONTEND :=
  let F := FrontendAssertion F FrontendAssert.IsOnline F.Online
  let F := { F with Published := F.Published ++ [State] }
  if State = XenbusStateClosed ∧ Online = false then FrontendSetOffline F else F

/-- The `switch (State)` of the loop of `FrontendPrepare`
(frontend.c:1252-1274). -/
def FrontendPrepareReaction (Online : Bool) (State : Nat) (F : XENVIF_FRONTEND) :
    XENVIF_FRONTEND :=
  if State = XenbusStateUnknown then FrontendSetOffline F
  else if State = XenbusStateClosed then
    FrontendSetXenbusState Online F XenbusStateInitialising
  else if State = XenbusStateClosing then FrontendSetXenbusState Online F XenbusStateClosed
  else if State = XenbusStateInitWait then F
  else FrontendAssertion F FrontendAssert.Unexpected false

/-- The `switch (State)` of the loop of `FrontendConnect`
(frontend.c:1587-1610). -/
def FrontendConnectReaction (Online : Bool) (State : Nat) (F : XENVIF_FRONTEND) :
    XENVIF_FRONTEND :=
  if State = XenbusStateUnknown then FrontendSetOffline F
  else if State = XenbusStateInitWait ∨ State = XenbusStateInitialised then
    FrontendSetXenbusState Online F XenbusStateConnected
  else if State = XenbusStateClosing then FrontendSetXenbusState Online F XenbusStateClosed
  else if State = XenbusStateConnected then F
  else FrontendAssertion F FrontendAssert.Unexpected false

/-- The `switch (State)` of the loop of `FrontendClose`
(frontend.c:1193-1215). -/
def FrontendCloseReaction (Online : Bool) (State : Nat) (F : XENVIF_FRONTEND) :
    XENVIF_FRONTEND :=
  if State = XenbusStateUnknown then FrontendSetOffline F
  else if State = XenbusStateConnected ∨ State = XenbusStateInitWait then
    FrontendSetXenbusState Online F XenbusStateClosing
  else if State = XenbusStateClosing then FrontendSetXenbusState Online F XenbusStateClosed
  else if State = XenbusStateClosed then F
  else FrontendAssertion F FrontendAssert.Unexpected false

/-- What one handshake loop meets: `State i` is the value that the call
number `i` of `FrontendWaitForBackendXenbusStateChange` leaves in `*State`
(the backend's new state, its old one after a timeout, or
`XenbusStateUnknown` when the node cannot be read), `Online i` the value
of `Online` in a `FrontendSetXenbusState` called by pass `i`. -/
structure BackendTrace where
  State : Nat → Nat
  Online : Nat → Bool

/-- The handshake loop of `FrontendPrepare`, `FrontendConnect` and
`FrontendClose` (frontend.c:1245-1275, 1579-1611, 1185-1216):
`while (State != Target) { if (!FrontendIsOnline(Frontend)) break;
FrontendWaitForBackendXenbusStateChange(Frontend, &State); switch (State)
... }`, the three loops differing in `Target` and in the `switch`, which is
`Reaction`.  `i` counts the passes made; `none` means that `fuel` passes did
not end the loop. -/
def FrontendHandshakeLoop (Reaction : Bool → Nat → XENVIF_FRONTEND → XENVIF_FRONTEND)
    (Target : Nat) (Backend : BackendTrace) :
    Nat → Nat → Nat → XENVIF_FRONTEND → Option (Nat × XENVIF_FRONTEND)
  | fuel, i, State, F =>
    if State = Target then some (State, F)
    else if F.Online = false then some (State, F)
    else
      match fuel with
      | 0 => none
      | fuel + 1 =>
        let F := FrontendAssertion F FrontendAssert.IsOnline F.Online
        FrontendHandshakeLoop Reaction Target Backend fuel (i + 1) (Backend.State i)
          (Reaction (Backend.Online i) (Backend.State i) F)

/-- What the sub-steps of one pass of `FrontendSetState` meet outside the
frontend: whether `XENBUS_STORE(Acquire)` succeeds; the string read from the
frontend's `backend` node (`none` when the read fails); the result of
`strtol` on the `backend-id` node (`none` when the read fails); the handle
that `XENBUS_STORE(WatchAdd)` stores in `Frontend->Watch` (`none` when it
fails, `Frontend->Watch` being then left alone); whether the steps of
`FrontendConnect` before its handshake loop succeed; whether `FrontendEnable`
succeeds; and what the three handshake loops meet. -/
structure FrontendEnv where
  StoreAcquire : Bool
  backend : Option String
  backend_id : Option Int
  WatchAdd : Option Nat
  ConnectSetup : Bool
  Enable : Bool
  PrepareWait : BackendTrace
  ConnectWait : BackendTrace
  CloseWait : BackendTrace

/-- `FrontendAcquireBackend` (frontend.c:1010-1055): the result tells whether
it succeeded.  `BackendDomain` is `(USHORT)strtol(...)`, or 0 when
`backend-id` cannot be read. -/
def FrontendAcquireBackend (env : FrontendEnv) (F : XENVIF_FRONTEND) :
    Bool × XENVIF_FRONTEND :=
  match env.backend with
  | none => (false, F)
  | some Buffer =>
    let F := { F with BackendPath := some Buffer }
    match env.backend_id with
    | none => (true, { F with BackendDomain := 0 })
    | some v => (true, { F with BackendDomain := (v % 65536).toNat })

/-- `FrontendReleaseBackend` (frontend.c:1150-1168). -/
def FrontendReleaseBackend (F : XENVIF_FRONTEND) : XENVIF_FRONTEND :=
  let F := FrontendAssertion F FrontendAssert.BackendDomainValid
    (decide (F.BackendDomain ≠ DOMID_INVALID))
  let F := FrontendAssertion F FrontendAssert.BackendPathNotNull F.BackendPath.isSome
  { F with BackendDomain := DOMID_INVALID, BackendPath := none }

/-- `FrontendClose` (frontend.c:1170-1223); `none` when its loop does not
finish within `fuel` passes. -/
def FrontendClose (fuel : Nat) (env : FrontendEnv) (F : XENVIF_FRONTEND) :
    Option XENVIF_FRONTEND :=
  let F := FrontendAssertion F FrontendAssert.WatchNotNull F.Watch.isSome
  let F := { F with Watch := none }
  match FrontendHandshakeLoop FrontendCloseReaction XenbusStateClosed env.CloseWait
      fuel 0 XenbusStateUnknown F with
  | none => none
  | some (_, F) => some (FrontendReleaseBackend F)

/-- `FrontendPrepare` (frontend.c:1225-1314): the result tells whether the
status returned is a success; `none` when its loop does not finish within
`fuel` passes. -/
def FrontendPrepare (fuel : Nat) (env : FrontendEnv) (F : XENVIF_FRONTEND) :
    Option (Bool × XENVIF_FRONTEND) :=
  if env.StoreAcquire = false then some (false, F)
  else
    match FrontendAcquireBackend env (FrontendSetOnline F) with
    | (false, F) => some (false, FrontendSetOffline F)
    | (true, F) =>
      match FrontendHandshakeLoop FrontendPrepareReaction XenbusStateInitWait
          env.PrepareWait fuel 0 XenbusStateUnknown F with
      | none => none
      | some (State, F) =>
        if State ≠ XenbusStateInitWait then
          some (false, FrontendSetOffline (FrontendReleaseBackend F))
        else
          match env.WatchAdd with
          | none => some (false, FrontendSetOffline (FrontendReleaseBackend F))
          | some Watch => some (true, { F with Watch := some Watch })

/-- `FrontendConnect` (frontend.c:1484-1660) as far as the fields modelled
here go: the steps before the handshake loop and the unwinding after a
failure write none of them.  The result tells whether the status returned is
a success. -/
def FrontendConnect (fuel : Nat) (env : FrontendEnv) (F : XENVIF_FRONTEND) :
    Option (Bool × XENVIF_FRONTEND) :=
  if env.ConnectSetup = false then some (false, F)
  else
    match FrontendHandshakeLoop FrontendConnectReaction XenbusStateConnected
        env.ConnectWait fuel 0 XenbusStateUnknown F with
    | none => none
    | some (State, F) => some (decide (State = XenbusStateConnected), F)

/-- `FrontendEnable` (frontend.c:1683-1720): it enables the MAC, the receiver
and the transmitter and writes none of the fields modelled here. -/
def FrontendEnable (env : FrontendEnv) (F : XENVIF_FRONTEND) : Bool × XENVIF_FRONTEND :=
  (env.Enable, F)

/-- `FrontendDisable` (frontend.c:1722-1735) writes none of the fields
modelled here. -/
def FrontendDisable (F : XENVIF_FRONTEND) : XENVIF_FRONTEND := F

/-- `FrontendDisconnect` (frontend.c:1662-1681) writes none of the fields
modelled here. -/
def FrontendDisconnect (F : XENVIF_FRONTEND) : XENVIF_FRONTEND := F

namespace Handshake

/-- The arm of `FrontendSetState` that calls `FrontendPrepare`
(frontend.c:1776-1782 and 1797-1803): the frontend after the arm and the
value of `Failed`. -/
def prepareArm (fuel : Nat) (env : FrontendEnv) (F : XENVIF_FRONTEND) :
    Option (XENVIF_FRONTEND × Bool) :=
  match FrontendPrepare fuel env F with
  | none => none
  | some (true, F) => some ({ F with State := FRONTEND_PREPARED }, false)
  | some (false, F) => some (F, true)

/-- The statements `FrontendClose(Frontend); Frontend->State =
FRONTEND_CLOSED;` of `FrontendSetState`, in an arm that leaves with the given
value of `Failed`. -/
def closeArm (fuel : Nat) (env : FrontendEnv) (F : XENVIF_FRONTEND) (Failed : Bool) :
    Option (XENVIF_FRONTEND × Bool) :=
  match FrontendClose fuel env F with
  | none => none
  | some F => some ({ F with State := FRONTEND_CLOSED }, Failed)

/-- The statements `FrontendClose(Frontend); Frontend->State =
FRONTEND_CLOSED; FrontendDisconnect(Frontend);` of `FrontendSetState`. -/
def closeDisconnectArm (fuel : Nat) (env : FrontendEnv) (F : XENVIF_FRONTEND)
    (Failed : Bool) : Option (XENVIF_FRONTEND × Bool) :=
  match FrontendClose fuel env F with
  | none => none
  | some F => some (FrontendDisconnect { F with State := FRONTEND_CLOSED }, Failed)

/-- The arm of `FrontendSetState` that calls `FrontendConnect`
(frontend.c:1822-1830). -/
def connectArm (fuel : Nat) (env : FrontendEnv) (F : XENVIF_FRONTEND) :
    Option (XENVIF_FRONTEND × Bool) :=
  match FrontendConnect fuel env F with
  | none => none
  | some (true, F) => some ({ F with State := FRONTEND_CONNECTED }, false)
  | some (false, F) => closeArm fuel env F true

/-- The arm of `FrontendSetState` that calls `FrontendEnable`
(frontend.c:1849-1858). -/
def enableArm (fuel : Nat) (env : FrontendEnv) (F : XENVIF_FRONTEND) :
    Option (XENVIF_FRONTEND × Bool) :=
  match FrontendEnable env F with
  | (true, F) => some ({ F with State := FRONTEND_ENABLED }, false)
  | (false, F) => closeDisconnectArm fuel env F true

/-- The arm of `FrontendSetState` that calls `FrontendDisable`
(frontend.c:1880-1882). -/
def disableArm (F : XENVIF_FRONTEND) : Option (XENVIF_FRONTEND × Bool) :=
  some ({ FrontendDisable F with State := FRONTEND_CONNECTED }, false)

/-- One pass through the body of the `while` loop of `FrontendSetState`
(frontend.c:1770-1890) on the fields of the frontend: the frontend after the
pass and the value of `Failed`.  The sub-steps are the functions above;
`none` when a handshake loop does not end within `fuel` passes.  The
`default: ASSERT(FALSE)` arms leave everything unchanged. -/
def FrontendSetStateBody (fuel : Nat) (env : FrontendEnv) (target : XENVIF_FRONTEND_STATE)
    (F : XENVIF_FRONTEND) : Option (XENVIF_FRONTEND × Bool) :=
  match F.State with
  | FRONTEND_UNKNOWN =>
    match target with
    | FRONTEND_CLOSED | FRONTEND_PREPARED | FRONTEND_CONNECTED | FRONTEND_ENABLED =>
      prepareArm fuel env F
    | FRONTEND_UNKNOWN => some (F, false)
  | FRONTEND_CLOSED =>
    match target with
    | FRONTEND_PREPARED | FRONTEND_CONNECTED | FRONTEND_ENABLED => prepareArm fuel env F
    | FRONTEND_UNKNOWN => some ({ F with State := FRONTEND_UNKNOWN }, false)
    | FRONTEND_CLOSED => some (F, false)
  | FRONTEND_PREPARED =>
    match target with
    | FRONTEND_CONNECTED | FRONTEND_ENABLED => connectArm fuel env F
    | FRONTEND_CLOSED | FRONTEND_UNKNOWN => closeArm fuel env F false
    | FRONTEND_PREPARED => some (F, false)
  | FRONTEND_CONNECTED =>
    match target with
    | FRONTEND_ENABLED => enableArm fuel env F
    | FRONTEND_PREPARED | FRONTEND_CLOSED | FRONTEND_UNKNOWN =>
      closeDisconnectArm fuel env F false
    | FRONTEND_CONNECTED => some (F, false)
  | FRONTEND_ENABLED =>
    match target with
    | FRONTEND_CONNECTED | FRONTEND_PREPARED | FRONTEND_CLOSED | FRONTEND_UNKNOWN =>
      disableArm F
    | FRONTEND_ENABLED => some (F, false)

/-- The loop `while (Frontend->State != State && !Failed)` of
`FrontendSetState` on the fields of the frontend; pass number `pass` meets
`env pass`.  `passes` bounds the passes of this loop and `fuel` those of each
handshake loop. -/
def FrontendSetStateLoop (fuel : Nat) (env : Nat → FrontendEnv)
    (target : XENVIF_FRONTEND_STATE) :
    Nat → Nat → XENVIF_FRONTEND → Option (XENVIF_FRONTEND × Bool)
  | passes, pass, F =>
    if F.State = target then some (F, false)
    else
      match passes with
      | 0 => none
      | passes + 1 =>
        match FrontendSetStateBody fuel (env pass) target F with
        | none => none
        | some (F, true) => some (F, true)
        | some (F, false) => FrontendSetStateLoop fuel env target passes (pass + 1) F

/-- `FrontendSetState` (frontend.c:1750-1902) on the fields of the frontend:
the status returned and the frontend on return. -/
def FrontendSetState (passes fuel : Nat) (env : Nat → FrontendEnv) (F : XENVIF_FRONTEND)
    (target : XENVIF_FRONTEND_STATE) : Option (NTSTATUS × XENVIF_FRONTEND) :=
  match FrontendSetStateLoop fuel env target passes 0 F with
  | none => none
  | some (F, Failed) => some (if Failed then STATUS_UNSUCCESSFUL else STATUS_SUCCESS, F)

end Handshake

/-- The backend is held and the watch on its `online` node is registered:
`BackendPath` and `Watch` are not `NULL` and `BackendDomain` is not
`DOMID_INVALID`. -/
def BackendHeld (F : XENVIF_FRONTEND) : Bool :=
  F.BackendPath.isSome && decide (F.BackendDomain ≠ DOMID_INVALID) && F.Watch.isSome

/-- The backend is held exactly in the states PREPARED, CONNECTED and
ENABLED. -/
def BackendInvariant (F : XENVIF_FRONTEND) : Prop :=
  BackendHeld F = decide (2 ≤ F.State.toNat)

/-- Every assertion of `FrontendClose` and `FrontendReleaseBackend` evaluated
so far was true. -/
def ReleaseAssertsHold (F : XENVIF_FRONTEND) : Prop :=
  ∀ a ∈ F.Asserts,
    a.1 = FrontendAssert.WatchNotNull ∨ a.1 = FrontendAssert.BackendDomainValid ∨
      a.1 = FrontendAssert.BackendPathNotNull → a.2 = true

/-- Frontend `G` differs from `F` at most in `Online` and `Published`, and
in assertions evaluated since that are not those of `FrontendClose` and
`FrontendReleaseBackend`. -/
def SameBackend (F G : XENVIF_FRONTEND) : Prop :=
  G.State = F.State ∧ G.BackendPath = F.BackendPath ∧ G.BackendDomain = F.BackendDomain ∧
  G.Watch = F.Watch ∧
  ∃ extra, G.Asserts = F.Asserts ++ extra ∧
    ∀ a ∈ extra, a.1 = FrontendAssert.IsOnline ∨ a.1 = FrontendAssert.Unexpected

/-- The backend id that `FrontendAcquireBackend` stores is not
`DOMID_INVALID`. -/
def ValidBackendId (env : FrontendEnv) : Prop :=
  ∀ v, env.backend_id = some v → (v % 65536).toNat ≠ DOMID_INVALID

/-- Within its first `n` passes a handshake loop meets its target state or
`XenbusStateUnknown`. -/
def Settles (Target : Nat) (Backend : BackendTrace) (n : Nat) : Prop :=
  ∃ i, i < n ∧ (Backend.State i = Target ∨ Backend.State i = XenbusStateUnknown)

/-- Each of the three handshake loops of a pass settles within `n` passes. -/
def EnvSettles (n : Nat) (env : FrontendEnv) : Prop :=
  Settles XenbusStateInitWait env.PrepareWait n ∧
  Settles XenbusStateConnected env.ConnectWait n ∧
  Settles XenbusStateClosed env.CloseWait n

/-- A frontend as `FrontendInitialize` leaves it (frontend.c:2085-2100):
state UNKNOWN, no backend path, `BackendDomain == DOMID_INVALID`, no watch. -/
def initialFrontend : XENVIF_FRONTEND :=
  { State := FRONTEND_UNKNOWN, Online := true, BackendPath := none,
    BackendDomain := DOMID_INVALID, Watch := none, Published := [], Asserts := [] }

/-- A backend that is seen in the states of `States`, one per pass, its
`online` node reading as true; after them the `state` node cannot be read. -/
def traceOf (States : List Nat) : BackendTrace :=
  { State := fun i => States.getD i XenbusStateUnknown, Online := fun _ => true }

/-- An environment in which every step succeeds, with the backend in domain
`id`: the backend is seen Closed, then InitWait by `FrontendPrepare`,
InitWait, then Connected by `FrontendConnect`, and Closing, then Closed by
`FrontendClose`. -/
def steadyEnv (id : Int) : FrontendEnv :=
  { StoreAcquire := true, backend := some "backend/vif/1/0", backend_id := some id,
    WatchAdd := some 1, ConnectSetup := true, Enable := true,
    PrepareWait := traceOf [XenbusStateClosed, XenbusStateInitWait],
    ConnectWait := traceOf [XenbusStateInitWait, XenbusStateConnected],
    CloseWait := traceOf [XenbusStateClosing, XenbusStateClosed] }

/-! ### frontend.c: the address table -/

/-- `AF_INET`. -/
def AF_INET : Nat := 2

/-- `AF_INET6`. -/
def AF_INET6 : Nat := 23

/-- `IPV4_ADDRESS_LENGTH`. -/
def IPV4_ADDRESS_LENGTH : Nat := 4

/-- `IPV6_ADDRESS_LENGTH`. -/
def IPV6_ADDRESS_LENGTH : Nat := 16

/-- `SOCKADDR_INET`, a union of `SOCKADDR_IN` and `SOCKADDR_IN6`, as its
bytes. -/
structure SOCKADDR_INET where
  bytes : List Nat
  deriving DecidableEq, Repr

/-- The member `si_family`: the first two bytes, least significant first. -/
def SOCKADDR_INET.si_family (A : SOCKADDR_INET) : Nat :=
  A.bytes.getD 0 0 % 256 + 256 * (A.bytes.getD 1 0 % 256)

/-- The bytes of `Ipv4.sin_addr`, at offset 4. -/
def SOCKADDR_INET.sin_addr (A : SOCKADDR_INET) : List Nat :=
  (List.range IPV4_ADDRESS_LENGTH).map (fun i => A.bytes.getD (4 + i) 0 % 256)

/-- The bytes of `Ipv6.sin6_addr`, at offset 8. -/
def SOCKADDR_INET.sin6_addr (A : SOCKADDR_INET) : List Nat :=
  (List.range IPV6_ADDRESS_LENGTH).map (fun i => A.bytes.getD (8 + i) 0 % 256)

/-- The test made by one pass of the loop of `FrontendInsertAddress`
(frontend.c:518-535) on the table entry `Entry`: the families are equal and,
for `AF_INET`, the four bytes of the IPv4 address are, or else the sixteen
bytes of the IPv6 address are. -/
def sameAddress (Address Entry : SOCKADDR_INET) : Bool :=
  if Entry.si_family ≠ Address.si_family then false
  else if Address.si_family = AF_INET then decide (Address.sin_addr = Entry.sin_addr)
  else decide (Address.sin6_addr = Entry.sin6_addr)

/-- `FrontendInsertAddress` (frontend.c:505-561).  The table is the pointer
`*AddressTable` (`none` is `NULL`) with the entries it points to, of which
the first `*AddressCount` are looked at; `alloc` tells whether
`__FrontendAllocate` succeeds.  The result is the status and the table and
count on return. -/
def FrontendInsertAddress (alloc : Bool) (AddressTable : Option (List SOCKADDR_INET))
    (AddressCount : Nat) (Address : SOCKADDR_INET) :
    NTSTATUS × Option (List SOCKADDR_INET) × Nat :=
  let Entries := (AddressTable.getD []).take AddressCount
  if Entries.any (sameAddress Address) then (STATUS_SUCCESS, AddressTable, AddressCount)
  else if alloc = false then (STATUS_NO_MEMORY, AddressTable, AddressCount)
  else (STATUS_SUCCESS, some (Entries ++ [Address]), ULONG_inc AddressCount)

/-- `MIB_UNICASTIPADDRESS_ROW`, the two members that are read. -/
structure MIB_UNICASTIPADDRESS_ROW where
  InterfaceIndex : Nat
  Address : SOCKADDR_INET
  deriving DecidableEq, Repr

/-- The loop of `FrontendProcessAddressTable` (frontend.c:579-595) over the
rows from number `Index` on.  `alloc i` tells whether an allocation made
while row `i` is processed succeeds.  On failure the status is returned, the
table having been freed. -/
def FrontendProcessAddressTableLoop (alloc : Nat → Bool) (InterfaceIndex : Nat) :
    List MIB_UNICASTIPADDRESS_ROW → Nat → Option (List SOCKADDR_INET) → Nat →
    Except NTSTATUS (Option (List SOCKADDR_INET) × Nat)
  | [], _, AddressTable, AddressCount => Except.ok (AddressTable, AddressCount)
  | Row :: rest, Index, AddressTable, AddressCount =>
    if Row.InterfaceIndex ≠ InterfaceIndex then
      FrontendProcessAddressTableLoop alloc InterfaceIndex rest (Index + 1)
        AddressTable AddressCount
    else if Row.Address.si_family ≠ AF_INET ∧ Row.Address.si_family ≠ AF_INET6 then
      FrontendProcessAddressTableLoop alloc InterfaceIndex rest (Index + 1)
        AddressTable AddressCount
    else
      match FrontendInsertAddress (alloc Index) AddressTable AddressCount Row.Address with
      | (STATUS_SUCCESS, AddressTable, AddressCount) =>
        FrontendProcessAddressTableLoop alloc InterfaceIndex rest (Index + 1)
          AddressTable AddressCount
      | (status, _, _) => Except.error status

/-- `FrontendProcessAddressTable` (frontend.c:563-606): `Table` is
`Table->Table[0 .. NumEntries-1]`. -/
def FrontendProcessAddressTable (alloc : Nat → Bool)
    (Table : List MIB_UNICASTIPADDRESS_ROW) (InterfaceIndex : Nat) :
    Except NTSTATUS (Option (List SOCKADDR_INET) × Nat) :=
  FrontendProcessAddressTableLoop alloc InterfaceIndex Table 0 none 0

/-- The addresses that the specification asks for: those of the rows whose
`InterfaceIndex` is the given one and whose family is `AF_INET` or
`AF_INET6`, in table order. -/
def interfaceAddresses (Table : List MIB_UNICASTIPADDRESS_ROW) (InterfaceIndex : Nat) :
    List SOCKADDR_INET :=
  (Table.filter (fun Row => decide (Row.InterfaceIndex = InterfaceIndex) &&
    (decide (Row.Address.si_family = AF_INET) ||
      decide (Row.Address.si_family = AF_INET6)))).map (fun Row => Row.Address)

/-- The first occurrences, as the specification words them: an address is
kept when no address before it in the list (`Seen`, most recent first, holds
those already passed) has the same family and the same address bytes. -/
def firstOccurrences : List SOCKADDR_INET → List SOCKADDR_INET → List SOCKADDR_INET
  | _, [] => []
  | Seen, A :: rest =>
    if Seen.any (fun B => sameAddress A B) then firstOccurrences (A :: Seen) rest
    else A :: firstOccurrences (A :: Seen) rest

/-- A table of three rows on interface 7: 10.0.0.1, an address of another
family, and 10.0.0.1 again with another port. -/
def sampleTable : List MIB_UNICASTIPADDRESS_ROW :=
  [ { InterfaceIndex := 7, Address := ⟨[2, 0, 0, 0, 10, 0, 0, 1]⟩ },
    { InterfaceIndex := 7, Address := ⟨[17, 0, 0, 0, 10, 0, 0, 1]⟩ },
    { InterfaceIndex := 7, Address := ⟨[2, 0, 0, 80, 10, 0, 0, 1]⟩ } ]

/-! ### transmitter.c: the bytes of the tag insertion -/

/-- `ETHERTYPE_TPID`. -/
def ETHERTYPE_TPID : Nat := 0x8100

/-- `FIELD_OFFSET(ETHERNET_TAGGED_HEADER, Tag)`: the tag follows the
destination and source addresses, of six bytes each. -/
def ETHERNET_TAG_OFFSET : Nat := 12

/-- `HTONS`: the two bytes of a `USHORT` exchanged. -/
def HTONS (x : Nat) : Nat :=
  (x % 256) * 256 + (x / 256) % 256

/-- `RtlMoveMemory`: `Length` bytes copied from `Source` to `Destination` in a
memory modelled as a function from addresses to bytes; the regions may
overlap. -/
def RtlMoveMemory (Memory : Nat → Nat) (Destination Source Length : Nat) : Nat → Nat :=
  fun i =>
    if Destination ≤ i ∧ i < Destination + Length then Memory (Source + (i - Destination))
    else Memory i

/-- A store of a `USHORT` at `Address`, least significant byte first. -/
def storeUSHORT (Memory : Nat → Nat) (Address Value : Nat) : Nat → Nat :=
  setAt (setAt Memory Address (Value % 256)) (Address + 1) (Value / 256 % 256)

/-- The writes into the header buffer of the tag branch of
`__TransmitterRingPrepareHeader` (transmitter.c:1184-1193).  `StartVa` is the
buffer as a function from offsets to bytes, `EthernetHeader` the offset
`Info->EthernetHeader.Offset` of the Ethernet header in it, `ByteCount` the
value of `Mdl->ByteCount` before the tag is counted, `TagControlInformation`
the field of that name of `State->Send`. -/
def insertTag (StartVa : Nat → Nat) (EthernetHeader ByteCount TagControlInformation : Nat) :
    Nat → Nat :=
  let Offset := ETHERNET_TAG_OFFSET
  let Memory := RtlMoveMemory StartVa (EthernetHeader + Offset + sizeof_ETHERNET_TAG)
    (EthernetHeader + Offset) (ULONG_sub ByteCount Offset)
  let Memory := storeUSHORT Memory (EthernetHeader + Offset) (HTONS ETHERTYPE_TPID)
  storeUSHORT Memory (EthernetHeader + Offset + 2) (HTONS TagControlInformation)

/-- The move of one header by `tagFixup`: a header that is present moves by
`sizeof (ETHERNET_TAG)`. -/
def movedHeader (h : XENVIF_PACKET_HEADER) : XENVIF_PACKET_HEADER :=
  if h.Length ≠ 0 then { h with Offset := ULONG_add h.Offset sizeof_ETHERNET_TAG } else h

/-! ### The custody of packets on a ring -/

/-- What happens to a ring between its initialisation and a drain: a list
of packets is queued (`__TransmitterRingQueuePackets`), the lock is taken
(`__TransmitterRingAcquireLock`), the lock is released
(`__TransmitterRingReleaseLock`: swizzle, schedule and return of the
completed packets), the backend rewrites the shared page (requests consumed,
responses written, indices published; no restriction is put on what it
writes), and the responses are polled (`TransmitterRingPoll`). -/
inductive RingEvent where
  | Queue (Packets : List Nat)
  | Acquire
  | Release
  | Backend (Shared : netif_tx_sring_t)
  | Poll

/-- The effect of one event on the ring; `none` where the function called
does not return a ring (`TransmitterRingPoll` on a response that names an
id beyond `Pending` or an empty entry of `Pending`). -/
def stepEvent : RingEvent → XENVIF_TRANSMITTER_RING → Option XENVIF_TRANSMITTER_RING
  | RingEvent.Queue Packets, Ring => __TransmitterRingQueuePackets Ring Packets
  | RingEvent.Acquire, Ring => some (__TransmitterRingAcquireLock Ring)
  | RingEvent.Release, Ring => __TransmitterRingReleaseLock Ring
  | RingEvent.Backend Shared, Ring => some { Ring with Shared := Shared }
  | RingEvent.Poll, Ring => TransmitterRingPoll Ring

/-- The events of a list one after the other. -/
def runEvents : List RingEvent → XENVIF_TRANSMITTER_RING → Option XENVIF_TRANSMITTER_RING
  | [], Ring => some Ring
  | e :: rest, Ring =>
    match stepEvent e Ring with
    | none => none
    | some Ring => runEvents rest Ring

/-- The packets queued by the events of a list, in the order of queueing. -/
def queuedPackets : List RingEvent → List Nat
  | [] => []
  | RingEvent.Queue Packets :: rest => Packets ++ queuedPackets rest
  | _ :: rest => queuedPackets rest

/-- What the entry `id` of `Pending` adds to `pendingCount`: 1 if it holds a
fragment of the packet `Packet`, else 0. -/
def pendingOne (Pending : Nat → Option XENVIF_TRANSMITTER_FRAGMENT) (Packet id : Nat) : Nat :=
  match Pending id with
  | some Fragment => if Fragment.packet = some Packet then 1 else 0
  | none => 0

/-- The packets that own a fragment in one of the 1024 entries of
`Pending`, one occurrence per fragment. -/
def pendingPackets (Ring : XENVIF_TRANSMITTER_RING) : List Nat :=
  (List.range (XENVIF_TRANSMITTER_MAXIMUM_FRAGMENT_ID + 1)).filterMap
    (fun id => (Ring.Pending id).bind (fun Fragment => Fragment.packet))

/-- The packets that the transmitter holds: those pushed onto the lock word,
those on `PacketQueue`, the packet in `State`, those with a fragment in
`Pending`, and those on `PacketComplete` that were not yet returned. -/
def heldPackets (Ring : XENVIF_TRANSMITTER_RING) : List Nat :=
  Ring.Lock.Stash ++ Ring.PacketQueue ++ Ring.State.Packet.toList ++ pendingPackets Ring ++
    Ring.PacketComplete

/-- The contract of the caller for one event: a list that is queued names
every packet once, and none that the transmitter still holds. -/
def eventAdmissible : RingEvent → XENVIF_TRANSMITTER_RING → Bool
  | RingEvent.Queue Packets, Ring =>
    decide (Packets.Nodup ∧ ∀ p, p ∈ Packets → p ∉ heldPackets Ring)
  | _, _ => true

/-- The contract of the caller along a list of events: every event is
admissible on the ring that the events before it have produced. -/
def Admissible : List RingEvent → XENVIF_TRANSMITTER_RING → Bool
  | [], _ => true
  | e :: rest, Ring =>
    eventAdmissible e Ring &&
      (match stepEvent e Ring with
       | none => true
       | some Ring => Admissible rest Ring)

/-- A ring as `__TransmitterRingInitialize` leaves it, as far as the custody
of packets goes: nothing pushed, queued, held in `State`, pending, completed
or returned, both counters zero, and the free fragment ids different from
each other and inside `Pending`. -/
def Initial (Ring : XENVIF_TRANSMITTER_RING) : Prop :=
  Ring.Lock.Stash = [] ∧ Ring.PacketQueue = [] ∧ Ring.RequestQueue = [] ∧
  Ring.State = XENVIF_TRANSMITTER_STATE.zero ∧ (∀ id, Ring.Pending id = none) ∧
  Ring.PacketsQueued = 0 ∧ Ring.PacketsCompleted = 0 ∧
  Ring.PacketComplete = [] ∧ Ring.Returned = [] ∧
  Ring.FreeIds.Nodup ∧ ∀ id, id ∈ Ring.FreeIds → id ≤ XENVIF_TRANSMITTER_MAXIMUM_FRAGMENT_ID

/-- A fully drained ring: the lock word carries no packet, `PacketQueue` is
empty, `State` holds no packet and every entry of `Pending` is null. -/
def Drained (Ring : XENVIF_TRANSMITTER_RING) : Prop :=
  Ring.Lock.Stash = [] ∧ Ring.PacketQueue = [] ∧ Ring.State.Packet = none ∧
  ∀ id, id ≤ XENVIF_TRANSMITTER_MAXIMUM_FRAGMENT_ID → Ring.Pending id = none

/-- The bookkeeping of the custody of packets, said of the parts of a ring
that take part in it.  `H` are the packets queued so far and `L` the packets
in flight (with a fragment in `Pending`).  No packet is held twice; a packet
is in flight exactly when `Pending` holds a fragment of it, and its `Value`
is the number of these fragments; the fragments in `State` belong to the
packet in `State`, whose `Value` is their number; the ids of the fragments
in `State` and the free ids are different from each other, inside `Pending`,
and their entries of `Pending` are empty; a fragment in `Pending` sits at its
id; no control request is queued; `PacketsQueued` counts the packets queued
that have left the lock word, `PacketsCompleted` those that are no longer
held, both as `ULONG`; and every packet was queued as often as it is now
found returned, completed or held. -/
structure AccountedAt (H L Stash Queue : List Nat) (Requests : List XENVIF_TRANSMITTER_REQUEST)
    (State : XENVIF_TRANSMITTER_STATE) (Pending : Nat → Option XENVIF_TRANSMITTER_FRAGMENT)
    (Free : List Nat) (Queued Completed : Nat) (Complete Returned : List Nat)
    (Value : Nat → Nat) : Prop where
  once : ∀ p, Stash.count p + Queue.count p + State.Packet.toList.count p + L.count p ≤ 1
  flight : ∀ p, p ∈ L ↔
    0 < pendingCount Pending p (List.range (XENVIF_TRANSMITTER_MAXIMUM_FRAGMENT_ID + 1))
  value : ∀ p, p ∈ L → Value p =
    pendingCount Pending p (List.range (XENVIF_TRANSMITTER_MAXIMUM_FRAGMENT_ID + 1))
  count : State.Count = State.List.length
  owner : ∀ p, State.Packet = some p →
    State.List ≠ [] ∧ Value p = State.List.length ∧ ∀ F, F ∈ State.List → F.packet = some p
  empty : State.Packet = none → State.List = []
  ids : (State.List.map (fun F => F.Id) ++ Free).Nodup
  fresh : ∀ id, id ∈ State.List.map (fun F => F.Id) ++ Free →
    Pending id = none ∧ id ≤ XENVIF_TRANSMITTER_MAXIMUM_FRAGMENT_ID
  slots : ∀ i F, Pending i = some F → F.Id = i
  requests : Requests = []
  queued : (Queued + Stash.length) % 4294967296 = H.length % 4294967296
  completed : (Completed + Stash.length + Queue.length + State.Packet.toList.length + L.length) %
    4294967296 = H.length % 4294967296
  bounds : Queued < 4294967296 ∧ Completed < 4294967296
  history : ∀ p, H.count p =
    Returned.count p + Complete.count p + Stash.count p + Queue.count p +
      State.Packet.toList.count p + L.count p

/-- `AccountedAt` said of a ring, for some list of packets in flight. -/
def Accounted (H : List Nat) (Ring : XENVIF_TRANSMITTER_RING) : Prop :=
  ∃ L, AccountedAt H L Ring.Lock.Stash Ring.PacketQueue Ring.RequestQueue Ring.State
    Ring.Pending Ring.FreeIds Ring.PacketsQueued Ring.PacketsCompleted Ring.PacketComplete
    Ring.Returned (fun p => (Ring.Packets p).Value)

/-- The parts of a ring that take part in the custody of packets. -/
def custody (Ring : XENVIF_TRANSMITTER_RING) :
    List Nat × List Nat × List XENVIF_TRANSMITTER_REQUEST × XENVIF_TRANSMITTER_STATE ×
      (Nat → Option XENVIF_TRANSMITTER_FRAGMENT) × List Nat × Nat × Nat × List Nat × List Nat ×
      (Nat → XENVIF_TRANSMITTER_PACKET) :=
  (Ring.Lock.Stash, Ring.PacketQueue, Ring.RequestQueue, Ring.State, Ring.Pending, Ring.FreeIds,
    Ring.PacketsQueued, Ring.PacketsCompleted, Ring.PacketComplete, Ring.Returned, Ring.Packets)

/-- A run that drains: packet 0 (14 bytes) is queued on a fresh ring, which
prepares, posts and pushes it; the backend answers the request with id 1;
the responses are polled under the lock, and the release of the lock returns
the completed packet. -/
def drainEvents : List RingEvent :=
  [RingEvent.Queue [0], RingEvent.Backend (answeredRing 1 NETIF_RSP_OKAY).Shared,
   RingEvent.Acquire, RingEvent.Poll, RingEvent.Release]

/-- The ring after `drainEvents` on a fresh ring. -/
def drainedRing : XENVIF_TRANSMITTER_RING :=
  (runEvents drainEvents (freshRing 14 1514 0 (fun _ => true))).getD
    (freshRing 14 1514 0 (fun _ => true))

/-! ### A backend that went away between two responses -/

/-- A fresh ring whose packets are `largePacket`s (3000-byte TCP/IPv4
large-send packets), with the lock free. -/
def largeFreshRing : XENVIF_TRANSMITTER_RING :=
  { freshRing 3000 1514 0 (fun _ => true) with Packets := fun _ => largePacket }

/-- The ring `largeFreshRing` after `__TransmitterRingQueuePackets` has queued
packet 0: the release of the lock has prepared, posted and pushed it as three
slots, the request of the header fragment (id 1, with `NETTXF_extra_info`),
its extra-info slot, and the request of the payload fragment (id 2). -/
def extraPostedRing : XENVIF_TRANSMITTER_RING :=
  (__TransmitterRingQueuePackets largeFreshRing [0]).getD largeFreshRing

/-- The ring `extraPostedRing` after the backend has written and published
the response to the first request (`rsp_prod = 1`), and nothing else: the
response for the extra-info slot and the one for the second request are
still to come. -/
def halfAnsweredRing : XENVIF_TRANSMITTER_RING :=
  { extraPostedRing with
    Shared := { extraPostedRing.Shared with
      rsp_prod := 1
      Rsp := setAt extraPostedRing.Shared.Rsp 0 { id := 1, status := NETIF_RSP_OKAY } } }

/-- The ring on which `__TransmitterRingDisable`, called on `halfAnsweredRing`,
calls `__TransmitterRingFakeResponses` for the first time: after the lock was
taken, the first part has run, and `__TransmitterRingSend` and
`TransmitterRingPoll` of the first pass of the loop have run. -/
def halfPolledRing : XENVIF_TRANSMITTER_RING :=
  (TransmitterRingPoll (__TransmitterRingSend
    (DisablePrologue (__TransmitterRingAcquireLock halfAnsweredRing)))).getD halfAnsweredRing

/-- The ring after the second pass of the loop of `__TransmitterRingDisable`
has polled the responses faked on `halfPolledRing`. -/
def fakedPolledRing : XENVIF_TRANSMITTER_RING :=
  (TransmitterRingPoll (__TransmitterRingSend
    (__TransmitterRingFakeResponses halfPolledRing))).getD halfPolledRing

/-! ## Part 2: theorems -/

/-- The assignments of two event lists run one after the other. -/
theorem stateAssignments_append (xs ys : List FrontendEvent) :
    stateAssignments (xs ++ ys) = stateAssignments xs ++ stateAssignments ys := by
  induction xs with
  | nil => rfl
  | cons e es ih => cases e <;> simp [stateAssignments, ih]

/-- One pass of the loop body, entered with the state different from the
target, either fails leaving the state UNKNOWN or CLOSED and different from
the target, or brings the state strictly closer to the target; every
assignment it makes is an allowed one. -/
theorem FrontendSetStateBody_spec (ok : Bool) (cur target : XENVIF_FRONTEND_STATE)
    (h : cur ≠ target) :
    ((FrontendSetStateBody ok target cur).Failed = true ∧
        (FrontendSetStateBody ok target cur).State ≠ target ∧
        ((FrontendSetStateBody ok target cur).State = FRONTEND_CLOSED ∨
         (FrontendSetStateBody ok target cur).State = FRONTEND_UNKNOWN) ∨
      (FrontendSetStateBody ok target cur).Failed = false ∧
        passesToTarget (FrontendSetStateBody ok target cur).State target
          < passesToTarget cur target) ∧
    ∀ p ∈ stateAssignments (FrontendSetStateBody ok target cur).Events,
      allowedAssignment p.1 p.2 = true := by
  cases cur <;> cases target <;> cases ok <;>
    first
      | exact absurd rfl h
      | (constructor <;> decide)

/-- Only equal states are zero passes apart. -/
theorem passesToTarget_eq_zero (cur target : XENVIF_FRONTEND_STATE)
    (h : passesToTarget cur target = 0) : cur = target := by
  cases cur <;> cases target <;> first | rfl | (exact absurd h (by decide))

/-- With at least `passesToTarget cur target` passes of fuel the loop of
`FrontendSetState` ends; on exit either it has not failed and the state is
the target, or it has failed and the state is UNKNOWN or CLOSED and differs
from the target. -/
theorem FrontendSetStateLoop_spec (oracle : Nat → Bool) (target : XENVIF_FRONTEND_STATE) :
    ∀ (fuel pass : Nat) (cur : XENVIF_FRONTEND_STATE), passesToTarget cur target ≤ fuel →
    ∃ r, FrontendSetStateLoop oracle target fuel pass cur = some r ∧
      ((r.Failed = false ∧ r.State = target) ∨
       (r.Failed = true ∧ r.State ≠ target ∧
         (r.State = FRONTEND_CLOSED ∨ r.State = FRONTEND_UNKNOWN))) ∧
      ∀ p ∈ stateAssignments r.Events, allowedAssignment p.1 p.2 = true := by
  intro fuel
  induction fuel with
  | zero =>
    intro pass cur hle
    have hc : cur = target := passesToTarget_eq_zero cur target (Nat.le_zero.mp hle)
    refine ⟨⟨cur, false, []⟩, ?_, Or.inl ⟨rfl, hc⟩, ?_⟩
    · unfold FrontendSetStateLoop; simp [hc]
    · intro p hp; simp [stateAssignments] at hp
  | succ n ih =>
    intro pass cur hle
    by_cases hc : cur = target
    · refine ⟨⟨cur, false, []⟩, ?_, Or.inl ⟨rfl, hc⟩, ?_⟩
      · unfold FrontendSetStateLoop; simp [hc]
      · intro p hp; simp [stateAssignments] at hp
    · obtain ⟨hbody, hassign⟩ := FrontendSetStateBody_spec (oracle pass) cur target hc
      rcases hbody with ⟨hf, hne, hcu⟩ | ⟨hf, hlt⟩
      · refine ⟨FrontendSetStateBody (oracle pass) target cur, ?_, Or.inr ⟨hf, hne, hcu⟩, hassign⟩
        unfold FrontendSetStateLoop; simp [hc, hf]
      · obtain ⟨r, hr, hcase, hall⟩ :=
          ih (pass + 1) (FrontendSetStateBody (oracle pass) target cur).State (by omega)
        refine ⟨⟨r.State, r.Failed,
          (FrontendSetStateBody (oracle pass) target cur).Events ++ r.Events⟩, ?_, hcase, ?_⟩
        · rw [FrontendSetStateLoop]; simp [hc, hf, hr]
        · intro p hp
          rw [stateAssignments_append] at hp
          rcases List.mem_append.mp hp with hp | hp
          · exact hassign p hp
          · exact hall p hp

/-- Three passes are enough between any two states. -/
theorem passesToTarget_le (cur target : XENVIF_FRONTEND_STATE) :
    passesToTarget cur target ≤ 4 := by
  cases cur <;> cases target <;> decide

/-- C5: for every starting state, target state and outcome of the sub-steps,
`FrontendSetState` returns, its status is `STATUS_SUCCESS` exactly when the
state on return equals the target, and whenever it returns a failure the
state on return is CLOSED or UNKNOWN. -/
theorem FrontendSetState_success_iff_target (oracle : Nat → Bool)
    (cur target : XENVIF_FRONTEND_STATE) :
    ∃ r, FrontendSetState 4 oracle cur target = some r ∧
      (r.status = STATUS_SUCCESS ↔ r.State = target) ∧
      (r.status ≠ STATUS_SUCCESS →
        r.State = FRONTEND_CLOSED ∨ r.State = FRONTEND_UNKNOWN) := by
  obtain ⟨r, hr, hcase, -⟩ :=
    FrontendSetStateLoop_spec oracle target 4 0 cur (passesToTarget_le cur target)
  refine ⟨⟨if r.Failed then STATUS_UNSUCCESSFUL else STATUS_SUCCESS, r.State, r.Events⟩, ?_, ?_, ?_⟩
  · simp [FrontendSetState, hr]
  · rcases hcase with ⟨hf, hs⟩ | ⟨hf, hs, -⟩ <;> simp [hf, hs]
  · rcases hcase with ⟨hf, hs⟩ | ⟨hf, -, hs⟩ <;> simp [hf, hs]

/-- C6 (counterexample): from UNKNOWN with target CLOSED and a successful
`FrontendPrepare`, the first assignment made is UNKNOWN to PREPARED, which
skips CLOSED. -/
theorem FrontendSetState_skips_closed :
    ∃ r, FrontendSetState 4 (fun _ => true) FRONTEND_UNKNOWN FRONTEND_CLOSED = some r ∧
      stateAssignments r.Events =
        [(FRONTEND_UNKNOWN, FRONTEND_PREPARED), (FRONTEND_PREPARED, FRONTEND_CLOSED)] ∧
      ¬ (∀ p ∈ stateAssignments r.Events, adjacentStates p.1 p.2 = true) := by
  refine ⟨_, rfl, ?_, ?_⟩ <;> decide

/-! ### Posting on a full ring (C1) -/

/-- `__TransmitterRingPostFragments` returns `STATUS_SUCCESS` or
`STATUS_ALLOTTED_SPACE_EXCEEDED`, the latter exactly when the slot check
fails, and then with the ring it was given. -/
theorem PostFragments_cases (Ring : XENVIF_TRANSMITTER_RING) :
    (ULONG_add Ring.State.Count (PostFragmentsExtra Ring.State) >
        RING_SLOTS_AVAILABLE Ring.Front.req_prod_pvt Ring.Front.rsp_cons ∧
      __TransmitterRingPostFragments Ring = (STATUS_ALLOTTED_SPACE_EXCEEDED, Ring)) ∨
    (¬ ULONG_add Ring.State.Count (PostFragmentsExtra Ring.State) >
        RING_SLOTS_AVAILABLE Ring.Front.req_prod_pvt Ring.Front.rsp_cons ∧
      (__TransmitterRingPostFragments Ring).1 = STATUS_SUCCESS) := by
  by_cases h : ULONG_add Ring.State.Count (PostFragmentsExtra Ring.State) >
      RING_SLOTS_AVAILABLE Ring.Front.req_prod_pvt Ring.Front.rsp_cons
  · left
    refine ⟨h, ?_⟩
    simp only [__TransmitterRingPostFragments, if_pos h]
  · right
    refine ⟨h, ?_⟩
    simp only [__TransmitterRingPostFragments, if_neg h]
    split <;> rfl

/-- C1: `__TransmitterRingPostFragments` fails, with
`STATUS_ALLOTTED_SPACE_EXCEEDED`, exactly when `State.Count + Extra` exceeds
`RING_SIZE - (req_prod_pvt - rsp_cons)`, `Extra` being 1 for a large packet or
a first fragment of type multicast control and 0 otherwise; it then returns
the ring unchanged (so `State.List`, `State.Count`, `Front.req_prod_pvt`,
`RequestsPosted` and `Pending` are unchanged), the pass of the scheduler loop
that called it ends the loop with `Stopped` set and nothing else changed, and
`TransmitterRingSchedule` returns with `Stopped` set, with `State`, both
queues, `Pending`, the private indices and the prepare counter as they
were. -/
theorem PostFragments_fails_iff_no_space (Ring : XENVIF_TRANSMITTER_RING) :
    ((__TransmitterRingPostFragments Ring).1 = STATUS_ALLOTTED_SPACE_EXCEEDED ↔
      ULONG_add Ring.State.Count
        (if (Ring.State.Send.OffloadIpVersion4LargePacket ||
             Ring.State.Send.OffloadIpVersion6LargePacket ||
             (match Ring.State.List.head? with
              | some Fragment => Fragment.isMulticastControl
              | none => false)) then 1 else 0) >
      ULONG_sub XENVIF_TRANSMITTER_RING_SIZE
        (ULONG_sub Ring.Front.req_prod_pvt Ring.Front.rsp_cons)) ∧
    ((__TransmitterRingPostFragments Ring).1 ≠ STATUS_ALLOTTED_SPACE_EXCEEDED →
      (__TransmitterRingPostFragments Ring).1 = STATUS_SUCCESS) ∧
    ((__TransmitterRingPostFragments Ring).1 = STATUS_ALLOTTED_SPACE_EXCEEDED →
      (__TransmitterRingPostFragments Ring).2 = Ring ∧
      (Ring.State.Count ≠ 0 →
        (∀ fuel, TransmitterRingScheduleLoop (fuel + 1) Ring =
          some { Ring with Stopped := true }) ∧
        (Ring.Enabled = true → Ring.Stopped = false →
          ∃ Ring', TransmitterRingSchedule Ring = some Ring' ∧
            Ring'.Stopped = true ∧ Ring'.State = Ring.State ∧
            Ring'.PacketQueue = Ring.PacketQueue ∧ Ring'.RequestQueue = Ring.RequestQueue ∧
            Ring'.Pending = Ring.Pending ∧ Ring'.Front = Ring.Front ∧
            Ring'.RequestsPosted = Ring.RequestsPosted ∧
            Ring'.PacketsPrepared = Ring.PacketsPrepared ∧
            Ring'.PacketsSent = Ring.PacketsSent))) := by
  have hx : (if (Ring.State.Send.OffloadIpVersion4LargePacket ||
             Ring.State.Send.OffloadIpVersion6LargePacket ||
             (match Ring.State.List.head? with
              | some Fragment => Fragment.isMulticastControl
              | none => false)) then 1 else 0) = PostFragmentsExtra Ring.State := rfl
  have hs : ULONG_sub XENVIF_TRANSMITTER_RING_SIZE
        (ULONG_sub Ring.Front.req_prod_pvt Ring.Front.rsp_cons) =
      RING_SLOTS_AVAILABLE Ring.Front.req_prod_pvt Ring.Front.rsp_cons := rfl
  rw [hx, hs]
  rcases PostFragments_cases Ring with ⟨hgt, heq⟩ | ⟨hle, hok⟩
  · refine ⟨⟨fun _ => hgt, fun _ => by rw [heq]⟩, fun h => absurd (by rw [heq]) h, fun _ => ?_⟩
    refine ⟨by rw [heq], fun hc => ?_⟩
    have hloop : ∀ fuel, TransmitterRingScheduleLoop (fuel + 1) Ring =
        some { Ring with Stopped := true } := by
      intro fuel
      simp [TransmitterRingScheduleLoop, schedulePost, hc, heq, NT_SUCCESS]
    refine ⟨hloop, fun hen hst => ?_⟩
    refine ⟨__TransmitterRingPushRequests { Ring with Stopped := true }, ?_, ?_⟩
    · simp [TransmitterRingSchedule, hen, hst, hloop]
    · simp only [__TransmitterRingPushRequests, __TransmitterRingSend]
      split_ifs <;> simp
  · refine ⟨⟨fun h => ?_, fun h => absurd h hle⟩, fun _ => hok, fun h => ?_⟩
    · rw [hok] at h; exact absurd h (by decide)
    · rw [hok] at h; exact absurd h (by decide)

/-! ### Frame lemmas: what the preparation of a packet leaves alone -/

@[simp] theorem prepFrame_GetBuffer (Ring : XENVIF_TRANSMITTER_RING) :
    prepFrame (__TransmitterGetBuffer Ring).2 = prepFrame Ring := by
  unfold __TransmitterGetBuffer; split <;> rfl

@[simp] theorem prepFrame_PutBuffer (Ring : XENVIF_TRANSMITTER_RING)
    (Buffer : XENVIF_TRANSMITTER_BUFFER) :
    prepFrame (__TransmitterPutBuffer Ring Buffer) = prepFrame Ring := rfl

@[simp] theorem prepFrame_GetFragment (Ring : XENVIF_TRANSMITTER_RING) :
    prepFrame (__TransmitterGetFragment Ring).2 = prepFrame Ring := by
  unfold __TransmitterGetFragment; split
  · split <;> rfl
  · rfl

@[simp] theorem prepFrame_PutFragment (Ring : XENVIF_TRANSMITTER_RING)
    (Fragment : XENVIF_TRANSMITTER_FRAGMENT) :
    prepFrame (__TransmitterPutFragment Ring Fragment) = prepFrame Ring := rfl

@[simp] theorem prepFrame_Permit (Ring : XENVIF_TRANSMITTER_RING) (Pfn : Nat) :
    prepFrame (PermitForeignAccess Ring Pfn).2 = prepFrame Ring := by
  unfold PermitForeignAccess; split <;> rfl

@[simp] theorem prepFrame_Revoke (Ring : XENVIF_TRANSMITTER_RING) (Entry : Option Nat) :
    prepFrame (RevokeForeignAccess Ring Entry) = prepFrame Ring := by
  unfold RevokeForeignAccess; split <;> rfl

@[simp] theorem prepFrame_updatePacket (Ring : XENVIF_TRANSMITTER_RING) (Packet : Nat)
    (g : XENVIF_TRANSMITTER_PACKET → XENVIF_TRANSMITTER_PACKET) :
    prepFrame (Ring.updatePacket Packet g) = prepFrame Ring := rfl

@[simp] theorem prepFrame_incValue (Ring : XENVIF_TRANSMITTER_RING) (Packet : Nat) :
    prepFrame (incValue Ring Packet) = prepFrame Ring := rfl

@[simp] theorem prepFrame_decValue (Ring : XENVIF_TRANSMITTER_RING) (Packet : Nat) :
    prepFrame (decValue Ring Packet) = prepFrame Ring := rfl

@[simp] theorem prepFrame_insertTail (Ring : XENVIF_TRANSMITTER_RING)
    (Fragment : XENVIF_TRANSMITTER_FRAGMENT) :
    prepFrame (insertTailFragment Ring Fragment) = prepFrame Ring := rfl

@[simp] theorem prepFrame_releaseContext (Ring : XENVIF_TRANSMITTER_RING)
    (Fragment : XENVIF_TRANSMITTER_FRAGMENT) :
    prepFrame (releaseContext Ring Fragment) = prepFrame Ring := by
  unfold releaseContext; split <;> rfl

/-- Changing only the fragment list and count of `State` does not change the
frame. -/
theorem prepFrame_setList (Ring : XENVIF_TRANSMITTER_RING) (Count : Nat)
    (List : List XENVIF_TRANSMITTER_FRAGMENT) :
    prepFrame { Ring with State := { Ring.State with Count := Count, List := List } } =
      prepFrame Ring := rfl

theorem prepFrame_CopyPayloadUnwind (Packet : Nat) :
    ∀ (fuel : Nat) (Ring : XENVIF_TRANSMITTER_RING),
      prepFrame (CopyPayloadUnwind Packet fuel Ring) = prepFrame Ring
  | 0, Ring => rfl
  | fuel + 1, Ring => by
    rw [CopyPayloadUnwind]
    split
    · rfl
    · split
      · rfl
      · rw [prepFrame_CopyPayloadUnwind Packet fuel]
        split <;> simp [prepFrame_setList]

theorem prepFrame_GrantPayloadUnwind (Packet : Nat) :
    ∀ (fuel : Nat) (Ring : XENVIF_TRANSMITTER_RING),
      prepFrame (GrantPayloadUnwind Packet fuel Ring) = prepFrame Ring
  | 0, Ring => rfl
  | fuel + 1, Ring => by
    rw [GrantPayloadUnwind]
    split
    · rfl
    · split
      · rfl
      · rw [prepFrame_GrantPayloadUnwind Packet fuel]
        simp [prepFrame_setList]

/-- A frame fact about the second component of a pair, read off an equation
that names the components. -/
theorem frame_of_eq {α : Type} {p : α × XENVIF_TRANSMITTER_RING} {a : α}
    {Ring1 Ring : XENVIF_TRANSMITTER_RING} (h : p = (a, Ring1))
    (hf : prepFrame p.2 = prepFrame Ring) : prepFrame Ring1 = prepFrame Ring := by
  subst h; exact hf

theorem prepFrame_CopyPayloadLoop (Packet : Nat) :
    ∀ (fuel : Nat) (Payload : XENVIF_PACKET_PAYLOAD) (Ring : XENVIF_TRANSMITTER_RING),
      prepFrame (CopyPayloadLoop Packet fuel Payload Ring).2 = prepFrame Ring
  | 0, _, Ring => rfl
  | fuel + 1, Payload, Ring => by
    rw [CopyPayloadLoop]
    split
    · rfl
    · split
      · next h => exact frame_of_eq h (prepFrame_GetBuffer Ring)
      · next Buffer Ring1 h =>
        have h1 := frame_of_eq h (prepFrame_GetBuffer Ring)
        simp only []
        split
        · next Ring2 h2 =>
          have h3 := frame_of_eq h2 (prepFrame_GetFragment _)
          simp [h3, h1]
        · next Fragment Ring2 h2 =>
          have h3 := frame_of_eq h2 (prepFrame_GetFragment _)
          split
          · next Ring3 h4 =>
            have h5 := frame_of_eq h4 (prepFrame_Permit _ _)
            simp [h5, h3, h1]
          · next Entry Ring3 h4 =>
            have h5 := frame_of_eq h4 (prepFrame_Permit _ _)
            rw [prepFrame_CopyPayloadLoop Packet fuel]
            simp [h5, h3, h1]

/-- The failing exits of the copy loop return `STATUS_NO_MEMORY` or the
status of the grant table. -/
theorem CopyPayloadLoop_status (Packet : Nat) :
    ∀ (fuel : Nat) (Payload : XENVIF_PACKET_PAYLOAD) (Ring Ring1 : XENVIF_TRANSMITTER_RING)
      (status : NTSTATUS),
      CopyPayloadLoop Packet fuel Payload Ring = (some status, Ring1) →
      status = STATUS_NO_MEMORY ∨ status = STATUS_UNSUCCESSFUL
  | 0, _, Ring, Ring1, status => by
    intro h; simp [CopyPayloadLoop] at h
  | fuel + 1, Payload, Ring, Ring1, status => by
    rw [CopyPayloadLoop]
    split
    · intro h; simp at h
    · split
      · intro h; simp at h; exact Or.inl h.1.symm
      · simp only []
        split
        · intro h; simp at h; exact Or.inl h.1.symm
        · split
          · intro h; simp at h; exact Or.inr h.1.symm
          · exact CopyPayloadLoop_status Packet fuel _ _ _ _

theorem outerFrame_of_prepFrame {A B : XENVIF_TRANSMITTER_RING}
    (h : prepFrame A = prepFrame B) : outerFrame A = outerFrame B := by
  unfold outerFrame; rw [h]

/-- An outer-frame fact about the second component of a pair, read off an
equation that names the components. -/
theorem outer_of_eq {α : Type} {p : α × XENVIF_TRANSMITTER_RING} {a : α}
    {Ring1 Ring : XENVIF_TRANSMITTER_RING} (h : p = (a, Ring1))
    (hf : outerFrame p.2 = outerFrame Ring) : outerFrame Ring1 = outerFrame Ring := by
  subst h; exact hf

theorem prepFrame_GrantPayloadPages (Packet : Nat) (Mdl : MDL) :
    ∀ (fuel MdlOffset MdlLength Length : Nat) (Ring : XENVIF_TRANSMITTER_RING),
      prepFrame (GrantPayloadPages Packet Mdl fuel MdlOffset MdlLength Length Ring).2 =
        prepFrame Ring
  | 0, _, _, _, Ring => rfl
  | fuel + 1, MdlOffset, MdlLength, Length, Ring => by
    rw [GrantPayloadPages]
    split
    · rfl
    · split
      · next h => exact frame_of_eq h (prepFrame_GetFragment Ring)
      · next Fragment Ring1 h =>
        have h1 := frame_of_eq h (prepFrame_GetFragment Ring)
        simp only []
        split
        · next Ring2 h2 =>
          have h3 := frame_of_eq h2 (prepFrame_Permit _ _)
          simp [h3, h1]
        · next Entry Ring2 h2 =>
          have h3 := frame_of_eq h2 (prepFrame_Permit _ _)
          split
          · simp [h3, h1]
          · rw [prepFrame_GrantPayloadPages Packet Mdl fuel]
            simp [h3, h1]

theorem prepFrame_GrantPayloadLoop (Packet : Nat) :
    ∀ (Mdl : List MDL) (Offset Length : Nat) (Ring : XENVIF_TRANSMITTER_RING),
      prepFrame (GrantPayloadLoop Packet Mdl Offset Length Ring).2 = prepFrame Ring
  | [], _, _, Ring => rfl
  | Mdl :: Next, Offset, Length, Ring => by
    rw [GrantPayloadLoop]
    split
    · rfl
    · simp only []
      split
      · next status Ring1 h => exact frame_of_eq h (prepFrame_GrantPayloadPages _ _ _ _ _ _ _)
      · next Length1 Ring1 h =>
        have h1 := frame_of_eq h (prepFrame_GrantPayloadPages _ _ _ _ _ _ _)
        rw [prepFrame_GrantPayloadLoop Packet Next, h1]

/-- `__TransmitterRingCopyPayload` either succeeds, with `PacketsCopied`
incremented and nothing else outside the frame changed, or fails with a
status other than `STATUS_SUCCESS` leaving everything outside the frame as it
was. -/
theorem CopyPayload_frame (Ring : XENVIF_TRANSMITTER_RING) :
    ((__TransmitterRingCopyPayload Ring).1 = STATUS_SUCCESS ∧
      prepFrame (__TransmitterRingCopyPayload Ring).2 =
        prepFrame { Ring with PacketsCopied := ULONG_inc Ring.PacketsCopied }) ∨
    ((__TransmitterRingCopyPayload Ring).1 ≠ STATUS_SUCCESS ∧
      (__TransmitterRingCopyPayload Ring).1 ≠ STATUS_BUFFER_OVERFLOW ∧
      prepFrame (__TransmitterRingCopyPayload Ring).2 = prepFrame Ring) := by
  unfold __TransmitterRingCopyPayload
  split
  · right; exact ⟨by simp, by simp, rfl⟩
  · next Packet hp =>
    split
    · next Ring1 h =>
      left
      have h1 := frame_of_eq h (prepFrame_CopyPayloadLoop _ _ _ _)
      refine ⟨rfl, ?_⟩
      have : prepFrame { Ring1 with PacketsCopied := ULONG_inc Ring1.PacketsCopied } =
          { prepFrame Ring1 with PacketsCopied := ULONG_inc (prepFrame Ring1).PacketsCopied } := rfl
      rw [this, h1]; rfl
    · next status Ring1 h =>
      right
      have h1 := frame_of_eq h (prepFrame_CopyPayloadLoop _ _ _ _)
      have hs : status = STATUS_NO_MEMORY ∨ status = STATUS_UNSUCCESSFUL :=
        CopyPayloadLoop_status _ _ _ _ _ _ h
      refine ⟨?_, ?_, ?_⟩
      · rcases hs with hs | hs <;> simp [hs]
      · rcases hs with hs | hs <;> simp [hs]
      · simp only []; rw [prepFrame_CopyPayloadUnwind, h1]

/-- The failing exits of the inner grant loop do not return
`STATUS_SUCCESS`. -/
theorem GrantPayloadPages_status (Packet : Nat) (Mdl : MDL) :
    ∀ (fuel MdlOffset MdlLength Length : Nat) (Ring Ring1 : XENVIF_TRANSMITTER_RING)
      (status : NTSTATUS),
      GrantPayloadPages Packet Mdl fuel MdlOffset MdlLength Length Ring =
        (Except.error status, Ring1) →
      status ≠ STATUS_SUCCESS
  | 0, _, _, _, Ring, Ring1, status => by
    intro h; simp [GrantPayloadPages] at h
  | fuel + 1, MdlOffset, MdlLength, Length, Ring, Ring1, status => by
    rw [GrantPayloadPages]
    split
    · intro h; simp at h
    · split
      · intro h; simp at h; rw [← h.1]; decide
      · simp only []
        split
        · intro h; simp at h; rw [← h.1]; decide
        · split
          · intro h; simp at h; rw [← h.1]; decide
          · exact GrantPayloadPages_status Packet Mdl fuel _ _ _ _ _ _

/-- The failing exits of the outer grant loop do not return
`STATUS_SUCCESS`. -/
theorem GrantPayloadLoop_status (Packet : Nat) :
    ∀ (Mdl : List MDL) (Offset Length : Nat) (Ring Ring1 : XENVIF_TRANSMITTER_RING)
      (status : NTSTATUS),
      GrantPayloadLoop Packet Mdl Offset Length Ring = (some status, Ring1) →
      status ≠ STATUS_SUCCESS
  | [], _, _, Ring, Ring1, status => by
    intro h; simp [GrantPayloadLoop] at h
  | Mdl :: Next, Offset, Length, Ring, Ring1, status => by
    rw [GrantPayloadLoop]
    split
    · intro h; simp at h
    · simp only []
      split
      · next status1 RingA hA =>
        intro h
        simp at h
        rw [← h.1]
        exact GrantPayloadPages_status _ _ _ _ _ _ _ _ _ hA
      · exact GrantPayloadLoop_status Packet Next _ _ _ _ _

/-! ### What the caches and the grant table leave of `State` -/

@[simp] theorem State_GetBuffer (Ring : XENVIF_TRANSMITTER_RING) :
    (__TransmitterGetBuffer Ring).2.State = Ring.State := by
  unfold __TransmitterGetBuffer; split <;> rfl

@[simp] theorem State_PutBuffer (Ring : XENVIF_TRANSMITTER_RING)
    (Buffer : XENVIF_TRANSMITTER_BUFFER) :
    (__TransmitterPutBuffer Ring Buffer).State = Ring.State := rfl

@[simp] theorem State_GetFragment (Ring : XENVIF_TRANSMITTER_RING) :
    (__TransmitterGetFragment Ring).2.State = Ring.State := by
  unfold __TransmitterGetFragment; split
  · split <;> rfl
  · rfl

@[simp] theorem State_PutFragment (Ring : XENVIF_TRANSMITTER_RING)
    (Fragment : XENVIF_TRANSMITTER_FRAGMENT) :
    (__TransmitterPutFragment Ring Fragment).State = Ring.State := rfl

@[simp] theorem State_Permit (Ring : XENVIF_TRANSMITTER_RING) (Pfn : Nat) :
    (PermitForeignAccess Ring Pfn).2.State = Ring.State := by
  unfold PermitForeignAccess; split <;> rfl

@[simp] theorem State_Revoke (Ring : XENVIF_TRANSMITTER_RING) (Entry : Option Nat) :
    (RevokeForeignAccess Ring Entry).State = Ring.State := by
  unfold RevokeForeignAccess; split <;> rfl

@[simp] theorem State_updatePacket (Ring : XENVIF_TRANSMITTER_RING) (Packet : Nat)
    (g : XENVIF_TRANSMITTER_PACKET → XENVIF_TRANSMITTER_PACKET) :
    (Ring.updatePacket Packet g).State = Ring.State := rfl

@[simp] theorem State_incValue (Ring : XENVIF_TRANSMITTER_RING) (Packet : Nat) :
    (incValue Ring Packet).State = Ring.State := rfl

@[simp] theorem State_decValue (Ring : XENVIF_TRANSMITTER_RING) (Packet : Nat) :
    (decValue Ring Packet).State = Ring.State := rfl

@[simp] theorem State_releaseContext (Ring : XENVIF_TRANSMITTER_RING)
    (Fragment : XENVIF_TRANSMITTER_FRAGMENT) :
    (releaseContext Ring Fragment).State = Ring.State := by
  unfold releaseContext; split <;> rfl

/-- A fact about the `State` of the second component of a pair, read off an
equation that names the components. -/
theorem state_of_eq {α : Type} {p : α × XENVIF_TRANSMITTER_RING} {a : α}
    {Ring1 Ring : XENVIF_TRANSMITTER_RING} (h : p = (a, Ring1))
    (hf : p.2.State = Ring.State) : Ring1.State = Ring.State := by
  subst h; exact hf

/-- A successful run of the copy loop never lowers `State.Count`, and leaves
it positive when there was payload to copy. -/
theorem CopyPayloadLoop_count (Packet : Nat) :
    ∀ (fuel : Nat) (Payload : XENVIF_PACKET_PAYLOAD) (Ring Ring1 : XENVIF_TRANSMITTER_RING),
      CopyPayloadLoop Packet fuel Payload Ring = (none, Ring1) →
      Ring.State.Count ≤ Ring1.State.Count ∧
        (fuel ≠ 0 → Payload.Length ≠ 0 → 1 ≤ Ring1.State.Count)
  | 0, _, Ring, Ring1 => by
    intro h
    simp [CopyPayloadLoop] at h
    subst h; exact ⟨le_refl _, fun h => absurd rfl h⟩
  | fuel + 1, Payload, Ring, Ring1 => by
    rw [CopyPayloadLoop]
    split
    · next hz =>
      intro h
      simp at h
      subst h; exact ⟨le_refl _, fun _ h => absurd hz h⟩
    · split
      · intro h; simp at h
      · next Buffer RingA hA =>
        have sA := state_of_eq hA (State_GetBuffer Ring)
        simp only []
        split
        · intro h; simp at h
        · next Fragment RingB hB =>
          have sB := state_of_eq hB (State_GetFragment _)
          split
          · intro h; simp at h
          · next Entry RingC hC =>
            have sC := state_of_eq hC (State_Permit _ _)
            intro h
            have ih := (CopyPayloadLoop_count Packet fuel _ _ _ h).1
            have hc : RingC.State.Count = Ring.State.Count := by
              rw [sC, sB]; simp [sA]
            simp only [insertTailFragment] at ih
            rw [hc] at ih
            exact ⟨by omega, fun _ _ => by omega⟩

/-- A successful run of the inner grant loop never lowers `State.Count`. -/
theorem GrantPayloadPages_count (Packet : Nat) (Mdl : MDL) :
    ∀ (fuel MdlOffset MdlLength Length Length1 : Nat) (Ring Ring1 : XENVIF_TRANSMITTER_RING),
      GrantPayloadPages Packet Mdl fuel MdlOffset MdlLength Length Ring =
        (Except.ok Length1, Ring1) →
      Ring.State.Count ≤ Ring1.State.Count
  | 0, _, _, _, _, Ring, Ring1 => by
    intro h
    simp [GrantPayloadPages] at h
    rw [h.2]
  | fuel + 1, MdlOffset, MdlLength, Length, Length1, Ring, Ring1 => by
    rw [GrantPayloadPages]
    split
    · intro h
      simp at h
      rw [h.2]
    · split
      · intro h; simp at h
      · next Fragment RingA hA =>
        have sA := state_of_eq hA (State_GetFragment Ring)
        simp only []
        split
        · intro h; simp at h
        · next Entry RingB hB =>
          have sB := state_of_eq hB (State_Permit _ _)
          split
          · intro h; simp at h
          · intro h
            have ih := GrantPayloadPages_count Packet Mdl fuel _ _ _ _ _ _ h
            have hc : RingB.State.Count = Ring.State.Count := by
              rw [sB]; simp [sA]
            simp only [insertTailFragment] at ih
            rw [hc] at ih
            omega

/-- A successful run of the outer grant loop never lowers `State.Count`. -/
theorem GrantPayloadLoop_count (Packet : Nat) :
    ∀ (Mdl : List MDL) (Offset Length : Nat) (Ring Ring1 : XENVIF_TRANSMITTER_RING),
      GrantPayloadLoop Packet Mdl Offset Length Ring = (none, Ring1) →
      Ring.State.Count ≤ Ring1.State.Count
  | [], _, _, Ring, Ring1 => by
    intro h
    simp [GrantPayloadLoop] at h
    rw [h]
  | Mdl :: Next, Offset, Length, Ring, Ring1 => by
    rw [GrantPayloadLoop]
    split
    · intro h
      simp at h
      rw [h]
    · simp only []
      split
      · intro h; simp at h
      · next Length1 RingA hA =>
        intro h
        have h1 := GrantPayloadPages_count _ _ _ _ _ _ _ _ _ hA
        have h2 := GrantPayloadLoop_count Packet Next _ _ _ _ h
        omega

/-- The outer grant loop fails only when there is payload. -/
theorem GrantPayloadLoop_fails_length (Packet : Nat) (Mdl : List MDL) (Offset Length : Nat)
    (Ring Ring1 : XENVIF_TRANSMITTER_RING) (status : NTSTATUS)
    (h : GrantPayloadLoop Packet Mdl Offset Length Ring = (some status, Ring1)) :
    Length ≠ 0 := by
  intro hz
  subst hz
  cases Mdl <;> simp [GrantPayloadLoop] at h

/-- `__TransmitterRingGrantPayload` either succeeds, with `PacketsGranted`
incremented and nothing else outside the frame changed, or fails leaving
everything outside the frame as it was. -/
theorem GrantPayload_frame (Ring : XENVIF_TRANSMITTER_RING) :
    ((__TransmitterRingGrantPayload Ring).1 = STATUS_SUCCESS ∧
      Ring.State.Count ≤ (__TransmitterRingGrantPayload Ring).2.State.Count ∧
      prepFrame (__TransmitterRingGrantPayload Ring).2 =
        prepFrame { Ring with PacketsGranted := ULONG_inc Ring.PacketsGranted }) ∨
    ((__TransmitterRingGrantPayload Ring).1 ≠ STATUS_SUCCESS ∧
      ((__TransmitterRingGrantPayload Ring).1 = STATUS_BUFFER_OVERFLOW →
        Ring.State.Payload.Length ≠ 0) ∧
      prepFrame (__TransmitterRingGrantPayload Ring).2 = prepFrame Ring) := by
  unfold __TransmitterRingGrantPayload
  split
  · right; exact ⟨by simp, by simp, rfl⟩
  · next Packet hp =>
    split
    · next Ring1 h =>
      left
      have h1 := frame_of_eq h (prepFrame_GrantPayloadLoop _ _ _ _ _)
      have hcount := GrantPayloadLoop_count _ _ _ _ _ _ h
      refine ⟨rfl, hcount, ?_⟩
      have : prepFrame { Ring1 with PacketsGranted := ULONG_inc Ring1.PacketsGranted } =
          { prepFrame Ring1 with PacketsGranted := ULONG_inc (prepFrame Ring1).PacketsGranted } :=
        rfl
      rw [this, h1]; rfl
    · next status Ring1 h =>
      right
      have h1 := frame_of_eq h (prepFrame_GrantPayloadLoop _ _ _ _ _)
      refine ⟨?_, fun _ => GrantPayloadLoop_fails_length _ _ _ _ _ _ _ h, ?_⟩
      · exact GrantPayloadLoop_status _ _ _ _ _ _ _ h
      · simp only []; rw [prepFrame_GrantPayloadUnwind, h1]

/-! ### The outer frame -/

@[simp] theorem outerFrame_setState (Ring : XENVIF_TRANSMITTER_RING)
    (State : XENVIF_TRANSMITTER_STATE) :
    outerFrame { Ring with State := State } = outerFrame Ring := rfl

@[simp] theorem outerFrame_GetBuffer (Ring : XENVIF_TRANSMITTER_RING) :
    outerFrame (__TransmitterGetBuffer Ring).2 = outerFrame Ring :=
  outerFrame_of_prepFrame (prepFrame_GetBuffer Ring)

@[simp] theorem outerFrame_PutBuffer (Ring : XENVIF_TRANSMITTER_RING)
    (Buffer : XENVIF_TRANSMITTER_BUFFER) :
    outerFrame (__TransmitterPutBuffer Ring Buffer) = outerFrame Ring := rfl

@[simp] theorem outerFrame_GetFragment (Ring : XENVIF_TRANSMITTER_RING) :
    outerFrame (__TransmitterGetFragment Ring).2 = outerFrame Ring :=
  outerFrame_of_prepFrame (prepFrame_GetFragment Ring)

@[simp] theorem outerFrame_PutFragment (Ring : XENVIF_TRANSMITTER_RING)
    (Fragment : XENVIF_TRANSMITTER_FRAGMENT) :
    outerFrame (__TransmitterPutFragment Ring Fragment) = outerFrame Ring := rfl

@[simp] theorem outerFrame_Permit (Ring : XENVIF_TRANSMITTER_RING) (Pfn : Nat) :
    outerFrame (PermitForeignAccess Ring Pfn).2 = outerFrame Ring :=
  outerFrame_of_prepFrame (prepFrame_Permit Ring Pfn)

@[simp] theorem outerFrame_Revoke (Ring : XENVIF_TRANSMITTER_RING) (Entry : Option Nat) :
    outerFrame (RevokeForeignAccess Ring Entry) = outerFrame Ring :=
  outerFrame_of_prepFrame (prepFrame_Revoke Ring Entry)

@[simp] theorem outerFrame_updatePacket (Ring : XENVIF_TRANSMITTER_RING) (Packet : Nat)
    (g : XENVIF_TRANSMITTER_PACKET → XENVIF_TRANSMITTER_PACKET) :
    outerFrame (Ring.updatePacket Packet g) = outerFrame Ring := rfl

@[simp] theorem outerFrame_incValue (Ring : XENVIF_TRANSMITTER_RING) (Packet : Nat) :
    outerFrame (incValue Ring Packet) = outerFrame Ring := rfl

@[simp] theorem outerFrame_decValue (Ring : XENVIF_TRANSMITTER_RING) (Packet : Nat) :
    outerFrame (decValue Ring Packet) = outerFrame Ring := rfl

@[simp] theorem outerFrame_insertTail (Ring : XENVIF_TRANSMITTER_RING)
    (Fragment : XENVIF_TRANSMITTER_FRAGMENT) :
    outerFrame (insertTailFragment Ring Fragment) = outerFrame Ring := rfl

@[simp] theorem outerFrame_releaseContext (Ring : XENVIF_TRANSMITTER_RING)
    (Fragment : XENVIF_TRANSMITTER_FRAGMENT) :
    outerFrame (releaseContext Ring Fragment) = outerFrame Ring :=
  outerFrame_of_prepFrame (prepFrame_releaseContext Ring Fragment)

@[simp] theorem State_insertTail_Packet (Ring : XENVIF_TRANSMITTER_RING)
    (Fragment : XENVIF_TRANSMITTER_FRAGMENT) :
    (insertTailFragment Ring Fragment).State.Packet = Ring.State.Packet := rfl

@[simp] theorem State_insertTail_Count (Ring : XENVIF_TRANSMITTER_RING)
    (Fragment : XENVIF_TRANSMITTER_FRAGMENT) :
    (insertTailFragment Ring Fragment).State.Count = Ring.State.Count + 1 := rfl

@[simp] theorem State_insertTail_List (Ring : XENVIF_TRANSMITTER_RING)
    (Fragment : XENVIF_TRANSMITTER_FRAGMENT) :
    (insertTailFragment Ring Fragment).State.List = Ring.State.List ++ [Fragment] := rfl

@[simp] theorem outerFrame_PrepareHeaderFail3 (Ring : XENVIF_TRANSMITTER_RING) (Packet : Nat)
    (Buffer : XENVIF_TRANSMITTER_BUFFER) :
    outerFrame (PrepareHeaderFail3 Ring Packet Buffer) = outerFrame Ring := rfl

@[simp] theorem State_PrepareHeaderFail3 (Ring : XENVIF_TRANSMITTER_RING) (Packet : Nat)
    (Buffer : XENVIF_TRANSMITTER_BUFFER) :
    (PrepareHeaderFail3 Ring Packet Buffer).State = Ring.State := rfl

@[simp] theorem outerFrame_PrepareHeaderFail4 (Ring : XENVIF_TRANSMITTER_RING) (Packet : Nat)
    (Buffer : XENVIF_TRANSMITTER_BUFFER) (Fragment : XENVIF_TRANSMITTER_FRAGMENT) :
    outerFrame (PrepareHeaderFail4 Ring Packet Buffer Fragment) = outerFrame Ring := rfl

@[simp] theorem State_PrepareHeaderFail4 (Ring : XENVIF_TRANSMITTER_RING) (Packet : Nat)
    (Buffer : XENVIF_TRANSMITTER_BUFFER) (Fragment : XENVIF_TRANSMITTER_FRAGMENT) :
    (PrepareHeaderFail4 Ring Packet Buffer Fragment).State = Ring.State := rfl

/-- What `PrepareHeaderFinish` leaves behind. -/
theorem PrepareHeaderFinish_spec (Ring : XENVIF_TRANSMITTER_RING) (Packet : Nat)
    (Buffer : XENVIF_TRANSMITTER_BUFFER) (Fragment : XENVIF_TRANSMITTER_FRAGMENT)
    (Entry : Nat) :
    outerFrame (PrepareHeaderFinish Ring Packet Buffer Fragment Entry).2 = outerFrame Ring ∧
    (PrepareHeaderFinish Ring Packet Buffer Fragment Entry).2.State.Packet =
      Ring.State.Packet ∧
    ((PrepareHeaderFinish Ring Packet Buffer Fragment Entry).1 = STATUS_SUCCESS →
      (PrepareHeaderFinish Ring Packet Buffer Fragment Entry).2.State.Count =
        Ring.State.Count + 1) ∧
    ((PrepareHeaderFinish Ring Packet Buffer Fragment Entry).1 ≠ STATUS_SUCCESS →
      (PrepareHeaderFinish Ring Packet Buffer Fragment Entry).2.State.Count =
        Ring.State.Count ∧
      (PrepareHeaderFinish Ring Packet Buffer Fragment Entry).2.State.List =
        Ring.State.List) := by
  simp only [PrepareHeaderFinish]
  split_ifs <;> simp

/-! ### Preparing: header, un-prepare, packet -/

/-- What `__TransmitterRingPrepareHeader` leaves behind: nothing changes
outside `State`, the packets and the caches; `State.Packet` is kept; on
success exactly one fragment has been added, on failure the fragment list is
as before. -/
theorem PrepareHeader_spec (Ring : XENVIF_TRANSMITTER_RING) :
    outerFrame (__TransmitterRingPrepareHeader Ring).2 = outerFrame Ring ∧
    (__TransmitterRingPrepareHeader Ring).2.State.Packet = Ring.State.Packet ∧
    ((__TransmitterRingPrepareHeader Ring).1 = STATUS_SUCCESS →
      (__TransmitterRingPrepareHeader Ring).2.State.Count = Ring.State.Count + 1) ∧
    ((__TransmitterRingPrepareHeader Ring).1 ≠ STATUS_SUCCESS →
      (__TransmitterRingPrepareHeader Ring).2.State.Count = Ring.State.Count ∧
      (__TransmitterRingPrepareHeader Ring).2.State.List = Ring.State.List) := by
  unfold __TransmitterRingPrepareHeader
  split
  · simp
  · next Packet hp =>
    split
    · next RingA hA =>
      have fA := outer_of_eq hA (outerFrame_GetBuffer Ring)
      have sA := state_of_eq hA (State_GetBuffer Ring)
      simp [fA, sA]
    · next Buffer RingA hA =>
      have fA := outer_of_eq hA (outerFrame_GetBuffer Ring)
      have sA := state_of_eq hA (State_GetBuffer Ring)
      simp only []
      split
      · simp [fA, sA]
      · next Info Payload hI =>
        try simp only []
        split
        · next RingB hB =>
          have fB := outer_of_eq hB (outerFrame_GetFragment _)
          have sB := state_of_eq hB (State_GetFragment _)
          simp [fB, sB, fA, sA]
        · next Fragment RingB hB =>
          have fB := outer_of_eq hB (outerFrame_GetFragment _)
          have sB := state_of_eq hB (State_GetFragment _)
          split
          · next RingC hC =>
            have fC := outer_of_eq hC (outerFrame_Permit _ _)
            have sC := state_of_eq hC (State_Permit _ _)
            simp [fC, sC, fB, sB, fA, sA]
          · next Entry RingC hC =>
            have fC := outer_of_eq hC (outerFrame_Permit _ _)
            have sC := state_of_eq hC (State_Permit _ _)
            obtain ⟨g1, g2, g3, g4⟩ := PrepareHeaderFinish_spec RingC Packet
              { Pfn := Buffer.Pfn, ByteCount := Info.Length, Context := some Packet,
                Reference := Buffer.Reference + 1 } Fragment Entry
            refine ⟨?_, ?_, ?_, ?_⟩
            · rw [g1, fC, fB]; simp [fA]
            · rw [g2, sC, sB]; simp [sA]
            · intro h; rw [g3 h, sC, sB]; simp [sA]
            · intro h; rw [(g4 h).1, (g4 h).2, sC, sB]; simp [sA]

/-! ### Un-preparing -/

theorem counterFrame_of_prepFrame {A B : XENVIF_TRANSMITTER_RING}
    (h : prepFrame A = prepFrame B) : counterFrame A = counterFrame B := by
  unfold counterFrame outerFrame; rw [h]

theorem counterFrame_of_outerFrame {A B : XENVIF_TRANSMITTER_RING}
    (h : outerFrame A = outerFrame B) : counterFrame A = counterFrame B := by
  unfold counterFrame; rw [h]

theorem UnprepareFragment_frame (Ring : XENVIF_TRANSMITTER_RING)
    (Fragment : XENVIF_TRANSMITTER_FRAGMENT) :
    prepFrame (UnprepareFragment Ring Fragment) = prepFrame Ring ∧
    (UnprepareFragment Ring Fragment).State.Count = Ring.State.Count := by
  unfold UnprepareFragment
  cases Fragment.packet <;> simp <;> rfl

/-- The loop of `__TransmitterRingUnprepareFragments` changes the fragment
list, the packets and the caches only. -/
theorem UnprepareFragmentsLoop_frame :
    ∀ (Count : Nat) (Ring : XENVIF_TRANSMITTER_RING),
      prepFrame (UnprepareFragmentsLoop Count Ring) = prepFrame Ring ∧
      (UnprepareFragmentsLoop Count Ring).State.Count = Ring.State.Count
  | 0, Ring => ⟨rfl, rfl⟩
  | Count + 1, Ring => by
    rw [UnprepareFragmentsLoop]
    split
    · exact ⟨rfl, rfl⟩
    · next Fragment hF =>
      obtain ⟨h1, h2⟩ := UnprepareFragmentsLoop_frame Count (UnprepareFragment Ring Fragment)
      obtain ⟨h3, h4⟩ := UnprepareFragment_frame Ring Fragment
      exact ⟨h1.trans h3, h2.trans h4⟩

theorem UnprepareClearCount_spec (Ring : XENVIF_TRANSMITTER_RING) :
    prepFrame (UnprepareClearCount Ring) = prepFrame Ring ∧
    (UnprepareClearCount Ring).State.Count = 0 := by
  unfold UnprepareClearCount
  by_cases hz : Ring.State.Count = 0
  · simp [hz]
  · rw [if_pos hz]
    exact ⟨rfl, rfl⟩

theorem UnprepareReturnPacket_spec (Ring : XENVIF_TRANSMITTER_RING) (Packet : Nat) :
    counterFrame (UnprepareReturnPacket Ring Packet) = counterFrame Ring ∧
    (UnprepareReturnPacket Ring Packet).State.Packet = none ∧
    (UnprepareReturnPacket Ring Packet).State.Count = Ring.State.Count ∧
    (UnprepareReturnPacket Ring Packet).PacketsPrepared = Ring.PacketsPrepared ∧
    (UnprepareReturnPacket Ring Packet).PacketsCopied = Ring.PacketsCopied ∧
    (UnprepareReturnPacket Ring Packet).PacketsGranted = Ring.PacketsGranted ∧
    (UnprepareReturnPacket Ring Packet).PacketsUnprepared =
      ULONG_inc Ring.PacketsUnprepared :=
  ⟨rfl, rfl, rfl, rfl, rfl, rfl, rfl⟩

/-- What `__TransmitterRingUnprepareFragments` leaves behind: `State` holds
neither fragments nor a packet, the packet that was held is returned, and
`PacketsUnprepared` has grown by one exactly if there was one; the other
counters and the queues are as before. -/
theorem UnprepareFragments_spec (Ring : XENVIF_TRANSMITTER_RING) :
    counterFrame (__TransmitterRingUnprepareFragments Ring).2 = counterFrame Ring ∧
    (__TransmitterRingUnprepareFragments Ring).1 = Ring.State.Packet ∧
    (__TransmitterRingUnprepareFragments Ring).2.State.Packet = none ∧
    (__TransmitterRingUnprepareFragments Ring).2.State.Count = 0 ∧
    (__TransmitterRingUnprepareFragments Ring).2.PacketsPrepared = Ring.PacketsPrepared ∧
    (__TransmitterRingUnprepareFragments Ring).2.PacketsCopied = Ring.PacketsCopied ∧
    (__TransmitterRingUnprepareFragments Ring).2.PacketsGranted = Ring.PacketsGranted ∧
    (__TransmitterRingUnprepareFragments Ring).2.PacketsUnprepared =
      (if Ring.State.Packet.isSome then ULONG_inc Ring.PacketsUnprepared
       else Ring.PacketsUnprepared) := by
  obtain ⟨hf0, _⟩ := UnprepareFragmentsLoop_frame Ring.State.Count Ring
  obtain ⟨hf1, hz⟩ := UnprepareClearCount_spec (UnprepareFragmentsLoop Ring.State.Count Ring)
  have hf := hf1.trans hf0
  have hcf := counterFrame_of_prepFrame hf
  have hP := congrArg (fun R => R.State.Packet) hf
  have h1 := congrArg XENVIF_TRANSMITTER_RING.PacketsPrepared hf
  have h2 := congrArg XENVIF_TRANSMITTER_RING.PacketsCopied hf
  have h3 := congrArg XENVIF_TRANSMITTER_RING.PacketsGranted hf
  have h4 := congrArg XENVIF_TRANSMITTER_RING.PacketsUnprepared hf
  simp only [prepFrame] at hP h1 h2 h3 h4
  unfold __TransmitterRingUnprepareFragments
  generalize UnprepareClearCount (UnprepareFragmentsLoop Ring.State.Count Ring) = R1 at *
  simp only []
  rw [← hP]
  split
  · next hp =>
    exact ⟨hcf, hp.symm, hp, hz, h1, h2, h3, by simpa [hp] using h4⟩
  · next Packet hp =>
    obtain ⟨g0, g1, g2, g3, g4, g5, g6⟩ := UnprepareReturnPacket_spec R1 Packet
    exact ⟨g0.trans hcf, hp.symm, g1, g2.trans hz, g3.trans h1, g4.trans h2, g5.trans h3,
      by simpa [hp] using g6.trans (congrArg ULONG_inc h4)⟩

/-! ### Preparing a packet -/

theorem payloadFrame_of_prepFrame {A B : XENVIF_TRANSMITTER_RING}
    (h : prepFrame A = prepFrame B) : payloadFrame A = payloadFrame B := by
  unfold payloadFrame; rw [h]

theorem counterFrame_of_payloadFrame {A B : XENVIF_TRANSMITTER_RING}
    (h : payloadFrame A = payloadFrame B) : counterFrame A = counterFrame B := by
  have : ∀ R, counterFrame R =
      { payloadFrame R with State := XENVIF_TRANSMITTER_STATE.zero, PacketsPrepared := 0,
                            PacketsUnprepared := 0 } := fun _ => rfl
  rw [this, this, h]

theorem CopyPayload_count (Ring : XENVIF_TRANSMITTER_RING)
    (h : (__TransmitterRingCopyPayload Ring).1 = STATUS_SUCCESS) :
    Ring.State.Count ≤ (__TransmitterRingCopyPayload Ring).2.State.Count ∧
    (Ring.State.Payload.Length ≠ 0 → 1 ≤ (__TransmitterRingCopyPayload Ring).2.State.Count) := by
  revert h
  unfold __TransmitterRingCopyPayload
  split
  · intro h; simp at h
  · next Packet hp =>
    split
    · next Ring1 h =>
      intro _
      have := CopyPayloadLoop_count _ _ _ _ _ h
      exact ⟨this.1, fun hl => this.2 hl hl⟩
    · next status Ring1 h =>
      intro hs
      have := CopyPayloadLoop_status _ _ _ _ _ _ h
      simp only [] at hs
      rcases this with h1 | h1 <;> rw [h1] at hs <;> simp at hs

/-- `__TransmitterRingCopyPayload` in terms of the counters: on success
`PacketsCopied` has grown by one and no fragment was taken away; on failure
nothing is counted.  `PacketsGranted` is not written. -/
theorem CopyPayload_spec (Ring : XENVIF_TRANSMITTER_RING) :
    payloadFrame (__TransmitterRingCopyPayload Ring).2 = payloadFrame Ring ∧
    (__TransmitterRingCopyPayload Ring).2.PacketsGranted = Ring.PacketsGranted ∧
    ((__TransmitterRingCopyPayload Ring).1 = STATUS_SUCCESS →
      (__TransmitterRingCopyPayload Ring).2.PacketsCopied = ULONG_inc Ring.PacketsCopied) ∧
    ((__TransmitterRingCopyPayload Ring).1 ≠ STATUS_SUCCESS →
      (__TransmitterRingCopyPayload Ring).2.PacketsCopied = Ring.PacketsCopied) := by
  rcases CopyPayload_frame Ring with ⟨h1, h2⟩ | ⟨h1, _, h2⟩
  · have a := payloadFrame_of_prepFrame h2
    have b := congrArg XENVIF_TRANSMITTER_RING.PacketsGranted h2
    have c := congrArg XENVIF_TRANSMITTER_RING.PacketsCopied h2
    exact ⟨a, b, fun _ => c, fun h => absurd h1 h⟩
  · have a := payloadFrame_of_prepFrame h2
    have b := congrArg XENVIF_TRANSMITTER_RING.PacketsGranted h2
    have c := congrArg XENVIF_TRANSMITTER_RING.PacketsCopied h2
    exact ⟨a, b, fun h => absurd h h1, fun _ => c⟩

/-- `__TransmitterRingGrantPayload` in terms of the counters. -/
theorem GrantPayload_spec (Ring : XENVIF_TRANSMITTER_RING) :
    payloadFrame (__TransmitterRingGrantPayload Ring).2 = payloadFrame Ring ∧
    (__TransmitterRingGrantPayload Ring).2.PacketsCopied = Ring.PacketsCopied ∧
    ((__TransmitterRingGrantPayload Ring).1 = STATUS_SUCCESS →
      Ring.State.Count ≤ (__TransmitterRingGrantPayload Ring).2.State.Count ∧
      (__TransmitterRingGrantPayload Ring).2.PacketsGranted = ULONG_inc Ring.PacketsGranted) ∧
    ((__TransmitterRingGrantPayload Ring).1 ≠ STATUS_SUCCESS →
      (__TransmitterRingGrantPayload Ring).2.PacketsGranted = Ring.PacketsGranted ∧
      ((__TransmitterRingGrantPayload Ring).1 = STATUS_BUFFER_OVERFLOW →
        Ring.State.Payload.Length ≠ 0)) := by
  rcases GrantPayload_frame Ring with ⟨h1, hc, h2⟩ | ⟨h1, hl, h2⟩
  · have a := payloadFrame_of_prepFrame h2
    have b := congrArg XENVIF_TRANSMITTER_RING.PacketsGranted h2
    have c := congrArg XENVIF_TRANSMITTER_RING.PacketsCopied h2
    exact ⟨a, c, fun _ => ⟨hc, b⟩, fun h => absurd h1 h⟩
  · have a := payloadFrame_of_prepFrame h2
    have b := congrArg XENVIF_TRANSMITTER_RING.PacketsGranted h2
    have c := congrArg XENVIF_TRANSMITTER_RING.PacketsCopied h2
    exact ⟨a, c, fun h => absurd h h1, fun _ => ⟨b, hl⟩⟩

/-- The payload step of `__TransmitterRingPreparePacket` either succeeds,
with exactly one of `PacketsCopied` and `PacketsGranted` incremented and
`State` still holding a fragment, or fails with the two counters as they
were. -/
theorem PreparePacketPayload_spec (Ring : XENVIF_TRANSMITTER_RING) :
    payloadFrame (PreparePacketPayload Ring).2 = payloadFrame Ring ∧
    ((PreparePacketPayload Ring).1 = STATUS_SUCCESS →
      (1 ≤ Ring.State.Count → 1 ≤ (PreparePacketPayload Ring).2.State.Count) ∧
      (((PreparePacketPayload Ring).2.PacketsCopied = ULONG_inc Ring.PacketsCopied ∧
        (PreparePacketPayload Ring).2.PacketsGranted = Ring.PacketsGranted) ∨
       ((PreparePacketPayload Ring).2.PacketsCopied = Ring.PacketsCopied ∧
        (PreparePacketPayload Ring).2.PacketsGranted = ULONG_inc Ring.PacketsGranted))) ∧
    ((PreparePacketPayload Ring).1 ≠ STATUS_SUCCESS →
      (PreparePacketPayload Ring).2.PacketsCopied = Ring.PacketsCopied ∧
      (PreparePacketPayload Ring).2.PacketsGranted = Ring.PacketsGranted) := by
  obtain ⟨c1, c2, c3, c4⟩ := CopyPayload_spec Ring
  have c5 := CopyPayload_count Ring
  unfold PreparePacketPayload
  split_ifs with hrunt hac
  · rcases hres : __TransmitterRingCopyPayload Ring with ⟨st, R1⟩
    rw [hres] at c1 c2 c3 c4 c5
    simp only [] at c1 c2 c3 c4 c5
    cases st
    · refine ⟨c1, fun _ => ⟨fun h => le_trans h (c5 rfl).1, Or.inl ⟨c3 rfl, c2⟩⟩,
        fun h => absurd rfl h⟩
    all_goals exact ⟨c1, fun h => by simp at h, fun _ => ⟨c4 (by simp), c2⟩⟩
  · obtain ⟨g1, g2, g3, g4⟩ := GrantPayload_spec Ring
    split
    · next R1 hres =>
      rw [hres] at g1 g2 g3 g4
      simp only [] at g1 g2 g3 g4
      obtain ⟨d1, d2, d3, d4⟩ := CopyPayload_spec R1
      have d5 := CopyPayload_count R1
      obtain ⟨a, b⟩ := g4 (by simp)
      have hl : R1.State.Payload.Length ≠ 0 := by
        have := congrArg (fun R => R.State.Payload.Length) g1
        simp only [payloadFrame, prepFrame] at this
        rw [this]; exact b trivial
      refine ⟨d1.trans g1, fun h => ⟨fun _ => (d5 h).2 hl, Or.inl ⟨?_, ?_⟩⟩, fun h => ⟨?_, ?_⟩⟩
      · rw [d3 h, g2]
      · rw [d2, a]
      · rw [d4 h, g2]
      · rw [d2, a]
    · next st R1 hne hres =>
      rw [hres] at g1 g2 g3 g4
      simp only [] at g1 g2 g3 g4
      by_cases hs : st = STATUS_SUCCESS
      · obtain ⟨a, b⟩ := g3 hs
        exact ⟨g1, fun _ => ⟨fun h => le_trans h a, Or.inr ⟨g2, b⟩⟩, fun h => absurd hs h⟩
      · exact ⟨g1, fun h => absurd h hs, fun _ => ⟨g2, (g4 hs).1⟩⟩
  · exact ⟨c1, fun h => ⟨fun h1 => le_trans h1 (c5 h).1, Or.inl ⟨c3 h, c2⟩⟩,
      fun h => ⟨c4 h, c2⟩⟩

theorem PreparePacketEnter_spec (Ring : XENVIF_TRANSMITTER_RING) (Packet : Nat) :
    outerFrame (PreparePacketEnter Ring Packet) = outerFrame Ring ∧
    (PreparePacketEnter Ring Packet).State.Packet = some Packet ∧
    (PreparePacketEnter Ring Packet).State.Count = Ring.State.Count :=
  ⟨rfl, rfl, rfl⟩

theorem PreparePacketFail1_spec (Ring : XENVIF_TRANSMITTER_RING) (Packet : Nat) :
    outerFrame (PreparePacketFail1 Ring Packet) = outerFrame Ring ∧
    (PreparePacketFail1 Ring Packet).State.Packet = none ∧
    (PreparePacketFail1 Ring Packet).State.Count = Ring.State.Count :=
  ⟨rfl, rfl, rfl⟩

/-- The four preparation counters, read off an equation between outer
frames. -/
theorem counters_of_outerFrame {A B : XENVIF_TRANSMITTER_RING}
    (h : outerFrame A = outerFrame B) :
    A.PacketsPrepared = B.PacketsPrepared ∧ A.PacketsUnprepared = B.PacketsUnprepared ∧
    A.PacketsCopied = B.PacketsCopied ∧ A.PacketsGranted = B.PacketsGranted :=
by
  have a := congrArg XENVIF_TRANSMITTER_RING.PacketsPrepared h
  have b := congrArg XENVIF_TRANSMITTER_RING.PacketsUnprepared h
  have c := congrArg XENVIF_TRANSMITTER_RING.PacketsCopied h
  have d := congrArg XENVIF_TRANSMITTER_RING.PacketsGranted h
  exact ⟨a, b, c, d⟩

/-- What the payload frame keeps of `State` and of the counters. -/
theorem facts_of_payloadFrame {A B : XENVIF_TRANSMITTER_RING}
    (h : payloadFrame A = payloadFrame B) :
    A.PacketsPrepared = B.PacketsPrepared ∧ A.PacketsUnprepared = B.PacketsUnprepared ∧
    A.State.Packet = B.State.Packet :=
by
  have a := congrArg XENVIF_TRANSMITTER_RING.PacketsPrepared h
  have b := congrArg XENVIF_TRANSMITTER_RING.PacketsUnprepared h
  have c := congrArg (fun R => R.State.Packet) h
  exact ⟨a, b, c⟩

/-- What `__TransmitterRingPreparePacket` does to the counters and to
`State`.  On success `PacketsPrepared` and exactly one of `PacketsCopied` and
`PacketsGranted` have grown by one, and `State` holds the packet and at least
one fragment.  On failure `State` holds no packet and the three counters are
as before; `PacketsUnprepared` is as before if the header step failed and has
grown by one if the payload step failed.  Nothing else outside `State`, the
packets and the caches changes. -/
theorem PreparePacket_spec (Ring : XENVIF_TRANSMITTER_RING) (Packet : Nat) :
    counterFrame (__TransmitterRingPreparePacket Ring Packet).2 = counterFrame Ring ∧
    ((__TransmitterRingPreparePacket Ring Packet).1 = STATUS_SUCCESS →
      (__TransmitterRingPreparePacket Ring Packet).2.PacketsPrepared =
        ULONG_inc Ring.PacketsPrepared ∧
      (__TransmitterRingPreparePacket Ring Packet).2.PacketsUnprepared =
        Ring.PacketsUnprepared ∧
      (((__TransmitterRingPreparePacket Ring Packet).2.PacketsCopied =
          ULONG_inc Ring.PacketsCopied ∧
        (__TransmitterRingPreparePacket Ring Packet).2.PacketsGranted =
          Ring.PacketsGranted) ∨
       ((__TransmitterRingPreparePacket Ring Packet).2.PacketsCopied = Ring.PacketsCopied ∧
        (__TransmitterRingPreparePacket Ring Packet).2.PacketsGranted =
          ULONG_inc Ring.PacketsGranted)) ∧
      (__TransmitterRingPreparePacket Ring Packet).2.State.Packet = some Packet ∧
      1 ≤ (__TransmitterRingPreparePacket Ring Packet).2.State.Count) ∧
    ((__TransmitterRingPreparePacket Ring Packet).1 ≠ STATUS_SUCCESS →
      (__TransmitterRingPreparePacket Ring Packet).2.PacketsPrepared = Ring.PacketsPrepared ∧
      (__TransmitterRingPreparePacket Ring Packet).2.PacketsCopied = Ring.PacketsCopied ∧
      (__TransmitterRingPreparePacket Ring Packet).2.PacketsGranted = Ring.PacketsGranted ∧
      (__TransmitterRingPreparePacket Ring Packet).2.State.Packet = none ∧
      (((__TransmitterRingPrepareHeader (PreparePacketEnter Ring Packet)).1 ≠ STATUS_SUCCESS ∧
        (__TransmitterRingPreparePacket Ring Packet).2.PacketsUnprepared =
          Ring.PacketsUnprepared ∧
        (__TransmitterRingPreparePacket Ring Packet).2.State.Count = Ring.State.Count) ∨
       ((__TransmitterRingPrepareHeader (PreparePacketEnter Ring Packet)).1 = STATUS_SUCCESS ∧
        (__TransmitterRingPreparePacket Ring Packet).2.PacketsUnprepared =
          ULONG_inc Ring.PacketsUnprepared ∧
        (__TransmitterRingPreparePacket Ring Packet).2.State.Count = 0))) := by
  obtain ⟨e1, e2, e3⟩ := PreparePacketEnter_spec Ring Packet
  obtain ⟨p1, p2, p3, p4⟩ := PrepareHeader_spec (PreparePacketEnter Ring Packet)
  unfold __TransmitterRingPreparePacket
  simp only []
  generalize PreparePacketEnter Ring Packet = R0 at *
  split
  · next R1 hh =>
    rw [hh] at p1 p2 p3 p4
    simp only [] at p1 p2 p3 p4
    have p3 := p3 trivial
    obtain ⟨q1, q2, q3⟩ := PreparePacketPayload_spec R1
    obtain ⟨k1, k2, k3, k4⟩ := counters_of_outerFrame (p1.trans e1)
    split
    · next R2 hp =>
      rw [hp] at q1 q2 q3
      simp only [] at q1 q2 q3
      obtain ⟨q4, q5⟩ := q2 trivial
      obtain ⟨f1, f2, f3⟩ := facts_of_payloadFrame q1
      have hcf : counterFrame R2 = counterFrame Ring :=
        (counterFrame_of_payloadFrame q1).trans (counterFrame_of_outerFrame (p1.trans e1))
      refine ⟨hcf, fun _ => ⟨?_, ?_, ?_, ?_, ?_⟩, fun h => absurd rfl h⟩
      · exact congrArg ULONG_inc (f1.trans k1)
      · exact f2.trans k2
      · rcases q5 with ⟨a, b⟩ | ⟨a, b⟩
        · exact Or.inl ⟨a.trans (congrArg ULONG_inc k3), b.trans k4⟩
        · exact Or.inr ⟨a.trans k3, b.trans (congrArg ULONG_inc k4)⟩
      · exact f3.trans (p2.trans e2)
      · exact q4 (by omega)
    · next st R2 hne hp =>
      rw [hp] at q1 q2 q3
      simp only [] at q1 q2 q3
      have hs : st ≠ STATUS_SUCCESS := hne
      obtain ⟨q4, q5⟩ := q3 hs
      obtain ⟨f1, f2, f3⟩ := facts_of_payloadFrame q1
      obtain ⟨u0, u1, u2, u3, u4, u5, u6, u7⟩ := UnprepareFragments_spec R2
      obtain ⟨z1, z2, z3⟩ := PreparePacketFail1_spec (__TransmitterRingUnprepareFragments R2).2
        Packet
      obtain ⟨y1, y2, y3, y4⟩ := counters_of_outerFrame z1
      have hR2 : R2.State.Packet.isSome = true := by
        rw [f3, p2, e2]; rfl
      rw [if_pos hR2] at u7
      refine ⟨?_, fun h => absurd h hs, fun _ => ⟨?_, ?_, ?_, z2, Or.inr ⟨by rw [hh], ?_, ?_⟩⟩⟩
      · exact (counterFrame_of_outerFrame z1).trans
          (u0.trans ((counterFrame_of_payloadFrame q1).trans
            (counterFrame_of_outerFrame (p1.trans e1))))
      · exact y1.trans (u4.trans (f1.trans k1))
      · exact y3.trans (u5.trans (q4.trans k3))
      · exact y4.trans (u6.trans (q5.trans k4))
      · exact y2.trans (u7.trans (congrArg ULONG_inc (f2.trans k2)))
      · exact z3.trans u3
  · next st R1 hne hh =>
    rw [hh] at p1 p2 p3 p4
    simp only [] at p1 p2 p3 p4
    have hs : st ≠ STATUS_SUCCESS := hne
    obtain ⟨z1, z2, z3⟩ := PreparePacketFail1_spec R1 Packet
    obtain ⟨k1, k2, k3, k4⟩ := counters_of_outerFrame (z1.trans (p1.trans e1))
    refine ⟨counterFrame_of_outerFrame (z1.trans (p1.trans e1)), fun h => absurd h hs,
      fun _ => ⟨k1, k3, k4, z2, Or.inl ⟨by rw [hh]; exact hs, k2, ?_⟩⟩⟩
    exact z3.trans ((p4 hs).1.trans e3)

/-! ### Posting, pushing and faking: counters -/

theorem ledger_of_counterFrame {A B : XENVIF_TRANSMITTER_RING}
    (h : counterFrame A = counterFrame B)
    (h1 : A.PacketsPrepared = B.PacketsPrepared) (h2 : A.PacketsCopied = B.PacketsCopied)
    (h3 : A.PacketsGranted = B.PacketsGranted) (h4 : A.PacketsUnprepared = B.PacketsUnprepared) :
    ledger A = ledger B := by
  have a := congrArg XENVIF_TRANSMITTER_RING.PacketsFaked h
  have b := congrArg XENVIF_TRANSMITTER_RING.PacketsQueued h
  have c := congrArg XENVIF_TRANSMITTER_RING.PacketQueue h
  have d := congrArg XENVIF_TRANSMITTER_RING.RequestQueue h
  have a1 : A.PacketsFaked = B.PacketsFaked := a
  have b1 : A.PacketsQueued = B.PacketsQueued := b
  have c1 : A.PacketQueue = B.PacketQueue := c
  have d1 : A.RequestQueue = B.RequestQueue := d
  have e := congrArg XENVIF_TRANSMITTER_RING.Enabled h
  have e1 : A.Enabled = B.Enabled := e
  unfold ledger
  rw [h1, h2, h3, h4, a1, b1, c1, d1, e1]

theorem ledger_of_outerFrame {A B : XENVIF_TRANSMITTER_RING}
    (h : outerFrame A = outerFrame B) : ledger A = ledger B := by
  obtain ⟨k1, k2, k3, k4⟩ := counters_of_outerFrame h
  exact ledger_of_counterFrame (counterFrame_of_outerFrame h) k1 k3 k4 k2

theorem ledger_of_postFrame {A B : XENVIF_TRANSMITTER_RING}
    (h : postFrame A = postFrame B) : ledger A = ledger B := by
  have := congrArg ledger h
  exact this

theorem postFrame_PostFragment (L : PostFragmentsLocals) (Ring : XENVIF_TRANSMITTER_RING)
    (Fragment : XENVIF_TRANSMITTER_FRAGMENT) :
    postFrame (PostFragment L Ring Fragment).2 = postFrame Ring := by
  unfold PostFragment
  simp only []
  split_ifs <;> rfl

theorem postFrame_PostFragmentsLoop :
    ∀ (fuel : Nat) (L : PostFragmentsLocals) (Ring : XENVIF_TRANSMITTER_RING),
      postFrame (PostFragmentsLoop fuel L Ring).2 = postFrame Ring
  | 0, _, _ => rfl
  | fuel + 1, L, Ring => by
    rw [PostFragmentsLoop]
    split
    · rfl
    · split
      · rfl
      · next Fragment rest hl =>
        simp only []
        rw [postFrame_PostFragmentsLoop fuel, postFrame_PostFragment]
        rfl

theorem postFrame_clearMoreData (Ring : XENVIF_TRANSMITTER_RING) (idx : Nat) :
    postFrame (clearMoreData Ring idx) = postFrame Ring := by
  unfold clearMoreData
  split <;> rfl

theorem postFrame_PostFragmentsFinish (Ring : XENVIF_TRANSMITTER_RING)
    (L : PostFragmentsLocals) :
    postFrame (PostFragmentsFinish Ring L) = postFrame Ring := by
  unfold PostFragmentsFinish
  cases L.req with
  | none => rfl
  | some idx =>
    have := postFrame_clearMoreData Ring idx
    simp only []
    rw [← this]; rfl

theorem PostFragmentsPacket_spec (Ring : XENVIF_TRANSMITTER_RING) (Packet : Nat)
    (PacketLength PayloadLength : Nat) :
    ledger (PostFragmentsPacket Ring Packet PacketLength PayloadLength) = ledger Ring ∧
    (PostFragmentsPacket Ring Packet PacketLength PayloadLength).State.Packet = none ∧
    (PostFragmentsPacket Ring Packet PacketLength PayloadLength).PacketsSent =
      ULONG_inc Ring.PacketsSent ∧
    (PostFragmentsPacket Ring Packet PacketLength PayloadLength).Pending = Ring.Pending :=
  ⟨rfl, rfl, rfl, rfl⟩

/-- `__TransmitterRingPostFragments` and the packet counters: only
`PacketsSent` is written, and it grows by one exactly when the post succeeds
with a packet in `State`; after a successful post `State` holds no packet. -/
theorem PostFragments_counters (Ring : XENVIF_TRANSMITTER_RING) :
    ledger (__TransmitterRingPostFragments Ring).2 = ledger Ring ∧
    ((__TransmitterRingPostFragments Ring).1 = STATUS_SUCCESS →
      (__TransmitterRingPostFragments Ring).2.State.Packet = none ∧
      (__TransmitterRingPostFragments Ring).2.PacketsSent =
        (if Ring.State.Packet.isSome then ULONG_inc Ring.PacketsSent
         else Ring.PacketsSent)) ∧
    ((__TransmitterRingPostFragments Ring).1 ≠ STATUS_SUCCESS →
      (__TransmitterRingPostFragments Ring).2 = Ring) := by
  rcases PostFragments_cases Ring with ⟨hgt, heq⟩ | ⟨hle, hok⟩
  · rw [heq]
    exact ⟨rfl, fun h => by simp at h, fun _ => rfl⟩
  · have h1 := postFrame_PostFragmentsLoop Ring.State.Count
      { req_prod := Ring.Front.req_prod_pvt, FirstRequest := true, PacketLength := 0,
        req := none } Ring
    have hres : (__TransmitterRingPostFragments Ring).2 =
        (match Ring.State.Packet with
         | none => PostFragmentsFinish (PostFragmentsLoop Ring.State.Count
            { req_prod := Ring.Front.req_prod_pvt, FirstRequest := true, PacketLength := 0,
              req := none } Ring).2 (PostFragmentsLoop Ring.State.Count
            { req_prod := Ring.Front.req_prod_pvt, FirstRequest := true, PacketLength := 0,
              req := none } Ring).1
         | some Packet => PostFragmentsPacket (PostFragmentsFinish (PostFragmentsLoop Ring.State.Count
            { req_prod := Ring.Front.req_prod_pvt, FirstRequest := true, PacketLength := 0,
              req := none } Ring).2 (PostFragmentsLoop Ring.State.Count
            { req_prod := Ring.Front.req_prod_pvt, FirstRequest := true, PacketLength := 0,
              req := none } Ring).1) Packet (PostFragmentsLoop Ring.State.Count
            { req_prod := Ring.Front.req_prod_pvt, FirstRequest := true, PacketLength := 0,
              req := none } Ring).1.PacketLength Ring.State.Payload.Length) := by
      simp only [__TransmitterRingPostFragments, if_neg hle]
      cases Ring.State.Packet <;> rfl
    rw [hres]
    generalize PostFragmentsLoop Ring.State.Count
      { req_prod := Ring.Front.req_prod_pvt, FirstRequest := true, PacketLength := 0,
        req := none } Ring = r at *
    have h2 := (postFrame_PostFragmentsFinish r.2 r.1).trans h1
    have hl := ledger_of_postFrame h2
    have hP : (PostFragmentsFinish r.2 r.1).State.Packet = Ring.State.Packet := by
      have := congrArg (fun R => R.State.Packet) h2
      exact this
    have hS : (PostFragmentsFinish r.2 r.1).PacketsSent = Ring.PacketsSent := by
      have := congrArg XENVIF_TRANSMITTER_RING.PacketsSent h2
      exact this
    refine ⟨?_, fun _ => ?_, fun h => absurd hok h⟩
    · cases hp : Ring.State.Packet with
      | none => exact hl
      | some Packet => exact (PostFragmentsPacket_spec _ _ _ _).1.trans hl
    · cases hp : Ring.State.Packet with
      | none => exact ⟨hP.trans hp, by simpa using hS⟩
      | some Packet =>
        obtain ⟨_, a, b, _⟩ := PostFragmentsPacket_spec (PostFragmentsFinish r.2 r.1) Packet
          r.1.PacketLength Ring.State.Payload.Length
        exact ⟨a, by simpa using b.trans (congrArg ULONG_inc hS)⟩

theorem PushRequests_spec (Ring : XENVIF_TRANSMITTER_RING) :
    ledger (__TransmitterRingPushRequests Ring) = ledger Ring ∧
    (__TransmitterRingPushRequests Ring).PacketsSent = Ring.PacketsSent ∧
    (__TransmitterRingPushRequests Ring).State = Ring.State ∧
    (__TransmitterRingPushRequests Ring).Pending = Ring.Pending := by
  unfold __TransmitterRingPushRequests __TransmitterRingSend
  simp only []
  split_ifs <;> exact ⟨rfl, rfl, rfl, rfl⟩

theorem PrepareControlFrame_spec (Ring : XENVIF_TRANSMITTER_RING) (ByteCount : Nat) :
    outerFrame (PrepareControlFrame Ring ByteCount).2 = outerFrame Ring ∧
    (PrepareControlFrame Ring ByteCount).2.State.Packet = Ring.State.Packet := by
  unfold PrepareControlFrame
  split
  · next RingA hA =>
    have fA := outer_of_eq hA (outerFrame_GetBuffer Ring)
    have sA := state_of_eq hA (State_GetBuffer Ring)
    exact ⟨fA, congrArg XENVIF_TRANSMITTER_STATE.Packet sA⟩
  · next Buffer RingA hA =>
    have fA := outer_of_eq hA (outerFrame_GetBuffer Ring)
    have sA := state_of_eq hA (State_GetBuffer Ring)
    simp only []
    split
    · next RingB hB =>
      have fB := outer_of_eq hB (outerFrame_GetFragment _)
      have sB := state_of_eq hB (State_GetFragment _)
      simp [fB, sB, fA, sA]
    · next Fragment RingB hB =>
      have fB := outer_of_eq hB (outerFrame_GetFragment _)
      have sB := state_of_eq hB (State_GetFragment _)
      split
      · next RingC hC =>
        have fC := outer_of_eq hC (outerFrame_Permit _ _)
        have sC := state_of_eq hC (State_Permit _ _)
        simp [fC, sC, fB, sB, fA, sA]
      · next Entry RingC hC =>
        have fC := outer_of_eq hC (outerFrame_Permit _ _)
        have sC := state_of_eq hC (State_Permit _ _)
        simp [fC, sC, fB, sB, fA, sA]

theorem PrepareMulticastControl_spec (Ring : XENVIF_TRANSMITTER_RING) (Address : List Nat)
    (Add : Bool) :
    outerFrame (__TransmitterRingPrepareMulticastControl Ring Address Add).2 =
      outerFrame Ring ∧
    (__TransmitterRingPrepareMulticastControl Ring Address Add).2.State.Packet =
      Ring.State.Packet := by
  unfold __TransmitterRingPrepareMulticastControl
  by_cases ht : Ring.Oracle Ring.Tick = true
  · rw [if_pos ht]
    simp only []
    split
    · next RingB hB =>
      have fB := outer_of_eq hB (outerFrame_GetFragment _)
      have sB := state_of_eq hB (State_GetFragment _)
      exact ⟨fB, congrArg XENVIF_TRANSMITTER_STATE.Packet sB⟩
    · next Fragment RingB hB =>
      have fB := outer_of_eq hB (outerFrame_GetFragment _)
      have sB := state_of_eq hB (State_GetFragment _)
      have sP := congrArg XENVIF_TRANSMITTER_STATE.Packet sB
      refine ⟨?_, ?_⟩
      · refine Eq.trans ?_ (fB.trans rfl)
        rfl
      · refine Eq.trans ?_ (sP.trans rfl)
        rfl
  · rw [if_neg ht]
    exact ⟨rfl, rfl⟩

theorem prepareRequest_spec (Ring : XENVIF_TRANSMITTER_RING)
    (Request : XENVIF_TRANSMITTER_REQUEST) :
    outerFrame (prepareRequest Ring Request) = outerFrame Ring ∧
    (prepareRequest Ring Request).State.Packet = Ring.State.Packet := by
  cases Request with
  | INVALID => exact ⟨rfl, rfl⟩
  | ARP Address => exact PrepareControlFrame_spec Ring _
  | NEIGHBOUR_ADVERTISEMENT Address => exact PrepareControlFrame_spec Ring _
  | MULTICAST_CONTROL Address Add => exact PrepareMulticastControl_spec Ring Address Add

theorem fakePacket_spec (Ring : XENVIF_TRANSMITTER_RING) (Packet : Nat) (FrontendError : Bool) :
    (fakePacket Ring Packet FrontendError).PacketsPrepared = ULONG_inc Ring.PacketsPrepared ∧
    (fakePacket Ring Packet FrontendError).PacketsSent = ULONG_inc Ring.PacketsSent ∧
    (fakePacket Ring Packet FrontendError).PacketsFaked = ULONG_inc Ring.PacketsFaked ∧
    (fakePacket Ring Packet FrontendError).PacketsCopied = Ring.PacketsCopied ∧
    (fakePacket Ring Packet FrontendError).PacketsGranted = Ring.PacketsGranted ∧
    (fakePacket Ring Packet FrontendError).PacketsUnprepared = Ring.PacketsUnprepared ∧
    (fakePacket Ring Packet FrontendError).PacketsQueued = Ring.PacketsQueued ∧
    (fakePacket Ring Packet FrontendError).PacketQueue = Ring.PacketQueue ∧
    (fakePacket Ring Packet FrontendError).RequestQueue = Ring.RequestQueue ∧
    (fakePacket Ring Packet FrontendError).State = Ring.State ∧
    (fakePacket Ring Packet FrontendError).Pending = Ring.Pending := by
  cases FrontendError <;> exact ⟨rfl, rfl, rfl, rfl, rfl, rfl, rfl, rfl, rfl, rfl, rfl⟩

/-! ### One pass of the scheduler for a packet -/

/-- What the counter frame keeps. -/
theorem facts_of_counterFrame {A B : XENVIF_TRANSMITTER_RING}
    (h : counterFrame A = counterFrame B) :
    A.PacketQueue = B.PacketQueue ∧ A.RequestQueue = B.RequestQueue ∧
    A.PacketsQueued = B.PacketsQueued ∧ A.Pending = B.Pending ∧
    A.PacketsFaked = B.PacketsFaked ∧ A.PacketsSent = B.PacketsSent := by
  have a := congrArg XENVIF_TRANSMITTER_RING.PacketQueue h
  have b := congrArg XENVIF_TRANSMITTER_RING.RequestQueue h
  have c := congrArg XENVIF_TRANSMITTER_RING.PacketsQueued h
  have d := congrArg XENVIF_TRANSMITTER_RING.Pending h
  have e := congrArg XENVIF_TRANSMITTER_RING.PacketsFaked h
  have f := congrArg XENVIF_TRANSMITTER_RING.PacketsSent h
  exact ⟨a, b, c, d, e, f⟩

/-- What a pass of the scheduler loop does with the packet it took off the
queue: the queues, `PacketsQueued` and `Pending` are not written, and the
counters move in one of three ways, according to whether the preparation
succeeded, failed in the header step, or failed in the payload step. -/
theorem schedulePacket_spec (Ring : XENVIF_TRANSMITTER_RING) (Packet : Nat) :
    (schedulePacket Ring Packet).PacketQueue = Ring.PacketQueue ∧
    (schedulePacket Ring Packet).RequestQueue = Ring.RequestQueue ∧
    (schedulePacket Ring Packet).PacketsQueued = Ring.PacketsQueued ∧
    (schedulePacket Ring Packet).Pending = Ring.Pending ∧
    (((__TransmitterRingPreparePacket
          (Ring.updatePacket Packet (fun P => { P with Value := 0 })) Packet).1 =
        STATUS_SUCCESS ∧
      (schedulePacket Ring Packet).PacketsPrepared = ULONG_inc Ring.PacketsPrepared ∧
      (schedulePacket Ring Packet).PacketsUnprepared = Ring.PacketsUnprepared ∧
      (((schedulePacket Ring Packet).PacketsCopied = ULONG_inc Ring.PacketsCopied ∧
        (schedulePacket Ring Packet).PacketsGranted = Ring.PacketsGranted) ∨
       ((schedulePacket Ring Packet).PacketsCopied = Ring.PacketsCopied ∧
        (schedulePacket Ring Packet).PacketsGranted = ULONG_inc Ring.PacketsGranted)) ∧
      (schedulePacket Ring Packet).PacketsFaked = Ring.PacketsFaked ∧
      (schedulePacket Ring Packet).PacketsSent = Ring.PacketsSent ∧
      (schedulePacket Ring Packet).State.Packet = some Packet ∧
      1 ≤ (schedulePacket Ring Packet).State.Count) ∨
     ((__TransmitterRingPreparePacket
          (Ring.updatePacket Packet (fun P => { P with Value := 0 })) Packet).1 ≠
        STATUS_SUCCESS ∧
      (schedulePacket Ring Packet).PacketsPrepared = ULONG_inc Ring.PacketsPrepared ∧
      (schedulePacket Ring Packet).PacketsCopied = Ring.PacketsCopied ∧
      (schedulePacket Ring Packet).PacketsGranted = Ring.PacketsGranted ∧
      (schedulePacket Ring Packet).PacketsFaked = ULONG_inc Ring.PacketsFaked ∧
      (schedulePacket Ring Packet).PacketsSent = ULONG_inc Ring.PacketsSent ∧
      (schedulePacket Ring Packet).State.Packet = none ∧
      (((__TransmitterRingPrepareHeader (PreparePacketEnter
            (Ring.updatePacket Packet (fun P => { P with Value := 0 })) Packet)).1 ≠
          STATUS_SUCCESS ∧
        (schedulePacket Ring Packet).PacketsUnprepared = Ring.PacketsUnprepared ∧
        (schedulePacket Ring Packet).State.Count = Ring.State.Count) ∨
       ((__TransmitterRingPrepareHeader (PreparePacketEnter
            (Ring.updatePacket Packet (fun P => { P with Value := 0 })) Packet)).1 =
          STATUS_SUCCESS ∧
        (schedulePacket Ring Packet).PacketsUnprepared = ULONG_inc Ring.PacketsUnprepared ∧
        (schedulePacket Ring Packet).State.Count = 0)))) := by
  obtain ⟨s1, s2, s3⟩ := PreparePacket_spec
    (Ring.updatePacket Packet (fun P => { P with Value := 0 })) Packet
  have e0 : counterFrame (Ring.updatePacket Packet (fun P => { P with Value := 0 })) =
      counterFrame Ring := rfl
  have e1 : (Ring.updatePacket Packet (fun P => { P with Value := 0 })).PacketsPrepared =
      Ring.PacketsPrepared := rfl
  have e2 : (Ring.updatePacket Packet (fun P => { P with Value := 0 })).PacketsCopied =
      Ring.PacketsCopied := rfl
  have e3 : (Ring.updatePacket Packet (fun P => { P with Value := 0 })).PacketsGranted =
      Ring.PacketsGranted := rfl
  have e4 : (Ring.updatePacket Packet (fun P => { P with Value := 0 })).PacketsUnprepared =
      Ring.PacketsUnprepared := rfl
  have e5 : (Ring.updatePacket Packet (fun P => { P with Value := 0 })).State.Count =
      Ring.State.Count := rfl
  unfold schedulePacket
  simp only []
  generalize Ring.updatePacket Packet (fun P => { P with Value := 0 }) = R0 at *
  generalize __TransmitterRingPrepareHeader (PreparePacketEnter R0 Packet) = hdr at *
  obtain ⟨f1, f2, f3, f4, f5, f6⟩ := facts_of_counterFrame (s1.trans e0)
  split
  · next R1 hp =>
    rw [hp] at s1 s2 s3 f1 f2 f3 f4 f5 f6
    simp only [] at s1 s2 s3 f1 f2 f3 f4 f5 f6
    obtain ⟨a1, a2, a3, a4, a5⟩ := s2 trivial
    refine ⟨f1, f2, f3, f4, Or.inl ⟨by rw [hp], a1.trans (congrArg ULONG_inc e1), a2.trans e4, ?_, f5, f6,
      a4, a5⟩⟩
    rcases a3 with ⟨x, y⟩ | ⟨x, y⟩
    · exact Or.inl ⟨x.trans (congrArg ULONG_inc e2), y.trans e3⟩
    · exact Or.inr ⟨x.trans e2, y.trans (congrArg ULONG_inc e3)⟩
  · next st R1 hne hp =>
    rw [hp] at s1 s2 s3 f1 f2 f3 f4 f5 f6
    simp only [] at s1 s2 s3 f1 f2 f3 f4 f5 f6
    have hs : st ≠ STATUS_SUCCESS := hne
    obtain ⟨a1, a2, a3, a4, a5⟩ := s3 hs
    obtain ⟨k1, k2, k3, k4, k5, k6, k7, k8, k9, k10, k11⟩ := fakePacket_spec R1 Packet true
    refine ⟨k8.trans f1, k9.trans f2, k7.trans f3, k11.trans f4, Or.inr ⟨by rw [hp]; exact hs,
      k1.trans (congrArg ULONG_inc (a1.trans e1)), k4.trans (a2.trans e2),
      k5.trans (a3.trans e3), k3.trans (congrArg ULONG_inc f5),
      k2.trans (congrArg ULONG_inc f6), ?_, ?_⟩⟩
    · rw [k10]; exact a4
    · rw [k10, k6]
      rcases a5 with ⟨x, y, z⟩ | ⟨x, y, z⟩
      · exact Or.inl ⟨x, y.trans e4, z.trans e5⟩
      · exact Or.inr ⟨x, y.trans (congrArg ULONG_inc e4), z⟩

/-! ### The scheduler loop -/

/-- A property of the ring that every step of a pass of the scheduler loop
keeps is kept by the loop. -/
theorem ScheduleLoop_invariant (I : XENVIF_TRANSMITTER_RING → Prop)
    (hpost : ∀ R, I R → I (__TransmitterRingPostFragments R).2)
    (hstop : ∀ R, I R → I { R with Stopped := true })
    (hpush : ∀ R, I R → I (__TransmitterRingPushRequests R))
    (hreq : ∀ R Request rest, I R → I (prepareRequest { R with RequestQueue := rest } Request))
    (hpkt : ∀ R Packet rest, I R → I (schedulePacket { R with PacketQueue := rest } Packet)) :
    ∀ (fuel : Nat) (Ring Ring' : XENVIF_TRANSMITTER_RING), I Ring →
      TransmitterRingScheduleLoop fuel Ring = some Ring' → I Ring'
  | 0, Ring, Ring' => by
    intro _ h; simp [TransmitterRingScheduleLoop] at h
  | fuel + 1, Ring, Ring' => by
    intro hI
    rw [TransmitterRingScheduleLoop]
    have hposted : I (schedulePost Ring).2 := by
      unfold schedulePost
      split_ifs
      · exact hpost Ring hI
      · exact hI
    generalize schedulePost Ring = posted at *
    have hpushed : I (schedulePush posted.2) := by
      unfold schedulePush
      split_ifs
      · exact hpush _ hposted
      · exact hposted
    simp only []
    generalize schedulePush posted.2 = R1 at *
    split_ifs with hs
    · intro h
      injection h with h
      rw [← h]; exact hstop _ hposted
    · split
      · next Request rest hq =>
        exact ScheduleLoop_invariant I hpost hstop hpush hreq hpkt fuel _ _
          (hreq R1 Request rest hpushed)
      · split
        · next Packet rest hq =>
          exact ScheduleLoop_invariant I hpost hstop hpush hreq hpkt fuel _ _
            (hpkt R1 Packet rest hpushed)
        · intro h
          injection h with h
          rw [← h]; exact hpushed

/-- The scheduler loop ends: a pass that does not end it takes an entry
off one of the two queues, and no step puts one on. -/
theorem ScheduleLoop_total :
    ∀ (fuel : Nat) (Ring : XENVIF_TRANSMITTER_RING),
      Ring.RequestQueue.length + Ring.PacketQueue.length < fuel →
      ∃ Ring', TransmitterRingScheduleLoop fuel Ring = some Ring'
  | 0, Ring => by intro h; omega
  | fuel + 1, Ring => by
    intro hlen
    rw [TransmitterRingScheduleLoop]
    have hposted : ledger (schedulePost Ring).2 = ledger Ring := by
      unfold schedulePost
      split_ifs
      · exact (PostFragments_counters Ring).1
      · rfl
    generalize schedulePost Ring = posted at *
    have hpushed : ledger (schedulePush posted.2) = ledger Ring := by
      unfold schedulePush
      split_ifs
      · exact (PushRequests_spec _).1.trans hposted
      · exact hposted
    simp only []
    generalize schedulePush posted.2 = R1 at *
    have hq1 : R1.PacketQueue = Ring.PacketQueue := congrArg (fun l => l.2.1) hpushed
    have hq2 : R1.RequestQueue = Ring.RequestQueue := congrArg (fun l => l.2.2.1) hpushed
    split_ifs with hs
    · exact ⟨_, rfl⟩
    · split
      · next Request rest hq =>
        apply ScheduleLoop_total fuel
        have hl := ledger_of_outerFrame
          (prepareRequest_spec { R1 with RequestQueue := rest } Request).1
        have a : (prepareRequest { R1 with RequestQueue := rest } Request).PacketQueue =
            R1.PacketQueue := congrArg (fun l => l.2.1) hl
        have b : (prepareRequest { R1 with RequestQueue := rest } Request).RequestQueue =
            rest := congrArg (fun l => l.2.2.1) hl
        rw [a, b, hq1]
        rw [← hq2, hq] at hlen
        simp at hlen
        omega
      · next hq0 =>
        split
        · next Packet rest hq =>
          apply ScheduleLoop_total fuel
          obtain ⟨a, b, _⟩ := schedulePacket_spec { R1 with PacketQueue := rest } Packet
          rw [a, b]
          rw [← hq1, hq] at hlen
          simp at hlen
          show R1.RequestQueue.length + rest.length < fuel
          rw [hq0]; simp; omega
        · exact ⟨_, rfl⟩

/-! ### Polling, faking and the lock: counters -/

theorem PollRelease_counters (Ring : XENVIF_TRANSMITTER_RING) (id : Nat)
    (Fragment : XENVIF_TRANSMITTER_FRAGMENT) :
    ledger (PollRelease Ring id Fragment) = ledger Ring ∧
    (PollRelease Ring id Fragment).PacketsSent = Ring.PacketsSent ∧
    (PollRelease Ring id Fragment).State = Ring.State := by
  have o : outerFrame (PollRelease Ring id Fragment) =
      outerFrame { Ring with Pending := setAt Ring.Pending id none } := by
    unfold PollRelease; simp
  have s := congrArg XENVIF_TRANSMITTER_RING.PacketsSent o
  have l := ledger_of_outerFrame o
  refine ⟨l, s, ?_⟩
  unfold PollRelease; simp

theorem PollPacket_counters (Ring : XENVIF_TRANSMITTER_RING) (Packet : Nat) (status : Int)
    (rsp_cons : Nat) :
    ledger (PollPacket Ring Packet status rsp_cons) = ledger Ring ∧
    (PollPacket Ring Packet status rsp_cons).PacketsSent = Ring.PacketsSent ∧
    (PollPacket Ring Packet status rsp_cons).State = Ring.State ∧
    (PollPacket Ring Packet status rsp_cons).Pending = Ring.Pending := by
  unfold PollPacket
  simp only []
  split_ifs <;> exact ⟨rfl, rfl, rfl, rfl⟩

theorem PollResponse_counters (Ring Ring' : XENVIF_TRANSMITTER_RING) (rsp_cons : Nat)
    (h : PollResponse Ring rsp_cons = some Ring') :
    ledger Ring' = ledger Ring ∧ Ring'.PacketsSent = Ring.PacketsSent ∧
    Ring'.State = Ring.State := by
  revert h
  unfold PollResponse
  simp only []
  split_ifs
  · intro h; injection h with h; subst h; exact ⟨rfl, rfl, rfl⟩
  · intro h; exact absurd h (by simp)
  · split
    · intro h; exact absurd h (by simp)
    · next Fragment hF =>
      obtain ⟨a, b, c⟩ := PollRelease_counters (PollCount Ring)
        (Ring.Shared.Rsp (rsp_cons % XENVIF_TRANSMITTER_RING_SIZE)).id Fragment
      split
      · intro h; injection h with h; subst h
        exact ⟨a, b, c⟩
      · next Packet hP =>
        intro h; injection h with h; subst h
        obtain ⟨a1, b1, c1, _⟩ := PollPacket_counters (PollRelease (PollCount Ring)
          (Ring.Shared.Rsp (rsp_cons % XENVIF_TRANSMITTER_RING_SIZE)).id Fragment) Packet
          (Ring.Shared.Rsp (rsp_cons % XENVIF_TRANSMITTER_RING_SIZE)).status rsp_cons
        exact ⟨a1.trans a, b1.trans b, c1.trans c⟩

theorem PollLoop_counters :
    ∀ (n rsp_cons : Nat) (Ring Ring' : XENVIF_TRANSMITTER_RING),
      PollLoop n rsp_cons Ring = some Ring' →
      ledger Ring' = ledger Ring ∧ Ring'.PacketsSent = Ring.PacketsSent ∧
      Ring'.State = Ring.State
  | 0, _, Ring, Ring' => by
    intro h; simp only [PollLoop] at h; injection h with h; subst h; exact ⟨rfl, rfl, rfl⟩
  | n + 1, rsp_cons, Ring, Ring' => by
    rw [PollLoop]
    split
    · intro h; exact absurd h (by simp)
    · next R1 h1 =>
      intro h
      obtain ⟨a, b, c⟩ := PollResponse_counters Ring R1 rsp_cons h1
      obtain ⟨a1, b1, c1⟩ := PollLoop_counters n _ R1 Ring' h
      exact ⟨a1.trans a, b1.trans b, c1.trans c⟩

theorem Poll_counters (Ring Ring' : XENVIF_TRANSMITTER_RING)
    (h : TransmitterRingPoll Ring = some Ring') :
    ledger Ring' = ledger Ring ∧ Ring'.PacketsSent = Ring.PacketsSent ∧
    Ring'.State = Ring.State := by
  revert h
  unfold TransmitterRingPoll
  simp only []
  split_ifs
  · intro h; injection h with h; subst h; exact ⟨rfl, rfl, rfl⟩
  · split
    · intro h; exact absurd h (by simp)
    · next R1 h1 =>
      intro h; injection h with h; subst h
      obtain ⟨a, b, c⟩ := PollLoop_counters _ _ _ _ h1
      exact ⟨a, b, c⟩

theorem Swizzle_counters (Ring : XENVIF_TRANSMITTER_RING) :
    (TransmitterRingSwizzle Ring).PacketsPrepared = Ring.PacketsPrepared ∧
    (TransmitterRingSwizzle Ring).PacketsCopied = Ring.PacketsCopied ∧
    (TransmitterRingSwizzle Ring).PacketsGranted = Ring.PacketsGranted ∧
    (TransmitterRingSwizzle Ring).PacketsFaked = Ring.PacketsFaked ∧
    (TransmitterRingSwizzle Ring).PacketsUnprepared = Ring.PacketsUnprepared ∧
    (TransmitterRingSwizzle Ring).PacketsSent = Ring.PacketsSent ∧
    (TransmitterRingSwizzle Ring).State = Ring.State ∧
    (TransmitterRingSwizzle Ring).Pending = Ring.Pending := by
  unfold TransmitterRingSwizzle
  simp only []
  split
  · exact ⟨rfl, rfl, rfl, rfl, rfl, rfl, rfl, rfl⟩
  · split_ifs <;> exact ⟨rfl, rfl, rfl, rfl, rfl, rfl, rfl, rfl⟩

/-! ### `PacketsPrepared == PacketsCopied + PacketsGranted + PacketsFaked` -/

theorem PreparedInvariant_of_ledger {A B : XENVIF_TRANSMITTER_RING}
    (h : ledger A = ledger B) (hB : PreparedInvariant B) : PreparedInvariant A := by
  have a : A.PacketsPrepared = B.PacketsPrepared := congrArg (fun l => l.1.1) h
  have b : A.PacketsCopied = B.PacketsCopied := congrArg (fun l => l.1.2.1) h
  have c : A.PacketsGranted = B.PacketsGranted := congrArg (fun l => l.1.2.2.1) h
  have d : A.PacketsFaked = B.PacketsFaked := congrArg (fun l => l.1.2.2.2.1) h
  unfold PreparedInvariant at *
  rw [a, b, c, d]; exact hB

theorem PreparedInvariant_of_fields {A B : XENVIF_TRANSMITTER_RING}
    (a : A.PacketsPrepared = B.PacketsPrepared) (b : A.PacketsCopied = B.PacketsCopied)
    (c : A.PacketsGranted = B.PacketsGranted) (d : A.PacketsFaked = B.PacketsFaked)
    (hB : PreparedInvariant B) : PreparedInvariant A := by
  unfold PreparedInvariant at *
  rw [a, b, c, d]; exact hB

theorem PreparedInvariant_schedulePacket (Ring : XENVIF_TRANSMITTER_RING) (Packet : Nat)
    (h : PreparedInvariant Ring) : PreparedInvariant (schedulePacket Ring Packet) := by
  obtain ⟨_, _, _, _, hc⟩ := schedulePacket_spec Ring Packet
  unfold PreparedInvariant at *
  rcases hc with ⟨_, p, _, cg, f, _⟩ | ⟨_, p, c, g, f, _⟩
  · rcases cg with ⟨c, g⟩ | ⟨c, g⟩
    · rw [p, c, g, f]; unfold ULONG_inc; omega
    · rw [p, c, g, f]; unfold ULONG_inc; omega
  · rw [p, c, g, f]; unfold ULONG_inc; omega

theorem PreparedInvariant_fakePacket (Ring : XENVIF_TRANSMITTER_RING) (Packet : Nat)
    (FrontendError : Bool) (h : PreparedInvariant Ring) :
    PreparedInvariant (fakePacket Ring Packet FrontendError) := by
  obtain ⟨p, _, f, c, g, _⟩ := fakePacket_spec Ring Packet FrontendError
  unfold PreparedInvariant at *
  rw [p, c, g, f]; unfold ULONG_inc; omega

theorem PreparedInvariant_ScheduleLoop (fuel : Nat) (Ring Ring' : XENVIF_TRANSMITTER_RING)
    (h : PreparedInvariant Ring) (hl : TransmitterRingScheduleLoop fuel Ring = some Ring') :
    PreparedInvariant Ring' := by
  refine ScheduleLoop_invariant PreparedInvariant ?_ ?_ ?_ ?_ ?_ fuel Ring Ring' h hl
  · intro R hR; exact PreparedInvariant_of_ledger (PostFragments_counters R).1 hR
  · intro R hR; exact hR
  · intro R hR; exact PreparedInvariant_of_ledger (PushRequests_spec R).1 hR
  · intro R Request rest hR
    have hR1 : PreparedInvariant { R with RequestQueue := rest } := hR
    exact PreparedInvariant_of_ledger (ledger_of_outerFrame (prepareRequest_spec _ Request).1) hR1
  · intro R Packet rest hR
    have hR1 : PreparedInvariant { R with PacketQueue := rest } := hR
    exact PreparedInvariant_schedulePacket _ Packet hR1

theorem Schedule_total (Ring : XENVIF_TRANSMITTER_RING) :
    ∃ Ring', TransmitterRingSchedule Ring = some Ring' := by
  unfold TransmitterRingSchedule
  split_ifs
  · exact ⟨_, rfl⟩
  · obtain ⟨R1, h1⟩ := ScheduleLoop_total
      (Ring.RequestQueue.length + Ring.PacketQueue.length + 1) Ring (by omega)
    rw [h1]
    exact ⟨_, rfl⟩

theorem PreparedInvariant_Schedule (Ring Ring' : XENVIF_TRANSMITTER_RING)
    (h : PreparedInvariant Ring) (hs : TransmitterRingSchedule Ring = some Ring') :
    PreparedInvariant Ring' := by
  revert hs
  unfold TransmitterRingSchedule
  split_ifs
  · intro hs; injection hs with hs; subst hs; exact h
  · split
    · intro hs; exact absurd hs (by simp)
    · next R1 h1 =>
      intro hs; injection hs with hs; subst hs
      exact PreparedInvariant_of_ledger (PushRequests_spec R1).1
        (PreparedInvariant_ScheduleLoop _ _ _ h h1)

theorem PreparedInvariant_Swizzle (Ring : XENVIF_TRANSMITTER_RING)
    (h : PreparedInvariant Ring) : PreparedInvariant (TransmitterRingSwizzle Ring) := by
  obtain ⟨a, b, c, d, _⟩ := Swizzle_counters Ring
  exact PreparedInvariant_of_fields a b c d h

theorem ReleaseLock_total (Ring : XENVIF_TRANSMITTER_RING) :
    ∃ Ring', __TransmitterRingReleaseLock Ring = some Ring' := by
  unfold __TransmitterRingReleaseLock
  obtain ⟨R1, h1⟩ := Schedule_total (TransmitterRingSwizzle Ring)
  rw [h1]
  exact ⟨_, rfl⟩

theorem PreparedInvariant_ReleaseLock (Ring Ring' : XENVIF_TRANSMITTER_RING)
    (h : PreparedInvariant Ring) (hs : __TransmitterRingReleaseLock Ring = some Ring') :
    PreparedInvariant Ring' := by
  revert hs
  unfold __TransmitterRingReleaseLock
  split
  · intro hs; exact absurd hs (by simp)
  · next R1 h1 =>
    intro hs; injection hs with hs; subst hs
    exact PreparedInvariant_Schedule _ R1 (PreparedInvariant_Swizzle Ring h) h1

theorem PreparedInvariant_AbortPacketsLoop :
    ∀ (List : List Nat) (Ring : XENVIF_TRANSMITTER_RING), PreparedInvariant Ring →
      PreparedInvariant (AbortPacketsLoop List Ring)
  | [], Ring => fun h => h
  | Packet :: rest, Ring => fun h => by
    rw [AbortPacketsLoop]
    apply PreparedInvariant_AbortPacketsLoop rest
    apply PreparedInvariant_fakePacket
    exact h

/-- The first part of `__TransmitterRingDisable` in terms of the counters:
a packet held in `State` is counted as unprepared and put back at the head
of `PacketQueue`; afterwards `State` holds neither packet nor fragments. -/
theorem DisablePrologue_spec (Ring : XENVIF_TRANSMITTER_RING) :
    (DisablePrologue Ring).PacketsPrepared = Ring.PacketsPrepared ∧
    (DisablePrologue Ring).PacketsCopied = Ring.PacketsCopied ∧
    (DisablePrologue Ring).PacketsGranted = Ring.PacketsGranted ∧
    (DisablePrologue Ring).PacketsFaked = Ring.PacketsFaked ∧
    (DisablePrologue Ring).PacketsSent = Ring.PacketsSent ∧
    (DisablePrologue Ring).PacketsQueued = Ring.PacketsQueued ∧
    (DisablePrologue Ring).Pending = Ring.Pending ∧
    (DisablePrologue Ring).State.Packet = none ∧
    (DisablePrologue Ring).State.Count = 0 ∧
    (DisablePrologue Ring).PacketsUnprepared =
      (if Ring.State.Packet.isSome then ULONG_inc Ring.PacketsUnprepared
       else Ring.PacketsUnprepared) ∧
    (DisablePrologue Ring).PacketQueue =
      (match Ring.State.Packet with
       | some Packet => Packet :: Ring.PacketQueue
       | none => Ring.PacketQueue) := by
  obtain ⟨u0, u1, u2, u3, u4, u5, u6, u7⟩ :=
    UnprepareFragments_spec { Ring with Enabled := false }
  obtain ⟨f1, f2, f3, f4, f5, f6⟩ := facts_of_counterFrame u0
  unfold DisablePrologue
  simp only []
  generalize __TransmitterRingUnprepareFragments { Ring with Enabled := false } = r at *
  have u1 : r.1 = Ring.State.Packet := u1
  rw [u1]
  cases hp : Ring.State.Packet with
  | none => exact ⟨u4, u5, u6, f5, f6, f3, f4, u2, u3, by simpa [hp] using u7, f1⟩
  | some Packet =>
    refine ⟨u4, u5, u6, f5, f6, f3, f4, u2, u3, by simpa [hp] using u7, ?_⟩
    show Packet :: r.2.PacketQueue = Packet :: Ring.PacketQueue
    rw [f1]

theorem PreparedInvariant_DisablePrologue (Ring : XENVIF_TRANSMITTER_RING)
    (h : PreparedInvariant Ring) : PreparedInvariant (DisablePrologue Ring) := by
  obtain ⟨a, b, c, d, _⟩ := DisablePrologue_spec Ring
  exact PreparedInvariant_of_fields a b c d h

theorem DisableLoop_counters (State : Nat) :
    ∀ (fuel : Nat) (Ring Ring' : XENVIF_TRANSMITTER_RING),
      DisableLoop State fuel Ring = some Ring' →
      ledger Ring' = ledger Ring ∧ Ring'.PacketsSent = Ring.PacketsSent ∧
      Ring'.State = Ring.State
  | 0, Ring, Ring' => by
    rw [DisableLoop]
    split_ifs
    · intro h; injection h with h; subst h; exact ⟨rfl, rfl, rfl⟩
    · intro h; exact absurd h (by simp)
  | fuel + 1, Ring, Ring' => by
    rw [DisableLoop]
    split_ifs
    · intro h; injection h with h; subst h; exact ⟨rfl, rfl, rfl⟩
    · split
      · intro h; exact absurd h (by simp)
      · next R1 h1 =>
        intro h
        obtain ⟨a, b, c⟩ := Poll_counters _ _ h1
        have hs : ledger (__TransmitterRingSend Ring) = ledger Ring ∧
            (__TransmitterRingSend Ring).PacketsSent = Ring.PacketsSent ∧
            (__TransmitterRingSend Ring).State = Ring.State := by
          unfold __TransmitterRingSend
          split_ifs <;> exact ⟨rfl, rfl, rfl⟩
        obtain ⟨a1, b1, c1⟩ := DisableLoop_counters State fuel _ Ring' h
        have hf : ledger (DisableFake State R1) = ledger R1 ∧
            (DisableFake State R1).PacketsSent = R1.PacketsSent ∧
            (DisableFake State R1).State = R1.State := by
          unfold DisableFake
          split_ifs <;> exact ⟨rfl, rfl, rfl⟩
        exact ⟨a1.trans (hf.1.trans (a.trans hs.1)), b1.trans (hf.2.1.trans (b.trans hs.2.1)),
          c1.trans (hf.2.2.trans (c.trans hs.2.2))⟩

/-! ### The accounting of prepared packets (C9) -/

/-- C9: `PacketsPrepared == PacketsCopied + PacketsGranted + PacketsFaked`
(in `ULONG` arithmetic) holds at every point where the lock is released if it
held when the lock was taken.  `__TransmitterRingReleaseLock`,
`__TransmitterRingAbortPackets` and `__TransmitterRingQueuePackets` return
and keep the equation; `__TransmitterRingDisable` keeps it whenever its wait
loop ends.  A successful `__TransmitterRingPreparePacket` increments
`PacketsPrepared` and exactly one of `PacketsCopied` and `PacketsGranted`
and leaves `PacketsFaked` alone; a scheduler pass whose preparation fails, and
the faking of an aborted packet, increment `PacketsPrepared` and
`PacketsFaked` together and leave the other two alone. -/
theorem PacketsPrepared_accounting (Ring : XENVIF_TRANSMITTER_RING)
    (h : PreparedInvariant Ring) :
    (∃ Ring', __TransmitterRingReleaseLock Ring = some Ring' ∧ PreparedInvariant Ring') ∧
    (∃ Ring', __TransmitterRingAbortPackets Ring = some Ring' ∧ PreparedInvariant Ring') ∧
    (∀ List, ∃ Ring', __TransmitterRingQueuePackets Ring List = some Ring' ∧
      PreparedInvariant Ring') ∧
    (∀ State fuel Ring', __TransmitterRingDisable State fuel Ring = some Ring' →
      PreparedInvariant Ring') ∧
    (∀ Packet, (__TransmitterRingPreparePacket Ring Packet).1 = STATUS_SUCCESS →
      (__TransmitterRingPreparePacket Ring Packet).2.PacketsPrepared =
        ULONG_inc Ring.PacketsPrepared ∧
      (((__TransmitterRingPreparePacket Ring Packet).2.PacketsCopied =
          ULONG_inc Ring.PacketsCopied ∧
        (__TransmitterRingPreparePacket Ring Packet).2.PacketsGranted =
          Ring.PacketsGranted) ∨
       ((__TransmitterRingPreparePacket Ring Packet).2.PacketsCopied = Ring.PacketsCopied ∧
        (__TransmitterRingPreparePacket Ring Packet).2.PacketsGranted =
          ULONG_inc Ring.PacketsGranted)) ∧
      (__TransmitterRingPreparePacket Ring Packet).2.PacketsFaked = Ring.PacketsFaked) ∧
    (∀ Packet, (__TransmitterRingPreparePacket
          (Ring.updatePacket Packet (fun P => { P with Value := 0 })) Packet).1 ≠
        STATUS_SUCCESS →
      (schedulePacket Ring Packet).PacketsPrepared = ULONG_inc Ring.PacketsPrepared ∧
      (schedulePacket Ring Packet).PacketsFaked = ULONG_inc Ring.PacketsFaked ∧
      (schedulePacket Ring Packet).PacketsCopied = Ring.PacketsCopied ∧
      (schedulePacket Ring Packet).PacketsGranted = Ring.PacketsGranted) ∧
    (∀ Packet, (fakePacket Ring Packet false).PacketsPrepared = ULONG_inc Ring.PacketsPrepared ∧
      (fakePacket Ring Packet false).PacketsFaked = ULONG_inc Ring.PacketsFaked ∧
      (fakePacket Ring Packet false).PacketsCopied = Ring.PacketsCopied ∧
      (fakePacket Ring Packet false).PacketsGranted = Ring.PacketsGranted) := by
  have hrel : ∀ R, PreparedInvariant R →
      ∃ Ring', __TransmitterRingReleaseLock R = some Ring' ∧ PreparedInvariant Ring' := by
    intro R hR
    obtain ⟨R1, h1⟩ := ReleaseLock_total R
    exact ⟨R1, h1, PreparedInvariant_ReleaseLock R R1 hR h1⟩
  refine ⟨hrel Ring h, ?_, ?_, ?_, ?_, ?_, ?_⟩
  · apply hrel
    unfold AbortPacketsBody
    apply PreparedInvariant_AbortPacketsLoop
    apply PreparedInvariant_Swizzle
    exact h
  · intro List
    unfold __TransmitterRingQueuePackets
    simp only []
    split_ifs
    · exact ⟨_, rfl, h⟩
    · apply hrel
      exact h
  · intro State fuel Ring'
    unfold __TransmitterRingDisable
    split
    · intro hd; exact absurd hd (by simp)
    · next R1 h1 =>
      intro hd
      apply PreparedInvariant_ReleaseLock R1 Ring' _ hd
      apply PreparedInvariant_of_ledger (DisableLoop_counters _ _ _ _ h1).1
      apply PreparedInvariant_DisablePrologue
      exact h
  · intro Packet hs
    obtain ⟨s1, s2, _⟩ := PreparePacket_spec Ring Packet
    obtain ⟨a1, _, a3, _, _⟩ := s2 hs
    exact ⟨a1, a3, (facts_of_counterFrame s1).2.2.2.2.1⟩
  · intro Packet hs
    obtain ⟨_, _, _, _, hc⟩ := schedulePacket_spec Ring Packet
    rcases hc with ⟨ok, _⟩ | ⟨_, p, c, g, f, _⟩
    · exact absurd ok hs
    · exact ⟨p, f, c, g⟩
  · intro Packet
    obtain ⟨p, _, f, c, g, _⟩ := fakePacket_spec Ring Packet false
    exact ⟨p, f, c, g⟩

/-- The accounting theorem at a fresh ring on which one packet of 1000
bytes has been queued. -/
theorem PacketsPrepared_accounting_witness :
    PreparedInvariant
      { freshRing 1000 1514 0 (fun _ => true) with Lock := { LockBit := true, Stash := [0] } } ∧
    ∃ Ring', __TransmitterRingReleaseLock
        { freshRing 1000 1514 0 (fun _ => true) with
          Lock := { LockBit := true, Stash := [0] } } = some Ring' ∧
      PreparedInvariant Ring' :=
  ⟨by unfold PreparedInvariant; decide,
   (PacketsPrepared_accounting
      { freshRing 1000 1514 0 (fun _ => true) with Lock := { LockBit := true, Stash := [0] } }
      (by unfold PreparedInvariant; decide)).1⟩

/-! ### `PacketsSent` and the packet parked in `State` -/

theorem SentParkedOff_zero (Ring : XENVIF_TRANSMITTER_RING) :
    SentParkedOff 0 Ring ↔ SentParkedInvariant Ring := by
  unfold SentParkedOff SentParkedInvariant ULONG_sub
  constructor
  · rintro ⟨a, b⟩; exact ⟨by omega, b⟩
  · rintro ⟨a, b⟩; exact ⟨by omega, b⟩

/-- A property that refers to the counters of sent, prepared and unprepared
packets and to `State` only. -/
theorem SentParkedOff_of_fields {k : Nat} {A B : XENVIF_TRANSMITTER_RING}
    (a : A.PacketsSent = B.PacketsSent) (b : A.PacketsPrepared = B.PacketsPrepared)
    (c : A.PacketsUnprepared = B.PacketsUnprepared) (d : A.State.Packet = B.State.Packet)
    (e : A.State.Count = 0 → A.State.Packet = none)
    (hB : SentParkedOff k B) : SentParkedOff k A := by
  unfold SentParkedOff parked at *
  rw [a, b, c, d]
  exact ⟨hB.1, fun h => d ▸ e h⟩

theorem sent_arith_post (S P U k : Nat)
    (h : (S + 1) % 4294967296 = (ULONG_sub P U + k) % 4294967296) :
    (ULONG_inc S + 0) % 4294967296 = (ULONG_sub P U + k) % 4294967296 := by
  unfold ULONG_inc ULONG_sub at *; omega

theorem sent_arith_park (S P U k : Nat)
    (h : (S + 0) % 4294967296 = (ULONG_sub P U + k) % 4294967296) :
    (S + 1) % 4294967296 = (ULONG_sub (ULONG_inc P) U + (k + 0)) % 4294967296 := by
  unfold ULONG_inc ULONG_sub at *; omega

theorem sent_arith_fake (S P U k : Nat)
    (h : (S + 0) % 4294967296 = (ULONG_sub P U + k) % 4294967296) :
    (ULONG_inc S + 0) % 4294967296 =
      (ULONG_sub (ULONG_inc P) U + (k + 0)) % 4294967296 := by
  unfold ULONG_inc ULONG_sub at *; omega

theorem sent_arith_slip (S P U k : Nat)
    (h : (S + 0) % 4294967296 = (ULONG_sub P U + k) % 4294967296) :
    (ULONG_inc S + 0) % 4294967296 =
      (ULONG_sub (ULONG_inc P) (ULONG_inc U) + (k + 1)) % 4294967296 := by
  unfold ULONG_inc ULONG_sub at *; omega

theorem sent_arith_unprepare (S P U k : Nat)
    (h : (S + 1) % 4294967296 = (ULONG_sub P U + k) % 4294967296) :
    (S + 0) % 4294967296 = (ULONG_sub P (ULONG_inc U) + k) % 4294967296 := by
  unfold ULONG_inc ULONG_sub at *; omega

theorem SentParkedOff_PostFragments (k : Nat) (Ring : XENVIF_TRANSMITTER_RING)
    (h : SentParkedOff k Ring) : SentParkedOff k (__TransmitterRingPostFragments Ring).2 := by
  obtain ⟨l, s, f⟩ := PostFragments_counters Ring
  by_cases hs : (__TransmitterRingPostFragments Ring).1 = STATUS_SUCCESS
  · obtain ⟨s1, s2⟩ := s hs
    have b : (__TransmitterRingPostFragments Ring).2.PacketsPrepared = Ring.PacketsPrepared :=
      congrArg (fun l => l.1.1) l
    have c : (__TransmitterRingPostFragments Ring).2.PacketsUnprepared =
        Ring.PacketsUnprepared := congrArg (fun l => l.1.2.2.2.2.1) l
    unfold SentParkedOff parked at *
    rw [s1, s2, b, c]
    refine ⟨?_, fun _ => rfl⟩
    obtain ⟨h1, _⟩ := h
    cases hp : Ring.State.Packet with
    | none => rw [hp] at h1; exact h1
    | some P => rw [hp] at h1; exact sent_arith_post _ _ _ _ h1
  · rw [f hs]; exact h

theorem scheduleSlip_eq (Ring : XENVIF_TRANSMITTER_RING) (Packet : Nat) :
    scheduleSlip Ring Packet =
      if (__TransmitterRingPrepareHeader (PreparePacketEnter
            (Ring.updatePacket Packet (fun P => { P with Value := 0 })) Packet)).1 =
          STATUS_SUCCESS ∧
        (__TransmitterRingPreparePacket
            (Ring.updatePacket Packet (fun P => { P with Value := 0 })) Packet).1 ≠
          STATUS_SUCCESS then 1 else 0 := rfl

theorem SentParkedOff_schedulePacket (k : Nat) (Ring : XENVIF_TRANSMITTER_RING) (Packet : Nat)
    (h : SentParkedOff k Ring) (hp : Ring.State.Packet = none) :
    SentParkedOff (k + scheduleSlip Ring Packet) (schedulePacket Ring Packet) := by
  obtain ⟨_, _, _, _, hc⟩ := schedulePacket_spec Ring Packet
  unfold SentParkedOff parked at h
  rw [hp] at h
  obtain ⟨h1, _⟩ := h
  rcases hc with ⟨ok, p, u, _, _, s, sp, cnt⟩ | ⟨nok, p, _, _, _, s, sp, hu⟩
  · have hslip : scheduleSlip Ring Packet = 0 := by
      rw [scheduleSlip_eq, if_neg (fun x => x.2 ok)]
    rw [hslip]
    unfold SentParkedOff parked
    rw [p, u, s, sp]
    exact ⟨sent_arith_park _ _ _ _ h1, fun hz => by omega⟩
  · rcases hu with ⟨hh, u, cnt⟩ | ⟨hh, u, cnt⟩
    · have hslip : scheduleSlip Ring Packet = 0 := by
        rw [scheduleSlip_eq, if_neg (fun x => hh x.1)]
      rw [hslip]
      unfold SentParkedOff parked
      rw [p, u, s, sp]
      exact ⟨sent_arith_fake _ _ _ _ h1, fun _ => rfl⟩
    · have hslip : scheduleSlip Ring Packet = 1 := by
        rw [scheduleSlip_eq, if_pos ⟨hh, nok⟩]
      rw [hslip]
      unfold SentParkedOff parked
      rw [p, u, s, sp]
      exact ⟨sent_arith_slip _ _ _ _ h1, fun _ => rfl⟩

theorem schedulePost_sent (k : Nat) (Ring : XENVIF_TRANSMITTER_RING)
    (h : SentParkedOff k Ring) :
    SentParkedOff k (schedulePost Ring).2 ∧
    ((schedulePost Ring).1 = STATUS_SUCCESS → (schedulePost Ring).2.State.Packet = none) := by
  unfold schedulePost
  split_ifs with hc
  · exact ⟨SentParkedOff_PostFragments k Ring h,
      fun hs => ((PostFragments_counters Ring).2.1 hs).1⟩
  · exact ⟨h, fun _ => h.2 (by simpa using hc)⟩

theorem schedulePush_sent (k : Nat) (Ring : XENVIF_TRANSMITTER_RING)
    (h : SentParkedOff k Ring) :
    SentParkedOff k (schedulePush Ring) ∧
    (schedulePush Ring).State.Packet = Ring.State.Packet := by
  unfold schedulePush
  split_ifs
  · obtain ⟨l, s, st, _⟩ := PushRequests_spec Ring
    have b : (__TransmitterRingPushRequests Ring).PacketsPrepared = Ring.PacketsPrepared :=
      congrArg (fun l => l.1.1) l
    have c : (__TransmitterRingPushRequests Ring).PacketsUnprepared =
        Ring.PacketsUnprepared := congrArg (fun l => l.1.2.2.2.2.1) l
    refine ⟨SentParkedOff_of_fields s b c (by rw [st]) (by rw [st]; exact h.2) h, by rw [st]⟩
  · exact ⟨h, rfl⟩

theorem prepareRequest_sent (k : Nat) (Ring : XENVIF_TRANSMITTER_RING)
    (Request : XENVIF_TRANSMITTER_REQUEST)
    (h : SentParkedOff k Ring) (hp : Ring.State.Packet = none) :
    SentParkedOff k (prepareRequest Ring Request) := by
  obtain ⟨o, sp⟩ := prepareRequest_spec Ring Request
  obtain ⟨k1, k2, _, _⟩ := counters_of_outerFrame o
  have s0 := congrArg XENVIF_TRANSMITTER_RING.PacketsSent o
  have s : (prepareRequest Ring Request).PacketsSent = Ring.PacketsSent := s0
  exact SentParkedOff_of_fields s k1 k2 sp (fun _ => sp.trans hp) h

/-- The scheduler loop and `PacketsSent`: the loop adds to the difference
between `PacketsSent + parked` and `PacketsPrepared - PacketsUnprepared` the
number of preparations that failed in the payload step. -/
theorem SentParkedOff_ScheduleLoop :
    ∀ (fuel k : Nat) (Ring Ring' : XENVIF_TRANSMITTER_RING), SentParkedOff k Ring →
      TransmitterRingScheduleLoop fuel Ring = some Ring' →
      SentParkedOff (k + ScheduleLoopSlips fuel Ring) Ring'
  | 0, k, Ring, Ring' => by
    intro _ h; simp [TransmitterRingScheduleLoop] at h
  | fuel + 1, k, Ring, Ring' => by
    intro hI
    rw [TransmitterRingScheduleLoop, ScheduleLoopSlips]
    obtain ⟨hposted, hnone⟩ := schedulePost_sent k Ring hI
    generalize schedulePost Ring = posted at *
    obtain ⟨hpushed, hsame⟩ := schedulePush_sent k posted.2 hposted
    simp only []
    generalize schedulePush posted.2 = R1 at *
    by_cases hs : posted.1 = STATUS_SUCCESS
    · have hn : (!NT_SUCCESS posted.1) = false := by simp [NT_SUCCESS, hs]
      simp only [hn, Bool.false_eq_true, if_false]
      have hp1 : R1.State.Packet = none := hsame.trans (hnone hs)
      split
      · next Request rest hq =>
        have hR : SentParkedOff k { R1 with RequestQueue := rest } := hpushed
        exact SentParkedOff_ScheduleLoop fuel k _ _
          (prepareRequest_sent k _ Request hR hp1)
      · split
        · next Packet rest hq =>
          have hR : SentParkedOff k { R1 with PacketQueue := rest } := hpushed
          intro hl
          have := SentParkedOff_ScheduleLoop fuel _ _ _
            (SentParkedOff_schedulePacket k _ Packet hR hp1) hl
          rw [Nat.add_assoc] at this
          exact this
        · intro h
          injection h with h
          rw [← h]; exact hpushed
    · have hn : (!NT_SUCCESS posted.1) = true := by simp [NT_SUCCESS, hs]
      simp only [hn, if_true]
      intro h
      injection h with h
      rw [← h]; exact hposted

theorem SentParkedOff_Swizzle (k : Nat) (Ring : XENVIF_TRANSMITTER_RING)
    (h : SentParkedOff k Ring) : SentParkedOff k (TransmitterRingSwizzle Ring) := by
  obtain ⟨a, _, _, _, u, s, st, _⟩ := Swizzle_counters Ring
  exact SentParkedOff_of_fields s a u (by rw [st]) (by rw [st]; exact h.2) h

theorem SentParkedOff_Schedule (k : Nat) (Ring Ring' : XENVIF_TRANSMITTER_RING)
    (h : SentParkedOff k Ring) (hs : TransmitterRingSchedule Ring = some Ring') :
    SentParkedOff (k + (if !Ring.Enabled || Ring.Stopped then 0
      else ScheduleLoopSlips (Ring.RequestQueue.length + Ring.PacketQueue.length + 1) Ring))
      Ring' := by
  revert hs
  unfold TransmitterRingSchedule
  split_ifs
  · intro hs; injection hs with hs; subst hs; exact h
  · split
    · intro hs; exact absurd hs (by simp)
    · next R1 h1 =>
      intro hs; injection hs with hs; subst hs
      have h2 := SentParkedOff_ScheduleLoop _ k Ring R1 h h1
      obtain ⟨l, s, st, _⟩ := PushRequests_spec R1
      have b : (__TransmitterRingPushRequests R1).PacketsPrepared = R1.PacketsPrepared :=
        congrArg (fun l => l.1.1) l
      have c : (__TransmitterRingPushRequests R1).PacketsUnprepared =
          R1.PacketsUnprepared := congrArg (fun l => l.1.2.2.2.2.1) l
      exact SentParkedOff_of_fields s b c (by rw [st]) (by rw [st]; exact h2.2) h2

/-- At the release of the lock the difference between `PacketsSent + parked`
and `PacketsPrepared - PacketsUnprepared` has grown by the number of
preparations that failed in the payload step. -/
theorem SentParkedOff_ReleaseLock (k : Nat) (Ring Ring' : XENVIF_TRANSMITTER_RING)
    (h : SentParkedOff k Ring) (hs : __TransmitterRingReleaseLock Ring = some Ring') :
    SentParkedOff (k + ReleaseLockSlips Ring) Ring' := by
  revert hs
  unfold __TransmitterRingReleaseLock
  split
  · intro hs; exact absurd hs (by simp)
  · next R1 h1 =>
    intro hs; injection hs with hs; subst hs
    exact SentParkedOff_Schedule k _ R1 (SentParkedOff_Swizzle k Ring h) h1

theorem SentParkedOff_fakePacket (k : Nat) (Ring : XENVIF_TRANSMITTER_RING) (Packet : Nat)
    (FrontendError : Bool) (h : SentParkedOff k Ring) :
    SentParkedOff k (fakePacket Ring Packet FrontendError) := by
  obtain ⟨p, s, _, _, _, u, _, _, _, st, _⟩ := fakePacket_spec Ring Packet FrontendError
  unfold SentParkedOff parked at *
  rw [p, s, u, st]
  refine ⟨?_, h.2⟩
  have h1 := h.1
  unfold ULONG_inc ULONG_sub at *
  split_ifs at h1 ⊢ <;> omega

theorem SentParkedOff_AbortPacketsLoop (k : Nat) :
    ∀ (List : List Nat) (Ring : XENVIF_TRANSMITTER_RING), SentParkedOff k Ring →
      SentParkedOff k (AbortPacketsLoop List Ring)
  | [], Ring => fun h => h
  | Packet :: rest, Ring => fun h => by
    rw [AbortPacketsLoop]
    apply SentParkedOff_AbortPacketsLoop k rest
    apply SentParkedOff_fakePacket
    exact h

theorem SentParkedOff_DisablePrologue (k : Nat) (Ring : XENVIF_TRANSMITTER_RING)
    (h : SentParkedOff k Ring) :
    SentParkedOff k (DisablePrologue Ring) ∧ (DisablePrologue Ring).State.Packet = none := by
  obtain ⟨p, _, _, _, s, _, _, sp, sc, u, _⟩ := DisablePrologue_spec Ring
  refine ⟨?_, sp⟩
  unfold SentParkedOff parked at *
  rw [p, s, sp, u]
  refine ⟨?_, fun _ => rfl⟩
  have h1 := h.1
  cases hp : Ring.State.Packet with
  | none => rw [hp] at h1; exact h1
  | some P => rw [hp] at h1; exact sent_arith_unprepare _ _ _ _ h1

theorem SentInvariant_of_SentParkedOff (Ring : XENVIF_TRANSMITTER_RING)
    (h : SentParkedOff 0 Ring) (hp : Ring.State.Packet = none) : SentInvariant Ring := by
  unfold SentParkedOff parked at h
  unfold SentInvariant
  rw [hp] at h
  have h1 := h.1
  unfold ULONG_sub at *
  simp at h1
  omega

theorem Swizzle_Enabled (Ring : XENVIF_TRANSMITTER_RING) :
    (TransmitterRingSwizzle Ring).Enabled = Ring.Enabled := by
  unfold TransmitterRingSwizzle
  simp only []
  split
  · rfl
  · split_ifs <;> rfl

theorem DisablePrologue_Enabled (Ring : XENVIF_TRANSMITTER_RING) :
    (DisablePrologue Ring).Enabled = false := by
  obtain ⟨u0, _⟩ := UnprepareFragments_spec { Ring with Enabled := false }
  have e := congrArg XENVIF_TRANSMITTER_RING.Enabled u0
  have e1 : (__TransmitterRingUnprepareFragments { Ring with Enabled := false }).2.Enabled =
      false := e
  unfold DisablePrologue
  simp only []
  generalize __TransmitterRingUnprepareFragments { Ring with Enabled := false } = r at *
  cases r.1 <;> exact e1

/-- With the ring disabled `__TransmitterRingReleaseLock` schedules
nothing. -/
theorem ReleaseLock_disabled (Ring Ring' : XENVIF_TRANSMITTER_RING)
    (he : Ring.Enabled = false) (hs : __TransmitterRingReleaseLock Ring = some Ring') :
    Ring'.State = Ring.State ∧ Ring'.PacketsSent = Ring.PacketsSent ∧
    Ring'.PacketsPrepared = Ring.PacketsPrepared ∧
    Ring'.PacketsUnprepared = Ring.PacketsUnprepared := by
  obtain ⟨a, _, _, _, u, s, st, _⟩ := Swizzle_counters Ring
  have e := (Swizzle_Enabled Ring).trans he
  revert hs
  unfold __TransmitterRingReleaseLock TransmitterRingSchedule
  rw [e]
  simp only [Bool.not_false, Bool.true_or, if_true]
  intro hs; injection hs with hs; subst hs
  exact ⟨st, s, a, u⟩

/-! ### `PacketsSent` at the release of the lock (C7) -/

/-- C7, counterexample to the claim as stated: on a ring whose 256 slots
are all in flight, queueing one more packet makes
`__TransmitterRingReleaseLock` prepare it (`PacketsPrepared` becomes 257) and
leave it parked in `State`, because `__TransmitterRingPostFragments` finds no
free slot, and the lock is released with `PacketsSent = 256`, whereas
`PacketsPrepared - PacketsUnprepared = 257`. -/
theorem PacketsSent_lags_parked_packet :
    SentInvariant (inFlightRing 256) ∧
    ∃ Ring', __TransmitterRingQueuePackets (inFlightRing 256) [256] = some Ring' ∧
      Ring'.State.Packet = some 256 ∧ Ring'.Stopped = true ∧
      Ring'.PacketsSent = 256 ∧ Ring'.PacketsPrepared = 257 ∧
      Ring'.PacketsUnprepared = 0 ∧ ¬ SentInvariant Ring' := by
  have e : (__TransmitterRingQueuePackets (inFlightRing 256) [256]).map
      (fun R => (R.State.Packet, R.Stopped, [R.PacketsSent, R.PacketsPrepared,
        R.PacketsUnprepared])) = some (some 256, true, [256, 257, 0]) := by
    decide
  refine ⟨by unfold SentInvariant; decide, ?_⟩
  cases hq : __TransmitterRingQueuePackets (inFlightRing 256) [256] with
  | none => rw [hq] at e; simp at e
  | some Ring' =>
    rw [hq] at e
    simp only [Option.map_some', Option.some.injEq, Prod.mk.injEq, List.cons.injEq,
      and_true] at e
    obtain ⟨e1, e2, e3, e4, e5⟩ := e
    refine ⟨Ring', rfl, e1, e2, e3, e4, e5, ?_⟩
    unfold SentInvariant
    rw [e3, e4, e5]
    decide

/-- C7, amended: if `PacketsSent + parked == PacketsPrepared -
PacketsUnprepared` holds when the lock is taken, `parked` being 1 when a
prepared packet is held in `State` and 0 otherwise, then
`__TransmitterRingReleaseLock` returns, and at the release the two sides
differ by the number of preparations that failed in the payload step during
the scheduling; so the equation holds again when there was no such failure,
and then `PacketsSent == PacketsPrepared - PacketsUnprepared` holds whenever
`State` holds no packet.  `__TransmitterRingDisable` ends with `PacketsSent ==
PacketsPrepared - PacketsUnprepared`, and the equation with `parked` holds at
the assertions of `__TransmitterRingAbortPackets`. -/
theorem PacketsSent_at_lock_release (Ring : XENVIF_TRANSMITTER_RING)
    (h : SentParkedInvariant Ring) :
    (∃ Ring', __TransmitterRingReleaseLock Ring = some Ring' ∧
      SentParkedOff (ReleaseLockSlips Ring) Ring') ∧
    (ReleaseLockSlips Ring = 0 →
      ∃ Ring', __TransmitterRingReleaseLock Ring = some Ring' ∧
        SentParkedInvariant Ring' ∧ (Ring'.State.Packet = none → SentInvariant Ring')) ∧
    (∀ State fuel Ring', __TransmitterRingDisable State fuel Ring = some Ring' →
      SentInvariant Ring') ∧
    SentParkedInvariant (AbortPacketsBody (__TransmitterRingAcquireLock Ring)) := by
  have h0 := (SentParkedOff_zero Ring).2 h
  obtain ⟨R1, h1⟩ := ReleaseLock_total Ring
  have h2 := SentParkedOff_ReleaseLock 0 Ring R1 h0 h1
  rw [Nat.zero_add] at h2
  refine ⟨⟨R1, h1, h2⟩, ?_, ?_, ?_⟩
  · intro hz
    rw [hz] at h2
    exact ⟨R1, h1, (SentParkedOff_zero R1).1 h2,
      fun hp => SentInvariant_of_SentParkedOff R1 h2 hp⟩
  · intro State fuel Ring'
    unfold __TransmitterRingDisable
    split
    · intro hd; exact absurd hd (by simp)
    · next R2 hl =>
      intro hd
      have ha : SentParkedOff 0 (__TransmitterRingAcquireLock Ring) := h0
      obtain ⟨d1, d2⟩ := SentParkedOff_DisablePrologue 0 _ ha
      have d3 := DisablePrologue_Enabled (__TransmitterRingAcquireLock Ring)
      obtain ⟨l, s, st⟩ := DisableLoop_counters _ _ _ _ hl
      have b : R2.PacketsPrepared = _ := congrArg (fun l => l.1.1) l
      have c : R2.PacketsUnprepared = _ := congrArg (fun l => l.1.2.2.2.2.1) l
      have en : R2.Enabled = _ := congrArg (fun l => l.2.2.2) l
      obtain ⟨r1, r2, r3, r4⟩ := ReleaseLock_disabled R2 Ring' (en.trans d3) hd
      have hfin : SentParkedOff 0 Ring' :=
        SentParkedOff_of_fields (r2.trans s) (r3.trans b) (r4.trans c)
          (by rw [r1, st]) (by intro _; rw [r1, st]; exact d2) d1
      exact SentInvariant_of_SentParkedOff Ring' hfin (by rw [r1, st]; exact d2)
  · have ha : SentParkedOff 0 (__TransmitterRingAcquireLock Ring) := h0
    apply (SentParkedOff_zero _).1
    unfold AbortPacketsBody
    apply SentParkedOff_AbortPacketsLoop
    apply SentParkedOff_Swizzle
    exact ha

/-- The amended claim at a fresh ring on which one packet of 1000 bytes
has been queued: nothing fails, the packet is sent, and
`PacketsSent == PacketsPrepared - PacketsUnprepared` at the release. -/
theorem PacketsSent_at_lock_release_witness :
    SentParkedInvariant
      { freshRing 1000 1514 0 (fun _ => true) with Lock := { LockBit := true, Stash := [0] } } ∧
    ReleaseLockSlips
      { freshRing 1000 1514 0 (fun _ => true) with
        Lock := { LockBit := true, Stash := [0] } } = 0 ∧
    ∃ Ring', __TransmitterRingReleaseLock
        { freshRing 1000 1514 0 (fun _ => true) with
          Lock := { LockBit := true, Stash := [0] } } = some Ring' ∧
      SentParkedInvariant Ring' ∧ (Ring'.State.Packet = none → SentInvariant Ring') :=
  ⟨by unfold SentParkedInvariant; decide, by decide,
   (PacketsSent_at_lock_release
      { freshRing 1000 1514 0 (fun _ => true) with Lock := { LockBit := true, Stash := [0] } }
      (by unfold SentParkedInvariant; decide)).2.1 (by decide)⟩

/-! ### The slot budget of a prepared packet (C2) -/

/-- C8, the code breaks the equation: on a fresh ring with `AlwaysCopy` set
a packet of 1000 bytes is queued and the fourth allocation (the bounce buffer
for the payload) fails.  `__TransmitterRingPreparePacket` leaves through
`fail2`, where `__TransmitterRingUnprepareFragments` counts the packet as
unprepared, and `TransmitterRingSchedule` then counts it as prepared, sent
and faked.  At the release of the lock `PacketsQueued = 1`, `PacketQueue` is
empty and `PacketsPrepared - PacketsUnprepared = 0`; `PacketsSent = 1` differs
from it as well. -/
theorem PacketsQueued_broken_by_payload_failure :
    QueuedInvariant (freshRing 1000 1514 1 (fun t => decide (t < 3))) ∧
    SentParkedInvariant (freshRing 1000 1514 1 (fun t => decide (t < 3))) ∧
    ∃ Ring', __TransmitterRingQueuePackets
        (freshRing 1000 1514 1 (fun t => decide (t < 3))) [0] = some Ring' ∧
      Ring'.PacketsQueued = 1 ∧ Ring'.PacketQueue = [] ∧ Ring'.PacketsPrepared = 1 ∧
      Ring'.PacketsUnprepared = 1 ∧ Ring'.PacketsSent = 1 ∧ Ring'.PacketsFaked = 1 ∧
      Ring'.State.Packet = none ∧
      ¬ QueuedInvariant Ring' ∧ ¬ SentInvariant Ring' := by
  have e : (__TransmitterRingQueuePackets
      (freshRing 1000 1514 1 (fun t => decide (t < 3))) [0]).map
      (fun R => (R.State.Packet, R.PacketQueue, [R.PacketsQueued, R.PacketsPrepared,
        R.PacketsUnprepared, R.PacketsSent, R.PacketsFaked])) =
      some (none, [], [1, 1, 1, 1, 1]) := by
    decide
  refine ⟨by unfold QueuedInvariant; decide, by unfold SentParkedInvariant; decide, ?_⟩
  cases hq : __TransmitterRingQueuePackets
      (freshRing 1000 1514 1 (fun t => decide (t < 3))) [0] with
  | none => rw [hq] at e; simp at e
  | some Ring' =>
    rw [hq] at e
    simp only [Option.map_some', Option.some.injEq, Prod.mk.injEq, List.cons.injEq,
      and_true] at e
    obtain ⟨e1, e2, e3, e4, e5, e6, e7⟩ := e
    refine ⟨Ring', rfl, e3, e2, e4, e5, e6, e7, e1, ?_, ?_⟩
    · unfold QueuedInvariant
      rw [e3, e4, e5, e2]
      decide
    · unfold SentInvariant
      rw [e6, e4, e5]
      decide

/-! ### Polling: what happens to a packet -/

theorem Packets_updatePacket (Ring : XENVIF_TRANSMITTER_RING) (Q P : Nat)
    (g : XENVIF_TRANSMITTER_PACKET → XENVIF_TRANSMITTER_PACKET) :
    (Ring.updatePacket Q g).Packets P = if P = Q then g (Ring.Packets Q) else Ring.Packets P := by
  unfold XENVIF_TRANSMITTER_RING.updatePacket setAt
  rfl

theorem PollRelease_packets (Ring : XENVIF_TRANSMITTER_RING) (id : Nat)
    (Fragment : XENVIF_TRANSMITTER_FRAGMENT) :
    (PollRelease Ring id Fragment).Packets = Ring.Packets ∧
    (PollRelease Ring id Fragment).PacketComplete = Ring.PacketComplete ∧
    (PollRelease Ring id Fragment).Shared = Ring.Shared ∧
    (PollRelease Ring id Fragment).ResponsesProcessed = Ring.ResponsesProcessed ∧
    (PollRelease Ring id Fragment).Pending = setAt Ring.Pending id none := by
  unfold PollRelease releaseContext RevokeForeignAccess __TransmitterPutFragment
    __TransmitterPutBuffer
  simp only []
  cases Fragment.Context <;> cases Fragment.Entry <;> exact ⟨rfl, rfl, rfl, rfl, rfl⟩

/-- A pending status that is still pending when the packet is completed
becomes `OK`. -/
theorem PollPacket_spec (Ring : XENVIF_TRANSMITTER_RING) (Q : Nat) (status : Int)
    (rsp_cons : Nat) :
    (∀ P, P ≠ Q → (PollPacket Ring Q status rsp_cons).Packets P = Ring.Packets P) ∧
    ((PollPacket Ring Q status rsp_cons).Packets Q).Value =
      ULONG_PTR_dec (Ring.Packets Q).Value ∧
    ((PollPacket Ring Q status rsp_cons).Packets Q).Completion.Status =
      (if ULONG_PTR_dec (Ring.Packets Q).Value ≠ 0 then
         translateStatus status (Ring.Packets Q).Completion.Status
       else if translateStatus status (Ring.Packets Q).Completion.Status =
           XENVIF_TRANSMITTER_PACKET_PENDING then XENVIF_TRANSMITTER_PACKET_OK
       else translateStatus status (Ring.Packets Q).Completion.Status) ∧
    (PollPacket Ring Q status rsp_cons).PacketComplete =
      (if ULONG_PTR_dec (Ring.Packets Q).Value ≠ 0 then Ring.PacketComplete
       else Ring.PacketComplete ++ [Q]) ∧
    (PollPacket Ring Q status rsp_cons).ResponsesProcessed = Ring.ResponsesProcessed := by
  unfold PollPacket
  simp only []
  have hv : ((zeroResponse ((decValue Ring Q).updatePacket Q (fun P => { P with
      Completion := { P.Completion with
        Status := translateStatus status P.Completion.Status } })) rsp_cons).Packets Q).Value =
      ULONG_PTR_dec (Ring.Packets Q).Value := by
    simp [zeroResponse, decValue, Packets_updatePacket]
  rw [hv]
  by_cases h0 : ULONG_PTR_dec (Ring.Packets Q).Value = 0
  · simp only [h0, ne_eq, not_true_eq_false, if_false]
    refine ⟨?_, ?_, ?_, ?_, ?_⟩
    · intro P hP
      simp [__TransmitterRingCompletePacket, zeroResponse, decValue, Packets_updatePacket, hP]
    · simp [__TransmitterRingCompletePacket, zeroResponse, decValue, Packets_updatePacket, h0]
    · simp [__TransmitterRingCompletePacket, zeroResponse, decValue, Packets_updatePacket]
    · simp [__TransmitterRingCompletePacket, zeroResponse, decValue,
        XENVIF_TRANSMITTER_RING.updatePacket]
    · simp [__TransmitterRingCompletePacket, zeroResponse, decValue,
        XENVIF_TRANSMITTER_RING.updatePacket]
  · simp only [h0, ne_eq, not_false_eq_true, if_true]
    refine ⟨?_, ?_, ?_, ?_, ?_⟩
    · intro P hP
      simp [zeroResponse, decValue, Packets_updatePacket, hP]
    · simp [zeroResponse, decValue, Packets_updatePacket]
    · simp [zeroResponse, decValue, Packets_updatePacket]
    · simp [zeroResponse, decValue, XENVIF_TRANSMITTER_RING.updatePacket]
    · simp [zeroResponse, decValue, XENVIF_TRANSMITTER_RING.updatePacket]

/-- What one pass of the response loop does to the packet `P`: nothing if
the response is not counted for `P`; otherwise `Value` is decremented, the
status of the response is translated, and exactly when `Value` has reached
zero the packet is completed, a status still pending becoming `OK`. -/
theorem PollResponse_packet (Ring Ring' : XENVIF_TRANSMITTER_RING) (rsp_cons P : Nat)
    (h : PollResponse Ring rsp_cons = some Ring') :
    (responseFor Ring rsp_cons P = none →
      Ring'.Packets P = Ring.Packets P ∧
      Ring'.PacketComplete.count P = Ring.PacketComplete.count P) ∧
    (∀ st, responseFor Ring rsp_cons P = some st →
      (Ring'.Packets P).Value = ULONG_PTR_dec (Ring.Packets P).Value ∧
      (Ring'.Packets P).Completion.Status =
        (if ULONG_PTR_dec (Ring.Packets P).Value ≠ 0 then
           translateStatus st (Ring.Packets P).Completion.Status
         else if translateStatus st (Ring.Packets P).Completion.Status =
             XENVIF_TRANSMITTER_PACKET_PENDING then XENVIF_TRANSMITTER_PACKET_OK
         else translateStatus st (Ring.Packets P).Completion.Status) ∧
      Ring'.PacketComplete =
        (if ULONG_PTR_dec (Ring.Packets P).Value ≠ 0 then Ring.PacketComplete
         else Ring.PacketComplete ++ [P])) := by
  revert h
  unfold PollResponse responseFor
  simp only []
  have hpend : (PollCount Ring).Pending = Ring.Pending := rfl
  rw [hpend]
  by_cases hn : (Ring.Shared.Rsp (rsp_cons % XENVIF_TRANSMITTER_RING_SIZE)).status =
      NETIF_RSP_NULL
  · rw [if_pos hn, if_pos hn]
    intro h; injection h with h; subst h
    exact ⟨fun _ => ⟨rfl, rfl⟩, fun st hst => by simp at hst⟩
  · rw [if_neg hn, if_neg hn]
    by_cases hid : (Ring.Shared.Rsp (rsp_cons % XENVIF_TRANSMITTER_RING_SIZE)).id >
        XENVIF_TRANSMITTER_MAXIMUM_FRAGMENT_ID
    · rw [if_pos hid]; intro h; exact absurd h (by simp)
    · rw [if_neg hid]
      cases hF : Ring.Pending (Ring.Shared.Rsp (rsp_cons % XENVIF_TRANSMITTER_RING_SIZE)).id with
      | none => intro h; simp only [] at h; exact absurd h (by simp)
      | some Fragment =>
        simp only []
        obtain ⟨r1, r2, r3, r4, r5⟩ := PollRelease_packets (PollCount Ring)
          (Ring.Shared.Rsp (rsp_cons % XENVIF_TRANSMITTER_RING_SIZE)).id Fragment
        have r1 : (PollRelease (PollCount Ring)
          (Ring.Shared.Rsp (rsp_cons % XENVIF_TRANSMITTER_RING_SIZE)).id Fragment).Packets =
            Ring.Packets := r1
        have r2 : (PollRelease (PollCount Ring)
          (Ring.Shared.Rsp (rsp_cons % XENVIF_TRANSMITTER_RING_SIZE)).id Fragment).PacketComplete =
            Ring.PacketComplete := r2
        cases hq : Fragment.packet with
        | none =>
          simp only []
          intro h; injection h with h; subst h
          refine ⟨fun _ => ⟨?_, ?_⟩, fun st hst => by simp at hst⟩
          · show (PollRelease _ _ Fragment).Packets P = _
            rw [r1]
          · show (PollRelease _ _ Fragment).PacketComplete.count P = _
            rw [r2]
        | some Q =>
          simp only []
          intro h; injection h with h; subst h
          obtain ⟨p1, p2, p3, p4, _⟩ := PollPacket_spec (PollRelease (PollCount Ring)
            (Ring.Shared.Rsp (rsp_cons % XENVIF_TRANSMITTER_RING_SIZE)).id Fragment) Q
            (Ring.Shared.Rsp (rsp_cons % XENVIF_TRANSMITTER_RING_SIZE)).status rsp_cons
          rw [r1] at p2 p3 p4
          rw [r2] at p4
          by_cases hPQ : Q = P
          · subst hPQ
            refine ⟨fun hx => by simp at hx, fun st hst => ?_⟩
            simp only [if_true, Option.some.injEq] at hst
            subst hst
            exact ⟨p2, p3, p4⟩
          · have hne : ¬ (some Q = some P) := fun hx => hPQ (Option.some.inj hx)
            refine ⟨fun _ => ⟨?_, ?_⟩, fun st hst => by simp [hne] at hst⟩
            · rw [p1 P (fun hx => hPQ hx.symm), r1]
            · rw [p4]
              split_ifs
              · rfl
              · rw [List.count_append]
                have : List.count P [Q] = 0 :=
                  List.count_eq_zero.2 (by simpa using fun hx : P = Q => hPQ hx.symm)
                omega

theorem translateStatus_terminal (st : Int) (S : XENVIF_TRANSMITTER_PACKET_STATUS)
    (h : S ≠ XENVIF_TRANSMITTER_PACKET_PENDING) : translateStatus st S = S := by
  unfold translateStatus
  rw [if_neg (fun x => h x.2)]

theorem foldl_translate_terminal (S : XENVIF_TRANSMITTER_PACKET_STATUS)
    (h : S ≠ XENVIF_TRANSMITTER_PACKET_PENDING) :
    ∀ s : List Int, s.foldl (fun S st => translateStatus st S) S = S
  | [] => rfl
  | st :: s => by
    rw [List.foldl_cons, translateStatus_terminal st S h]
    exact foldl_translate_terminal S h s

/-- Folding the translation over protocol statuses, starting from
`PENDING`: the result is still `PENDING` if all were `NETIF_RSP_OKAY`, and
otherwise the translation of the first one that was not. -/
theorem foldl_translate_pending :
    ∀ s : List Int, (∀ x ∈ s, protocolStatus x) →
      s.foldl (fun S st => translateStatus st S) XENVIF_TRANSMITTER_PACKET_PENDING =
        (match s.find? (fun x => decide (x ≠ NETIF_RSP_OKAY)) with
         | none => XENVIF_TRANSMITTER_PACKET_PENDING
         | some x =>
           if x = NETIF_RSP_DROPPED then XENVIF_TRANSMITTER_PACKET_DROPPED
           else XENVIF_TRANSMITTER_PACKET_ERROR)
  | [], _ => rfl
  | st :: s, h => by
    have hst := h st (List.mem_cons_self _ _)
    have hs : ∀ x ∈ s, protocolStatus x := fun x hx => h x (List.mem_cons_of_mem _ hx)
    rw [List.foldl_cons]
    rcases hst with h0 | h1 | h2
    · subst h0
      have : translateStatus NETIF_RSP_OKAY XENVIF_TRANSMITTER_PACKET_PENDING =
          XENVIF_TRANSMITTER_PACKET_PENDING := by decide
      rw [this, foldl_translate_pending s hs]
      simp [List.find?]
    · subst h1
      have : translateStatus NETIF_RSP_DROPPED XENVIF_TRANSMITTER_PACKET_PENDING =
          XENVIF_TRANSMITTER_PACKET_DROPPED := by decide
      rw [this, foldl_translate_terminal _ (by decide)]
      have hne : decide (NETIF_RSP_DROPPED ≠ NETIF_RSP_OKAY) = true := by decide
      simp [List.find?, hne]
    · subst h2
      have : translateStatus NETIF_RSP_ERROR XENVIF_TRANSMITTER_PACKET_PENDING =
          XENVIF_TRANSMITTER_PACKET_ERROR := by decide
      rw [this, foldl_translate_terminal _ (by decide)]
      have hne : decide (NETIF_RSP_ERROR ≠ NETIF_RSP_OKAY) = true := by decide
      have hd : ¬ NETIF_RSP_ERROR = NETIF_RSP_DROPPED := by decide
      simp [List.find?, hne, hd]

theorem ULONG_PTR_dec_pos (V : Nat) (h1 : 1 ≤ V) (h2 : V < 18446744073709551616) :
    ULONG_PTR_dec V = V - 1 := by
  unfold ULONG_PTR_dec; omega

/-- What `PollLoop` does to the packet `P`, in terms of the statuses `s`
of the responses it processes for `P`, when these are not more than
`Value`. -/
theorem PollLoop_packet (P : Nat) :
    ∀ (n rsp_cons : Nat) (Ring Ring' : XENVIF_TRANSMITTER_RING),
      PollLoop n rsp_cons Ring = some Ring' →
      (Ring.Packets P).Value < 18446744073709551616 →
      (packetResponses P n rsp_cons Ring).length ≤ (Ring.Packets P).Value →
      (Ring'.Packets P).Value =
        (Ring.Packets P).Value - (packetResponses P n rsp_cons Ring).length ∧
      (packetResponses P n rsp_cons Ring = [] →
        Ring'.Packets P = Ring.Packets P ∧
        Ring'.PacketComplete.count P = Ring.PacketComplete.count P) ∧
      (packetResponses P n rsp_cons Ring ≠ [] →
        (packetResponses P n rsp_cons Ring).length < (Ring.Packets P).Value →
        (Ring'.Packets P).Completion.Status =
          (packetResponses P n rsp_cons Ring).foldl (fun S st => translateStatus st S)
            (Ring.Packets P).Completion.Status ∧
        Ring'.PacketComplete.count P = Ring.PacketComplete.count P) ∧
      (packetResponses P n rsp_cons Ring ≠ [] →
        (packetResponses P n rsp_cons Ring).length = (Ring.Packets P).Value →
        (Ring'.Packets P).Completion.Status =
          (if (packetResponses P n rsp_cons Ring).foldl (fun S st => translateStatus st S)
                (Ring.Packets P).Completion.Status = XENVIF_TRANSMITTER_PACKET_PENDING
           then XENVIF_TRANSMITTER_PACKET_OK
           else (packetResponses P n rsp_cons Ring).foldl (fun S st => translateStatus st S)
                (Ring.Packets P).Completion.Status) ∧
        Ring'.PacketComplete.count P = Ring.PacketComplete.count P + 1)
  | 0, rsp_cons, Ring, Ring' => by
    intro h _ _
    simp only [PollLoop] at h
    injection h with h; subst h
    simp [packetResponses]
  | n + 1, rsp_cons, Ring, Ring' => by
    rw [PollLoop, packetResponses]
    cases h1 : PollResponse Ring rsp_cons with
    | none => intro h; simp at h
    | some R1 =>
      simp only []
      intro h hV hlen
      obtain ⟨q1, q2⟩ := PollResponse_packet Ring R1 rsp_cons P h1
      cases hr : responseFor Ring rsp_cons P with
      | none =>
        obtain ⟨a, b⟩ := q1 hr
        rw [hr] at hlen
        simp only [Option.toList, List.nil_append] at hlen ⊢
        have ih := PollLoop_packet P n (ULONG_inc rsp_cons) R1 Ring' h (by rw [a]; exact hV)
          (by rw [a]; exact hlen)
        rw [a, b] at ih
        exact ih
      | some st =>
        obtain ⟨a, b, c⟩ := q2 st hr
        rw [hr] at hlen
        simp only [Option.toList, List.singleton_append, List.length_cons] at hlen ⊢
        have hdec := ULONG_PTR_dec_pos (Ring.Packets P).Value (by omega) hV
        rw [hdec] at a b c
        have ih := PollLoop_packet P n (ULONG_inc rsp_cons) R1 Ring' h (by rw [a]; omega)
          (by rw [a]; omega)
        obtain ⟨i1, i2, i3, i4⟩ := ih
        rw [a] at i1 i3 i4
        refine ⟨by rw [i1]; omega, fun hx => by simp at hx, fun _ hlt => ?_, fun _ heq => ?_⟩
        · have hv : (Ring.Packets P).Value - 1 ≠ 0 := by omega
          rw [if_pos hv] at b c
          rw [List.foldl_cons]
          by_cases hs : packetResponses P n (ULONG_inc rsp_cons) R1 = []
          · obtain ⟨j1, j2⟩ := i2 hs
            rw [hs, List.foldl_nil, j1, j2, b, c]
            exact ⟨rfl, rfl⟩
          · obtain ⟨j1, j2⟩ := i3 hs (by omega)
            rw [j1, j2, b, c]
            exact ⟨rfl, rfl⟩
        · rw [List.foldl_cons]
          by_cases hs : packetResponses P n (ULONG_inc rsp_cons) R1 = []
          · obtain ⟨j1, j2⟩ := i2 hs
            rw [hs] at heq
            simp only [List.length_nil] at heq
            have hv : ¬ ((Ring.Packets P).Value - 1 ≠ 0) := by omega
            rw [if_neg hv] at b c
            rw [hs, List.foldl_nil, j1, j2, b, c]
            refine ⟨rfl, ?_⟩
            rw [List.count_append]
            simp
          · have hv : (Ring.Packets P).Value - 1 ≠ 0 := by
              have := List.length_pos.2 hs
              omega
            rw [if_pos hv] at b c
            obtain ⟨j1, j2⟩ := i4 hs (by omega)
            rw [j1, j2, b, c]
            exact ⟨rfl, rfl⟩

/-! ### Completion of packets by `TransmitterRingPoll` (C3) -/

/-- C3: let `s` be the statuses of the responses that a call of
`TransmitterRingPoll` processes for the packet `P` (the responses that are not
`NETIF_RSP_NULL` and whose `Pending` fragment belongs to `P`), in order.
Assume that the call returns, that the status of `P` is `PENDING` before it,
that `s` has no more entries than `P.Value` and that every entry is `OKAY`,
`DROPPED` or `ERROR`.  Then `P.Value` has dropped by the length of `s`; `P`
has been put on `PacketComplete` once if the responses brought `P.Value` to
zero and not at all otherwise; if it was completed its status is `OK` when
all of `s` was `OKAY` and else the translation of the first entry that was
not; if it was not completed its status is still `PENDING` or that
translation.  For every single response: the packet is put on
`PacketComplete` in that pass exactly if the response is counted for `P` and
`P.Value` was 1, and a status that is `DROPPED` or `ERROR` before the pass is
the same after it. -/
theorem Poll_completes_packet (Ring Ring' : XENVIF_TRANSMITTER_RING) (P : Nat)
    (h : TransmitterRingPoll Ring = some Ring')
    (hS : (Ring.Packets P).Completion.Status = XENVIF_TRANSMITTER_PACKET_PENDING)
    (hV : (Ring.Packets P).Value < 18446744073709551616)
    (hlen : (packetResponses P (ULONG_sub Ring.Shared.rsp_prod Ring.Front.rsp_cons)
      Ring.Front.rsp_cons Ring).length ≤ (Ring.Packets P).Value)
    (hp : ∀ x ∈ packetResponses P (ULONG_sub Ring.Shared.rsp_prod Ring.Front.rsp_cons)
      Ring.Front.rsp_cons Ring, protocolStatus x) :
    (Ring'.Packets P).Value = (Ring.Packets P).Value -
      (packetResponses P (ULONG_sub Ring.Shared.rsp_prod Ring.Front.rsp_cons)
        Ring.Front.rsp_cons Ring).length ∧
    Ring'.PacketComplete.count P = Ring.PacketComplete.count P +
      (if packetResponses P (ULONG_sub Ring.Shared.rsp_prod Ring.Front.rsp_cons)
            Ring.Front.rsp_cons Ring ≠ [] ∧
          (packetResponses P (ULONG_sub Ring.Shared.rsp_prod Ring.Front.rsp_cons)
            Ring.Front.rsp_cons Ring).length = (Ring.Packets P).Value then 1 else 0) ∧
    (packetResponses P (ULONG_sub Ring.Shared.rsp_prod Ring.Front.rsp_cons)
          Ring.Front.rsp_cons Ring ≠ [] →
      (packetResponses P (ULONG_sub Ring.Shared.rsp_prod Ring.Front.rsp_cons)
          Ring.Front.rsp_cons Ring).length = (Ring.Packets P).Value →
      (Ring'.Packets P).Completion.Status =
        finalStatus (packetResponses P (ULONG_sub Ring.Shared.rsp_prod Ring.Front.rsp_cons)
          Ring.Front.rsp_cons Ring)) ∧
    ((packetResponses P (ULONG_sub Ring.Shared.rsp_prod Ring.Front.rsp_cons)
          Ring.Front.rsp_cons Ring).length < (Ring.Packets P).Value →
      (Ring'.Packets P).Completion.Status =
        (match (packetResponses P (ULONG_sub Ring.Shared.rsp_prod Ring.Front.rsp_cons)
            Ring.Front.rsp_cons Ring).find? (fun x => decide (x ≠ NETIF_RSP_OKAY)) with
         | none => XENVIF_TRANSMITTER_PACKET_PENDING
         | some x =>
           if x = NETIF_RSP_DROPPED then XENVIF_TRANSMITTER_PACKET_DROPPED
           else XENVIF_TRANSMITTER_PACKET_ERROR)) ∧
    (∀ (R R1 : XENVIF_TRANSMITTER_RING) (rsp_cons : Nat),
      PollResponse R rsp_cons = some R1 → (R.Packets P).Value < 18446744073709551616 →
      R1.PacketComplete.count P = R.PacketComplete.count P +
        (if (responseFor R rsp_cons P).isSome ∧ (R.Packets P).Value = 1 then 1 else 0) ∧
      ((responseFor R rsp_cons P).isSome →
        (R1.Packets P).Value = ULONG_PTR_dec (R.Packets P).Value) ∧
      ((R.Packets P).Completion.Status = XENVIF_TRANSMITTER_PACKET_DROPPED ∨
        (R.Packets P).Completion.Status = XENVIF_TRANSMITTER_PACKET_ERROR →
        (R1.Packets P).Completion.Status = (R.Packets P).Completion.Status)) := by
  have hloop : ∃ R2, PollLoop (ULONG_sub Ring.Shared.rsp_prod Ring.Front.rsp_cons)
      Ring.Front.rsp_cons Ring = some R2 ∧ Ring'.Packets = R2.Packets ∧
      Ring'.PacketComplete = R2.PacketComplete := by
    revert h
    unfold TransmitterRingPoll
    simp only []
    split_ifs with he
    · intro h; injection h with h; subst h
      have hz : ULONG_sub Ring.Shared.rsp_prod Ring.Front.rsp_cons = 0 := by
        rw [he]; unfold ULONG_sub; omega
      rw [hz]
      exact ⟨Ring, rfl, rfl, rfl⟩
    · cases hl : PollLoop (ULONG_sub Ring.Shared.rsp_prod Ring.Front.rsp_cons)
          Ring.Front.rsp_cons Ring with
      | none => intro h; simp at h
      | some R2 =>
        intro h
        simp only [] at h
        injection h with h; subst h
        exact ⟨R2, rfl, rfl, rfl⟩
  obtain ⟨R2, hl, e1, e2⟩ := hloop
  obtain ⟨i1, i2, i3, i4⟩ := PollLoop_packet P _ _ Ring R2 hl hV hlen
  have hf := foldl_translate_pending _ hp
  rw [hS] at i3 i4
  rw [hf] at i3 i4
  rw [e1, e2]
  generalize packetResponses P (ULONG_sub Ring.Shared.rsp_prod Ring.Front.rsp_cons)
    Ring.Front.rsp_cons Ring = s at *
  refine ⟨i1, ?_, ?_, ?_, ?_⟩
  · by_cases hs : s = []
    · rw [(i2 hs).2]; simp [hs]
    · by_cases hq : s.length = (Ring.Packets P).Value
      · rw [(i4 hs hq).2, if_pos ⟨hs, hq⟩]
      · rw [(i3 hs (by omega)).2, if_neg (fun x => hq x.2)]; rfl
  · intro hs hq
    rw [(i4 hs hq).1]
    unfold finalStatus
    cases s.find? (fun x => decide (x ≠ NETIF_RSP_OKAY)) with
    | none => simp
    | some x => by_cases hx : x = NETIF_RSP_DROPPED <;> simp [hx]
  · intro hlt
    by_cases hs : s = []
    · rw [(i2 hs).1, hS, hs]; rfl
    · exact (i3 hs hlt).1
  · intro R R1 rsp_cons hr hRV
    obtain ⟨q1, q2⟩ := PollResponse_packet R R1 rsp_cons P hr
    cases hrf : responseFor R rsp_cons P with
    | none =>
      obtain ⟨a, b⟩ := q1 hrf
      refine ⟨by rw [b]; simp, fun hx => by simp at hx, fun _ => by rw [a]⟩
    | some st =>
      obtain ⟨a, b, c⟩ := q2 st hrf
      have hdec : ULONG_PTR_dec (R.Packets P).Value = 0 ↔ (R.Packets P).Value = 1 := by
        unfold ULONG_PTR_dec; omega
      refine ⟨?_, fun _ => a, fun hterm => ?_⟩
      · rw [c]
        by_cases h1 : (R.Packets P).Value = 1
        · have := hdec.2 h1
          rw [if_neg (by simpa using this), List.count_append]
          simp [h1]
        · have : ULONG_PTR_dec (R.Packets P).Value ≠ 0 := fun hx => h1 (hdec.1 hx)
          rw [if_pos this]
          simp [h1]
      · have hne : (R.Packets P).Completion.Status ≠ XENVIF_TRANSMITTER_PACKET_PENDING := by
          rcases hterm with hx | hx <;> rw [hx] <;> decide
        rw [b, translateStatus_terminal st _ hne]
        by_cases hx : ULONG_PTR_dec (R.Packets P).Value ≠ 0
        · rw [if_pos hx]
        · rw [if_neg hx, if_neg hne]

/-- The theorem at the ring on which one packet is in flight and the
backend has answered its request with `NETIF_RSP_DROPPED`: the poll completes
the packet with status `DROPPED`. -/
theorem Poll_completes_packet_witness :
    ∃ Ring', TransmitterRingPoll (answeredRing 1 NETIF_RSP_DROPPED) = some Ring' ∧
      (Ring'.Packets 0).Value = 0 ∧
      (Ring'.Packets 0).Completion.Status = XENVIF_TRANSMITTER_PACKET_DROPPED ∧
      Ring'.PacketComplete.count 0 = 1 := by
  have hsome : (TransmitterRingPoll (answeredRing 1 NETIF_RSP_DROPPED)).isSome = true := by
    decide
  have hs : packetResponses 0
      (ULONG_sub (answeredRing 1 NETIF_RSP_DROPPED).Shared.rsp_prod
        (answeredRing 1 NETIF_RSP_DROPPED).Front.rsp_cons)
      (answeredRing 1 NETIF_RSP_DROPPED).Front.rsp_cons
      (answeredRing 1 NETIF_RSP_DROPPED) = [NETIF_RSP_DROPPED] := by decide
  have key := Poll_completes_packet (answeredRing 1 NETIF_RSP_DROPPED)
    ((TransmitterRingPoll (answeredRing 1 NETIF_RSP_DROPPED)).get hsome) 0
    (Option.some_get hsome).symm (by decide) (by decide) (by rw [hs]; decide)
    (by rw [hs]; intro x hx; rw [List.mem_singleton] at hx; rw [hx]; exact Or.inr (Or.inl rfl))
  rw [hs] at key
  refine ⟨_, (Option.some_get hsome).symm, ?_, ?_, ?_⟩
  · rw [key.1]; decide
  · rw [key.2.2.1 (by simp) (by decide)]; decide
  · rw [key.2.1]; decide

/-! ### Faking the responses -/

theorem FakeResponse_spec (Pd : Nat → Option XENVIF_TRANSMITTER_FRAGMENT)
    (L : FakeResponsesLocals) (id : Nat)
    (h1 : L.rsp_prod < 4294967296) (h2 : L.Count < 4294967296) :
    (FakeResponse Pd L id).rsp_prod = (L.rsp_prod + (fakeEntry Pd id).length) % 4294967296 ∧
    (FakeResponse Pd L id).Count = (L.Count + (fakeEntry Pd id).length) % 4294967296 ∧
    (∀ k x, (fakeEntry Pd id)[k]? = some x →
      responseMatches ((FakeResponse Pd L id).Rsp ((L.rsp_prod + k) % 256)) x) ∧
    (∀ j, (∀ k, k < (fakeEntry Pd id).length → j ≠ (L.rsp_prod + k) % 256) →
      (FakeResponse Pd L id).Rsp j = L.Rsp j) := by
  unfold FakeResponse fakeEntry
  cases hp : Pd id with
  | none =>
    refine ⟨?_, ?_, ?_, fun _ _ => rfl⟩
    · show L.rsp_prod = (L.rsp_prod + 0) % 4294967296
      omega
    · show L.Count = (L.Count + 0) % 4294967296
      omega
    · intro k x hx; simp at hx
  | some F =>
    simp only []
    have hpos : ULONG_inc L.rsp_prod % XENVIF_TRANSMITTER_RING_SIZE =
        (L.rsp_prod + 1) % 256 := by
      unfold ULONG_inc XENVIF_TRANSMITTER_RING_SIZE; omega
    have hpos0 : L.rsp_prod % XENVIF_TRANSMITTER_RING_SIZE = L.rsp_prod % 256 := rfl
    have hne : L.rsp_prod % 256 ≠ (L.rsp_prod + 1) % 256 := by omega
    by_cases he : F.Extra = true
    · simp only [he, if_true, List.length_cons, List.length_nil]
      rw [hpos, hpos0]
      refine ⟨by unfold ULONG_inc; omega, by unfold ULONG_inc; omega, ?_, ?_⟩
      · intro k x hx
        match k, hx with
        | 0, hx =>
          simp only [List.getElem?_cons_zero, Option.some.injEq] at hx
          subst hx
          simp only [Nat.add_zero]
          unfold setAt responseMatches
          rw [if_neg hne, if_pos rfl]
          exact ⟨rfl, fun id hid => (Option.some.inj hid)⟩
        | 1, hx =>
          simp only [List.getElem?_cons_succ, List.getElem?_cons_zero, Option.some.injEq] at hx
          subst hx
          unfold setAt responseMatches
          rw [if_pos rfl]
          exact ⟨rfl, fun id hid => by simp at hid⟩
        | k + 2, hx => simp at hx
      · intro j hj
        have a := hj 0 (by omega)
        have b := hj 1 (by omega)
        simp only [Nat.add_zero] at a
        unfold setAt
        rw [if_neg b, if_neg a]
    · simp only [he, Bool.false_eq_true, if_false, List.length_cons, List.length_nil]
      rw [hpos0]
      refine ⟨by unfold ULONG_inc; omega, by unfold ULONG_inc; omega, ?_, ?_⟩
      · intro k x hx
        match k, hx with
        | 0, hx =>
          simp only [List.getElem?_cons_zero, Option.some.injEq] at hx
          subst hx
          simp only [Nat.add_zero]
          unfold setAt responseMatches
          rw [if_pos rfl]
          exact ⟨rfl, fun id hid => (Option.some.inj hid)⟩
        | k + 1, hx => simp at hx
      · intro j hj
        have a := hj 0 (by omega)
        simp only [Nat.add_zero] at a
        unfold setAt
        rw [if_neg a]

theorem fakeFold_spec (Pd : Nat → Option XENVIF_TRANSMITTER_FRAGMENT) :
    ∀ (ids : List Nat) (L : FakeResponsesLocals),
      L.rsp_prod < 4294967296 → L.Count < 4294967296 →
      (expectedFake Pd ids).length ≤ 256 →
      (ids.foldl (FakeResponse Pd) L).rsp_prod =
        (L.rsp_prod + (expectedFake Pd ids).length) % 4294967296 ∧
      (ids.foldl (FakeResponse Pd) L).Count =
        (L.Count + (expectedFake Pd ids).length) % 4294967296 ∧
      (∀ k x, (expectedFake Pd ids)[k]? = some x →
        responseMatches ((ids.foldl (FakeResponse Pd) L).Rsp ((L.rsp_prod + k) % 256)) x) ∧
      (∀ j, (∀ k, k < (expectedFake Pd ids).length → j ≠ (L.rsp_prod + k) % 256) →
        (ids.foldl (FakeResponse Pd) L).Rsp j = L.Rsp j)
  | [], L => by
    intro h1 h2 _
    simp only [List.foldl_nil, expectedFake, List.length_nil, Nat.add_zero]
    refine ⟨by omega, by omega, ?_, ?_⟩
    · intro k x hx; simp at hx
    · simp
  | id :: rest, L => by
    intro h1 h2 hlen
    rw [List.foldl_cons]
    simp only [expectedFake, List.length_append] at hlen ⊢
    obtain ⟨s1, s2, s3, s4⟩ := FakeResponse_spec Pd L id h1 h2
    have g1 : (FakeResponse Pd L id).rsp_prod < 4294967296 := by
      rw [s1]; exact Nat.mod_lt _ (by decide)
    have g2 : (FakeResponse Pd L id).Count < 4294967296 := by
      rw [s2]; exact Nat.mod_lt _ (by decide)
    obtain ⟨i1, i2, i3, i4⟩ := fakeFold_spec Pd rest (FakeResponse Pd L id) g1 g2 (by omega)
    have hpos : ∀ k', ((FakeResponse Pd L id).rsp_prod + k') % 256 =
        (L.rsp_prod + ((fakeEntry Pd id).length + k')) % 256 := by
      intro k'; rw [s1]; omega
    refine ⟨by rw [i1, s1]; omega, by rw [i2, s2]; omega, ?_, ?_⟩
    · intro k x hx
      by_cases hk : k < (fakeEntry Pd id).length
      · rw [List.getElem?_append_left hk] at hx
        rw [i4]
        · exact s3 k x hx
        · intro k' hk'
          rw [hpos]
          omega
      · rw [List.getElem?_append_right (by omega)] at hx
        have := i3 _ x hx
        rw [hpos] at this
        have he : (fakeEntry Pd id).length + (k - (fakeEntry Pd id).length) = k := by omega
        rw [he] at this
        exact this
    · intro j hj
      rw [i4, s4]
      · intro k hk
        exact hj k (by omega)
      · intro k' hk'
        rw [hpos]
        exact hj _ (by omega)

/-! ### Polling the faked responses -/

theorem PollResponse_null (Ring : XENVIF_TRANSMITTER_RING) (rsp_cons : Nat)
    (h : (Ring.Shared.Rsp (rsp_cons % XENVIF_TRANSMITTER_RING_SIZE)).status = NETIF_RSP_NULL) :
    PollResponse Ring rsp_cons = some (PollCount Ring) := by
  unfold PollResponse
  simp only []
  rw [if_pos h]

theorem PollPacket_shared (Ring : XENVIF_TRANSMITTER_RING) (Q : Nat) (status : Int)
    (rsp_cons : Nat) :
    (PollPacket Ring Q status rsp_cons).Pending = Ring.Pending ∧
    (PollPacket Ring Q status rsp_cons).Shared.Rsp =
      setAt Ring.Shared.Rsp (rsp_cons % XENVIF_TRANSMITTER_RING_SIZE) { id := 0, status := 0 } ∧
    (PollPacket Ring Q status rsp_cons).ResponsesProcessed = Ring.ResponsesProcessed ∧
    (PollPacket Ring Q status rsp_cons).Front = Ring.Front ∧
    (PollPacket Ring Q status rsp_cons).RequestsPushed = Ring.RequestsPushed := by
  unfold PollPacket
  simp only []
  split_ifs <;> exact ⟨rfl, rfl, rfl, rfl, rfl⟩

theorem PollRelease_shared (Ring : XENVIF_TRANSMITTER_RING) (id : Nat)
    (Fragment : XENVIF_TRANSMITTER_FRAGMENT) :
    (PollRelease Ring id Fragment).Front = Ring.Front ∧
    (PollRelease Ring id Fragment).RequestsPushed = Ring.RequestsPushed := by
  unfold PollRelease releaseContext RevokeForeignAccess __TransmitterPutFragment
    __TransmitterPutBuffer
  simp only []
  cases Fragment.Context <;> cases Fragment.Entry <;> exact ⟨rfl, rfl⟩

/-- A pass of the response loop for a response that is not
`NETIF_RSP_NULL` and names a slot of `Pending` that holds a fragment: the slot
is cleared, the response is zeroed and counted. -/
theorem PollResponse_some (Ring : XENVIF_TRANSMITTER_RING) (rsp_cons : Nat)
    (Fragment : XENVIF_TRANSMITTER_FRAGMENT)
    (hs : (Ring.Shared.Rsp (rsp_cons % XENVIF_TRANSMITTER_RING_SIZE)).status ≠ NETIF_RSP_NULL)
    (hid : (Ring.Shared.Rsp (rsp_cons % XENVIF_TRANSMITTER_RING_SIZE)).id ≤
      XENVIF_TRANSMITTER_MAXIMUM_FRAGMENT_ID)
    (hF : Ring.Pending (Ring.Shared.Rsp (rsp_cons % XENVIF_TRANSMITTER_RING_SIZE)).id =
      some Fragment) :
    ∃ R1, PollResponse Ring rsp_cons = some R1 ∧
      R1.Pending = setAt Ring.Pending
        (Ring.Shared.Rsp (rsp_cons % XENVIF_TRANSMITTER_RING_SIZE)).id none ∧
      R1.Shared.Rsp = setAt Ring.Shared.Rsp (rsp_cons % XENVIF_TRANSMITTER_RING_SIZE)
        { id := 0, status := 0 } ∧
      R1.ResponsesProcessed = ULONG_inc Ring.ResponsesProcessed ∧
      R1.Front = Ring.Front ∧ R1.RequestsPushed = Ring.RequestsPushed := by
  unfold PollResponse
  simp only []
  have hpend : (PollCount Ring).Pending = Ring.Pending := rfl
  rw [if_neg hs, if_neg (by omega), hpend, hF]
  simp only []
  obtain ⟨r1, r2, r3, r4, r5⟩ := PollRelease_packets (PollCount Ring)
    (Ring.Shared.Rsp (rsp_cons % XENVIF_TRANSMITTER_RING_SIZE)).id Fragment
  obtain ⟨r6, r7⟩ := PollRelease_shared (PollCount Ring)
    (Ring.Shared.Rsp (rsp_cons % XENVIF_TRANSMITTER_RING_SIZE)).id Fragment
  cases Fragment.packet with
  | none =>
    refine ⟨_, rfl, ?_, ?_, ?_, ?_, ?_⟩
    · exact r5
    · show setAt (PollRelease _ _ Fragment).Shared.Rsp _ _ = _
      rw [r3]; rfl
    · exact r4
    · exact r6
    · exact r7
  | some Q =>
    obtain ⟨p1, p2, p3, p4, p5⟩ := PollPacket_shared (PollRelease (PollCount Ring)
      (Ring.Shared.Rsp (rsp_cons % XENVIF_TRANSMITTER_RING_SIZE)).id Fragment) Q
      (Ring.Shared.Rsp (rsp_cons % XENVIF_TRANSMITTER_RING_SIZE)).status rsp_cons
    refine ⟨_, rfl, ?_, ?_, ?_, ?_, ?_⟩
    · rw [p1]; exact r5
    · rw [p2, r3]; rfl
    · rw [p3]; exact r4
    · rw [p4]; exact r6
    · rw [p5]; exact r7

theorem PollFaked_first (Ring : XENVIF_TRANSMITTER_RING) (rsp_cons id : Nat)
    (Fragment : XENVIF_TRANSMITTER_FRAGMENT)
    (hP : Ring.Pending id = some Fragment) (hFid : Fragment.Id = id)
    (hmax : id ≤ XENVIF_TRANSMITTER_MAXIMUM_FRAGMENT_ID)
    (hm : responseMatches (Ring.Shared.Rsp (rsp_cons % 256))
      (some Fragment.Id, NETIF_RSP_DROPPED)) :
    ∃ R1, PollResponse Ring rsp_cons = some R1 ∧
      R1.Pending = setAt Ring.Pending id none ∧
      R1.Shared.Rsp = setAt Ring.Shared.Rsp (rsp_cons % 256) { id := 0, status := 0 } ∧
      R1.ResponsesProcessed = ULONG_inc Ring.ResponsesProcessed ∧
      R1.Front = Ring.Front ∧ R1.RequestsPushed = Ring.RequestsPushed ∧
      ∀ P, responseFor Ring rsp_cons P =
        if Fragment.packet = some P then some NETIF_RSP_DROPPED else none := by
  obtain ⟨m1, m2⟩ := hm
  have m2 := m2 Fragment.Id rfl
  simp only [] at m1
  have hsz : rsp_cons % XENVIF_TRANSMITTER_RING_SIZE = rsp_cons % 256 := rfl
  have hs : (Ring.Shared.Rsp (rsp_cons % XENVIF_TRANSMITTER_RING_SIZE)).status ≠
      NETIF_RSP_NULL := by rw [hsz, m1]; decide
  have hid : (Ring.Shared.Rsp (rsp_cons % XENVIF_TRANSMITTER_RING_SIZE)).id = id := by
    rw [hsz, m2, hFid]
  obtain ⟨R1, h1, a, b, c, d, e⟩ := PollResponse_some Ring rsp_cons Fragment hs
    (by rw [hid]; exact hmax) (by rw [hid]; exact hP)
  rw [hid] at a
  refine ⟨R1, h1, a, b, c, d, e, ?_⟩
  intro P
  unfold responseFor
  simp only []
  rw [if_neg hs, hid, hP]
  simp only []
  rw [hsz, m1]

theorem PollFaked_null (Ring : XENVIF_TRANSMITTER_RING) (rsp_cons : Nat)
    (hm : responseMatches (Ring.Shared.Rsp (rsp_cons % 256)) (none, NETIF_RSP_NULL)) :
    PollResponse Ring rsp_cons = some (PollCount Ring) ∧
    ∀ P, responseFor Ring rsp_cons P = none := by
  have hs : (Ring.Shared.Rsp (rsp_cons % XENVIF_TRANSMITTER_RING_SIZE)).status =
      NETIF_RSP_NULL := hm.1
  refine ⟨PollResponse_null Ring rsp_cons hs, ?_⟩
  intro P
  unfold responseFor
  simp only []
  rw [if_pos hs]

/-- Polling responses that are as the spec expects the faked ones to be,
for the entries of `Pending` with ids `ids`: every response is processed,
every such entry is cleared, and the responses counted for a packet are as
many `NETIF_RSP_DROPPED` as it has fragments among these entries. -/
theorem PollLoop_faked (Pd : Nat → Option XENVIF_TRANSMITTER_FRAGMENT)
    (hPd : ∀ i F, Pd i = some F → F.Id = i) :
    ∀ (ids : List Nat) (c : Nat) (R : XENVIF_TRANSMITTER_RING),
      ids.Nodup → (∀ i ∈ ids, i ≤ XENVIF_TRANSMITTER_MAXIMUM_FRAGMENT_ID) →
      (∀ i ∈ ids, R.Pending i = Pd i) →
      (expectedFake Pd ids).length ≤ 256 →
      (∀ k x, (expectedFake Pd ids)[k]? = some x →
        responseMatches (R.Shared.Rsp ((c + k) % 256)) x) →
      R.ResponsesProcessed < 4294967296 →
      ∃ R', PollLoop (expectedFake Pd ids).length c R = some R' ∧
        (∀ i ∈ ids, R'.Pending i = none) ∧
        (∀ i, i ∉ ids → R'.Pending i = R.Pending i) ∧
        R'.ResponsesProcessed =
          (R.ResponsesProcessed + (expectedFake Pd ids).length) % 4294967296 ∧
        R'.Front = R.Front ∧ R'.RequestsPushed = R.RequestsPushed ∧
        ∀ P, packetResponses P (expectedFake Pd ids).length c R =
          List.replicate (pendingCount Pd P ids) NETIF_RSP_DROPPED
  | [], c, R => by
    intro _ _ _ _ _ hRP
    refine ⟨R, rfl, ?_, fun _ _ => rfl, ?_, rfl, rfl, fun _ => rfl⟩
    · intro i hi; simp at hi
    · simp only [expectedFake, List.length_nil, Nat.add_zero]
      omega
  | id :: rest, c, R => by
    intro hnd hmax hag hlen hm hRP
    have hnd' : rest.Nodup := (List.nodup_cons.1 hnd).2
    have hnotin : id ∉ rest := (List.nodup_cons.1 hnd).1
    have hmax' : ∀ i ∈ rest, i ≤ XENVIF_TRANSMITTER_MAXIMUM_FRAGMENT_ID :=
      fun i hi => hmax i (List.mem_cons_of_mem _ hi)
    cases hp : Pd id with
    | none =>
      have hE : expectedFake Pd (id :: rest) = expectedFake Pd rest := by
        simp [expectedFake, fakeEntry, hp]
      have hC : ∀ P, pendingCount Pd P (id :: rest) = pendingCount Pd P rest := by
        intro P; simp [pendingCount, hp]
      rw [hE] at hlen hm ⊢
      obtain ⟨R', h1, h2, h3, h4, h5, h6, h7⟩ := PollLoop_faked Pd hPd rest c R hnd' hmax'
        (fun i hi => hag i (List.mem_cons_of_mem _ hi)) hlen hm hRP
      refine ⟨R', h1, ?_, ?_, h4, h5, h6, ?_⟩
      · intro i hi
        rcases List.mem_cons.1 hi with hi | hi
        · subst hi
          rw [h3 _ hnotin, hag _ (List.mem_cons_self _ _), hp]
        · exact h2 i hi
      · intro i hi
        exact h3 i (fun hx => hi (List.mem_cons_of_mem _ hx))
      · intro P; rw [hC, h7]
    | some F =>
      have hFid := hPd id F hp
      have hRP : R.Pending id = some F := by rw [hag id (List.mem_cons_self _ _), hp]
      have hm0 := hm 0
      by_cases he : F.Extra = true
      · have hE : expectedFake Pd (id :: rest) =
            (some F.Id, NETIF_RSP_DROPPED) :: (none, NETIF_RSP_NULL) :: expectedFake Pd rest := by
          simp [expectedFake, fakeEntry, hp, he]
        have hC : ∀ P, pendingCount Pd P (id :: rest) =
            (if F.packet = some P then 1 else 0) + pendingCount Pd P rest := by
          intro P; simp [pendingCount, hp]
        rw [hE] at hlen hm hm0 ⊢
        simp only [List.length_cons] at hlen ⊢
        obtain ⟨R1, s1, a1, b1, c1, d1, e1, f1⟩ := PollFaked_first R c id F hRP hFid
          (hmax id (List.mem_cons_self _ _)) (by simpa using hm0 (some F.Id, NETIF_RSP_DROPPED) (by simp))
        have hm1 := hm 1 (none, NETIF_RSP_NULL) (by simp)
        have hc1 : ULONG_inc c % 256 = (c + 1) % 256 := by unfold ULONG_inc; omega
        have hR1m : responseMatches (R1.Shared.Rsp (ULONG_inc c % 256))
            (none, NETIF_RSP_NULL) := by
          rw [b1, hc1]
          unfold setAt
          rw [if_neg (by omega)]
          exact hm1
        obtain ⟨s2, f2⟩ := PollFaked_null R1 (ULONG_inc c) hR1m
        obtain ⟨R', h1, h2, h3, h4, h5, h6, h7⟩ := PollLoop_faked Pd hPd rest
          (ULONG_inc (ULONG_inc c)) (PollCount R1) hnd' hmax'
          (by
            intro i hi
            show R1.Pending i = Pd i
            rw [a1]
            unfold setAt
            rw [if_neg (fun (hx : i = id) => hnotin (by rw [← hx]; exact hi))]
            exact hag i (List.mem_cons_of_mem _ hi))
          (by omega)
          (by
            intro k x hx
            show responseMatches (R1.Shared.Rsp _) x
            have hk : k < (expectedFake Pd rest).length := by
              rcases Nat.lt_or_ge k (expectedFake Pd rest).length with h | h
              · exact h
              · rw [List.getElem?_eq_none h] at hx; simp at hx
            have hpos : (ULONG_inc (ULONG_inc c) + k) % 256 = (c + (k + 2)) % 256 := by
              unfold ULONG_inc; omega
            rw [b1, hpos]
            unfold setAt
            rw [if_neg (by omega)]
            exact hm (k + 2) x (by simpa using hx))
          (by
            show ULONG_inc R1.ResponsesProcessed < 4294967296
            unfold ULONG_inc; omega)
        refine ⟨R', ?_, ?_, ?_, ?_, ?_, ?_, ?_⟩
        · rw [PollLoop, s1]
          simp only []
          rw [PollLoop, s2]
          exact h1
        · intro i hi
          rcases List.mem_cons.1 hi with hi | hi
          · subst hi
            rw [h3 _ hnotin]
            show R1.Pending i = none
            rw [a1]; unfold setAt; rw [if_pos rfl]
          · exact h2 i hi
        · intro i hi
          rw [h3 i (fun hx => hi (List.mem_cons_of_mem _ hx))]
          show R1.Pending i = _
          rw [a1]; unfold setAt
          rw [if_neg (fun (hx : i = id) => hi (by rw [hx]; exact List.mem_cons_self _ _))]
        · rw [h4]
          show (ULONG_inc R1.ResponsesProcessed + _) % 4294967296 = _
          rw [c1]; unfold ULONG_inc; omega
        · rw [h5]; exact d1
        · rw [h6]; exact e1
        · intro P
          rw [packetResponses, s1]
          simp only []
          rw [packetResponses, s2]
          simp only []
          rw [f1 P, f2 P, h7 P, hC P]
          by_cases hq : F.packet = some P
          · rw [if_pos hq, if_pos hq]
            simp only [Option.toList, List.singleton_append, List.nil_append]
            rw [Nat.add_comm, List.replicate_succ]
          · rw [if_neg hq, if_neg hq]
            simp only [Option.toList, List.nil_append, Nat.zero_add]
      · have hE : expectedFake Pd (id :: rest) =
            (some F.Id, NETIF_RSP_DROPPED) :: expectedFake Pd rest := by
          simp [expectedFake, fakeEntry, hp, he]
        have hC : ∀ P, pendingCount Pd P (id :: rest) =
            (if F.packet = some P then 1 else 0) + pendingCount Pd P rest := by
          intro P; simp [pendingCount, hp]
        rw [hE] at hlen hm hm0 ⊢
        simp only [List.length_cons] at hlen ⊢
        obtain ⟨R1, s1, a1, b1, c1, d1, e1, f1⟩ := PollFaked_first R c id F hRP hFid
          (hmax id (List.mem_cons_self _ _)) (by simpa using hm0 (some F.Id, NETIF_RSP_DROPPED) (by simp))
        obtain ⟨R', h1, h2, h3, h4, h5, h6, h7⟩ := PollLoop_faked Pd hPd rest
          (ULONG_inc c) R1 hnd' hmax'
          (by
            intro i hi
            rw [a1]
            unfold setAt
            rw [if_neg (fun (hx : i = id) => hnotin (by rw [← hx]; exact hi))]
            exact hag i (List.mem_cons_of_mem _ hi))
          (by omega)
          (by
            intro k x hx
            have hk : k < (expectedFake Pd rest).length := by
              rcases Nat.lt_or_ge k (expectedFake Pd rest).length with h | h
              · exact h
              · rw [List.getElem?_eq_none h] at hx; simp at hx
            have hpos : (ULONG_inc c + k) % 256 = (c + (k + 1)) % 256 := by
              unfold ULONG_inc; omega
            rw [b1, hpos]
            unfold setAt
            rw [if_neg (by omega)]
            exact hm (k + 1) x (by simpa using hx))
          (by rw [c1]; unfold ULONG_inc; omega)
        refine ⟨R', ?_, ?_, ?_, ?_, ?_, ?_, ?_⟩
        · rw [PollLoop, s1]
          exact h1
        · intro i hi
          rcases List.mem_cons.1 hi with hi | hi
          · subst hi
            rw [h3 _ hnotin, a1]; unfold setAt; rw [if_pos rfl]
          · exact h2 i hi
        · intro i hi
          rw [h3 i (fun hx => hi (List.mem_cons_of_mem _ hx)), a1]; unfold setAt
          rw [if_neg (fun (hx : i = id) => hi (by rw [hx]; exact List.mem_cons_self _ _))]
        · rw [h4, c1]; unfold ULONG_inc; omega
        · rw [h5]; exact d1
        · rw [h6]; exact e1
        · intro P
          rw [packetResponses, s1]
          simp only []
          rw [f1 P, h7 P, hC P]
          by_cases hq : F.packet = some P
          · rw [if_pos hq, if_pos hq]
            simp only [Option.toList, List.singleton_append, List.nil_append]
            rw [Nat.add_comm, List.replicate_succ]
          · rw [if_neg hq, if_neg hq]
            simp only [Option.toList, List.nil_append, Nat.zero_add]

/-! ### Faked responses on Disable (C4) -/

theorem foldl_translate_dropped (m : Nat) (h : 1 ≤ m) :
    (List.replicate m NETIF_RSP_DROPPED).foldl (fun S st => translateStatus st S)
      XENVIF_TRANSMITTER_PACKET_PENDING = XENVIF_TRANSMITTER_PACKET_DROPPED := by
  obtain ⟨n, rfl⟩ : ∃ n, m = n + 1 := ⟨m - 1, by omega⟩
  rw [List.replicate_succ, List.foldl_cons]
  have : translateStatus NETIF_RSP_DROPPED XENVIF_TRANSMITTER_PACKET_PENDING =
      XENVIF_TRANSMITTER_PACKET_DROPPED := by decide
  rw [this]
  exact foldl_translate_terminal _ (by decide) _

theorem Send_fields (Ring : XENVIF_TRANSMITTER_RING) :
    (__TransmitterRingSend Ring).Shared = Ring.Shared ∧
    (__TransmitterRingSend Ring).Front = Ring.Front ∧
    (__TransmitterRingSend Ring).Pending = Ring.Pending ∧
    (__TransmitterRingSend Ring).Packets = Ring.Packets ∧
    (__TransmitterRingSend Ring).PacketComplete = Ring.PacketComplete ∧
    (__TransmitterRingSend Ring).ResponsesProcessed = Ring.ResponsesProcessed ∧
    (__TransmitterRingSend Ring).RequestsPushed = Ring.RequestsPushed := by
  unfold __TransmitterRingSend
  split_ifs <;> exact ⟨rfl, rfl, rfl, rfl, rfl, rfl, rfl⟩

/-- `TransmitterRingPoll` in terms of its response loop. -/
theorem Poll_of_PollLoop (X R2 : XENVIF_TRANSMITTER_RING)
    (h : PollLoop (ULONG_sub X.Shared.rsp_prod X.Front.rsp_cons) X.Front.rsp_cons X = some R2) :
    ∃ R', TransmitterRingPoll X = some R' ∧ R'.Pending = R2.Pending ∧
      R'.Packets = R2.Packets ∧ R'.PacketComplete = R2.PacketComplete ∧
      R'.ResponsesProcessed = R2.ResponsesProcessed ∧
      R'.RequestsPushed = R2.RequestsPushed ∧
      R'.Front.rsp_cons = X.Shared.rsp_prod ∧
      R'.Front.req_prod_pvt = R2.Front.req_prod_pvt := by
  unfold TransmitterRingPoll
  simp only []
  by_cases he : X.Front.rsp_cons = X.Shared.rsp_prod
  · rw [if_pos he]
    have hz : ULONG_sub X.Shared.rsp_prod X.Front.rsp_cons = 0 := by
      rw [he]; unfold ULONG_sub; omega
    rw [hz] at h
    simp only [PollLoop] at h
    injection h with h
    subst h
    exact ⟨X, rfl, rfl, rfl, rfl, rfl, rfl, he, rfl⟩
  · rw [if_neg he, h]
    exact ⟨_, rfl, rfl, rfl, rfl, rfl, rfl, rfl, rfl⟩

theorem FakeResponses_fields (Ring : XENVIF_TRANSMITTER_RING) :
    (__TransmitterRingFakeResponses Ring).Front = Ring.Front ∧
    (__TransmitterRingFakeResponses Ring).Pending = Ring.Pending ∧
    (__TransmitterRingFakeResponses Ring).Packets = Ring.Packets ∧
    (__TransmitterRingFakeResponses Ring).PacketComplete = Ring.PacketComplete ∧
    (__TransmitterRingFakeResponses Ring).ResponsesProcessed = Ring.ResponsesProcessed ∧
    (__TransmitterRingFakeResponses Ring).RequestsPushed = Ring.RequestsPushed ∧
    (__TransmitterRingFakeResponses Ring).Shared.rsp_prod = (FakeResponsesLoop Ring).rsp_prod ∧
    (__TransmitterRingFakeResponses Ring).Shared.Rsp = (FakeResponsesLoop Ring).Rsp := by
  simp only [__TransmitterRingFakeResponses, and_self]

theorem ring_index_arith (c p n : Nat) (hc : c < 4294967296) (hp : p < 4294967296)
    (hs : ULONG_sub p c = n) : (c + n) % 4294967296 = p := by
  unfold ULONG_sub at hs; omega

/-- What the faked responses do when the unanswered slots are those of the
pending fragments: assume that every fragment in `Pending` sits at the index
that is its id and inside the array, that the slots of the ring that are not yet
answered (`req_prod_pvt - rsp_cons` of them, at most the ring size) are as
many as the responses the spec expects for the entries of `Pending`
(`expectedFake`: one `DROPPED` response per entry, in the order of the ids,
followed by a `NULL` one for an entry with `Extra`), and that `RequestsPushed
- ResponsesProcessed` is that number too.  Then
`__TransmitterRingFakeResponses` writes exactly these responses, starting at
`rsp_cons`, and publishes `rsp_prod = rsp_cons + count = req_prod_pvt`; and
the following `TransmitterRingPoll` returns with every slot of `Pending`
null, `ResponsesProcessed == RequestsPushed`, and every packet whose status
was `PENDING` and whose `Value` was the number of its fragments in `Pending`
(at least one) completed with status `DROPPED`. -/
theorem FakeResponses_then_Poll (Ring : XENVIF_TRANSMITTER_RING)
    (hids : PendingIds Ring)
    (hbound : ∀ i, XENVIF_TRANSMITTER_MAXIMUM_FRAGMENT_ID < i → Ring.Pending i = none)
    (hcons : Ring.Front.rsp_cons < 4294967296)
    (hprod : Ring.Front.req_prod_pvt < 4294967296)
    (hpushed : Ring.RequestsPushed < 4294967296)
    (hproc : Ring.ResponsesProcessed < 4294967296)
    (hsize : (expectedFake Ring.Pending
      (List.range (XENVIF_TRANSMITTER_MAXIMUM_FRAGMENT_ID + 1))).length ≤
        XENVIF_TRANSMITTER_RING_SIZE)
    (hslots : ULONG_sub Ring.Front.req_prod_pvt Ring.Front.rsp_cons =
      (expectedFake Ring.Pending
        (List.range (XENVIF_TRANSMITTER_MAXIMUM_FRAGMENT_ID + 1))).length)
    (hresp : ULONG_sub Ring.RequestsPushed Ring.ResponsesProcessed =
      (expectedFake Ring.Pending
        (List.range (XENVIF_TRANSMITTER_MAXIMUM_FRAGMENT_ID + 1))).length) :
    (__TransmitterRingFakeResponses Ring).Shared.rsp_prod =
      ULONG_add Ring.Front.rsp_cons (expectedFake Ring.Pending
        (List.range (XENVIF_TRANSMITTER_MAXIMUM_FRAGMENT_ID + 1))).length ∧
    (__TransmitterRingFakeResponses Ring).Shared.rsp_prod = Ring.Front.req_prod_pvt ∧
    (∀ k x, (expectedFake Ring.Pending
        (List.range (XENVIF_TRANSMITTER_MAXIMUM_FRAGMENT_ID + 1)))[k]? = some x →
      responseMatches ((__TransmitterRingFakeResponses Ring).Shared.Rsp
        ((Ring.Front.rsp_cons + k) % XENVIF_TRANSMITTER_RING_SIZE)) x) ∧
    ∃ Ring', TransmitterRingPoll (__TransmitterRingSend
        (__TransmitterRingFakeResponses Ring)) = some Ring' ∧
      (∀ i, Ring'.Pending i = none) ∧
      Ring'.ResponsesProcessed = Ring'.RequestsPushed ∧
      Ring'.RequestsPushed = Ring.RequestsPushed ∧
      Ring'.Front.rsp_cons = Ring.Front.req_prod_pvt ∧
      ∀ P, (Ring.Packets P).Completion.Status = XENVIF_TRANSMITTER_PACKET_PENDING →
        (Ring.Packets P).Value = pendingCount Ring.Pending P
          (List.range (XENVIF_TRANSMITTER_MAXIMUM_FRAGMENT_ID + 1)) →
        1 ≤ (Ring.Packets P).Value →
        (Ring'.Packets P).Value = 0 ∧
        (Ring'.Packets P).Completion.Status = XENVIF_TRANSMITTER_PACKET_DROPPED ∧
        Ring'.PacketComplete.count P = Ring.PacketComplete.count P + 1 := by
  have hsize' : (expectedFake Ring.Pending
      (List.range (XENVIF_TRANSMITTER_MAXIMUM_FRAGMENT_ID + 1))).length ≤ 256 := hsize
  have hL : FakeResponsesLoop Ring =
      (List.range (XENVIF_TRANSMITTER_MAXIMUM_FRAGMENT_ID + 1)).foldl
        (FakeResponse Ring.Pending)
        { rsp_prod := Ring.Front.rsp_cons, Count := 0, Rsp := Ring.Shared.Rsp } := by
    unfold FakeResponsesLoop; rfl
  obtain ⟨f1, _, f3, _⟩ := fakeFold_spec Ring.Pending
    (List.range (XENVIF_TRANSMITTER_MAXIMUM_FRAGMENT_ID + 1))
    { rsp_prod := Ring.Front.rsp_cons, Count := 0, Rsp := Ring.Shared.Rsp } hcons
    (Nat.zero_lt_succ _) hsize'
  rw [← hL] at f1 f3
  simp only [] at f1 f3
  obtain ⟨x1, x2, x3, x4, x5, x6, x7⟩ := Send_fields (__TransmitterRingFakeResponses Ring)
  obtain ⟨z1, z2, z3, z4, z5, z6, y1, y2⟩ := FakeResponses_fields Ring
  rw [z1] at x2
  rw [z2] at x3
  rw [z3] at x4
  rw [z4] at x5
  rw [z5] at x6
  rw [z6] at x7
  generalize hE : expectedFake Ring.Pending
    (List.range (XENVIF_TRANSMITTER_MAXIMUM_FRAGMENT_ID + 1)) = E at *
  have hrp : (__TransmitterRingFakeResponses Ring).Shared.rsp_prod =
      Ring.Front.req_prod_pvt := by
    rw [y1, f1]; exact ring_index_arith _ _ _ hcons hprod hslots
  have hsz : XENVIF_TRANSMITTER_RING_SIZE = 256 := rfl
  refine ⟨by rw [y1, f1]; rfl, hrp, fun k x hx => by rw [y2, hsz]; exact f3 k x hx, ?_⟩
  obtain ⟨R2, h1, h2, h3, h4, h5, h6, h7⟩ := PollLoop_faked Ring.Pending hids
    (List.range (XENVIF_TRANSMITTER_MAXIMUM_FRAGMENT_ID + 1)) Ring.Front.rsp_cons
    (__TransmitterRingSend (__TransmitterRingFakeResponses Ring))
    (List.nodup_range _)
    (fun i hi => Nat.lt_succ_iff.1 (List.mem_range.1 hi))
    (fun i _ => by rw [x3])
    (by rw [hE]; exact hsize')
    (by rw [hE]; intro k x hx; rw [x1, y2]; exact f3 k x hx)
    (by rw [x6]; exact hproc)
  rw [hE] at h1 h4 h7
  have hn : ULONG_sub
      (__TransmitterRingSend (__TransmitterRingFakeResponses Ring)).Shared.rsp_prod
      (__TransmitterRingSend (__TransmitterRingFakeResponses Ring)).Front.rsp_cons =
      E.length := by
    rw [x1, x2, hrp]; exact hslots
  have hfr : (__TransmitterRingSend (__TransmitterRingFakeResponses Ring)).Front.rsp_cons =
      Ring.Front.rsp_cons := by rw [x2]
  have h1' := h1
  rw [← hn, ← hfr] at h1'
  obtain ⟨R', p1, p2, p3, p4, p5, p6, p7, p8⟩ := Poll_of_PollLoop _ R2 h1'
  refine ⟨R', p1, ?_, ?_, ?_, ?_, ?_⟩
  · intro i
    rw [p2]
    by_cases hi : i ∈ List.range (XENVIF_TRANSMITTER_MAXIMUM_FRAGMENT_ID + 1)
    · exact h2 i hi
    · rw [h3 i hi, x3]
      apply hbound i
      have hlt : ¬ i < XENVIF_TRANSMITTER_MAXIMUM_FRAGMENT_ID + 1 :=
        fun h => hi (List.mem_range.2 h)
      exact Nat.lt_of_succ_le (Nat.le_of_not_lt hlt)
  · rw [p5, p6, h4, h6, x6, x7]
    exact ring_index_arith _ _ _ hproc hpushed hresp
  · rw [p6, h6, x7]
  · rw [p7, x1]; exact hrp
  · intro P hS hV hV1
    have h7P := h7 P
    have hVX : ((__TransmitterRingSend (__TransmitterRingFakeResponses Ring)).Packets P) =
        Ring.Packets P := by rw [x4]
    have hlenP : (pendingCount Ring.Pending P
        (List.range (XENVIF_TRANSMITTER_MAXIMUM_FRAGMENT_ID + 1))) < 18446744073709551616 := by
      have : ∀ ids : List Nat, pendingCount Ring.Pending P ids ≤ ids.length := by
        intro ids
        induction ids with
        | nil => simp [pendingCount]
        | cons a l ih =>
          simp only [pendingCount, List.length_cons]
          cases Ring.Pending a with
          | none => simp only []; omega
          | some F => simp only []; split_ifs <;> omega
      have hb := this (List.range (XENVIF_TRANSMITTER_MAXIMUM_FRAGMENT_ID + 1))
      rw [List.length_range] at hb
      have hm : XENVIF_TRANSMITTER_MAXIMUM_FRAGMENT_ID + 1 = 1024 := rfl
      rw [hm] at hb
      exact Nat.lt_of_le_of_lt hb (by decide)
    obtain ⟨i1, _, _, i4⟩ := PollLoop_packet P E.length Ring.Front.rsp_cons
      (__TransmitterRingSend (__TransmitterRingFakeResponses Ring)) R2 h1
      (by rw [hVX, hV]; exact hlenP)
      (by rw [h7P, hVX, hV, List.length_replicate])
    rw [h7P, hVX, List.length_replicate] at i1
    rw [h7P, hVX, List.length_replicate, hS] at i4
    have hne : List.replicate (pendingCount Ring.Pending P
        (List.range (XENVIF_TRANSMITTER_MAXIMUM_FRAGMENT_ID + 1))) NETIF_RSP_DROPPED ≠ [] := by
      rw [← hV]
      intro hx
      have := congrArg List.length hx
      rw [List.length_replicate] at this
      simp at this
      omega
    obtain ⟨j1, j2⟩ := i4 hne hV.symm
    rw [foldl_translate_dropped _ (by rw [← hV]; exact hV1)] at j1
    rw [p3, p4]
    refine ⟨by rw [i1]; omega, ?_, ?_⟩
    · rw [j1]; decide
    · rw [j2, x5]

set_option maxRecDepth 100000 in
/-- The theorem at the ring on which two packets are in flight, one slot
each: the faked responses are two `DROPPED` ones, and the poll that follows
leaves nothing pending and completes the first packet with status
`DROPPED`. -/
theorem FakeResponses_then_Poll_witness :
    (__TransmitterRingFakeResponses (inFlightRing 2)).Shared.rsp_prod = 2 ∧
    ∃ Ring', TransmitterRingPoll (__TransmitterRingSend
        (__TransmitterRingFakeResponses (inFlightRing 2))) = some Ring' ∧
      (∀ i, Ring'.Pending i = none) ∧
      Ring'.ResponsesProcessed = Ring'.RequestsPushed ∧
      (Ring'.Packets 0).Completion.Status = XENVIF_TRANSMITTER_PACKET_DROPPED := by
  have hE : expectedFake (inFlightRing 2).Pending
      (List.range (XENVIF_TRANSMITTER_MAXIMUM_FRAGMENT_ID + 1)) =
      [(some 1, NETIF_RSP_DROPPED), (some 2, NETIF_RSP_DROPPED)] := by
    decide
  have hC : pendingCount (inFlightRing 2).Pending 0
      (List.range (XENVIF_TRANSMITTER_MAXIMUM_FRAGMENT_ID + 1)) = 1 := by
    decide
  have hids : PendingIds (inFlightRing 2) := by
    intro i F h
    simp only [inFlightRing] at h
    split_ifs at h
    injection h with h
    subst h
    rfl
  have hbound : ∀ i, XENVIF_TRANSMITTER_MAXIMUM_FRAGMENT_ID < i →
      (inFlightRing 2).Pending i = none := by
    intro i hi
    simp only [inFlightRing]
    rw [if_neg]
    unfold XENVIF_TRANSMITTER_MAXIMUM_FRAGMENT_ID at hi
    omega
  have key := FakeResponses_then_Poll (inFlightRing 2) hids hbound (by decide) (by decide)
    (by decide) (by decide) (by rw [hE]; decide) (by rw [hE]; decide) (by rw [hE]; decide)
  obtain ⟨_, k2, _, R', a, b, c, _, _, f⟩ := key
  exact ⟨k2, R', a, b, c, (f 0 (by decide) (by rw [hC]; decide) (by decide)).2.1⟩

/-! ### C13: the order of the packets taken from the lock word -/

/-- The loop of the swizzle reverses the chain onto the local list and
counts its entries. -/
theorem SwizzleLoop_spec :
    ∀ (Stash List : List Nat) (Count : Nat),
      (SwizzleLoop Stash List Count).1 = Stash.reverse ++ List ∧
      (SwizzleLoop Stash List Count).2 % 4294967296 = (Count + Stash.length) % 4294967296
  | [], List, Count => by simp [SwizzleLoop]
  | x :: rest, List, Count => by
    obtain ⟨h1, h2⟩ := SwizzleLoop_spec rest (x :: List) (ULONG_inc Count)
    rw [SwizzleLoop]
    refine ⟨by rw [h1]; simp, ?_⟩
    rw [h2]
    have hl : (x :: rest).length = rest.length + 1 := rfl
    rw [hl]
    unfold ULONG_inc
    omega

/-- What the swizzle does, for every ring: the lock word is left with the
bare lock bit, the stash goes oldest first to the tail of `PacketQueue`, and
`PacketsQueued` grows by its length. -/
theorem Swizzle_spec (Ring : XENVIF_TRANSMITTER_RING) :
    (TransmitterRingSwizzle Ring).Lock = { LockBit := true, Stash := [] } ∧
    (TransmitterRingSwizzle Ring).PacketQueue = Ring.PacketQueue ++ Ring.Lock.Stash.reverse ∧
    (TransmitterRingSwizzle Ring).PacketsQueued % 4294967296 =
      (Ring.PacketsQueued + Ring.Lock.Stash.length) % 4294967296 := by
  unfold TransmitterRingSwizzle
  cases hS : Ring.Lock.Stash with
  | nil => simp
  | cons x rest =>
    obtain ⟨h1, h2⟩ := SwizzleLoop_spec (x :: rest) [] 0
    simp only []
    have hne : (SwizzleLoop (x :: rest) [] 0).1 ≠ [] := by
      rw [h1]; simp
    rw [if_pos hne]
    refine ⟨rfl, ?_, ?_⟩
    · show Ring.PacketQueue ++ (SwizzleLoop (x :: rest) [] 0).1 = _
      rw [h1]; simp
    · show ULONG_add Ring.PacketsQueued (SwizzleLoop (x :: rest) [] 0).2 % 4294967296 = _
      simp only [ULONG_add, Nat.zero_add] at h2 ⊢
      omega

/-- While the lock is held by another thread, successive calls of
`__TransmitterRingQueuePackets` return and only push onto the stash, each
list most recent first. -/
theorem QueuePacketsSeq_locked :
    ∀ (Lists : List (List Nat)) (Ring : XENVIF_TRANSMITTER_RING),
      Ring.Lock.LockBit = true →
      ∃ Ring1, QueuePacketsSeq Lists Ring = some Ring1 ∧
        Ring1.Lock = { LockBit := true, Stash := Lists.flatten.reverse ++ Ring.Lock.Stash } ∧
        Ring1.PacketQueue = Ring.PacketQueue ∧ Ring1.PacketsQueued = Ring.PacketsQueued
  | [], Ring, h => by
    refine ⟨Ring, rfl, ?_, rfl, rfl⟩
    cases hL : Ring.Lock with
    | mk b s => rw [hL] at h; simp at h; simp [h]
  | L :: rest, Ring, h => by
    have hq : __TransmitterRingQueuePackets Ring L = some (pushPackets Ring L) := by
      unfold __TransmitterRingQueuePackets
      have : (pushPackets Ring L).Lock.LockBit = true := h
      simp only [this, if_true]
    obtain ⟨Ring1, h1, h2, h3, h4⟩ := QueuePacketsSeq_locked rest (pushPackets Ring L) h
    refine ⟨Ring1, ?_, ?_, h3, h4⟩
    · rw [QueuePacketsSeq, hq]; exact h1
    · rw [h2]
      show _ = ({ LockBit := true, Stash := (L :: rest).flatten.reverse ++ Ring.Lock.Stash } : LockWord)
      have : (pushPackets Ring L).Lock.Stash = L.reverse ++ Ring.Lock.Stash := rfl
      rw [this]; simp

/-- C13: let the lists `Lists = [L1, ..., Lk]` be pushed by successive calls
of `__TransmitterRingQueuePackets` while another thread holds the lock (so
that no call drains the stash), and let `TransmitterRingSwizzle` then run.
Every call returns, and after the swizzle `PacketQueue` is its previous
contents, followed by what the stash held before in the order of submission,
followed by `L1 ++ ... ++ Lk` with each list in its original order; the lock
word is the bare lock bit (empty stash, bit set); and `PacketsQueued` has
grown, in `ULONG` arithmetic, by the number of packets taken from the
stash. -/
theorem Swizzle_preserves_submission_order (Ring : XENVIF_TRANSMITTER_RING)
    (Lists : List (List Nat)) (hlock : Ring.Lock.LockBit = true) :
    ∃ Ring1, QueuePacketsSeq Lists Ring = some Ring1 ∧
      (TransmitterRingSwizzle Ring1).PacketQueue =
        Ring.PacketQueue ++ Ring.Lock.Stash.reverse ++ Lists.flatten ∧
      (TransmitterRingSwizzle Ring1).Lock = { LockBit := true, Stash := [] } ∧
      (TransmitterRingSwizzle Ring1).PacketsQueued % 4294967296 =
        (Ring.PacketsQueued + Ring.Lock.Stash.length + Lists.flatten.length) % 4294967296 := by
  obtain ⟨Ring1, h1, h2, h3, h4⟩ := QueuePacketsSeq_locked Lists Ring hlock
  obtain ⟨s1, s2, s3⟩ := Swizzle_spec Ring1
  refine ⟨Ring1, h1, ?_, s1, ?_⟩
  · rw [s2, h3, h2]; simp
  · rw [s3, h4, h2]
    simp only [List.length_append, List.length_reverse]
    congr 1; omega

/-- C13 at a concrete ring: three lists pushed onto a locked fresh ring
whose queue holds packet 9. -/
theorem Swizzle_preserves_submission_order_witness :
    ∃ Ring1, QueuePacketsSeq [[1, 2], [3], [4, 5, 6]]
        { freshRing 100 1514 0 (fun _ => true) with
          Lock := { LockBit := true, Stash := [] }, PacketQueue := [9] } = some Ring1 ∧
      (TransmitterRingSwizzle Ring1).PacketQueue =
        [9] ++ ([] : List Nat).reverse ++ [[1, 2], [3], [4, 5, 6]].flatten ∧
      (TransmitterRingSwizzle Ring1).Lock = { LockBit := true, Stash := [] } ∧
      (TransmitterRingSwizzle Ring1).PacketsQueued % 4294967296 =
        (0 + ([] : List Nat).length + [[1, 2], [3], [4, 5, 6]].flatten.length) % 4294967296 :=
  Swizzle_preserves_submission_order
    { freshRing 100 1514 0 (fun _ => true) with
      Lock := { LockBit := true, Stash := [] }, PacketQueue := [9] }
    [[1, 2], [3], [4, 5, 6]] rfl

/-! ### What one pass of the request loop writes -/

theorem PostFragment_State (L : PostFragmentsLocals) (Ring : XENVIF_TRANSMITTER_RING)
    (Fragment : XENVIF_TRANSMITTER_FRAGMENT) :
    (PostFragment L Ring Fragment).2.State = Ring.State := by
  unfold PostFragment
  simp only []
  split_ifs <;> rfl

theorem PostFragment_Packets (L : PostFragmentsLocals) (Ring : XENVIF_TRANSMITTER_RING)
    (Fragment : XENVIF_TRANSMITTER_FRAGMENT) :
    (PostFragment L Ring Fragment).2.Packets = Ring.Packets := by
  unfold PostFragment
  simp only []
  split_ifs <;> rfl

/-- A pass that is not the first one writes one request with the flag
`NETTXF_more_data`. -/
theorem PostFragment_later (L : PostFragmentsLocals) (Ring : XENVIF_TRANSMITTER_RING)
    (Fragment : XENVIF_TRANSMITTER_FRAGMENT) (h : L.FirstRequest = false) :
    (PostFragment L Ring Fragment).1 =
      { req_prod := ULONG_inc L.req_prod, FirstRequest := false,
        PacketLength := L.PacketLength, req := some L.req_prod } ∧
    (PostFragment L Ring Fragment).2.RequestsPosted = ULONG_inc Ring.RequestsPosted ∧
    (PostFragment L Ring Fragment).2.Shared.Req =
      setAt Ring.Shared.Req (L.req_prod % XENVIF_TRANSMITTER_RING_SIZE)
        (RequestSlot.request (requestOf Fragment NETTXF_more_data)) ∧
    (PostFragment L Ring Fragment).2.Pending =
      setAt Ring.Pending Fragment.Id (some Fragment) := by
  unfold PostFragment
  simp only [h, Bool.false_and, if_false, Bool.false_eq_true]
  refine ⟨?_, ?_, ?_, ?_⟩ <;> trivial

/-- The first pass without an extra-info slot. -/
theorem PostFragment_first_plain (L : PostFragmentsLocals) (Ring : XENVIF_TRANSMITTER_RING)
    (Fragment : XENVIF_TRANSMITTER_FRAGMENT) (h : L.FirstRequest = true)
    (hx : needsExtra Ring.State.Send (some Fragment) = false) :
    (PostFragment L Ring Fragment).1 =
      { req_prod := ULONG_inc L.req_prod, FirstRequest := false,
        PacketLength := Fragment.Length, req := some L.req_prod } ∧
    (PostFragment L Ring Fragment).2.RequestsPosted = ULONG_inc Ring.RequestsPosted ∧
    (PostFragment L Ring Fragment).2.Shared.Req =
      setAt Ring.Shared.Req (L.req_prod % XENVIF_TRANSMITTER_RING_SIZE)
        (RequestSlot.request (requestOf Fragment (firstFlags Ring.State.Send Fragment))) ∧
    (PostFragment L Ring Fragment).2.Pending =
      setAt Ring.Pending Fragment.Id (some Fragment) := by
  unfold PostFragment firstFlags
  simp only [h, hx, Bool.true_and, Bool.and_false, if_false, if_true, Bool.false_eq_true]
  refine ⟨?_, ?_, ?_, ?_⟩ <;> trivial

/-- The first pass with an extra-info slot: the slot after the request
holds the extra-info record, and the fragment is stored with `Extra` set. -/
theorem PostFragment_first_extra (L : PostFragmentsLocals) (Ring : XENVIF_TRANSMITTER_RING)
    (Fragment : XENVIF_TRANSMITTER_FRAGMENT) (h : L.FirstRequest = true)
    (hx : needsExtra Ring.State.Send (some Fragment) = true) :
    (PostFragment L Ring Fragment).1 =
      { req_prod := ULONG_inc (ULONG_inc L.req_prod), FirstRequest := false,
        PacketLength := Fragment.Length, req := some L.req_prod } ∧
    (PostFragment L Ring Fragment).2.RequestsPosted =
      ULONG_inc (ULONG_inc Ring.RequestsPosted) ∧
    (PostFragment L Ring Fragment).2.Shared.Req =
      setAt (setAt Ring.Shared.Req (ULONG_inc L.req_prod % XENVIF_TRANSMITTER_RING_SIZE)
          (RequestSlot.extra (extraInfoFor Ring.State.Send Fragment)))
        (L.req_prod % XENVIF_TRANSMITTER_RING_SIZE)
        (RequestSlot.request (requestOf Fragment (firstFlags Ring.State.Send Fragment))) ∧
    (PostFragment L Ring Fragment).2.Pending =
      setAt Ring.Pending Fragment.Id (some { Fragment with Extra := true }) := by
  unfold PostFragment firstFlags
  simp only [h, hx, Bool.true_and, Bool.and_true, if_true]
  refine ⟨?_, ?_, ?_, ?_⟩ <;> trivial

/-! ### What the request loop writes -/

theorem PostFragment_Front (L : PostFragmentsLocals) (Ring : XENVIF_TRANSMITTER_RING)
    (Fragment : XENVIF_TRANSMITTER_FRAGMENT) :
    (PostFragment L Ring Fragment).2.Front = Ring.Front ∧
    (PostFragment L Ring Fragment).2.Shared.rsp_prod = Ring.Shared.rsp_prod ∧
    (PostFragment L Ring Fragment).2.Shared.req_prod = Ring.Shared.req_prod ∧
    (PostFragment L Ring Fragment).2.Shared.Rsp = Ring.Shared.Rsp ∧
    (PostFragment L Ring Fragment).2.RequestsPushed = Ring.RequestsPushed ∧
    (PostFragment L Ring Fragment).2.ResponsesProcessed = Ring.ResponsesProcessed ∧
    (PostFragment L Ring Fragment).2.FreeIds = Ring.FreeIds := by
  unfold PostFragment
  simp only []
  split_ifs <;> exact ⟨rfl, rfl, rfl, rfl, rfl, rfl, rfl⟩

theorem storePending_cons (Pending : Nat → Option XENVIF_TRANSMITTER_FRAGMENT)
    (F : XENVIF_TRANSMITTER_FRAGMENT) (rest : List XENVIF_TRANSMITTER_FRAGMENT) :
    storePending Pending (F :: rest) = storePending (setAt Pending F.Id (some F)) rest := rfl

/-- The passes of the request loop after the first one: the fragments
`fs` of `State->List` are written as consecutive requests with the flag
`NETTXF_more_data`, and stored in `Pending`. -/
theorem PostFragmentsLoop_later :
    ∀ (fs : List XENVIF_TRANSMITTER_FRAGMENT) (fuel : Nat) (L : PostFragmentsLocals)
      (Ring : XENVIF_TRANSMITTER_RING),
      Ring.State.List = fs → Ring.State.Count = fs.length → fs.length ≤ fuel →
      L.FirstRequest = false → fs.length ≤ 256 →
      (PostFragmentsLoop fuel L Ring).1.req_prod % 4294967296 =
        (L.req_prod + fs.length) % 4294967296 ∧
      (PostFragmentsLoop fuel L Ring).1.PacketLength = L.PacketLength ∧
      (PostFragmentsLoop fuel L Ring).1.FirstRequest = false ∧
      (fs ≠ [] → ∃ q, (PostFragmentsLoop fuel L Ring).1.req = some q ∧
        q % 256 = (L.req_prod + (fs.length - 1)) % 256) ∧
      (fs = [] → (PostFragmentsLoop fuel L Ring).1 = L) ∧
      (PostFragmentsLoop fuel L Ring).2.RequestsPosted % 4294967296 =
        (Ring.RequestsPosted + fs.length) % 4294967296 ∧
      (∀ k (hk : k < fs.length),
        (PostFragmentsLoop fuel L Ring).2.Shared.Req ((L.req_prod + k) % 256) =
          RequestSlot.request (requestOf fs[k] NETTXF_more_data)) ∧
      (∀ j, (∀ k, k < fs.length → j ≠ (L.req_prod + k) % 256) →
        (PostFragmentsLoop fuel L Ring).2.Shared.Req j = Ring.Shared.Req j) ∧
      (PostFragmentsLoop fuel L Ring).2.Pending = storePending Ring.Pending fs ∧
      (PostFragmentsLoop fuel L Ring).2.State.Count = 0 ∧
      (PostFragmentsLoop fuel L Ring).2.State.List = []
  | [], fuel, L, Ring, hl, hc, _, _, _ => by
    have hres : PostFragmentsLoop fuel L Ring = (L, Ring) := by
      cases fuel with
      | zero => rfl
      | succ n =>
        rw [PostFragmentsLoop, if_pos (by simpa using hc)]
    rw [hres]
    refine ⟨by simp, rfl, ?_, fun h => absurd rfl h, fun _ => rfl, by simp, ?_, fun _ _ => rfl,
      rfl, by simpa using hc, hl⟩
    · assumption
    · intro k hk; simp at hk
  | F :: rest, 0, L, Ring, _, _, hf, _, _ => by simp at hf
  | F :: rest, fuel + 1, L, Ring, hl, hc, hf, hfirst, hlen => by
    have hsz : XENVIF_TRANSMITTER_RING_SIZE = 256 := rfl
    have hc0 : ¬ Ring.State.Count = 0 := by rw [hc]; simp
    obtain ⟨p1, p2, p3, p4⟩ := PostFragment_later L
      { Ring with State := { Ring.State with Count := Ring.State.Count - 1, List := rest } }
      F hfirst
    have pS := PostFragment_State L
      { Ring with State := { Ring.State with Count := Ring.State.Count - 1, List := rest } } F
    have hstep : PostFragmentsLoop (fuel + 1) L Ring =
        PostFragmentsLoop fuel
          (PostFragment L { Ring with State := { Ring.State with
              Count := Ring.State.Count - 1, List := rest } } F).1
          (PostFragment L { Ring with State := { Ring.State with
              Count := Ring.State.Count - 1, List := rest } } F).2 := by
      rw [PostFragmentsLoop, if_neg hc0]
      split
      · next h0 => rw [hl] at h0; simp at h0
      · next F1 rest1 h1 =>
        rw [hl] at h1
        injection h1 with a b
        subst a; subst b; rfl
    rw [hstep]
    generalize PostFragment L { Ring with State := { Ring.State with
      Count := Ring.State.Count - 1, List := rest } } F = r at p1 p2 p3 p4 pS
    have p2 : r.2.RequestsPosted = ULONG_inc Ring.RequestsPosted := p2
    have p3 : r.2.Shared.Req = setAt Ring.Shared.Req (L.req_prod % XENVIF_TRANSMITTER_RING_SIZE)
        (RequestSlot.request (requestOf F NETTXF_more_data)) := p3
    have p4 : r.2.Pending = setAt Ring.Pending F.Id (some F) := p4
    have hl1 : r.2.State.List = rest := by rw [pS]
    have hc1 : r.2.State.Count = rest.length := by
      rw [pS]; show Ring.State.Count - 1 = rest.length
      rw [hc]; simp
    have hf1 : rest.length ≤ fuel := by simpa using hf
    have hfirst1 : r.1.FirstRequest = false := by rw [p1]
    have hlen1 : rest.length ≤ 256 := by simp at hlen; omega
    obtain ⟨i1, i2, i3, i4, i5, i6, i7, i8, i9, i10, i11⟩ :=
      PostFragmentsLoop_later rest fuel r.1 r.2 hl1 hc1 hf1 hfirst1 hlen1
    have hrp : r.1.req_prod = ULONG_inc L.req_prod := by rw [p1]
    have hlenF : (F :: rest).length = rest.length + 1 := rfl
    refine ⟨?_, ?_, i3, fun _ => ?_, fun h => by simp at h, ?_, ?_, ?_, ?_, i10, i11⟩
    · rw [i1, hrp, hlenF]; unfold ULONG_inc; omega
    · rw [i2, p1]
    · by_cases hr : rest = []
      · have := i5 hr
        rw [this, p1]
        refine ⟨L.req_prod, rfl, ?_⟩
        rw [hr]; simp
      · obtain ⟨q, hq1, hq2⟩ := i4 hr
        refine ⟨q, hq1, ?_⟩
        rw [hq2, hrp, hlenF]
        have : 1 ≤ rest.length := by
          cases rest with
          | nil => exact absurd rfl hr
          | cons _ _ => simp
        unfold ULONG_inc; omega
    · rw [i6, p2, hlenF]; unfold ULONG_inc; omega
    · intro k hk
      cases k with
      | zero =>
        have hne : ∀ k, k < rest.length → (L.req_prod + 0) % 256 ≠ (r.1.req_prod + k) % 256 := by
          intro k hk2
          rw [hrp]; unfold ULONG_inc; omega
        rw [i8 _ hne, p3, hsz]
        simp [setAt]
      | succ n =>
        have hn : n < rest.length := by simpa using hk
        have := i7 n hn
        rw [hrp] at this
        have he : (L.req_prod + (n + 1)) % 256 = (ULONG_inc L.req_prod + n) % 256 := by
          unfold ULONG_inc; omega
        rw [he, this]
        simp
    · intro j hj
      have hne : ∀ k, k < rest.length → j ≠ (r.1.req_prod + k) % 256 := by
        intro k hk2
        have := hj (k + 1) (by rw [hlenF]; omega)
        rw [hrp]
        have he : (L.req_prod + (k + 1)) % 256 = (ULONG_inc L.req_prod + k) % 256 := by
          unfold ULONG_inc; omega
        rw [← he]; exact this
      rw [i8 j hne, p3, hsz]
      have h0 := hj 0 (by rw [hlenF]; omega)
      simp only [setAt, Nat.add_zero] at h0 ⊢
      rw [if_neg h0]
    · rw [i9, p4, storePending_cons]

/-! ### What the whole request loop writes -/

/-- A pass of the request loop that finds a fragment. -/
theorem PostFragmentsLoop_step (fuel : Nat) (L : PostFragmentsLocals)
    (Ring : XENVIF_TRANSMITTER_RING) (F : XENVIF_TRANSMITTER_FRAGMENT)
    (rest : List XENVIF_TRANSMITTER_FRAGMENT)
    (hl : Ring.State.List = F :: rest) (hc0 : ¬ Ring.State.Count = 0) :
    PostFragmentsLoop (fuel + 1) L Ring =
      PostFragmentsLoop fuel
        (PostFragment L { Ring with State := { Ring.State with
            Count := Ring.State.Count - 1, List := rest } } F).1
        (PostFragment L { Ring with State := { Ring.State with
            Count := Ring.State.Count - 1, List := rest } } F).2 := by
  rw [PostFragmentsLoop, if_neg hc0]
  split
  · next h0 => rw [hl] at h0; simp at h0
  · next F1 rest1 h1 =>
    rw [hl] at h1
    injection h1 with a b
    subst a; subst b; rfl

/-- The request loop started with `FirstRequest` set on the fragments
`F :: rest`: `E` is 1 if an extra-info slot is written. -/
theorem PostFragmentsLoop_all (fuel : Nat) (L : PostFragmentsLocals)
    (Ring : XENVIF_TRANSMITTER_RING) (F : XENVIF_TRANSMITTER_FRAGMENT)
    (rest : List XENVIF_TRANSMITTER_FRAGMENT) (E : Nat)
    (hl : Ring.State.List = F :: rest) (hc : Ring.State.Count = rest.length + 1)
    (hf : rest.length + 1 ≤ fuel) (hfirst : L.FirstRequest = true)
    (hE : E = if needsExtra Ring.State.Send (some F) then 1 else 0)
    (hlen : rest.length + 1 + E ≤ 256) :
    (PostFragmentsLoop fuel L Ring).1.req_prod % 4294967296 =
      (L.req_prod + (rest.length + 1) + E) % 4294967296 ∧
    (PostFragmentsLoop fuel L Ring).1.PacketLength = F.Length ∧
    (∃ q, (PostFragmentsLoop fuel L Ring).1.req = some q ∧
      q % 256 = dataSlot L.req_prod E rest.length) ∧
    (PostFragmentsLoop fuel L Ring).2.RequestsPosted % 4294967296 =
      (Ring.RequestsPosted + (rest.length + 1) + E) % 4294967296 ∧
    (∀ k (hk : k < (F :: rest).length),
      (PostFragmentsLoop fuel L Ring).2.Shared.Req (dataSlot L.req_prod E k) =
        RequestSlot.request (requestOf (F :: rest)[k]
          (if k = 0 then firstFlags Ring.State.Send F else NETTXF_more_data))) ∧
    (E = 1 → (PostFragmentsLoop fuel L Ring).2.Shared.Req ((L.req_prod + 1) % 256) =
      RequestSlot.extra (extraInfoFor Ring.State.Send F)) ∧
    (∀ j, (∀ i, i < rest.length + 1 + E → j ≠ (L.req_prod + i) % 256) →
      (PostFragmentsLoop fuel L Ring).2.Shared.Req j = Ring.Shared.Req j) ∧
    (PostFragmentsLoop fuel L Ring).2.Pending =
      storePending Ring.Pending
        ((if E = 1 then { F with Extra := true } else F) :: rest) ∧
    (PostFragmentsLoop fuel L Ring).2.State.Count = 0 ∧
    (PostFragmentsLoop fuel L Ring).2.State.List = [] := by
  have hsz : XENVIF_TRANSMITTER_RING_SIZE = 256 := rfl
  cases fuel with
  | zero => simp at hf
  | succ fuel =>
  have hc0 : ¬ Ring.State.Count = 0 := by rw [hc]; simp
  rw [PostFragmentsLoop_step fuel L Ring F rest hl hc0]
  have pS := PostFragment_State L
    { Ring with State := { Ring.State with Count := Ring.State.Count - 1, List := rest } } F
  have hf1 : rest.length ≤ fuel := by omega
  by_cases hx : needsExtra Ring.State.Send (some F) = true
  · -- with an extra-info slot
    have hE1 : E = 1 := by rw [hE, if_pos hx]
    obtain ⟨p1, p2, p3, p4⟩ := PostFragment_first_extra L
      { Ring with State := { Ring.State with Count := Ring.State.Count - 1, List := rest } }
      F hfirst hx
    generalize PostFragment L { Ring with State := { Ring.State with
      Count := Ring.State.Count - 1, List := rest } } F = r at p1 p2 p3 p4 pS
    have p2 : r.2.RequestsPosted = ULONG_inc (ULONG_inc Ring.RequestsPosted) := p2
    have p3 : r.2.Shared.Req =
        setAt (setAt Ring.Shared.Req (ULONG_inc L.req_prod % 256)
          (RequestSlot.extra (extraInfoFor Ring.State.Send F)))
        (L.req_prod % 256)
        (RequestSlot.request (requestOf F (firstFlags Ring.State.Send F))) := p3
    have p4 : r.2.Pending = setAt Ring.Pending F.Id (some { F with Extra := true }) := p4
    have hl1 : r.2.State.List = rest := by rw [pS]
    have hc1 : r.2.State.Count = rest.length := by
      rw [pS]; show Ring.State.Count - 1 = rest.length
      rw [hc]; simp
    have hfirst1 : r.1.FirstRequest = false := by rw [p1]
    obtain ⟨i1, i2, _, i4, i5, i6, i7, i8, i9, i10, i11⟩ :=
      PostFragmentsLoop_later rest fuel r.1 r.2 hl1 hc1 hf1 hfirst1 (by omega)
    have hrp : r.1.req_prod = ULONG_inc (ULONG_inc L.req_prod) := by rw [p1]
    subst hE1
    refine ⟨?_, ?_, ?_, ?_, ?_, fun _ => ?_, ?_, ?_, i10, i11⟩
    · rw [i1, hrp]; unfold ULONG_inc; omega
    · rw [i2, p1]
    · by_cases hr : rest = []
      · rw [i5 hr, p1]
        refine ⟨L.req_prod, rfl, ?_⟩
        rw [hr]; simp [dataSlot, hsz]
      · obtain ⟨q, hq1, hq2⟩ := i4 hr
        refine ⟨q, hq1, ?_⟩
        have h1 : 1 ≤ rest.length := by
          cases rest with
          | nil => exact absurd rfl hr
          | cons _ _ => simp
        have h0 : ¬ rest.length = 0 := by omega
        rw [hq2, hrp]
        simp only [dataSlot, hsz, if_neg h0]
        unfold ULONG_inc; omega
    · rw [i6, p2]; unfold ULONG_inc; omega
    · intro k hk
      cases k with
      | zero =>
        have hne : ∀ k, k < rest.length →
            dataSlot L.req_prod 1 0 ≠ (r.1.req_prod + k) % 256 := by
          intro k hk2
          rw [hrp]; simp only [dataSlot, hsz, if_true]; unfold ULONG_inc; omega
        rw [i8 _ hne, p3]
        simp [setAt, dataSlot, hsz]
      | succ n =>
        have hn : n < rest.length := by simpa using hk
        have := i7 n hn
        rw [hrp] at this
        have he : dataSlot L.req_prod 1 (n + 1) = (ULONG_inc (ULONG_inc L.req_prod) + n) % 256 := by
          simp only [dataSlot, hsz]
          rw [if_neg (by omega)]
          unfold ULONG_inc; omega
        rw [he, this]
        simp
    · have hne : ∀ k, k < rest.length →
          (L.req_prod + 1) % 256 ≠ (r.1.req_prod + k) % 256 := by
        intro k hk2
        rw [hrp]; unfold ULONG_inc; omega
      rw [i8 _ hne, p3]
      have h1 : ¬ (L.req_prod + 1) % 256 = L.req_prod % 256 := by omega
      have h2 : (L.req_prod + 1) % 256 = ULONG_inc L.req_prod % 256 := by
        unfold ULONG_inc; omega
      simp only [setAt, if_neg h1]
      rw [if_pos h2]
    · intro j hj
      have hne : ∀ k, k < rest.length → j ≠ (r.1.req_prod + k) % 256 := by
        intro k hk2
        have := hj (k + 2) (by omega)
        rw [hrp]
        have he : (L.req_prod + (k + 2)) % 256 = (ULONG_inc (ULONG_inc L.req_prod) + k) % 256 := by
          unfold ULONG_inc; omega
        rw [← he]; exact this
      rw [i8 j hne, p3]
      have h0 := hj 0 (by omega)
      have h1 := hj 1 (by omega)
      have h2 : (L.req_prod + 1) % 256 = ULONG_inc L.req_prod % 256 := by
        unfold ULONG_inc; omega
      rw [h2] at h1
      simp only [setAt, Nat.add_zero] at h0 ⊢
      rw [if_neg h0, if_neg h1]
    · rw [i9, p4]; rfl
  · -- without an extra-info slot
    have hx : needsExtra Ring.State.Send (some F) = false := by
      cases h : needsExtra Ring.State.Send (some F) with
      | true => exact absurd h hx
      | false => rfl
    have hE0 : E = 0 := by rw [hE, hx]; rfl
    obtain ⟨p1, p2, p3, p4⟩ := PostFragment_first_plain L
      { Ring with State := { Ring.State with Count := Ring.State.Count - 1, List := rest } }
      F hfirst hx
    generalize PostFragment L { Ring with State := { Ring.State with
      Count := Ring.State.Count - 1, List := rest } } F = r at p1 p2 p3 p4 pS
    have p2 : r.2.RequestsPosted = ULONG_inc Ring.RequestsPosted := p2
    have p3 : r.2.Shared.Req =
        setAt Ring.Shared.Req (L.req_prod % 256)
        (RequestSlot.request (requestOf F (firstFlags Ring.State.Send F))) := p3
    have p4 : r.2.Pending = setAt Ring.Pending F.Id (some F) := p4
    have hl1 : r.2.State.List = rest := by rw [pS]
    have hc1 : r.2.State.Count = rest.length := by
      rw [pS]; show Ring.State.Count - 1 = rest.length
      rw [hc]; simp
    have hfirst1 : r.1.FirstRequest = false := by rw [p1]
    obtain ⟨i1, i2, _, i4, i5, i6, i7, i8, i9, i10, i11⟩ :=
      PostFragmentsLoop_later rest fuel r.1 r.2 hl1 hc1 hf1 hfirst1 (by omega)
    have hrp : r.1.req_prod = ULONG_inc L.req_prod := by rw [p1]
    subst hE0
    refine ⟨?_, ?_, ?_, ?_, ?_, fun h => by simp at h, ?_, ?_, i10, i11⟩
    · rw [i1, hrp]; unfold ULONG_inc; omega
    · rw [i2, p1]
    · by_cases hr : rest = []
      · rw [i5 hr, p1]
        refine ⟨L.req_prod, rfl, ?_⟩
        rw [hr]; simp [dataSlot, hsz]
      · obtain ⟨q, hq1, hq2⟩ := i4 hr
        refine ⟨q, hq1, ?_⟩
        have h1 : 1 ≤ rest.length := by
          cases rest with
          | nil => exact absurd rfl hr
          | cons _ _ => simp
        have h0 : ¬ rest.length = 0 := by omega
        rw [hq2, hrp]
        simp only [dataSlot, hsz, if_neg h0]
        unfold ULONG_inc; omega
    · rw [i6, p2]; unfold ULONG_inc; omega
    · intro k hk
      cases k with
      | zero =>
        have hne : ∀ k, k < rest.length →
            dataSlot L.req_prod 0 0 ≠ (r.1.req_prod + k) % 256 := by
          intro k hk2
          rw [hrp]; simp only [dataSlot, hsz, if_true]; unfold ULONG_inc; omega
        rw [i8 _ hne, p3]
        simp [setAt, dataSlot, hsz]
      | succ n =>
        have hn : n < rest.length := by simpa using hk
        have := i7 n hn
        rw [hrp] at this
        have he : dataSlot L.req_prod 0 (n + 1) = (ULONG_inc L.req_prod + n) % 256 := by
          simp only [dataSlot, hsz]
          rw [if_neg (by omega)]
          unfold ULONG_inc; omega
        rw [he, this]
        simp
    · intro j hj
      have hne : ∀ k, k < rest.length → j ≠ (r.1.req_prod + k) % 256 := by
        intro k hk2
        have := hj (k + 1) (by omega)
        rw [hrp]
        have he : (L.req_prod + (k + 1)) % 256 = (ULONG_inc L.req_prod + k) % 256 := by
          unfold ULONG_inc; omega
        rw [← he]; exact this
      rw [i8 j hne, p3]
      have h0 := hj 0 (by omega)
      simp only [setAt, Nat.add_zero] at h0 ⊢
      rw [if_neg h0]
    · rw [i9, p4]; rfl

/-! ### What a successful post writes -/

theorem clearFlag_request (req : netif_tx_request_t) :
    clearFlag (RequestSlot.request req) =
      RequestSlot.request { req with flags := req.flags &&& 0xFFFB } := rfl

theorem clearMoreData_Req (Ring : XENVIF_TRANSMITTER_RING) (idx : Nat) :
    (clearMoreData Ring idx).Shared.Req =
      setAt Ring.Shared.Req (idx % 256) (clearFlag (Ring.Shared.Req (idx % 256))) := by
  have hsz : XENVIF_TRANSMITTER_RING_SIZE = 256 := rfl
  unfold clearMoreData
  rw [hsz]
  split
  · next req h => rw [h]; rfl
  · next h =>
    funext j
    simp only [setAt]
    split_ifs with hj
    · rw [hj]
      cases hs : Ring.Shared.Req (idx % 256) with
      | request req => exact absurd hs (h req)
      | empty => rfl
      | extra info => rfl
    · rfl

theorem PostFragmentsFinish_fields (Ring : XENVIF_TRANSMITTER_RING) (L : PostFragmentsLocals) :
    (PostFragmentsFinish Ring L).Front =
      { Ring.Front with req_prod_pvt := L.req_prod } ∧
    (PostFragmentsFinish Ring L).RequestsPosted = Ring.RequestsPosted ∧
    (PostFragmentsFinish Ring L).Pending = Ring.Pending ∧
    (PostFragmentsFinish Ring L).Packets = Ring.Packets ∧
    (PostFragmentsFinish Ring L).State = { Ring.State with List := [] } ∧
    (PostFragmentsFinish Ring L).Shared.Req =
      (match L.req with
       | some idx => setAt Ring.Shared.Req (idx % 256) (clearFlag (Ring.Shared.Req (idx % 256)))
       | none => Ring.Shared.Req) := by
  unfold PostFragmentsFinish
  cases hq : L.req with
  | none => exact ⟨rfl, rfl, rfl, rfl, rfl, rfl⟩
  | some idx =>
    have h := clearMoreData_Req Ring idx
    simp only []
    refine ⟨?_, ?_, ?_, ?_, ?_, h⟩ <;> (unfold clearMoreData; split <;> rfl)

/-- The result of `__TransmitterRingPostFragments` when the fragments fit. -/
theorem PostFragments_result (Ring : XENVIF_TRANSMITTER_RING)
    (hle : ¬ ULONG_add Ring.State.Count (PostFragmentsExtra Ring.State) >
        RING_SLOTS_AVAILABLE Ring.Front.req_prod_pvt Ring.Front.rsp_cons) :
    (__TransmitterRingPostFragments Ring).1 = STATUS_SUCCESS ∧
    (__TransmitterRingPostFragments Ring).2 =
      (match Ring.State.Packet with
       | none => PostFragmentsFinish (PostFragmentsLoop Ring.State.Count
          { req_prod := Ring.Front.req_prod_pvt, FirstRequest := true, PacketLength := 0,
            req := none } Ring).2 (PostFragmentsLoop Ring.State.Count
          { req_prod := Ring.Front.req_prod_pvt, FirstRequest := true, PacketLength := 0,
            req := none } Ring).1
       | some Packet => PostFragmentsPacket (PostFragmentsFinish (PostFragmentsLoop Ring.State.Count
          { req_prod := Ring.Front.req_prod_pvt, FirstRequest := true, PacketLength := 0,
            req := none } Ring).2 (PostFragmentsLoop Ring.State.Count
          { req_prod := Ring.Front.req_prod_pvt, FirstRequest := true, PacketLength := 0,
            req := none } Ring).1) Packet (PostFragmentsLoop Ring.State.Count
          { req_prod := Ring.Front.req_prod_pvt, FirstRequest := true, PacketLength := 0,
            req := none } Ring).1.PacketLength Ring.State.Payload.Length) := by
  simp only [__TransmitterRingPostFragments, if_neg hle]
  cases Ring.State.Packet <;> exact ⟨rfl, rfl⟩

theorem PostFragmentsExtra_cons (Ring : XENVIF_TRANSMITTER_RING)
    (F : XENVIF_TRANSMITTER_FRAGMENT) (rest : List XENVIF_TRANSMITTER_FRAGMENT)
    (hl : Ring.State.List = F :: rest) :
    PostFragmentsExtra Ring.State = if needsExtra Ring.State.Send (some F) then 1 else 0 := by
  unfold PostFragmentsExtra
  rw [hl]; rfl

theorem dataSlot_ne (p E k n : Nat) (hE : E ≤ 1) (hk : k < n) (hn : n + 1 + E ≤ 256) :
    dataSlot p E k ≠ dataSlot p E n := by
  have hsz : XENVIF_TRANSMITTER_RING_SIZE = 256 := rfl
  simp only [dataSlot, hsz]
  have hn0 : ¬ n = 0 := by omega
  rw [if_neg hn0]
  split_ifs <;> omega

theorem dataSlot_eq (p E k : Nat) :
    ∃ i, i ≤ k + E ∧ dataSlot p E k = (p + i) % 256 := by
  have hsz : XENVIF_TRANSMITTER_RING_SIZE = 256 := rfl
  simp only [dataSlot, hsz]
  split_ifs
  · exact ⟨k, by omega, rfl⟩
  · exact ⟨k + E, by omega, by rw [Nat.add_assoc]⟩

/-- The request loop does not write the private indices, the shared
indices, the responses or the push and response counters. -/
theorem PostFragmentsLoop_Front :
    ∀ (fuel : Nat) (L : PostFragmentsLocals) (Ring : XENVIF_TRANSMITTER_RING),
      (PostFragmentsLoop fuel L Ring).2.Front = Ring.Front ∧
      (PostFragmentsLoop fuel L Ring).2.Shared.rsp_prod = Ring.Shared.rsp_prod ∧
      (PostFragmentsLoop fuel L Ring).2.Shared.req_prod = Ring.Shared.req_prod ∧
      (PostFragmentsLoop fuel L Ring).2.Shared.Rsp = Ring.Shared.Rsp ∧
      (PostFragmentsLoop fuel L Ring).2.RequestsPushed = Ring.RequestsPushed ∧
      (PostFragmentsLoop fuel L Ring).2.ResponsesProcessed = Ring.ResponsesProcessed ∧
      (PostFragmentsLoop fuel L Ring).2.FreeIds = Ring.FreeIds
  | 0, _, _ => ⟨rfl, rfl, rfl, rfl, rfl, rfl, rfl⟩
  | fuel + 1, L, Ring => by
    rw [PostFragmentsLoop]
    split
    · exact ⟨rfl, rfl, rfl, rfl, rfl, rfl, rfl⟩
    · split
      · exact ⟨rfl, rfl, rfl, rfl, rfl, rfl, rfl⟩
      · next Fragment rest hl =>
        simp only []
        obtain ⟨a1, a2, a3, a4, a5, a6, a7⟩ := PostFragmentsLoop_Front fuel
          (PostFragment L { Ring with State := { Ring.State with
            Count := Ring.State.Count - 1, List := rest } } Fragment).1
          (PostFragment L { Ring with State := { Ring.State with
            Count := Ring.State.Count - 1, List := rest } } Fragment).2
        obtain ⟨b1, b2, b3, b4, b5, b6, b7⟩ := PostFragment_Front L
          { Ring with State := { Ring.State with
            Count := Ring.State.Count - 1, List := rest } } Fragment
        exact ⟨a1.trans b1, a2.trans b2, a3.trans b3, a4.trans b4, a5.trans b5,
          a6.trans b6, a7.trans b7⟩

/-- What a successful `__TransmitterRingPostFragments` writes, for the
fragments `F :: rest` in `State->List`: the private producer index and
`RequestsPosted` advance by the number of slots, the data requests lie at
the slots `dataSlot`, the extra-info record (if any) in the slot after the
first request, no other slot changes, the fragments are stored in `Pending`,
and the fragment list of `State` is empty. -/
theorem PostFragments_writes (Ring : XENVIF_TRANSMITTER_RING)
    (F : XENVIF_TRANSMITTER_FRAGMENT) (rest : List XENVIF_TRANSMITTER_FRAGMENT)
    (hl : Ring.State.List = F :: rest) (hc : Ring.State.Count = rest.length + 1)
    (hle : ¬ ULONG_add Ring.State.Count (PostFragmentsExtra Ring.State) >
        RING_SLOTS_AVAILABLE Ring.Front.req_prod_pvt Ring.Front.rsp_cons)
    (hlen : Ring.State.Count + PostFragmentsExtra Ring.State ≤ XENVIF_TRANSMITTER_RING_SIZE) :
    (__TransmitterRingPostFragments Ring).1 = STATUS_SUCCESS ∧
    (__TransmitterRingPostFragments Ring).2.Front.req_prod_pvt % 4294967296 =
      (Ring.Front.req_prod_pvt + Ring.State.Count + PostFragmentsExtra Ring.State) %
        4294967296 ∧
    (__TransmitterRingPostFragments Ring).2.Front.rsp_cons = Ring.Front.rsp_cons ∧
    (__TransmitterRingPostFragments Ring).2.RequestsPosted % 4294967296 =
      (Ring.RequestsPosted + Ring.State.Count + PostFragmentsExtra Ring.State) %
        4294967296 ∧
    (∀ k (hk : k < (F :: rest).length),
      (__TransmitterRingPostFragments Ring).2.Shared.Req
          (dataSlot Ring.Front.req_prod_pvt (PostFragmentsExtra Ring.State) k) =
        RequestSlot.request (requestOf (F :: rest)[k]
          (postedFlags Ring.State.Send F (rest.length + 1) k))) ∧
    (PostFragmentsExtra Ring.State = 1 →
      (__TransmitterRingPostFragments Ring).2.Shared.Req
          ((Ring.Front.req_prod_pvt + 1) % 256) =
        RequestSlot.extra (extraInfoFor Ring.State.Send F)) ∧
    (∀ j, (∀ i, i < Ring.State.Count + PostFragmentsExtra Ring.State →
          j ≠ (Ring.Front.req_prod_pvt + i) % 256) →
      (__TransmitterRingPostFragments Ring).2.Shared.Req j = Ring.Shared.Req j) ∧
    (__TransmitterRingPostFragments Ring).2.Pending =
      storePending Ring.Pending
        ((if PostFragmentsExtra Ring.State = 1 then { F with Extra := true } else F) :: rest) ∧
    (__TransmitterRingPostFragments Ring).2.State.Count = 0 ∧
    (__TransmitterRingPostFragments Ring).2.State.List = [] ∧
    (∀ Packet, Ring.State.Packet = some Packet →
      (__TransmitterRingPostFragments Ring).2.Packets =
        setAt Ring.Packets Packet
          { Ring.Packets Packet with
            Completion := { Type_ := (Ring.Packets Packet).DestinationType
                            Status := XENVIF_TRANSMITTER_PACKET_PENDING
                            PacketLength := F.Length % 65536
                            PayloadLength := Ring.State.Payload.Length % 65536 } } ∧
      (__TransmitterRingPostFragments Ring).2.State = XENVIF_TRANSMITTER_STATE.zero) ∧
    (Ring.State.Packet = none →
      (__TransmitterRingPostFragments Ring).2.Packets = Ring.Packets) := by
  have hsz : XENVIF_TRANSMITTER_RING_SIZE = 256 := rfl
  obtain ⟨hst, hres⟩ := PostFragments_result Ring hle
  have hE := PostFragmentsExtra_cons Ring F rest hl
  have hE1 : PostFragmentsExtra Ring.State ≤ 1 := by rw [hE]; split_ifs <;> omega
  rw [hsz, hc] at hlen
  obtain ⟨a1, a2, ⟨q, a3, a3'⟩, a4, a5, a6, a7, a8, a9, a10⟩ :=
    PostFragmentsLoop_all Ring.State.Count
      { req_prod := Ring.Front.req_prod_pvt, FirstRequest := true, PacketLength := 0,
        req := none } Ring F rest (PostFragmentsExtra Ring.State) hl hc (by omega) rfl hE hlen
  obtain ⟨b3, _⟩ := PostFragmentsLoop_Front Ring.State.Count
      { req_prod := Ring.Front.req_prod_pvt, FirstRequest := true, PacketLength := 0,
        req := none } Ring
  have hfr := postFrame_PostFragmentsLoop Ring.State.Count
      { req_prod := Ring.Front.req_prod_pvt, FirstRequest := true, PacketLength := 0,
        req := none } Ring
  have b1 : (PostFragmentsLoop Ring.State.Count
      { req_prod := Ring.Front.req_prod_pvt, FirstRequest := true, PacketLength := 0,
        req := none } Ring).2.Packets = Ring.Packets := by
    have := congrArg XENVIF_TRANSMITTER_RING.Packets hfr
    exact this
  have b2 : (PostFragmentsLoop Ring.State.Count
      { req_prod := Ring.Front.req_prod_pvt, FirstRequest := true, PacketLength := 0,
        req := none } Ring).2.State.Packet = Ring.State.Packet := by
    have := congrArg (fun R => R.State.Packet) hfr
    exact this
  rw [hres]
  generalize PostFragmentsLoop Ring.State.Count
      { req_prod := Ring.Front.req_prod_pvt, FirstRequest := true, PacketLength := 0,
        req := none } Ring = r at *
  obtain ⟨f1, f2, f3, f4, f5, f6⟩ := PostFragmentsFinish_fields r.2 r.1
  rw [a3] at f6
  have f6 : (PostFragmentsFinish r.2 r.1).Shared.Req =
      setAt r.2.Shared.Req (q % 256) (clearFlag (r.2.Shared.Req (q % 256))) := f6
  -- the facts about the ring that `PostFragmentsFinish` returns
  have g1 : (PostFragmentsFinish r.2 r.1).Front.req_prod_pvt % 4294967296 =
      (Ring.Front.req_prod_pvt + Ring.State.Count + PostFragmentsExtra Ring.State) %
        4294967296 := by
    rw [f1, hc]; exact a1
  have hfrF := (postFrame_PostFragmentsFinish r.2 r.1).trans hfr
  have g2 : (PostFragmentsFinish r.2 r.1).Front.rsp_cons = Ring.Front.rsp_cons := by
    rw [f1]
    show r.2.Front.rsp_cons = _
    rw [b3]
  have g3 : (PostFragmentsFinish r.2 r.1).RequestsPosted % 4294967296 =
      (Ring.RequestsPosted + Ring.State.Count + PostFragmentsExtra Ring.State) %
        4294967296 := by
    rw [f2, hc]; exact a4
  have g4 : ∀ k (hk : k < (F :: rest).length),
      (PostFragmentsFinish r.2 r.1).Shared.Req
          (dataSlot Ring.Front.req_prod_pvt (PostFragmentsExtra Ring.State) k) =
        RequestSlot.request (requestOf (F :: rest)[k]
          (postedFlags Ring.State.Send F (rest.length + 1) k)) := by
    intro k hk
    have hk' : k < rest.length + 1 := hk
    rw [f6]
    by_cases hlast : k + 1 = rest.length + 1
    · have hke : k = rest.length := by omega
      subst hke
      rw [a3']
      simp only [setAt, if_true]
      rw [a5 rest.length hk, clearFlag_request]
      simp [postedFlags, requestOf]
    · have hne := dataSlot_ne Ring.Front.req_prod_pvt (PostFragmentsExtra Ring.State) k
        rest.length hE1 (by omega) hlen
      rw [a3']
      simp only [setAt, if_neg hne]
      rw [a5 k hk]
      simp [postedFlags, hlast]
  have g5 : PostFragmentsExtra Ring.State = 1 →
      (PostFragmentsFinish r.2 r.1).Shared.Req ((Ring.Front.req_prod_pvt + 1) % 256) =
        RequestSlot.extra (extraInfoFor Ring.State.Send F) := by
    intro h1
    rw [f6, a3']
    have hne : ¬ (Ring.Front.req_prod_pvt + 1) % 256 =
        dataSlot Ring.Front.req_prod_pvt (PostFragmentsExtra Ring.State) rest.length := by
      rw [h1] at hlen ⊢
      simp only [dataSlot, hsz]
      split_ifs <;> omega
    simp only [setAt, if_neg hne]
    exact a6 h1
  have g6 : ∀ j, (∀ i, i < Ring.State.Count + PostFragmentsExtra Ring.State →
          j ≠ (Ring.Front.req_prod_pvt + i) % 256) →
      (PostFragmentsFinish r.2 r.1).Shared.Req j = Ring.Shared.Req j := by
    intro j hj
    rw [hc] at hj
    rw [f6, a3']
    obtain ⟨i, hi1, hi2⟩ := dataSlot_eq Ring.Front.req_prod_pvt
      (PostFragmentsExtra Ring.State) rest.length
    have hne : ¬ j = dataSlot Ring.Front.req_prod_pvt (PostFragmentsExtra Ring.State)
        rest.length := by
      rw [hi2]; exact hj i (by omega)
    simp only [setAt, if_neg hne]
    exact a7 j hj
  have g7 : (PostFragmentsFinish r.2 r.1).Pending =
      storePending Ring.Pending
        ((if PostFragmentsExtra Ring.State = 1 then { F with Extra := true } else F) :: rest) := by
    rw [f3]; exact a8
  have g8 : (PostFragmentsFinish r.2 r.1).State.Count = 0 := by rw [f5]; exact a9
  have g9 : (PostFragmentsFinish r.2 r.1).State.List = [] := by rw [f5]
  have g10 : (PostFragmentsFinish r.2 r.1).Packets = Ring.Packets := by rw [f4]; exact b1
  cases hp : Ring.State.Packet with
  | none =>
    refine ⟨hst, g1, g2, g3, g4, g5, g6, g7, g8, g9, fun _ h => by simp at h, fun _ => g10⟩
  | some Packet =>
    refine ⟨hst, g1, g2, g3, g4, g5, g6, g7, g8, g9, ?_, fun h => by simp at h⟩
    intro P hP
    injection hP with hP
    subst hP
    constructor
    · show setAt (PostFragmentsFinish r.2 r.1).Packets Packet _ = _
      rw [g10, a2]
    · show ({ (PostFragmentsFinish r.2 r.1).State with
          StartVa := false
          Info := XENVIF_PACKET_INFO.zero
          Payload := XENVIF_PACKET_PAYLOAD.zero
          Send := XENVIF_TRANSMITTER_PACKET_SEND_INFO.zero
          Packet := none } : XENVIF_TRANSMITTER_STATE) = _
      rw [f5]
      show ({ Packet := none, Send := XENVIF_TRANSMITTER_PACKET_SEND_INFO.zero,
              StartVa := false, Info := XENVIF_PACKET_INFO.zero,
              Payload := XENVIF_PACKET_PAYLOAD.zero, Count := r.2.State.Count,
              List := [] } : XENVIF_TRANSMITTER_STATE) = _
      rw [a9]; rfl

/-! ### C16: the data requests of a post -/

/-- The flags of the first request, as a number. -/
theorem firstFlags_eq (Send : XENVIF_TRANSMITTER_PACKET_SEND_INFO)
    (F : XENVIF_TRANSMITTER_FRAGMENT) :
    firstFlags Send F =
      4 + (if (Send.OffloadIpVersion4TcpChecksum || Send.OffloadIpVersion4UdpChecksum ||
               Send.OffloadIpVersion6TcpChecksum || Send.OffloadIpVersion6UdpChecksum) = true
           then 3 else 0) +
        (if needsExtra Send (some F) = true then 8 else 0) := by
  unfold firstFlags
  simp only []
  split_ifs <;> rfl

/-- `NETTXF_more_data` is set on every data request of a post but the
last. -/
theorem postedFlags_more_data (Send : XENVIF_TRANSMITTER_PACKET_SEND_INFO)
    (F : XENVIF_TRANSMITTER_FRAGMENT) (N k : Nat) :
    postedFlags Send F N k &&& NETTXF_more_data =
      if k + 1 = N then 0 else NETTXF_more_data := by
  unfold postedFlags
  simp only [firstFlags_eq]
  split_ifs <;> rfl

/-- C16: let `__TransmitterRingPostFragments` succeed on a ring whose `State`
holds the `N >= 1` fragments `State.List` (with `State.Count = N` and
`State.Count + Extra` within the ring size, as the source asserts).  Then
the `N` data requests lie in `N` different slots that follow each other in
ring order from the old private producer index (`dataSlot`, with the
extra-info slot, if any, between the first and the second), and the `k`-th
one carries the id of the `k`-th fragment of the list, its offset and its
length cast to `USHORT` (so the offset and the length themselves when they
are below 65536), and has `NETTXF_more_data` set iff it is not the last one;
for `N = 1` the only request has the flag clear. -/
theorem PostFragments_data_requests (Ring : XENVIF_TRANSMITTER_RING)
    (hne : Ring.State.List ≠ [])
    (hc : Ring.State.Count = Ring.State.List.length)
    (hlen : Ring.State.Count + PostFragmentsExtra Ring.State ≤ XENVIF_TRANSMITTER_RING_SIZE)
    (hok : (__TransmitterRingPostFragments Ring).1 = STATUS_SUCCESS) :
    (∀ k (hk : k < Ring.State.List.length),
      ∃ req : netif_tx_request_t,
        (__TransmitterRingPostFragments Ring).2.Shared.Req
            (dataSlot Ring.Front.req_prod_pvt (PostFragmentsExtra Ring.State) k) =
          RequestSlot.request req ∧
        req.id = Ring.State.List[k].Id ∧
        req.offset = Ring.State.List[k].Offset % 65536 ∧
        req.size = Ring.State.List[k].Length % 65536 ∧
        (Ring.State.List[k].Offset < 65536 → req.offset = Ring.State.List[k].Offset) ∧
        (Ring.State.List[k].Length < 65536 → req.size = Ring.State.List[k].Length) ∧
        req.flags &&& NETTXF_more_data =
          (if k + 1 = Ring.State.List.length then 0 else NETTXF_more_data)) ∧
    (∀ k n, k < n → n < Ring.State.List.length →
      dataSlot Ring.Front.req_prod_pvt (PostFragmentsExtra Ring.State) k ≠
        dataSlot Ring.Front.req_prod_pvt (PostFragmentsExtra Ring.State) n) := by
  have hle : ¬ ULONG_add Ring.State.Count (PostFragmentsExtra Ring.State) >
      RING_SLOTS_AVAILABLE Ring.Front.req_prod_pvt Ring.Front.rsp_cons := by
    rcases PostFragments_cases Ring with ⟨_, heq⟩ | ⟨h, _⟩
    · rw [heq] at hok; simp at hok
    · exact h
  cases hl : Ring.State.List with
  | nil => exact absurd hl hne
  | cons F rest =>
    have hc' : Ring.State.Count = rest.length + 1 := by rw [hc, hl]; rfl
    obtain ⟨_, _, _, _, w, _⟩ := PostFragments_writes Ring F rest hl hc' hle hlen
    have hE1 : PostFragmentsExtra Ring.State ≤ 1 := by
      rw [PostFragmentsExtra_cons Ring F rest hl]; split_ifs <;> omega
    constructor
    · intro k hk
      have hk' : k < (F :: rest).length := hk
      refine ⟨_, w k hk', rfl, rfl, rfl, fun h => Nat.mod_eq_of_lt h,
        fun h => Nat.mod_eq_of_lt h, ?_⟩
      exact postedFlags_more_data _ _ _ _
    · intro k n hkn hn
      have hsz : XENVIF_TRANSMITTER_RING_SIZE = 256 := rfl
      rw [hsz, hc'] at hlen
      have hn' : n < rest.length + 1 := hn
      exact dataSlot_ne _ _ k n hE1 hkn (by omega)

/-- C16 at a concrete ring: the two fragments of a prepared 1000-byte
packet are posted. -/
theorem PostFragments_data_requests_witness :
    (preparedRing.State.List ≠ [] ∧
      (__TransmitterRingPostFragments preparedRing).1 = STATUS_SUCCESS) ∧
    ((∀ k (hk : k < preparedRing.State.List.length),
      ∃ req : netif_tx_request_t,
        (__TransmitterRingPostFragments preparedRing).2.Shared.Req
            (dataSlot preparedRing.Front.req_prod_pvt
              (PostFragmentsExtra preparedRing.State) k) =
          RequestSlot.request req ∧
        req.id = preparedRing.State.List[k].Id ∧
        req.offset = preparedRing.State.List[k].Offset % 65536 ∧
        req.size = preparedRing.State.List[k].Length % 65536 ∧
        (preparedRing.State.List[k].Offset < 65536 →
          req.offset = preparedRing.State.List[k].Offset) ∧
        (preparedRing.State.List[k].Length < 65536 →
          req.size = preparedRing.State.List[k].Length) ∧
        req.flags &&& NETTXF_more_data =
          (if k + 1 = preparedRing.State.List.length then 0 else NETTXF_more_data)) ∧
    (∀ k n, k < n → n < preparedRing.State.List.length →
      dataSlot preparedRing.Front.req_prod_pvt (PostFragmentsExtra preparedRing.State) k ≠
        dataSlot preparedRing.Front.req_prod_pvt (PostFragmentsExtra preparedRing.State) n)) :=
  ⟨⟨by decide, by decide⟩,
   PostFragments_data_requests preparedRing (by decide) (by decide) (by decide) (by decide)⟩

/-! ### The caches and the grant table, call by call -/

theorem GetBuffer_some {Ring Ring1 : XENVIF_TRANSMITTER_RING} {Buffer : XENVIF_TRANSMITTER_BUFFER}
    (h : __TransmitterGetBuffer Ring = (some Buffer, Ring1)) :
    Buffer = { Pfn := Ring.Tick, ByteCount := 0, Context := none, Reference := 0 } ∧
    Ring.Oracle Ring.Tick = true ∧
    Ring1.Tick = Ring.Tick + 1 ∧ Ring1.Oracle = Ring.Oracle ∧
    Ring1.GrantsHeld = Ring.GrantsHeld ∧ Ring1.BuffersHeld = Ring.BuffersHeld + 1 ∧
    Ring1.FreeIds = Ring.FreeIds ∧ Ring1.Packets = Ring.Packets ∧ Ring1.State = Ring.State := by
  unfold __TransmitterGetBuffer at h
  split at h
  · next ho =>
    injection h with h1 h2
    injection h1 with h1
    subst h1; subst h2
    exact ⟨rfl, ho, rfl, rfl, rfl, rfl, rfl, rfl, rfl⟩
  · injection h with h1 h2
    cases h1

theorem GetBuffer_none {Ring Ring1 : XENVIF_TRANSMITTER_RING}
    (h : __TransmitterGetBuffer Ring = (none, Ring1)) :
    Ring.Oracle Ring.Tick = false ∧
    Ring1.Tick = Ring.Tick + 1 ∧ Ring1.Oracle = Ring.Oracle ∧
    Ring1.GrantsHeld = Ring.GrantsHeld ∧ Ring1.BuffersHeld = Ring.BuffersHeld ∧
    Ring1.FreeIds = Ring.FreeIds ∧ Ring1.Packets = Ring.Packets ∧ Ring1.State = Ring.State := by
  unfold __TransmitterGetBuffer at h
  split at h
  · injection h with h1 h2
    cases h1
  · next ho =>
    injection h with h1 h2
    subst h2
    exact ⟨by simpa using ho, rfl, rfl, rfl, rfl, rfl, rfl, rfl⟩

theorem GetFragment_some {Ring Ring1 : XENVIF_TRANSMITTER_RING}
    {Fragment : XENVIF_TRANSMITTER_FRAGMENT}
    (h : __TransmitterGetFragment Ring = (some Fragment, Ring1)) :
    Fragment = { Id := Fragment.Id, Context := FragmentContext.INVALID, Entry := none,
                 Offset := 0, Length := 0, Extra := false } ∧
    Ring.Oracle Ring.Tick = true ∧
    Ring.FreeIds = Fragment.Id :: Ring1.FreeIds ∧
    Ring1.Tick = Ring.Tick + 1 ∧ Ring1.Oracle = Ring.Oracle ∧
    Ring1.GrantsHeld = Ring.GrantsHeld ∧ Ring1.BuffersHeld = Ring.BuffersHeld ∧
    Ring1.Packets = Ring.Packets ∧ Ring1.State = Ring.State := by
  unfold __TransmitterGetFragment at h
  split at h
  · next ho =>
    split at h
    · injection h with h1 h2
      cases h1
    · next Id rest hid =>
      injection h with h1 h2
      injection h1 with h1
      subst h1; subst h2
      exact ⟨rfl, ho, hid, rfl, rfl, rfl, rfl, rfl, rfl⟩
  · injection h with h1 h2
    cases h1

theorem GetFragment_none {Ring Ring1 : XENVIF_TRANSMITTER_RING}
    (h : __TransmitterGetFragment Ring = (none, Ring1)) :
    (Ring.Oracle Ring.Tick = false ∨ Ring.FreeIds = []) ∧
    Ring1.Tick = Ring.Tick + 1 ∧ Ring1.Oracle = Ring.Oracle ∧
    Ring1.GrantsHeld = Ring.GrantsHeld ∧ Ring1.BuffersHeld = Ring.BuffersHeld ∧
    Ring1.FreeIds = Ring.FreeIds ∧ Ring1.Packets = Ring.Packets ∧ Ring1.State = Ring.State := by
  unfold __TransmitterGetFragment at h
  split at h
  · split at h
    · next hid =>
      injection h with h1 h2
      subst h2
      exact ⟨Or.inr hid, rfl, rfl, rfl, rfl, rfl, rfl, rfl⟩
    · injection h with h1 h2
      cases h1
  · next ho =>
    injection h with h1 h2
    subst h2
    exact ⟨Or.inl (by simpa using ho), rfl, rfl, rfl, rfl, rfl, rfl, rfl⟩

theorem Permit_some {Ring Ring1 : XENVIF_TRANSMITTER_RING} {Pfn Entry : Nat}
    (h : PermitForeignAccess Ring Pfn = (some Entry, Ring1)) :
    Entry = Pfn ∧
    Ring.Oracle Ring.Tick = true ∧
    Ring1.Tick = Ring.Tick + 1 ∧ Ring1.Oracle = Ring.Oracle ∧
    Ring1.GrantsHeld = Ring.GrantsHeld + 1 ∧ Ring1.BuffersHeld = Ring.BuffersHeld ∧
    Ring1.FreeIds = Ring.FreeIds ∧ Ring1.Packets = Ring.Packets ∧ Ring1.State = Ring.State := by
  unfold PermitForeignAccess at h
  split at h
  · next ho =>
    injection h with h1 h2
    injection h1 with h1
    subst h1; subst h2
    exact ⟨rfl, ho, rfl, rfl, rfl, rfl, rfl, rfl, rfl⟩
  · injection h with h1 h2
    cases h1

theorem Permit_none {Ring Ring1 : XENVIF_TRANSMITTER_RING} {Pfn : Nat}
    (h : PermitForeignAccess Ring Pfn = (none, Ring1)) :
    Ring.Oracle Ring.Tick = false ∧
    Ring1.Tick = Ring.Tick + 1 ∧ Ring1.Oracle = Ring.Oracle ∧
    Ring1.GrantsHeld = Ring.GrantsHeld ∧ Ring1.BuffersHeld = Ring.BuffersHeld ∧
    Ring1.FreeIds = Ring.FreeIds ∧ Ring1.Packets = Ring.Packets ∧ Ring1.State = Ring.State := by
  unfold PermitForeignAccess at h
  split at h
  · injection h with h1 h2
    cases h1
  · next ho =>
    injection h with h1 h2
    subst h2
    exact ⟨by simpa using ho, rfl, rfl, rfl, rfl, rfl, rfl, rfl⟩

theorem Revoke_fields (Ring : XENVIF_TRANSMITTER_RING) (Entry : Option Nat) :
    (RevokeForeignAccess Ring Entry).GrantsHeld =
      (if Entry.isSome then Ring.GrantsHeld - 1 else Ring.GrantsHeld) ∧
    (RevokeForeignAccess Ring Entry).Tick = Ring.Tick ∧
    (RevokeForeignAccess Ring Entry).Oracle = Ring.Oracle ∧
    (RevokeForeignAccess Ring Entry).BuffersHeld = Ring.BuffersHeld ∧
    (RevokeForeignAccess Ring Entry).FreeIds = Ring.FreeIds ∧
    (RevokeForeignAccess Ring Entry).Packets = Ring.Packets ∧
    (RevokeForeignAccess Ring Entry).State = Ring.State := by
  cases Entry <;> exact ⟨rfl, rfl, rfl, rfl, rfl, rfl, rfl⟩

theorem releaseContext_fields (Ring : XENVIF_TRANSMITTER_RING)
    (Fragment : XENVIF_TRANSMITTER_FRAGMENT) :
    (releaseContext Ring Fragment).BuffersHeld =
      (if Fragment.isBuffer then Ring.BuffersHeld - 1 else Ring.BuffersHeld) ∧
    (releaseContext Ring Fragment).Tick = Ring.Tick ∧
    (releaseContext Ring Fragment).Oracle = Ring.Oracle ∧
    (releaseContext Ring Fragment).GrantsHeld = Ring.GrantsHeld ∧
    (releaseContext Ring Fragment).FreeIds = Ring.FreeIds ∧
    (releaseContext Ring Fragment).Packets = Ring.Packets ∧
    (releaseContext Ring Fragment).State = Ring.State := by
  unfold releaseContext XENVIF_TRANSMITTER_FRAGMENT.isBuffer
  cases Fragment.Context <;> exact ⟨rfl, rfl, rfl, rfl, rfl, rfl, rfl⟩

theorem setAt_setAt {α : Type} (f : Nat → α) (i : Nat) (a b : α) :
    setAt (setAt f i a) i b = setAt f i b := by
  funext j
  simp only [setAt]
  split_ifs <;> rfl

theorem setAt_same {α : Type} (f : Nat → α) (i : Nat) (a : α) : setAt f i a i = a := by
  simp [setAt]

theorem setAt_other {α : Type} (f : Nat → α) (i j : Nat) (a : α) (h : j ≠ i) :
    setAt f i a j = f j := by
  simp [setAt, h]

theorem setAt_self {α : Type} (f : Nat → α) (i : Nat) : setAt f i (f i) = f := by
  funext j
  simp only [setAt]
  split_ifs with h
  · rw [h]
  · rfl

/-! ### Keeping track of what the fragments of `State` hold -/

theorem grantCount_append (l : List XENVIF_TRANSMITTER_FRAGMENT)
    (F : XENVIF_TRANSMITTER_FRAGMENT) :
    grantCount (l ++ [F]) = grantCount l + (if F.Entry.isSome then 1 else 0) := by
  unfold grantCount
  rw [List.filter_append, List.length_append]
  by_cases h : F.Entry.isSome = true <;> simp [List.filter, h]

theorem bufferCount_append (l : List XENVIF_TRANSMITTER_FRAGMENT)
    (F : XENVIF_TRANSMITTER_FRAGMENT) :
    bufferCount (l ++ [F]) = bufferCount l + (if F.isBuffer then 1 else 0) := by
  unfold bufferCount
  rw [List.filter_append, List.length_append]
  by_cases h : F.isBuffer = true <;> simp [List.filter, h]

/-- The length of the fragment list is bounded by the number of ids. -/
theorem Tracked_length {G B : Nat} {Ids : List Nat} {Pk : Nat → XENVIF_TRANSMITTER_PACKET}
    {p : Nat} {R : XENVIF_TRANSMITTER_RING} (h : Tracked G B Ids Pk p R) :
    R.State.List.length + R.FreeIds.length = Ids.length := by
  obtain ⟨_, _, h3, _⟩ := h
  rw [← h3]; simp

/-- A ring that differs from a tracked one in nothing that is tracked is
tracked. -/
theorem Tracked_of_eq {G B : Nat} {Ids : List Nat} {Pk : Nat → XENVIF_TRANSMITTER_PACKET}
    {p : Nat} {R R1 : XENVIF_TRANSMITTER_RING} (h : Tracked G B Ids Pk p R)
    (hG : R1.GrantsHeld = R.GrantsHeld) (hB : R1.BuffersHeld = R.BuffersHeld)
    (hF : R1.FreeIds = R.FreeIds) (hP : R1.Packets = R.Packets)
    (hL : R1.State.List = R.State.List) (hC : R1.State.Count = R.State.Count) :
    Tracked G B Ids Pk p R1 := by
  unfold Tracked at h ⊢
  rw [hG, hB, hF, hP, hL, hC]
  exact h

/-- A fragment of the packet that took an id, a grant entry and (if it is a
buffer fragment) a buffer, and was counted in `Value`, is put at the tail of
the list. -/
theorem Tracked_insert {G B : Nat} {Ids : List Nat} {Pk : Nat → XENVIF_TRANSMITTER_PACKET}
    {p : Nat} {R S : XENVIF_TRANSMITTER_RING} {F : XENVIF_TRANSMITTER_FRAGMENT}
    (h : Tracked G B Ids Pk p R)
    (hb : (Pk p).Value + Ids.length + 1 < 18446744073709551616)
    (hG : S.GrantsHeld = R.GrantsHeld + (if F.Entry.isSome then 1 else 0))
    (hB : S.BuffersHeld = R.BuffersHeld + (if F.isBuffer then 1 else 0))
    (hF : R.FreeIds = F.Id :: S.FreeIds)
    (hP : S.Packets = setAt R.Packets p
      { R.Packets p with Value := ULONG_PTR_inc (R.Packets p).Value })
    (hSL : S.State.List = R.State.List) (hSC : S.State.Count = R.State.Count)
    (hp : F.packet = some p) :
    Tracked G B Ids Pk p (insertTailFragment S F) := by
  have hlen := Tracked_length h
  obtain ⟨h1, h2, h3, h4, h5, h6⟩ := h
  have hL : (insertTailFragment S F).State.List = R.State.List ++ [F] := by
    show S.State.List ++ [F] = _
    rw [hSL]
  have hC : (insertTailFragment S F).State.Count = R.State.Count + 1 := by
    show S.State.Count + 1 = _
    rw [hSC]
  refine ⟨?_, ?_, ?_, ?_, ?_, ?_⟩
  · show S.GrantsHeld = _
    rw [hL, grantCount_append, hG, h1]; omega
  · show S.BuffersHeld = _
    rw [hL, bufferCount_append, hB, h2]; omega
  · show _ ++ S.FreeIds = _
    rw [hL, ← h3, hF]; simp
  · show S.Packets = _
    rw [hL, hP, h4, setAt_setAt, setAt_same]
    refine congrArg (setAt Pk p) ?_
    have hv : ULONG_PTR_inc ((Pk p).Value + R.State.List.length) =
        (Pk p).Value + (R.State.List ++ [F]).length := by
      unfold ULONG_PTR_inc
      rw [List.length_append]
      simp only [List.length_singleton]
      rw [Nat.mod_eq_of_lt (by omega)]; omega
    show ({ Pk p with Value := ULONG_PTR_inc ((Pk p).Value + R.State.List.length) } :
      XENVIF_TRANSMITTER_PACKET) = _
    rw [hv]
  · intro F1 hF1
    rw [hL] at hF1
    rcases List.mem_append.mp hF1 with hm | hm
    · exact h5 F1 hm
    · simp at hm; rw [hm]; exact hp
  · rw [hC, hL, h6]; simp

/-- The fragment at the tail of the list gives back what it holds and is
taken off the list. -/
theorem Tracked_remove {G B : Nat} {Ids : List Nat} {Pk : Nat → XENVIF_TRANSMITTER_PACKET}
    {p : Nat} {R R1 : XENVIF_TRANSMITTER_RING} {F : XENVIF_TRANSMITTER_FRAGMENT}
    (h : Tracked G B Ids Pk p R)
    (hb : (Pk p).Value + Ids.length + 1 < 18446744073709551616)
    (hlast : R.State.List.getLast? = some F)
    (hG : R1.GrantsHeld = (if F.Entry.isSome then R.GrantsHeld - 1 else R.GrantsHeld))
    (hB : R1.BuffersHeld = (if F.isBuffer then R.BuffersHeld - 1 else R.BuffersHeld))
    (hF : R1.FreeIds = F.Id :: R.FreeIds)
    (hP : R1.Packets = setAt R.Packets p
      { R.Packets p with Value := ULONG_PTR_dec (R.Packets p).Value })
    (hL : R1.State.List = R.State.List.dropLast)
    (hC : R1.State.Count = R.State.Count - 1) :
    Tracked G B Ids Pk p R1 := by
  have hlen := Tracked_length h
  obtain ⟨h1, h2, h3, h4, h5, h6⟩ := h
  have hsplit : R.State.List = R.State.List.dropLast ++ [F] := by
    have := List.dropLast_append_getLast? F hlast
    exact this.symm
  generalize R.State.List.dropLast = init at hsplit hL
  have hl1 : R.State.List.length = init.length + 1 := by
    rw [hsplit]; simp
  have hg : grantCount R.State.List =
      grantCount init + (if F.Entry.isSome then 1 else 0) := by
    rw [hsplit]; exact grantCount_append _ _
  have hbc : bufferCount R.State.List =
      bufferCount init + (if F.isBuffer then 1 else 0) := by
    rw [hsplit]; exact bufferCount_append _ _
  refine ⟨?_, ?_, ?_, ?_, ?_, ?_⟩
  · rw [hL, hG, h1, hg]; split_ifs <;> omega
  · rw [hL, hB, h2, hbc]; split_ifs <;> omega
  · rw [hL, hF, ← h3, hsplit]
    simp
  · rw [hL, hP, h4, setAt_setAt, setAt_same]
    refine congrArg (setAt Pk p) ?_
    have hv : ULONG_PTR_dec ((Pk p).Value + R.State.List.length) =
        (Pk p).Value + init.length := by
      unfold ULONG_PTR_dec
      rw [hl1]
      have : (Pk p).Value + (init.length + 1) + 18446744073709551615 =
          ((Pk p).Value + init.length) + 18446744073709551616 := by omega
      rw [this, Nat.add_mod_right, Nat.mod_eq_of_lt (by omega)]
    show ({ Pk p with Value := ULONG_PTR_dec ((Pk p).Value + R.State.List.length) } :
      XENVIF_TRANSMITTER_PACKET) = _
    rw [hv]
  · intro F1 hF1
    rw [hL] at hF1
    exact h5 F1 (by rw [hsplit]; exact List.mem_append_left _ hF1)
  · rw [hC, hL, h6, hl1]; simp

/-- A ring in which `Value` was incremented and decremented again, and
nothing else that is tracked differs, is tracked. -/
theorem Tracked_undo {G B : Nat} {Ids : List Nat} {Pk : Nat → XENVIF_TRANSMITTER_PACKET}
    {p : Nat} {R R2 : XENVIF_TRANSMITTER_RING} (h : Tracked G B Ids Pk p R)
    (hb : (Pk p).Value + Ids.length + 1 < 18446744073709551616)
    (hG : R2.GrantsHeld = R.GrantsHeld) (hB : R2.BuffersHeld = R.BuffersHeld)
    (hF : R2.FreeIds = R.FreeIds)
    (Px : Nat → XENVIF_TRANSMITTER_PACKET)
    (hPx : Px = setAt R.Packets p
      { R.Packets p with Value := ULONG_PTR_inc (R.Packets p).Value })
    (hP : R2.Packets = setAt Px p { Px p with Value := ULONG_PTR_dec (Px p).Value })
    (hL : R2.State.List = R.State.List) (hC : R2.State.Count = R.State.Count) :
    Tracked G B Ids Pk p R2 := by
  have hlen := Tracked_length h
  refine Tracked_of_eq h hG hB hF ?_ hL hC
  obtain ⟨h1, h2, h3, h4, h5, h6⟩ := h
  rw [hP, hPx, h4]
  simp only [setAt_setAt, setAt_same]
  refine congrArg (setAt Pk p) ?_
  have hv : ULONG_PTR_dec (ULONG_PTR_inc ((Pk p).Value + R.State.List.length)) =
      (Pk p).Value + R.State.List.length := by
    unfold ULONG_PTR_dec ULONG_PTR_inc
    omega
  show ({ Pk p with
      Value := ULONG_PTR_dec (ULONG_PTR_inc ((Pk p).Value + R.State.List.length)) } :
    XENVIF_TRANSMITTER_PACKET) = _
  rw [hv]

/-! ### The copy loop, tracked -/

theorem Pullup_length (Payload : XENVIF_PACKET_PAYLOAD) (Length : Nat)
    (h : Length ≤ Payload.Length) :
    (TransmitterRingPullup Payload Length).2.Length = Payload.Length - Length ∧
    (TransmitterRingPullup Payload Length).1 = true := by
  unfold TransmitterRingPullup
  rw [if_neg (by omega)]
  exact ⟨rfl, rfl⟩

/-- The copy loop keeps the fragments tracked on every exit, only adds
buffer fragments at the tail of the list, and when it succeeds the buffers
added hold the payload, a page each but for the last. -/
theorem CopyPayloadLoop_tracked (p : Nat) {G B : Nat} {Ids : List Nat}
    {Pk : Nat → XENVIF_TRANSMITTER_PACKET}
    (hb : (Pk p).Value + Ids.length + 1 < 18446744073709551616) :
    ∀ (fuel : Nat) (Payload : XENVIF_PACKET_PAYLOAD) (R R1 : XENVIF_TRANSMITTER_RING)
      (st : Option NTSTATUS),
      Tracked G B Ids Pk p R → CopyPayloadLoop p fuel Payload R = (st, R1) →
      Tracked G B Ids Pk p R1 ∧
      ∃ added, R1.State.List = R.State.List ++ added ∧
        (∀ F, F ∈ added → F.isBuffer = true ∧ F.Offset = 0 ∧ F.Length = bufferBytes F ∧
          F.Extra = false ∧ F.Entry.isSome = true ∧ 1 ≤ F.Length ∧ F.Length ≤ PAGE_SIZE) ∧
        (st = none → Payload.Length ≤ fuel →
          (added.map bufferBytes).sum = Payload.Length ∧
          added.length * PAGE_SIZE < Payload.Length + PAGE_SIZE ∧
          Payload.Length ≤ added.length * PAGE_SIZE)
  | 0, Payload, R, R1, st => by
    intro hT h
    simp only [CopyPayloadLoop] at h
    injection h with h1 h2
    subst h2
    refine ⟨hT, [], by simp, fun _ hF => by simp at hF, fun _ hl => ?_⟩
    have : Payload.Length = 0 := by omega
    simp [this, PAGE_SIZE]
  | fuel + 1, Payload, R, R1, st => by
    intro hT
    rw [CopyPayloadLoop]
    split
    · next hz =>
      intro h
      injection h with h1 h2
      subst h2
      refine ⟨hT, [], by simp, fun _ hF => by simp at hF, fun _ _ => ?_⟩
      simp [hz, PAGE_SIZE]
    · next hnz =>
      split
      · next RA hA =>
        intro h
        injection h with h1 h2
        subst h2
        obtain ⟨_, _, _, a4, a5, a6, a7, a8⟩ := GetBuffer_none hA
        refine ⟨Tracked_of_eq hT a4 a5 a6 a7 (by rw [a8]) (by rw [a8]), [], ?_,
          fun _ hF => by simp at hF, fun hn => ?_⟩
        · rw [a8]; simp
        · subst h1; cases hn
      · next Buffer RA hA =>
        obtain ⟨aBuf, _, _, _, a4, a5, a6, a7, a8⟩ := GetBuffer_some hA
        simp only []
        split
        · next RB hB =>
          intro h
          injection h with h1 h2
          subst h2
          obtain ⟨_, _, _, b4, b5, b6, b7, b8⟩ := GetFragment_none hB
          refine ⟨?_, [], ?_, fun _ hF => by simp at hF, fun hn => by subst h1; cases hn⟩
          · refine Tracked_undo hT hb ?_ ?_ ?_ RB.Packets ?_ rfl ?_ ?_
            · show RB.GrantsHeld = _
              rw [b4]; exact a4
            · show RB.BuffersHeld - 1 = _
              rw [b5]; show RA.BuffersHeld - 1 = _
              rw [a5]; omega
            · show RB.FreeIds = _
              rw [b6]; exact a6
            · rw [b7]; show setAt RA.Packets p _ = _
              rw [a7]
            · show RB.State.List = _
              rw [b8]; show RA.State.List = _
              rw [a8]
            · show RB.State.Count = _
              rw [b8]; show RA.State.Count = _
              rw [a8]
          · show RB.State.List = _
            rw [b8]; show RA.State.List = _
            rw [a8]; simp
        · next Fragment RB hB =>
          obtain ⟨bF, _, b3, _, _, b4, b5, b7, b8⟩ := GetFragment_some hB
          split
          · next RC hC =>
            intro h
            injection h with h1 h2
            subst h2
            obtain ⟨_, _, _, c4, c5, c6, c7, c8⟩ := Permit_none hC
            refine ⟨?_, [], ?_, fun _ hF => by simp at hF, fun hn => by subst h1; cases hn⟩
            · refine Tracked_undo hT hb ?_ ?_ ?_ RC.Packets ?_ rfl ?_ ?_
              · show RC.GrantsHeld = _
                rw [c4, b4]; exact a4
              · show RC.BuffersHeld - 1 = _
                rw [c5, b5]; show RA.BuffersHeld - 1 = _
                rw [a5]; omega
              · show Fragment.Id :: RC.FreeIds = _
                rw [c6, ← b3]; exact a6
              · rw [c7, b7]; show setAt RA.Packets p _ = _
                rw [a7]
              · show RC.State.List = _
                rw [c8, b8]; show RA.State.List = _
                rw [a8]
              · show RC.State.Count = _
                rw [c8, b8]; show RA.State.Count = _
                rw [a8]
            · show RC.State.List = _
              rw [c8, b8]; show RA.State.List = _
              rw [a8]; simp
          · next Entry RC hC =>
            obtain ⟨_, _, _, _, c4, c5, c6, c7, c8⟩ := Permit_some hC
            intro h
            have hmin1 : 1 ≤ min Payload.Length PAGE_SIZE := by
              have : 0 < PAGE_SIZE := by decide
              omega
            have hminP : min Payload.Length PAGE_SIZE ≤ PAGE_SIZE := Nat.min_le_right _ _
            have hT1 := Tracked_insert
              (F := { Fragment with
                Context := FragmentContext.BUFFER
                  { Pfn := Buffer.Pfn, ByteCount := min Payload.Length PAGE_SIZE,
                    Context := some p, Reference := Buffer.Reference + 1 }
                Entry := some Entry, Offset := 0, Length := min Payload.Length PAGE_SIZE })
              (S := RC) hT hb
              (by show RC.GrantsHeld = R.GrantsHeld + 1; rw [c4, b4]; show RA.GrantsHeld + 1 = _; rw [a4])
              (by show RC.BuffersHeld = R.BuffersHeld + 1; rw [c5, b5]; exact a5)
              (by show R.FreeIds = Fragment.Id :: RC.FreeIds; rw [c6, ← b3]; exact a6.symm)
              (by rw [c7, b7]; show setAt RA.Packets p _ = _; rw [a7])
              (by rw [c8, b8]; show RA.State.List = _; rw [a8])
              (by rw [c8, b8]; show RA.State.Count = _; rw [a8])
              rfl
            obtain ⟨i1, added, i2, i3, i4⟩ :=
              CopyPayloadLoop_tracked p hb fuel _ _ _ _ hT1 h
            refine ⟨i1, { Fragment with
                Context := FragmentContext.BUFFER
                  { Pfn := Buffer.Pfn, ByteCount := min Payload.Length PAGE_SIZE,
                    Context := some p, Reference := Buffer.Reference + 1 }
                Entry := some Entry, Offset := 0, Length := min Payload.Length PAGE_SIZE } ::
                added, ?_, ?_, ?_⟩
            · rw [i2]
              show (RC.State.List ++ [_]) ++ added = _
              rw [c8, b8]; show (RA.State.List ++ [_]) ++ added = _
              rw [a8]; simp
            · intro F hF
              rcases List.mem_cons.mp hF with hF | hF
              · subst hF
                exact ⟨rfl, rfl, rfl, by rw [bF], rfl, hmin1, hminP⟩
              · exact i3 F hF
            · intro hn hfu
              obtain ⟨hp1, _⟩ := Pullup_length Payload (min Payload.Length PAGE_SIZE)
                (Nat.min_le_left _ _)
              obtain ⟨j1, j2, j3⟩ := i4 hn (by rw [hp1]; omega)
              rw [hp1] at j1 j2 j3
              have hbb : bufferBytes { Fragment with
                Context := FragmentContext.BUFFER
                  { Pfn := Buffer.Pfn, ByteCount := min Payload.Length PAGE_SIZE,
                    Context := some p, Reference := Buffer.Reference + 1 }
                Entry := some Entry, Offset := 0, Length := min Payload.Length PAGE_SIZE } =
                  min Payload.Length PAGE_SIZE := rfl
              refine ⟨?_, ?_, ?_⟩
              · rw [List.map_cons, List.sum_cons, j1, hbb]; omega
              · rw [List.length_cons]
                have : PAGE_SIZE = 4096 := rfl
                rw [this] at j2 j3 hmin1 hminP ⊢
                rcases Nat.le_total Payload.Length 4096 with hle | hle
                · rw [Nat.min_eq_left hle] at j2 j3; omega
                · rw [Nat.min_eq_right hle] at j2 j3; omega
              · rw [List.length_cons]
                have : PAGE_SIZE = 4096 := rfl
                rw [this] at j2 j3 hmin1 hminP ⊢
                rcases Nat.le_total Payload.Length 4096 with hle | hle
                · rw [Nat.min_eq_left hle] at j2 j3; omega
                · rw [Nat.min_eq_right hle] at j2 j3; omega

/-! ### The unwinding loops, tracked -/

theorem Tracked_Value {G B : Nat} {Ids : List Nat} {Pk : Nat → XENVIF_TRANSMITTER_PACKET}
    {p : Nat} {R : XENVIF_TRANSMITTER_RING} (h : Tracked G B Ids Pk p R) :
    (R.Packets p).Value = (Pk p).Value + R.State.List.length := by
  rw [h.2.2.2.1, setAt_same]

theorem take_dropLast {α : Type} (l : List α) (n : Nat) (h : n < l.length) :
    l.dropLast.take n = l.take n := by
  rw [List.dropLast_eq_take, List.take_take]
  congr 1
  omega

/-- The unwinding loop of the copy step, pass by pass. -/
theorem CopyPayloadUnwind_succ (p fuel : Nat) (R : XENVIF_TRANSMITTER_RING) :
    CopyPayloadUnwind p (fuel + 1) R =
      if (R.Packets p).Value = 1 then R
      else
        match R.State.List.getLast? with
        | none => R
        | some F => CopyPayloadUnwind p fuel (CopyUnwindStep R F p) := by
  rw [CopyPayloadUnwind]
  rfl

/-- The unwinding loop of the grant step, pass by pass. -/
theorem GrantPayloadUnwind_succ (p fuel : Nat) (R : XENVIF_TRANSMITTER_RING) :
    GrantPayloadUnwind p (fuel + 1) R =
      if (R.Packets p).Value = 1 then R
      else
        match R.State.List.getLast? with
        | none => R
        | some F => GrantPayloadUnwind p fuel (GrantUnwindStep R F p) := by
  rw [GrantPayloadUnwind]
  rfl

/-- One pass of the unwinding loop of the copy step. -/
theorem CopyUnwindStep_fields (R : XENVIF_TRANSMITTER_RING)
    (F : XENVIF_TRANSMITTER_FRAGMENT) (p : Nat) :
    (CopyUnwindStep R F p).GrantsHeld =
      (if F.Entry.isSome then R.GrantsHeld - 1 else R.GrantsHeld) ∧
    (CopyUnwindStep R F p).BuffersHeld =
      (if F.isBuffer then R.BuffersHeld - 1 else R.BuffersHeld) ∧
    (CopyUnwindStep R F p).FreeIds = F.Id :: R.FreeIds ∧
    (CopyUnwindStep R F p).Packets = setAt R.Packets p
      { R.Packets p with Value := ULONG_PTR_dec (R.Packets p).Value } ∧
    (CopyUnwindStep R F p).State.List = R.State.List.dropLast ∧
    (CopyUnwindStep R F p).State.Count = R.State.Count - 1 := by
  obtain ⟨Id, Context, Entry, Offset, Length, Extra⟩ := F
  cases Entry <;> cases Context <;> exact ⟨rfl, rfl, rfl, rfl, rfl, rfl⟩

/-- One pass of the unwinding loop of the grant step: the buffer of a buffer
fragment is not given back. -/
theorem GrantUnwindStep_fields (R : XENVIF_TRANSMITTER_RING)
    (F : XENVIF_TRANSMITTER_FRAGMENT) (p : Nat) :
    (GrantUnwindStep R F p).GrantsHeld =
      (if F.Entry.isSome then R.GrantsHeld - 1 else R.GrantsHeld) ∧
    (GrantUnwindStep R F p).BuffersHeld = R.BuffersHeld ∧
    (GrantUnwindStep R F p).FreeIds = F.Id :: R.FreeIds ∧
    (GrantUnwindStep R F p).Packets = setAt R.Packets p
      { R.Packets p with Value := ULONG_PTR_dec (R.Packets p).Value } ∧
    (GrantUnwindStep R F p).State.List = R.State.List.dropLast ∧
    (GrantUnwindStep R F p).State.Count = R.State.Count - 1 := by
  obtain ⟨Id, Context, Entry, Offset, Length, Extra⟩ := F
  cases Entry <;> exact ⟨rfl, rfl, rfl, rfl, rfl, rfl⟩

/-- The unwinding loop of the copy step keeps the fragments tracked and
leaves a front part of the list; entered with a packet whose `Value` counts
exactly the fragments of the list, it leaves the first fragment only. -/
theorem CopyPayloadUnwind_tracked (p : Nat) {G B : Nat} {Ids : List Nat}
    {Pk : Nat → XENVIF_TRANSMITTER_PACKET}
    (hb : (Pk p).Value + Ids.length + 1 < 18446744073709551616) :
    ∀ (fuel : Nat) (R : XENVIF_TRANSMITTER_RING),
      Tracked G B Ids Pk p R →
      Tracked G B Ids Pk p (CopyPayloadUnwind p fuel R) ∧
      (∃ n, (CopyPayloadUnwind p fuel R).State.List = R.State.List.take n) ∧
      ((Pk p).Value = 0 → 1 ≤ R.State.List.length → R.State.List.length ≤ fuel + 1 →
        (CopyPayloadUnwind p fuel R).State.List = R.State.List.take 1)
  | 0, R => by
    intro hT
    refine ⟨hT, ⟨R.State.List.length, by simp [CopyPayloadUnwind]⟩, fun _ h1 h2 => ?_⟩
    have : R.State.List.length = 1 := by omega
    show R.State.List = _
    rw [← this]; simp
  | fuel + 1, R => by
    intro hT
    have hV := Tracked_Value hT
    rw [CopyPayloadUnwind_succ]
    split
    · next h1 =>
      refine ⟨hT, ⟨R.State.List.length, by simp⟩, fun hv0 _ _ => ?_⟩
      have : R.State.List.length = 1 := by rw [hV, hv0] at h1; omega
      rw [← this]; simp
    · next hne =>
      split
      · next hnone =>
        refine ⟨hT, ⟨R.State.List.length, by simp⟩, fun _ h1 _ => ?_⟩
        rw [List.getLast?_eq_none_iff] at hnone
        rw [hnone] at h1; simp at h1
      · next F hlast =>
        obtain ⟨s1, s2, s3, s4, s5, s6⟩ := CopyUnwindStep_fields R F p
        have hT1 := Tracked_remove hT hb hlast s1 s2 s3 s4 s5 s6
        have hL1 := s5
        obtain ⟨i1, ⟨n, i2⟩, i3⟩ := CopyPayloadUnwind_tracked p hb fuel _ hT1
        have hpos : 0 < R.State.List.length := by
          cases hl : R.State.List with
          | nil => rw [hl] at hlast; simp at hlast
          | cons _ _ => simp
        refine ⟨i1, ⟨min n (R.State.List.length - 1), ?_⟩, fun hv0 h1 h2 => ?_⟩
        · rw [i2, hL1, List.dropLast_eq_take, List.take_take]
        · have hlen2 : 2 ≤ R.State.List.length := by
            rw [hV, hv0] at hne; omega
          rw [i3 hv0 (by rw [hL1]; simp; omega) (by rw [hL1]; simp; omega), hL1]
          exact take_dropLast _ _ (by omega)

/-! ### The grant loops, tracked -/

theorem mem_drop_one_of_getLast {α : Type} (l : List α) (a : α)
    (h : l.getLast? = some a) (h2 : 2 ≤ l.length) : a ∈ l.drop 1 := by
  cases l with
  | nil => simp at h2
  | cons x rest =>
    cases rest with
    | nil => simp at h2
    | cons y rest2 =>
      simp only [List.drop_succ_cons, List.drop_zero]
      rw [List.getLast?_cons_cons] at h
      exact List.mem_of_getLast?_eq_some h

theorem drop_one_dropLast {α : Type} (l : List α) (a : α) (h : a ∈ l.dropLast.drop 1) :
    a ∈ l.drop 1 := by
  cases l with
  | nil => simp at h
  | cons x rest =>
    cases rest with
    | nil => simp at h
    | cons y rest2 =>
      simp only [List.dropLast_cons₂, List.drop_succ_cons, List.drop_zero] at h ⊢
      exact List.mem_of_mem_dropLast h

/-- The unwinding loop of the grant step, entered with a packet whose
`Value` counts exactly the fragments of the list, and with no buffer
fragment after the first fragment: it keeps the fragments tracked and leaves
the first fragment only. -/
theorem GrantPayloadUnwind_tracked (p : Nat) {G B : Nat} {Ids : List Nat}
    {Pk : Nat → XENVIF_TRANSMITTER_PACKET}
    (hb : (Pk p).Value + Ids.length + 1 < 18446744073709551616)
    (hv0 : (Pk p).Value = 0) :
    ∀ (fuel : Nat) (R : XENVIF_TRANSMITTER_RING),
      Tracked G B Ids Pk p R →
      (∀ F, F ∈ R.State.List.drop 1 → F.isBuffer = false) →
      Tracked G B Ids Pk p (GrantPayloadUnwind p fuel R) ∧
      (1 ≤ R.State.List.length → R.State.List.length ≤ fuel + 1 →
        (GrantPayloadUnwind p fuel R).State.List = R.State.List.take 1)
  | 0, R => by
    intro hT _
    refine ⟨hT, fun h1 h2 => ?_⟩
    have : R.State.List.length = 1 := by omega
    show R.State.List = _
    rw [← this]; simp
  | fuel + 1, R => by
    intro hT hnb
    have hV := Tracked_Value hT
    rw [GrantPayloadUnwind_succ]
    split
    · next h1 =>
      refine ⟨hT, fun _ _ => ?_⟩
      have : R.State.List.length = 1 := by rw [hV, hv0] at h1; omega
      rw [← this]; simp
    · next hne =>
      split
      · next hnone =>
        refine ⟨hT, fun h1 _ => ?_⟩
        rw [List.getLast?_eq_none_iff] at hnone
        rw [hnone] at h1; simp at h1
      · next F hlast =>
        obtain ⟨s1, s2, s3, s4, s5, s6⟩ := GrantUnwindStep_fields R F p
        have hpos : 0 < R.State.List.length := by
          cases hl : R.State.List with
          | nil => rw [hl] at hlast; simp at hlast
          | cons _ _ => simp
        have hlen2 : 2 ≤ R.State.List.length := by
          rw [hV, hv0] at hne; omega
        have hFnb : F.isBuffer = false := hnb F (mem_drop_one_of_getLast _ _ hlast hlen2)
        have hT1 := Tracked_remove hT hb hlast s1 (by rw [hFnb]; exact s2) s3 s4 s5 s6
        obtain ⟨i1, i3⟩ := GrantPayloadUnwind_tracked p hb hv0 fuel _ hT1
          (fun F1 hF1 => hnb F1 (by rw [s5] at hF1; exact drop_one_dropLast _ _ hF1))
        refine ⟨i1, fun h1 h2 => ?_⟩
        rw [i3 (by rw [s5]; simp; omega) (by rw [s5]; simp; omega), s5]
        exact take_dropLast _ _ (by omega)

/-- The inner grant loop keeps the fragments tracked on every exit, only adds
packet fragments at the tail of the list, and returns
`STATUS_BUFFER_OVERFLOW` exactly when `State.Count` has come to exceed
`XEN_NETIF_NR_SLOTS_MIN`. -/
theorem GrantPayloadPages_tracked (p : Nat) (Mdl : MDL) {G B : Nat} {Ids : List Nat}
    {Pk : Nat → XENVIF_TRANSMITTER_PACKET}
    (hb : (Pk p).Value + Ids.length + 1 < 18446744073709551616) :
    ∀ (fuel MdlOffset MdlLength Length : Nat) (R R1 : XENVIF_TRANSMITTER_RING)
      (res : Except NTSTATUS Nat),
      Tracked G B Ids Pk p R →
      GrantPayloadPages p Mdl fuel MdlOffset MdlLength Length R = (res, R1) →
      Tracked G B Ids Pk p R1 ∧
      (∃ added, R1.State.List = R.State.List ++ added ∧
        (∀ F, F ∈ added → F.isBuffer = false ∧ F.Extra = false ∧ F.Entry.isSome = true)) ∧
      (R.State.Count ≤ XEN_NETIF_NR_SLOTS_MIN →
        (res = Except.error STATUS_BUFFER_OVERFLOW ↔
          R1.State.Count > XEN_NETIF_NR_SLOTS_MIN))
  | 0, MdlOffset, MdlLength, Length, R, R1, res => by
    intro hT h
    simp only [GrantPayloadPages] at h
    injection h with h1 h2
    subst h2
    refine ⟨hT, ⟨[], by simp, fun _ hF => by simp at hF⟩, fun hc => ?_⟩
    subst h1
    constructor
    · intro h; cases h
    · intro h; omega
  | fuel + 1, MdlOffset, MdlLength, Length, R, R1, res => by
    intro hT
    rw [GrantPayloadPages]
    split
    · intro h
      injection h with h1 h2
      subst h2
      refine ⟨hT, ⟨[], by simp, fun _ hF => by simp at hF⟩, fun hc => ?_⟩
      subst h1
      constructor
      · intro h; cases h
      · intro h; omega
    · split
      · next RA hA =>
        intro h
        injection h with h1 h2
        subst h2
        obtain ⟨_, _, _, a4, a5, a6, a7, a8⟩ := GetFragment_none hA
        refine ⟨Tracked_of_eq hT a4 a5 a6 a7 (by rw [a8]) (by rw [a8]),
          ⟨[], by rw [a8]; simp, fun _ hF => by simp at hF⟩, fun hc => ?_⟩
        subst h1
        rw [a8]
        constructor
        · intro h; injection h with h; cases h
        · intro h; omega
      · next Fragment RA hA =>
        obtain ⟨aF, _, a3, _, _, a4, a5, a7, a8⟩ := GetFragment_some hA
        simp only []
        split
        · next RB hB =>
          intro h
          injection h with h1 h2
          subst h2
          obtain ⟨_, _, _, b4, b5, b6, b7, b8⟩ := Permit_none hB
          refine ⟨?_, ⟨[], ?_, fun _ hF => by simp at hF⟩, fun hc => ?_⟩
          · refine Tracked_undo hT hb ?_ ?_ ?_ RB.Packets ?_ rfl ?_ ?_
            · show RB.GrantsHeld = _
              rw [b4]; exact a4
            · show RB.BuffersHeld = _
              rw [b5]; exact a5
            · show Fragment.Id :: RB.FreeIds = _
              rw [b6]; exact a3.symm
            · rw [b7]; show setAt RA.Packets p _ = _
              rw [a7]
            · show RB.State.List = _
              rw [b8]; show RA.State.List = _
              rw [a8]
            · show RB.State.Count = _
              rw [b8]; show RA.State.Count = _
              rw [a8]
          · show RB.State.List = _
            rw [b8]; show RA.State.List = _
            rw [a8]; simp
          · subst h1
            show _ ↔ RB.State.Count > _
            rw [b8]; show _ ↔ RA.State.Count > _
            rw [a8]
            constructor
            · intro h; injection h with h; cases h
            · intro h; omega
        · next Entry RB hB =>
          obtain ⟨_, _, _, _, b4, b5, b6, b7, b8⟩ := Permit_some hB
          have hT1 := Tracked_insert
            (F := { Fragment with
              Context := FragmentContext.PACKET p
              Entry := some Entry, Offset := MdlOffset % PAGE_SIZE,
              Length := min MdlLength (PAGE_SIZE - MdlOffset % PAGE_SIZE) })
            (S := RB) hT hb
            (by show RB.GrantsHeld = R.GrantsHeld + 1; rw [b4]; show RA.GrantsHeld + 1 = _; rw [a4])
            (by show RB.BuffersHeld = R.BuffersHeld + 0; rw [b5]; show RA.BuffersHeld = _; rw [a5]; rfl)
            (by show R.FreeIds = Fragment.Id :: RB.FreeIds; rw [b6]; exact a3)
            (by rw [b7]; show setAt RA.Packets p _ = _; rw [a7])
            (by rw [b8]; show RA.State.List = _; rw [a8])
            (by rw [b8]; show RA.State.Count = _; rw [a8])
            rfl
          have hCnt : (insertTailFragment RB { Fragment with
              Context := FragmentContext.PACKET p
              Entry := some Entry, Offset := MdlOffset % PAGE_SIZE,
              Length := min MdlLength (PAGE_SIZE - MdlOffset % PAGE_SIZE) }).State.Count =
              R.State.Count + 1 := by
            show RB.State.Count + 1 = _
            rw [b8]; show RA.State.Count + 1 = _
            rw [a8]
          have hLst : (insertTailFragment RB { Fragment with
              Context := FragmentContext.PACKET p
              Entry := some Entry, Offset := MdlOffset % PAGE_SIZE,
              Length := min MdlLength (PAGE_SIZE - MdlOffset % PAGE_SIZE) }).State.List =
              R.State.List ++ [{ Fragment with
              Context := FragmentContext.PACKET p
              Entry := some Entry, Offset := MdlOffset % PAGE_SIZE,
              Length := min MdlLength (PAGE_SIZE - MdlOffset % PAGE_SIZE) }] := by
            show RB.State.List ++ _ = _
            rw [b8]; show RA.State.List ++ _ = _
            rw [a8]
          have hF0 : ({ Fragment with
              Context := FragmentContext.PACKET p
              Entry := some Entry, Offset := MdlOffset % PAGE_SIZE,
              Length := min MdlLength (PAGE_SIZE - MdlOffset % PAGE_SIZE) } :
                XENVIF_TRANSMITTER_FRAGMENT).isBuffer = false ∧
              ({ Fragment with
              Context := FragmentContext.PACKET p
              Entry := some Entry, Offset := MdlOffset % PAGE_SIZE,
              Length := min MdlLength (PAGE_SIZE - MdlOffset % PAGE_SIZE) } :
                XENVIF_TRANSMITTER_FRAGMENT).Extra = false ∧
              ({ Fragment with
              Context := FragmentContext.PACKET p
              Entry := some Entry, Offset := MdlOffset % PAGE_SIZE,
              Length := min MdlLength (PAGE_SIZE - MdlOffset % PAGE_SIZE) } :
                XENVIF_TRANSMITTER_FRAGMENT).Entry.isSome = true :=
            ⟨rfl, by rw [aF], rfl⟩
          generalize ({ Fragment with
              Context := FragmentContext.PACKET p
              Entry := some Entry, Offset := MdlOffset % PAGE_SIZE,
              Length := min MdlLength (PAGE_SIZE - MdlOffset % PAGE_SIZE) } :
                XENVIF_TRANSMITTER_FRAGMENT) = F0 at hT1 hCnt hLst hF0 ⊢
          split
          · next hover =>
            intro h
            injection h with h1 h2
            subst h2
            refine ⟨hT1, ⟨[F0], hLst, ?_⟩, fun hc => ?_⟩
            · intro F hF
              simp at hF; subst hF
              exact hF0
            · subst h1
              constructor
              · intro _; exact hover
              · intro _; rfl
          · next hover =>
            intro h
            obtain ⟨i1, ⟨added, i2, i3⟩, i4⟩ :=
              GrantPayloadPages_tracked p Mdl hb fuel _ _ _ _ _ _ hT1 h
            refine ⟨i1, ⟨F0 :: added, ?_, ?_⟩, fun hc => ?_⟩
            · rw [i2, hLst]; simp
            · intro F hF
              rcases List.mem_cons.mp hF with hF | hF
              · subst hF
                exact hF0
              · exact i3 F hF
            · exact i4 (by omega)

/-- The outer grant loop keeps the fragments tracked on every exit, only
adds packet fragments at the tail of the list, and returns
`STATUS_BUFFER_OVERFLOW` exactly when `State.Count` has come to exceed
`XEN_NETIF_NR_SLOTS_MIN`. -/
theorem GrantPayloadLoop_tracked (p : Nat) {G B : Nat} {Ids : List Nat}
    {Pk : Nat → XENVIF_TRANSMITTER_PACKET}
    (hb : (Pk p).Value + Ids.length + 1 < 18446744073709551616) :
    ∀ (Mdl : List MDL) (Offset Length : Nat) (R R1 : XENVIF_TRANSMITTER_RING)
      (st : Option NTSTATUS),
      Tracked G B Ids Pk p R →
      GrantPayloadLoop p Mdl Offset Length R = (st, R1) →
      Tracked G B Ids Pk p R1 ∧
      (∃ added, R1.State.List = R.State.List ++ added ∧
        (∀ F, F ∈ added → F.isBuffer = false ∧ F.Extra = false ∧ F.Entry.isSome = true)) ∧
      (R.State.Count ≤ XEN_NETIF_NR_SLOTS_MIN →
        (st = some STATUS_BUFFER_OVERFLOW ↔ R1.State.Count > XEN_NETIF_NR_SLOTS_MIN))
  | [], Offset, Length, R, R1, st => by
    intro hT h
    simp only [GrantPayloadLoop] at h
    injection h with h1 h2
    subst h2
    refine ⟨hT, ⟨[], by simp, fun _ hF => by simp at hF⟩, fun hc => ?_⟩
    subst h1
    constructor
    · intro h; cases h
    · intro h; omega
  | Mdl :: Next, Offset, Length, R, R1, st => by
    intro hT
    rw [GrantPayloadLoop]
    split
    · intro h
      injection h with h1 h2
      subst h2
      refine ⟨hT, ⟨[], by simp, fun _ hF => by simp at hF⟩, fun hc => ?_⟩
      subst h1
      constructor
      · intro h; cases h
      · intro h; omega
    · simp only []
      split
      · next status RA hA =>
        intro h
        injection h with h1 h2
        subst h2
        obtain ⟨i1, i2, i3⟩ := GrantPayloadPages_tracked p Mdl hb _ _ _ _ _ _ _ hT hA
        refine ⟨i1, i2, fun hc => ?_⟩
        subst h1
        rw [← i3 hc]
        constructor
        · intro h; injection h with h; rw [h]
        · intro h; injection h with h; rw [h]
      · next Length1 RA hA =>
        intro h
        obtain ⟨i1, ⟨added1, i2, i2'⟩, i3⟩ :=
          GrantPayloadPages_tracked p Mdl hb _ _ _ _ _ _ _ hT hA
        obtain ⟨j1, ⟨added2, j2, j2'⟩, j3⟩ :=
          GrantPayloadLoop_tracked p hb Next 0 Length1 RA R1 st i1 h
        refine ⟨j1, ⟨added1 ++ added2, ?_, ?_⟩, fun hc => ?_⟩
        · rw [j2, i2]; simp
        · intro F hF
          rcases List.mem_append.mp hF with hF | hF
          · exact i2' F hF
          · exact j2' F hF
        · have hRA : RA.State.Count ≤ XEN_NETIF_NR_SLOTS_MIN := by
            by_contra hgt
            have := (i3 hc).mpr (by omega)
            cases this
          exact j3 hRA

theorem drop_one_append {α : Type} (l added : List α) (h : l.length = 1) :
    (l ++ added).drop 1 = added := by
  cases l with
  | nil => simp at h
  | cons x rest =>
    cases rest with
    | nil => rfl
    | cons _ _ => simp at h

theorem take_one_append {α : Type} (l added : List α) (h : l.length = 1) :
    (l ++ added).take 1 = l := by
  cases l with
  | nil => simp at h
  | cons x rest =>
    cases rest with
    | nil => rfl
    | cons _ _ => simp at h

/-- `__TransmitterRingGrantPayload`, entered with the header fragment as the
only fragment of a tracked list and a `Value` that counts it: on success
packet fragments were added at the tail and `State.Count` is within
`XEN_NETIF_NR_SLOTS_MIN`; on every failure the list is as it was on entry;
and the status is `STATUS_BUFFER_OVERFLOW` exactly when the walk made
`State.Count` exceed `XEN_NETIF_NR_SLOTS_MIN`. -/
theorem GrantPayload_tracked (p : Nat) {G B : Nat} {Ids : List Nat}
    {Pk : Nat → XENVIF_TRANSMITTER_PACKET}
    (hb : (Pk p).Value + Ids.length + 1 < 18446744073709551616)
    (hv0 : (Pk p).Value = 0) (R : XENVIF_TRANSMITTER_RING)
    (hP : R.State.Packet = some p) (hT : Tracked G B Ids Pk p R)
    (h1 : R.State.List.length = 1) :
    Tracked G B Ids Pk p (__TransmitterRingGrantPayload R).2 ∧
    ((__TransmitterRingGrantPayload R).1 = STATUS_SUCCESS →
      (__TransmitterRingGrantPayload R).2.State.Count ≤ XEN_NETIF_NR_SLOTS_MIN ∧
      ∃ added, (__TransmitterRingGrantPayload R).2.State.List = R.State.List ++ added ∧
        (∀ F, F ∈ added → F.isBuffer = false ∧ F.Extra = false ∧ F.Entry.isSome = true)) ∧
    ((__TransmitterRingGrantPayload R).1 ≠ STATUS_SUCCESS →
      (__TransmitterRingGrantPayload R).2.State.List = R.State.List) ∧
    ((__TransmitterRingGrantPayload R).1 = STATUS_BUFFER_OVERFLOW ↔
      (GrantPayloadLoop p R.State.Payload.Mdl R.State.Payload.Offset
        R.State.Payload.Length R).2.State.Count > XEN_NETIF_NR_SLOTS_MIN) := by
  have hc : R.State.Count ≤ XEN_NETIF_NR_SLOTS_MIN := by
    rw [hT.2.2.2.2.2, h1]; decide
  unfold __TransmitterRingGrantPayload
  rw [hP]
  simp only []
  cases hloop : GrantPayloadLoop p R.State.Payload.Mdl R.State.Payload.Offset
      R.State.Payload.Length R with
  | mk st RA =>
    obtain ⟨i1, ⟨added, i2, i2'⟩, i3⟩ := GrantPayloadLoop_tracked p hb _ _ _ _ _ _ hT hloop
    cases st with
    | none =>
      simp only []
      have hle : RA.State.Count ≤ XEN_NETIF_NR_SLOTS_MIN := by
        by_contra hgt
        have := (i3 hc).mpr (by omega)
        cases this
      refine ⟨Tracked_of_eq i1 rfl rfl rfl rfl rfl rfl, fun _ => ⟨hle, added, i2, i2'⟩,
        fun h => absurd rfl h, ?_⟩
      constructor
      · intro h; cases h
      · intro h; omega
    | some status =>
      simp only []
      have hne := GrantPayloadLoop_status p _ _ _ _ _ _ hloop
      have hnb : ∀ F, F ∈ RA.State.List.drop 1 → F.isBuffer = false := by
        intro F hF
        rw [i2] at hF
        rw [drop_one_append _ _ h1] at hF
        exact (i2' F hF).1
      obtain ⟨u1, u2⟩ := GrantPayloadUnwind_tracked p hb hv0 RA.State.List.length RA i1 hnb
      have hlenA : 1 ≤ RA.State.List.length := by rw [i2]; simp; omega
      refine ⟨u1, fun h => absurd h hne, fun _ => ?_, ?_⟩
      · rw [u2 hlenA (by omega), i2, take_one_append _ _ h1]
      · rw [← i3 hc]
        constructor
        · intro h; rw [h]
        · intro h; injection h

/-- `__TransmitterRingCopyPayload`, entered with a tracked list that is not
empty and a `Value` that counts it: on success buffer fragments holding the
payload were added at the tail; on every failure only the first fragment of
the list is left. -/
theorem CopyPayload_tracked (p : Nat) {G B : Nat} {Ids : List Nat}
    {Pk : Nat → XENVIF_TRANSMITTER_PACKET}
    (hb : (Pk p).Value + Ids.length + 1 < 18446744073709551616)
    (hv0 : (Pk p).Value = 0) (R : XENVIF_TRANSMITTER_RING)
    (hP : R.State.Packet = some p) (hT : Tracked G B Ids Pk p R)
    (h1 : 1 ≤ R.State.List.length) :
    Tracked G B Ids Pk p (__TransmitterRingCopyPayload R).2 ∧
    ((__TransmitterRingCopyPayload R).1 = STATUS_SUCCESS →
      ∃ added, (__TransmitterRingCopyPayload R).2.State.List = R.State.List ++ added ∧
        (∀ F, F ∈ added → F.isBuffer = true ∧ F.Offset = 0 ∧ F.Length = bufferBytes F ∧
          F.Extra = false ∧ F.Entry.isSome = true ∧ 1 ≤ F.Length ∧ F.Length ≤ PAGE_SIZE) ∧
        (added.map bufferBytes).sum = R.State.Payload.Length ∧
        added.length * PAGE_SIZE < R.State.Payload.Length + PAGE_SIZE ∧
        R.State.Payload.Length ≤ added.length * PAGE_SIZE) ∧
    ((__TransmitterRingCopyPayload R).1 ≠ STATUS_SUCCESS →
      (__TransmitterRingCopyPayload R).2.State.List = R.State.List.take 1) := by
  unfold __TransmitterRingCopyPayload
  rw [hP]
  simp only []
  cases hloop : CopyPayloadLoop p R.State.Payload.Length R.State.Payload R with
  | mk st RA =>
    obtain ⟨i1, added, i2, i3, i4⟩ := CopyPayloadLoop_tracked p hb _ _ _ _ _ hT hloop
    cases st with
    | none =>
      simp only []
      obtain ⟨j1, j2, j3⟩ := i4 rfl (le_refl _)
      exact ⟨Tracked_of_eq i1 rfl rfl rfl rfl rfl rfl,
        fun _ => ⟨added, i2, i3, j1, j2, j3⟩, fun h => absurd rfl h⟩
    | some status =>
      simp only []
      have hne : status ≠ STATUS_SUCCESS := by
        rcases CopyPayloadLoop_status p _ _ _ _ _ hloop with h | h <;> (rw [h]; decide)
      obtain ⟨u1, _, u3⟩ := CopyPayloadUnwind_tracked p hb RA.State.List.length RA i1
      have hlenA : 1 ≤ RA.State.List.length := by rw [i2]; simp; omega
      refine ⟨u1, fun h => absurd h hne, fun _ => ?_⟩
      rw [u3 hv0 hlenA (by omega), i2]
      rw [List.take_append_of_le_length h1]

/-! ### The header step in detail -/

/-- The status of the second half of the header step is decided by the test
`tooLarge` alone, and `State` gets the fixed-up send information and packet
information in both cases. -/
theorem PrepareHeaderFinish_status (Ring : XENVIF_TRANSMITTER_RING) (Packet : Nat)
    (Buffer : XENVIF_TRANSMITTER_BUFFER) (Fragment : XENVIF_TRANSMITTER_FRAGMENT)
    (Entry : Nat) :
    (PrepareHeaderFinish Ring Packet Buffer Fragment Entry).1 =
      (if tooLarge (largePacketFixup Ring.State.Send Ring.State.Payload.Length)
          (headerLength Ring.State.Send.OffloadTagManipulation Buffer.ByteCount
            Ring.State.Payload.Length) Ring.MaximumFrameSize
       then STATUS_INVALID_PARAMETER else STATUS_SUCCESS) ∧
    (PrepareHeaderFinish Ring Packet Buffer Fragment Entry).2.State.Send =
      largePacketFixup Ring.State.Send Ring.State.Payload.Length ∧
    (PrepareHeaderFinish Ring Packet Buffer Fragment Entry).2.State.Info =
      (if Ring.State.Send.OffloadTagManipulation then tagFixup Ring.State.Info
       else Ring.State.Info) ∧
    (PrepareHeaderFinish Ring Packet Buffer Fragment Entry).2.State.Payload =
      Ring.State.Payload ∧
    (PrepareHeaderFinish Ring Packet Buffer Fragment Entry).2.State.StartVa =
      Ring.State.StartVa ∧
    (PrepareHeaderFinish Ring Packet Buffer Fragment Entry).2.State.Packet =
      Ring.State.Packet := by
  unfold PrepareHeaderFinish tooLarge headerLength
  simp only []
  cases Ring.State.Send.OffloadTagManipulation <;>
    (simp only [if_true, if_false, Bool.false_eq_true]
     split_ifs <;> exact ⟨rfl, rfl, rfl, rfl, rfl, rfl⟩)

/-- The resources after the second half of the header step. -/
theorem PrepareHeaderFinish_fields (Ring : XENVIF_TRANSMITTER_RING) (Packet : Nat)
    (Buffer : XENVIF_TRANSMITTER_BUFFER) (Fragment : XENVIF_TRANSMITTER_FRAGMENT)
    (Entry : Nat) :
    ((PrepareHeaderFinish Ring Packet Buffer Fragment Entry).1 = STATUS_SUCCESS →
      (PrepareHeaderFinish Ring Packet Buffer Fragment Entry).2.GrantsHeld = Ring.GrantsHeld ∧
      (PrepareHeaderFinish Ring Packet Buffer Fragment Entry).2.BuffersHeld =
        Ring.BuffersHeld ∧
      (PrepareHeaderFinish Ring Packet Buffer Fragment Entry).2.FreeIds = Ring.FreeIds ∧
      (PrepareHeaderFinish Ring Packet Buffer Fragment Entry).2.Packets = Ring.Packets ∧
      (PrepareHeaderFinish Ring Packet Buffer Fragment Entry).2.State.List =
        Ring.State.List ++ [headerFragment Fragment Buffer Entry
          Ring.State.Send.OffloadTagManipulation Ring.State.Payload.Length] ∧
      (PrepareHeaderFinish Ring Packet Buffer Fragment Entry).2.State.Count =
        Ring.State.Count + 1) ∧
    ((PrepareHeaderFinish Ring Packet Buffer Fragment Entry).1 ≠ STATUS_SUCCESS →
      (PrepareHeaderFinish Ring Packet Buffer Fragment Entry).2.GrantsHeld =
        Ring.GrantsHeld - 1 ∧
      (PrepareHeaderFinish Ring Packet Buffer Fragment Entry).2.BuffersHeld =
        Ring.BuffersHeld - 1 ∧
      (PrepareHeaderFinish Ring Packet Buffer Fragment Entry).2.FreeIds =
        Fragment.Id :: Ring.FreeIds ∧
      (PrepareHeaderFinish Ring Packet Buffer Fragment Entry).2.Packets =
        setAt Ring.Packets Packet
          { Ring.Packets Packet with Value := ULONG_PTR_dec (Ring.Packets Packet).Value } ∧
      (PrepareHeaderFinish Ring Packet Buffer Fragment Entry).2.State.List = Ring.State.List ∧
      (PrepareHeaderFinish Ring Packet Buffer Fragment Entry).2.State.Count =
        Ring.State.Count) := by
  unfold PrepareHeaderFinish headerFragment headerLength
  simp only []
  cases Ring.State.Send.OffloadTagManipulation <;>
    (simp only [if_true, if_false, Bool.false_eq_true]
     split_ifs
     · exact ⟨fun h => (by cases h), fun _ => ⟨rfl, rfl, rfl, rfl, rfl, rfl⟩⟩
     · exact ⟨fun _ => ⟨rfl, rfl, rfl, rfl, rfl, rfl⟩, fun h => absurd rfl h⟩)

/-- The whole of `State` after the second half of the header step. -/
theorem PrepareHeaderFinish_State (Ring : XENVIF_TRANSMITTER_RING) (Packet : Nat)
    (Buffer : XENVIF_TRANSMITTER_BUFFER) (Fragment : XENVIF_TRANSMITTER_FRAGMENT)
    (Entry : Nat) :
    ((PrepareHeaderFinish Ring Packet Buffer Fragment Entry).1 = STATUS_SUCCESS →
      (PrepareHeaderFinish Ring Packet Buffer Fragment Entry).2.State =
        { Ring.State with
          Info := (if Ring.State.Send.OffloadTagManipulation then tagFixup Ring.State.Info
                   else Ring.State.Info)
          Send := largePacketFixup Ring.State.Send Ring.State.Payload.Length
          List := Ring.State.List ++ [headerFragment Fragment Buffer Entry
            Ring.State.Send.OffloadTagManipulation Ring.State.Payload.Length]
          Count := Ring.State.Count + 1 }) ∧
    ((PrepareHeaderFinish Ring Packet Buffer Fragment Entry).1 ≠ STATUS_SUCCESS →
      (PrepareHeaderFinish Ring Packet Buffer Fragment Entry).2.State =
        { Ring.State with
          Info := (if Ring.State.Send.OffloadTagManipulation then tagFixup Ring.State.Info
                   else Ring.State.Info)
          Send := largePacketFixup Ring.State.Send Ring.State.Payload.Length }) := by
  unfold PrepareHeaderFinish headerFragment headerLength
  simp only []
  cases Ring.State.Send.OffloadTagManipulation <;>
    (simp only [if_true, if_false, Bool.false_eq_true]
     split_ifs
     · exact ⟨fun h => (by cases h), fun _ => rfl⟩
     · exact ⟨fun _ => rfl, fun h => absurd rfl h⟩)

/-- Every way in which `__TransmitterRingPrepareHeader` returns, with the
`State` it leaves: (1) no buffer, (2) the parser rejects the packet, (3) no
fragment, (4) no grant entry, (5) the packet is too large, (6) success.  In
every case the fragments stay tracked. -/
theorem PrepareHeader_outcome (p : Nat) {G B : Nat} {Ids : List Nat}
    {Pk : Nat → XENVIF_TRANSMITTER_PACKET}
    (hb : (Pk p).Value + Ids.length + 1 < 18446744073709551616)
    (R : XENVIF_TRANSMITTER_RING) (hP : R.State.Packet = some p)
    (hT : Tracked G B Ids Pk p R) :
    Tracked G B Ids Pk p (__TransmitterRingPrepareHeader R).2 ∧
    (((__TransmitterRingPrepareHeader R).1 = STATUS_NO_MEMORY ∧
        R.Oracle R.Tick = false ∧
        (__TransmitterRingPrepareHeader R).2.State = R.State) ∨
     ((__TransmitterRingPrepareHeader R).1 = STATUS_UNSUCCESSFUL ∧
        R.Oracle R.Tick = true ∧
        ParsePacket (R.Packets p).Parse R.State.Payload = none ∧
        (__TransmitterRingPrepareHeader R).2.State = R.State) ∨
     (∃ Info Payload, ParsePacket (R.Packets p).Parse R.State.Payload = some (Info, Payload) ∧
        R.Oracle R.Tick = true ∧
        (((__TransmitterRingPrepareHeader R).1 = STATUS_NO_MEMORY ∧
            (R.Oracle (R.Tick + 1) = false ∨ R.FreeIds = []) ∧
            (__TransmitterRingPrepareHeader R).2.State =
              { R.State with StartVa := true, Info := Info, Payload := Payload }) ∨
         ((__TransmitterRingPrepareHeader R).1 = STATUS_UNSUCCESSFUL ∧
            R.Oracle (R.Tick + 1) = true ∧ R.FreeIds ≠ [] ∧ R.Oracle (R.Tick + 2) = false ∧
            (__TransmitterRingPrepareHeader R).2.State =
              { R.State with StartVa := true, Info := Info, Payload := Payload }) ∨
         (R.Oracle (R.Tick + 1) = true ∧ R.Oracle (R.Tick + 2) = true ∧
          ∃ Id rest, R.FreeIds = Id :: rest ∧
           (((__TransmitterRingPrepareHeader R).1 = STATUS_INVALID_PARAMETER ∧
              tooLarge (largePacketFixup R.State.Send Payload.Length)
                (headerLength R.State.Send.OffloadTagManipulation Info.Length Payload.Length)
                R.MaximumFrameSize = true ∧
              (__TransmitterRingPrepareHeader R).2.State =
                { R.State with
                  StartVa := true
                  Info := (if R.State.Send.OffloadTagManipulation then tagFixup Info else Info)
                  Payload := Payload
                  Send := largePacketFixup R.State.Send Payload.Length }) ∨
            ((__TransmitterRingPrepareHeader R).1 = STATUS_SUCCESS ∧
              tooLarge (largePacketFixup R.State.Send Payload.Length)
                (headerLength R.State.Send.OffloadTagManipulation Info.Length Payload.Length)
                R.MaximumFrameSize = false ∧
              (__TransmitterRingPrepareHeader R).2.State =
                { R.State with
                  StartVa := true
                  Info := (if R.State.Send.OffloadTagManipulation then tagFixup Info else Info)
                  Payload := Payload
                  Send := largePacketFixup R.State.Send Payload.Length
                  List := R.State.List ++
                    [headerFragment
                      { Id := Id, Context := FragmentContext.INVALID, Entry := none,
                        Offset := 0, Length := 0, Extra := false }
                      { Pfn := R.Tick, ByteCount := Info.Length, Context := some p,
                        Reference := 1 }
                      R.Tick R.State.Send.OffloadTagManipulation Payload.Length]
                  Count := R.State.Count + 1 })))))) := by
  unfold __TransmitterRingPrepareHeader
  split
  · next h0 => rw [hP] at h0; cases h0
  next Packet hp =>
  rw [hP] at hp
  injection hp with hp
  subst hp
  split
  · next RA hA =>
    obtain ⟨a0, _, _, a4, a5, a6, a7, a8⟩ := GetBuffer_none hA
    exact ⟨Tracked_of_eq hT a4 a5 a6 a7 (by rw [a8]) (by rw [a8]), Or.inl ⟨rfl, a0, a8⟩⟩
  · next Buffer RA hA =>
    obtain ⟨aBuf, a0, aT, aO, a4, a5, a6, a7, a8⟩ := GetBuffer_some hA
    simp only []
    have hParse : (incValue RA p).Packets p = { R.Packets p with
        Value := ULONG_PTR_inc (R.Packets p).Value } := by
      show setAt RA.Packets p _ p = _
      rw [setAt_same, a7]
    have hParse2 : ((incValue RA p).Packets p).Parse = (R.Packets p).Parse := by
      rw [hParse]
    have hPay : (incValue RA p).State.Payload = R.State.Payload := by
      show RA.State.Payload = _
      rw [a8]
    rw [hParse2, hPay]
    split
    · next hI =>
      refine ⟨?_, Or.inr (Or.inl ⟨rfl, a0, hI, ?_⟩)⟩
      · refine Tracked_undo hT hb ?_ ?_ ?_ (incValue RA p).Packets ?_ rfl ?_ ?_
        · show RA.GrantsHeld = _
          exact a4
        · show RA.BuffersHeld - 1 = _
          rw [a5]; omega
        · show RA.FreeIds = _
          exact a6
        · show setAt RA.Packets p _ = _
          rw [a7]
        · show RA.State.List = _
          rw [a8]
        · show RA.State.Count = _
          rw [a8]
      · show RA.State = _
        exact a8
    · next Info Payload hI =>
      have hSt : ({ incValue RA p with State := { (incValue RA p).State with
          StartVa := true, Info := Info, Payload := Payload } } :
            XENVIF_TRANSMITTER_RING).State =
          { R.State with StartVa := true, Info := Info, Payload := Payload } := by
        show ({ RA.State with StartVa := true, Info := Info, Payload := Payload } :
          XENVIF_TRANSMITTER_STATE) = _
        rw [a8]
      split
      · next RB hB =>
        obtain ⟨b0, bT, bO, b4, b5, b6, b7, b8⟩ := GetFragment_none hB
        refine ⟨?_, Or.inr (Or.inr ⟨Info, Payload, hI, a0, Or.inl ⟨rfl, ?_, ?_⟩⟩)⟩
        · refine Tracked_undo hT hb ?_ ?_ ?_ RB.Packets ?_ rfl ?_ ?_
          · show RB.GrantsHeld = _
            rw [b4]; exact a4
          · show RB.BuffersHeld - 1 = _
            rw [b5]; show RA.BuffersHeld - 1 = _
            rw [a5]; omega
          · show RB.FreeIds = _
            rw [b6]; exact a6
          · rw [b7]; show setAt RA.Packets p _ = _
            rw [a7]
          · show RB.State.List = _
            rw [b8, hSt]
          · show RB.State.Count = _
            rw [b8, hSt]
        · rcases b0 with b0 | b0
          · left
            have : R.Oracle (R.Tick + 1) = RA.Oracle RA.Tick := by rw [aO, aT]
            rw [this]; exact b0
          · right
            rw [← a6]; exact b0
        · show RB.State = _
          rw [b8, hSt]
      · next Fragment RB hB =>
        obtain ⟨bF, b0, b3, bT, bO, b4, b5, b7, b8⟩ := GetFragment_some hB
        have hO1 : R.Oracle (R.Tick + 1) = true := by
          have : R.Oracle (R.Tick + 1) = RA.Oracle RA.Tick := by rw [aO, aT]
          rw [this]; exact b0
        have hFree : R.FreeIds = Fragment.Id :: RB.FreeIds := by
          rw [← a6]; exact b3
        have hOB : RB.Oracle = R.Oracle ∧ RB.Tick = R.Tick + 2 := by
          constructor
          · rw [bO]; show RA.Oracle = _
            exact aO
          · rw [bT]; show RA.Tick + 1 = _
            rw [aT]
        split
        · next RC hC =>
          obtain ⟨c0, cT, cO, c4, c5, c6, c7, c8⟩ := Permit_none hC
          refine ⟨?_, Or.inr (Or.inr ⟨Info, Payload, hI, a0,
            Or.inr (Or.inl ⟨rfl, hO1, by rw [hFree]; simp, ?_, ?_⟩)⟩)⟩
          · refine Tracked_undo hT hb ?_ ?_ ?_ RC.Packets ?_ rfl ?_ ?_
            · show RC.GrantsHeld = _
              rw [c4, b4]; exact a4
            · show RC.BuffersHeld - 1 = _
              rw [c5, b5]; show RA.BuffersHeld - 1 = _
              rw [a5]; omega
            · show Fragment.Id :: RC.FreeIds = _
              rw [c6, hFree]
            · rw [c7, b7]; show setAt RA.Packets p _ = _
              rw [a7]
            · show RC.State.List = _
              rw [c8, b8, hSt]
            · show RC.State.Count = _
              rw [c8, b8, hSt]
          · have : R.Oracle (R.Tick + 2) = RB.Oracle RB.Tick := by
              rw [hOB.1, hOB.2]
            rw [this]; exact c0
          · show RC.State = _
            rw [c8, b8, hSt]
        · next Entry RC hC =>
          obtain ⟨cE, c0, cT, cO, c4, c5, c6, c7, c8⟩ := Permit_some hC
          have hO2 : R.Oracle (R.Tick + 2) = true := by
            have : R.Oracle (R.Tick + 2) = RB.Oracle RB.Tick := by
              rw [hOB.1, hOB.2]
            rw [this]; exact c0
          have hStC : RC.State =
              { R.State with StartVa := true, Info := Info, Payload := Payload } := by
            rw [c8, b8, hSt]
          obtain ⟨s1, _⟩ := PrepareHeaderFinish_status RC p
            { Pfn := Buffer.Pfn, ByteCount := Info.Length, Context := some p,
              Reference := Buffer.Reference + 1 } Fragment Entry
          obtain ⟨f1, f2⟩ := PrepareHeaderFinish_fields RC p
            { Pfn := Buffer.Pfn, ByteCount := Info.Length, Context := some p,
              Reference := Buffer.Reference + 1 } Fragment Entry
          obtain ⟨t1, t2⟩ := PrepareHeaderFinish_State RC p
            { Pfn := Buffer.Pfn, ByteCount := Info.Length, Context := some p,
              Reference := Buffer.Reference + 1 } Fragment Entry
          have hMax : RC.MaximumFrameSize = R.MaximumFrameSize := by
            have e1 := congrArg XENVIF_TRANSMITTER_RING.MaximumFrameSize
              (outer_of_eq hC (outerFrame_Permit _ _))
            have e2 := congrArg XENVIF_TRANSMITTER_RING.MaximumFrameSize
              (outer_of_eq hB (outerFrame_GetFragment _))
            have e3 := congrArg XENVIF_TRANSMITTER_RING.MaximumFrameSize
              (outer_of_eq hA (outerFrame_GetBuffer _))
            have e1 : RC.MaximumFrameSize = RB.MaximumFrameSize := e1
            have e2 : RB.MaximumFrameSize = RA.MaximumFrameSize := e2
            have e3 : RA.MaximumFrameSize = R.MaximumFrameSize := e3
            rw [e1, e2, e3]
          rw [hStC, hMax] at s1
          have s1 : (PrepareHeaderFinish RC p
              { Pfn := Buffer.Pfn, ByteCount := Info.Length, Context := some p,
                Reference := Buffer.Reference + 1 } Fragment Entry).1 =
              (if tooLarge (largePacketFixup R.State.Send Payload.Length)
                  (headerLength R.State.Send.OffloadTagManipulation Info.Length Payload.Length)
                  R.MaximumFrameSize
               then STATUS_INVALID_PARAMETER else STATUS_SUCCESS) := s1
          generalize PrepareHeaderFinish RC p
              { Pfn := Buffer.Pfn, ByteCount := Info.Length, Context := some p,
                Reference := Buffer.Reference + 1 } Fragment Entry = r at s1 f1 f2 t1 t2 ⊢
          cases hbig : tooLarge (largePacketFixup R.State.Send Payload.Length)
                  (headerLength R.State.Send.OffloadTagManipulation Info.Length Payload.Length)
                  R.MaximumFrameSize with
          | true =>
            rw [hbig] at s1
            simp only [if_true] at s1
            have hne : r.1 ≠ STATUS_SUCCESS := by rw [s1]; decide
            obtain ⟨g1, g2, g3, g4, g5, g6⟩ := f2 hne
            refine ⟨?_, Or.inr (Or.inr ⟨Info, Payload, hI, a0, Or.inr (Or.inr
              ⟨hO1, hO2, Fragment.Id, RB.FreeIds, hFree, Or.inl ⟨s1, hbig, ?_⟩⟩)⟩)⟩
            · refine Tracked_undo hT hb ?_ ?_ ?_ RC.Packets ?_ g4 ?_ ?_
              · rw [g1, c4, b4]; show RA.GrantsHeld + 1 - 1 = _
                rw [a4]; omega
              · rw [g2, c5, b5]; show RA.BuffersHeld - 1 = _
                rw [a5]; omega
              · rw [g3, c6, hFree]
              · rw [c7, b7]; show setAt RA.Packets p _ = _
                rw [a7]
              · rw [g5, hStC]
              · rw [g6, hStC]
            · rw [t2 hne, hStC]
          | false =>
            rw [hbig] at s1
            simp only [Bool.false_eq_true, if_false] at s1
            obtain ⟨g1, g2, g3, g4, g5, g6⟩ := f1 s1
            have hBuf : Buffer.Pfn = R.Tick ∧ Buffer.Reference + 1 = 1 := by
              rw [aBuf]; exact ⟨rfl, rfl⟩
            have hEnt : Entry = R.Tick := by rw [cE, hBuf.1]
            have hFr := bF
            refine ⟨?_, Or.inr (Or.inr ⟨Info, Payload, hI, a0, Or.inr (Or.inr
              ⟨hO1, hO2, Fragment.Id, RB.FreeIds, hFree, Or.inr ⟨s1, hbig, ?_⟩⟩)⟩)⟩
            · have hT1 := Tracked_insert
                (F := headerFragment Fragment
                  { Pfn := Buffer.Pfn, ByteCount := Info.Length, Context := some p,
                    Reference := Buffer.Reference + 1 } Entry
                  RC.State.Send.OffloadTagManipulation RC.State.Payload.Length)
                (S := RC) hT hb
                (by show RC.GrantsHeld = R.GrantsHeld + 1
                    rw [c4, b4]; show RA.GrantsHeld + 1 = _
                    rw [a4])
                (by show RC.BuffersHeld = R.BuffersHeld + 1
                    rw [c5, b5]; exact a5)
                (by show R.FreeIds = Fragment.Id :: RC.FreeIds
                    rw [c6]; exact hFree)
                (by rw [c7, b7]; show setAt RA.Packets p _ = _
                    rw [a7])
                (by rw [hStC]) (by rw [hStC])
                (by unfold headerFragment XENVIF_TRANSMITTER_FRAGMENT.packet
                    simp only []
                    split_ifs <;> rfl)
              refine Tracked_of_eq hT1 g1 g2 g3 g4 ?_ ?_
              · rw [g5]; rfl
              · rw [g6]; rfl
            · rw [t1 s1, hStC, hBuf.1, hBuf.2, hEnt]
              rw [hFr]

/-! ### Un-preparing, tracked -/

theorem TrackedRes_of_Tracked {G B : Nat} {Ids : List Nat}
    {Pk : Nat → XENVIF_TRANSMITTER_PACKET} {p : Nat} {R : XENVIF_TRANSMITTER_RING}
    (h : Tracked G B Ids Pk p R) : TrackedRes G B Ids Pk p R := by
  obtain ⟨h1, h2, h3, h4, h5, _⟩ := h
  exact ⟨h1, h2, h3, h4, h5, rfl⟩

theorem Tracked_of_TrackedRes {G B : Nat} {Ids : List Nat}
    {Pk : Nat → XENVIF_TRANSMITTER_PACKET} {p : Nat} {R : XENVIF_TRANSMITTER_RING}
    (h : TrackedRes G B Ids Pk p R) (hc : R.State.Count = R.State.List.length) :
    Tracked G B Ids Pk p R := by
  obtain ⟨h1, h2, h3, h4, h5, _⟩ := h
  exact ⟨h1, h2, h3, h4, h5, hc⟩

/-- One pass of the loop of `__TransmitterRingUnprepareFragments` on a
fragment of the packet. -/
theorem UnprepareFragment_fields (R : XENVIF_TRANSMITTER_RING)
    (F : XENVIF_TRANSMITTER_FRAGMENT) (p : Nat) (hp : F.packet = some p) :
    (UnprepareFragment R F).GrantsHeld =
      (if F.Entry.isSome then R.GrantsHeld - 1 else R.GrantsHeld) ∧
    (UnprepareFragment R F).BuffersHeld =
      (if F.isBuffer then R.BuffersHeld - 1 else R.BuffersHeld) ∧
    (UnprepareFragment R F).FreeIds = F.Id :: R.FreeIds ∧
    (UnprepareFragment R F).Packets = setAt R.Packets p
      { R.Packets p with Value := ULONG_PTR_dec (R.Packets p).Value } ∧
    (UnprepareFragment R F).State = { R.State with List := R.State.List.dropLast } := by
  obtain ⟨Id, Context, Entry, Offset, Length, Extra⟩ := F
  cases Context with
  | INVALID => simp [XENVIF_TRANSMITTER_FRAGMENT.packet] at hp
  | MULTICAST_CONTROL c => simp [XENVIF_TRANSMITTER_FRAGMENT.packet] at hp
  | PACKET q =>
    simp only [XENVIF_TRANSMITTER_FRAGMENT.packet] at hp
    injection hp with hp
    subst hp
    cases Entry <;> exact ⟨rfl, rfl, rfl, rfl, rfl⟩
  | BUFFER b =>
    simp only [XENVIF_TRANSMITTER_FRAGMENT.packet] at hp
    obtain ⟨Pfn, ByteCount, Ctx, Reference⟩ := b
    simp only [] at hp
    subst hp
    cases Entry <;> exact ⟨rfl, rfl, rfl, rfl, rfl⟩

/-- The loop of `__TransmitterRingUnprepareFragments`, run as many times as
the list is long, gives everything back and empties the list. -/
theorem UnprepareFragmentsLoop_tracked (p : Nat) {G B : Nat} {Ids : List Nat}
    {Pk : Nat → XENVIF_TRANSMITTER_PACKET}
    (hb : (Pk p).Value + Ids.length + 1 < 18446744073709551616) :
    ∀ (Count : Nat) (R : XENVIF_TRANSMITTER_RING),
      TrackedRes G B Ids Pk p R → R.State.List.length ≤ Count →
      TrackedRes G B Ids Pk p (UnprepareFragmentsLoop Count R) ∧
      (UnprepareFragmentsLoop Count R).State = { R.State with List := [] }
  | 0, R => by
    intro hT hl
    have : R.State.List = [] := List.length_eq_zero.mp (by omega)
    refine ⟨hT, ?_⟩
    show R.State = _
    rw [← this]
  | Count + 1, R => by
    intro hT hl
    rw [UnprepareFragmentsLoop]
    split
    · next hnone =>
      rw [List.getLast?_eq_none_iff] at hnone
      refine ⟨hT, ?_⟩
      rw [← hnone]
    · next F hlast =>
      have hmem : F ∈ R.State.List := List.mem_of_getLast?_eq_some hlast
      have hp : F.packet = some p := hT.2.2.2.2.1 F hmem
      obtain ⟨s1, s2, s3, s4, s5⟩ := UnprepareFragment_fields R F p hp
      have hT1 : TrackedRes G B Ids Pk p (UnprepareFragment R F) := by
        refine Tracked_remove hT hb hlast ?_ ?_ ?_ ?_ ?_ ?_
        · exact s1
        · exact s2
        · exact s3
        · exact s4
        · show (UnprepareFragment R F).State.List = _
          rw [s5]
        · show (UnprepareFragment R F).State.List.length = R.State.List.length - 1
          rw [s5]; simp
      have hlen : (UnprepareFragment R F).State.List.length ≤ Count := by
        rw [s5]; simp; omega
      obtain ⟨i1, i2⟩ := UnprepareFragmentsLoop_tracked p hb Count _ hT1 hlen
      refine ⟨i1, ?_⟩
      rw [i2, s5]

/-- `__TransmitterRingUnprepareFragments` on a tracked ring that holds the
packet: the grant entries, buffers, ids and `Value` are back at their base
line, `State` keeps only `StartVa` and `Info`, and the packet has been given
the send information that was in `State`. -/
theorem UnprepareFragments_tracked (p : Nat) {G B : Nat} {Ids : List Nat}
    {Pk : Nat → XENVIF_TRANSMITTER_PACKET}
    (hb : (Pk p).Value + Ids.length + 1 < 18446744073709551616)
    (R : XENVIF_TRANSMITTER_RING) (hP : R.State.Packet = some p)
    (hT : Tracked G B Ids Pk p R) :
    (__TransmitterRingUnprepareFragments R).2.GrantsHeld = G ∧
    (__TransmitterRingUnprepareFragments R).2.BuffersHeld = B ∧
    (__TransmitterRingUnprepareFragments R).2.FreeIds = Ids ∧
    (__TransmitterRingUnprepareFragments R).2.Packets =
      setAt Pk p { Pk p with Send := R.State.Send } ∧
    (__TransmitterRingUnprepareFragments R).2.State =
      { XENVIF_TRANSMITTER_STATE.zero with StartVa := R.State.StartVa, Info := R.State.Info } := by
  obtain ⟨i1, i2⟩ := UnprepareFragmentsLoop_tracked p hb R.State.Count R
    (TrackedRes_of_Tracked hT) (by rw [hT.2.2.2.2.2])
  unfold __TransmitterRingUnprepareFragments
  simp only []
  generalize UnprepareFragmentsLoop R.State.Count R = R1 at i1 i2
  obtain ⟨h1, h2, h3, h4, _, _⟩ := i1
  have h1 : R1.GrantsHeld = G + grantCount R1.State.List := h1
  have h2 : R1.BuffersHeld = B + bufferCount R1.State.List := h2
  have h3 : R1.State.List.map (fun F => F.Id) ++ R1.FreeIds = Ids := h3
  have h4 : R1.Packets =
    setAt Pk p { Pk p with Value := (Pk p).Value + R1.State.List.length } := h4
  have hL : R1.State.List = [] := by rw [i2]
  rw [hL] at h1 h2 h3 h4
  simp only [grantCount, bufferCount, List.filter_nil, List.length_nil, Nat.add_zero,
    List.map_nil, List.nil_append] at h1 h2 h3 h4
  have hPk : R1.Packets = Pk := by
    rw [h4]; exact setAt_self Pk p
  have hS1 : (UnprepareClearCount R1).State =
      { R.State with List := [], Count := 0 } := by
    unfold UnprepareClearCount
    split_ifs with hc
    · show ({ R1.State with List := [], Count := 0 } : XENVIF_TRANSMITTER_STATE) = _
      rw [i2]
    · show R1.State = _
      rw [i2]
      have : R.State.Count = 0 := by
        have : R1.State.Count = R.State.Count := by rw [i2]
        rw [← this]; exact not_not.mp hc
      rw [← this]
  have hF1 : (UnprepareClearCount R1).GrantsHeld = G ∧
      (UnprepareClearCount R1).BuffersHeld = B ∧
      (UnprepareClearCount R1).FreeIds = Ids ∧
      (UnprepareClearCount R1).Packets = Pk := by
    unfold UnprepareClearCount
    split_ifs <;> exact ⟨h1, h2, h3, hPk⟩
  generalize UnprepareClearCount R1 = R2 at hS1 hF1
  obtain ⟨k1, k2, k3, k4⟩ := hF1
  have hP2 : R2.State.Packet = some p := by rw [hS1]; exact hP
  rw [hP2]
  simp only []
  refine ⟨k1, k2, k3, ?_, ?_⟩
  · show setAt R2.Packets p { R2.Packets p with Send := R2.State.Send } = _
    rw [k4, hS1]
  · show ({ R2.State with
        Payload := XENVIF_PACKET_PAYLOAD.zero
        Send := XENVIF_TRANSMITTER_PACKET_SEND_INFO.zero
        Packet := none } : XENVIF_TRANSMITTER_STATE) = _
    rw [hS1]; rfl

/-! ### The payload step, tracked -/

/-- A change of a fragment that keeps what is tracked. -/
theorem modifyTail_map {α : Type} (g : XENVIF_TRANSMITTER_FRAGMENT → XENVIF_TRANSMITTER_FRAGMENT)
    (f : XENVIF_TRANSMITTER_FRAGMENT → α) (hg : ∀ F, f (g F) = f F) :
    ∀ l : List XENVIF_TRANSMITTER_FRAGMENT, (modifyTail g l).map f = l.map f
  | [] => rfl
  | [x] => by simp [modifyTail, hg]
  | x :: y :: rest => by
    rw [modifyTail, List.map_cons, modifyTail_map g f hg (y :: rest)]
    rfl

theorem modifyFirst_map {α : Type} (g : XENVIF_TRANSMITTER_FRAGMENT → XENVIF_TRANSMITTER_FRAGMENT)
    (f : XENVIF_TRANSMITTER_FRAGMENT → α) (hg : ∀ F, f (g F) = f F) :
    ∀ l : List XENVIF_TRANSMITTER_FRAGMENT, (modifyFirst g l).map f = l.map f
  | [] => rfl
  | x :: rest => by simp [modifyFirst, hg]

/-- The padding of a runt changes nothing in a fragment but its length and
the byte count of its buffer: every other view of the list is kept. -/
theorem padRunt_map {α : Type} (Trailer : Nat) (Single : Bool)
    (f : XENVIF_TRANSMITTER_FRAGMENT → α)
    (h1 : ∀ F, f (padTailFragment Trailer Single F) = f F)
    (h2 : ∀ F, f (padHeadFragment Trailer F) = f F)
    (l : List XENVIF_TRANSMITTER_FRAGMENT) :
    (padRunt Trailer Single l).map f = l.map f := by
  unfold padRunt
  rw [modifyFirst_map _ f h2, modifyTail_map _ f h1]

theorem padTail_keeps (Trailer : Nat) (Single : Bool) (F : XENVIF_TRANSMITTER_FRAGMENT) :
    (padTailFragment Trailer Single F).Id = F.Id ∧
    (padTailFragment Trailer Single F).Entry = F.Entry ∧
    (padTailFragment Trailer Single F).isBuffer = F.isBuffer ∧
    (padTailFragment Trailer Single F).packet = F.packet ∧
    (padTailFragment Trailer Single F).Extra = F.Extra ∧
    (padTailFragment Trailer Single F).Offset = F.Offset := by
  obtain ⟨Id, Context, Entry, Offset, Length, Extra⟩ := F
  cases Context <;> exact ⟨rfl, rfl, rfl, rfl, rfl, rfl⟩

theorem padHead_keeps (Trailer : Nat) (F : XENVIF_TRANSMITTER_FRAGMENT) :
    (padHeadFragment Trailer F).Id = F.Id ∧
    (padHeadFragment Trailer F).Entry = F.Entry ∧
    (padHeadFragment Trailer F).isBuffer = F.isBuffer ∧
    (padHeadFragment Trailer F).packet = F.packet ∧
    (padHeadFragment Trailer F).Extra = F.Extra ∧
    (padHeadFragment Trailer F).Offset = F.Offset :=
  ⟨rfl, rfl, rfl, rfl, rfl, rfl⟩

theorem filter_length_of_map {α : Type} (q : α → Bool) :
    ∀ l1 l2 : List α, l1.map q = l2.map q → (l1.filter q).length = (l2.filter q).length
  | [], [], _ => rfl
  | [], _ :: _, h => by simp at h
  | _ :: _, [], h => by simp at h
  | a :: l1, b :: l2, h => by
    simp only [List.map_cons, List.cons.injEq] at h
    have ih := filter_length_of_map q l1 l2 h.2
    simp only [List.filter_cons, h.1]
    split_ifs <;> simp [ih]

/-- Padding a runt keeps the fragments tracked. -/
theorem Tracked_padRunt {G B : Nat} {Ids : List Nat} {Pk : Nat → XENVIF_TRANSMITTER_PACKET}
    {p : Nat} {R : XENVIF_TRANSMITTER_RING} (h : Tracked G B Ids Pk p R)
    (Trailer : Nat) (Single : Bool) :
    Tracked G B Ids Pk p
      { R with State := { R.State with List := padRunt Trailer Single R.State.List } } := by
  obtain ⟨h1, h2, h3, h4, h5, h6⟩ := h
  have kT := padTail_keeps Trailer Single
  have kH := padHead_keeps Trailer
  have mId := padRunt_map Trailer Single (fun F => F.Id) (fun F => (kT F).1)
    (fun F => (kH F).1) R.State.List
  have mEn := padRunt_map Trailer Single (fun F => F.Entry.isSome)
    (fun F => by show (padTailFragment Trailer Single F).Entry.isSome = _; rw [(kT F).2.1])
    (fun F => rfl) R.State.List
  have mBu := padRunt_map Trailer Single (fun F => F.isBuffer) (fun F => (kT F).2.2.1)
    (fun F => rfl) R.State.List
  have mPk := padRunt_map Trailer Single (fun F => F.packet) (fun F => (kT F).2.2.2.1)
    (fun F => rfl) R.State.List
  have hlen : (padRunt Trailer Single R.State.List).length = R.State.List.length := by
    have := congrArg List.length mId
    simpa using this
  refine ⟨?_, ?_, ?_, ?_, ?_, ?_⟩
  · show R.GrantsHeld = G + grantCount (padRunt Trailer Single R.State.List)
    rw [h1]
    unfold grantCount
    rw [filter_length_of_map _ _ _ mEn]
  · show R.BuffersHeld = B + bufferCount (padRunt Trailer Single R.State.List)
    rw [h2]
    unfold bufferCount
    rw [filter_length_of_map _ _ _ mBu]
  · show (padRunt Trailer Single R.State.List).map (fun F => F.Id) ++ R.FreeIds = Ids
    rw [mId]; exact h3
  · show R.Packets = setAt Pk p { Pk p with
      Value := (Pk p).Value + (padRunt Trailer Single R.State.List).length }
    rw [hlen]; exact h4
  · intro F hF
    have hF : F ∈ padRunt Trailer Single R.State.List := hF
    have : F.packet ∈ (padRunt Trailer Single R.State.List).map (fun F => F.packet) :=
      List.mem_map.mpr ⟨F, hF, rfl⟩
    rw [mPk] at this
    obtain ⟨F1, hF1, e⟩ := List.mem_map.mp this
    have e : F1.packet = F.packet := e
    rw [← e]; exact h5 F1 hF1
  · show R.State.Count = (padRunt Trailer Single R.State.List).length
    rw [hlen]; exact h6

theorem State_of_payloadFrame {A B : XENVIF_TRANSMITTER_RING}
    (h : payloadFrame A = payloadFrame B) :
    A.State.Packet = B.State.Packet ∧ A.State.Send = B.State.Send ∧
    A.State.StartVa = B.State.StartVa ∧ A.State.Info = B.State.Info ∧
    A.State.Payload = B.State.Payload ∧ A.AlwaysCopy = B.AlwaysCopy ∧
    A.MaximumFrameSize = B.MaximumFrameSize ∧ A.Pending = B.Pending ∧
    A.PacketsPrepared = B.PacketsPrepared := by
  have a := congrArg (fun R => R.State.Packet) h
  have b := congrArg (fun R => R.State.Send) h
  have c := congrArg (fun R => R.State.StartVa) h
  have d := congrArg (fun R => R.State.Info) h
  have e := congrArg (fun R => R.State.Payload) h
  have f := congrArg XENVIF_TRANSMITTER_RING.AlwaysCopy h
  have g := congrArg XENVIF_TRANSMITTER_RING.MaximumFrameSize h
  have i := congrArg XENVIF_TRANSMITTER_RING.Pending h
  have j := congrArg XENVIF_TRANSMITTER_RING.PacketsPrepared h
  exact ⟨a, b, c, d, e, f, g, i, j⟩

/-- The payload step, entered with the header fragment as the only fragment
of a tracked list: the fragments stay tracked; on failure the list is as it
was on entry; on success the list is the header fragment followed by the
fragments of the payload, which were copied and padded for a runt, and
otherwise granted (within the slot budget) or copied. -/
theorem PreparePacketPayload_tracked (p : Nat) {G B : Nat} {Ids : List Nat}
    {Pk : Nat → XENVIF_TRANSMITTER_PACKET}
    (hb : (Pk p).Value + Ids.length + 1 < 18446744073709551616)
    (hv0 : (Pk p).Value = 0) (R : XENVIF_TRANSMITTER_RING)
    (hP : R.State.Packet = some p) (hT : Tracked G B Ids Pk p R)
    (h1 : R.State.List.length = 1) :
    Tracked G B Ids Pk p (PreparePacketPayload R).2 ∧
    ((PreparePacketPayload R).1 ≠ STATUS_SUCCESS →
      (PreparePacketPayload R).2.State.List = R.State.List) ∧
    ((PreparePacketPayload R).1 = STATUS_SUCCESS →
      ∃ added,
        (isRunt R.State.Info.Length R.State.Payload.Length ∧
          (PreparePacketPayload R).2.State.List =
            padRunt (runtTrailer R.State.Info.Length R.State.Payload.Length) (decide (R.State.Payload.Length = 0))
              (R.State.List ++ added) ∧
          CopiedFragments added R.State.Payload.Length) ∨
        (¬ isRunt R.State.Info.Length R.State.Payload.Length ∧
          (PreparePacketPayload R).2.State.List = R.State.List ++ added ∧
          (CopiedFragments added R.State.Payload.Length ∨
           (R.AlwaysCopy = 0 ∧ GrantedFragments added ∧
            (PreparePacketPayload R).2.State.Count ≤ XEN_NETIF_NR_SLOTS_MIN)))) := by
  have h1' : 1 ≤ R.State.List.length := by omega
  obtain ⟨c1, c2, c3⟩ := CopyPayload_tracked p hb hv0 R hP hT h1'
  have htake : R.State.List.take 1 = R.State.List := by
    rw [← h1]; simp
  unfold PreparePacketPayload
  split_ifs with hrunt hac
  · rcases hres : __TransmitterRingCopyPayload R with ⟨st, R1⟩
    rw [hres] at c1 c2 c3
    simp only [] at c1 c2 c3
    cases st
    · obtain ⟨added, e1, e2, e3, e4, e5⟩ := c2 rfl
      refine ⟨?_, fun h => absurd rfl h, fun _ => ⟨added, Or.inl ⟨hrunt, ?_, e2, e3, e4, e5⟩⟩⟩
      · exact Tracked_padRunt c1 _ _
      · show padRunt _ _ R1.State.List = _
        rw [e1]; rfl
    all_goals
      refine ⟨c1, fun _ => ?_, fun h => by simp at h⟩
      rw [c3 (by simp), htake]
  · obtain ⟨g1, g2, g3, g4⟩ := GrantPayload_tracked p hb hv0 R hP hT h1
    obtain ⟨gf, _⟩ := GrantPayload_spec R
    split
    · next R1 hres =>
      rw [hres] at g1 g2 g3 g4 gf
      simp only [] at g1 g2 g3 g4 gf
      have hL1 : R1.State.List = R.State.List := g3 (by simp)
      obtain ⟨q1, _, _, _, q5, _⟩ := State_of_payloadFrame gf
      obtain ⟨d1, d2, d3⟩ := CopyPayload_tracked p hb hv0 R1 (by rw [q1]; exact hP) g1
        (by rw [hL1]; exact h1')
      refine ⟨d1, fun h => ?_, fun h => ?_⟩
      · rw [d3 h, hL1, htake]
      · obtain ⟨added, e1, e2, e3, e4, e5⟩ := d2 h
        refine ⟨added, Or.inr ⟨hrunt, ?_, Or.inl ⟨e2, ?_, ?_, ?_⟩⟩⟩
        · rw [e1, hL1]
        · rw [e3, q5]
        · rw [← q5]; exact e4
        · rw [← q5]; exact e5
    · next st R1 hne hres =>
      rw [hres] at g1 g2 g3 g4
      simp only [] at g1 g2 g3 g4
      refine ⟨g1, fun h => g3 h, fun h => ?_⟩
      obtain ⟨a, added, b1, b2⟩ := g2 h
      exact ⟨added, Or.inr ⟨hrunt, b1, Or.inr ⟨hac, b2, a⟩⟩⟩
  · refine ⟨c1, fun h => ?_, fun h => ?_⟩
    · rw [c3 h, htake]
    · obtain ⟨added, e1, e2, e3, e4, e5⟩ := c2 h
      exact ⟨added, Or.inr ⟨hrunt, e1, Or.inl ⟨e2, e3, e4, e5⟩⟩⟩

/-! ### `__TransmitterRingPreparePacket` in detail -/

/-- The ring on entry to the header step is tracked, with nothing on the
list. -/
theorem PreparePacketEnter_tracked (R : XENVIF_TRANSMITTER_RING) (p : Nat)
    (hC0 : R.State.Count = 0) :
    Tracked R.GrantsHeld R.BuffersHeld R.FreeIds (PreparePacketEnter R p).Packets p
      (PreparePacketEnter R p) := by
  refine ⟨rfl, rfl, rfl, ?_, fun F hF => ?_, hC0⟩
  · show (PreparePacketEnter R p).Packets = setAt (PreparePacketEnter R p).Packets p
      { (PreparePacketEnter R p).Packets p with
        Value := ((PreparePacketEnter R p).Packets p).Value + 0 }
    exact (setAt_self _ _).symm
  · have : (PreparePacketEnter R p).State.List = [] := rfl
    rw [this] at hF
    simp at hF

theorem PreparePacketEnter_fields (R : XENVIF_TRANSMITTER_RING) (p : Nat) :
    (PreparePacketEnter R p).State =
      { R.State with
        Packet := some p
        Send := (R.Packets p).Send
        Payload := { Mdl := (R.Packets p).Mdl, Offset := (R.Packets p).Offset,
                     Length := (R.Packets p).Length }
        List := [] } ∧
    (PreparePacketEnter R p).Packets =
      setAt R.Packets p { R.Packets p with Send := XENVIF_TRANSMITTER_PACKET_SEND_INFO.zero } ∧
    (PreparePacketEnter R p).Tick = R.Tick ∧ (PreparePacketEnter R p).Oracle = R.Oracle ∧
    (PreparePacketEnter R p).FreeIds = R.FreeIds ∧
    (PreparePacketEnter R p).MaximumFrameSize = R.MaximumFrameSize ∧
    (PreparePacketEnter R p).AlwaysCopy = R.AlwaysCopy :=
  ⟨rfl, rfl, rfl, rfl, rfl, rfl, rfl⟩

/-- The three ways in which `__TransmitterRingPreparePacket` returns. -/
theorem PreparePacket_cases (R : XENVIF_TRANSMITTER_RING) (p : Nat) :
    ((__TransmitterRingPrepareHeader (PreparePacketEnter R p)).1 ≠ STATUS_SUCCESS ∧
      __TransmitterRingPreparePacket R p =
        ((__TransmitterRingPrepareHeader (PreparePacketEnter R p)).1,
         PreparePacketFail1 (__TransmitterRingPrepareHeader (PreparePacketEnter R p)).2 p)) ∨
    ((__TransmitterRingPrepareHeader (PreparePacketEnter R p)).1 = STATUS_SUCCESS ∧
      (PreparePacketPayload
        (__TransmitterRingPrepareHeader (PreparePacketEnter R p)).2).1 ≠ STATUS_SUCCESS ∧
      __TransmitterRingPreparePacket R p =
        ((PreparePacketPayload
            (__TransmitterRingPrepareHeader (PreparePacketEnter R p)).2).1,
         PreparePacketFail1 (__TransmitterRingUnprepareFragments
           (PreparePacketPayload
             (__TransmitterRingPrepareHeader (PreparePacketEnter R p)).2).2).2 p)) ∨
    ((__TransmitterRingPrepareHeader (PreparePacketEnter R p)).1 = STATUS_SUCCESS ∧
      (PreparePacketPayload
        (__TransmitterRingPrepareHeader (PreparePacketEnter R p)).2).1 = STATUS_SUCCESS ∧
      __TransmitterRingPreparePacket R p =
        (STATUS_SUCCESS,
         { (PreparePacketPayload
             (__TransmitterRingPrepareHeader (PreparePacketEnter R p)).2).2 with
           PacketsPrepared := ULONG_inc (PreparePacketPayload
             (__TransmitterRingPrepareHeader (PreparePacketEnter R p)).2).2.PacketsPrepared })) := by
  unfold __TransmitterRingPreparePacket
  simp only []
  rcases hh : __TransmitterRingPrepareHeader (PreparePacketEnter R p) with ⟨st, RH⟩
  cases st
  · simp only []
    rcases hpay : PreparePacketPayload RH with ⟨st2, RP⟩
    cases st2
    · exact Or.inr (Or.inr ⟨by trivial, by trivial,
        by trivial⟩)
    all_goals exact Or.inr (Or.inl ⟨by trivial, by simp,
      by trivial⟩)
  all_goals exact Or.inl ⟨by simp, by trivial⟩

theorem PreparePacketFail1_fields (X : XENVIF_TRANSMITTER_RING) (p : Nat) :
    (PreparePacketFail1 X p).State =
      { XENVIF_TRANSMITTER_STATE.zero with Count := X.State.Count } ∧
    (PreparePacketFail1 X p).Packets =
      setAt X.Packets p { X.Packets p with Send := X.State.Send } ∧
    (PreparePacketFail1 X p).GrantsHeld = X.GrantsHeld ∧
    (PreparePacketFail1 X p).BuffersHeld = X.BuffersHeld ∧
    (PreparePacketFail1 X p).FreeIds = X.FreeIds :=
  ⟨rfl, rfl, rfl, rfl, rfl⟩

/-- What a tracked ring with an empty list holds is the base line. -/
theorem Tracked_nil {G B : Nat} {Ids : List Nat} {Pk : Nat → XENVIF_TRANSMITTER_PACKET}
    {p : Nat} {R : XENVIF_TRANSMITTER_RING} (h : Tracked G B Ids Pk p R)
    (hl : R.State.List = []) :
    R.GrantsHeld = G ∧ R.BuffersHeld = B ∧ R.FreeIds = Ids ∧ R.Packets = Pk ∧
    R.State.Count = 0 := by
  obtain ⟨h1, h2, h3, h4, _, h6⟩ := h
  rw [hl] at h1 h2 h3 h4 h6
  simp only [grantCount, bufferCount, List.filter_nil, List.length_nil, Nat.add_zero,
    List.map_nil, List.nil_append] at h1 h2 h3 h4 h6
  exact ⟨h1, h2, h3, by rw [h4]; exact setAt_self Pk p, h6⟩

/-- The bound on `Value` that the tracking needs follows from the size of the
id space. -/
theorem bound_of_ids (R : XENVIF_TRANSMITTER_RING) (p : Nat)
    (hV0 : (R.Packets p).Value = 0)
    (hIds : R.FreeIds.length ≤ XENVIF_TRANSMITTER_MAXIMUM_FRAGMENT_ID + 1) :
    ((PreparePacketEnter R p).Packets p).Value + R.FreeIds.length + 1 <
      18446744073709551616 ∧
    ((PreparePacketEnter R p).Packets p).Value = 0 := by
  have hv : ((PreparePacketEnter R p).Packets p).Value = 0 := by
    rw [(PreparePacketEnter_fields R p).2.1, setAt_same]
    exact hV0
  have : XENVIF_TRANSMITTER_MAXIMUM_FRAGMENT_ID + 1 = 1024 := rfl
  rw [this] at hIds
  rw [hv]
  exact ⟨by omega, rfl⟩

/-- What a failed `__TransmitterRingPreparePacket` leaves, for every ring
with `State.Count == 0` and every packet with `Value == 0`: `State` is
entirely zero; the grant entries held, the buffers held and the free
fragment ids are what they were on entry, and `Pending` is unchanged; no
other packet is touched and of the packet only `Send` may have changed, so
`Value` is 0.  After a failure of the header step `Send` is what the packet
carried on entry, except that a failed frame-size check leaves the
fixed-up send information; after a failure of the payload step `Send` is
zero. -/
theorem PreparePacket_failure (R : XENVIF_TRANSMITTER_RING) (p : Nat)
    (hC0 : R.State.Count = 0) (hV0 : (R.Packets p).Value = 0)
    (hIds : R.FreeIds.length ≤ XENVIF_TRANSMITTER_MAXIMUM_FRAGMENT_ID + 1)
    (hfail : (__TransmitterRingPreparePacket R p).1 ≠ STATUS_SUCCESS) :
    (__TransmitterRingPreparePacket R p).2.State = XENVIF_TRANSMITTER_STATE.zero ∧
    (__TransmitterRingPreparePacket R p).2.GrantsHeld = R.GrantsHeld ∧
    (__TransmitterRingPreparePacket R p).2.BuffersHeld = R.BuffersHeld ∧
    (__TransmitterRingPreparePacket R p).2.FreeIds = R.FreeIds ∧
    (__TransmitterRingPreparePacket R p).2.Pending = R.Pending ∧
    (∃ Send, (__TransmitterRingPreparePacket R p).2.Packets =
      setAt R.Packets p { R.Packets p with Send := Send }) ∧
    ((__TransmitterRingPrepareHeader (PreparePacketEnter R p)).1 ≠ STATUS_SUCCESS →
      (__TransmitterRingPreparePacket R p).1 =
        (__TransmitterRingPrepareHeader (PreparePacketEnter R p)).1 ∧
      ((__TransmitterRingPreparePacket R p).1 ≠ STATUS_INVALID_PARAMETER →
        ((__TransmitterRingPreparePacket R p).2.Packets p).Send = (R.Packets p).Send) ∧
      ((__TransmitterRingPreparePacket R p).1 = STATUS_INVALID_PARAMETER →
        ∃ Info Payload,
          ParsePacket (R.Packets p).Parse
            { Mdl := (R.Packets p).Mdl, Offset := (R.Packets p).Offset,
              Length := (R.Packets p).Length } = some (Info, Payload) ∧
          tooLarge (largePacketFixup (R.Packets p).Send Payload.Length)
            (headerLength (R.Packets p).Send.OffloadTagManipulation Info.Length Payload.Length)
            R.MaximumFrameSize = true ∧
          ((__TransmitterRingPreparePacket R p).2.Packets p).Send =
            largePacketFixup (R.Packets p).Send Payload.Length)) ∧
    ((__TransmitterRingPrepareHeader (PreparePacketEnter R p)).1 = STATUS_SUCCESS →
      ((__TransmitterRingPreparePacket R p).2.Packets p).Send =
        XENVIF_TRANSMITTER_PACKET_SEND_INFO.zero) := by
  obtain ⟨hb, hv0⟩ := bound_of_ids R p hV0 hIds
  have hTE := PreparePacketEnter_tracked R p hC0
  obtain ⟨eS, eP, eT, eO, eF, eM, eA⟩ := PreparePacketEnter_fields R p
  have hPE : (PreparePacketEnter R p).State.Packet = some p := rfl
  obtain ⟨hTH, hout⟩ := PrepareHeader_outcome p hb (PreparePacketEnter R p) hPE hTE
  obtain ⟨_, _, _, hhf⟩ := PrepareHeader_spec (PreparePacketEnter R p)
  have hPend : (__TransmitterRingPreparePacket R p).2.Pending = R.Pending :=
    (facts_of_counterFrame (PreparePacket_spec R p).1).2.2.2.1
  have hParse : ((PreparePacketEnter R p).Packets p).Parse = (R.Packets p).Parse := by
    rw [eP, setAt_same]
  have hPk2 : ∀ Send, setAt (PreparePacketEnter R p).Packets p
      { (PreparePacketEnter R p).Packets p with Send := Send } =
      setAt R.Packets p { R.Packets p with Send := Send } := by
    intro Send
    rw [eP, setAt_setAt, setAt_same]
  rcases PreparePacket_cases R p with ⟨hne, heq⟩ | ⟨hok, hne, heq⟩ | ⟨_, hok2, heq⟩
  · -- the header step failed
    obtain ⟨t1, t2, t3, t4, t5⟩ := Tracked_nil hTH (by rw [(hhf hne).2]; rfl)
    obtain ⟨f1, f2, f3, f4, f5⟩ := PreparePacketFail1_fields
      (__TransmitterRingPrepareHeader (PreparePacketEnter R p)).2 p
    rw [heq] at hPend ⊢
    simp only [] at hPend ⊢
    refine ⟨?_, by rw [f3, t1], by rw [f4, t2], by rw [f5, t3], hPend,
      ⟨_, by rw [f2, t4]; exact hPk2 _⟩, fun _ => ⟨trivial, ?_, ?_⟩, fun h => absurd h hne⟩
    · rw [f1, t5]; rfl
    · intro hnip
      rw [f2, t4, hPk2, setAt_same]
      show (__TransmitterRingPrepareHeader (PreparePacketEnter R p)).2.State.Send = _
      rcases hout with ⟨_, _, hs⟩ | ⟨_, _, _, hs⟩ | ⟨Info, Payload, _, _, h3⟩
      · rw [hs]; rfl
      · rw [hs]; rfl
      · rcases h3 with ⟨_, _, hs⟩ | ⟨_, _, _, _, hs⟩ | ⟨_, _, Id, rest, _, h4⟩
        · rw [hs]; rfl
        · rw [hs]; rfl
        · rcases h4 with ⟨hst, _, _⟩ | ⟨hst, _, _⟩
          · exact absurd hst hnip
          · exact absurd hst hne
    · intro hip
      rcases hout with ⟨hst, _, _⟩ | ⟨hst, _, _, _⟩ | ⟨Info, Payload, hI, _, h3⟩
      · rw [hst] at hip; cases hip
      · rw [hst] at hip; cases hip
      · rcases h3 with ⟨hst, _, _⟩ | ⟨hst, _, _, _, _⟩ | ⟨_, _, Id, rest, _, h4⟩
        · rw [hst] at hip; cases hip
        · rw [hst] at hip; cases hip
        · rcases h4 with ⟨hst, hbig, hs⟩ | ⟨hst, _, _⟩
          · refine ⟨Info, Payload, ?_, ?_, ?_⟩
            · rw [← hParse]; exact hI
            · rw [← eM]; exact hbig
            · rw [f2, t4, hPk2, setAt_same]
              show (__TransmitterRingPrepareHeader (PreparePacketEnter R p)).2.State.Send = _
              rw [hs]; rfl
          · exact absurd hst hne
  · -- the payload step failed
    have hPH : (__TransmitterRingPrepareHeader (PreparePacketEnter R p)).2.State.Packet =
        some p := by
      rw [(PrepareHeader_spec (PreparePacketEnter R p)).2.1]; rfl
    have hLH : (__TransmitterRingPrepareHeader (PreparePacketEnter R p)).2.State.List.length =
        1 := by
      have h6 := hTH.2.2.2.2.2
      rw [← h6, (PrepareHeader_spec (PreparePacketEnter R p)).2.2.1 hok]
      show R.State.Count + 1 = 1
      rw [hC0]
    obtain ⟨hTP, hLP, _⟩ := PreparePacketPayload_tracked p hb hv0 _ hPH hTH hLH
    have hPP : (PreparePacketPayload
        (__TransmitterRingPrepareHeader (PreparePacketEnter R p)).2).2.State.Packet =
        some p := by
      rw [(State_of_payloadFrame (PreparePacketPayload_spec _).1).1]; exact hPH
    obtain ⟨u1, u2, u3, u4, u5⟩ := UnprepareFragments_tracked p hb _ hPP hTP
    obtain ⟨f1, f2, f3, f4, f5⟩ := PreparePacketFail1_fields
      (__TransmitterRingUnprepareFragments (PreparePacketPayload
        (__TransmitterRingPrepareHeader (PreparePacketEnter R p)).2).2).2 p
    rw [heq] at hPend ⊢
    simp only [] at hPend ⊢
    have hSend0 : (__TransmitterRingUnprepareFragments (PreparePacketPayload
        (__TransmitterRingPrepareHeader (PreparePacketEnter R p)).2).2).2.State.Send =
        XENVIF_TRANSMITTER_PACKET_SEND_INFO.zero := by
      rw [u5]; rfl
    have hPkts : (PreparePacketFail1 (__TransmitterRingUnprepareFragments (PreparePacketPayload
        (__TransmitterRingPrepareHeader (PreparePacketEnter R p)).2).2).2 p).Packets =
        setAt R.Packets p
          { R.Packets p with Send := XENVIF_TRANSMITTER_PACKET_SEND_INFO.zero } := by
      rw [f2, hSend0, u4, setAt_setAt, setAt_same, eP, setAt_setAt, setAt_same]
    refine ⟨?_, by rw [f3, u1], by rw [f4, u2], by rw [f5, u3], hPend,
      ⟨_, hPkts⟩, fun h => absurd hok h, fun _ => ?_⟩
    · rw [f1, u5]
    · rw [hPkts, setAt_same]
  · rw [heq] at hfail
    exact absurd rfl hfail

/-- What a successful `__TransmitterRingPreparePacket` leaves, for every ring
with `State.Count == 0` and every packet with `Value == 0`: the parser
accepted the packet, the frame-size check passed, `State` holds the packet,
the fixed-up send and packet information and the payload that follows the
header, and `State.List` is the header fragment followed by the fragments
of the payload (copied and padded for a runt, and otherwise copied, or
granted within the slot budget); the fragments are tracked. -/
theorem PreparePacket_success (R : XENVIF_TRANSMITTER_RING) (p : Nat)
    (hC0 : R.State.Count = 0) (hV0 : (R.Packets p).Value = 0)
    (hIds : R.FreeIds.length ≤ XENVIF_TRANSMITTER_MAXIMUM_FRAGMENT_ID + 1)
    (hok : (__TransmitterRingPreparePacket R p).1 = STATUS_SUCCESS) :
    ∃ Info Payload Id rest added,
      ParsePacket (R.Packets p).Parse
        { Mdl := (R.Packets p).Mdl, Offset := (R.Packets p).Offset,
          Length := (R.Packets p).Length } = some (Info, Payload) ∧
      R.FreeIds = Id :: rest ∧
      tooLarge (largePacketFixup (R.Packets p).Send Payload.Length)
        (headerLength (R.Packets p).Send.OffloadTagManipulation Info.Length Payload.Length)
        R.MaximumFrameSize = false ∧
      Tracked R.GrantsHeld R.BuffersHeld R.FreeIds (PreparePacketEnter R p).Packets p
        (__TransmitterRingPreparePacket R p).2 ∧
      (__TransmitterRingPreparePacket R p).2.State.Packet = some p ∧
      (__TransmitterRingPreparePacket R p).2.State.Send =
        largePacketFixup (R.Packets p).Send Payload.Length ∧
      (__TransmitterRingPreparePacket R p).2.State.Info =
        (if (R.Packets p).Send.OffloadTagManipulation then tagFixup Info else Info) ∧
      (__TransmitterRingPreparePacket R p).2.State.Payload = Payload ∧
      (__TransmitterRingPreparePacket R p).2.State.StartVa = true ∧
      ((isRunt (if (R.Packets p).Send.OffloadTagManipulation then tagFixup Info else Info).Length
            Payload.Length ∧
          (__TransmitterRingPreparePacket R p).2.State.List =
            padRunt
              (runtTrailer
                (if (R.Packets p).Send.OffloadTagManipulation then tagFixup Info
                 else Info).Length Payload.Length)
              (decide (Payload.Length = 0))
              (headerFragment
                  { Id := Id, Context := FragmentContext.INVALID, Entry := none,
                    Offset := 0, Length := 0, Extra := false }
                  { Pfn := R.Tick, ByteCount := Info.Length, Context := some p,
                    Reference := 1 }
                  R.Tick (R.Packets p).Send.OffloadTagManipulation Payload.Length :: added) ∧
          CopiedFragments added Payload.Length) ∨
       (¬ isRunt (if (R.Packets p).Send.OffloadTagManipulation then tagFixup Info
                  else Info).Length Payload.Length ∧
          (__TransmitterRingPreparePacket R p).2.State.List =
            headerFragment
              { Id := Id, Context := FragmentContext.INVALID, Entry := none,
                Offset := 0, Length := 0, Extra := false }
              { Pfn := R.Tick, ByteCount := Info.Length, Context := some p,
                Reference := 1 }
              R.Tick (R.Packets p).Send.OffloadTagManipulation Payload.Length :: added ∧
          (CopiedFragments added Payload.Length ∨
           (R.AlwaysCopy = 0 ∧ GrantedFragments added ∧
            (__TransmitterRingPreparePacket R p).2.State.Count ≤ XEN_NETIF_NR_SLOTS_MIN)))) := by
  obtain ⟨hb, hv0⟩ := bound_of_ids R p hV0 hIds
  have hTE := PreparePacketEnter_tracked R p hC0
  obtain ⟨eS, eP, eT, eO, eF, eM, eA⟩ := PreparePacketEnter_fields R p
  have hPE : (PreparePacketEnter R p).State.Packet = some p := rfl
  obtain ⟨hTH, hout⟩ := PrepareHeader_outcome p hb (PreparePacketEnter R p) hPE hTE
  have hParse : ((PreparePacketEnter R p).Packets p).Parse = (R.Packets p).Parse := by
    rw [eP, setAt_same]
  rcases PreparePacket_cases R p with ⟨_, heq⟩ | ⟨_, hne, heq⟩ | ⟨hokH, hokP, heq⟩
  · rw [heq] at hok
    rename_i hne
    exact absurd hok hne
  · rw [heq] at hok
    exact absurd hok hne
  · -- the State after the header step
    have hOut : ∃ Info Payload Id rest,
        ParsePacket ((PreparePacketEnter R p).Packets p).Parse
          (PreparePacketEnter R p).State.Payload = some (Info, Payload) ∧
        (PreparePacketEnter R p).FreeIds = Id :: rest ∧
        tooLarge (largePacketFixup (PreparePacketEnter R p).State.Send Payload.Length)
          (headerLength (PreparePacketEnter R p).State.Send.OffloadTagManipulation
            Info.Length Payload.Length)
          (PreparePacketEnter R p).MaximumFrameSize = false ∧
        (__TransmitterRingPrepareHeader (PreparePacketEnter R p)).2.State =
          { (PreparePacketEnter R p).State with
            StartVa := true
            Info := (if (PreparePacketEnter R p).State.Send.OffloadTagManipulation
                     then tagFixup Info else Info)
            Payload := Payload
            Send := largePacketFixup (PreparePacketEnter R p).State.Send Payload.Length
            List := (PreparePacketEnter R p).State.List ++
              [headerFragment
                { Id := Id, Context := FragmentContext.INVALID, Entry := none,
                  Offset := 0, Length := 0, Extra := false }
                { Pfn := (PreparePacketEnter R p).Tick, ByteCount := Info.Length,
                  Context := some p, Reference := 1 }
                (PreparePacketEnter R p).Tick
                (PreparePacketEnter R p).State.Send.OffloadTagManipulation Payload.Length]
            Count := (PreparePacketEnter R p).State.Count + 1 } := by
      rcases hout with ⟨hst, _, _⟩ | ⟨hst, _, _, _⟩ | ⟨Info, Payload, hI, _, h3⟩
      · rw [hst] at hokH; cases hokH
      · rw [hst] at hokH; cases hokH
      · rcases h3 with ⟨hst, _, _⟩ | ⟨hst, _, _, _, _⟩ | ⟨_, _, Id, rest, hfree, h4⟩
        · rw [hst] at hokH; cases hokH
        · rw [hst] at hokH; cases hokH
        · rcases h4 with ⟨hst, _, _⟩ | ⟨_, hbig, hs⟩
          · rw [hst] at hokH; cases hokH
          · exact ⟨Info, Payload, Id, rest, hI, hfree, hbig, hs⟩
    obtain ⟨Info, Payload, Id, rest, hI, hfree, hbig, hs⟩ := hOut
    rw [hParse] at hI
    have hI : ParsePacket (R.Packets p).Parse
        { Mdl := (R.Packets p).Mdl, Offset := (R.Packets p).Offset,
          Length := (R.Packets p).Length } = some (Info, Payload) := hI
    have hfree : R.FreeIds = Id :: rest := hfree
    have hbig : tooLarge (largePacketFixup (R.Packets p).Send Payload.Length)
        (headerLength (R.Packets p).Send.OffloadTagManipulation Info.Length Payload.Length)
        R.MaximumFrameSize = false := hbig
    have hs : (__TransmitterRingPrepareHeader (PreparePacketEnter R p)).2.State =
        { Packet := some p
          Send := largePacketFixup (R.Packets p).Send Payload.Length
          StartVa := true
          Info := (if (R.Packets p).Send.OffloadTagManipulation then tagFixup Info else Info)
          Payload := Payload
          Count := R.State.Count + 1
          List := [headerFragment
              { Id := Id, Context := FragmentContext.INVALID, Entry := none,
                Offset := 0, Length := 0, Extra := false }
              { Pfn := R.Tick, ByteCount := Info.Length, Context := some p, Reference := 1 }
              R.Tick (R.Packets p).Send.OffloadTagManipulation Payload.Length] } := hs
    have hPH : (__TransmitterRingPrepareHeader (PreparePacketEnter R p)).2.State.Packet =
        some p := by rw [hs]
    have hLH : (__TransmitterRingPrepareHeader (PreparePacketEnter R p)).2.State.List.length =
        1 := by rw [hs]; rfl
    obtain ⟨hTP, _, hLP⟩ := PreparePacketPayload_tracked p hb hv0 _ hPH hTH hLH
    obtain ⟨q1, q2, q3, q4, q5, q6, _, _, _⟩ :=
      State_of_payloadFrame (PreparePacketPayload_spec
        (__TransmitterRingPrepareHeader (PreparePacketEnter R p)).2).1
    have hAC : (__TransmitterRingPrepareHeader (PreparePacketEnter R p)).2.AlwaysCopy =
        R.AlwaysCopy := by
      have := congrArg XENVIF_TRANSMITTER_RING.AlwaysCopy
        (PrepareHeader_spec (PreparePacketEnter R p)).1
      exact this
    obtain ⟨added, hlist⟩ := hLP hokP
    rw [hs] at q1 q2 q3 q4 q5 hlist
    simp only [] at q1 q2 q3 q4 q5 hlist
    rw [hAC] at hlist
    rw [heq]
    simp only []
    refine ⟨Info, Payload, Id, rest, added, hI, hfree, hbig, ?_, q1, q2, q4, q5, q3, ?_⟩
    · exact Tracked_of_eq hTP rfl rfl rfl rfl rfl rfl
    · exact hlist

/-! ### C2: the slot budget for packets the protocol can carry -/

theorem ParsePacket_length (Parse : Option XENVIF_PACKET_INFO)
    (Payload0 Payload : XENVIF_PACKET_PAYLOAD) (Info : XENVIF_PACKET_INFO)
    (h : ParsePacket Parse Payload0 = some (Info, Payload)) :
    Parse = some Info ∧ Info.Length ≤ Payload0.Length ∧
    Payload.Length = Payload0.Length - Info.Length := by
  unfold ParsePacket at h
  cases Parse with
  | none => simp at h
  | some I =>
    simp only [] at h
    by_cases hlt : Payload0.Length < I.Length
    · simp [TransmitterRingPullup, hlt] at h
    · simp only [TransmitterRingPullup, if_neg hlt] at h
      injection h with h
      injection h with h1 h2
      subst h1
      rw [← h2]
      exact ⟨rfl, by omega, rfl⟩

theorem padRunt_length (Trailer : Nat) (Single : Bool)
    (l : List XENVIF_TRANSMITTER_FRAGMENT) : (padRunt Trailer Single l).length = l.length := by
  have := congrArg List.length (padRunt_map Trailer Single (fun F => F.Id)
    (fun F => (padTail_keeps Trailer Single F).1) (fun F => rfl) l)
  simpa using this

/-- The slot budget holds up to 17 pages: every packet of at most 17 pages
(69632 bytes; in particular every packet that a request can describe, whose
size field holds at most `XENVIF_TRANSMITTER_MAXIMUM_REQ_SIZE` = 65535) for
which
`__TransmitterRingPreparePacket` succeeds is left on `State.List` as between
1 and `XEN_NETIF_NR_SLOTS_MIN` fragments, with `State.Count` the length of
the list and equal to `Packet.Value`, for every memory-descriptor layout and
whether the payload was granted or bounce-copied.  The ring is any ring with
`State.Count == 0` and at most 1024 free fragment ids, and `Packet.Value` is
0 on entry, as the scheduler sets it. -/
theorem PreparePacket_slot_budget (R : XENVIF_TRANSMITTER_RING) (p : Nat)
    (hC0 : R.State.Count = 0) (hV0 : (R.Packets p).Value = 0)
    (hIds : R.FreeIds.length ≤ XENVIF_TRANSMITTER_MAXIMUM_FRAGMENT_ID + 1)
    (hLen : (R.Packets p).Length ≤ 17 * PAGE_SIZE)
    (hok : (__TransmitterRingPreparePacket R p).1 = STATUS_SUCCESS) :
    1 ≤ (__TransmitterRingPreparePacket R p).2.State.Count ∧
    (__TransmitterRingPreparePacket R p).2.State.Count ≤ XEN_NETIF_NR_SLOTS_MIN ∧
    (__TransmitterRingPreparePacket R p).2.State.Count =
      (__TransmitterRingPreparePacket R p).2.State.List.length ∧
    ((__TransmitterRingPreparePacket R p).2.Packets p).Value =
      (__TransmitterRingPreparePacket R p).2.State.Count := by
  obtain ⟨Info, Payload, Id, rest, added, hI, _, _, hT, _, _, _, _, _, hlist⟩ :=
    PreparePacket_success R p hC0 hV0 hIds hok
  obtain ⟨_, hv0⟩ := bound_of_ids R p hV0 hIds
  obtain ⟨_, _, hPL⟩ := ParsePacket_length _ _ _ _ hI
  have hPL : Payload.Length = (R.Packets p).Length - Info.Length := hPL
  have hC := hT.2.2.2.2.2
  have hV := Tracked_Value hT
  rw [hv0, Nat.zero_add] at hV
  have h18 : XEN_NETIF_NR_SLOTS_MIN = 18 := rfl
  have hpg : PAGE_SIZE = 4096 := rfl
  rw [hpg] at hLen
  have hcopied : CopiedFragments added Payload.Length → added.length ≤ 17 := by
    intro hc
    obtain ⟨_, _, c3, _⟩ := hc
    rw [hpg] at c3
    omega
  rw [hV, hC]
  refine ⟨?_, ?_, rfl, rfl⟩
  · rcases hlist with ⟨_, hl, _⟩ | ⟨_, hl, _⟩
    · rw [hl, padRunt_length]; simp
    · rw [hl]; simp
  · rcases hlist with ⟨_, hl, hc⟩ | ⟨_, hl, hc | ⟨_, _, hg⟩⟩
    · rw [hl, padRunt_length, h18]
      have := hcopied hc
      simp only [List.length_cons]; omega
    · rw [hl, h18]
      have := hcopied hc
      simp only [List.length_cons]; omega
    · rw [← hC]; exact hg

/-- The slot budget at a concrete packet: a 1000-byte packet on a fresh ring. -/
theorem PreparePacket_slot_budget_witness :
    1 ≤ (__TransmitterRingPreparePacket (freshRing 1000 1514 0 (fun _ => true)) 0).2.State.Count ∧
    (__TransmitterRingPreparePacket (freshRing 1000 1514 0 (fun _ => true)) 0).2.State.Count ≤
      XEN_NETIF_NR_SLOTS_MIN ∧
    (__TransmitterRingPreparePacket (freshRing 1000 1514 0 (fun _ => true)) 0).2.State.Count =
      (__TransmitterRingPreparePacket
        (freshRing 1000 1514 0 (fun _ => true)) 0).2.State.List.length ∧
    ((__TransmitterRingPreparePacket
        (freshRing 1000 1514 0 (fun _ => true)) 0).2.Packets 0).Value =
      (__TransmitterRingPreparePacket (freshRing 1000 1514 0 (fun _ => true)) 0).2.State.Count :=
  PreparePacket_slot_budget (freshRing 1000 1514 0 (fun _ => true)) 0 rfl rfl
    (by simp [freshRing, XENVIF_TRANSMITTER_MAXIMUM_FRAGMENT_ID]) (by decide) (by decide)

/-! ### C14: what a failed preparation leaves -/

/-- C14 as stated does not hold for `Packet.Send`.  (1) On
`singleSegmentRing` the preparation of packet 0 fails in the frame-size check
with `STATUS_INVALID_PARAMETER`, after the large-packet fix-up has rewritten
the send information in `State`: the packet gets back the fixed-up send
information (checksum offloads set, large-packet flag cleared), not the one
it was passed in with.  (2) On `payloadFailureRing` the header step succeeds
and the payload step fails: `__TransmitterRingUnprepareFragments` gives the
packet its send information back and zeroes `State->Send`, and the exit
`fail1` then assigns the zeroed `State->Send` to the packet again, so that
the packet is left with all-zero send information. -/
theorem PreparePacket_failure_changes_Send :
    ((__TransmitterRingPreparePacket singleSegmentRing 0).1 = STATUS_INVALID_PARAMETER ∧
      ((__TransmitterRingPreparePacket singleSegmentRing 0).2.Packets 0).Send =
        { (singleSegmentRing.Packets 0).Send with
          OffloadIpVersion4LargePacket := false
          OffloadIpVersion4HeaderChecksum := true
          OffloadIpVersion4TcpChecksum := true } ∧
      ((__TransmitterRingPreparePacket singleSegmentRing 0).2.Packets 0).Send ≠
        (singleSegmentRing.Packets 0).Send) ∧
    ((__TransmitterRingPrepareHeader (PreparePacketEnter payloadFailureRing 0)).1 =
        STATUS_SUCCESS ∧
      (__TransmitterRingPreparePacket payloadFailureRing 0).1 = STATUS_NO_MEMORY ∧
      ((__TransmitterRingPreparePacket payloadFailureRing 0).2.Packets 0).Send =
        XENVIF_TRANSMITTER_PACKET_SEND_INFO.zero ∧
      (payloadFailureRing.Packets 0).Send ≠ XENVIF_TRANSMITTER_PACKET_SEND_INFO.zero) := by
  refine ⟨⟨?_, ?_, ?_⟩, ?_, ?_, ?_, ?_⟩ <;> decide

/-- C14, amended: whenever `__TransmitterRingPreparePacket` fails, at any
step, on a ring with `State.Count == 0` (the source asserts that `State` is
zero on entry) and at most 1024 free fragment ids, for a packet with
`Value == 0`: on return `State` is entirely zero; the grant entries held,
the buffers held and the free fragment ids are what they were on entry and
`Pending` is unchanged, so no fragment or buffer of the packet is still
granted or referenced; no other packet has changed, and of the packet only
`Send` may have, so `Packet.Value == 0`.  When the failure is in the header
step (no header buffer, header parse failure, no fragment, grant failure),
`Packet.Send` equals the send information the packet carried when it was
passed in; when it is the frame-size check, which fails with
`STATUS_INVALID_PARAMETER` and only when the test `tooLarge` holds,
`Packet.Send` is that send information after the large-packet fix-up.  (When
the failure is in the payload step `Packet.Send` is left zero.) -/
theorem PreparePacket_failure_unwinds (R : XENVIF_TRANSMITTER_RING) (p : Nat)
    (hC0 : R.State.Count = 0) (hV0 : (R.Packets p).Value = 0)
    (hIds : R.FreeIds.length ≤ XENVIF_TRANSMITTER_MAXIMUM_FRAGMENT_ID + 1)
    (hfail : (__TransmitterRingPreparePacket R p).1 ≠ STATUS_SUCCESS) :
    (__TransmitterRingPreparePacket R p).2.State = XENVIF_TRANSMITTER_STATE.zero ∧
    (__TransmitterRingPreparePacket R p).2.GrantsHeld = R.GrantsHeld ∧
    (__TransmitterRingPreparePacket R p).2.BuffersHeld = R.BuffersHeld ∧
    (__TransmitterRingPreparePacket R p).2.FreeIds = R.FreeIds ∧
    (__TransmitterRingPreparePacket R p).2.Pending = R.Pending ∧
    (∃ Send, (__TransmitterRingPreparePacket R p).2.Packets =
      setAt R.Packets p { R.Packets p with Send := Send }) ∧
    ((__TransmitterRingPreparePacket R p).2.Packets p).Value = 0 ∧
    ((__TransmitterRingPrepareHeader (PreparePacketEnter R p)).1 ≠ STATUS_SUCCESS →
      (__TransmitterRingPreparePacket R p).1 =
        (__TransmitterRingPrepareHeader (PreparePacketEnter R p)).1 ∧
      ((__TransmitterRingPreparePacket R p).1 ≠ STATUS_INVALID_PARAMETER →
        ((__TransmitterRingPreparePacket R p).2.Packets p).Send = (R.Packets p).Send) ∧
      ((__TransmitterRingPreparePacket R p).1 = STATUS_INVALID_PARAMETER →
        ∃ Info Payload,
          ParsePacket (R.Packets p).Parse
            { Mdl := (R.Packets p).Mdl, Offset := (R.Packets p).Offset,
              Length := (R.Packets p).Length } = some (Info, Payload) ∧
          tooLarge (largePacketFixup (R.Packets p).Send Payload.Length)
            (headerLength (R.Packets p).Send.OffloadTagManipulation Info.Length Payload.Length)
            R.MaximumFrameSize = true ∧
          ((__TransmitterRingPreparePacket R p).2.Packets p).Send =
            largePacketFixup (R.Packets p).Send Payload.Length)) ∧
    ((__TransmitterRingPrepareHeader (PreparePacketEnter R p)).1 = STATUS_SUCCESS →
      ((__TransmitterRingPreparePacket R p).2.Packets p).Send =
        XENVIF_TRANSMITTER_PACKET_SEND_INFO.zero) := by
  obtain ⟨a1, a2, a3, a4, a5, ⟨Send, a6⟩, a7, a8⟩ := PreparePacket_failure R p hC0 hV0 hIds hfail
  refine ⟨a1, a2, a3, a4, a5, ⟨Send, a6⟩, ?_, a7, a8⟩
  rw [a6, setAt_same]
  exact hV0

/-- C14 at a concrete failure: a 3000-byte packet without large-send on a
ring whose maximum frame size is 1514. -/
theorem PreparePacket_failure_unwinds_witness :
    (__TransmitterRingPreparePacket (freshRing 3000 1514 0 (fun _ => true)) 0).2.State =
      XENVIF_TRANSMITTER_STATE.zero ∧
    (__TransmitterRingPreparePacket (freshRing 3000 1514 0 (fun _ => true)) 0).2.GrantsHeld =
      (freshRing 3000 1514 0 (fun _ => true)).GrantsHeld ∧
    ((__TransmitterRingPreparePacket
        (freshRing 3000 1514 0 (fun _ => true)) 0).2.Packets 0).Value = 0 :=
  ⟨(PreparePacket_failure_unwinds (freshRing 3000 1514 0 (fun _ => true)) 0 rfl rfl
      (by simp [freshRing, XENVIF_TRANSMITTER_MAXIMUM_FRAGMENT_ID]) (by decide)).1,
   (PreparePacket_failure_unwinds (freshRing 3000 1514 0 (fun _ => true)) 0 rfl rfl
      (by simp [freshRing, XENVIF_TRANSMITTER_MAXIMUM_FRAGMENT_ID]) (by decide)).2.1,
   (PreparePacket_failure_unwinds (freshRing 3000 1514 0 (fun _ => true)) 0 rfl rfl
      (by simp [freshRing, XENVIF_TRANSMITTER_MAXIMUM_FRAGMENT_ID]) (by decide)).2.2.2.2.2.2.1⟩

/-! ### C19: the frame-size check -/

/-- What faking a packet in the scheduler writes: the status `DROPPED`, one
frontend error and one dropped packet in the statistics, and the packet at
the tail of `PacketComplete`; nothing is posted. -/
theorem fakePacket_fields (X : XENVIF_TRANSMITTER_RING) (p : Nat) :
    ((fakePacket X p true).Packets p).Completion.Status = XENVIF_TRANSMITTER_PACKET_DROPPED ∧
    (fakePacket X p true).PacketComplete = X.PacketComplete ++ [p] ∧
    (fakePacket X p true).PacketsCompleted = ULONG_inc X.PacketsCompleted ∧
    (fakePacket X p true).Statistics =
      { X.Statistics with
        FrontendErrors := X.Statistics.FrontendErrors + 1
        PacketsDropped := X.Statistics.PacketsDropped + 1 } ∧
    (fakePacket X p true).RequestsPosted = X.RequestsPosted ∧
    (fakePacket X p true).RequestsPushed = X.RequestsPushed ∧
    (fakePacket X p true).Front = X.Front ∧
    (fakePacket X p true).Shared = X.Shared ∧
    (fakePacket X p true).Pending = X.Pending ∧
    (fakePacket X p true).State = X.State := by
  have hP : (fakePacket X p true).Packets p =
      { X.Packets p with Completion := { (X.Packets p).Completion with
          Status := XENVIF_TRANSMITTER_PACKET_DROPPED } } := by
    show setAt X.Packets p _ p = _
    rw [setAt_same]
  refine ⟨by rw [hP], rfl, rfl, ?_, rfl, rfl, rfl, rfl, rfl, rfl⟩
  show completionStatistics _ (setAt X.Packets p _ p).Completion = _
  rw [setAt_same]
  rfl

theorem tooLarge_iff (Send : XENVIF_TRANSMITTER_PACKET_SEND_INFO) (Length Max : Nat) :
    tooLarge Send Length Max = true ↔
      (Send.OffloadIpVersion4LargePacket = false ∧ Send.OffloadIpVersion6LargePacket = false ∧
        Length > Max) := by
  unfold tooLarge
  cases Send.OffloadIpVersion4LargePacket <;> cases Send.OffloadIpVersion6LargePacket <;> simp

/-- The status of the header step is `STATUS_INVALID_PARAMETER` exactly when
the step got as far as the frame-size check and the check failed. -/
theorem PrepareHeader_invalid_iff (R : XENVIF_TRANSMITTER_RING) (p : Nat)
    (hC0 : R.State.Count = 0) (hV0 : (R.Packets p).Value = 0)
    (hIds : R.FreeIds.length ≤ XENVIF_TRANSMITTER_MAXIMUM_FRAGMENT_ID + 1) :
    (__TransmitterRingPrepareHeader (PreparePacketEnter R p)).1 = STATUS_INVALID_PARAMETER ↔
      (R.Oracle R.Tick = true ∧ R.Oracle (R.Tick + 1) = true ∧ R.Oracle (R.Tick + 2) = true ∧
        R.FreeIds ≠ [] ∧
        ∃ Info Payload,
          ParsePacket (R.Packets p).Parse
            { Mdl := (R.Packets p).Mdl, Offset := (R.Packets p).Offset,
              Length := (R.Packets p).Length } = some (Info, Payload) ∧
          tooLarge (largePacketFixup (R.Packets p).Send Payload.Length)
            (headerLength (R.Packets p).Send.OffloadTagManipulation Info.Length Payload.Length)
            R.MaximumFrameSize = true) := by
  obtain ⟨hb, hv0⟩ := bound_of_ids R p hV0 hIds
  have hTE := PreparePacketEnter_tracked R p hC0
  obtain ⟨eS, eP, eT, eO, eF, eM, eA⟩ := PreparePacketEnter_fields R p
  have hPE : (PreparePacketEnter R p).State.Packet = some p := rfl
  obtain ⟨_, hout⟩ := PrepareHeader_outcome p hb (PreparePacketEnter R p) hPE hTE
  have hParse : ((PreparePacketEnter R p).Packets p).Parse = (R.Packets p).Parse := by
    rw [eP, setAt_same]
  rw [hParse] at hout
  have hout : ((__TransmitterRingPrepareHeader (PreparePacketEnter R p)).1 = STATUS_NO_MEMORY ∧
        R.Oracle R.Tick = false ∧ True) ∨
     ((__TransmitterRingPrepareHeader (PreparePacketEnter R p)).1 = STATUS_UNSUCCESSFUL ∧
        R.Oracle R.Tick = true ∧
        ParsePacket (R.Packets p).Parse
          { Mdl := (R.Packets p).Mdl, Offset := (R.Packets p).Offset,
            Length := (R.Packets p).Length } = none ∧ True) ∨
     (∃ Info Payload, ParsePacket (R.Packets p).Parse
          { Mdl := (R.Packets p).Mdl, Offset := (R.Packets p).Offset,
            Length := (R.Packets p).Length } = some (Info, Payload) ∧
        R.Oracle R.Tick = true ∧
        (((__TransmitterRingPrepareHeader (PreparePacketEnter R p)).1 = STATUS_NO_MEMORY ∧
            (R.Oracle (R.Tick + 1) = false ∨ R.FreeIds = []) ∧ True) ∨
         ((__TransmitterRingPrepareHeader (PreparePacketEnter R p)).1 = STATUS_UNSUCCESSFUL ∧
            R.Oracle (R.Tick + 1) = true ∧ R.FreeIds ≠ [] ∧ R.Oracle (R.Tick + 2) = false ∧
            True) ∨
         (R.Oracle (R.Tick + 1) = true ∧ R.Oracle (R.Tick + 2) = true ∧
          ∃ Id rest, R.FreeIds = Id :: rest ∧
           (((__TransmitterRingPrepareHeader (PreparePacketEnter R p)).1 =
                STATUS_INVALID_PARAMETER ∧
              tooLarge (largePacketFixup (R.Packets p).Send Payload.Length)
                (headerLength (R.Packets p).Send.OffloadTagManipulation Info.Length
                  Payload.Length) R.MaximumFrameSize = true ∧ True) ∨
            ((__TransmitterRingPrepareHeader (PreparePacketEnter R p)).1 = STATUS_SUCCESS ∧
              tooLarge (largePacketFixup (R.Packets p).Send Payload.Length)
                (headerLength (R.Packets p).Send.OffloadTagManipulation Info.Length
                  Payload.Length) R.MaximumFrameSize = false ∧ True))))) := by
    rcases hout with ⟨a, b, _⟩ | ⟨a, b, c, _⟩ | ⟨Info, Payload, hI, hO, h3⟩
    · exact Or.inl ⟨a, b, trivial⟩
    · exact Or.inr (Or.inl ⟨a, b, c, trivial⟩)
    · refine Or.inr (Or.inr ⟨Info, Payload, hI, hO, ?_⟩)
      rcases h3 with ⟨a, b, _⟩ | ⟨a, b, c, d, _⟩ | ⟨a, b, Id, rest, c, h4⟩
      · exact Or.inl ⟨a, b, trivial⟩
      · exact Or.inr (Or.inl ⟨a, b, c, d, trivial⟩)
      · refine Or.inr (Or.inr ⟨a, b, Id, rest, c, ?_⟩)
        rcases h4 with ⟨x, y, _⟩ | ⟨x, y, _⟩
        · exact Or.inl ⟨x, y, trivial⟩
        · exact Or.inr ⟨x, y, trivial⟩
  constructor
  · intro hst
    rcases hout with ⟨a, _, _⟩ | ⟨a, _, _, _⟩ | ⟨Info, Payload, hI, hO, h3⟩
    · rw [a] at hst; cases hst
    · rw [a] at hst; cases hst
    · rcases h3 with ⟨a, _, _⟩ | ⟨a, _, _, _, _⟩ | ⟨a, b, Id, rest, c, h4⟩
      · rw [a] at hst; cases hst
      · rw [a] at hst; cases hst
      · rcases h4 with ⟨_, y, _⟩ | ⟨x, _, _⟩
        · exact ⟨hO, a, b, by rw [c]; simp, Info, Payload, hI, y⟩
        · rw [x] at hst; cases hst
  · rintro ⟨o0, o1, o2, hne, Info, Payload, hI, hbig⟩
    rcases hout with ⟨_, b, _⟩ | ⟨_, _, c, _⟩ | ⟨Info1, Payload1, hI1, _, h3⟩
    · rw [o0] at b; cases b
    · rw [hI] at c; cases c
    · have hsame : (Info1, Payload1) = (Info, Payload) := by
        rw [hI] at hI1
        injection hI1 with h
        exact h.symm
      injection hsame with e1 e2
      subst e1; subst e2
      rcases h3 with ⟨_, b, _⟩ | ⟨_, _, _, d, _⟩ | ⟨_, _, Id, rest, _, h4⟩
      · rcases b with b | b
        · rw [o1] at b; cases b
        · exact absurd b hne
      · rw [o2] at d; cases d
      · rcases h4 with ⟨x, _, _⟩ | ⟨_, y, _⟩
        · exact x
        · rw [hbig] at y; cases y

/-- A pass of the scheduler whose preparation fails fakes the packet. -/
theorem schedulePacket_of_failure (R : XENVIF_TRANSMITTER_RING) (p : Nat)
    (h : (__TransmitterRingPreparePacket
        (R.updatePacket p (fun P => { P with Value := 0 })) p).1 ≠ STATUS_SUCCESS) :
    schedulePacket R p =
      fakePacket (__TransmitterRingPreparePacket
        (R.updatePacket p (fun P => { P with Value := 0 })) p).2 p true := by
  unfold schedulePacket
  dsimp only
  split
  · rename_i X heq
    rw [heq] at h
    exact absurd rfl h
  · rename_i s X _ heq
    rw [heq]

/-- What a preparation leaves alone outside the state, the packets and the
resources: the statistics, the completion list and the ring indices. -/
theorem more_of_counterFrame {A B : XENVIF_TRANSMITTER_RING}
    (h : counterFrame A = counterFrame B) :
    A.Statistics = B.Statistics ∧ A.PacketComplete = B.PacketComplete ∧
    A.PacketsCompleted = B.PacketsCompleted ∧ A.RequestsPosted = B.RequestsPosted ∧
    A.RequestsPushed = B.RequestsPushed ∧ A.ResponsesProcessed = B.ResponsesProcessed ∧
    A.Front = B.Front ∧ A.Shared = B.Shared ∧ A.Pending = B.Pending ∧ A.Lock = B.Lock := by
  have a := congrArg XENVIF_TRANSMITTER_RING.Statistics h
  have b := congrArg XENVIF_TRANSMITTER_RING.PacketComplete h
  have c := congrArg XENVIF_TRANSMITTER_RING.PacketsCompleted h
  have d := congrArg XENVIF_TRANSMITTER_RING.RequestsPosted h
  have e := congrArg XENVIF_TRANSMITTER_RING.RequestsPushed h
  have f := congrArg XENVIF_TRANSMITTER_RING.ResponsesProcessed h
  have g := congrArg XENVIF_TRANSMITTER_RING.Front h
  have i := congrArg XENVIF_TRANSMITTER_RING.Shared h
  have j := congrArg XENVIF_TRANSMITTER_RING.Pending h
  have k := congrArg XENVIF_TRANSMITTER_RING.Lock h
  exact ⟨a, b, c, d, e, f, g, i, j, k⟩

/-- C19: for a packet `p` that the scheduler takes off the queue of a ring
`R` holding nothing in `State`, the header step of its preparation ends with
`STATUS_INVALID_PARAMETER` exactly when it reaches the frame-size check (its
three allocations succeed and the packet parses) and, after the large-packet
fix-up, neither large-packet flag is set and the length of the first fragment
(header plus payload plus any inserted tag) exceeds `MaximumFrameSize`: a
packet whose flag is still set, or that is within the maximum frame size, is
never rejected by the check.  When the header step ends so, the preparation
fails with that status and the scheduler completes the packet with status
`DROPPED`, adds 1 to the frontend errors and 1 to the dropped packets, leaves
the backend errors alone, puts the packet on `PacketComplete`, and posts
nothing: `RequestsPosted`, the private and shared ring and `Pending` are as
before and `State` is zero. -/
theorem Schedule_drops_oversized_frame (R : XENVIF_TRANSMITTER_RING) (p : Nat)
    (hC0 : R.State.Count = 0)
    (hIds : R.FreeIds.length ≤ XENVIF_TRANSMITTER_MAXIMUM_FRAGMENT_ID + 1) :
    ((__TransmitterRingPrepareHeader (PreparePacketEnter
        (R.updatePacket p (fun P => { P with Value := 0 })) p)).1 = STATUS_INVALID_PARAMETER ↔
      (R.Oracle R.Tick = true ∧ R.Oracle (R.Tick + 1) = true ∧ R.Oracle (R.Tick + 2) = true ∧
        R.FreeIds ≠ [] ∧
        ∃ Info Payload,
          ParsePacket (R.Packets p).Parse
            { Mdl := (R.Packets p).Mdl, Offset := (R.Packets p).Offset,
              Length := (R.Packets p).Length } = some (Info, Payload) ∧
          (largePacketFixup (R.Packets p).Send Payload.Length).OffloadIpVersion4LargePacket =
            false ∧
          (largePacketFixup (R.Packets p).Send Payload.Length).OffloadIpVersion6LargePacket =
            false ∧
          headerLength (R.Packets p).Send.OffloadTagManipulation Info.Length Payload.Length >
            R.MaximumFrameSize)) ∧
    ((__TransmitterRingPrepareHeader (PreparePacketEnter
        (R.updatePacket p (fun P => { P with Value := 0 })) p)).1 = STATUS_INVALID_PARAMETER →
      (__TransmitterRingPreparePacket
        (R.updatePacket p (fun P => { P with Value := 0 })) p).1 = STATUS_INVALID_PARAMETER ∧
      ((schedulePacket R p).Packets p).Completion.Status = XENVIF_TRANSMITTER_PACKET_DROPPED ∧
      (schedulePacket R p).Statistics =
        { R.Statistics with
          FrontendErrors := R.Statistics.FrontendErrors + 1
          PacketsDropped := R.Statistics.PacketsDropped + 1 } ∧
      (schedulePacket R p).PacketComplete = R.PacketComplete ++ [p] ∧
      (schedulePacket R p).PacketsCompleted = ULONG_inc R.PacketsCompleted ∧
      (schedulePacket R p).RequestsPosted = R.RequestsPosted ∧
      (schedulePacket R p).RequestsPushed = R.RequestsPushed ∧
      (schedulePacket R p).Front = R.Front ∧
      (schedulePacket R p).Shared = R.Shared ∧
      (schedulePacket R p).Pending = R.Pending ∧
      (schedulePacket R p).State = XENVIF_TRANSMITTER_STATE.zero) := by
  have h0 : (R.updatePacket p (fun P => { P with Value := 0 })).Packets p =
      { R.Packets p with Value := 0 } := by
    show setAt R.Packets p _ p = _
    rw [setAt_same]
  have hV0 : ((R.updatePacket p (fun P => { P with Value := 0 })).Packets p).Value = 0 := by
    rw [h0]
  have hC0' : (R.updatePacket p (fun P => { P with Value := 0 })).State.Count = 0 := hC0
  have hIds' : (R.updatePacket p (fun P => { P with Value := 0 })).FreeIds.length ≤
      XENVIF_TRANSMITTER_MAXIMUM_FRAGMENT_ID + 1 := hIds
  have hiff := PrepareHeader_invalid_iff _ p hC0' hV0 hIds'
  rw [h0] at hiff
  constructor
  · rw [hiff]
    constructor
    · rintro ⟨a, b, c, d, Info, Payload, hI, hbig⟩
      exact ⟨a, b, c, d, Info, Payload, hI, (tooLarge_iff _ _ _).1 hbig⟩
    · rintro ⟨a, b, c, d, Info, Payload, hI, hbig⟩
      exact ⟨a, b, c, d, Info, Payload, hI, (tooLarge_iff _ _ _).2 hbig⟩
  · intro hst
    have hne : (__TransmitterRingPrepareHeader (PreparePacketEnter
        (R.updatePacket p (fun P => { P with Value := 0 })) p)).1 ≠ STATUS_SUCCESS := by
      rw [hst]; decide
    have hPP : (__TransmitterRingPreparePacket
        (R.updatePacket p (fun P => { P with Value := 0 })) p).1 = STATUS_INVALID_PARAMETER := by
      rcases PreparePacket_cases (R.updatePacket p (fun P => { P with Value := 0 })) p with
        ⟨_, e⟩ | ⟨e, _⟩ | ⟨e, _⟩
      · rw [e]; exact hst
      · exact absurd e hne
      · exact absurd e hne
    have hfail : (__TransmitterRingPreparePacket
        (R.updatePacket p (fun P => { P with Value := 0 })) p).1 ≠ STATUS_SUCCESS := by
      rw [hPP]; decide
    obtain ⟨hState, _⟩ := PreparePacket_failure _ p hC0' hV0 hIds' hfail
    obtain ⟨f1, f2, f3, f4, f5, f6, f7, f8, f9, f10⟩ :=
      fakePacket_fields (__TransmitterRingPreparePacket
        (R.updatePacket p (fun P => { P with Value := 0 })) p).2 p
    obtain ⟨c1, c2, c3, c4, c5, _, c7, c8, c9, _⟩ :=
      more_of_counterFrame (PreparePacket_spec
        (R.updatePacket p (fun P => { P with Value := 0 })) p).1
    have c1 : (__TransmitterRingPreparePacket
        (R.updatePacket p (fun P => { P with Value := 0 })) p).2.Statistics = R.Statistics := c1
    have c2 : (__TransmitterRingPreparePacket
        (R.updatePacket p (fun P => { P with Value := 0 })) p).2.PacketComplete =
          R.PacketComplete := c2
    have c3 : (__TransmitterRingPreparePacket
        (R.updatePacket p (fun P => { P with Value := 0 })) p).2.PacketsCompleted =
          R.PacketsCompleted := c3
    rw [schedulePacket_of_failure R p hfail]
    refine ⟨hPP, f1, ?_, ?_, ?_, f5.trans c4, f6.trans c5, f7.trans c7, f8.trans c8,
      f9.trans c9, f10.trans hState⟩
    · rw [f4, c1]
    · rw [f2, c2]
    · rw [f3, c3]

theorem Schedule_drops_oversized_frame_witness :
    ((schedulePacket (freshRing 3000 1514 0 (fun _ => true)) 0).Packets 0).Completion.Status =
      XENVIF_TRANSMITTER_PACKET_DROPPED ∧
    (schedulePacket (freshRing 3000 1514 0 (fun _ => true)) 0).Statistics.FrontendErrors = 1 ∧
    (schedulePacket (freshRing 3000 1514 0 (fun _ => true)) 0).Statistics.PacketsDropped = 1 ∧
    (schedulePacket (freshRing 3000 1514 0 (fun _ => true)) 0).PacketComplete = [0] ∧
    (schedulePacket (freshRing 3000 1514 0 (fun _ => true)) 0).RequestsPosted = 0 := by
  have h := (Schedule_drops_oversized_frame (freshRing 3000 1514 0 (fun _ => true)) 0
    (by decide) (by simp [freshRing, XENVIF_TRANSMITTER_MAXIMUM_FRAGMENT_ID])).2 (by decide)
  obtain ⟨_, h1, h2, h3, _, h5, _⟩ := h
  refine ⟨h1, ?_, ?_, h3, h5⟩
  · rw [h2]; rfl
  · rw [h2]; rfl

/-! ### C20: the padding of a runt -/

theorem padTailFragment_buffer (Trailer : Nat) (Single : Bool)
    (F : XENVIF_TRANSMITTER_FRAGMENT) (hB : F.isBuffer = true) :
    (padTailFragment Trailer Single F).isBuffer = true ∧
    bufferBytes (padTailFragment Trailer Single F) = ULONG_add (bufferBytes F) Trailer ∧
    (padTailFragment Trailer Single F).Length =
      (if Single then F.Length else ULONG_add F.Length Trailer) := by
  unfold XENVIF_TRANSMITTER_FRAGMENT.isBuffer at hB
  unfold padTailFragment XENVIF_TRANSMITTER_FRAGMENT.isBuffer bufferBytes
  cases hc : F.Context <;> rw [hc] at hB <;> simp at hB ⊢

theorem padHeadFragment_buffer (Trailer : Nat) (F : XENVIF_TRANSMITTER_FRAGMENT) :
    (padHeadFragment Trailer F).isBuffer = F.isBuffer ∧
    bufferBytes (padHeadFragment Trailer F) = bufferBytes F ∧
    (padHeadFragment Trailer F).Length = ULONG_add F.Length Trailer :=
  ⟨rfl, rfl, rfl⟩

theorem headerFragment_buffer (Fragment : XENVIF_TRANSMITTER_FRAGMENT)
    (Buffer : XENVIF_TRANSMITTER_BUFFER) (Entry : Nat) (Tagged : Bool) (PayloadLength : Nat) :
    (headerFragment Fragment Buffer Entry Tagged PayloadLength).isBuffer = true ∧
    bufferBytes (headerFragment Fragment Buffer Entry Tagged PayloadLength) =
      (if Tagged then ULONG_add Buffer.ByteCount sizeof_ETHERNET_TAG else Buffer.ByteCount) ∧
    (headerFragment Fragment Buffer Entry Tagged PayloadLength).Length =
      ULONG_add
        (if Tagged then ULONG_add Buffer.ByteCount sizeof_ETHERNET_TAG else Buffer.ByteCount)
        PayloadLength % 4294967296 := by
  cases Tagged
  · refine ⟨rfl, rfl, ?_⟩
    show ULONG_add Buffer.ByteCount PayloadLength = _
    unfold ULONG_add
    simp
  · refine ⟨rfl, rfl, ?_⟩
    show ULONG_add (ULONG_add Buffer.ByteCount PayloadLength) sizeof_ETHERNET_TAG = _
    unfold ULONG_add sizeof_ETHERNET_TAG
    simp only [if_true]
    omega

/-- The list that the padding of a runt leaves, computed: the header
fragment alone when there is no payload, and otherwise the header fragment
and one fragment holding the payload. -/
theorem padRunt_runt (H0 : XENVIF_TRANSMITTER_FRAGMENT) (I L : Nat)
    (hB : H0.isBuffer = true) (hI : bufferBytes H0 = I)
    (hLen : H0.Length = ULONG_add I L % 4294967296) (hr : I + L < ETHERNET_MIN)
    (added : List XENVIF_TRANSMITTER_FRAGMENT) (hc : CopiedFragments added L) :
    runtTrailer I L = ETHERNET_MIN - I - L ∧
    ((L = 0 ∧ ∃ H, padRunt (runtTrailer I L) (decide (L = 0)) (H0 :: added) = [H] ∧
        H.isBuffer = true ∧ bufferBytes H = I + (ETHERNET_MIN - I - L) ∧
        H.Length = ETHERNET_MIN) ∨
     (L ≠ 0 ∧ ∃ H T, padRunt (runtTrailer I L) (decide (L = 0)) (H0 :: added) = [H, T] ∧
        H.isBuffer = true ∧ T.isBuffer = true ∧ bufferBytes H = I ∧
        H.Length = ETHERNET_MIN ∧
        bufferBytes T = L + (ETHERNET_MIN - I - L) ∧
        T.Length = L + (ETHERNET_MIN - I - L))) := by
  have h60 : ETHERNET_MIN = 60 := rfl
  have hP : PAGE_SIZE = 4096 := rfl
  rw [h60] at hr ⊢
  have htr : runtTrailer I L = 60 - I - L := by
    unfold runtTrailer ULONG_sub
    rw [h60]
    omega
  have hadd : ULONG_add I L % 4294967296 = I + L := by
    unfold ULONG_add; omega
  rw [hadd] at hLen
  obtain ⟨c1, c2, c3, c4⟩ := hc
  rw [hP] at c3 c4
  refine ⟨htr, ?_⟩
  rw [htr]
  by_cases hL : L = 0
  · left
    have hnil : added = [] := by
      cases added with
      | nil => rfl
      | cons a as =>
        have : (a :: as).length = as.length + 1 := rfl
        rw [this] at c3; omega
    subst hnil
    obtain ⟨t1, t2, t3⟩ := padTailFragment_buffer (60 - I - L) true H0 hB
    refine ⟨hL, padHeadFragment (60 - I - L) (padTailFragment (60 - I - L) true H0), ?_,
      t1, ?_, ?_⟩
    · rw [hL]; rfl
    · show bufferBytes (padTailFragment (60 - I - L) true H0) = _
      rw [t2, hI]; unfold ULONG_add; omega
    · show ULONG_add (padTailFragment (60 - I - L) true H0).Length (60 - I - L) = _
      rw [t3]
      simp only [if_true]
      rw [hLen]; unfold ULONG_add; omega
  · right
    have hone : ∃ T, added = [T] := by
      cases added with
      | nil => simp at c4; exact absurd c4 hL
      | cons a as =>
        cases as with
        | nil => exact ⟨a, rfl⟩
        | cons b bs =>
          have : (a :: b :: bs).length = bs.length + 2 := rfl
          rw [this] at c3; omega
    obtain ⟨T, hT⟩ := hone
    subst hT
    obtain ⟨b1, b2, b3, _⟩ := c1 T (by simp)
    have hsum : bufferBytes T = L := by simpa using c2
    obtain ⟨t1, t2, t3⟩ := padTailFragment_buffer (60 - I - L) false T b1
    refine ⟨hL, padHeadFragment (60 - I - L) H0, padTailFragment (60 - I - L) false T, ?_,
      hB, t1, hI, ?_, ?_, ?_⟩
    · have : decide (L = 0) = false := by simp [hL]
      rw [this]; rfl
    · show ULONG_add H0.Length (60 - I - L) = _
      rw [hLen]; unfold ULONG_add; omega
    · rw [t2, hsum]; unfold ULONG_add; omega
    · rw [t3]
      simp only [Bool.false_eq_true, if_false]
      rw [b3, hsum]; unfold ULONG_add; omega

/-- The payload step counts a runt that it prepared as copied. -/
theorem PreparePacketPayload_runt_counters (R : XENVIF_TRANSMITTER_RING)
    (hr : isRunt R.State.Info.Length R.State.Payload.Length)
    (hok : (PreparePacketPayload R).1 = STATUS_SUCCESS) :
    (PreparePacketPayload R).2.PacketsCopied = ULONG_inc R.PacketsCopied ∧
    (PreparePacketPayload R).2.PacketsGranted = R.PacketsGranted := by
  obtain ⟨c1, c2, c3, c4⟩ := CopyPayload_spec R
  unfold isRunt at hr
  unfold PreparePacketPayload at hok ⊢
  rw [if_pos hr] at hok ⊢
  rcases hres : __TransmitterRingCopyPayload R with ⟨st, R1⟩
  rw [hres] at c1 c2 c3 c4 hok
  simp only [] at c1 c2 c3 c4 hok ⊢
  cases st
  · exact ⟨c3 rfl, c2⟩
  all_goals simp at hok

/-- The list that a successful preparation of a runt leaves, with the
counters: the packet was copied, every fragment is a buffer fragment, the
head fragment has length `ETHERNET_MIN`, and the buffers hold `ETHERNET_MIN`
bytes. -/
theorem PreparePacket_runt (R : XENVIF_TRANSMITTER_RING) (p : Nat)
    (hC0 : R.State.Count = 0) (hV0 : (R.Packets p).Value = 0)
    (hIds : R.FreeIds.length ≤ XENVIF_TRANSMITTER_MAXIMUM_FRAGMENT_ID + 1)
    (hok : (__TransmitterRingPreparePacket R p).1 = STATUS_SUCCESS)
    (hrunt : (__TransmitterRingPreparePacket R p).2.State.Info.Length +
      (__TransmitterRingPreparePacket R p).2.State.Payload.Length < ETHERNET_MIN) :
    (__TransmitterRingPreparePacket R p).2.PacketsCopied = ULONG_inc R.PacketsCopied ∧
    (__TransmitterRingPreparePacket R p).2.PacketsGranted = R.PacketsGranted ∧
    (∀ F, F ∈ (__TransmitterRingPreparePacket R p).2.State.List → F.isBuffer = true) ∧
    ((__TransmitterRingPreparePacket R p).2.State.List.map bufferBytes).sum = ETHERNET_MIN ∧
    (((__TransmitterRingPreparePacket R p).2.State.Payload.Length = 0 ∧
      ∃ H, (__TransmitterRingPreparePacket R p).2.State.List = [H] ∧
        bufferBytes H = (__TransmitterRingPreparePacket R p).2.State.Info.Length +
          (ETHERNET_MIN - (__TransmitterRingPreparePacket R p).2.State.Info.Length -
            (__TransmitterRingPreparePacket R p).2.State.Payload.Length) ∧
        H.Length = ETHERNET_MIN) ∨
     ((__TransmitterRingPreparePacket R p).2.State.Payload.Length ≠ 0 ∧
      ∃ H T, (__TransmitterRingPreparePacket R p).2.State.List = [H, T] ∧
        bufferBytes H = (__TransmitterRingPreparePacket R p).2.State.Info.Length ∧
        H.Length = ETHERNET_MIN ∧
        bufferBytes T = (__TransmitterRingPreparePacket R p).2.State.Payload.Length +
          (ETHERNET_MIN - (__TransmitterRingPreparePacket R p).2.State.Info.Length -
            (__TransmitterRingPreparePacket R p).2.State.Payload.Length) ∧
        T.Length = (__TransmitterRingPreparePacket R p).2.State.Payload.Length +
          (ETHERNET_MIN - (__TransmitterRingPreparePacket R p).2.State.Info.Length -
            (__TransmitterRingPreparePacket R p).2.State.Payload.Length))) := by
  have h60 : ETHERNET_MIN = 60 := rfl
  -- the counters
  have hcount : (__TransmitterRingPreparePacket R p).2.PacketsCopied =
        ULONG_inc R.PacketsCopied ∧
      (__TransmitterRingPreparePacket R p).2.PacketsGranted = R.PacketsGranted := by
    rcases PreparePacket_cases R p with ⟨hne, heq⟩ | ⟨_, hne, heq⟩ | ⟨hokH, hokP, heq⟩
    · rw [heq] at hok; exact absurd hok hne
    · rw [heq] at hok; exact absurd hok hne
    · obtain ⟨_, _, _, q4, q5, _⟩ := State_of_payloadFrame (PreparePacketPayload_spec
        (__TransmitterRingPrepareHeader (PreparePacketEnter R p)).2).1
      have hS : (__TransmitterRingPreparePacket R p).2.State =
          (PreparePacketPayload
            (__TransmitterRingPrepareHeader (PreparePacketEnter R p)).2).2.State := by
        rw [heq]
      rw [hS, q4, q5] at hrunt
      have hr : isRunt (__TransmitterRingPrepareHeader (PreparePacketEnter R p)).2.State.Info.Length
          (__TransmitterRingPrepareHeader (PreparePacketEnter R p)).2.State.Payload.Length := by
        unfold isRunt ULONG_add
        rw [h60] at hrunt ⊢
        omega
      obtain ⟨k1, k2⟩ := PreparePacketPayload_runt_counters _ hr hokP
      have hf := (PrepareHeader_spec (PreparePacketEnter R p)).1
      have o1 := congrArg XENVIF_TRANSMITTER_RING.PacketsCopied hf
      have o2 := congrArg XENVIF_TRANSMITTER_RING.PacketsGranted hf
      have o1 : (__TransmitterRingPrepareHeader (PreparePacketEnter R p)).2.PacketsCopied =
          R.PacketsCopied := o1
      have o2 : (__TransmitterRingPrepareHeader (PreparePacketEnter R p)).2.PacketsGranted =
          R.PacketsGranted := o2
      rw [heq]
      exact ⟨k1.trans (by rw [o1]), k2.trans o2⟩
  refine ⟨hcount.1, hcount.2, ?_⟩
  obtain ⟨Info, Payload, Id, rest, added, _, _, _, _, _, _, hInfo, hPay, _, hlist⟩ :=
    PreparePacket_success R p hC0 hV0 hIds hok
  rw [hInfo, hPay] at hrunt ⊢
  have hIL : (if (R.Packets p).Send.OffloadTagManipulation then tagFixup Info else Info).Length =
      (if (R.Packets p).Send.OffloadTagManipulation
        then ULONG_add Info.Length sizeof_ETHERNET_TAG else Info.Length) := by
    cases (R.Packets p).Send.OffloadTagManipulation <;> rfl
  rcases hlist with ⟨_, hl, hc⟩ | ⟨hnr, _, _⟩
  · obtain ⟨g1, g2, g3⟩ := headerFragment_buffer
      { Id := Id, Context := FragmentContext.INVALID, Entry := none,
        Offset := 0, Length := 0, Extra := false }
      { Pfn := R.Tick, ByteCount := Info.Length, Context := some p, Reference := 1 }
      R.Tick (R.Packets p).Send.OffloadTagManipulation Payload.Length
    rw [hl]
    rw [hIL] at hrunt ⊢
    have g2 : bufferBytes (headerFragment
        { Id := Id, Context := FragmentContext.INVALID, Entry := none,
          Offset := 0, Length := 0, Extra := false }
        { Pfn := R.Tick, ByteCount := Info.Length, Context := some p, Reference := 1 }
        R.Tick (R.Packets p).Send.OffloadTagManipulation Payload.Length) =
        (if (R.Packets p).Send.OffloadTagManipulation
          then ULONG_add Info.Length sizeof_ETHERNET_TAG else Info.Length) := g2
    have g3 : (headerFragment
        { Id := Id, Context := FragmentContext.INVALID, Entry := none,
          Offset := 0, Length := 0, Extra := false }
        { Pfn := R.Tick, ByteCount := Info.Length, Context := some p, Reference := 1 }
        R.Tick (R.Packets p).Send.OffloadTagManipulation Payload.Length).Length =
        ULONG_add (if (R.Packets p).Send.OffloadTagManipulation
          then ULONG_add Info.Length sizeof_ETHERNET_TAG else Info.Length) Payload.Length %
            4294967296 := g3
    generalize (if (R.Packets p).Send.OffloadTagManipulation
          then ULONG_add Info.Length sizeof_ETHERNET_TAG else Info.Length) = I at hrunt g2 g3 ⊢
    obtain ⟨_, hpad⟩ := padRunt_runt _ I Payload.Length g1 g2 g3 hrunt added hc
    rcases hpad with ⟨hL0, H, e, b, bb, len⟩ | ⟨hL0, H, T, e, b1, b2, bb1, len1, bb2, len2⟩
    · rw [e]
      refine ⟨?_, ?_, Or.inl ⟨hL0, H, rfl, bb, len⟩⟩
      · intro F hF
        simp at hF
        rw [hF]; exact b
      · simp only [List.map_cons, List.map_nil, List.sum_cons, List.sum_nil]
        rw [bb, h60]; rw [h60] at hrunt; omega
    · rw [e]
      refine ⟨?_, ?_, Or.inr ⟨hL0, H, T, rfl, bb1, len1, bb2, len2⟩⟩
      · intro F hF
        simp at hF
        rcases hF with hF | hF
        · rw [hF]; exact b1
        · rw [hF]; exact b2
      · simp only [List.map_cons, List.map_nil, List.sum_cons, List.sum_nil]
        rw [bb1, bb2, h60]; rw [h60] at hrunt; omega
  · exfalso
    apply hnr
    unfold isRunt ULONG_add
    rw [h60] at hrunt ⊢
    omega

/-- C20: when the preparation of a packet succeeds and the header and the
payload left in `State` together are shorter than `ETHERNET_MIN`, the packet
is counted as copied and not as granted, every fragment on `State.List` is a
buffer fragment, and with `Trailer = ETHERNET_MIN - Info.Length -
Payload.Length`: if there is no payload the list is the header fragment
alone, whose buffer holds the header and `Trailer` more bytes; otherwise the
list is the header fragment and one tail fragment, whose buffer and length
are the payload and `Trailer` more bytes.  In both cases the length of the
head fragment is exactly `ETHERNET_MIN` and the byte counts of the buffers on
the list sum to `ETHERNET_MIN`. -/
theorem PreparePacket_pads_runt (R : XENVIF_TRANSMITTER_RING) (p : Nat)
    (hC0 : R.State.Count = 0) (hV0 : (R.Packets p).Value = 0)
    (hIds : R.FreeIds.length ≤ XENVIF_TRANSMITTER_MAXIMUM_FRAGMENT_ID + 1)
    (hok : (__TransmitterRingPreparePacket R p).1 = STATUS_SUCCESS)
    (hrunt : (__TransmitterRingPreparePacket R p).2.State.Info.Length +
      (__TransmitterRingPreparePacket R p).2.State.Payload.Length < ETHERNET_MIN) :
    (__TransmitterRingPreparePacket R p).2.PacketsCopied = ULONG_inc R.PacketsCopied ∧
    (__TransmitterRingPreparePacket R p).2.PacketsGranted = R.PacketsGranted ∧
    (∀ F, F ∈ (__TransmitterRingPreparePacket R p).2.State.List → F.isBuffer = true) ∧
    ((__TransmitterRingPreparePacket R p).2.State.List.map bufferBytes).sum = ETHERNET_MIN ∧
    (((__TransmitterRingPreparePacket R p).2.State.Payload.Length = 0 ∧
      ∃ H, (__TransmitterRingPreparePacket R p).2.State.List = [H] ∧
        bufferBytes H = (__TransmitterRingPreparePacket R p).2.State.Info.Length +
          (ETHERNET_MIN - (__TransmitterRingPreparePacket R p).2.State.Info.Length -
            (__TransmitterRingPreparePacket R p).2.State.Payload.Length) ∧
        H.Length = ETHERNET_MIN) ∨
     ((__TransmitterRingPreparePacket R p).2.State.Payload.Length ≠ 0 ∧
      ∃ H T, (__TransmitterRingPreparePacket R p).2.State.List = [H, T] ∧
        bufferBytes H = (__TransmitterRingPreparePacket R p).2.State.Info.Length ∧
        H.Length = ETHERNET_MIN ∧
        bufferBytes T = (__TransmitterRingPreparePacket R p).2.State.Payload.Length +
          (ETHERNET_MIN - (__TransmitterRingPreparePacket R p).2.State.Info.Length -
            (__TransmitterRingPreparePacket R p).2.State.Payload.Length) ∧
        T.Length = (__TransmitterRingPreparePacket R p).2.State.Payload.Length +
          (ETHERNET_MIN - (__TransmitterRingPreparePacket R p).2.State.Info.Length -
            (__TransmitterRingPreparePacket R p).2.State.Payload.Length))) :=
  PreparePacket_runt R p hC0 hV0 hIds hok hrunt

theorem PreparePacket_pads_runt_witness :
    (__TransmitterRingPreparePacket (freshRing 40 1514 0 (fun _ => true)) 0).2.PacketsCopied =
      1 ∧
    ((__TransmitterRingPreparePacket (freshRing 40 1514 0 (fun _ => true)) 0).2.State.List.map
      bufferBytes).sum = ETHERNET_MIN := by
  have h := PreparePacket_pads_runt (freshRing 40 1514 0 (fun _ => true)) 0 (by decide)
    (by decide) (by simp [freshRing, XENVIF_TRANSMITTER_MAXIMUM_FRAGMENT_ID]) (by decide)
    (by decide)
  exact ⟨h.1, h.2.2.2.1⟩

/-! ### C15: the fall-back from granting to copying -/

/-- After a successful header step of a preparation the fragments are
tracked, and the header fragment is the only one. -/
theorem PrepareHeader_tracked_one (R : XENVIF_TRANSMITTER_RING) (p : Nat)
    (hC0 : R.State.Count = 0) (hV0 : (R.Packets p).Value = 0)
    (hIds : R.FreeIds.length ≤ XENVIF_TRANSMITTER_MAXIMUM_FRAGMENT_ID + 1)
    (hH : (__TransmitterRingPrepareHeader (PreparePacketEnter R p)).1 = STATUS_SUCCESS) :
    ((PreparePacketEnter R p).Packets p).Value + R.FreeIds.length + 1 <
      18446744073709551616 ∧
    ((PreparePacketEnter R p).Packets p).Value = 0 ∧
    Tracked R.GrantsHeld R.BuffersHeld R.FreeIds (PreparePacketEnter R p).Packets p
      (__TransmitterRingPrepareHeader (PreparePacketEnter R p)).2 ∧
    (__TransmitterRingPrepareHeader (PreparePacketEnter R p)).2.State.Packet = some p ∧
    (__TransmitterRingPrepareHeader (PreparePacketEnter R p)).2.State.List.length = 1 := by
  obtain ⟨hb, hv0⟩ := bound_of_ids R p hV0 hIds
  have hTE := PreparePacketEnter_tracked R p hC0
  have hPE : (PreparePacketEnter R p).State.Packet = some p := rfl
  obtain ⟨hTH, hout⟩ := PrepareHeader_outcome p hb (PreparePacketEnter R p) hPE hTE
  refine ⟨hb, hv0, hTH, ?_, ?_⟩
  · exact (PrepareHeader_spec (PreparePacketEnter R p)).2.1.trans hPE
  · have hc := (PrepareHeader_spec (PreparePacketEnter R p)).2.2.1 hH
    have hc2 : (__TransmitterRingPrepareHeader (PreparePacketEnter R p)).2.State.Count = 1 := by
      rw [hc]
      show R.State.Count + 1 = 1
      rw [hC0]
    rw [← hTH.2.2.2.2.2, hc2]

/-- C15: in the preparation of a packet `p`, once the header step has
succeeded and left the ring `H`: `__TransmitterRingGrantPayload` returns
`STATUS_BUFFER_OVERFLOW` exactly when walking the payload made `State.Count`
exceed `XEN_NETIF_NR_SLOTS_MIN`; it then leaves `State.List` as the header
step left it (the header fragment alone), `State.Count == 1`,
`Packet.Value == 1`, and the grant entries, fragment ids, `State.Payload` and
`PacketsGranted` as they were.  For a packet that is not a runt on a ring that
grants payloads, the payload step on that status is
`__TransmitterRingCopyPayload` run on the ring so restored, and on every
other status it is the outcome of `__TransmitterRingGrantPayload` itself. -/
theorem GrantPayload_overflow_copies (R H : XENVIF_TRANSMITTER_RING) (p : Nat)
    (hC0 : R.State.Count = 0) (hV0 : (R.Packets p).Value = 0)
    (hIds : R.FreeIds.length ≤ XENVIF_TRANSMITTER_MAXIMUM_FRAGMENT_ID + 1)
    (hH : (__TransmitterRingPrepareHeader (PreparePacketEnter R p)).1 = STATUS_SUCCESS)
    (hRH : H = (__TransmitterRingPrepareHeader (PreparePacketEnter R p)).2) :
    ((__TransmitterRingGrantPayload H).1 = STATUS_BUFFER_OVERFLOW ↔
      (GrantPayloadLoop p H.State.Payload.Mdl H.State.Payload.Offset
        H.State.Payload.Length H).2.State.Count > XEN_NETIF_NR_SLOTS_MIN) ∧
    ((__TransmitterRingGrantPayload H).1 = STATUS_BUFFER_OVERFLOW →
      (__TransmitterRingGrantPayload H).2.State.List = H.State.List ∧
      H.State.List.length = 1 ∧
      (__TransmitterRingGrantPayload H).2.State.Count = 1 ∧
      ((__TransmitterRingGrantPayload H).2.Packets p).Value = 1 ∧
      (__TransmitterRingGrantPayload H).2.GrantsHeld = H.GrantsHeld ∧
      (__TransmitterRingGrantPayload H).2.FreeIds = H.FreeIds ∧
      (__TransmitterRingGrantPayload H).2.State.Payload = H.State.Payload ∧
      (__TransmitterRingGrantPayload H).2.PacketsGranted = H.PacketsGranted) ∧
    (¬ isRunt H.State.Info.Length H.State.Payload.Length → H.AlwaysCopy = 0 →
      ((__TransmitterRingGrantPayload H).1 = STATUS_BUFFER_OVERFLOW →
        PreparePacketPayload H =
          __TransmitterRingCopyPayload (__TransmitterRingGrantPayload H).2) ∧
      ((__TransmitterRingGrantPayload H).1 ≠ STATUS_BUFFER_OVERFLOW →
        PreparePacketPayload H = __TransmitterRingGrantPayload H)) := by
  obtain ⟨hb, hv0, hTH, hPH, hLH⟩ := PrepareHeader_tracked_one R p hC0 hV0 hIds hH
  rw [← hRH] at hTH hPH hLH
  obtain ⟨g1, _, g3, g4⟩ := GrantPayload_tracked p hb hv0 H hPH hTH hLH
  obtain ⟨s1, _, _, s4⟩ := GrantPayload_spec H
  refine ⟨g4, fun hov => ?_, fun hnr hac => ⟨fun hov => ?_, fun hnov => ?_⟩⟩
  · have hne : (__TransmitterRingGrantPayload H).1 ≠ STATUS_SUCCESS := by
      rw [hov]; decide
    have hL := g3 hne
    have hV := Tracked_Value g1
    rw [hL, hLH, hv0] at hV
    have hC : (__TransmitterRingGrantPayload H).2.State.Count = 1 := by
      rw [g1.2.2.2.2.2, hL, hLH]
    have hG : (__TransmitterRingGrantPayload H).2.GrantsHeld = H.GrantsHeld := by
      rw [g1.1, hTH.1, hL]
    have hF : (__TransmitterRingGrantPayload H).2.FreeIds = H.FreeIds := by
      have a := g1.2.2.1
      have b := hTH.2.2.1
      rw [hL] at a
      rw [← b] at a
      exact List.append_cancel_left a
    obtain ⟨_, _, _, _, q5, _⟩ := State_of_payloadFrame s1
    exact ⟨hL, hLH, hC, hV, hG, hF, q5, (s4 hne).1⟩
  · unfold isRunt at hnr
    unfold PreparePacketPayload
    rw [if_neg hnr, if_pos hac]
    rcases hres : __TransmitterRingGrantPayload H with ⟨st, RG⟩
    rw [hres] at hov
    simp only [] at hov
    subst hov
    rfl
  · unfold isRunt at hnr
    unfold PreparePacketPayload
    rw [if_neg hnr, if_pos hac]
    rcases hres : __TransmitterRingGrantPayload H with ⟨st, RG⟩
    rw [hres] at hnov
    simp only [] at hnov
    cases st <;> first | rfl | exact absurd rfl hnov

theorem GrantPayload_overflow_copies_witness :
    (PreparePacketPayload
        (__TransmitterRingPrepareHeader (PreparePacketEnter scatteredRing 0)).2).1 =
      STATUS_SUCCESS ∧
    ((__TransmitterRingGrantPayload
        (__TransmitterRingPrepareHeader (PreparePacketEnter scatteredRing 0)).2).2.Packets
      0).Value = 1 := by
  have h := GrantPayload_overflow_copies scatteredRing
    (__TransmitterRingPrepareHeader (PreparePacketEnter scatteredRing 0)).2 0
    (by decide) (by decide)
    (by simp [scatteredRing, freshRing, XENVIF_TRANSMITTER_MAXIMUM_FRAGMENT_ID])
    (by decide) rfl
  have hov : (__TransmitterRingGrantPayload
      (__TransmitterRingPrepareHeader (PreparePacketEnter scatteredRing 0)).2).1 =
        STATUS_BUFFER_OVERFLOW := by decide
  refine ⟨?_, (h.2.1 hov).2.2.2.1⟩
  rw [(h.2.2 (by decide) (by decide)).1 hov]
  decide

/-! ### C18: the completion information -/

/-- The packet part of a pass of the response loop writes `Value` and
`Completion.Status` only. -/
theorem PollPacket_lengths (Ring : XENVIF_TRANSMITTER_RING) (Q : Nat) (status : Int)
    (rsp_cons q : Nat) :
    ((PollPacket Ring Q status rsp_cons).Packets q).Completion.PacketLength =
      (Ring.Packets q).Completion.PacketLength ∧
    ((PollPacket Ring Q status rsp_cons).Packets q).Completion.PayloadLength =
      (Ring.Packets q).Completion.PayloadLength ∧
    ((PollPacket Ring Q status rsp_cons).Packets q).Completion.Type_ =
      (Ring.Packets q).Completion.Type_ := by
  by_cases hq : q = Q
  · subst hq
    unfold PollPacket
    simp only []
    split_ifs
    all_goals
      simp only [__TransmitterRingCompletePacket, zeroResponse, decValue,
        Packets_updatePacket, if_true]
      exact ⟨trivial, trivial, trivial⟩
  · rw [(PollPacket_spec Ring Q status rsp_cons).1 q hq]
    exact ⟨rfl, rfl, rfl⟩

theorem PollResponse_lengths (Ring Ring' : XENVIF_TRANSMITTER_RING) (rsp_cons q : Nat)
    (h : PollResponse Ring rsp_cons = some Ring') :
    (Ring'.Packets q).Completion.PacketLength = (Ring.Packets q).Completion.PacketLength ∧
    (Ring'.Packets q).Completion.PayloadLength = (Ring.Packets q).Completion.PayloadLength ∧
    (Ring'.Packets q).Completion.Type_ = (Ring.Packets q).Completion.Type_ := by
  revert h
  unfold PollResponse
  simp only []
  split_ifs
  · intro h; injection h with h; subst h; exact ⟨rfl, rfl, rfl⟩
  · intro h; cases h
  · split
    · intro h; cases h
    · next Fragment hF =>
      have hp := (PollRelease_packets (PollCount Ring)
        (Ring.Shared.Rsp (rsp_cons % XENVIF_TRANSMITTER_RING_SIZE)).id Fragment).1
      have hp : (PollRelease (PollCount Ring)
        (Ring.Shared.Rsp (rsp_cons % XENVIF_TRANSMITTER_RING_SIZE)).id Fragment).Packets =
          Ring.Packets := hp
      split
      · intro h; injection h with h; subst h
        have hz : (zeroResponse (PollRelease (PollCount Ring)
            (Ring.Shared.Rsp (rsp_cons % XENVIF_TRANSMITTER_RING_SIZE)).id Fragment)
            rsp_cons).Packets = Ring.Packets := hp
        rw [hz]; exact ⟨rfl, rfl, rfl⟩
      · next Packet _ =>
        intro h; injection h with h; subst h
        obtain ⟨a, b, c⟩ := PollPacket_lengths (PollRelease (PollCount Ring)
          (Ring.Shared.Rsp (rsp_cons % XENVIF_TRANSMITTER_RING_SIZE)).id Fragment) Packet
          (Ring.Shared.Rsp (rsp_cons % XENVIF_TRANSMITTER_RING_SIZE)).status rsp_cons q
        rw [hp] at a b c
        exact ⟨a, b, c⟩

theorem PollLoop_lengths (q : Nat) :
    ∀ (n rsp_cons : Nat) (Ring Ring' : XENVIF_TRANSMITTER_RING),
      PollLoop n rsp_cons Ring = some Ring' →
      (Ring'.Packets q).Completion.PacketLength = (Ring.Packets q).Completion.PacketLength ∧
      (Ring'.Packets q).Completion.PayloadLength = (Ring.Packets q).Completion.PayloadLength ∧
      (Ring'.Packets q).Completion.Type_ = (Ring.Packets q).Completion.Type_ := by
  intro n
  induction n with
  | zero =>
    intro c Ring Ring' h
    simp only [PollLoop] at h
    injection h with h; subst h; exact ⟨rfl, rfl, rfl⟩
  | succ n ih =>
    intro c Ring Ring' h
    simp only [PollLoop] at h
    cases h1 : PollResponse Ring c with
    | none => rw [h1] at h; cases h
    | some R1 =>
      rw [h1] at h
      obtain ⟨a, b, d⟩ := PollResponse_lengths Ring R1 c q h1
      obtain ⟨a2, b2, d2⟩ := ih (ULONG_inc c) R1 Ring' h
      exact ⟨a2.trans a, b2.trans b, d2.trans d⟩

/-- `TransmitterRingPoll` changes no `PacketLength`, `PayloadLength` or
`Type` of a completion. -/
theorem Poll_lengths (X R' : XENVIF_TRANSMITTER_RING) (q : Nat)
    (h : TransmitterRingPoll X = some R') :
    (R'.Packets q).Completion.PacketLength = (X.Packets q).Completion.PacketLength ∧
    (R'.Packets q).Completion.PayloadLength = (X.Packets q).Completion.PayloadLength ∧
    (R'.Packets q).Completion.Type_ = (X.Packets q).Completion.Type_ := by
  unfold TransmitterRingPoll at h
  simp only [] at h
  split_ifs at h with he
  · injection h with h; subst h; exact ⟨rfl, rfl, rfl⟩
  · cases h1 : PollLoop (ULONG_sub X.Shared.rsp_prod X.Front.rsp_cons) X.Front.rsp_cons X with
    | none => rw [h1] at h; cases h
    | some R2 =>
      rw [h1] at h
      injection h with h
      subst h
      exact PollLoop_lengths q _ _ _ R2 h1

/-- The length of the head fragment that a successful preparation leaves:
`ETHERNET_MIN` for a runt, and otherwise the header, the payload and the
inserted tag, if any. -/
theorem PreparePacket_head_length (R : XENVIF_TRANSMITTER_RING) (p : Nat)
    (hC0 : R.State.Count = 0) (hV0 : (R.Packets p).Value = 0)
    (hIds : R.FreeIds.length ≤ XENVIF_TRANSMITTER_MAXIMUM_FRAGMENT_ID + 1)
    (hok : (__TransmitterRingPreparePacket R p).1 = STATUS_SUCCESS) :
    ∃ H rest Info Payload,
      (__TransmitterRingPreparePacket R p).2.State.List = H :: rest ∧
      (__TransmitterRingPreparePacket R p).2.State.Packet = some p ∧
      ParsePacket (R.Packets p).Parse
        { Mdl := (R.Packets p).Mdl, Offset := (R.Packets p).Offset,
          Length := (R.Packets p).Length } = some (Info, Payload) ∧
      (__TransmitterRingPreparePacket R p).2.State.Payload = Payload ∧
      ((__TransmitterRingPreparePacket R p).2.State.Info.Length +
          (__TransmitterRingPreparePacket R p).2.State.Payload.Length < ETHERNET_MIN →
        H.Length = ETHERNET_MIN) ∧
      (¬ isRunt (__TransmitterRingPreparePacket R p).2.State.Info.Length
          (__TransmitterRingPreparePacket R p).2.State.Payload.Length →
        H.Length =
          headerLength (R.Packets p).Send.OffloadTagManipulation Info.Length Payload.Length) := by
  obtain ⟨Info, Payload, Id, rest, added, hI, _, _, _, hPk, _, hInfo, hPay, _, hlist⟩ :=
    PreparePacket_success R p hC0 hV0 hIds hok
  have hrl : ∀ H rest, (__TransmitterRingPreparePacket R p).2.State.List = H :: rest →
      (__TransmitterRingPreparePacket R p).2.State.Info.Length +
          (__TransmitterRingPreparePacket R p).2.State.Payload.Length < ETHERNET_MIN →
        H.Length = ETHERNET_MIN := by
    intro H rest hl hr
    obtain ⟨_, _, _, _, hd⟩ := PreparePacket_runt R p hC0 hV0 hIds hok hr
    rcases hd with ⟨_, H1, e, _, len⟩ | ⟨_, H1, T, e, _, len, _⟩
    · rw [e] at hl; injection hl with hl _; rw [← hl]; exact len
    · rw [e] at hl; injection hl with hl _; rw [← hl]; exact len
  rw [← hInfo, ← hPay] at hlist
  rcases hlist with ⟨hr, hl, _⟩ | ⟨hnr, hl, _⟩
  · cases hpl : (__TransmitterRingPreparePacket R p).2.State.List with
    | nil =>
      rw [hpl] at hl
      exact absurd hl.symm (by
        unfold padRunt
        intro hcon
        have := congrArg List.length hcon
        simp [modifyFirst, modifyTail] at this
        cases added <;> simp [modifyTail, modifyFirst] at hcon)
    | cons H rest1 =>
      exact ⟨H, rest1, Info, Payload, rfl, hPk, hI, hPay, hrl H rest1 hpl,
        fun hnr => absurd hr hnr⟩
  · refine ⟨_, added, Info, Payload, hl, hPk, hI, hPay, hrl _ _ hl, fun _ => ?_⟩
    rw [hPay]; rfl

/-- C18: a successful `__TransmitterRingPostFragments` for a packet `p` held
in `State` sets the completion of the packet to the destination address type
of the packet, the status `PENDING`, the length of the first fragment as
`PacketLength` and `State.Payload.Length` as `PayloadLength`, both cast to
`USHORT` (so the lengths themselves when they are below 65536);
`PacketLength` is the size written in the first request.  After a successful
preparation that first fragment has the length of the header, the payload and
the inserted tag, if any, and `ETHERNET_MIN` for a runt.  And
`TransmitterRingPoll` changes no `PacketLength`, `PayloadLength` or `Type`
of a completion. -/
theorem PostFragments_sets_completion :
    (∀ (Ring : XENVIF_TRANSMITTER_RING) (p : Nat),
      Ring.State.Packet = some p → Ring.State.List ≠ [] →
      Ring.State.Count = Ring.State.List.length →
      Ring.State.Count + PostFragmentsExtra Ring.State ≤ XENVIF_TRANSMITTER_RING_SIZE →
      (__TransmitterRingPostFragments Ring).1 = STATUS_SUCCESS →
      ∃ F rest req,
        Ring.State.List = F :: rest ∧
        ((__TransmitterRingPostFragments Ring).2.Packets p).Completion =
          { Type_ := (Ring.Packets p).DestinationType
            Status := XENVIF_TRANSMITTER_PACKET_PENDING
            PacketLength := F.Length % 65536
            PayloadLength := Ring.State.Payload.Length % 65536 } ∧
        (__TransmitterRingPostFragments Ring).2.Shared.Req
            (Ring.Front.req_prod_pvt % XENVIF_TRANSMITTER_RING_SIZE) =
          RequestSlot.request req ∧
        req.size = ((__TransmitterRingPostFragments Ring).2.Packets p).Completion.PacketLength ∧
        (F.Length < 65536 →
          ((__TransmitterRingPostFragments Ring).2.Packets p).Completion.PacketLength =
            F.Length) ∧
        (Ring.State.Payload.Length < 65536 →
          ((__TransmitterRingPostFragments Ring).2.Packets p).Completion.PayloadLength =
            Ring.State.Payload.Length)) ∧
    (∀ (R : XENVIF_TRANSMITTER_RING) (p : Nat),
      R.State.Count = 0 → (R.Packets p).Value = 0 →
      R.FreeIds.length ≤ XENVIF_TRANSMITTER_MAXIMUM_FRAGMENT_ID + 1 →
      (__TransmitterRingPreparePacket R p).1 = STATUS_SUCCESS →
      ∃ H rest Info Payload,
        (__TransmitterRingPreparePacket R p).2.State.List = H :: rest ∧
        (__TransmitterRingPreparePacket R p).2.State.Packet = some p ∧
        ParsePacket (R.Packets p).Parse
          { Mdl := (R.Packets p).Mdl, Offset := (R.Packets p).Offset,
            Length := (R.Packets p).Length } = some (Info, Payload) ∧
        (__TransmitterRingPreparePacket R p).2.State.Payload = Payload ∧
        ((__TransmitterRingPreparePacket R p).2.State.Info.Length +
            (__TransmitterRingPreparePacket R p).2.State.Payload.Length < ETHERNET_MIN →
          H.Length = ETHERNET_MIN) ∧
        (¬ isRunt (__TransmitterRingPreparePacket R p).2.State.Info.Length
            (__TransmitterRingPreparePacket R p).2.State.Payload.Length →
          H.Length =
            headerLength (R.Packets p).Send.OffloadTagManipulation Info.Length
              Payload.Length)) ∧
    (∀ (X R1 : XENVIF_TRANSMITTER_RING) (q : Nat), TransmitterRingPoll X = some R1 →
      (R1.Packets q).Completion.PacketLength = (X.Packets q).Completion.PacketLength ∧
      (R1.Packets q).Completion.PayloadLength = (X.Packets q).Completion.PayloadLength ∧
      (R1.Packets q).Completion.Type_ = (X.Packets q).Completion.Type_) := by
  refine ⟨?_, PreparePacket_head_length, Poll_lengths⟩
  intro Ring p hP hne hc hlen hok
  have hle : ¬ ULONG_add Ring.State.Count (PostFragmentsExtra Ring.State) >
      RING_SLOTS_AVAILABLE Ring.Front.req_prod_pvt Ring.Front.rsp_cons := by
    rcases PostFragments_cases Ring with ⟨_, heq⟩ | ⟨h, _⟩
    · rw [heq] at hok; simp at hok
    · exact h
  cases hl : Ring.State.List with
  | nil => exact absurd hl hne
  | cons F rest =>
    have hc' : Ring.State.Count = rest.length + 1 := by rw [hc, hl]; rfl
    obtain ⟨_, _, _, _, w, _, _, _, _, _, hpk, _⟩ :=
      PostFragments_writes Ring F rest hl hc' hle hlen
    obtain ⟨hpk, _⟩ := hpk p hP
    have hC : ((__TransmitterRingPostFragments Ring).2.Packets p).Completion =
        { Type_ := (Ring.Packets p).DestinationType
          Status := XENVIF_TRANSMITTER_PACKET_PENDING
          PacketLength := F.Length % 65536
          PayloadLength := Ring.State.Payload.Length % 65536 } := by
      rw [hpk, setAt_same]
    have hw := w 0 (by simp)
    have hds : dataSlot Ring.Front.req_prod_pvt (PostFragmentsExtra Ring.State) 0 =
        Ring.Front.req_prod_pvt % XENVIF_TRANSMITTER_RING_SIZE := by
      unfold dataSlot; simp
    rw [hds] at hw
    refine ⟨F, rest, _, rfl, hC, hw, ?_, ?_, ?_⟩
    · rw [hC]; rfl
    · intro h; rw [hC]; exact Nat.mod_eq_of_lt h
    · intro h; rw [hC]; exact Nat.mod_eq_of_lt h

theorem PostFragments_sets_completion_witness :
    ((__TransmitterRingPostFragments preparedRing).2.Packets 0).Completion.PacketLength =
      1000 ∧
    ((__TransmitterRingPostFragments preparedRing).2.Packets 0).Completion.PayloadLength =
      986 := by
  obtain ⟨F, rest, req, hl, hC, _, _, h1, h2⟩ :=
    PostFragments_sets_completion.1 preparedRing 0 (by decide) (by decide) (by decide)
      (by decide) (by decide)
  have hF : F.Length = 1000 := by
    have : preparedRing.State.List.head? = some F := by rw [hl]; rfl
    have h2 : (preparedRing.State.List.head?.map (fun G => G.Length)) = some 1000 := by decide
    rw [this] at h2
    injection h2
  exact ⟨by rw [h1 (by rw [hF]; decide), hF], h2 (by decide)⟩

/-! ### C17: the extra-info slot -/

/-- After the large-packet fix-up a packet that is still large has the TCP
checksum offload of its IP version set. -/
theorem largePacketFixup_checksum (Send : XENVIF_TRANSMITTER_PACKET_SEND_INFO) (L : Nat) :
    ((largePacketFixup Send L).OffloadIpVersion4LargePacket = true →
      (largePacketFixup Send L).OffloadIpVersion4TcpChecksum = true) ∧
    ((largePacketFixup Send L).OffloadIpVersion6LargePacket = true →
      (largePacketFixup Send L).OffloadIpVersion6TcpChecksum = true) := by
  unfold largePacketFixup
  simp only []
  split_ifs <;> simp_all

/-- Storing fragments leaves the entries of other ids alone. -/
theorem storePending_other (i : Nat) :
    ∀ (l : List XENVIF_TRANSMITTER_FRAGMENT) (P : Nat → Option XENVIF_TRANSMITTER_FRAGMENT),
      i ∉ l.map (fun F => F.Id) → storePending P l i = P i := by
  intro l
  induction l with
  | nil => intro P _; rfl
  | cons F rest ih =>
    intro P h
    simp only [List.map_cons, List.mem_cons, not_or] at h
    rw [storePending_cons, ih _ h.2]
    exact setAt_other _ _ _ _ h.1

/-- The flags of the data requests of a post when a checksum offload is
requested and an extra-info slot follows: all three flags on the first
request, none of them on a later one. -/
theorem postedFlags_large (Send : XENVIF_TRANSMITTER_PACKET_SEND_INFO)
    (F : XENVIF_TRANSMITTER_FRAGMENT) (N k : Nat)
    (hcs : (Send.OffloadIpVersion4TcpChecksum || Send.OffloadIpVersion4UdpChecksum ||
      Send.OffloadIpVersion6TcpChecksum || Send.OffloadIpVersion6UdpChecksum) = true)
    (hex : needsExtra Send (some F) = true) :
    (k = 0 →
      postedFlags Send F N k &&& NETTXF_extra_info = NETTXF_extra_info ∧
      postedFlags Send F N k &&& NETTXF_csum_blank = NETTXF_csum_blank ∧
      postedFlags Send F N k &&& NETTXF_data_validated = NETTXF_data_validated) ∧
    (k ≠ 0 →
      postedFlags Send F N k &&&
        (NETTXF_extra_info ||| NETTXF_csum_blank ||| NETTXF_data_validated) = 0) := by
  unfold postedFlags
  simp only [firstFlags_eq, hcs, hex, if_true]
  constructor
  · intro hk
    rw [if_pos hk]
    split_ifs <;> decide
  · intro hk
    rw [if_neg hk]
    split_ifs <;> decide

/-- The flags of the first request of a post with no extra-info slot. -/
theorem postedFlags_plain (Send : XENVIF_TRANSMITTER_PACKET_SEND_INFO)
    (F : XENVIF_TRANSMITTER_FRAGMENT) (N k : Nat)
    (hex : needsExtra Send (some F) = false) :
    postedFlags Send F N k &&& NETTXF_extra_info = 0 := by
  unfold postedFlags
  simp only [firstFlags_eq, hex, Bool.false_eq_true, if_false]
  split_ifs <;> decide

/-- C17: let `__TransmitterRingPostFragments` succeed on a ring whose
`State.Send` is the outcome of the large-packet fix-up of the header step and
whose `State.List` is `F :: rest`.  If a large-packet flag is set, the slot
after the first request holds an extra-info record of type GSO with the type
1 (TCPv4) for IPv4 and 2 (TCPv6) otherwise and the size
`MaximumSegmentSize`; the first request carries `NETTXF_extra_info`,
`NETTXF_csum_blank` and `NETTXF_data_validated` and no later request carries
any of them; the first fragment goes to `Pending` with `Extra` set; and
`req_prod_pvt` and `RequestsPosted` advance by `State.Count + 1`.  If no
large-packet flag is set and `F` is not a multicast control, every slot is as
before or holds a data request, the first request does not carry
`NETTXF_extra_info`, the fragments go to `Pending` unchanged, and
`req_prod_pvt` and `RequestsPosted` advance by `State.Count`. -/
theorem PostFragments_extra_info (Ring : XENVIF_TRANSMITTER_RING)
    (Send0 : XENVIF_TRANSMITTER_PACKET_SEND_INFO) (L : Nat)
    (F : XENVIF_TRANSMITTER_FRAGMENT) (rest : List XENVIF_TRANSMITTER_FRAGMENT)
    (hSend : Ring.State.Send = largePacketFixup Send0 L)
    (hl : Ring.State.List = F :: rest)
    (hc : Ring.State.Count = Ring.State.List.length)
    (hlen : Ring.State.Count + PostFragmentsExtra Ring.State ≤ XENVIF_TRANSMITTER_RING_SIZE)
    (hok : (__TransmitterRingPostFragments Ring).1 = STATUS_SUCCESS) :
    ((Ring.State.Send.OffloadIpVersion4LargePacket = true ∨
        Ring.State.Send.OffloadIpVersion6LargePacket = true) →
      (__TransmitterRingPostFragments Ring).2.Shared.Req
          ((Ring.Front.req_prod_pvt + 1) % XENVIF_TRANSMITTER_RING_SIZE) =
        RequestSlot.extra
          (netif_extra_info.GSO (if Ring.State.Send.OffloadIpVersion4LargePacket then 1 else 2)
            Ring.State.Send.MaximumSegmentSize) ∧
      (∀ k, k < (F :: rest).length →
        ∃ req : netif_tx_request_t,
          (__TransmitterRingPostFragments Ring).2.Shared.Req
              (dataSlot Ring.Front.req_prod_pvt 1 k) = RequestSlot.request req ∧
          (k = 0 →
            req.flags &&& NETTXF_extra_info = NETTXF_extra_info ∧
            req.flags &&& NETTXF_csum_blank = NETTXF_csum_blank ∧
            req.flags &&& NETTXF_data_validated = NETTXF_data_validated) ∧
          (k ≠ 0 →
            req.flags &&&
              (NETTXF_extra_info ||| NETTXF_csum_blank ||| NETTXF_data_validated) = 0)) ∧
      (__TransmitterRingPostFragments Ring).2.Pending =
        storePending Ring.Pending ({ F with Extra := true } :: rest) ∧
      (F.Id ∉ rest.map (fun G => G.Id) →
        (__TransmitterRingPostFragments Ring).2.Pending F.Id = some { F with Extra := true }) ∧
      (__TransmitterRingPostFragments Ring).2.Front.req_prod_pvt % 4294967296 =
        (Ring.Front.req_prod_pvt + (Ring.State.Count + 1)) % 4294967296 ∧
      (__TransmitterRingPostFragments Ring).2.RequestsPosted % 4294967296 =
        (Ring.RequestsPosted + (Ring.State.Count + 1)) % 4294967296) ∧
    (Ring.State.Send.OffloadIpVersion4LargePacket = false →
      Ring.State.Send.OffloadIpVersion6LargePacket = false →
      F.isMulticastControl = false →
      (∀ j, (__TransmitterRingPostFragments Ring).2.Shared.Req j = Ring.Shared.Req j ∨
        ∃ req : netif_tx_request_t,
          (__TransmitterRingPostFragments Ring).2.Shared.Req j = RequestSlot.request req) ∧
      (∃ req : netif_tx_request_t,
        (__TransmitterRingPostFragments Ring).2.Shared.Req
            (Ring.Front.req_prod_pvt % XENVIF_TRANSMITTER_RING_SIZE) =
          RequestSlot.request req ∧
        req.flags &&& NETTXF_extra_info = 0) ∧
      (__TransmitterRingPostFragments Ring).2.Pending =
        storePending Ring.Pending (F :: rest) ∧
      (__TransmitterRingPostFragments Ring).2.Front.req_prod_pvt % 4294967296 =
        (Ring.Front.req_prod_pvt + Ring.State.Count) % 4294967296 ∧
      (__TransmitterRingPostFragments Ring).2.RequestsPosted % 4294967296 =
        (Ring.RequestsPosted + Ring.State.Count) % 4294967296) := by
  have hle : ¬ ULONG_add Ring.State.Count (PostFragmentsExtra Ring.State) >
      RING_SLOTS_AVAILABLE Ring.Front.req_prod_pvt Ring.Front.rsp_cons := by
    rcases PostFragments_cases Ring with ⟨_, heq⟩ | ⟨h, _⟩
    · rw [heq] at hok; simp at hok
    · exact h
  have hsz : XENVIF_TRANSMITTER_RING_SIZE = 256 := rfl
  have hc' : Ring.State.Count = rest.length + 1 := by rw [hc, hl]; rfl
  obtain ⟨_, w1, _, w2, w, wx, wo, wp, _⟩ := PostFragments_writes Ring F rest hl hc' hle hlen
  have hE := PostFragmentsExtra_cons Ring F rest hl
  constructor
  · intro hlarge
    have hex : needsExtra Ring.State.Send (some F) = true := by
      unfold needsExtra
      rcases hlarge with h | h <;> simp [h]
    have hE1 : PostFragmentsExtra Ring.State = 1 := by rw [hE, if_pos hex]
    have hcs : (Ring.State.Send.OffloadIpVersion4TcpChecksum ||
        Ring.State.Send.OffloadIpVersion4UdpChecksum ||
        Ring.State.Send.OffloadIpVersion6TcpChecksum ||
        Ring.State.Send.OffloadIpVersion6UdpChecksum) = true := by
      obtain ⟨c4, c6⟩ := largePacketFixup_checksum Send0 L
      rw [← hSend] at c4 c6
      rcases hlarge with h | h
      · simp [c4 h]
      · simp [c6 h]
    have hinfo : extraInfoFor Ring.State.Send F =
        netif_extra_info.GSO (if Ring.State.Send.OffloadIpVersion4LargePacket then 1 else 2)
          Ring.State.Send.MaximumSegmentSize := by
      unfold extraInfoFor
      rw [if_pos (by rcases hlarge with h | h <;> simp [h])]
    rw [hE1] at w w1 w2 wp
    refine ⟨?_, ?_, ?_, ?_, ?_, ?_⟩
    · rw [hsz, wx hE1, hinfo]
    · intro k hk
      refine ⟨_, w k hk, ?_⟩
      exact postedFlags_large _ _ _ _ hcs hex
    · simpa using wp
    · intro hnot
      rw [wp]
      simp only [if_true]
      rw [storePending_cons, storePending_other _ _ _ hnot]
      exact setAt_same _ _ _
    · rw [w1]; congr 1
    · rw [w2]; congr 1
  · intro h4 h6 hmc
    have hex : needsExtra Ring.State.Send (some F) = false := by
      unfold needsExtra
      simp [h4, h6, hmc]
    have hE0 : PostFragmentsExtra Ring.State = 0 := by rw [hE, hex]; rfl
    rw [hE0] at w w1 w2 wp wo
    refine ⟨?_, ?_, ?_, ?_, ?_⟩
    · intro j
      by_cases hj : ∃ i, i < Ring.State.Count + 0 ∧ j = (Ring.Front.req_prod_pvt + i) % 256
      · right
        obtain ⟨i, hi, hji⟩ := hj
        have hi' : i < (F :: rest).length := by
          have : (F :: rest).length = rest.length + 1 := rfl
          omega
        have hw := w i hi'
        have hds : dataSlot Ring.Front.req_prod_pvt 0 i = j := by
          unfold dataSlot
          rw [hsz, hji]
          split_ifs <;> rfl
        rw [hds] at hw
        exact ⟨_, hw⟩
      · left
        apply wo
        intro i hi hji
        exact hj ⟨i, hi, hji⟩
    · have := w 0 (by simp)
      have hds : dataSlot Ring.Front.req_prod_pvt 0 0 =
          Ring.Front.req_prod_pvt % XENVIF_TRANSMITTER_RING_SIZE := by
        unfold dataSlot; simp
      rw [hds] at this
      exact ⟨_, this, postedFlags_plain _ _ _ _ hex⟩
    · simpa using wp
    · exact w1
    · exact w2

set_option maxRecDepth 100000 in
theorem PostFragments_extra_info_witness :
    (__TransmitterRingPostFragments preparedLargeRing).2.Shared.Req 1 =
      RequestSlot.extra (netif_extra_info.GSO 1 1460) ∧
    (__TransmitterRingPostFragments preparedLargeRing).2.Front.req_prod_pvt % 4294967296 =
      3 := by
  have hl : preparedLargeRing.State.List =
      (preparedLargeRing.State.List.headD (inFlightFragment 1)) :: preparedLargeRing.State.List.tail := by decide
  obtain ⟨h1, _, _, _, h5, _⟩ :=
    (PostFragments_extra_info preparedLargeRing largePacket.Send 2946
      (preparedLargeRing.State.List.headD (inFlightFragment 1)) preparedLargeRing.State.List.tail
      (by decide) hl (by decide) (by decide) (by decide)).1 (Or.inl (by decide))
  refine ⟨?_, ?_⟩
  · have e : (preparedLargeRing.Front.req_prod_pvt + 1) % XENVIF_TRANSMITTER_RING_SIZE = 1 := by
      decide
    rw [e] at h1
    rw [h1]
    decide
  · rw [h5]
    decide

/-! ### C10: the ids of the pending fragments -/

theorem PendingIds_of_Pending {A B : XENVIF_TRANSMITTER_RING} (h : A.Pending = B.Pending)
    (hB : PendingIds B) : PendingIds A := by
  intro i G hG
  rw [h] at hG
  exact hB i G hG

theorem PendingIds_store {A B : XENVIF_TRANSMITTER_RING} (G : XENVIF_TRANSMITTER_FRAGMENT)
    (h : A.Pending = setAt B.Pending G.Id (some G)) (hB : PendingIds B) : PendingIds A := by
  intro i F hF
  rw [h] at hF
  by_cases hi : i = G.Id
  · rw [hi, setAt_same] at hF
    injection hF with hF
    rw [← hF, hi]
  · rw [setAt_other _ _ _ _ hi] at hF
    exact hB i F hF

theorem PendingIds_clear {A B : XENVIF_TRANSMITTER_RING} (id : Nat)
    (h : A.Pending = setAt B.Pending id none) (hB : PendingIds B) : PendingIds A := by
  intro i F hF
  rw [h] at hF
  by_cases hi : i = id
  · rw [hi, setAt_same] at hF
    cases hF
  · rw [setAt_other _ _ _ _ hi] at hF
    exact hB i F hF

/-- A pass of the request loop stores the fragment, with `Extra` set if an
extra-info slot was written, in the slot of `Pending` that its id names. -/
theorem PostFragment_Pending (L : PostFragmentsLocals) (Ring : XENVIF_TRANSMITTER_RING)
    (Fragment : XENVIF_TRANSMITTER_FRAGMENT) :
    ∃ G : XENVIF_TRANSMITTER_FRAGMENT, G.Id = Fragment.Id ∧
      (PostFragment L Ring Fragment).2.Pending = setAt Ring.Pending G.Id (some G) := by
  cases h : L.FirstRequest with
  | false => exact ⟨Fragment, rfl, (PostFragment_later L Ring Fragment h).2.2.2⟩
  | true =>
    cases hx : needsExtra Ring.State.Send (some Fragment) with
    | false => exact ⟨Fragment, rfl, (PostFragment_first_plain L Ring Fragment h hx).2.2.2⟩
    | true =>
      exact ⟨{ Fragment with Extra := true }, rfl,
        (PostFragment_first_extra L Ring Fragment h hx).2.2.2⟩

theorem PostFragmentsLoop_PendingIds :
    ∀ (fuel : Nat) (L : PostFragmentsLocals) (Ring : XENVIF_TRANSMITTER_RING),
      PendingIds Ring → PendingIds (PostFragmentsLoop fuel L Ring).2
  | 0, _, _ => fun h => h
  | fuel + 1, L, Ring => by
    intro h
    rw [PostFragmentsLoop]
    split
    · exact h
    · split
      · exact h
      · next Fragment rest hl =>
        simp only []
        apply PostFragmentsLoop_PendingIds fuel
        obtain ⟨G, _, hG⟩ := PostFragment_Pending L { Ring with State := { Ring.State with
            Count := Ring.State.Count - 1, List := rest } } Fragment
        exact PendingIds_store G hG h

/-- `__TransmitterRingPostFragments` keeps `Pending[i].Id == i`, whatever
it returns. -/
theorem PostFragments_PendingIds (Ring : XENVIF_TRANSMITTER_RING) (h : PendingIds Ring) :
    PendingIds (__TransmitterRingPostFragments Ring).2 := by
  rcases PostFragments_cases Ring with ⟨_, heq⟩ | ⟨hle, _⟩
  · rw [heq]; exact h
  · rw [(PostFragments_result Ring hle).2]
    have hloop := PostFragmentsLoop_PendingIds Ring.State.Count
      { req_prod := Ring.Front.req_prod_pvt, FirstRequest := true, PacketLength := 0,
        req := none } Ring h
    generalize PostFragmentsLoop Ring.State.Count
      { req_prod := Ring.Front.req_prod_pvt, FirstRequest := true, PacketLength := 0,
        req := none } Ring = r at hloop ⊢
    have hfin : PendingIds (PostFragmentsFinish r.2 r.1) :=
      PendingIds_of_Pending (PostFragmentsFinish_fields r.2 r.1).2.2.1 hloop
    cases Ring.State.Packet with
    | none => exact hfin
    | some Packet =>
      exact PendingIds_of_Pending
        (PostFragmentsPacket_spec (PostFragmentsFinish r.2 r.1) Packet r.1.PacketLength
          Ring.State.Payload.Length).2.2.2 hfin

/-- What a pass of the response loop does to `Pending`: nothing for a
`NETIF_RSP_NULL` response, and otherwise it clears the slot that the id of
the response names, which held a fragment. -/
theorem PollResponse_Pending (Ring Ring' : XENVIF_TRANSMITTER_RING) (rsp_cons : Nat)
    (h : PollResponse Ring rsp_cons = some Ring') :
    ((Ring.Shared.Rsp (rsp_cons % XENVIF_TRANSMITTER_RING_SIZE)).status = NETIF_RSP_NULL ∧
      Ring'.Pending = Ring.Pending) ∨
    ((Ring.Shared.Rsp (rsp_cons % XENVIF_TRANSMITTER_RING_SIZE)).status ≠ NETIF_RSP_NULL ∧
      (Ring.Shared.Rsp (rsp_cons % XENVIF_TRANSMITTER_RING_SIZE)).id ≤
        XENVIF_TRANSMITTER_MAXIMUM_FRAGMENT_ID ∧
      ∃ Fragment,
        Ring.Pending (Ring.Shared.Rsp (rsp_cons % XENVIF_TRANSMITTER_RING_SIZE)).id =
          some Fragment ∧
        Ring'.Pending = setAt Ring.Pending
          (Ring.Shared.Rsp (rsp_cons % XENVIF_TRANSMITTER_RING_SIZE)).id none) := by
  by_cases hs : (Ring.Shared.Rsp (rsp_cons % XENVIF_TRANSMITTER_RING_SIZE)).status =
      NETIF_RSP_NULL
  · left
    rw [PollResponse_null Ring rsp_cons hs] at h
    injection h with h
    subst h
    exact ⟨hs, rfl⟩
  · right
    by_cases hid : (Ring.Shared.Rsp (rsp_cons % XENVIF_TRANSMITTER_RING_SIZE)).id >
        XENVIF_TRANSMITTER_MAXIMUM_FRAGMENT_ID
    · exfalso
      unfold PollResponse at h
      simp only [] at h
      rw [if_neg hs, if_pos hid] at h
      cases h
    · have hid' : (Ring.Shared.Rsp (rsp_cons % XENVIF_TRANSMITTER_RING_SIZE)).id ≤
          XENVIF_TRANSMITTER_MAXIMUM_FRAGMENT_ID := by omega
      cases hF : Ring.Pending (Ring.Shared.Rsp (rsp_cons % XENVIF_TRANSMITTER_RING_SIZE)).id with
      | none =>
        exfalso
        unfold PollResponse at h
        simp only [] at h
        have hpend : (PollCount Ring).Pending = Ring.Pending := rfl
        rw [if_neg hs, if_neg hid, hpend, hF] at h
        cases h
      | some Fragment =>
        obtain ⟨R1, e, hp, _⟩ := PollResponse_some Ring rsp_cons Fragment hs hid' hF
        rw [e] at h
        injection h with h
        subst h
        exact ⟨hs, hid', Fragment, rfl, hp⟩

theorem PollResponse_PendingIds (Ring Ring' : XENVIF_TRANSMITTER_RING) (rsp_cons : Nat)
    (h : PollResponse Ring rsp_cons = some Ring') (hI : PendingIds Ring) : PendingIds Ring' := by
  rcases PollResponse_Pending Ring Ring' rsp_cons h with ⟨_, e⟩ | ⟨_, _, _, _, e⟩
  · exact PendingIds_of_Pending e hI
  · exact PendingIds_clear _ e hI

theorem PollLoop_PendingIds :
    ∀ (n rsp_cons : Nat) (Ring Ring' : XENVIF_TRANSMITTER_RING),
      PollLoop n rsp_cons Ring = some Ring' → PendingIds Ring → PendingIds Ring' := by
  intro n
  induction n with
  | zero =>
    intro c Ring Ring' h hI
    simp only [PollLoop] at h
    injection h with h; subst h; exact hI
  | succ n ih =>
    intro c Ring Ring' h hI
    simp only [PollLoop] at h
    cases h1 : PollResponse Ring c with
    | none => rw [h1] at h; cases h
    | some R1 =>
      rw [h1] at h
      exact ih _ R1 Ring' h (PollResponse_PendingIds Ring R1 c h1 hI)

/-- `TransmitterRingPoll` keeps `Pending[i].Id == i`. -/
theorem Poll_PendingIds (X R' : XENVIF_TRANSMITTER_RING)
    (h : TransmitterRingPoll X = some R') (hI : PendingIds X) : PendingIds R' := by
  unfold TransmitterRingPoll at h
  simp only [] at h
  split_ifs at h with he
  · injection h with h; subst h; exact hI
  · cases h1 : PollLoop (ULONG_sub X.Shared.rsp_prod X.Front.rsp_cons) X.Front.rsp_cons X with
    | none => rw [h1] at h; cases h
    | some R2 =>
      rw [h1] at h
      injection h with h
      subst h
      have := PollLoop_PendingIds _ _ _ R2 h1 hI
      exact PendingIds_of_Pending rfl this

/-- The operations that do not write `Pending` keep `Pending[i].Id == i`. -/
theorem PendingIds_unwritten (Ring : XENVIF_TRANSMITTER_RING) (h : PendingIds Ring) :
    PendingIds (__TransmitterRingPushRequests Ring) ∧
    PendingIds (__TransmitterRingFakeResponses Ring) ∧
    PendingIds (TransmitterRingSwizzle Ring) ∧
    PendingIds (__TransmitterRingSend Ring) ∧
    PendingIds (DisablePrologue Ring) ∧
    PendingIds (__TransmitterRingAcquireLock Ring) ∧
    (∀ p, PendingIds (__TransmitterRingPreparePacket Ring p).2) ∧
    (∀ p, PendingIds (schedulePacket Ring p)) ∧
    (∀ p b, PendingIds (fakePacket Ring p b)) ∧
    (∀ Request, PendingIds (prepareRequest Ring Request)) := by
  refine ⟨PendingIds_of_Pending (PushRequests_spec Ring).2.2.2 h,
    PendingIds_of_Pending (FakeResponses_fields Ring).2.1 h,
    PendingIds_of_Pending (Swizzle_counters Ring).2.2.2.2.2.2.2 h,
    PendingIds_of_Pending (Send_fields Ring).2.2.1 h,
    PendingIds_of_Pending (DisablePrologue_spec Ring).2.2.2.2.2.2.1 h,
    PendingIds_of_Pending rfl h,
    fun p => PendingIds_of_Pending
      (facts_of_counterFrame (PreparePacket_spec Ring p).1).2.2.2.1 h,
    fun p => PendingIds_of_Pending (schedulePacket_spec Ring p).2.2.2.1 h,
    fun p b => PendingIds_of_Pending (fakePacket_spec Ring p b).2.2.2.2.2.2.2.2.2.2 h,
    fun Request => ?_⟩
  have := congrArg XENVIF_TRANSMITTER_RING.Pending (prepareRequest_spec Ring Request).1
  exact PendingIds_of_Pending this h

theorem ScheduleLoop_PendingIds (fuel : Nat) (Ring Ring' : XENVIF_TRANSMITTER_RING)
    (hI : PendingIds Ring) (h : TransmitterRingScheduleLoop fuel Ring = some Ring') :
    PendingIds Ring' :=
  ScheduleLoop_invariant PendingIds
    (fun R hR => PostFragments_PendingIds R hR)
    (fun _ hR => PendingIds_of_Pending rfl hR)
    (fun R hR => (PendingIds_unwritten R hR).1)
    (fun R Request rest hR =>
      (PendingIds_unwritten { R with RequestQueue := rest }
        (PendingIds_of_Pending rfl hR)).2.2.2.2.2.2.2.2.2 Request)
    (fun R Packet rest hR =>
      (PendingIds_unwritten { R with PacketQueue := rest }
        (PendingIds_of_Pending rfl hR)).2.2.2.2.2.2.2.1 Packet)
    fuel Ring Ring' hI h

theorem Schedule_PendingIds (Ring Ring' : XENVIF_TRANSMITTER_RING)
    (hI : PendingIds Ring) (h : TransmitterRingSchedule Ring = some Ring') :
    PendingIds Ring' := by
  unfold TransmitterRingSchedule at h
  split_ifs at h
  · injection h with h; subst h; exact hI
  · cases h1 : TransmitterRingScheduleLoop
        (Ring.RequestQueue.length + Ring.PacketQueue.length + 1) Ring with
    | none => rw [h1] at h; cases h
    | some R1 =>
      rw [h1] at h
      injection h with h
      subst h
      exact (PendingIds_unwritten R1 (ScheduleLoop_PendingIds _ _ _ hI h1)).1

theorem ReleaseLock_PendingIds (Ring Ring' : XENVIF_TRANSMITTER_RING)
    (hI : PendingIds Ring) (h : __TransmitterRingReleaseLock Ring = some Ring') :
    PendingIds Ring' := by
  unfold __TransmitterRingReleaseLock at h
  cases h1 : TransmitterRingSchedule (TransmitterRingSwizzle Ring) with
  | none => rw [h1] at h; cases h
  | some R1 =>
    rw [h1] at h
    injection h with h
    subst h
    have := Schedule_PendingIds _ R1 (PendingIds_unwritten Ring hI).2.2.1 h1
    exact PendingIds_of_Pending rfl this

theorem QueuePackets_PendingIds (Ring Ring' : XENVIF_TRANSMITTER_RING) (List : List Nat)
    (hI : PendingIds Ring) (h : __TransmitterRingQueuePackets Ring List = some Ring') :
    PendingIds Ring' := by
  unfold __TransmitterRingQueuePackets at h
  simp only [] at h
  split_ifs at h
  · injection h with h; subst h; exact PendingIds_of_Pending rfl hI
  · have h0 : PendingIds (__TransmitterRingAcquireLock (pushPackets Ring List)) :=
      PendingIds_of_Pending rfl hI
    exact ReleaseLock_PendingIds _ Ring' h0 h

theorem DisableLoop_PendingIds (State : Nat) :
    ∀ (fuel : Nat) (Ring Ring' : XENVIF_TRANSMITTER_RING),
      PendingIds Ring → DisableLoop State fuel Ring = some Ring' → PendingIds Ring' := by
  intro fuel
  induction fuel with
  | zero =>
    intro Ring Ring' hI h
    simp only [DisableLoop] at h
    split_ifs at h
    injection h with h; subst h; exact hI
  | succ n ih =>
    intro Ring Ring' hI h
    simp only [DisableLoop] at h
    split_ifs at h
    · injection h with h; subst h; exact hI
    · cases h1 : TransmitterRingPoll (__TransmitterRingSend Ring) with
      | none => rw [h1] at h; cases h
      | some R1 =>
        rw [h1] at h
        have hR1 := Poll_PendingIds _ R1 h1 (PendingIds_unwritten Ring hI).2.2.2.1
        refine ih _ Ring' ?_ h
        unfold DisableFake
        split_ifs
        · exact (PendingIds_unwritten R1 hR1).2.1
        · exact hR1

theorem Disable_PendingIds (State fuel : Nat) (Ring Ring' : XENVIF_TRANSMITTER_RING)
    (hI : PendingIds Ring) (h : __TransmitterRingDisable State fuel Ring = some Ring') :
    PendingIds Ring' := by
  unfold __TransmitterRingDisable at h
  cases h1 : DisableLoop State fuel (DisablePrologue (__TransmitterRingAcquireLock Ring)) with
  | none => rw [h1] at h; cases h
  | some R1 =>
    rw [h1] at h
    have h0 := (PendingIds_unwritten _ (PendingIds_unwritten Ring hI).2.2.2.2.2.1).2.2.2.2.1
    exact ReleaseLock_PendingIds R1 Ring' (DisableLoop_PendingIds State fuel _ R1 h0 h1) h

theorem AbortPacketsLoop_PendingIds :
    ∀ (l : List Nat) (Ring : XENVIF_TRANSMITTER_RING),
      PendingIds Ring → PendingIds (AbortPacketsLoop l Ring) := by
  intro l
  induction l with
  | nil => intro Ring hI; exact hI
  | cons p rest ih =>
    intro Ring hI
    simp only [AbortPacketsLoop]
    exact ih _ ((PendingIds_unwritten { Ring with PacketQueue := rest }
      (PendingIds_of_Pending rfl hI)).2.2.2.2.2.2.2.2.1 p false)

theorem AbortPackets_PendingIds (Ring Ring' : XENVIF_TRANSMITTER_RING)
    (hI : PendingIds Ring) (h : __TransmitterRingAbortPackets Ring = some Ring') :
    PendingIds Ring' := by
  unfold __TransmitterRingAbortPackets at h
  refine ReleaseLock_PendingIds _ Ring' ?_ h
  unfold AbortPacketsBody
  simp only []
  exact AbortPacketsLoop_PendingIds _ _
    (PendingIds_unwritten _ (PendingIds_unwritten Ring hI).2.2.2.2.2.1).2.2.1

/-- Where the stored fragments end up: an entry of `Pending` after the
store is an old entry or one of the stored fragments, at its id. -/
theorem storePending_mem (i : Nat) (G : XENVIF_TRANSMITTER_FRAGMENT) :
    ∀ (l : List XENVIF_TRANSMITTER_FRAGMENT) (P : Nat → Option XENVIF_TRANSMITTER_FRAGMENT),
      storePending P l i = some G → P i = some G ∨ (G ∈ l ∧ G.Id = i) := by
  intro l
  induction l with
  | nil => intro P h; exact Or.inl h
  | cons F rest ih =>
    intro P h
    rw [storePending_cons] at h
    rcases ih _ h with h1 | ⟨h1, h2⟩
    · by_cases hi : i = F.Id
      · rw [hi, setAt_same] at h1
        injection h1 with h1
        right
        exact ⟨by rw [← h1]; simp, by rw [← h1, hi]⟩
      · rw [setAt_other _ _ _ _ hi] at h1
        exact Or.inl h1
    · exact Or.inr ⟨List.mem_cons_of_mem _ h1, h2⟩

/-- With different ids, every stored fragment is found at its id. -/
theorem storePending_get :
    ∀ (l : List XENVIF_TRANSMITTER_FRAGMENT) (P : Nat → Option XENVIF_TRANSMITTER_FRAGMENT),
      (l.map (fun F => F.Id)).Nodup →
      ∀ G, G ∈ l → storePending P l G.Id = some G := by
  intro l
  induction l with
  | nil => intro P _ G hG; simp at hG
  | cons F rest ih =>
    intro P hnd G hG
    simp only [List.map_cons, List.nodup_cons] at hnd
    rw [storePending_cons]
    rcases List.mem_cons.1 hG with hG | hG
    · subst hG
      rw [storePending_other _ _ _ hnd.1]
      exact setAt_same _ _ _
    · exact ih _ hnd.2 G hG

/-- With fresh ids, the slot that a fragment is stored in is empty when its
turn comes, that is after the fragments before it were stored. -/
theorem storePending_empty (P : Nat → Option XENVIF_TRANSMITTER_FRAGMENT)
    (l : List XENVIF_TRANSMITTER_FRAGMENT) (hnd : (l.map (fun F => F.Id)).Nodup)
    (hfree : ∀ F, F ∈ l → P F.Id = none) (k : Nat) (hk : k < l.length) :
    storePending P (l.take k) l[k].Id = none := by
  have hnot : l[k].Id ∉ (l.take k).map (fun F => F.Id) := by
    intro hmem
    rw [← List.take_append_drop k l] at hnd
    rw [List.map_append] at hnd
    have hdis := (List.nodup_append.1 hnd).2.2
    have hin : l[k].Id ∈ (l.drop k).map (fun F => F.Id) := by
      have hin2 : l[k] ∈ l.drop k := by
        rw [List.drop_eq_getElem_cons hk]
        exact List.mem_cons_self _ _
      exact List.mem_map_of_mem _ hin2
    exact hdis hmem hin
  rw [storePending_other _ _ _ hnot]
  exact hfree _ (List.getElem_mem _)

/-- The fragments of a successful preparation have fresh ids when the free
ids are different from each other and from the ids in use in `Pending`. -/
theorem PreparePacket_IdsFresh (R : XENVIF_TRANSMITTER_RING) (p : Nat)
    (hC0 : R.State.Count = 0) (hV0 : (R.Packets p).Value = 0)
    (hIds : R.FreeIds.length ≤ XENVIF_TRANSMITTER_MAXIMUM_FRAGMENT_ID + 1)
    (hnd : R.FreeIds.Nodup) (hfree : ∀ i, i ∈ R.FreeIds → R.Pending i = none)
    (hok : (__TransmitterRingPreparePacket R p).1 = STATUS_SUCCESS) :
    IdsFresh (__TransmitterRingPreparePacket R p).2 := by
  obtain ⟨_, _, _, _, _, _, _, _, hT, _⟩ := PreparePacket_success R p hC0 hV0 hIds hok
  have hids := hT.2.2.1
  have hP : (__TransmitterRingPreparePacket R p).2.Pending = R.Pending :=
    (facts_of_counterFrame (PreparePacket_spec R p).1).2.2.2.1
  rw [← hids] at hnd hfree
  refine ⟨(List.nodup_append.1 hnd).1, fun F hF => ?_⟩
  rw [hP]
  apply hfree
  apply List.mem_append_left
  exact List.mem_map_of_mem _ hF

/-- C10: `Pending[i].Id == i` for every occupied slot of `Pending` is kept
by every ring operation: by `__TransmitterRingPostFragments`,
`__TransmitterRingPushRequests`, `__TransmitterRingFakeResponses`,
`TransmitterRingSwizzle` and `__TransmitterRingPreparePacket` whatever they
return, and by `TransmitterRingPoll`, `TransmitterRingSchedule`,
`__TransmitterRingReleaseLock`, `__TransmitterRingQueuePackets`,
`__TransmitterRingDisable` and `__TransmitterRingAbortPackets` whenever they
return.  A successful post stores the fragments of `State.List` (the first
one with `Extra` set if an extra-info slot was written), each in the slot
that its id names, and changes no other slot; when the ids are fresh, as the
source asserts and as a successful preparation leaves them, each slot is
empty when its fragment is stored and holds that fragment afterwards.  A pass
of the response loop of the poll changes nothing in `Pending` for a
`NETIF_RSP_NULL` response and otherwise clears exactly the slot named by the
id of the response, whose fragment has that id. -/
theorem Pending_ids_invariant :
    (∀ R : XENVIF_TRANSMITTER_RING, PendingIds R →
      PendingIds (__TransmitterRingPostFragments R).2 ∧
      PendingIds (__TransmitterRingPushRequests R) ∧
      PendingIds (__TransmitterRingFakeResponses R) ∧
      PendingIds (TransmitterRingSwizzle R) ∧
      (∀ p, PendingIds (__TransmitterRingPreparePacket R p).2) ∧
      (∀ R1, TransmitterRingPoll R = some R1 → PendingIds R1) ∧
      (∀ R1, TransmitterRingSchedule R = some R1 → PendingIds R1) ∧
      (∀ R1, __TransmitterRingReleaseLock R = some R1 → PendingIds R1) ∧
      (∀ List R1, __TransmitterRingQueuePackets R List = some R1 → PendingIds R1) ∧
      (∀ State fuel R1, __TransmitterRingDisable State fuel R = some R1 → PendingIds R1) ∧
      (∀ R1, __TransmitterRingAbortPackets R = some R1 → PendingIds R1)) ∧
    (∀ (R : XENVIF_TRANSMITTER_RING) (F : XENVIF_TRANSMITTER_FRAGMENT)
        (rest : List XENVIF_TRANSMITTER_FRAGMENT),
      R.State.List = F :: rest → R.State.Count = R.State.List.length →
      R.State.Count + PostFragmentsExtra R.State ≤ XENVIF_TRANSMITTER_RING_SIZE →
      (__TransmitterRingPostFragments R).1 = STATUS_SUCCESS →
      ∃ G : XENVIF_TRANSMITTER_FRAGMENT, G.Id = F.Id ∧
        (__TransmitterRingPostFragments R).2.Pending = storePending R.Pending (G :: rest) ∧
        (∀ i, i ∉ (F :: rest).map (fun H => H.Id) →
          (__TransmitterRingPostFragments R).2.Pending i = R.Pending i) ∧
        (IdsFresh R →
          (∀ k (hk : k < (G :: rest).length),
            storePending R.Pending ((G :: rest).take k) (G :: rest)[k].Id = none) ∧
          (∀ H, H ∈ G :: rest →
            (__TransmitterRingPostFragments R).2.Pending H.Id = some H))) ∧
    (∀ (R R1 : XENVIF_TRANSMITTER_RING) (rsp_cons : Nat),
      PollResponse R rsp_cons = some R1 →
      ((R.Shared.Rsp (rsp_cons % XENVIF_TRANSMITTER_RING_SIZE)).status = NETIF_RSP_NULL ∧
        R1.Pending = R.Pending) ∨
      ((R.Shared.Rsp (rsp_cons % XENVIF_TRANSMITTER_RING_SIZE)).status ≠ NETIF_RSP_NULL ∧
        ∃ Fragment,
          R.Pending (R.Shared.Rsp (rsp_cons % XENVIF_TRANSMITTER_RING_SIZE)).id =
            some Fragment ∧
          R1.Pending = setAt R.Pending
            (R.Shared.Rsp (rsp_cons % XENVIF_TRANSMITTER_RING_SIZE)).id none ∧
          (PendingIds R →
            Fragment.Id = (R.Shared.Rsp (rsp_cons % XENVIF_TRANSMITTER_RING_SIZE)).id))) ∧
    (∀ (R : XENVIF_TRANSMITTER_RING) (p : Nat),
      R.State.Count = 0 → (R.Packets p).Value = 0 →
      R.FreeIds.length ≤ XENVIF_TRANSMITTER_MAXIMUM_FRAGMENT_ID + 1 →
      R.FreeIds.Nodup → (∀ i, i ∈ R.FreeIds → R.Pending i = none) →
      (__TransmitterRingPreparePacket R p).1 = STATUS_SUCCESS →
      IdsFresh (__TransmitterRingPreparePacket R p).2) := by
  refine ⟨fun R hI => ?_, fun R F rest hl hc hlen hok => ?_, fun R R1 c h => ?_,
    PreparePacket_IdsFresh⟩
  · obtain ⟨u1, u2, u3, _, _, _, u7, _⟩ := PendingIds_unwritten R hI
    exact ⟨PostFragments_PendingIds R hI, u1, u2, u3, u7,
      fun R1 h => Poll_PendingIds R R1 h hI,
      fun R1 h => Schedule_PendingIds R R1 hI h,
      fun R1 h => ReleaseLock_PendingIds R R1 hI h,
      fun List R1 h => QueuePackets_PendingIds R R1 List hI h,
      fun State fuel R1 h => Disable_PendingIds State fuel R R1 hI h,
      fun R1 h => AbortPackets_PendingIds R R1 hI h⟩
  · have hle : ¬ ULONG_add R.State.Count (PostFragmentsExtra R.State) >
        RING_SLOTS_AVAILABLE R.Front.req_prod_pvt R.Front.rsp_cons := by
      rcases PostFragments_cases R with ⟨_, heq⟩ | ⟨h, _⟩
      · rw [heq] at hok; simp at hok
      · exact h
    have hc' : R.State.Count = rest.length + 1 := by rw [hc, hl]; rfl
    obtain ⟨_, _, _, _, _, _, _, wp, _⟩ := PostFragments_writes R F rest hl hc' hle hlen
    have hG : (if PostFragmentsExtra R.State = 1 then { F with Extra := true } else F).Id =
        F.Id := by split_ifs <;> rfl
    generalize (if PostFragmentsExtra R.State = 1 then { F with Extra := true } else F) = G
      at wp hG
    have hmap : (G :: rest).map (fun H => H.Id) = (F :: rest).map (fun H => H.Id) := by
      simp only [List.map_cons, hG]
    refine ⟨G, hG, wp, fun i hi => ?_, fun hfresh => ?_⟩
    · rw [wp]
      rw [← hmap] at hi
      exact storePending_other _ _ _ hi
    · obtain ⟨hnd, hfree⟩ := hfresh
      rw [hl, ← hmap] at hnd
      have hfree' : ∀ H, H ∈ G :: rest → R.Pending H.Id = none := by
        intro H hH
        rcases List.mem_cons.1 hH with hH | hH
        · rw [hH, hG]
          exact hfree F (by rw [hl]; exact List.mem_cons_self _ _)
        · exact hfree H (by rw [hl]; exact List.mem_cons_of_mem _ hH)
      refine ⟨fun k hk => storePending_empty R.Pending (G :: rest) hnd hfree' k hk,
        fun H hH => ?_⟩
      rw [wp]
      exact storePending_get _ _ hnd H hH
  · rcases PollResponse_Pending R R1 c h with ⟨a, b⟩ | ⟨a, _, Fragment, hF, b⟩
    · exact Or.inl ⟨a, b⟩
    · exact Or.inr ⟨a, Fragment, hF, b, fun hI => hI _ _ hF⟩

theorem Pending_ids_invariant_witness :
    PendingIds (__TransmitterRingPostFragments preparedRing).2 := by
  have h0 : PendingIds preparedRing := by
    intro i G hG
    have hP : preparedRing.Pending = (freshRing 1000 1514 0 (fun _ => true)).Pending :=
      (facts_of_counterFrame (PreparePacket_spec (freshRing 1000 1514 0 (fun _ => true))
        0).1).2.2.2.1
    rw [hP] at hG
    cases hG
  exact (Pending_ids_invariant.1 preparedRing h0).1

/-! ### C11: the order of the request counters -/

theorem PollRelease_indices (Ring : XENVIF_TRANSMITTER_RING) (id : Nat)
    (Fragment : XENVIF_TRANSMITTER_FRAGMENT) :
    (PollRelease Ring id Fragment).RequestsPosted = Ring.RequestsPosted ∧
    (PollRelease Ring id Fragment).RequestsPushed = Ring.RequestsPushed ∧
    (PollRelease Ring id Fragment).ResponsesProcessed = Ring.ResponsesProcessed ∧
    (PollRelease Ring id Fragment).Front = Ring.Front := by
  unfold PollRelease releaseContext RevokeForeignAccess __TransmitterPutFragment
    __TransmitterPutBuffer
  simp only []
  cases Fragment.Context <;> cases Fragment.Entry <;> exact ⟨rfl, rfl, rfl, rfl⟩

theorem PollPacket_indices (Ring : XENVIF_TRANSMITTER_RING) (Q : Nat) (status : Int)
    (rsp_cons : Nat) :
    (PollPacket Ring Q status rsp_cons).RequestsPosted = Ring.RequestsPosted ∧
    (PollPacket Ring Q status rsp_cons).RequestsPushed = Ring.RequestsPushed ∧
    (PollPacket Ring Q status rsp_cons).ResponsesProcessed = Ring.ResponsesProcessed ∧
    (PollPacket Ring Q status rsp_cons).Front = Ring.Front := by
  unfold PollPacket
  simp only []
  split_ifs <;> exact ⟨rfl, rfl, rfl, rfl⟩

/-- A pass of the response loop counts one response and leaves the other
counters and the private indices alone. -/
theorem PollResponse_indices (Ring Ring' : XENVIF_TRANSMITTER_RING) (rsp_cons : Nat)
    (h : PollResponse Ring rsp_cons = some Ring') :
    Ring'.RequestsPosted = Ring.RequestsPosted ∧
    Ring'.RequestsPushed = Ring.RequestsPushed ∧
    Ring'.ResponsesProcessed = ULONG_inc Ring.ResponsesProcessed ∧
    Ring'.Front = Ring.Front := by
  revert h
  unfold PollResponse
  simp only []
  split_ifs
  · intro h; injection h with h; subst h; exact ⟨rfl, rfl, rfl, rfl⟩
  · intro h; cases h
  · split
    · intro h; cases h
    · next Fragment hF =>
      obtain ⟨a, b, c, d⟩ := PollRelease_indices (PollCount Ring)
        (Ring.Shared.Rsp (rsp_cons % XENVIF_TRANSMITTER_RING_SIZE)).id Fragment
      split
      · intro h; injection h with h; subst h
        exact ⟨a, b, c, d⟩
      · next Packet hP =>
        intro h; injection h with h; subst h
        obtain ⟨a1, b1, c1, d1⟩ := PollPacket_indices (PollRelease (PollCount Ring)
          (Ring.Shared.Rsp (rsp_cons % XENVIF_TRANSMITTER_RING_SIZE)).id Fragment) Packet
          (Ring.Shared.Rsp (rsp_cons % XENVIF_TRANSMITTER_RING_SIZE)).status rsp_cons
        exact ⟨a1.trans a, b1.trans b, c1.trans c, d1.trans d⟩

theorem PollLoop_indices :
    ∀ (n rsp_cons : Nat) (Ring Ring' : XENVIF_TRANSMITTER_RING),
      PollLoop n rsp_cons Ring = some Ring' →
      Ring'.RequestsPosted = Ring.RequestsPosted ∧
      Ring'.RequestsPushed = Ring.RequestsPushed ∧
      Ring'.ResponsesProcessed % 4294967296 = (Ring.ResponsesProcessed + n) % 4294967296 ∧
      Ring'.Front = Ring.Front
  | 0, _, Ring, Ring' => by
    intro h; simp only [PollLoop] at h; injection h with h; subst h
    exact ⟨rfl, rfl, rfl, rfl⟩
  | n + 1, rsp_cons, Ring, Ring' => by
    rw [PollLoop]
    split
    · intro h; cases h
    · next R1 h1 =>
      intro h
      obtain ⟨a, b, c, d⟩ := PollResponse_indices Ring R1 rsp_cons h1
      obtain ⟨a1, b1, c1, d1⟩ := PollLoop_indices n _ R1 Ring' h
      refine ⟨a1.trans a, b1.trans b, ?_, d1.trans d⟩
      rw [c1, c]
      unfold ULONG_inc
      omega

/-- `TransmitterRingPoll` counts the responses between `Front.rsp_cons` and
the shared `rsp_prod` and moves `Front.rsp_cons` up to `rsp_prod`. -/
theorem Poll_indices (Ring Ring' : XENVIF_TRANSMITTER_RING)
    (h : TransmitterRingPoll Ring = some Ring') :
    Ring'.RequestsPosted = Ring.RequestsPosted ∧
    Ring'.RequestsPushed = Ring.RequestsPushed ∧
    Ring'.ResponsesProcessed % 4294967296 =
      (Ring.ResponsesProcessed + ULONG_sub Ring.Shared.rsp_prod Ring.Front.rsp_cons) %
        4294967296 ∧
    Ring'.Front.req_prod_pvt = Ring.Front.req_prod_pvt ∧
    Ring'.Front.rsp_cons = Ring.Shared.rsp_prod := by
  revert h
  unfold TransmitterRingPoll
  simp only []
  split_ifs with he
  · intro h; injection h with h; subst h
    refine ⟨rfl, rfl, ?_, rfl, he⟩
    rw [he]; unfold ULONG_sub; omega
  · split
    · intro h; cases h
    · next R1 h1 =>
      intro h; injection h with h; subst h
      obtain ⟨a, b, c, d⟩ := PollLoop_indices _ _ _ _ h1
      refine ⟨a, b, c, ?_, rfl⟩
      show R1.Front.req_prod_pvt = _
      rw [d]

/-- The counters and the private indices after a post, for a `State` whose
`Count` is the length of its list. -/
theorem PostFragments_indices (Ring : XENVIF_TRANSMITTER_RING)
    (hc : Ring.State.Count = Ring.State.List.length)
    (hlen : Ring.State.Count + PostFragmentsExtra Ring.State ≤ XENVIF_TRANSMITTER_RING_SIZE) :
    (__TransmitterRingPostFragments Ring).2.RequestsPushed = Ring.RequestsPushed ∧
    (__TransmitterRingPostFragments Ring).2.ResponsesProcessed = Ring.ResponsesProcessed ∧
    (__TransmitterRingPostFragments Ring).2.Front.rsp_cons = Ring.Front.rsp_cons ∧
    ∃ n, n ≤ RING_SLOTS_AVAILABLE Ring.Front.req_prod_pvt Ring.Front.rsp_cons ∧
      n ≤ XENVIF_TRANSMITTER_RING_SIZE ∧
      (__TransmitterRingPostFragments Ring).2.RequestsPosted % 4294967296 =
        (Ring.RequestsPosted + n) % 4294967296 ∧
      (__TransmitterRingPostFragments Ring).2.Front.req_prod_pvt % 4294967296 =
        (Ring.Front.req_prod_pvt + n) % 4294967296 := by
  rcases PostFragments_cases Ring with ⟨_, heq⟩ | ⟨hle, _⟩
  · rw [heq]
    exact ⟨rfl, rfl, rfl, 0, Nat.zero_le _, Nat.zero_le _, rfl, rfl⟩
  · obtain ⟨b1, _, _, _, b5, b6, _⟩ := PostFragmentsLoop_Front Ring.State.Count
      { req_prod := Ring.Front.req_prod_pvt, FirstRequest := true, PacketLength := 0,
        req := none } Ring
    have hPQ : (__TransmitterRingPostFragments Ring).2.RequestsPushed = Ring.RequestsPushed ∧
        (__TransmitterRingPostFragments Ring).2.ResponsesProcessed =
          Ring.ResponsesProcessed := by
      rw [(PostFragments_result Ring hle).2]
      generalize PostFragmentsLoop Ring.State.Count
        { req_prod := Ring.Front.req_prod_pvt, FirstRequest := true, PacketLength := 0,
          req := none } Ring = r at b5 b6 ⊢
      have hf := postFrame_PostFragmentsFinish r.2 r.1
      have f5 := congrArg XENVIF_TRANSMITTER_RING.RequestsPushed hf
      have f6 := congrArg XENVIF_TRANSMITTER_RING.ResponsesProcessed hf
      have f5 : (PostFragmentsFinish r.2 r.1).RequestsPushed = r.2.RequestsPushed := f5
      have f6 : (PostFragmentsFinish r.2 r.1).ResponsesProcessed = r.2.ResponsesProcessed := f6
      cases Ring.State.Packet with
      | none => exact ⟨f5.trans b5, f6.trans b6⟩
      | some Packet => exact ⟨f5.trans b5, f6.trans b6⟩
    obtain ⟨hP, hQ⟩ := hPQ
    cases hl : Ring.State.List with
    | nil =>
      have hc0 : Ring.State.Count = 0 := by rw [hc, hl]; rfl
      have hres := (PostFragments_result Ring hle).2
      rw [hc0] at hres
      simp only [PostFragmentsLoop] at hres
      obtain ⟨f1, f2, _⟩ := PostFragmentsFinish_fields Ring
        { req_prod := Ring.Front.req_prod_pvt, FirstRequest := true, PacketLength := 0,
          req := none }
      have key : (__TransmitterRingPostFragments Ring).2.RequestsPosted = Ring.RequestsPosted ∧
          (__TransmitterRingPostFragments Ring).2.Front =
            { Ring.Front with req_prod_pvt := Ring.Front.req_prod_pvt } := by
        rw [hres]
        cases Ring.State.Packet with
        | none => exact ⟨f2, f1⟩
        | some Packet => exact ⟨f2, f1⟩
      obtain ⟨k1, k2⟩ := key
      refine ⟨hP, hQ, by rw [k2], 0, Nat.zero_le _, Nat.zero_le _, by rw [k1]; rfl,
        by rw [k2]; rfl⟩
    | cons F rest =>
      have hc' : Ring.State.Count = rest.length + 1 := by rw [hc, hl]; rfl
      obtain ⟨_, w1, w3, w2, _⟩ := PostFragments_writes Ring F rest hl hc' hle hlen
      refine ⟨hP, hQ, w3, Ring.State.Count + PostFragmentsExtra Ring.State, ?_, hlen, ?_, ?_⟩
      · have hsz : XENVIF_TRANSMITTER_RING_SIZE = 256 := rfl
        rw [hsz] at hlen
        unfold ULONG_add at hle
        rw [Nat.mod_eq_of_lt (by omega)] at hle
        omega
      · rw [w2]; congr 1; omega
      · rw [w1]; congr 1; omega

theorem PushRequests_indices (Ring : XENVIF_TRANSMITTER_RING) :
    (__TransmitterRingPushRequests Ring).RequestsPosted = Ring.RequestsPosted ∧
    (__TransmitterRingPushRequests Ring).RequestsPushed = Ring.RequestsPosted ∧
    (__TransmitterRingPushRequests Ring).ResponsesProcessed = Ring.ResponsesProcessed ∧
    (__TransmitterRingPushRequests Ring).Front = Ring.Front := by
  unfold __TransmitterRingPushRequests __TransmitterRingSend
  simp only []
  split_ifs with h <;> first | exact ⟨rfl, rfl, rfl, rfl⟩ | exact ⟨rfl, h.symm, rfl, rfl⟩

/-- C11: on a ring whose request counters are in order and whose private
indices span the requests posted and not yet answered, at most `RING_SIZE`
of them (`RingIndexInvariant`, which holds on a ring on which nothing has
happened yet), with all differences taken as `ULONG`s: `RequestsPosted -
RequestsPushed`, `RequestsPushed - ResponsesProcessed` and
`Front.req_prod_pvt - Front.rsp_cons` are at most `RING_SIZE`; and the
invariant holds again after `__TransmitterRingPostFragments` (for a `State`
whose `Count` is the length of its list and fits the ring, as the source
asserts), after `__TransmitterRingPushRequests`, after
`__TransmitterRingFakeResponses`, and after every `TransmitterRingPoll` that
returns, provided the backend has published no more responses than requests
were pushed to it; that proviso holds when the shared `rsp_prod` is not
beyond the shared `req_prod` and the shared `req_prod` is where the pushed
requests end. -/
theorem Ring_indices_ordered (R : XENVIF_TRANSMITTER_RING) (hI : RingIndexInvariant R) :
    (ULONG_sub R.RequestsPushed R.ResponsesProcessed ≤ XENVIF_TRANSMITTER_RING_SIZE ∧
      ULONG_sub R.RequestsPosted R.RequestsPushed ≤ XENVIF_TRANSMITTER_RING_SIZE ∧
      ULONG_sub R.RequestsPosted R.ResponsesProcessed ≤ XENVIF_TRANSMITTER_RING_SIZE ∧
      ULONG_sub R.Front.req_prod_pvt R.Front.rsp_cons ≤ XENVIF_TRANSMITTER_RING_SIZE) ∧
    (R.State.Count = R.State.List.length →
      R.State.Count + PostFragmentsExtra R.State ≤ XENVIF_TRANSMITTER_RING_SIZE →
      RingIndexInvariant (__TransmitterRingPostFragments R).2) ∧
    RingIndexInvariant (__TransmitterRingPushRequests R) ∧
    RingIndexInvariant (__TransmitterRingFakeResponses R) ∧
    (∀ R1, BackendBound R → TransmitterRingPoll R = some R1 → RingIndexInvariant R1) ∧
    (ULONG_sub R.RequestsPushed R.ResponsesProcessed =
        ULONG_sub R.Shared.req_prod R.Front.rsp_cons →
      ULONG_sub R.Shared.rsp_prod R.Front.rsp_cons ≤
        ULONG_sub R.Shared.req_prod R.Front.rsp_cons →
      BackendBound R) := by
  have hsz : XENVIF_TRANSMITTER_RING_SIZE = 256 := rfl
  obtain ⟨i1, i2, i3⟩ := hI
  rw [hsz] at i3 ⊢
  refine ⟨?_, fun hc hlen => ?_, ?_, ?_, fun R1 hB hp => ?_, fun h1 h2 => ?_⟩
  · omega
  · obtain ⟨a, b, c, n, hn, hn2, d, e⟩ := PostFragments_indices R hc hlen
    unfold RingIndexInvariant
    rw [a, b, c, hsz]
    unfold RING_SLOTS_AVAILABLE at hn
    rw [hsz] at hn hn2
    unfold ULONG_sub at i1 i2 i3 hn ⊢
    omega
  · obtain ⟨a, b, c, d⟩ := PushRequests_indices R
    unfold RingIndexInvariant
    rw [a, b, c, d, hsz]
    unfold ULONG_sub at i1 i2 i3 ⊢
    omega
  · obtain ⟨a, _, _, _, b, c, _⟩ := FakeResponses_fields R
    have d : (__TransmitterRingFakeResponses R).RequestsPosted = R.RequestsPosted := rfl
    unfold RingIndexInvariant
    rw [a, b, c, d, hsz]
    exact ⟨i1, i2, i3⟩
  · obtain ⟨a, b, c, d, e⟩ := Poll_indices R R1 hp
    unfold BackendBound at hB
    unfold RingIndexInvariant
    rw [a, b, d, e, hsz]
    unfold ULONG_sub at i1 i2 i3 hB c ⊢
    omega
  · unfold BackendBound
    rw [h1]; exact h2

theorem Ring_indices_ordered_witness :
    RingIndexInvariant (__TransmitterRingPostFragments preparedRing).2 ∧
    RingIndexInvariant
      (__TransmitterRingPushRequests (__TransmitterRingPostFragments preparedRing).2) := by
  have h0 : RingIndexInvariant preparedRing := ⟨by decide, by decide, by decide⟩
  have h1 := (Ring_indices_ordered preparedRing h0).2.1 (by decide) (by decide)
  exact ⟨h1, (Ring_indices_ordered _ h1).2.2.1⟩

/-- A pass of the loop body that fails leaves a state from which the next
call towards the same target begins with `FrontendPrepare`. -/
theorem FrontendSetStateBody_failed (ok : Bool) (cur target : XENVIF_FRONTEND_STATE)
    (hf : (FrontendSetStateBody ok target cur).Failed = true) :
    startsWithPrepare (FrontendSetStateBody ok target cur).State target = true := by
  cases cur <;> cases target <;> cases ok <;>
    first
      | exact absurd hf (by decide)
      | decide

/-- The first thing a pass does from a state that `startsWithPrepare` is the
call of `FrontendPrepare`. -/
theorem FrontendSetStateBody_head (ok : Bool) (cur target : XENVIF_FRONTEND_STATE)
    (h : startsWithPrepare cur target = true) :
    ∃ rest, (FrontendSetStateBody ok target cur).Events = FrontendEvent.Prepare ok :: rest := by
  cases cur <;> cases target <;> cases ok <;>
    first
      | exact absurd h (by decide)
      | exact ⟨_, rfl⟩

/-- Whatever the fuel, when the loop of `FrontendSetState` ends it has
either not failed, with the state equal to the target, or failed, leaving a
state from which the next call begins with `FrontendPrepare`. -/
theorem FrontendSetStateLoop_exit (oracle : Nat → Bool) (target : XENVIF_FRONTEND_STATE) :
    ∀ (fuel pass : Nat) (cur : XENVIF_FRONTEND_STATE) (r : FrontendStep),
    FrontendSetStateLoop oracle target fuel pass cur = some r →
      (r.Failed = false ∧ r.State = target) ∨
      (r.Failed = true ∧ startsWithPrepare r.State target = true) := by
  intro fuel
  induction fuel with
  | zero =>
    intro pass cur r h
    unfold FrontendSetStateLoop at h
    by_cases hc : cur = target
    · simp [hc] at h; subst h; exact Or.inl ⟨rfl, rfl⟩
    · simp [hc] at h
  | succ n ih =>
    intro pass cur r h
    rw [FrontendSetStateLoop] at h
    by_cases hc : cur = target
    · simp [hc] at h; subst h; exact Or.inl ⟨rfl, rfl⟩
    · simp only [hc, if_false] at h
      by_cases hf : (FrontendSetStateBody (oracle pass) target cur).Failed = true
      · simp only [hf, if_true, Option.some.injEq] at h
        subst h
        exact Or.inr ⟨hf, FrontendSetStateBody_failed _ _ _ hf⟩
      · simp only [hf] at h
        cases hl : FrontendSetStateLoop oracle target n (pass + 1)
            (FrontendSetStateBody (oracle pass) target cur).State with
        | none => simp [hl] at h
        | some r1 =>
          simp only [hl, Bool.false_eq_true, if_false, Option.some.injEq] at h
          subst h
          exact ih _ _ r1 hl

/-- Entered with the state equal to the target, `FrontendSetState` makes no
pass through its loop. -/
theorem FrontendSetState_at_target (fuel : Nat) (oracle : Nat → Bool)
    (X : XENVIF_FRONTEND_STATE) :
    FrontendSetState fuel oracle X X = some ⟨STATUS_SUCCESS, X, []⟩ := by
  unfold FrontendSetState
  unfold FrontendSetStateLoop
  simp

/-- C25 (amended): a second call `FrontendSetState(X)` made immediately after
a first call that returned `STATUS_SUCCESS` changes nothing: it returns
`STATUS_SUCCESS` again, leaves the state where the first call left it, and
executes no step at all, whatever its fuel and the outcomes on offer.  After a
first call that failed, the second call returns as well and begins with a
call of `FrontendPrepare`. -/
theorem FrontendSetState_twice (fuel : Nat) (oracle : Nat → Bool)
    (cur X : XENVIF_FRONTEND_STATE) (r : FrontendSetStateResult)
    (h1 : FrontendSetState fuel oracle cur X = some r) :
    (r.status = STATUS_SUCCESS →
      ∀ (fuel2 : Nat) (oracle2 : Nat → Bool),
        FrontendSetState fuel2 oracle2 r.State X = some ⟨STATUS_SUCCESS, r.State, []⟩) ∧
    (r.status ≠ STATUS_SUCCESS →
      ∀ oracle2 : Nat → Bool, ∃ r2 rest,
        FrontendSetState 4 oracle2 r.State X = some r2 ∧
        r2.Events = FrontendEvent.Prepare (oracle2 0) :: rest) := by
  unfold FrontendSetState at h1
  cases hl : FrontendSetStateLoop oracle X fuel 0 cur with
  | none => simp [hl] at h1
  | some s =>
    simp only [hl, Option.some.injEq] at h1
    subst h1
    rcases FrontendSetStateLoop_exit oracle X fuel 0 cur s hl with ⟨hf, hs⟩ | ⟨hf, hs⟩
    · refine ⟨fun _ fuel2 oracle2 => ?_, fun hne => absurd (by simp [hf]) hne⟩
      show FrontendSetState fuel2 oracle2 s.State X = _
      rw [hs]
      exact FrontendSetState_at_target fuel2 oracle2 X
    · refine ⟨fun heq => absurd heq (by simp [hf]), fun _ oracle2 => ?_⟩
      show ∃ r2 rest, FrontendSetState 4 oracle2 s.State X = some r2 ∧ _
      obtain ⟨r2, hr2, -⟩ :=
        FrontendSetStateLoop_spec oracle2 X 4 0 s.State (passesToTarget_le s.State X)
      obtain ⟨rest0, hhead⟩ := FrontendSetStateBody_head (oracle2 0) s.State X hs
      have hne : s.State ≠ X := by
        intro he
        rw [he] at hs
        revert hs
        cases X <;> decide
      have hev : ∃ rest, r2.Events = FrontendEvent.Prepare (oracle2 0) :: rest := by
        rw [FrontendSetStateLoop] at hr2
        simp only [hne, if_false] at hr2
        by_cases hf2 : (FrontendSetStateBody (oracle2 0) X s.State).Failed = true
        · simp only [hf2, if_true, Option.some.injEq] at hr2
          subst hr2
          exact ⟨rest0, hhead⟩
        · simp only [hf2] at hr2
          cases hl2 : FrontendSetStateLoop oracle2 X 3 (0 + 1)
              (FrontendSetStateBody (oracle2 0) X s.State).State with
          | none => simp [hl2] at hr2
          | some r3 =>
            simp only [hl2, Bool.false_eq_true, if_false, Option.some.injEq] at hr2
            subst hr2
            exact ⟨rest0 ++ r3.Events, by simp [hhead]⟩
      obtain ⟨rest, hrest⟩ := hev
      exact ⟨⟨if r2.Failed then STATUS_UNSUCCESSFUL else STATUS_SUCCESS, r2.State, r2.Events⟩,
        rest, by simp [FrontendSetState, hr2], hrest⟩

/-- C25 (witness): UNKNOWN to ENABLED with every step succeeding, then the
same call again. -/
theorem FrontendSetState_twice_witness :
    FrontendSetState 4 (fun _ => true) FRONTEND_ENABLED FRONTEND_ENABLED =
      some ⟨STATUS_SUCCESS, FRONTEND_ENABLED, []⟩ :=
  (FrontendSetState_twice 4 (fun _ => true) FRONTEND_UNKNOWN FRONTEND_ENABLED
    ⟨STATUS_SUCCESS, FRONTEND_ENABLED,
      [FrontendEvent.Prepare true, FrontendEvent.Assign FRONTEND_UNKNOWN FRONTEND_PREPARED,
       FrontendEvent.Connect true, FrontendEvent.Assign FRONTEND_PREPARED FRONTEND_CONNECTED,
       FrontendEvent.Enable true, FrontendEvent.Assign FRONTEND_CONNECTED FRONTEND_ENABLED]⟩
    (by decide)).1 rfl 4 (fun _ => true)

/-- C25 (counterexample): from UNKNOWN with target PREPARED, a first call in
which `FrontendPrepare` fails returns `STATUS_UNSUCCESSFUL` with the state
UNKNOWN; the second call runs `FrontendPrepare` again and, the step now
succeeding, returns `STATUS_SUCCESS` with the state PREPARED. -/
theorem FrontendSetState_retries_after_failure :
    FrontendSetState 4 (fun _ => false) FRONTEND_UNKNOWN FRONTEND_PREPARED =
      some ⟨STATUS_UNSUCCESSFUL, FRONTEND_UNKNOWN, [FrontendEvent.Prepare false]⟩ ∧
    FrontendSetState 4 (fun _ => true) FRONTEND_UNKNOWN FRONTEND_PREPARED =
      some ⟨STATUS_SUCCESS, FRONTEND_PREPARED,
        [FrontendEvent.Prepare true,
         FrontendEvent.Assign FRONTEND_UNKNOWN FRONTEND_PREPARED]⟩ := by
  constructor <;> decide

/-- The inner loop of `TransmitterQueuePackets` followed by the step after it
makes exactly the calls listed by `hashCalls`. -/
theorem TransmitterQueuePacketsInner_calls (Divisor : Nat) (Value : Nat → Nat)
    (hD : Divisor ≠ 0) :
    ∀ (L HashList : List Nat) (Index : Nat) (Ring : Nat → XENVIF_TRANSMITTER_RING),
    TransmitterQueuePacketsFlush
        (TransmitterQueuePacketsInner Divisor Value L HashList Index Ring) =
      QueueCalls (hashCalls (fun p => (Value p % Divisor) % 4294967296) L HashList Index)
        Ring := by
  intro L
  induction L with
  | nil =>
    intro HashList Index Ring
    rw [TransmitterQueuePacketsInner, hashCalls]
    by_cases hH : HashList = []
    · simp [TransmitterQueuePacketsFlush, QueueCalls, hH]
    · simp only [TransmitterQueuePacketsFlush, ne_eq, hH, not_false_eq_true, if_true,
        QueueCalls]
      try (cases __TransmitterRingQueuePackets (Ring Index) HashList <;> rfl)
  | cons P L ih =>
    intro HashList Index Ring
    rw [TransmitterQueuePacketsInner, hashCalls]
    simp only [hD, if_false]
    by_cases hh : (Value P % Divisor) % 4294967296 = Index
    · simp only [ne_eq, hh, not_true_eq_false, if_false]
      exact ih _ _ _
    · simp only [ne_eq, hh, not_false_eq_true, if_true]
      by_cases hH : HashList = []
      · simp only [hH, not_true_eq_false, if_false, List.nil_append]
        exact ih _ _ _
      · simp only [hH, not_false_eq_true, if_true, List.singleton_append, QueueCalls]
        cases hq : __TransmitterRingQueuePackets (Ring Index) HashList with
        | none => rfl
        | some R => exact ih _ _ _

/-- When a list has been gathered, the first call listed by `hashCalls` goes
to the current index. -/
theorem hashCalls_head (hash : Nat → Nat) :
    ∀ (L HashList : List Nat) (Index : Nat), HashList ≠ [] →
    ∃ c rest, hashCalls hash L HashList Index = c :: rest ∧ c.1 = Index := by
  intro L
  induction L with
  | nil =>
    intro HashList Index hH
    exact ⟨(Index, HashList), [], by simp [hashCalls, hH], rfl⟩
  | cons P L ih =>
    intro HashList Index hH
    rw [hashCalls]
    by_cases hh : hash P = Index
    · simp only [ne_eq, hh, not_true_eq_false, if_false]
      exact ih _ _ (by simp)
    · simp only [ne_eq, hh, not_false_eq_true, if_true, hH, List.singleton_append]
      exact ⟨_, _, rfl, rfl⟩

/-- The lists of the calls of `hashCalls`, in order, make up the gathered
packets followed by the remaining input; each call has a non-empty list
whose packets all hash to the index of the call; and successive calls go to
different indices. -/
theorem hashCalls_spec (hash : Nat → Nat) :
    ∀ (L HashList : List Nat) (Index : Nat), (∀ p ∈ HashList, hash p = Index) →
    ((hashCalls hash L HashList Index).map Prod.snd).flatten = HashList ++ L ∧
    (∀ c ∈ hashCalls hash L HashList Index, c.2 ≠ [] ∧ ∀ p ∈ c.2, hash p = c.1) ∧
    List.Chain' (fun a b : Nat × List Nat => a.1 ≠ b.1) (hashCalls hash L HashList Index) := by
  intro L
  induction L with
  | nil =>
    intro HashList Index hI
    rw [hashCalls]
    by_cases hH : HashList = []
    · simp [hH]
    · simp only [ne_eq, hH, not_false_eq_true, if_true, List.map_cons, List.map_nil,
        List.flatten_cons, List.flatten_nil, List.append_nil, List.mem_singleton, forall_eq,
        List.chain'_singleton, and_true, true_and]
      first
        | exact ⟨hH, hI⟩
        | exact hI
  | cons P L ih =>
    intro HashList Index hI
    rw [hashCalls]
    by_cases hh : hash P = Index
    · simp only [ne_eq, hh, not_true_eq_false, if_false]
      have h := ih (HashList ++ [P]) Index (by
        intro p hp
        rcases List.mem_append.mp hp with hp | hp
        · exact hI p hp
        · rw [List.mem_singleton.mp hp]; exact hh)
      refine ⟨?_, h.2.1, h.2.2⟩
      rw [h.1]; simp
    · have h := ih [P] (hash P) (by
        intro p hp; rw [List.mem_singleton.mp hp])
      by_cases hH : HashList = []
      · simp only [ne_eq, hh, not_false_eq_true, if_true, hH, not_true_eq_false, if_false,
          List.nil_append]
        exact ⟨by rw [h.1]; rfl, h.2.1, h.2.2⟩
      · simp only [ne_eq, hh, not_false_eq_true, if_true, hH, List.singleton_append]
        refine ⟨?_, ?_, ?_⟩
        · simp only [List.map_cons, List.flatten_cons, h.1]
          simp
        · intro c hc
          rcases List.mem_cons.mp hc with hc | hc
          · rw [hc]; exact ⟨hH, hI⟩
          · exact h.2.1 c hc
        · obtain ⟨c, rest, hc, hci⟩ := hashCalls_head hash L [P] (hash P) (by simp)
          rw [hc, List.chain'_cons]
          refine ⟨?_, ?_⟩
          · show Index ≠ c.1
            rw [hci]; exact fun e => hh e.symm
          · rw [← hc]; exact h.2.2

/-- When every call carries packets that hash to its own index, the lists
sent to one index, joined, are the packets of the whole sequence that hash to
that index, in order. -/
theorem calls_per_index (hash : Nat → Nat) (i : Nat) :
    ∀ calls : List (Nat × List Nat), (∀ c ∈ calls, ∀ p ∈ c.2, hash p = c.1) →
    ((calls.filter (fun c => decide (c.1 = i))).map Prod.snd).flatten =
      ((calls.map Prod.snd).flatten).filter (fun p => decide (hash p = i)) := by
  intro calls
  induction calls with
  | nil => intro _; rfl
  | cons c rest ih =>
    intro h
    have hr := ih (fun d hd => h d (List.mem_cons_of_mem _ hd))
    have hc := h c (List.mem_cons_self _ _)
    simp only [List.map_cons, List.flatten_cons, List.filter_append]
    by_cases hi : c.1 = i
    · have hall : c.2.filter (fun p => decide (hash p = i)) = c.2 := by
        rw [List.filter_eq_self]
        intro p hp; simp [hc p hp, hi]
      rw [List.filter_cons_of_pos (by simp [hi]), List.map_cons, List.flatten_cons, hr, hall]
    · have hnone : c.2.filter (fun p => decide (hash p = i)) = [] := by
        rw [List.filter_eq_nil_iff]
        intro p hp; simp [hc p hp, hi]
      rw [List.filter_cons_of_neg (by simp [hi]), hr, hnone, List.nil_append]

/-- A queue count above one, read as a `LONG`, is the same number as the
divisor of the hash, and is not zero. -/
theorem NumQueues_divisor (NumQueues : Nat) (hU : NumQueues < 4294967296)
    (hN : 1 < LONG_of_ULONG NumQueues) :
    ULONG_PTR_of_LONG (LONG_of_ULONG NumQueues) = NumQueues ∧ 1 < NumQueues ∧
      NumQueues < 2147483648 := by
  unfold LONG_of_ULONG at hN ⊢
  rw [Nat.mod_eq_of_lt hU] at hN ⊢
  by_cases h : NumQueues < 2147483648
  · rw [if_pos h] at hN ⊢
    refine ⟨?_, by omega, h⟩
    unfold ULONG_PTR_of_LONG
    omega
  · simp only [h, if_false] at hN
    omega

/-- C22: with more than one queue, `TransmitterQueuePackets` makes a sequence
of calls of `__TransmitterRingQueuePackets` and nothing else, and leaves the
caller's list empty.  The lists of the calls, in order, make up the input
list, so every packet is queued exactly once; each call carries a non-empty
list whose packets all have `Packet->Value % NumQueues` equal to the index of
the ring it is made on; successive calls go to different rings, so a call
carries a maximal run; and the packets queued on any one ring are, in order,
the packets of the input with that index. -/
theorem TransmitterQueuePackets_partitions (NumQueues : Nat) (Value : Nat → Nat)
    (Ring : Nat → XENVIF_TRANSMITTER_RING) (L : List Nat)
    (hU : NumQueues < 4294967296) (hN : 1 < LONG_of_ULONG NumQueues) :
    ∃ calls : List (Nat × List Nat),
      TransmitterQueuePackets NumQueues Value Ring L =
        (QueueCalls calls Ring).map (fun R => (R, [])) ∧
      (calls.map Prod.snd).flatten = L ∧
      (∀ c ∈ calls, c.2 ≠ [] ∧ ∀ p ∈ c.2, Value p % NumQueues = c.1) ∧
      List.Chain' (fun a b : Nat × List Nat => a.1 ≠ b.1) calls ∧
      ∀ i, ((calls.filter (fun c => decide (c.1 = i))).map Prod.snd).flatten =
        L.filter (fun p => decide (Value p % NumQueues = i)) := by
  obtain ⟨hD, h1, h2⟩ := NumQueues_divisor NumQueues hU hN
  have hne : LONG_of_ULONG NumQueues ≠ 1 := by omega
  have hmod : (fun p => (Value p % NumQueues) % 4294967296) = fun p => Value p % NumQueues := by
    funext p
    exact Nat.mod_eq_of_lt (lt_trans (Nat.mod_lt _ (by omega)) hU)
  obtain ⟨hj, hu, hc⟩ := hashCalls_spec (fun p => Value p % NumQueues) L [] 0
    (fun p hp => absurd hp (List.not_mem_nil p))
  refine ⟨hashCalls (fun p => Value p % NumQueues) L [] 0, ?_, by simpa using hj, hu, hc, ?_⟩
  · unfold TransmitterQueuePackets
    simp only [hne, if_false, hD]
    cases L with
    | nil => simp [hashCalls, QueueCalls]
    | cons P L =>
      simp only []
      rw [TransmitterQueuePacketsInner_calls NumQueues Value (by omega), hmod]
      cases QueueCalls (hashCalls (fun p => Value p % NumQueues) (P :: L) [] 0) Ring <;> rfl
  · intro i
    rw [calls_per_index (fun p => Value p % NumQueues) i _ (fun c hc => (hu c hc).2), hj]
    rfl

/-- C22 (witness): two queues and the packets 0, 2, 1 with `Value` equal to
the packet number, on two fresh rings. -/
theorem TransmitterQueuePackets_partitions_witness :
    ∃ calls : List (Nat × List Nat),
      TransmitterQueuePackets 2 (fun p => p) (fun _ => freshRing 100 1514 0 (fun _ => true))
          [0, 2, 1] =
        (QueueCalls calls (fun _ => freshRing 100 1514 0 (fun _ => true))).map
          (fun R => (R, [])) ∧
      (calls.map Prod.snd).flatten = [0, 2, 1] ∧
      (∀ c ∈ calls, c.2 ≠ [] ∧ ∀ p ∈ c.2, (fun p => p) p % 2 = c.1) ∧
      List.Chain' (fun a b : Nat × List Nat => a.1 ≠ b.1) calls ∧
      ∀ i, ((calls.filter (fun c => decide (c.1 = i))).map Prod.snd).flatten =
        [0, 2, 1].filter (fun p => decide ((fun p => p) p % 2 = i)) :=
  TransmitterQueuePackets_partitions 2 (fun p => p)
    (fun _ => freshRing 100 1514 0 (fun _ => true)) [0, 2, 1] (by decide) (by decide)

/-- C27: the queue count can be zero.  With four processors, a registry value
`FrontendMaxQueues` of 0, or a backend node `multi-queue-max-queues` of 0,
makes `NumQueues` zero, and `TransmitterQueuePackets` then divides by zero on
the first packet.  In general `NumQueues` never exceeds `MaxQueues`, and it is
zero exactly when the processor count, the registry value or the backend
value is zero. -/
theorem NumQueues_zero_divides :
    FrontendSetNumQueues (FrontendSetMaxQueues 4 (some 0)) none = 0 ∧
    FrontendSetNumQueues (FrontendSetMaxQueues 4 none) (some 0) = 0 ∧
    (∀ (Value : Nat → Nat) (Ring : Nat → XENVIF_TRANSMITTER_RING) (p : Nat) (L : List Nat),
      TransmitterQueuePackets 0 Value Ring (p :: L) = none) ∧
    (∀ (Processors : Nat) (Knob Node : Option Nat),
      FrontendSetNumQueues (FrontendSetMaxQueues Processors Knob) Node ≤
        FrontendSetMaxQueues Processors Knob) ∧
    (∀ (Processors : Nat) (Knob Node : Option Nat),
      FrontendSetNumQueues (FrontendSetMaxQueues Processors Knob) Node = 0 ↔
        Processors % 4294967296 = 0 ∨ (∃ v, Knob = some v ∧ v % 4294967296 = 0) ∨
        (∃ v, Node = some v ∧ v % 4294967296 = 0)) := by
  refine ⟨by decide, by decide, ?_, ?_, ?_⟩
  · intro Value Ring p L
    have h0 : LONG_of_ULONG 0 = 0 := by decide
    have h1 : ULONG_PTR_of_LONG 0 = 0 := by decide
    unfold TransmitterQueuePackets
    simp only [h0, h1]
    rw [TransmitterQueuePacketsInner]
    simp [TransmitterQueuePacketsFlush]
  · intro Processors Knob Node
    unfold FrontendSetNumQueues
    dsimp only
    split_ifs <;> omega
  · intro Processors Knob Node
    unfold FrontendSetNumQueues FrontendSetMaxQueues
    cases Knob <;> cases Node <;> dsimp only <;>
      simp only [Option.some.injEq, exists_eq_left', false_and, exists_false, or_false,
        false_or, reduceCtorEq] <;>
      split_ifs <;> constructor <;> intro h <;>
      first
        | omega
        | exact h.elim

/-- `__TransmitterRingUnprepareFragments` writes every field of `State`
except `StartVa` and `Info`: whatever the ring, on return `Packet` is `NULL`
and `Count` is zero, while `StartVa` and `Info` are what they were. -/
theorem UnprepareFragments_State (Ring : XENVIF_TRANSMITTER_RING) :
    (__TransmitterRingUnprepareFragments Ring).2.State.StartVa = Ring.State.StartVa ∧
    (__TransmitterRingUnprepareFragments Ring).2.State.Info = Ring.State.Info ∧
    (__TransmitterRingUnprepareFragments Ring).2.State.Packet = none ∧
    (__TransmitterRingUnprepareFragments Ring).2.State.Count = 0 := by
  obtain ⟨hf0, _⟩ := UnprepareFragmentsLoop_frame Ring.State.Count Ring
  obtain ⟨hf1, hz⟩ := UnprepareClearCount_spec (UnprepareFragmentsLoop Ring.State.Count Ring)
  have hf := hf1.trans hf0
  have hS := congrArg (fun R => R.State.StartVa) hf
  have hI := congrArg (fun R => R.State.Info) hf
  simp only [prepFrame] at hS hI
  unfold __TransmitterRingUnprepareFragments
  generalize UnprepareClearCount (UnprepareFragmentsLoop Ring.State.Count Ring) = R1 at *
  simp only []
  cases hP : R1.State.Packet with
  | none => exact ⟨hS, hI, hP, hz⟩
  | some Packet => exact ⟨hS, hI, rfl, hz⟩

/-- C28: `__TransmitterRingUnprepareFragments` does not always leave `State`
zero.  It never writes `State->StartVa` and `State->Info`.  Called with an
empty `State`, or with the single fragment of a control request, it leaves
`State` zero; called from `__TransmitterRingDisable` with a prepared packet
parked in `State`, or from `fail2` of `__TransmitterRingPreparePacket` after
the payload step has failed, it returns with `StartVa` set and the parsed
header lengths still in `Info`, so `State` is not zero. -/
theorem UnprepareFragments_leaves_StartVa :
    (∀ Ring : XENVIF_TRANSMITTER_RING,
      (__TransmitterRingUnprepareFragments Ring).2.State.StartVa = Ring.State.StartVa ∧
      (__TransmitterRingUnprepareFragments Ring).2.State.Info = Ring.State.Info) ∧
    (__TransmitterRingUnprepareFragments (freshRing 1000 1514 0 (fun _ => true))).2.State =
      XENVIF_TRANSMITTER_STATE.zero ∧
    (controlRing.State.Count = 1 ∧
      (__TransmitterRingUnprepareFragments controlRing).2.State =
        XENVIF_TRANSMITTER_STATE.zero) ∧
    (preparedRing.State.Packet = some 0 ∧
      (__TransmitterRingUnprepareFragments preparedRing).2.State.StartVa = true ∧
      (__TransmitterRingUnprepareFragments preparedRing).2.State.Info.Length = 14 ∧
      (__TransmitterRingUnprepareFragments preparedRing).2.State ≠
        XENVIF_TRANSMITTER_STATE.zero) ∧
    ((PreparePacketPayload
        (__TransmitterRingPrepareHeader (PreparePacketEnter payloadFailureRing 0)).2).1 =
        STATUS_NO_MEMORY ∧
      (__TransmitterRingUnprepareFragments payloadFailedRing).2.State.StartVa = true ∧
      (__TransmitterRingUnprepareFragments payloadFailedRing).2.State.Info.Length = 18 ∧
      (__TransmitterRingUnprepareFragments payloadFailedRing).2.State ≠
        XENVIF_TRANSMITTER_STATE.zero) := by
  refine ⟨fun Ring => ⟨(UnprepareFragments_State Ring).1, (UnprepareFragments_State Ring).2.1⟩,
    ?_, ?_, ?_, ?_⟩
  · decide
  · decide
  · have h1 : (__TransmitterRingUnprepareFragments preparedRing).2.State.StartVa = true := by
      rw [(UnprepareFragments_State preparedRing).1]; decide
    refine ⟨by decide, h1, ?_, ?_⟩
    · rw [(UnprepareFragments_State preparedRing).2.1]; decide
    · intro h
      rw [h] at h1
      exact absurd h1 (by decide)
  · have h1 : (__TransmitterRingUnprepareFragments payloadFailedRing).2.State.StartVa = true := by
      rw [(UnprepareFragments_State payloadFailedRing).1]; decide
    refine ⟨by decide, h1, ?_, ?_⟩
    · rw [(UnprepareFragments_State payloadFailedRing).2.1]; decide
    · intro h
      rw [h] at h1
      exact absurd h1 (by decide)

/-- When the initialisation of ring `K` is the first to fail, the loop of
`TransmitterInitialize` leaves with `Index == K` through `goto fail3`, having
filled the slots from `Index` up to `K - 1`. -/
theorem TransmitterInitializeLoop_fails (K MaxQueues : Nat) (hK : K < MaxQueues) :
    ∀ (fuel Index : Nat) (T : TransmitterRings), Index ≤ K → K < Index + fuel →
    TransmitterInitializeLoop (fun i => decide (i < K)) MaxQueues fuel Index T =
      (K, true, { T with Ring := fun i => if Index ≤ i ∧ i < K then some i else T.Ring i }) := by
  intro fuel
  induction fuel with
  | zero => intro Index T h1 h2; omega
  | succ n ih =>
    intro Index T h1 h2
    rw [TransmitterInitializeLoop]
    have hlt : Index < MaxQueues := by omega
    simp only [hlt, if_true]
    by_cases hI : Index < K
    · simp only [hI, decide_True, Bool.not_true, Bool.false_eq_true, if_false]
      rw [ih (Index + 1) _ (by omega) (by omega)]
      have hR : (fun i => if Index + 1 ≤ i ∧ i < K then some i
          else setAt T.Ring Index (some Index) i) =
          fun i => if Index ≤ i ∧ i < K then some i else T.Ring i := by
        funext i
        simp only [setAt]
        by_cases h3 : Index + 1 ≤ i ∧ i < K
        · rw [if_pos h3, if_pos ⟨by omega, h3.2⟩]
        · rw [if_neg h3]
          by_cases h4 : i = Index
          · rw [if_pos h4, if_pos ⟨by omega, by omega⟩, h4]
          · rw [if_neg h4, if_neg (by omega)]
      simp only [hR]
    · have hKI : Index = K := by omega
      simp only [hI, decide_False, Bool.not_false, if_true]
      have hR : (fun i => if Index ≤ i ∧ i < K then some i else T.Ring i) = T.Ring := by
        funext i
        rw [if_neg (by omega)]
      rw [hR, hKI]

/-- Entered with `Index`, the loop at `fail3` of `TransmitterInitialize`
clears the slots `Index - 1` down to 1 and tears the rings found there down;
slot 0 is not visited. -/
theorem TransmitterInitializeFail3_spec :
    ∀ (Index : Nat) (T : TransmitterRings), (∀ i, i < Index → T.Ring i = some i) →
    TransmitterInitializeFail3 Index T =
      { Ring := fun i => if 1 ≤ i ∧ i < Index then none else T.Ring i,
        TornDown := T.TornDown ++ (List.range' 1 (Index - 1)).reverse } := by
  intro Index
  induction Index with
  | zero =>
    intro T _
    rw [TransmitterInitializeFail3]
    simp
  | succ K ih =>
    intro T hT
    rw [TransmitterInitializeFail3]
    by_cases hK : K > 0
    · rw [if_pos hK, ih _ (by
        intro i hi
        show setAt T.Ring K none i = some i
        rw [setAt, if_neg (by omega)]
        exact hT i (by omega))]
      congr 1
      · funext i
        simp only [setAt]
        by_cases h1 : 1 ≤ i ∧ i < K
        · rw [if_pos h1, if_pos ⟨h1.1, by omega⟩]
        · rw [if_neg h1]
          by_cases h2 : i = K
          · rw [if_pos h2, if_pos ⟨by omega, by omega⟩]
          · rw [if_neg h2, if_neg (by omega)]
      · obtain ⟨j, rfl⟩ : ∃ j, K = j + 1 := ⟨K - 1, by omega⟩
        rw [hT (j + 1) (by omega)]
        simp only [Option.toList, Nat.add_sub_cancel, List.append_assoc]
        rw [List.range'_concat 1 j, List.reverse_append]
        simp [Nat.add_comm]
    · have h0 : K = 0 := by omega
      subst h0
      rw [if_neg hK]
      have hR : (fun i => if 1 ≤ i ∧ i < 0 + 1 then none else T.Ring i) = T.Ring := by
        funext i
        rw [if_neg (by omega)]
      rw [hR]
      simp

/-- C29: when `__TransmitterRingInitialize` fails for a ring other than the
first, ring 0 is neither torn down nor is its slot cleared.  With two rings
and a failure at ring 1 nothing at all is torn down.  In general, when ring
`k + 1` is the first to fail, the rings torn down are `k`, `k - 1`, ..., 1 in
this order, their slots are cleared, and slot 0 still holds ring 0. -/
theorem TransmitterInitialize_leaks_ring_zero :
    ((TransmitterInitialize (fun i => decide (i < 1)) 2).1 = STATUS_UNSUCCESSFUL ∧
      (TransmitterInitialize (fun i => decide (i < 1)) 2).2.Ring 0 = some 0 ∧
      (TransmitterInitialize (fun i => decide (i < 1)) 2).2.TornDown = []) ∧
    ∀ k m : Nat,
      (TransmitterInitialize (fun i => decide (i < k + 1)) (k + 2 + m)).1 =
        STATUS_UNSUCCESSFUL ∧
      (TransmitterInitialize (fun i => decide (i < k + 1)) (k + 2 + m)).2.Ring =
        (fun i => if i = 0 then some 0 else none) ∧
      (TransmitterInitialize (fun i => decide (i < k + 1)) (k + 2 + m)).2.TornDown =
        (List.range' 1 k).reverse ∧
      0 ∉ (TransmitterInitialize (fun i => decide (i < k + 1)) (k + 2 + m)).2.TornDown := by
  refine ⟨⟨by decide, by decide, by decide⟩, ?_⟩
  intro k m
  have hloop := TransmitterInitializeLoop_fails (k + 1) (k + 2 + m) (by omega)
    (k + 2 + m) 0 { Ring := fun _ => none, TornDown := [] } (by omega) (by omega)
  have hfail := TransmitterInitializeFail3_spec (k + 1)
    { Ring := fun i => if 0 ≤ i ∧ i < k + 1 then some i else none, TornDown := [] }
    (by intro i hi; simp [hi])
  have hres : TransmitterInitialize (fun i => decide (i < k + 1)) (k + 2 + m) =
      (STATUS_UNSUCCESSFUL,
        { Ring := fun i => if i = 0 then some 0 else none,
          TornDown := (List.range' 1 k).reverse }) := by
    unfold TransmitterInitialize
    rw [hloop]
    simp only []
    rw [hfail]
    have hR : (fun i => if 1 ≤ i ∧ i < k + 1 then none
        else (if 0 ≤ i ∧ i < k + 1 then some i else none)) =
        fun i => if i = 0 then some 0 else none := by
      funext i
      by_cases h1 : 1 ≤ i ∧ i < k + 1
      · rw [if_pos h1, if_neg (by omega)]
      · rw [if_neg h1]
        by_cases h2 : i = 0
        · rw [if_pos h2, if_pos ⟨by omega, by omega⟩, h2]
        · rw [if_neg h2, if_neg (by omega)]
    simp only [hR, List.nil_append, Nat.add_sub_cancel]
  rw [hres]
  refine ⟨rfl, rfl, rfl, ?_⟩
  simp

/-- Releasing the lock of a ring that is not enabled swizzles the stash and
does not run the scheduler: it returns, and `RequestQueue` and `Enabled` are
what they were. -/
theorem ReleaseLock_disabled_returns (Ring : XENVIF_TRANSMITTER_RING) (hE : Ring.Enabled = false) :
    ∃ R, __TransmitterRingReleaseLock Ring = some R ∧
      R.RequestQueue = Ring.RequestQueue ∧ R.Enabled = false := by
  have hq : (TransmitterRingSwizzle Ring).RequestQueue = Ring.RequestQueue := by
    unfold TransmitterRingSwizzle
    simp only []
    split
    · rfl
    · split_ifs <;> rfl
  have he : (TransmitterRingSwizzle Ring).Enabled = false := by
    rw [Swizzle_Enabled]; exact hE
  unfold __TransmitterRingReleaseLock TransmitterRingSchedule
  simp only [he, Bool.not_false, Bool.true_or, if_true]
  exact ⟨_, rfl, hq, rfl⟩

/-- C23: `__TransmitterRingQueueMulticastControl` (1) returns
`STATUS_NOT_SUPPORTED` and the ring untouched, lock word included, whenever
`Transmitter->MulticastControl` is false, whether the ring is enabled or not;
(2) otherwise, on a ring that is not enabled, returns `STATUS_UNSUCCESSFUL`
with `RequestQueue` unchanged; (3) otherwise, when a request can be allocated,
returns `STATUS_SUCCESS` after inserting exactly one `MULTICAST_CONTROL`
request with the given address and `Add` flag at the tail of `RequestQueue`:
the ring it hands to `__TransmitterRingReleaseLock` is the locked ring with
that one request appended. -/
theorem QueueMulticastControl_outcomes (Ring : XENVIF_TRANSMITTER_RING)
    (Address : List Nat) (Add : Bool) :
    __TransmitterRingQueueMulticastControl false Ring Address Add =
      (STATUS_NOT_SUPPORTED, some Ring) ∧
    (Ring.Enabled = false →
      ∃ R, __TransmitterRingQueueMulticastControl true Ring Address Add =
          (STATUS_UNSUCCESSFUL, some R) ∧
        R.RequestQueue = Ring.RequestQueue) ∧
    (Ring.Enabled = true → Ring.Oracle Ring.Tick = true →
      __TransmitterRingQueueMulticastControl true Ring Address Add =
        (STATUS_SUCCESS,
          __TransmitterRingReleaseLock
            { __TransmitterRingAcquireLock Ring with
              Tick := Ring.Tick + 1
              RequestQueue := Ring.RequestQueue ++
                [XENVIF_TRANSMITTER_REQUEST.MULTICAST_CONTROL Address Add] })) := by
  refine ⟨rfl, ?_, ?_⟩
  · intro hE
    obtain ⟨R, hR, hq, -⟩ := ReleaseLock_disabled_returns (__TransmitterRingAcquireLock Ring) hE
    refine ⟨R, ?_, hq⟩
    unfold __TransmitterRingQueueMulticastControl
    have hE2 : (__TransmitterRingAcquireLock Ring).Enabled = false := hE
    simp only [Bool.not_true, Bool.false_eq_true, if_false, hE2, Bool.not_false, if_true, hR]
  · intro hE hO
    unfold __TransmitterRingQueueMulticastControl
    have hE2 : (__TransmitterRingAcquireLock Ring).Enabled = true := hE
    have hG : __TransmitterGetRequest (__TransmitterRingAcquireLock Ring) =
        (true, { __TransmitterRingAcquireLock Ring with Tick := Ring.Tick + 1 }) := by
      unfold __TransmitterGetRequest
      have hO2 : (__TransmitterRingAcquireLock Ring).Oracle
          (__TransmitterRingAcquireLock Ring).Tick = true := hO
      rw [hO2]
      rfl
    simp only [Bool.not_true, Bool.false_eq_true, if_false, hE2, hG]
    rfl

/-- C23 (witness): a fresh ring, which is enabled and on which every
allocation succeeds, and the same ring with `Enabled` cleared. -/
theorem QueueMulticastControl_outcomes_witness :
    (∃ R, __TransmitterRingQueueMulticastControl true
          { freshRing 1000 1514 0 (fun _ => true) with Enabled := false } [1, 0, 94, 0, 0, 1]
          true = (STATUS_UNSUCCESSFUL, some R) ∧
        R.RequestQueue = []) ∧
    __TransmitterRingQueueMulticastControl true (freshRing 1000 1514 0 (fun _ => true))
        [1, 0, 94, 0, 0, 1] true =
      (STATUS_SUCCESS,
        __TransmitterRingReleaseLock
          { __TransmitterRingAcquireLock (freshRing 1000 1514 0 (fun _ => true)) with
            Tick := (freshRing 1000 1514 0 (fun _ => true)).Tick + 1
            RequestQueue := (freshRing 1000 1514 0 (fun _ => true)).RequestQueue ++
              [XENVIF_TRANSMITTER_REQUEST.MULTICAST_CONTROL [1, 0, 94, 0, 0, 1] true] }) :=
  ⟨(QueueMulticastControl_outcomes
      { freshRing 1000 1514 0 (fun _ => true) with Enabled := false }
      [1, 0, 94, 0, 0, 1] true).2.1 rfl,
   (QueueMulticastControl_outcomes (freshRing 1000 1514 0 (fun _ => true))
      [1, 0, 94, 0, 0, 1] true).2.2 rfl rfl⟩

/-- A handshake loop entered with the target state returns at once. -/
theorem FrontendHandshakeLoop_at_target
    (Reaction : Bool → Nat → XENVIF_FRONTEND → XENVIF_FRONTEND) (Target : Nat)
    (Backend : BackendTrace) (fuel i : Nat) (F : XENVIF_FRONTEND) :
    FrontendHandshakeLoop Reaction Target Backend fuel i Target F = some (Target, F) := by
  unfold FrontendHandshakeLoop
  simp

/-- A handshake loop entered offline returns at once. -/
theorem FrontendHandshakeLoop_offline
    (Reaction : Bool → Nat → XENVIF_FRONTEND → XENVIF_FRONTEND) (Target : Nat)
    (Backend : BackendTrace) (fuel i State : Nat) (F : XENVIF_FRONTEND)
    (hF : F.Online = false) :
    FrontendHandshakeLoop Reaction Target Backend fuel i State F = some (State, F) := by
  unfold FrontendHandshakeLoop
  by_cases h : State = Target
  · simp [h]
  · simp [h, hF]

/-- A pass of a handshake loop made online and short of the target waits for
the backend and reacts to the state it then sees. -/
theorem FrontendHandshakeLoop_pass
    (Reaction : Bool → Nat → XENVIF_FRONTEND → XENVIF_FRONTEND) (Target : Nat)
    (Backend : BackendTrace) (fuel i State : Nat) (F : XENVIF_FRONTEND)
    (hS : State ≠ Target) (hF : F.Online = true) :
    FrontendHandshakeLoop Reaction Target Backend (fuel + 1) i State F =
      FrontendHandshakeLoop Reaction Target Backend fuel (i + 1) (Backend.State i)
        (Reaction (Backend.Online i) (Backend.State i)
          (FrontendAssertion F FrontendAssert.IsOnline true)) := by
  rw [FrontendHandshakeLoop]
  simp only [hS, if_false, hF, Bool.true_eq_false]

/-- C24: the reactions of the three handshake loops.  A pass made online and
short of the target reacts to the state seen by the `switch` of its loop.  In
`FrontendPrepare`, Closed publishes Initialising, Closing publishes Closed,
and InitWait changes nothing and stops the loop.  In `FrontendConnect`,
InitWait and Initialised publish Connected, Closing publishes Closed, and
Connected changes nothing and stops the loop.  In `FrontendClose`, Connected
and InitWait publish Closing, Closing publishes Closed, and Closed changes
nothing and stops the loop.  In all three, Unknown sets the frontend offline
and publishes nothing, and the loop then ends at its next test, with nothing
further done. -/
theorem Handshake_reactions (b : Bool) (F : XENVIF_FRONTEND) (Backend : BackendTrace)
    (fuel i : Nat) :
    (∀ (Reaction : Bool → Nat → XENVIF_FRONTEND → XENVIF_FRONTEND) (Target State : Nat),
      State ≠ Target → F.Online = true →
      FrontendHandshakeLoop Reaction Target Backend (fuel + 1) i State F =
        FrontendHandshakeLoop Reaction Target Backend fuel (i + 1) (Backend.State i)
          (Reaction (Backend.Online i) (Backend.State i)
            (FrontendAssertion F FrontendAssert.IsOnline true))) ∧
    ((FrontendPrepareReaction b XenbusStateClosed F).Published =
        F.Published ++ [XenbusStateInitialising] ∧
      (FrontendPrepareReaction b XenbusStateClosing F).Published =
        F.Published ++ [XenbusStateClosed] ∧
      FrontendPrepareReaction b XenbusStateInitWait F = F ∧
      FrontendHandshakeLoop FrontendPrepareReaction XenbusStateInitWait Backend fuel i
        XenbusStateInitWait F = some (XenbusStateInitWait, F)) ∧
    ((FrontendConnectReaction b XenbusStateInitWait F).Published =
        F.Published ++ [XenbusStateConnected] ∧
      (FrontendConnectReaction b XenbusStateInitialised F).Published =
        F.Published ++ [XenbusStateConnected] ∧
      (FrontendConnectReaction b XenbusStateClosing F).Published =
        F.Published ++ [XenbusStateClosed] ∧
      FrontendConnectReaction b XenbusStateConnected F = F ∧
      FrontendHandshakeLoop FrontendConnectReaction XenbusStateConnected Backend fuel i
        XenbusStateConnected F = some (XenbusStateConnected, F)) ∧
    ((FrontendCloseReaction b XenbusStateConnected F).Published =
        F.Published ++ [XenbusStateClosing] ∧
      (FrontendCloseReaction b XenbusStateInitWait F).Published =
        F.Published ++ [XenbusStateClosing] ∧
      (FrontendCloseReaction b XenbusStateClosing F).Published =
        F.Published ++ [XenbusStateClosed] ∧
      FrontendCloseReaction b XenbusStateClosed F = F ∧
      FrontendHandshakeLoop FrontendCloseReaction XenbusStateClosed Backend fuel i
        XenbusStateClosed F = some (XenbusStateClosed, F)) ∧
    (FrontendPrepareReaction b XenbusStateUnknown F = { F with Online := false } ∧
      FrontendConnectReaction b XenbusStateUnknown F = { F with Online := false } ∧
      FrontendCloseReaction b XenbusStateUnknown F = { F with Online := false } ∧
      FrontendHandshakeLoop FrontendPrepareReaction XenbusStateInitWait Backend fuel i
        XenbusStateUnknown { F with Online := false } =
          some (XenbusStateUnknown, { F with Online := false }) ∧
      FrontendHandshakeLoop FrontendConnectReaction XenbusStateConnected Backend fuel i
        XenbusStateUnknown { F with Online := false } =
          some (XenbusStateUnknown, { F with Online := false }) ∧
      FrontendHandshakeLoop FrontendCloseReaction XenbusStateClosed Backend fuel i
        XenbusStateUnknown { F with Online := false } =
          some (XenbusStateUnknown, { F with Online := false })) := by
  refine ⟨fun Reaction Target State hS hF =>
      FrontendHandshakeLoop_pass Reaction Target Backend fuel i State F hS hF,
    ⟨?_, ?_, ?_, FrontendHandshakeLoop_at_target _ _ _ _ _ _⟩,
    ⟨?_, ?_, ?_, ?_, FrontendHandshakeLoop_at_target _ _ _ _ _ _⟩,
    ⟨?_, ?_, ?_, ?_, FrontendHandshakeLoop_at_target _ _ _ _ _ _⟩,
    ⟨rfl, rfl, rfl, FrontendHandshakeLoop_offline _ _ _ _ _ _ _ rfl,
      FrontendHandshakeLoop_offline _ _ _ _ _ _ _ rfl,
      FrontendHandshakeLoop_offline _ _ _ _ _ _ _ rfl⟩⟩
  all_goals
    simp only [FrontendPrepareReaction, FrontendConnectReaction, FrontendCloseReaction,
      FrontendSetXenbusState, FrontendSetOffline, FrontendAssertion, XenbusStateUnknown,
      XenbusStateInitialising, XenbusStateInitWait, XenbusStateInitialised,
      XenbusStateConnected, XenbusStateClosing, XenbusStateClosed]
    try (cases b <;> simp)

/-- C24 (witness): a pass of the loop of `FrontendClose` on the frontend as
initialised, which is online, with the backend seen Closing. -/
theorem Handshake_reactions_witness :
    FrontendHandshakeLoop FrontendCloseReaction XenbusStateClosed
        (traceOf [XenbusStateClosing, XenbusStateClosed]) (1 + 1) 0 XenbusStateUnknown
        initialFrontend =
      FrontendHandshakeLoop FrontendCloseReaction XenbusStateClosed
        (traceOf [XenbusStateClosing, XenbusStateClosed]) 1 (0 + 1)
        ((traceOf [XenbusStateClosing, XenbusStateClosed]).State 0)
        (FrontendCloseReaction ((traceOf [XenbusStateClosing, XenbusStateClosed]).Online 0)
          ((traceOf [XenbusStateClosing, XenbusStateClosed]).State 0)
          (FrontendAssertion initialFrontend FrontendAssert.IsOnline true)) :=
  (Handshake_reactions true initialFrontend (traceOf [XenbusStateClosing, XenbusStateClosed])
    1 0).1 FrontendCloseReaction XenbusStateClosed XenbusStateUnknown (by decide) rfl

theorem SameBackend_refl (F : XENVIF_FRONTEND) : SameBackend F F :=
  ⟨rfl, rfl, rfl, rfl, [], by simp, by simp⟩

theorem SameBackend_trans {F G H : XENVIF_FRONTEND} (h1 : SameBackend F G)
    (h2 : SameBackend G H) : SameBackend F H := by
  obtain ⟨a1, a2, a3, a4, e1, a5, a6⟩ := h1
  obtain ⟨b1, b2, b3, b4, e2, b5, b6⟩ := h2
  refine ⟨b1.trans a1, b2.trans a2, b3.trans a3, b4.trans a4, e1 ++ e2, ?_, ?_⟩
  · rw [b5, a5, List.append_assoc]
  · intro a ha
    rcases List.mem_append.mp ha with ha | ha
    · exact a6 a ha
    · exact b6 a ha

theorem SameBackend_IsOnline (F : XENVIF_FRONTEND) (ok : Bool) :
    SameBackend F (FrontendAssertion F FrontendAssert.IsOnline ok) :=
  ⟨rfl, rfl, rfl, rfl, [(FrontendAssert.IsOnline, ok)], rfl, by simp⟩

theorem SameBackend_Unexpected (F : XENVIF_FRONTEND) (ok : Bool) :
    SameBackend F (FrontendAssertion F FrontendAssert.Unexpected ok) :=
  ⟨rfl, rfl, rfl, rfl, [(FrontendAssert.Unexpected, ok)], rfl, by simp⟩

theorem SameBackend_SetOffline (F : XENVIF_FRONTEND) : SameBackend F (FrontendSetOffline F) :=
  ⟨rfl, rfl, rfl, rfl, [], by simp [FrontendSetOffline], by simp⟩

theorem SameBackend_SetXenbusState (b : Bool) (F : XENVIF_FRONTEND) (State : Nat) :
    SameBackend F (FrontendSetXenbusState b F State) := by
  unfold FrontendSetXenbusState
  simp only []
  split_ifs
  · exact ⟨rfl, rfl, rfl, rfl, [(FrontendAssert.IsOnline, F.Online)], rfl, by simp⟩
  · exact ⟨rfl, rfl, rfl, rfl, [(FrontendAssert.IsOnline, F.Online)], rfl, by simp⟩

theorem SameBackend_PrepareReaction (b : Bool) (State : Nat) (F : XENVIF_FRONTEND) :
    SameBackend F (FrontendPrepareReaction b State F) := by
  unfold FrontendPrepareReaction
  split_ifs
  · exact SameBackend_SetOffline F
  · exact SameBackend_SetXenbusState _ _ _
  · exact SameBackend_SetXenbusState _ _ _
  · exact SameBackend_refl F
  · exact SameBackend_Unexpected F false

theorem SameBackend_ConnectReaction (b : Bool) (State : Nat) (F : XENVIF_FRONTEND) :
    SameBackend F (FrontendConnectReaction b State F) := by
  unfold FrontendConnectReaction
  split_ifs
  · exact SameBackend_SetOffline F
  · exact SameBackend_SetXenbusState _ _ _
  · exact SameBackend_SetXenbusState _ _ _
  · exact SameBackend_refl F
  · exact SameBackend_Unexpected F false

theorem SameBackend_CloseReaction (b : Bool) (State : Nat) (F : XENVIF_FRONTEND) :
    SameBackend F (FrontendCloseReaction b State F) := by
  unfold FrontendCloseReaction
  split_ifs
  · exact SameBackend_SetOffline F
  · exact SameBackend_SetXenbusState _ _ _
  · exact SameBackend_SetXenbusState _ _ _
  · exact SameBackend_refl F
  · exact SameBackend_Unexpected F false

/-- A handshake loop writes none of `State`, `BackendPath`, `BackendDomain`
and `Watch`, and evaluates none of the assertions of `FrontendClose` and
`FrontendReleaseBackend`. -/
theorem FrontendHandshakeLoop_SameBackend
    (Reaction : Bool → Nat → XENVIF_FRONTEND → XENVIF_FRONTEND) (Target : Nat)
    (Backend : BackendTrace)
    (hR : ∀ b State F, SameBackend F (Reaction b State F)) :
    ∀ (fuel i State : Nat) (F : XENVIF_FRONTEND) (r : Nat × XENVIF_FRONTEND),
    FrontendHandshakeLoop Reaction Target Backend fuel i State F = some r →
    SameBackend F r.2 := by
  intro fuel
  induction fuel with
  | zero =>
    intro i State F r h
    unfold FrontendHandshakeLoop at h
    by_cases h1 : State = Target
    · simp only [h1, if_true, Option.some.injEq] at h
      subst h; exact SameBackend_refl F
    · by_cases h2 : F.Online = false
      · simp only [h1, if_false, h2, if_true, Option.some.injEq] at h
        subst h; exact SameBackend_refl F
      · simp [h1, h2] at h
  | succ n ih =>
    intro i State F r h
    rw [FrontendHandshakeLoop] at h
    by_cases h1 : State = Target
    · simp only [h1, if_true, Option.some.injEq] at h
      subst h; exact SameBackend_refl F
    · by_cases h2 : F.Online = false
      · simp only [h1, if_false, h2, if_true, Option.some.injEq] at h
        subst h; exact SameBackend_refl F
      · have hon : F.Online = true := by simpa using h2
        rw [← FrontendHandshakeLoop] at h
        rw [FrontendHandshakeLoop_pass _ _ _ _ _ _ _ h1 hon] at h
        exact SameBackend_trans
          (SameBackend_trans (SameBackend_IsOnline F true) (hR _ _ _)) (ih _ _ _ _ h)

/-- A handshake loop ends when the backend is seen in the target state or in
`XenbusStateUnknown` before the fuel runs out. -/
theorem FrontendHandshakeLoop_returns
    (Reaction : Bool → Nat → XENVIF_FRONTEND → XENVIF_FRONTEND) (Target : Nat)
    (Backend : BackendTrace)
    (hU : ∀ b F, (Reaction b XenbusStateUnknown F).Online = false) :
    ∀ (fuel i State : Nat) (F : XENVIF_FRONTEND),
    (∃ j, i ≤ j ∧ j < i + fuel ∧
      (Backend.State j = Target ∨ Backend.State j = XenbusStateUnknown)) →
    ∃ r, FrontendHandshakeLoop Reaction Target Backend fuel i State F = some r := by
  intro fuel
  induction fuel with
  | zero =>
    intro i State F h
    obtain ⟨j, h1, h2, _⟩ := h
    omega
  | succ n ih =>
    intro i State F h
    by_cases h1 : State = Target
    · exact ⟨_, by rw [h1]; exact FrontendHandshakeLoop_at_target _ _ _ _ _ _⟩
    · by_cases h2 : F.Online = false
      · exact ⟨_, FrontendHandshakeLoop_offline _ _ _ _ _ _ _ h2⟩
      · rw [FrontendHandshakeLoop_pass _ _ _ _ _ _ _ h1 (by simpa using h2)]
        obtain ⟨j, hj1, hj2, hj3⟩ := h
        by_cases hji : j = i
        · subst hji
          rcases hj3 with hT | hUn
          · exact ⟨_, by rw [hT]; exact FrontendHandshakeLoop_at_target _ _ _ _ _ _⟩
          · exact ⟨_, FrontendHandshakeLoop_offline _ _ _ _ _ _ _ (by rw [hUn]; exact hU _ _)⟩
        · exact ih _ _ _ ⟨j, by omega, by omega, hj3⟩

theorem ReleaseAssertsHold_SameBackend {F G : XENVIF_FRONTEND} (h : SameBackend F G)
    (hA : ReleaseAssertsHold F) : ReleaseAssertsHold G := by
  obtain ⟨_, _, _, _, extra, he, hx⟩ := h
  intro a ha hk
  rw [he] at ha
  rcases List.mem_append.mp ha with ha | ha
  · exact hA a ha hk
  · rcases hx a ha with h1 | h1 <;> rw [h1] at hk <;> simp at hk

theorem BackendHeld_SameBackend {F G : XENVIF_FRONTEND} (h : SameBackend F G) :
    BackendHeld G = BackendHeld F := by
  obtain ⟨_, h2, h3, h4, _⟩ := h
  unfold BackendHeld
  rw [h2, h3, h4]

theorem ReleaseAssertsHold_assert {F : XENVIF_FRONTEND} (hA : ReleaseAssertsHold F)
    (a : FrontendAssert) : ReleaseAssertsHold (FrontendAssertion F a true) := by
  intro x hx hk
  rcases List.mem_append.mp hx with hx | hx
  · exact hA x hx hk
  · rw [List.mem_singleton.mp hx]

/-- `FrontendReleaseBackend` on a frontend that holds a backend path and a
valid backend domain: its assertions hold, and afterwards the backend is not
held. -/
theorem FrontendReleaseBackend_spec (F : XENVIF_FRONTEND) (hA : ReleaseAssertsHold F)
    (hP : F.BackendPath.isSome = true) (hD : F.BackendDomain ≠ DOMID_INVALID) :
    (FrontendReleaseBackend F).State = F.State ∧
    ReleaseAssertsHold (FrontendReleaseBackend F) ∧
    BackendHeld (FrontendReleaseBackend F) = false := by
  refine ⟨rfl, ?_, ?_⟩
  · unfold FrontendReleaseBackend
    simp only []
    have h1 : decide (F.BackendDomain ≠ DOMID_INVALID) = true := by simpa using hD
    have h2 : (FrontendAssertion F FrontendAssert.BackendDomainValid
        (decide (F.BackendDomain ≠ DOMID_INVALID))).BackendPath.isSome = true := hP
    rw [h2, h1]
    exact ReleaseAssertsHold_assert (ReleaseAssertsHold_assert hA _) _
  · simp [BackendHeld, FrontendReleaseBackend]

/-- `FrontendClose` on a frontend that holds the backend: its assertions and
those of `FrontendReleaseBackend` hold, and afterwards the backend is not
held. -/
theorem FrontendClose_spec (fuel : Nat) (env : FrontendEnv) (F G : XENVIF_FRONTEND)
    (hA : ReleaseAssertsHold F) (hH : BackendHeld F = true)
    (h : FrontendClose fuel env F = some G) :
    G.State = F.State ∧ ReleaseAssertsHold G ∧ BackendHeld G = false := by
  unfold BackendHeld at hH
  simp only [Bool.and_eq_true, decide_eq_true_eq] at hH
  obtain ⟨⟨hP, hD⟩, hW⟩ := hH
  unfold FrontendClose at h
  simp only [] at h
  rw [hW] at h
  cases hl : FrontendHandshakeLoop FrontendCloseReaction XenbusStateClosed env.CloseWait fuel 0
      XenbusStateUnknown
      { FrontendAssertion F FrontendAssert.WatchNotNull true with Watch := none } with
  | none => simp [hl] at h
  | some r =>
    simp only [hl, Option.some.injEq] at h
    have hs := FrontendHandshakeLoop_SameBackend _ _ _ SameBackend_CloseReaction _ _ _ _ _ hl
    have hA1 : ReleaseAssertsHold
        { FrontendAssertion F FrontendAssert.WatchNotNull true with Watch := none } :=
      ReleaseAssertsHold_assert hA _
    have hA2 := ReleaseAssertsHold_SameBackend hs hA1
    obtain ⟨s1, s2, s3, _, _⟩ := hs
    have hrel := FrontendReleaseBackend_spec r.2 hA2 (by rw [s2]; exact hP)
      (by rw [s3]; exact hD)
    rw [← h]
    exact ⟨hrel.1.trans s1, hrel.2.1, hrel.2.2⟩

/-- `FrontendClose` returns when its handshake loop settles. -/
theorem FrontendClose_returns (fuel : Nat) (env : FrontendEnv) (F : XENVIF_FRONTEND)
    (hS : Settles XenbusStateClosed env.CloseWait fuel) :
    ∃ G, FrontendClose fuel env F = some G := by
  obtain ⟨j, hj, hj2⟩ := hS
  obtain ⟨r, hr⟩ := FrontendHandshakeLoop_returns FrontendCloseReaction XenbusStateClosed
    env.CloseWait (fun _ _ => rfl) fuel 0 XenbusStateUnknown
    { FrontendAssertion F FrontendAssert.WatchNotNull F.Watch.isSome with Watch := none }
    ⟨j, by omega, by omega, hj2⟩
  unfold FrontendClose
  simp only [hr]
  exact ⟨_, rfl⟩

/-- `FrontendPrepare` entered without the backend held, when the backend id
it reads is valid: the assertions of `FrontendReleaseBackend` hold wherever
it is reached, and on return the backend is held exactly when the status is
a success. -/
theorem FrontendPrepare_spec (fuel : Nat) (env : FrontendEnv) (F G : XENVIF_FRONTEND)
    (ok : Bool) (hA : ReleaseAssertsHold F) (hH : BackendHeld F = false)
    (hid : ValidBackendId env) (h : FrontendPrepare fuel env F = some (ok, G)) :
    G.State = F.State ∧ ReleaseAssertsHold G ∧ BackendHeld G = ok := by
  unfold FrontendPrepare at h
  by_cases h1 : env.StoreAcquire = false
  · simp only [h1, if_true, Option.some.injEq, Prod.mk.injEq] at h
    obtain ⟨e1, e2⟩ := h
    subst e1; subst e2
    exact ⟨rfl, hA, hH⟩
  · rw [if_neg h1] at h
    unfold FrontendAcquireBackend at h
    cases hb : env.backend with
    | none =>
      simp only [hb, Option.some.injEq, Prod.mk.injEq] at h
      obtain ⟨e1, e2⟩ := h
      subst e1; subst e2
      exact ⟨rfl, hA, hH⟩
    | some Buffer =>
      have key : ∀ D : Nat, D ≠ DOMID_INVALID →
          (match FrontendHandshakeLoop FrontendPrepareReaction XenbusStateInitWait
              env.PrepareWait fuel 0 XenbusStateUnknown
              { FrontendSetOnline F with BackendPath := some Buffer, BackendDomain := D } with
            | none => none
            | some (State, F) =>
              if State ≠ XenbusStateInitWait then
                some (false, FrontendSetOffline (FrontendReleaseBackend F))
              else
                match env.WatchAdd with
                | none => some (false, FrontendSetOffline (FrontendReleaseBackend F))
                | some Watch => some (true, { F with Watch := some Watch })) = some (ok, G) →
          G.State = F.State ∧ ReleaseAssertsHold G ∧ BackendHeld G = ok := by
        intro D hD hk
        cases hl : FrontendHandshakeLoop FrontendPrepareReaction XenbusStateInitWait
            env.PrepareWait fuel 0 XenbusStateUnknown
            { FrontendSetOnline F with BackendPath := some Buffer, BackendDomain := D } with
        | none => simp [hl] at hk
        | some r =>
          obtain ⟨S, F1⟩ := r
          simp only [hl] at hk
          have hs := FrontendHandshakeLoop_SameBackend _ _ _ SameBackend_PrepareReaction
            _ _ _ _ _ hl
          have hA2 : ReleaseAssertsHold F1 := ReleaseAssertsHold_SameBackend hs hA
          obtain ⟨s1, s2, s3, _, _⟩ := hs
          have s1 : F1.State = F.State := s1
          have s2 : F1.BackendPath = some Buffer := s2
          have s3 : F1.BackendDomain = D := s3
          have hrel := FrontendReleaseBackend_spec F1 hA2 (by rw [s2]; rfl)
            (by rw [s3]; exact hD)
          have hfail : G = FrontendSetOffline (FrontendReleaseBackend F1) → ok = false →
              G.State = F.State ∧ ReleaseAssertsHold G ∧ BackendHeld G = ok := by
            intro e1 e2
            subst e1; subst e2
            exact ⟨hrel.1.trans s1, hrel.2.1, hrel.2.2⟩
          by_cases hS : S = XenbusStateInitWait
          · simp only [hS, ne_eq, not_true_eq_false, if_false] at hk
            cases hw : env.WatchAdd with
            | none =>
              simp only [hw, Option.some.injEq, Prod.mk.injEq] at hk
              exact hfail hk.2.symm hk.1.symm
            | some Watch =>
              simp only [hw, Option.some.injEq, Prod.mk.injEq] at hk
              obtain ⟨e1, e2⟩ := hk
              subst e1; subst e2
              refine ⟨s1, hA2, ?_⟩
              simp [BackendHeld, s2, s3, hD]
          · simp only [ne_eq, hS, not_false_eq_true, if_true, Option.some.injEq,
              Prod.mk.injEq] at hk
            exact hfail hk.2.symm hk.1.symm
      cases hi : env.backend_id with
      | none =>
        simp only [hb, hi] at h
        exact key 0 (by decide) h
      | some v =>
        simp only [hb, hi] at h
        exact key (v % 65536).toNat (hid v hi) h

/-- `FrontendPrepare` returns when its handshake loop settles. -/
theorem FrontendPrepare_returns (fuel : Nat) (env : FrontendEnv) (F : XENVIF_FRONTEND)
    (hS : Settles XenbusStateInitWait env.PrepareWait fuel) :
    ∃ r, FrontendPrepare fuel env F = some r := by
  obtain ⟨j, hj, hj2⟩ := hS
  have hl := fun F0 => FrontendHandshakeLoop_returns FrontendPrepareReaction
    XenbusStateInitWait env.PrepareWait (fun _ _ => rfl) fuel 0 XenbusStateUnknown F0
    ⟨j, by omega, by omega, hj2⟩
  unfold FrontendPrepare
  by_cases h1 : env.StoreAcquire = false
  · rw [if_pos h1]
    exact ⟨_, rfl⟩
  · rw [if_neg h1]
    unfold FrontendAcquireBackend
    have key : ∀ F0 : XENVIF_FRONTEND, ∃ r,
        (match FrontendHandshakeLoop FrontendPrepareReaction XenbusStateInitWait
            env.PrepareWait fuel 0 XenbusStateUnknown F0 with
          | none => none
          | some (State, F) =>
            if State ≠ XenbusStateInitWait then
              some (false, FrontendSetOffline (FrontendReleaseBackend F))
            else
              match env.WatchAdd with
              | none => some (false, FrontendSetOffline (FrontendReleaseBackend F))
              | some Watch => some (true, { F with Watch := some Watch })) = some r := by
      intro F0
      obtain ⟨r, hr⟩ := hl F0
      rw [hr]
      obtain ⟨S, F1⟩ := r
      simp only []
      by_cases hS : S = XenbusStateInitWait
      · rw [if_neg (by simpa using hS)]
        cases env.WatchAdd <;> exact ⟨_, rfl⟩
      · rw [if_pos hS]
        exact ⟨_, rfl⟩
    cases hb : env.backend with
    | none => exact ⟨_, rfl⟩
    | some Buffer =>
      cases hi : env.backend_id with
      | none => exact key _
      | some v => exact key _

/-- `FrontendConnect` writes none of the fields that make up the hold on the
backend. -/
theorem FrontendConnect_spec (fuel : Nat) (env : FrontendEnv) (F G : XENVIF_FRONTEND)
    (ok : Bool) (h : FrontendConnect fuel env F = some (ok, G)) : SameBackend F G := by
  unfold FrontendConnect at h
  by_cases h1 : env.ConnectSetup = false
  · simp only [h1, if_true, Option.some.injEq, Prod.mk.injEq] at h
    rw [← h.2]; exact SameBackend_refl F
  · rw [if_neg h1] at h
    cases hl : FrontendHandshakeLoop FrontendConnectReaction XenbusStateConnected
        env.ConnectWait fuel 0 XenbusStateUnknown F with
    | none => simp [hl] at h
    | some r =>
      simp only [hl, Option.some.injEq, Prod.mk.injEq] at h
      rw [← h.2]
      exact FrontendHandshakeLoop_SameBackend _ _ _ SameBackend_ConnectReaction _ _ _ _ _ hl

/-- `FrontendConnect` returns when its handshake loop settles. -/
theorem FrontendConnect_returns (fuel : Nat) (env : FrontendEnv) (F : XENVIF_FRONTEND)
    (hS : Settles XenbusStateConnected env.ConnectWait fuel) :
    ∃ r, FrontendConnect fuel env F = some r := by
  obtain ⟨j, hj, hj2⟩ := hS
  obtain ⟨r, hr⟩ := FrontendHandshakeLoop_returns FrontendConnectReaction XenbusStateConnected
    env.ConnectWait (fun _ _ => rfl) fuel 0 XenbusStateUnknown F ⟨j, by omega, by omega, hj2⟩
  unfold FrontendConnect
  by_cases h1 : env.ConnectSetup = false
  · rw [if_pos h1]
    exact ⟨_, rfl⟩
  · rw [if_neg h1, hr]
    exact ⟨_, rfl⟩

theorem BackendHeld_of_invariant_low {F : XENVIF_FRONTEND} (hI : BackendInvariant F)
    (hS : F.State.toNat < 2) : BackendHeld F = false := by
  unfold BackendInvariant at hI
  rw [hI]
  simpa using hS

theorem BackendHeld_of_invariant_high {F : XENVIF_FRONTEND} (hI : BackendInvariant F)
    (hS : 2 ≤ F.State.toNat) : BackendHeld F = true := by
  unfold BackendInvariant at hI
  rw [hI]
  simpa using hS

/-- The arm that calls `FrontendPrepare`. -/
theorem prepareArm_spec (fuel : Nat) (env : FrontendEnv) (F G : XENVIF_FRONTEND)
    (failed : Bool) (hI : BackendInvariant F) (hS : F.State.toNat < 2)
    (hA : ReleaseAssertsHold F) (hid : ValidBackendId env)
    (h : Handshake.prepareArm fuel env F = some (G, failed)) :
    BackendInvariant G ∧ ReleaseAssertsHold G ∧
      (failed = false → G.State = FRONTEND_PREPARED) := by
  have hH := BackendHeld_of_invariant_low hI hS
  unfold Handshake.prepareArm at h
  cases hp : FrontendPrepare fuel env F with
  | none => simp [hp] at h
  | some r =>
    obtain ⟨ok, F1⟩ := r
    obtain ⟨s1, s2, s3⟩ := FrontendPrepare_spec fuel env F F1 ok hA hH hid hp
    cases ok with
    | true =>
      simp only [hp, Option.some.injEq, Prod.mk.injEq] at h
      obtain ⟨e1, e2⟩ := h
      subst e1; subst e2
      refine ⟨?_, s2, fun _ => rfl⟩
      show BackendHeld F1 = _
      rw [s3]; rfl
    | false =>
      simp only [hp, Option.some.injEq, Prod.mk.injEq] at h
      obtain ⟨e1, e2⟩ := h
      subst e1; subst e2
      refine ⟨?_, s2, fun hf => absurd hf (by decide)⟩
      unfold BackendInvariant
      rw [s3, s1]
      exact (by simpa using hS : false = decide (2 ≤ F.State.toNat))

/-- The statements that close the frontend and set the state CLOSED. -/
theorem closeArm_spec (fuel : Nat) (env : FrontendEnv) (F G : XENVIF_FRONTEND)
    (b failed : Bool) (hH : BackendHeld F = true) (hA : ReleaseAssertsHold F)
    (h : Handshake.closeArm fuel env F b = some (G, failed)) :
    BackendInvariant G ∧ ReleaseAssertsHold G ∧ G.State = FRONTEND_CLOSED ∧ failed = b := by
  unfold Handshake.closeArm at h
  cases hc : FrontendClose fuel env F with
  | none => simp [hc] at h
  | some F1 =>
    obtain ⟨_, s2, s3⟩ := FrontendClose_spec fuel env F F1 hA hH hc
    simp only [hc, Option.some.injEq, Prod.mk.injEq] at h
    obtain ⟨e1, e2⟩ := h
    subst e1; subst e2
    refine ⟨?_, s2, rfl, rfl⟩
    show BackendHeld F1 = _
    rw [s3]; rfl

/-- The statements that close the frontend, set the state CLOSED and
disconnect. -/
theorem closeDisconnectArm_spec (fuel : Nat) (env : FrontendEnv) (F G : XENVIF_FRONTEND)
    (b failed : Bool) (hH : BackendHeld F = true) (hA : ReleaseAssertsHold F)
    (h : Handshake.closeDisconnectArm fuel env F b = some (G, failed)) :
    BackendInvariant G ∧ ReleaseAssertsHold G ∧ G.State = FRONTEND_CLOSED ∧ failed = b := by
  unfold Handshake.closeDisconnectArm at h
  cases hc : FrontendClose fuel env F with
  | none => simp [hc] at h
  | some F1 =>
    obtain ⟨_, s2, s3⟩ := FrontendClose_spec fuel env F F1 hA hH hc
    simp only [hc, Option.some.injEq, Prod.mk.injEq] at h
    obtain ⟨e1, e2⟩ := h
    subst e1; subst e2
    refine ⟨?_, s2, rfl, rfl⟩
    show BackendHeld F1 = _
    rw [s3]; rfl

/-- The arm that calls `FrontendConnect`. -/
theorem connectArm_spec (fuel : Nat) (env : FrontendEnv) (F G : XENVIF_FRONTEND)
    (failed : Bool) (hH : BackendHeld F = true) (hA : ReleaseAssertsHold F)
    (h : Handshake.connectArm fuel env F = some (G, failed)) :
    BackendInvariant G ∧ ReleaseAssertsHold G ∧
      (failed = false → G.State = FRONTEND_CONNECTED) := by
  unfold Handshake.connectArm at h
  cases hc : FrontendConnect fuel env F with
  | none => simp [hc] at h
  | some r =>
    obtain ⟨ok, F1⟩ := r
    have hs := FrontendConnect_spec fuel env F F1 ok hc
    have hA1 := ReleaseAssertsHold_SameBackend hs hA
    have hH1 : BackendHeld F1 = true := (BackendHeld_SameBackend hs).trans hH
    cases ok with
    | true =>
      simp only [hc, Option.some.injEq, Prod.mk.injEq] at h
      obtain ⟨e1, e2⟩ := h
      subst e1; subst e2
      refine ⟨?_, hA1, fun _ => rfl⟩
      show BackendHeld F1 = _
      rw [hH1]; rfl
    | false =>
      simp only [hc] at h
      obtain ⟨c1, c2, _, c4⟩ := closeArm_spec fuel env F1 G true failed hH1 hA1 h
      exact ⟨c1, c2, fun hf => absurd (c4.symm.trans hf) (by decide)⟩

/-- The arm that calls `FrontendEnable`. -/
theorem enableArm_spec (fuel : Nat) (env : FrontendEnv) (F G : XENVIF_FRONTEND)
    (failed : Bool) (hH : BackendHeld F = true) (hA : ReleaseAssertsHold F)
    (h : Handshake.enableArm fuel env F = some (G, failed)) :
    BackendInvariant G ∧ ReleaseAssertsHold G ∧
      (failed = false → G.State = FRONTEND_ENABLED) := by
  unfold Handshake.enableArm FrontendEnable at h
  cases he : env.Enable with
  | true =>
    simp only [he, Option.some.injEq, Prod.mk.injEq] at h
    obtain ⟨e1, e2⟩ := h
    subst e1; subst e2
    refine ⟨?_, hA, fun _ => rfl⟩
    show BackendHeld F = _
    rw [hH]; rfl
  | false =>
    simp only [he] at h
    obtain ⟨c1, c2, _, c4⟩ := closeDisconnectArm_spec fuel env F G true failed hH hA h
    exact ⟨c1, c2, fun hf => absurd (c4.symm.trans hf) (by decide)⟩

theorem body_prepare {fuel : Nat} {env : FrontendEnv} {target : XENVIF_FRONTEND_STATE}
    {F G : XENVIF_FRONTEND} {failed : Bool}
    (h : Handshake.prepareArm fuel env F = some (G, failed))
    (hI : BackendInvariant F) (hA : ReleaseAssertsHold F) (hid : ValidBackendId env)
    (hS : F.State.toNat < 2)
    (hd : passesToTarget FRONTEND_PREPARED target < passesToTarget F.State target) :
    BackendInvariant G ∧ ReleaseAssertsHold G ∧
      (failed = false → passesToTarget G.State target < passesToTarget F.State target) := by
  obtain ⟨a1, a2, a3⟩ := prepareArm_spec fuel env F G failed hI hS hA hid h
  exact ⟨a1, a2, fun hf => by rw [a3 hf]; exact hd⟩

theorem body_connect {fuel : Nat} {env : FrontendEnv} {target : XENVIF_FRONTEND_STATE}
    {F G : XENVIF_FRONTEND} {failed : Bool}
    (h : Handshake.connectArm fuel env F = some (G, failed))
    (hI : BackendInvariant F) (hA : ReleaseAssertsHold F)
    (hS : 2 ≤ F.State.toNat)
    (hd : passesToTarget FRONTEND_CONNECTED target < passesToTarget F.State target) :
    BackendInvariant G ∧ ReleaseAssertsHold G ∧
      (failed = false → passesToTarget G.State target < passesToTarget F.State target) := by
  obtain ⟨a1, a2, a3⟩ := connectArm_spec fuel env F G failed
    (BackendHeld_of_invariant_high hI hS) hA h
  exact ⟨a1, a2, fun hf => by rw [a3 hf]; exact hd⟩

theorem body_enable {fuel : Nat} {env : FrontendEnv} {target : XENVIF_FRONTEND_STATE}
    {F G : XENVIF_FRONTEND} {failed : Bool}
    (h : Handshake.enableArm fuel env F = some (G, failed))
    (hI : BackendInvariant F) (hA : ReleaseAssertsHold F)
    (hS : 2 ≤ F.State.toNat)
    (hd : passesToTarget FRONTEND_ENABLED target < passesToTarget F.State target) :
    BackendInvariant G ∧ ReleaseAssertsHold G ∧
      (failed = false → passesToTarget G.State target < passesToTarget F.State target) := by
  obtain ⟨a1, a2, a3⟩ := enableArm_spec fuel env F G failed
    (BackendHeld_of_invariant_high hI hS) hA h
  exact ⟨a1, a2, fun hf => by rw [a3 hf]; exact hd⟩

theorem body_close {fuel : Nat} {env : FrontendEnv} {target : XENVIF_FRONTEND_STATE}
    {F G : XENVIF_FRONTEND} {failed : Bool}
    (h : Handshake.closeArm fuel env F false = some (G, failed))
    (hI : BackendInvariant F) (hA : ReleaseAssertsHold F)
    (hS : 2 ≤ F.State.toNat)
    (hd : passesToTarget FRONTEND_CLOSED target < passesToTarget F.State target) :
    BackendInvariant G ∧ ReleaseAssertsHold G ∧
      (failed = false → passesToTarget G.State target < passesToTarget F.State target) := by
  obtain ⟨a1, a2, a3, _⟩ := closeArm_spec fuel env F G false failed
    (BackendHeld_of_invariant_high hI hS) hA h
  exact ⟨a1, a2, fun _ => by rw [a3]; exact hd⟩

theorem body_closeDisconnect {fuel : Nat} {env : FrontendEnv}
    {target : XENVIF_FRONTEND_STATE} {F G : XENVIF_FRONTEND} {failed : Bool}
    (h : Handshake.closeDisconnectArm fuel env F false = some (G, failed))
    (hI : BackendInvariant F) (hA : ReleaseAssertsHold F)
    (hS : 2 ≤ F.State.toNat)
    (hd : passesToTarget FRONTEND_CLOSED target < passesToTarget F.State target) :
    BackendInvariant G ∧ ReleaseAssertsHold G ∧
      (failed = false → passesToTarget G.State target < passesToTarget F.State target) := by
  obtain ⟨a1, a2, a3, _⟩ := closeDisconnectArm_spec fuel env F G false failed
    (BackendHeld_of_invariant_high hI hS) hA h
  exact ⟨a1, a2, fun _ => by rw [a3]; exact hd⟩

theorem body_disable {target : XENVIF_FRONTEND_STATE} {F G : XENVIF_FRONTEND}
    {failed : Bool} (h : Handshake.disableArm F = some (G, failed))
    (hI : BackendInvariant F) (hA : ReleaseAssertsHold F)
    (hS : 2 ≤ F.State.toNat)
    (hd : passesToTarget FRONTEND_CONNECTED target < passesToTarget F.State target) :
    BackendInvariant G ∧ ReleaseAssertsHold G ∧
      (failed = false → passesToTarget G.State target < passesToTarget F.State target) := by
  simp only [Handshake.disableArm, FrontendDisable, Option.some.injEq, Prod.mk.injEq] at h
  obtain ⟨e1, e2⟩ := h
  subst e1; subst e2
  refine ⟨?_, hA, fun _ => hd⟩
  show BackendHeld F = _
  rw [BackendHeld_of_invariant_high hI hS]; rfl

theorem body_forget {target : XENVIF_FRONTEND_STATE} {F G : XENVIF_FRONTEND}
    {failed : Bool}
    (h : some ({ F with State := FRONTEND_UNKNOWN }, false) = some (G, failed))
    (hI : BackendInvariant F) (hA : ReleaseAssertsHold F)
    (hS : F.State.toNat < 2)
    (hd : passesToTarget FRONTEND_UNKNOWN target < passesToTarget F.State target) :
    BackendInvariant G ∧ ReleaseAssertsHold G ∧
      (failed = false → passesToTarget G.State target < passesToTarget F.State target) := by
  simp only [Option.some.injEq, Prod.mk.injEq] at h
  obtain ⟨e1, e2⟩ := h
  subst e1; subst e2
  refine ⟨?_, hA, fun _ => hd⟩
  show BackendHeld F = _
  rw [BackendHeld_of_invariant_low hI hS]; rfl

/-- One pass of the loop of `FrontendSetState`, entered short of the target
with the invariant and with a valid backend id on offer, keeps the
invariant, meets no false assertion in `FrontendClose` or
`FrontendReleaseBackend`, and unless it fails brings the state strictly
closer to the target. -/
theorem FrontendSetStateBody_invariant (fuel : Nat) (env : FrontendEnv)
    (target : XENVIF_FRONTEND_STATE) (F G : XENVIF_FRONTEND) (failed : Bool)
    (hI : BackendInvariant F) (hA : ReleaseAssertsHold F) (hid : ValidBackendId env)
    (hne : F.State ≠ target)
    (h : Handshake.FrontendSetStateBody fuel env target F = some (G, failed)) :
    BackendInvariant G ∧ ReleaseAssertsHold G ∧
      (failed = false → passesToTarget G.State target < passesToTarget F.State target) := by
  unfold Handshake.FrontendSetStateBody at h
  obtain ⟨s, hS⟩ : ∃ s, F.State = s := ⟨_, rfl⟩
  cases s <;> cases target <;> simp only [hS] at h <;>
    first
      | exact absurd hS hne
      | exact body_prepare h hI hA hid (by rw [hS]; decide) (by rw [hS]; decide)
      | exact body_connect h hI hA (by rw [hS]; decide) (by rw [hS]; decide)
      | exact body_enable h hI hA (by rw [hS]; decide) (by rw [hS]; decide)
      | exact body_close h hI hA (by rw [hS]; decide) (by rw [hS]; decide)
      | exact body_closeDisconnect h hI hA (by rw [hS]; decide) (by rw [hS]; decide)
      | exact body_disable h hI hA (by rw [hS]; decide) (by rw [hS]; decide)
      | exact body_forget h hI hA (by rw [hS]; decide) (by rw [hS]; decide)

/-- One pass of the loop of `FrontendSetState` returns when the handshake
loops settle. -/
theorem FrontendSetStateBody_returns (fuel : Nat) (env : FrontendEnv)
    (target : XENVIF_FRONTEND_STATE) (F : XENVIF_FRONTEND) (hS : EnvSettles fuel env) :
    ∃ r, Handshake.FrontendSetStateBody fuel env target F = some r := by
  obtain ⟨s1, s2, s3⟩ := hS
  have hclose : ∀ (F0 : XENVIF_FRONTEND) (b : Bool),
      ∃ r, Handshake.closeArm fuel env F0 b = some r := by
    intro F0 b
    obtain ⟨G, hG⟩ := FrontendClose_returns fuel env F0 s3
    exact ⟨_, by unfold Handshake.closeArm; rw [hG]⟩
  have hcd : ∀ (F0 : XENVIF_FRONTEND) (b : Bool),
      ∃ r, Handshake.closeDisconnectArm fuel env F0 b = some r := by
    intro F0 b
    obtain ⟨G, hG⟩ := FrontendClose_returns fuel env F0 s3
    exact ⟨_, by unfold Handshake.closeDisconnectArm; rw [hG]⟩
  have hprep : ∃ r, Handshake.prepareArm fuel env F = some r := by
    obtain ⟨r, hr⟩ := FrontendPrepare_returns fuel env F s1
    obtain ⟨ok, F1⟩ := r
    unfold Handshake.prepareArm
    rw [hr]
    cases ok <;> exact ⟨_, rfl⟩
  have hconn : ∃ r, Handshake.connectArm fuel env F = some r := by
    obtain ⟨r, hr⟩ := FrontendConnect_returns fuel env F s2
    obtain ⟨ok, F1⟩ := r
    unfold Handshake.connectArm
    rw [hr]
    cases ok
    · exact hclose F1 true
    · exact ⟨_, rfl⟩
  have hen : ∃ r, Handshake.enableArm fuel env F = some r := by
    unfold Handshake.enableArm FrontendEnable
    cases env.Enable
    · exact hcd F true
    · exact ⟨_, rfl⟩
  unfold Handshake.FrontendSetStateBody
  cases F.State <;> cases target <;>
    first
      | exact ⟨_, rfl⟩
      | exact hprep
      | exact hconn
      | exact hen
      | exact hclose F false
      | exact hcd F false

/-- The loop of `FrontendSetState` keeps the invariant and meets no false
assertion in `FrontendClose` or `FrontendReleaseBackend`. -/
theorem FrontendSetStateLoop_invariant (fuel : Nat) (env : Nat → FrontendEnv)
    (target : XENVIF_FRONTEND_STATE) (hid : ∀ pass, ValidBackendId (env pass)) :
    ∀ (passes pass : Nat) (F : XENVIF_FRONTEND) (r : XENVIF_FRONTEND × Bool),
    BackendInvariant F → ReleaseAssertsHold F →
    Handshake.FrontendSetStateLoop fuel env target passes pass F = some r →
    BackendInvariant r.1 ∧ ReleaseAssertsHold r.1 := by
  intro passes
  induction passes with
  | zero =>
    intro pass F r hI hA h
    unfold Handshake.FrontendSetStateLoop at h
    by_cases hc : F.State = target
    · simp only [hc, if_true, Option.some.injEq] at h
      subst h; exact ⟨hI, hA⟩
    · simp [hc] at h
  | succ n ih =>
    intro pass F r hI hA h
    rw [Handshake.FrontendSetStateLoop] at h
    by_cases hc : F.State = target
    · simp only [hc, if_true, Option.some.injEq] at h
      subst h; exact ⟨hI, hA⟩
    · simp only [hc, if_false] at h
      cases hb : Handshake.FrontendSetStateBody fuel (env pass) target F with
      | none => simp [hb] at h
      | some s =>
        obtain ⟨G, failed⟩ := s
        obtain ⟨b1, b2, _⟩ :=
          FrontendSetStateBody_invariant fuel (env pass) target F G failed hI hA (hid pass) hc hb
        cases failed with
        | true =>
          simp only [hb, Option.some.injEq] at h
          subst h; exact ⟨b1, b2⟩
        | false =>
          simp only [hb] at h
          exact ih _ _ _ b1 b2 h

/-- The loop of `FrontendSetState` ends within `passesToTarget` passes when
the handshake loops settle. -/
theorem FrontendSetStateLoop_returns (fuel : Nat) (env : Nat → FrontendEnv)
    (target : XENVIF_FRONTEND_STATE) (hid : ∀ pass, ValidBackendId (env pass))
    (hS : ∀ pass, EnvSettles fuel (env pass)) :
    ∀ (passes pass : Nat) (F : XENVIF_FRONTEND),
    BackendInvariant F → ReleaseAssertsHold F → passesToTarget F.State target ≤ passes →
    ∃ r, Handshake.FrontendSetStateLoop fuel env target passes pass F = some r := by
  intro passes
  induction passes with
  | zero =>
    intro pass F hI hA hle
    have hc : F.State = target := passesToTarget_eq_zero _ _ (Nat.le_zero.mp hle)
    unfold Handshake.FrontendSetStateLoop
    rw [if_pos hc]
    exact ⟨_, rfl⟩
  | succ n ih =>
    intro pass F hI hA hle
    by_cases hc : F.State = target
    · unfold Handshake.FrontendSetStateLoop
      rw [if_pos hc]
      exact ⟨_, rfl⟩
    · obtain ⟨s, hb⟩ := FrontendSetStateBody_returns fuel (env pass) target F (hS pass)
      obtain ⟨G, failed⟩ := s
      obtain ⟨b1, b2, b3⟩ :=
        FrontendSetStateBody_invariant fuel (env pass) target F G failed hI hA (hid pass) hc hb
      rw [Handshake.FrontendSetStateLoop]
      simp only [hc, if_false, hb]
      cases failed with
      | true => exact ⟨_, rfl⟩
      | false =>
        have := b3 rfl
        exact ih _ _ b1 b2 (by omega)

/-- The invariant for every other backend id: provided the backend id read by
`FrontendAcquireBackend` is never `DOMID_INVALID`, `FrontendSetState` preserves the invariant that the
backend is held and the watch registered exactly in the states PREPARED,
CONNECTED and ENABLED, and every assertion of `FrontendClose` and
`FrontendReleaseBackend` that it reaches holds, for every start state,
target and outcome of the sub-steps; and when the handshake loops settle
within `fuel` passes the call returns. -/
theorem FrontendSetState_backend_invariant (fuel : Nat) (env : Nat → FrontendEnv)
    (F : XENVIF_FRONTEND) (target : XENVIF_FRONTEND_STATE)
    (hI : BackendInvariant F) (hA : ReleaseAssertsHold F)
    (hid : ∀ pass, ValidBackendId (env pass)) :
    (∀ (passes : Nat) (r : NTSTATUS × XENVIF_FRONTEND),
      Handshake.FrontendSetState passes fuel env F target = some r →
        BackendInvariant r.2 ∧ ReleaseAssertsHold r.2) ∧
    ((∀ pass, EnvSettles fuel (env pass)) →
      ∃ r, Handshake.FrontendSetState 4 fuel env F target = some r ∧
        BackendInvariant r.2 ∧ ReleaseAssertsHold r.2) := by
  have part : ∀ (passes : Nat) (r : NTSTATUS × XENVIF_FRONTEND),
      Handshake.FrontendSetState passes fuel env F target = some r →
        BackendInvariant r.2 ∧ ReleaseAssertsHold r.2 := by
    intro passes r h
    unfold Handshake.FrontendSetState at h
    cases hl : Handshake.FrontendSetStateLoop fuel env target passes 0 F with
    | none => simp [hl] at h
    | some s =>
      obtain ⟨G, failed⟩ := s
      simp only [hl, Option.some.injEq] at h
      rw [← h]
      exact FrontendSetStateLoop_invariant fuel env target hid passes 0 F (G, failed) hI hA hl
  refine ⟨part, fun hS => ?_⟩
  obtain ⟨s, hs⟩ := FrontendSetStateLoop_returns fuel env target hid hS 4 0 F hI hA
    (passesToTarget_le F.State target)
  obtain ⟨G, failed⟩ := s
  have hr : Handshake.FrontendSetState 4 fuel env F target =
      some (if failed then STATUS_UNSUCCESSFUL else STATUS_SUCCESS, G) := by
    unfold Handshake.FrontendSetState
    rw [hs]
  exact ⟨_, hr, part 4 _ hr⟩

theorem steadyEnv_valid : ∀ pass : Nat, ValidBackendId ((fun _ => steadyEnv 0) pass) := by
  intro _ v hv
  simp only [steadyEnv, Option.some.injEq] at hv
  subst hv
  decide

theorem steadyEnv_settles : ∀ pass : Nat, EnvSettles 2 ((fun _ => steadyEnv 0) pass) :=
  fun _ => ⟨⟨1, by decide, Or.inl rfl⟩, ⟨1, by decide, Or.inl rfl⟩, ⟨1, by decide, Or.inl rfl⟩⟩

/-- The invariant on a concrete run: the frontend as initialised, taken to
ENABLED against a backend in domain 0 that follows the handshake. -/
theorem FrontendSetState_backend_invariant_witness :
    ∃ r, Handshake.FrontendSetState 4 2 (fun _ => steadyEnv 0) initialFrontend
        FRONTEND_ENABLED = some r ∧
      BackendInvariant r.2 ∧ ReleaseAssertsHold r.2 :=
  (FrontendSetState_backend_invariant 2 (fun _ => steadyEnv 0) initialFrontend
    FRONTEND_ENABLED (by unfold BackendInvariant; decide)
    (by intro a ha; simp [initialFrontend] at ha)
    steadyEnv_valid).2 steadyEnv_settles

theorem sameAddress_trans {X A E : SOCKADDR_INET} (h1 : sameAddress X A = true)
    (h2 : sameAddress A E = true) : sameAddress X E = true := by
  unfold sameAddress at *
  by_cases f1 : A.si_family = X.si_family
  · by_cases f2 : E.si_family = A.si_family
    · have f3 : E.si_family = X.si_family := f2.trans f1
      simp only [f1, f2, f3, ne_eq, not_true_eq_false, if_false] at h1 h2 ⊢
      by_cases f4 : X.si_family = AF_INET
      · simp only [f4, if_true, decide_eq_true_eq] at h1 h2 ⊢
        exact h1.trans h2
      · simp only [f4, if_false, decide_eq_true_eq] at h1 h2 ⊢
        exact h1.trans h2
    · simp [f2] at h2
  · simp [f1] at h1

/-- An address that matches an entry of `Entries` is matched by exactly the
addresses that match `Entries` already. -/
theorem any_sameAddress_absorb (Entries : List SOCKADDR_INET) (A X : SOCKADDR_INET)
    (hA : Entries.any (sameAddress A) = true) :
    (sameAddress X A || Entries.any (sameAddress X)) = Entries.any (sameAddress X) := by
  cases hx : sameAddress X A with
  | false => simp
  | true =>
    obtain ⟨E, hE, hAE⟩ := List.any_eq_true.mp hA
    have : Entries.any (sameAddress X) = true :=
      List.any_eq_true.mpr ⟨E, hE, sameAddress_trans hx hAE⟩
    simp [this]

/-- `FrontendInsertAddress` when the table holds `acc`: an address that
matches an entry changes nothing; otherwise, the allocation succeeding, the
address is appended and the count incremented. -/
theorem FrontendInsertAddress_spec (alloc : Bool) (acc : List SOCKADDR_INET)
    (A : SOCKADDR_INET) (hlen : acc.length + 1 < 4294967296) :
    FrontendInsertAddress alloc (if acc = [] then none else some acc) acc.length A =
      if acc.any (sameAddress A) then
        (STATUS_SUCCESS, if acc = [] then none else some acc, acc.length)
      else if alloc = false then
        (STATUS_NO_MEMORY, if acc = [] then none else some acc, acc.length)
      else (STATUS_SUCCESS, some (acc ++ [A]), (acc ++ [A]).length) := by
  have hE : ((if acc = [] then none else some acc : Option (List SOCKADDR_INET)).getD []).take
      acc.length = acc := by
    by_cases h : acc = []
    · simp [h]
    · simp [h]
  unfold FrontendInsertAddress
  simp only [hE]
  have hinc : ULONG_inc acc.length = (acc ++ [A]).length := by
    unfold ULONG_inc
    rw [List.length_append, List.length_singleton]
    exact Nat.mod_eq_of_lt hlen
  rw [hinc]

/-- The loop of `FrontendProcessAddressTable`, entered with the table holding
`acc`, a list that matches the same addresses as the addresses `Seen` passed
so far: a successful run leaves `acc` followed by the first occurrences among
the addresses of the remaining rows that belong to the interface, and the
run is successful when every allocation succeeds. -/
theorem FrontendProcessAddressTableLoop_spec (alloc : Nat → Bool) (InterfaceIndex : Nat) :
    ∀ (rows : List MIB_UNICASTIPADDRESS_ROW) (Index : Nat) (acc Seen : List SOCKADDR_INET),
    (∀ X, acc.any (sameAddress X) = Seen.any (fun B => sameAddress X B)) →
    acc.length + rows.length < 4294967296 →
    (∀ r, FrontendProcessAddressTableLoop alloc InterfaceIndex rows Index
          (if acc = [] then none else some acc) acc.length = Except.ok r →
        r = (if acc ++ firstOccurrences Seen (interfaceAddresses rows InterfaceIndex) = []
              then none
              else some (acc ++ firstOccurrences Seen (interfaceAddresses rows InterfaceIndex)),
             (acc ++ firstOccurrences Seen (interfaceAddresses rows InterfaceIndex)).length)) ∧
    ((∀ i, alloc i = true) →
      ∃ r, FrontendProcessAddressTableLoop alloc InterfaceIndex rows Index
        (if acc = [] then none else some acc) acc.length = Except.ok r) := by
  intro rows
  induction rows with
  | nil =>
    intro Index acc Seen _ _
    rw [FrontendProcessAddressTableLoop]
    simp only [interfaceAddresses, List.filter_nil, List.map_nil, firstOccurrences,
      List.append_nil]
    exact ⟨fun r h => (Except.ok.inj h).symm, fun _ => ⟨_, rfl⟩⟩
  | cons Row rest ih =>
    intro Index acc Seen hinv hlen
    rw [List.length_cons] at hlen
    rw [FrontendProcessAddressTableLoop]
    by_cases h1 : Row.InterfaceIndex = InterfaceIndex
    · by_cases h2 : Row.Address.si_family = AF_INET ∨ Row.Address.si_family = AF_INET6
      · have hia : interfaceAddresses (Row :: rest) InterfaceIndex =
            Row.Address :: interfaceAddresses rest InterfaceIndex := by
          unfold interfaceAddresses
          rw [List.filter_cons_of_pos (by simpa [h1] using h2), List.map_cons]
        have hno : ¬ (Row.Address.si_family ≠ AF_INET ∧ Row.Address.si_family ≠ AF_INET6) := by
          rcases h2 with h2 | h2 <;> simp [h2]
        simp only [ne_eq, h1, not_true_eq_false, if_false, hno]
        rw [FrontendInsertAddress_spec (alloc Index) acc Row.Address (by omega), hia,
          firstOccurrences]
        by_cases hdup : acc.any (sameAddress Row.Address) = true
        · have hseen : Seen.any (fun B => sameAddress Row.Address B) = true := by
            rw [← hinv]; exact hdup
          simp only [hdup, if_true, hseen]
          exact ih (Index + 1) acc (Row.Address :: Seen)
            (by
              intro X
              rw [List.any_cons, ← hinv X]
              exact (any_sameAddress_absorb acc Row.Address X hdup).symm)
            (by omega)
        · have hseen : ¬ Seen.any (fun B => sameAddress Row.Address B) = true := by
            rw [← hinv]; exact hdup
          simp only [hdup, Bool.false_eq_true, if_false, hseen]
          cases ha : alloc Index with
          | false =>
            simp only [if_true]
            exact ⟨fun r h => (by cases h), fun hall => (by rw [hall Index] at ha; cases ha)⟩
          | true =>
            simp only [Bool.true_eq_false, if_false]
            have hne : acc ++ [Row.Address] ≠ [] := by simp
            have step := ih (Index + 1) (acc ++ [Row.Address]) (Row.Address :: Seen)
              (by
                intro X
                rw [List.any_append, List.any_cons, hinv X]
                simp [Bool.or_comm])
              (by rw [List.length_append, List.length_singleton]; omega)
            rw [if_neg hne] at step
            simpa only [List.append_assoc, List.singleton_append] using step
      · have hia : interfaceAddresses (Row :: rest) InterfaceIndex =
            interfaceAddresses rest InterfaceIndex := by
          unfold interfaceAddresses
          rw [List.filter_cons_of_neg (by simpa [h1] using h2)]
        have hyes : Row.Address.si_family ≠ AF_INET ∧ Row.Address.si_family ≠ AF_INET6 := by
          constructor
          · exact fun e => h2 (Or.inl e)
          · exact fun e => h2 (Or.inr e)
        simp only [ne_eq, h1, not_true_eq_false, if_false]
        rw [if_pos hyes, hia]
        exact ih (Index + 1) acc Seen hinv (by omega)
    · have hia : interfaceAddresses (Row :: rest) InterfaceIndex =
          interfaceAddresses rest InterfaceIndex := by
        unfold interfaceAddresses
        rw [List.filter_cons_of_neg (by simp [h1])]
      rw [if_pos h1, hia]
      exact ih (Index + 1) acc Seen hinv (by omega)

/-- C26: `FrontendProcessAddressTable`, when it succeeds, returns the
addresses of the rows whose `InterfaceIndex` is the given one and whose
family is `AF_INET` or `AF_INET6`, each address kept at its first occurrence
only, in table order, with `AddressCount` the number of addresses kept (and a
`NULL` table when there is none); it succeeds when every allocation does; and
`FrontendInsertAddress` leaves table and count unchanged, with
`STATUS_SUCCESS`, when the address matches an entry. -/
theorem FrontendProcessAddressTable_deduplicates (alloc : Nat → Bool)
    (Table : List MIB_UNICASTIPADDRESS_ROW) (InterfaceIndex : Nat)
    (hN : Table.length < 4294967296) :
    (∀ (AddressTable : Option (List SOCKADDR_INET)) (AddressCount : Nat),
      FrontendProcessAddressTable alloc Table InterfaceIndex =
          Except.ok (AddressTable, AddressCount) →
        AddressTable.getD [] =
          firstOccurrences [] (interfaceAddresses Table InterfaceIndex) ∧
        AddressCount =
          (firstOccurrences [] (interfaceAddresses Table InterfaceIndex)).length ∧
        (AddressTable = none ↔
          firstOccurrences [] (interfaceAddresses Table InterfaceIndex) = [])) ∧
    ((∀ i, alloc i = true) →
      ∃ r, FrontendProcessAddressTable alloc Table InterfaceIndex = Except.ok r) ∧
    (∀ (b : Bool) (AddressTable : Option (List SOCKADDR_INET)) (AddressCount : Nat)
        (Address : SOCKADDR_INET),
      ((AddressTable.getD []).take AddressCount).any (sameAddress Address) = true →
      FrontendInsertAddress b AddressTable AddressCount Address =
        (STATUS_SUCCESS, AddressTable, AddressCount)) := by
  obtain ⟨h1, h2⟩ := FrontendProcessAddressTableLoop_spec alloc InterfaceIndex Table 0 [] []
    (fun X => rfl) (by simpa using hN)
  refine ⟨?_, h2, ?_⟩
  · intro T c h
    have := h1 (T, c) h
    simp only [List.nil_append, Prod.mk.injEq] at this
    obtain ⟨e1, e2⟩ := this
    subst e1; subst e2
    by_cases hl : firstOccurrences [] (interfaceAddresses Table InterfaceIndex) = []
    · simp [hl]
    · simp [hl]
  · intro b T c A h
    unfold FrontendInsertAddress
    simp only [h, if_true]

/-- C26 (witness): a table of three rows on interface 7, the third repeating
the address of the first and the second of another family. -/
theorem FrontendProcessAddressTable_deduplicates_witness :
    FrontendProcessAddressTable (fun _ => true) sampleTable 7 =
      Except.ok (some [⟨[2, 0, 0, 0, 10, 0, 0, 1]⟩], 1) ∧
    (some [(⟨[2, 0, 0, 0, 10, 0, 0, 1]⟩ : SOCKADDR_INET)]).getD [] =
      firstOccurrences [] (interfaceAddresses sampleTable 7) ∧
    1 = (firstOccurrences [] (interfaceAddresses sampleTable 7)).length :=
  ⟨rfl,
   ((FrontendProcessAddressTable_deduplicates (fun _ => true) sampleTable 7 (by decide)).1
      (some [⟨[2, 0, 0, 0, 10, 0, 0, 1]⟩]) 1 rfl).1,
   ((FrontendProcessAddressTable_deduplicates (fun _ => true) sampleTable 7 (by decide)).1
      (some [⟨[2, 0, 0, 0, 10, 0, 0, 1]⟩]) 1 rfl).2.1⟩

/-- The bytes after the tag insertion: the bytes before the tag are as they
were, the tag is `0x81 0x00` followed by the tag control information with its
high byte first, and the bytes of the header from the place of the tag on are
found four bytes later. -/
theorem insertTag_bytes (StartVa : Nat → Nat) (E ByteCount TCI : Nat)
    (h12 : 12 ≤ ByteCount) (hU : ByteCount < 4294967296) :
    (∀ i, i < E + 12 → insertTag StartVa E ByteCount TCI i = StartVa i) ∧
    insertTag StartVa E ByteCount TCI (E + 12) = 0x81 ∧
    insertTag StartVa E ByteCount TCI (E + 13) = 0x00 ∧
    insertTag StartVa E ByteCount TCI (E + 14) = TCI / 256 % 256 ∧
    insertTag StartVa E ByteCount TCI (E + 15) = TCI % 256 ∧
    (∀ i, E + 12 ≤ i → i < E + ByteCount →
      insertTag StartVa E ByteCount TCI (i + 4) = StartVa i) ∧
    (∀ i, E + ByteCount + 4 ≤ i → insertTag StartVa E ByteCount TCI i = StartVa i) := by
  have hsub : ULONG_sub ByteCount 12 = ByteCount - 12 := by
    unfold ULONG_sub
    omega
  have hlo : TCI % 256 < 256 := Nat.mod_lt _ (by decide)
  have hhi : TCI / 256 % 256 < 256 := Nat.mod_lt _ (by decide)
  have hT : HTONS TCI % 256 = TCI / 256 % 256 ∧ HTONS TCI / 256 % 256 = TCI % 256 := by
    unfold HTONS
    generalize TCI % 256 = a at hlo
    generalize TCI / 256 % 256 = b at hhi
    constructor <;> omega
  have hP : HTONS ETHERTYPE_TPID % 256 = 129 ∧ HTONS ETHERTYPE_TPID / 256 % 256 = 0 := by
    unfold HTONS ETHERTYPE_TPID
    constructor <;> norm_num
  have key : ∀ i, insertTag StartVa E ByteCount TCI i =
      if i = E + 15 then HTONS TCI / 256 % 256
      else if i = E + 14 then HTONS TCI % 256
      else if i = E + 13 then HTONS ETHERTYPE_TPID / 256 % 256
      else if i = E + 12 then HTONS ETHERTYPE_TPID % 256
      else if E + 16 ≤ i ∧ i < E + 16 + (ByteCount - 12) then StartVa (E + 12 + (i - (E + 16)))
      else StartVa i := by
    intro i
    unfold insertTag
    simp only [storeUSHORT, setAt, RtlMoveMemory, ETHERNET_TAG_OFFSET, sizeof_ETHERNET_TAG,
      hsub]
  refine ⟨?_, ?_, ?_, ?_, ?_, ?_, ?_⟩
  · intro i hi
    rw [key, if_neg (by omega), if_neg (by omega), if_neg (by omega), if_neg (by omega),
      if_neg (by omega)]
  · rw [key, if_neg (by omega), if_neg (by omega), if_neg (by omega), if_pos rfl]
    exact hP.1
  · rw [key, if_neg (by omega), if_neg (by omega), if_pos rfl]
    exact hP.2
  · rw [key, if_neg (by omega), if_pos rfl]
    exact hT.1
  · rw [key, if_pos rfl]
    exact hT.2
  · intro i h1 h2
    rw [key, if_neg (by omega), if_neg (by omega), if_neg (by omega), if_neg (by omega),
      if_pos (by omega)]
    have e : E + 12 + (i + 4 - (E + 16)) = i := by omega
    rw [e]
  · intro i hi
    rw [key, if_neg (by omega), if_neg (by omega), if_neg (by omega), if_neg (by omega),
      if_neg (by omega)]

/-- The fields of the packet information after the tag fix-up. -/
theorem tagFixup_fields (Info : XENVIF_PACKET_INFO) :
    (tagFixup Info).Length = ULONG_add Info.Length sizeof_ETHERNET_TAG ∧
    (tagFixup Info).EthernetHeader.Length =
      ULONG_add Info.EthernetHeader.Length sizeof_ETHERNET_TAG ∧
    (tagFixup Info).EthernetHeader.Offset = Info.EthernetHeader.Offset ∧
    (tagFixup Info).IpHeader = movedHeader Info.IpHeader ∧
    (tagFixup Info).IpOptions = movedHeader Info.IpOptions ∧
    (tagFixup Info).UdpHeader = movedHeader Info.UdpHeader ∧
    (tagFixup Info).TcpHeader = movedHeader Info.TcpHeader ∧
    (tagFixup Info).TcpOptions = movedHeader Info.TcpOptions :=
  ⟨rfl, rfl, rfl, rfl, rfl, rfl, rfl, rfl⟩

/-- A header that is present moves by four bytes and keeps its length; a
header of zero length is left as it is. -/
theorem movedHeader_spec (h : XENVIF_PACKET_HEADER) :
    (movedHeader h).Length = h.Length ∧
    (h.Length ≠ 0 → (movedHeader h).Offset = ULONG_add h.Offset 4) ∧
    (h.Length = 0 → (movedHeader h).Offset = h.Offset) := by
  unfold movedHeader
  by_cases hl : h.Length = 0
  · simp [hl]
  · simp [hl, sizeof_ETHERNET_TAG]

/-- C21: in the preparation of a packet `p` that asks for a tag, when
`__TransmitterRingPrepareHeader` succeeds, with `Info` and `Payload` what the
parser found: the header fragment is the only fragment; the byte count of its
buffer is `Info.Length + 4` and its length is the length of the whole packet
plus 4; in `State->Info`, `Length` and `EthernetHeader.Length` have grown by
4 and every other header has moved by 4 if its length is not zero and is
unchanged otherwise (all in `ULONG` arithmetic); and in the buffer, for a
header of at least 12 bytes, the bytes before offset 12 of the Ethernet
header are unchanged, then come `0x81 0x00`, then `TagControlInformation`
with its high byte first, then the bytes of the header from offset 12 on, each
4 bytes later than before. -/
theorem PrepareHeader_inserts_tag (R : XENVIF_TRANSMITTER_RING) (p : Nat)
    (hC0 : R.State.Count = 0) (hV0 : (R.Packets p).Value = 0)
    (hIds : R.FreeIds.length ≤ XENVIF_TRANSMITTER_MAXIMUM_FRAGMENT_ID + 1)
    (hTag : (R.Packets p).Send.OffloadTagManipulation = true)
    (hH : (__TransmitterRingPrepareHeader (PreparePacketEnter R p)).1 = STATUS_SUCCESS) :
    ∃ (Info : XENVIF_PACKET_INFO) (Payload : XENVIF_PACKET_PAYLOAD)
      (F : XENVIF_TRANSMITTER_FRAGMENT) (Buffer : XENVIF_TRANSMITTER_BUFFER),
      ParsePacket ((PreparePacketEnter R p).Packets p).Parse
        (PreparePacketEnter R p).State.Payload = some (Info, Payload) ∧
      (__TransmitterRingPrepareHeader (PreparePacketEnter R p)).2.State.List = [F] ∧
      F.Context = FragmentContext.BUFFER Buffer ∧
      Buffer.ByteCount = ULONG_add Info.Length 4 ∧
      F.Length = ULONG_add (ULONG_add Info.Length Payload.Length) 4 ∧
      (__TransmitterRingPrepareHeader (PreparePacketEnter R p)).2.State.Info.Length =
        ULONG_add Info.Length 4 ∧
      (__TransmitterRingPrepareHeader
          (PreparePacketEnter R p)).2.State.Info.EthernetHeader.Length =
        ULONG_add Info.EthernetHeader.Length 4 ∧
      (__TransmitterRingPrepareHeader
          (PreparePacketEnter R p)).2.State.Info.EthernetHeader.Offset =
        Info.EthernetHeader.Offset ∧
      (∀ hdr : XENVIF_PACKET_INFO → XENVIF_PACKET_HEADER,
        hdr = XENVIF_PACKET_INFO.IpHeader ∨ hdr = XENVIF_PACKET_INFO.IpOptions ∨
          hdr = XENVIF_PACKET_INFO.UdpHeader ∨ hdr = XENVIF_PACKET_INFO.TcpHeader ∨
          hdr = XENVIF_PACKET_INFO.TcpOptions →
        (hdr (__TransmitterRingPrepareHeader (PreparePacketEnter R p)).2.State.Info).Length =
          (hdr Info).Length ∧
        ((hdr Info).Length ≠ 0 →
          (hdr (__TransmitterRingPrepareHeader (PreparePacketEnter R p)).2.State.Info).Offset =
            ULONG_add (hdr Info).Offset 4) ∧
        ((hdr Info).Length = 0 →
          (hdr (__TransmitterRingPrepareHeader (PreparePacketEnter R p)).2.State.Info).Offset =
            (hdr Info).Offset)) ∧
      (12 ≤ Info.Length → Info.Length < 4294967296 → ∀ StartVa : Nat → Nat,
        (∀ i, i < Info.EthernetHeader.Offset + 12 →
          insertTag StartVa Info.EthernetHeader.Offset Info.Length
            (R.Packets p).Send.TagControlInformation i = StartVa i) ∧
        insertTag StartVa Info.EthernetHeader.Offset Info.Length
          (R.Packets p).Send.TagControlInformation (Info.EthernetHeader.Offset + 12) = 0x81 ∧
        insertTag StartVa Info.EthernetHeader.Offset Info.Length
          (R.Packets p).Send.TagControlInformation (Info.EthernetHeader.Offset + 13) = 0x00 ∧
        insertTag StartVa Info.EthernetHeader.Offset Info.Length
            (R.Packets p).Send.TagControlInformation (Info.EthernetHeader.Offset + 14) =
          (R.Packets p).Send.TagControlInformation / 256 % 256 ∧
        insertTag StartVa Info.EthernetHeader.Offset Info.Length
            (R.Packets p).Send.TagControlInformation (Info.EthernetHeader.Offset + 15) =
          (R.Packets p).Send.TagControlInformation % 256 ∧
        (∀ i, Info.EthernetHeader.Offset + 12 ≤ i → i < Info.EthernetHeader.Offset + Info.Length →
          insertTag StartVa Info.EthernetHeader.Offset Info.Length
            (R.Packets p).Send.TagControlInformation (i + 4) = StartVa i)) := by
  obtain ⟨hb, _⟩ := bound_of_ids R p hV0 hIds
  have hTE := PreparePacketEnter_tracked R p hC0
  have hPE : (PreparePacketEnter R p).State.Packet = some p := rfl
  have hSend : (PreparePacketEnter R p).State.Send.OffloadTagManipulation = true := hTag
  have hL0 : (PreparePacketEnter R p).State.List = [] := rfl
  obtain ⟨-, hout⟩ := PrepareHeader_outcome p hb (PreparePacketEnter R p) hPE hTE
  rcases hout with ⟨h1, -⟩ | ⟨h1, -⟩ | ⟨Info, Payload, hParse, -, hrest⟩
  · rw [hH] at h1; cases h1
  · rw [hH] at h1; cases h1
  · rcases hrest with ⟨h1, -⟩ | ⟨h1, -⟩ | ⟨-, -, Id, rest, -, hfin⟩
    · rw [hH] at h1; cases h1
    · rw [hH] at h1; cases h1
    · rcases hfin with ⟨h1, -⟩ | ⟨-, -, hState⟩
      · rw [hH] at h1; cases h1
      · have hInfo : (__TransmitterRingPrepareHeader (PreparePacketEnter R p)).2.State.Info =
            tagFixup Info := by
          rw [hState]
          simp only [hSend, if_true]
        have hList : (__TransmitterRingPrepareHeader (PreparePacketEnter R p)).2.State.List =
            [headerFragment
              { Id := Id, Context := FragmentContext.INVALID, Entry := none,
                Offset := 0, Length := 0, Extra := false }
              { Pfn := (PreparePacketEnter R p).Tick, ByteCount := Info.Length,
                Context := some p, Reference := 1 }
              (PreparePacketEnter R p).Tick true Payload.Length] := by
          rw [hState]
          simp only [hL0, List.nil_append, hSend]
        obtain ⟨t1, t2, t3, t4, t5, t6, t7, t8⟩ := tagFixup_fields Info
        refine ⟨Info, Payload, _, _, hParse, hList, rfl, rfl, rfl, ?_, ?_, ?_, ?_, ?_⟩
        · rw [hInfo, t1]; rfl
        · rw [hInfo, t2]; rfl
        · rw [hInfo, t3]
        · intro hdr hh
          rw [hInfo]
          rcases hh with e | e | e | e | e <;> subst e
          · rw [t4]; exact movedHeader_spec _
          · rw [t5]; exact movedHeader_spec _
          · rw [t6]; exact movedHeader_spec _
          · rw [t7]; exact movedHeader_spec _
          · rw [t8]; exact movedHeader_spec _
        · intro h12 hU StartVa
          obtain ⟨b1, b2, b3, b4, b5, b6, -⟩ := insertTag_bytes StartVa
            Info.EthernetHeader.Offset Info.Length (R.Packets p).Send.TagControlInformation
            h12 hU
          exact ⟨b1, b2, b3, b4, b5, b6⟩

set_option maxRecDepth 100000 in
/-- C21 (witness): packet 0 of `payloadFailureRing`, a 1000-byte packet that
asks for a tag with control information 5, on which the header step
succeeds. -/
theorem PrepareHeader_inserts_tag_witness :
    ∃ (Info : XENVIF_PACKET_INFO) (Payload : XENVIF_PACKET_PAYLOAD)
      (F : XENVIF_TRANSMITTER_FRAGMENT) (Buffer : XENVIF_TRANSMITTER_BUFFER),
      ParsePacket ((PreparePacketEnter payloadFailureRing 0).Packets 0).Parse
        (PreparePacketEnter payloadFailureRing 0).State.Payload = some (Info, Payload) ∧
      (__TransmitterRingPrepareHeader (PreparePacketEnter payloadFailureRing 0)).2.State.List =
        [F] ∧
      F.Context = FragmentContext.BUFFER Buffer ∧
      Buffer.ByteCount = ULONG_add Info.Length 4 ∧
      F.Length = ULONG_add (ULONG_add Info.Length Payload.Length) 4 ∧
      (__TransmitterRingPrepareHeader
          (PreparePacketEnter payloadFailureRing 0)).2.State.Info.Length =
        ULONG_add Info.Length 4 :=
  match PrepareHeader_inserts_tag payloadFailureRing 0 rfl rfl (by decide) rfl (by decide) with
  | ⟨Info, Payload, F, Buffer, h1, h2, h3, h4, h5, h6, _⟩ =>
    ⟨Info, Payload, F, Buffer, h1, h2, h3, h4, h5, h6⟩

/-! ### Counting the fragments of a packet in `Pending` -/

theorem pendingCount_cons (Pd : Nat → Option XENVIF_TRANSMITTER_FRAGMENT) (p id : Nat)
    (rest : List Nat) :
    pendingCount Pd p (id :: rest) = pendingOne Pd p id + pendingCount Pd p rest := by
  rw [pendingCount]; rfl

theorem pendingOne_some (Pd : Nat → Option XENVIF_TRANSMITTER_FRAGMENT) (p id : Nat)
    (F : XENVIF_TRANSMITTER_FRAGMENT) (h : Pd id = some F) :
    pendingOne Pd p id = if F.packet = some p then 1 else 0 := by
  unfold pendingOne; rw [h]

theorem pendingOne_none (Pd : Nat → Option XENVIF_TRANSMITTER_FRAGMENT) (p id : Nat)
    (h : Pd id = none) : pendingOne Pd p id = 0 := by
  unfold pendingOne; rw [h]

theorem pendingOne_le (Pd : Nat → Option XENVIF_TRANSMITTER_FRAGMENT) (p id : Nat) :
    pendingOne Pd p id ≤ 1 := by
  unfold pendingOne
  split
  · split_ifs <;> omega
  · omega

theorem pendingOne_other (Pd : Nat → Option XENVIF_TRANSMITTER_FRAGMENT) (p id j : Nat)
    (v : Option XENVIF_TRANSMITTER_FRAGMENT) (h : j ≠ id) :
    pendingOne (setAt Pd id v) p j = pendingOne Pd p j := by
  unfold pendingOne; rw [setAt_other _ _ _ _ h]

theorem pendingCount_le (Pd : Nat → Option XENVIF_TRANSMITTER_FRAGMENT) (p : Nat) :
    ∀ ids : List Nat, pendingCount Pd p ids ≤ ids.length
  | [] => by simp [pendingCount]
  | id :: rest => by
    rw [pendingCount_cons, List.length_cons]
    have := pendingCount_le Pd p rest
    have := pendingOne_le Pd p id
    omega

theorem pendingCount_setAt_notin (Pd : Nat → Option XENVIF_TRANSMITTER_FRAGMENT) (p id : Nat)
    (v : Option XENVIF_TRANSMITTER_FRAGMENT) :
    ∀ ids : List Nat, id ∉ ids → pendingCount (setAt Pd id v) p ids = pendingCount Pd p ids
  | [] => fun _ => rfl
  | j :: rest => by
    intro h
    rw [pendingCount_cons, pendingCount_cons]
    have hj : j ≠ id := fun e => h (by rw [e]; exact List.mem_cons_self _ _)
    rw [pendingOne_other Pd p id j v hj,
      pendingCount_setAt_notin Pd p id v rest (fun hm => h (List.mem_cons_of_mem _ hm))]

/-- Writing one entry of `Pending` changes the count by what that entry
counts for. -/
theorem pendingCount_setAt_mem (Pd : Nat → Option XENVIF_TRANSMITTER_FRAGMENT) (p id : Nat)
    (v : Option XENVIF_TRANSMITTER_FRAGMENT) :
    ∀ ids : List Nat, ids.Nodup → id ∈ ids →
      pendingCount (setAt Pd id v) p ids + pendingOne Pd p id =
        pendingCount Pd p ids + pendingOne (setAt Pd id v) p id
  | [] => fun _ h => by simp at h
  | j :: rest => by
    intro hnd hm
    rw [pendingCount_cons, pendingCount_cons]
    have hnd' := List.nodup_cons.1 hnd
    by_cases hj : j = id
    · subst hj
      rw [pendingCount_setAt_notin Pd p j v rest hnd'.1]
      omega
    · have hm' : id ∈ rest := by
        rcases List.mem_cons.1 hm with e | e
        · exact absurd e.symm hj
        · exact e
      have := pendingCount_setAt_mem Pd p id v rest hnd'.2 hm'
      rw [pendingOne_other Pd p id j v hj]
      omega

theorem pendingCount_pos (Pd : Nat → Option XENVIF_TRANSMITTER_FRAGMENT) (p : Nat) :
    ∀ ids : List Nat, 0 < pendingCount Pd p ids ↔
      ∃ id, id ∈ ids ∧ ∃ F, Pd id = some F ∧ F.packet = some p
  | [] => by simp [pendingCount]
  | j :: rest => by
    rw [pendingCount_cons]
    have ih := pendingCount_pos Pd p rest
    constructor
    · intro h
      by_cases h1 : 0 < pendingOne Pd p j
      · refine ⟨j, List.mem_cons_self _ _, ?_⟩
        cases hF : Pd j with
        | none => rw [pendingOne_none Pd p j hF] at h1; omega
        | some F =>
          rw [pendingOne_some Pd p j F hF] at h1
          refine ⟨F, rfl, ?_⟩
          by_contra hne
          rw [if_neg hne] at h1
          omega
      · obtain ⟨id, hid, hF⟩ := ih.1 (by omega)
        exact ⟨id, List.mem_cons_of_mem _ hid, hF⟩
    · rintro ⟨id, hid, F, hF, hp⟩
      rcases List.mem_cons.1 hid with e | e
      · subst e
        rw [pendingOne_some Pd p id F hF, if_pos hp]
        omega
      · have := ih.2 ⟨id, e, F, hF, hp⟩
        omega

theorem pendingCount_zero (Pd : Nat → Option XENVIF_TRANSMITTER_FRAGMENT) (p : Nat)
    (ids : List Nat) (h : ∀ id, id ∈ ids → Pd id = none) : pendingCount Pd p ids = 0 := by
  by_contra hne
  obtain ⟨id, hid, F, hF, _⟩ := (pendingCount_pos Pd p ids).1 (Nat.pos_of_ne_zero hne)
  rw [h id hid] at hF
  cases hF

/-- Storing fragments with different ids in empty entries adds, for every
packet, the number of its fragments among them. -/
theorem pendingCount_storePending (p : Nat) (ids : List Nat) (hids : ids.Nodup) :
    ∀ (gs : List XENVIF_TRANSMITTER_FRAGMENT) (Pd : Nat → Option XENVIF_TRANSMITTER_FRAGMENT),
      (gs.map (fun F => F.Id)).Nodup →
      (∀ G, G ∈ gs → Pd G.Id = none ∧ G.Id ∈ ids) →
      pendingCount (storePending Pd gs) p ids =
        pendingCount Pd p ids + (gs.filter (fun G => decide (G.packet = some p))).length
  | [], Pd => fun _ _ => rfl
  | G :: rest, Pd => by
    intro hnd hfree
    rw [storePending_cons]
    simp only [List.map_cons, List.nodup_cons] at hnd
    have hG := hfree G (List.mem_cons_self _ _)
    have ih := pendingCount_storePending p ids hids rest (setAt Pd G.Id (some G)) hnd.2
      (fun G' hG' => by
        have h1 := hfree G' (List.mem_cons_of_mem _ hG')
        have hne : G'.Id ≠ G.Id := by
          intro e
          apply hnd.1
          rw [← e]
          exact List.mem_map_of_mem _ hG'
        rw [setAt_other _ _ _ _ hne]
        exact h1)
    rw [ih]
    have h2 := pendingCount_setAt_mem Pd p G.Id (some G) ids hids hG.2
    rw [pendingOne_none Pd p G.Id hG.1, pendingOne_some _ p G.Id G (setAt_same _ _ _)] at h2
    rw [List.filter_cons]
    by_cases hp : G.packet = some p
    · simp only [hp, decide_True, if_true, List.length_cons] at h2 ⊢
      omega
    · simp only [hp, decide_False, if_false] at h2 ⊢
      simp only [Bool.false_eq_true, if_false]
      omega

theorem filter_packet_all (p q : Nat) :
    ∀ gs : List XENVIF_TRANSMITTER_FRAGMENT, (∀ G, G ∈ gs → G.packet = some q) →
      (gs.filter (fun G => decide (G.packet = some p))).length = if q = p then gs.length else 0
  | [] => fun _ => by simp
  | G :: rest => by
    intro h
    have ih := filter_packet_all p q rest (fun G' hG' => h G' (List.mem_cons_of_mem _ hG'))
    have hG := h G (List.mem_cons_self _ _)
    rw [List.filter_cons, hG]
    by_cases e : q = p
    · subst e
      simp only [decide_True, if_true, List.length_cons] at ih ⊢
      omega
    · have : ¬ (some q = some p) := fun h' => e (Option.some.inj h')
      simp only [this, decide_False, Bool.false_eq_true, if_false, e] at ih ⊢
      exact ih

theorem mem_pendingPackets (Ring : XENVIF_TRANSMITTER_RING) (p : Nat) :
    p ∈ pendingPackets Ring ↔
      0 < pendingCount Ring.Pending p (List.range (XENVIF_TRANSMITTER_MAXIMUM_FRAGMENT_ID + 1)) := by
  rw [pendingCount_pos]
  unfold pendingPackets
  rw [List.mem_filterMap]
  constructor
  · rintro ⟨id, hid, h⟩
    cases hF : Ring.Pending id with
    | none => rw [hF] at h; cases h
    | some F =>
      rw [hF] at h
      exact ⟨id, hid, F, hF, h⟩
  · rintro ⟨id, hid, F, hF, hp⟩
    refine ⟨id, hid, ?_⟩
    rw [hF]
    exact hp

/-! ### The bookkeeping of custody, step by step -/

theorem AccountedAt_values {H L St Q : List Nat}
    {RQ : List XENVIF_TRANSMITTER_REQUEST} {S : XENVIF_TRANSMITTER_STATE}
    {Pd : Nat → Option XENVIF_TRANSMITTER_FRAGMENT} {Free : List Nat} {PQd PCd : Nat}
    {PC Ret : List Nat} {Val : Nat → Nat}
    (Val' : Nat → Nat) (hV : ∀ p, Val' p = Val p)
    (h : AccountedAt H L St Q RQ S Pd Free PQd PCd PC Ret Val) :
    AccountedAt H L St Q RQ S Pd Free PQd PCd PC Ret Val' := by
  have e : Val' = Val := funext hV
  rw [e]
  exact h

/-- Packets pushed onto the lock word. -/
theorem AccountedAt_push {H L St Q : List Nat}
    {RQ : List XENVIF_TRANSMITTER_REQUEST} {S : XENVIF_TRANSMITTER_STATE}
    {Pd : Nat → Option XENVIF_TRANSMITTER_FRAGMENT} {Free : List Nat} {PQd PCd : Nat}
    {PC Ret : List Nat} {Val : Nat → Nat}
    (Ls : List Nat)
    (h : AccountedAt H L St Q RQ S Pd Free PQd PCd PC Ret Val) (hnd : Ls.Nodup)
    (hfree : ∀ p, p ∈ Ls → p ∉ St ∧ p ∉ Q ∧ p ∉ S.Packet.toList ∧ p ∉ L) :
    AccountedAt (H ++ Ls) L (Ls.reverse ++ St) Q RQ S Pd Free PQd PCd PC Ret Val := by
  have hc : ∀ p, Ls.count p ≤ 1 := fun p => List.nodup_iff_count_le_one.1 hnd p
  have hz : ∀ p, 0 < Ls.count p →
      St.count p = 0 ∧ Q.count p = 0 ∧ S.Packet.toList.count p = 0 ∧ L.count p = 0 := by
    intro p hp
    obtain ⟨a, b, c, d⟩ := hfree p (List.count_pos_iff.1 hp)
    exact ⟨List.count_eq_zero_of_not_mem a, List.count_eq_zero_of_not_mem b,
      List.count_eq_zero_of_not_mem c, List.count_eq_zero_of_not_mem d⟩
  exact
    { once := fun p => by
        have h1 := h.once p
        have h2 := hc p
        simp only [List.count_append, List.count_reverse]
        rcases Nat.eq_zero_or_pos (Ls.count p) with h0 | h0
        · omega
        · obtain ⟨a, b, c, d⟩ := hz p h0
          omega
      flight := h.flight
      value := h.value
      count := h.count
      owner := h.owner
      empty := h.empty
      ids := h.ids
      fresh := h.fresh
      slots := h.slots
      requests := h.requests
      queued := by
        have := h.queued
        simp only [List.length_append, List.length_reverse]
        omega
      completed := by
        have := h.completed
        simp only [List.length_append, List.length_reverse]
        omega
      bounds := h.bounds
      history := fun p => by
        have := h.history p
        simp only [List.count_append, List.count_reverse]
        omega }

/-- The swizzle: the packets leave the lock word for the tail of
`PacketQueue` and are counted in `PacketsQueued`. -/
theorem AccountedAt_swizzle {H L St Q : List Nat}
    {RQ : List XENVIF_TRANSMITTER_REQUEST} {S : XENVIF_TRANSMITTER_STATE}
    {Pd : Nat → Option XENVIF_TRANSMITTER_FRAGMENT} {Free : List Nat} {PQd PCd : Nat}
    {PC Ret : List Nat} {Val : Nat → Nat}
    (PQd' : Nat)
    (h : AccountedAt H L St Q RQ S Pd Free PQd PCd PC Ret Val)
    (hq : PQd' % 4294967296 = (PQd + St.length) % 4294967296) (hb : PQd' < 4294967296) :
    AccountedAt H L [] (Q ++ St.reverse) RQ S Pd Free PQd' PCd PC Ret Val :=
  { once := fun p => by
      have := h.once p
      simp only [List.count_append, List.count_reverse, List.count_nil]
      omega
    flight := h.flight
    value := h.value
    count := h.count
    owner := h.owner
    empty := h.empty
    ids := h.ids
    fresh := h.fresh
    slots := h.slots
    requests := h.requests
    queued := by
      have := h.queued
      simp only [List.length_nil]
      omega
    completed := by
      have := h.completed
      simp only [List.length_append, List.length_reverse, List.length_nil]
      omega
    bounds := ⟨hb, h.bounds.2⟩
    history := fun p => by
      have := h.history p
      simp only [List.count_append, List.count_reverse, List.count_nil]
      omega }

/-- With `State->Count == 0` the state holds no packet and no fragment. -/
theorem AccountedAt_idle {H L St Q : List Nat}
    {RQ : List XENVIF_TRANSMITTER_REQUEST} {S : XENVIF_TRANSMITTER_STATE}
    {Pd : Nat → Option XENVIF_TRANSMITTER_FRAGMENT} {Free : List Nat} {PQd PCd : Nat}
    {PC Ret : List Nat} {Val : Nat → Nat}
    (h : AccountedAt H L St Q RQ S Pd Free PQd PCd PC Ret Val)
    (hC : S.Count = 0) : S.Packet = none ∧ S.List = [] := by
  have hl : S.List = [] := by
    have := h.count
    rw [hC] at this
    exact List.length_eq_zero.1 this.symm
  refine ⟨?_, hl⟩
  cases hp : S.Packet with
  | none => rfl
  | some p => exact absurd hl (h.owner p hp).1

/-- The packet at the head of `PacketQueue` was prepared: it is now held in
`State` with its fragments. -/
theorem AccountedAt_prepared {H L St Q : List Nat}
    {RQ : List XENVIF_TRANSMITTER_REQUEST} {S : XENVIF_TRANSMITTER_STATE}
    {Pd : Nat → Option XENVIF_TRANSMITTER_FRAGMENT} {Free : List Nat} {PQd PCd : Nat}
    {PC Ret : List Nat} {Val : Nat → Nat}
    (p : Nat) (rest : List Nat) (S' : XENVIF_TRANSMITTER_STATE)
    (Free' : List Nat) (Val' : Nat → Nat)
    (h : AccountedAt H L St Q RQ S Pd Free PQd PCd PC Ret Val)
    (hQ : Q = p :: rest) (hC : S.Count = 0)
    (hP : S'.Packet = some p) (hne : S'.List ≠ []) (hcnt : S'.Count = S'.List.length)
    (hval : Val' p = S'.List.length) (hown : ∀ F, F ∈ S'.List → F.packet = some p)
    (hids : S'.List.map (fun F => F.Id) ++ Free' = Free)
    (hoth : ∀ q, q ≠ p → Val' q = Val q) :
    AccountedAt H L St rest RQ S' Pd Free' PQd PCd PC Ret Val' := by
  obtain ⟨hSn, hSl⟩ := AccountedAt_idle h hC
  have hpL : L.count p = 0 := by
    have := h.once p
    rw [hQ] at this
    simp only [List.count_cons_self] at this
    omega
  have hi := h.ids
  have hf := h.fresh
  rw [hSl, List.map_nil, List.nil_append, ← hids] at hi hf
  exact
    { once := fun x => by
        have := h.once x
        rw [hQ, hSn] at this
        rw [hP]
        simp only [Option.toList, List.count_cons, List.count_nil] at this ⊢
        omega
      flight := h.flight
      value := fun x hx => by
        have hxp : x ≠ p := by
          intro e
          rw [e] at hx
          have := List.count_pos_iff.2 hx
          omega
        rw [hoth x hxp]
        exact h.value x hx
      count := hcnt
      owner := fun x hx => by
        rw [hP] at hx
        injection hx with hx
        subst hx
        exact ⟨hne, hval, hown⟩
      empty := fun hn => by rw [hP] at hn; cases hn
      ids := hi
      fresh := hf
      slots := h.slots
      requests := h.requests
      queued := h.queued
      completed := by
        have := h.completed
        rw [hQ, hSn] at this
        rw [hP]
        simp only [Option.toList, List.length_cons, List.length_nil] at this ⊢
        omega
      bounds := h.bounds
      history := fun x => by
        have := h.history x
        rw [hQ, hSn] at this
        rw [hP]
        simp only [Option.toList, List.count_cons, List.count_nil] at this ⊢
        omega }

/-- The packet at the head of `PacketQueue` could not be prepared and was
completed at once. -/
theorem AccountedAt_faked {H L St Q : List Nat}
    {RQ : List XENVIF_TRANSMITTER_REQUEST} {S : XENVIF_TRANSMITTER_STATE}
    {Pd : Nat → Option XENVIF_TRANSMITTER_FRAGMENT} {Free : List Nat} {PQd PCd : Nat}
    {PC Ret : List Nat} {Val : Nat → Nat}
    (p : Nat) (rest : List Nat) (S' : XENVIF_TRANSMITTER_STATE)
    (PCd' : Nat) (Val' : Nat → Nat)
    (h : AccountedAt H L St Q RQ S Pd Free PQd PCd PC Ret Val)
    (hQ : Q = p :: rest) (hC : S.Count = 0)
    (hP' : S'.Packet = none) (hL' : S'.List = []) (hC' : S'.Count = 0)
    (hPCd : PCd' = ULONG_inc PCd)
    (hoth : ∀ q, q ≠ p → Val' q = Val q) :
    AccountedAt H L St rest RQ S' Pd Free PQd PCd' (PC ++ [p]) Ret Val' := by
  obtain ⟨hSn, hSl⟩ := AccountedAt_idle h hC
  have hpL : L.count p = 0 := by
    have := h.once p
    rw [hQ] at this
    simp only [List.count_cons_self] at this
    omega
  have hi := h.ids
  have hf := h.fresh
  rw [hSl] at hi hf
  exact
    { once := fun x => by
        have := h.once x
        rw [hQ, hSn] at this
        rw [hP']
        simp only [Option.toList, List.count_cons, List.count_nil] at this ⊢
        omega
      flight := h.flight
      value := fun x hx => by
        have hxp : x ≠ p := by
          intro e
          rw [e] at hx
          have := List.count_pos_iff.2 hx
          omega
        rw [hoth x hxp]
        exact h.value x hx
      count := by rw [hC', hL']; rfl
      owner := fun x hx => by rw [hP'] at hx; cases hx
      empty := fun _ => hL'
      ids := by rw [hL']; exact hi
      fresh := by rw [hL']; exact hf
      slots := h.slots
      requests := h.requests
      queued := h.queued
      completed := by
        have := h.completed
        rw [hQ, hSn] at this
        rw [hP', hPCd]
        unfold ULONG_inc
        simp only [Option.toList, List.length_cons, List.length_nil] at this ⊢
        omega
      bounds := ⟨h.bounds.1, by rw [hPCd]; unfold ULONG_inc; omega⟩
      history := fun x => by
        have := h.history x
        rw [hQ, hSn] at this
        rw [hP']
        simp only [Option.toList, List.count_cons, List.count_nil, List.count_append] at this ⊢
        omega }

/-- The fragments held in `State` were stored in `Pending`: the packet in
`State` is now in flight. -/
theorem AccountedAt_posted {H L St Q : List Nat}
    {RQ : List XENVIF_TRANSMITTER_REQUEST} {S : XENVIF_TRANSMITTER_STATE}
    {Pd : Nat → Option XENVIF_TRANSMITTER_FRAGMENT} {Free : List Nat} {PQd PCd : Nat}
    {PC Ret : List Nat} {Val : Nat → Nat}
    (p : Nat) (gs : List XENVIF_TRANSMITTER_FRAGMENT)
    (S' : XENVIF_TRANSMITTER_STATE)
    (h : AccountedAt H L St Q RQ S Pd Free PQd PCd PC Ret Val)
    (hP : S.Packet = some p)
    (hgI : gs.map (fun F => F.Id) = S.List.map (fun F => F.Id))
    (hgP : gs.map (fun F => F.packet) = S.List.map (fun F => F.packet))
    (hP' : S'.Packet = none) (hL' : S'.List = []) (hC' : S'.Count = 0) :
    AccountedAt H (p :: L) St Q RQ S' (storePending Pd gs) Free PQd PCd PC Ret Val := by
  obtain ⟨hne, hval, hown⟩ := h.owner p hP
  have hlen : gs.length = S.List.length := by
    have := congrArg List.length hgI
    simpa using this
  have hgown : ∀ G, G ∈ gs → G.packet = some p := by
    intro G hG
    have : G.packet ∈ gs.map (fun F => F.packet) := List.mem_map_of_mem _ hG
    rw [hgP] at this
    obtain ⟨F, hF, e⟩ := List.mem_map.1 this
    rw [← e]
    exact hown F hF
  have hgnd : (gs.map (fun F => F.Id)).Nodup := by
    rw [hgI]
    exact (List.nodup_append.1 h.ids).1
  have hgfree : ∀ G, G ∈ gs → Pd G.Id = none ∧
      G.Id ∈ List.range (XENVIF_TRANSMITTER_MAXIMUM_FRAGMENT_ID + 1) := by
    intro G hG
    have : G.Id ∈ gs.map (fun F => F.Id) := List.mem_map_of_mem (fun F => F.Id) hG
    rw [hgI] at this
    obtain ⟨a, b⟩ := h.fresh G.Id (List.mem_append_left _ this)
    exact ⟨a, List.mem_range.2 (by omega)⟩
  have hcount : ∀ x, pendingCount (storePending Pd gs) x
      (List.range (XENVIF_TRANSMITTER_MAXIMUM_FRAGMENT_ID + 1)) =
      pendingCount Pd x (List.range (XENVIF_TRANSMITTER_MAXIMUM_FRAGMENT_ID + 1)) +
        if p = x then S.List.length else 0 := by
    intro x
    rw [pendingCount_storePending x _ (List.nodup_range _) gs Pd hgnd hgfree,
      filter_packet_all x p gs hgown, hlen]
  have hpL : L.count p = 0 := by
    have := h.once p
    rw [hP] at this
    simp only [Option.toList, List.count_cons_self] at this
    omega
  have hpn : p ∉ L := fun hm => by
    have := List.count_pos_iff.2 hm
    omega
  have hp0 : pendingCount Pd p (List.range (XENVIF_TRANSMITTER_MAXIMUM_FRAGMENT_ID + 1)) = 0 := by
    by_contra hne0
    exact hpn ((h.flight p).2 (Nat.pos_of_ne_zero hne0))
  have hpos : 0 < S.List.length := List.length_pos.2 hne
  exact
    { once := fun x => by
        have := h.once x
        rw [hP] at this
        rw [hP']
        simp only [Option.toList, List.count_cons, List.count_nil] at this ⊢
        omega
      flight := fun x => by
        rw [hcount x]
        by_cases e : p = x
        · subst e
          rw [if_pos rfl]
          constructor
          · intro _; omega
          · intro _; exact List.mem_cons_self _ _
        · rw [if_neg e, Nat.add_zero, ← h.flight x]
          constructor
          · intro hx
            rcases List.mem_cons.1 hx with e1 | e1
            · exact absurd e1.symm e
            · exact e1
          · intro hx; exact List.mem_cons_of_mem _ hx
      value := fun x hx => by
        rw [hcount x]
        by_cases e : p = x
        · subst e
          rw [if_pos rfl, hp0, hval]
          omega
        · rw [if_neg e, Nat.add_zero]
          rcases List.mem_cons.1 hx with e1 | e1
          · exact absurd e1.symm e
          · exact h.value x e1
      count := by rw [hC', hL']; rfl
      owner := fun x hx => by rw [hP'] at hx; cases hx
      empty := fun _ => hL'
      ids := by
        rw [hL']
        exact (List.nodup_append.1 h.ids).2.1
      fresh := fun id hid => by
        rw [hL'] at hid
        have hid' : id ∈ Free := by simpa using hid
        obtain ⟨a, b⟩ := h.fresh id (List.mem_append_right _ hid')
        refine ⟨?_, b⟩
        cases hs : storePending Pd gs id with
        | none => rfl
        | some G =>
          rcases storePending_mem id G gs Pd hs with h1 | ⟨h1, h2⟩
          · rw [a] at h1; cases h1
          · exfalso
            have hin : id ∈ S.List.map (fun F => F.Id) := by
              rw [← hgI, ← h2]
              exact List.mem_map_of_mem (fun F => F.Id) h1
            exact (List.nodup_append.1 h.ids).2.2 hin hid'
      slots := fun i G hG => by
        rcases storePending_mem i G gs Pd hG with h1 | ⟨_, h2⟩
        · exact h.slots i G h1
        · exact h2
      requests := h.requests
      queued := h.queued
      completed := by
        have := h.completed
        rw [hP] at this
        rw [hP']
        simp only [Option.toList, List.length_cons, List.length_nil] at this ⊢
        omega
      bounds := h.bounds
      history := fun x => by
        have := h.history x
        rw [hP] at this
        rw [hP']
        simp only [Option.toList, List.count_cons, List.count_nil] at this ⊢
        omega }

/-- What a response does to the fragment ids: the id of the fragment found
in `Pending` is free again, its entry is empty. -/
theorem AccountedAt_slot_freed {H L St Q : List Nat}
    {RQ : List XENVIF_TRANSMITTER_REQUEST} {S : XENVIF_TRANSMITTER_STATE}
    {Pd : Nat → Option XENVIF_TRANSMITTER_FRAGMENT} {Free : List Nat} {PQd PCd : Nat}
    {PC Ret : List Nat} {Val : Nat → Nat}
    (id : Nat) (F : XENVIF_TRANSMITTER_FRAGMENT)
    (h : AccountedAt H L St Q RQ S Pd Free PQd PCd PC Ret Val)
    (hF : Pd id = some F) (hid : id ≤ XENVIF_TRANSMITTER_MAXIMUM_FRAGMENT_ID) :
    (S.List.map (fun F => F.Id) ++ F.Id :: Free).Nodup ∧
    (∀ j, j ∈ S.List.map (fun F => F.Id) ++ F.Id :: Free →
      setAt Pd id none j = none ∧ j ≤ XENVIF_TRANSMITTER_MAXIMUM_FRAGMENT_ID) ∧
    (∀ i G, setAt Pd id none i = some G → G.Id = i) ∧
    (∀ x, pendingCount (setAt Pd id none) x
        (List.range (XENVIF_TRANSMITTER_MAXIMUM_FRAGMENT_ID + 1)) +
        (if F.packet = some x then 1 else 0) =
      pendingCount Pd x (List.range (XENVIF_TRANSMITTER_MAXIMUM_FRAGMENT_ID + 1))) := by
  have hFid : F.Id = id := h.slots id F hF
  have hnot : id ∉ S.List.map (fun F => F.Id) ++ Free := by
    intro hm
    have := (h.fresh id hm).1
    rw [hF] at this
    cases this
  refine ⟨?_, ?_, ?_, ?_⟩
  · rw [hFid, List.nodup_middle, List.nodup_cons]
    exact ⟨hnot, h.ids⟩
  · intro j hj
    by_cases e : j = id
    · rw [e, setAt_same]
      exact ⟨rfl, hid⟩
    · rw [setAt_other _ _ _ _ e]
      apply h.fresh j
      rw [hFid] at hj
      rcases List.mem_append.1 hj with h1 | h1
      · exact List.mem_append_left _ h1
      · rcases List.mem_cons.1 h1 with h2 | h2
        · exact absurd h2 e
        · exact List.mem_append_right _ h2
  · intro i G hG
    by_cases e : i = id
    · rw [e, setAt_same] at hG
      cases hG
    · rw [setAt_other _ _ _ _ e] at hG
      exact h.slots i G hG
  · intro x
    have h2 := pendingCount_setAt_mem Pd x id none
      (List.range (XENVIF_TRANSMITTER_MAXIMUM_FRAGMENT_ID + 1)) (List.nodup_range _)
      (List.mem_range.2 (by omega))
    rw [pendingOne_some Pd x id F hF, pendingOne_none _ x id (setAt_same _ _ _)] at h2
    omega

/-- A response for a fragment that belongs to no packet. -/
theorem AccountedAt_response_plain {H L St Q : List Nat}
    {RQ : List XENVIF_TRANSMITTER_REQUEST} {S : XENVIF_TRANSMITTER_STATE}
    {Pd : Nat → Option XENVIF_TRANSMITTER_FRAGMENT} {Free : List Nat} {PQd PCd : Nat}
    {PC Ret : List Nat} {Val : Nat → Nat}
    (id : Nat) (F : XENVIF_TRANSMITTER_FRAGMENT)
    (h : AccountedAt H L St Q RQ S Pd Free PQd PCd PC Ret Val)
    (hF : Pd id = some F) (hid : id ≤ XENVIF_TRANSMITTER_MAXIMUM_FRAGMENT_ID)
    (hq : F.packet = none) :
    AccountedAt H L St Q RQ S (setAt Pd id none) (F.Id :: Free) PQd PCd PC Ret Val := by
  obtain ⟨a, b, c, d⟩ := AccountedAt_slot_freed id F h hF hid
  have hcount : ∀ x, pendingCount (setAt Pd id none) x
      (List.range (XENVIF_TRANSMITTER_MAXIMUM_FRAGMENT_ID + 1)) =
      pendingCount Pd x (List.range (XENVIF_TRANSMITTER_MAXIMUM_FRAGMENT_ID + 1)) := by
    intro x
    have := d x
    rw [hq, if_neg (by simp)] at this
    omega
  exact
    { once := h.once
      flight := fun x => by rw [hcount x]; exact h.flight x
      value := fun x hx => by rw [hcount x]; exact h.value x hx
      count := h.count
      owner := h.owner
      empty := h.empty
      ids := a
      fresh := b
      slots := c
      requests := h.requests
      queued := h.queued
      completed := h.completed
      bounds := h.bounds
      history := h.history }

/-- A response for a fragment of the packet `q`: `Value` goes down by one,
and the packet is completed when it has reached zero. -/
theorem AccountedAt_response {H L St Q : List Nat}
    {RQ : List XENVIF_TRANSMITTER_REQUEST} {S : XENVIF_TRANSMITTER_STATE}
    {Pd : Nat → Option XENVIF_TRANSMITTER_FRAGMENT} {Free : List Nat} {PQd PCd : Nat}
    {PC Ret : List Nat} {Val : Nat → Nat}
    (id q : Nat) (F : XENVIF_TRANSMITTER_FRAGMENT)
    (Val' : Nat → Nat) (PC' : List Nat) (PCd' : Nat)
    (h : AccountedAt H L St Q RQ S Pd Free PQd PCd PC Ret Val)
    (hF : Pd id = some F) (hid : id ≤ XENVIF_TRANSMITTER_MAXIMUM_FRAGMENT_ID)
    (hq : F.packet = some q)
    (hV : Val' q = ULONG_PTR_dec (Val q)) (hO : ∀ x, x ≠ q → Val' x = Val x)
    (hPC : PC' = if ULONG_PTR_dec (Val q) ≠ 0 then PC else PC ++ [q])
    (hPCd : PCd' = if ULONG_PTR_dec (Val q) ≠ 0 then PCd else ULONG_inc PCd) :
    ∃ L', AccountedAt H L' St Q RQ S (setAt Pd id none) (F.Id :: Free) PQd PCd' PC' Ret Val' := by
  obtain ⟨a, b, c, d⟩ := AccountedAt_slot_freed id F h hF hid
  have hcq := d q
  rw [if_pos hq] at hcq
  have hco : ∀ x, x ≠ q → pendingCount (setAt Pd id none) x
      (List.range (XENVIF_TRANSMITTER_MAXIMUM_FRAGMENT_ID + 1)) =
      pendingCount Pd x (List.range (XENVIF_TRANSMITTER_MAXIMUM_FRAGMENT_ID + 1)) := by
    intro x hx
    have := d x
    rw [hq, if_neg (fun e => hx (Option.some.inj e).symm)] at this
    omega
  have hqL : q ∈ L := (h.flight q).2 (by omega)
  have hvq := h.value q hqL
  have hle := pendingCount_le Pd q (List.range (XENVIF_TRANSMITTER_MAXIMUM_FRAGMENT_ID + 1))
  rw [List.length_range] at hle
  have hmax : XENVIF_TRANSMITTER_MAXIMUM_FRAGMENT_ID + 1 = 1024 := rfl
  have hv1 : 1 ≤ Val q ∧ Val q ≤ 1024 := by
    rw [hvq]
    omega
  have hdec : ULONG_PTR_dec (Val q) = Val q - 1 := by
    unfold ULONG_PTR_dec
    omega
  rw [hdec] at hV hPC hPCd
  by_cases h0 : Val q - 1 ≠ 0
  · rw [if_pos h0] at hPC hPCd
    subst hPC
    subst hPCd
    refine ⟨L, ?_⟩
    exact
      { once := h.once
        flight := fun x => by
          by_cases e : x = q
          · rw [e]
            constructor
            · intro _; omega
            · intro _; exact hqL
          · rw [hco x e]; exact h.flight x
        value := fun x hx => by
          by_cases e : x = q
          · rw [e, hV]; omega
          · rw [hco x e, hO x e]; exact h.value x hx
        count := h.count
        owner := fun x hx => by
          obtain ⟨o1, o2, o3⟩ := h.owner x hx
          refine ⟨o1, ?_, o3⟩
          have hxq : x ≠ q := by
            intro e
            have := h.once q
            rw [e] at hx
            rw [hx] at this
            have := List.count_pos_iff.2 hqL
            simp only [Option.toList, List.count_cons_self] at *
            omega
          rw [hO x hxq]
          exact o2
        empty := h.empty
        ids := a
        fresh := b
        slots := c
        requests := h.requests
        queued := h.queued
        completed := h.completed
        bounds := h.bounds
        history := h.history }
  · have h0' : Val q - 1 = 0 := not_not.1 h0
    rw [if_neg h0] at hPC hPCd
    subst hPC
    subst hPCd
    have hLnd : L.Nodup := List.nodup_iff_count_le_one.2 (fun x => by
      have := h.once x
      omega)
    have hcq1 : L.count q = 1 := by
      have := List.count_pos_iff.2 hqL
      have := h.once q
      omega
    have hce : ∀ x, (L.erase q).count x + (if x = q then 1 else 0) = L.count x := by
      intro x
      by_cases e : x = q
      · rw [e, if_pos rfl, List.count_erase_self]
        omega
      · rw [if_neg e, List.count_erase_of_ne e]
        omega
    refine ⟨L.erase q, ?_⟩
    exact
      { once := fun x => by
          have := h.once x
          have := hce x
          omega
        flight := fun x => by
          by_cases e : x = q
          · rw [e]
            constructor
            · intro hm
              exact absurd hm (List.Nodup.not_mem_erase hLnd)
            · intro hpos; omega
          · rw [hco x e, ← h.flight x]
            exact List.mem_erase_of_ne e
        value := fun x hx => by
          have hxL : x ∈ L := List.mem_of_mem_erase hx
          have e : x ≠ q := by
            intro e
            rw [e] at hx
            exact absurd hx (List.Nodup.not_mem_erase hLnd)
          rw [hco x e, hO x e]
          exact h.value x hxL
        count := h.count
        owner := fun x hx => by
          obtain ⟨o1, o2, o3⟩ := h.owner x hx
          refine ⟨o1, ?_, o3⟩
          have hxq : x ≠ q := by
            intro e
            have := h.once q
            rw [e] at hx
            rw [hx] at this
            simp only [Option.toList, List.count_cons_self] at *
            omega
          rw [hO x hxq]
          exact o2
        empty := h.empty
        ids := a
        fresh := b
        slots := c
        requests := h.requests
        queued := h.queued
        completed := by
          have := h.completed
          have hl : (L.erase q).length + 1 = L.length := by
            rw [List.length_erase_of_mem hqL]
            have := List.length_pos_of_mem hqL
            omega
          unfold ULONG_inc
          omega
        bounds := ⟨h.bounds.1, by unfold ULONG_inc; omega⟩
        history := fun x => by
          have := h.history x
          have := hce x
          simp only [List.count_append, List.count_cons, List.count_nil]
          by_cases e : x = q
          · subst e
            simp only [beq_self_eq_true, if_true] at *
            omega
          · have e' : ¬ q = x := fun e2 => e e2.symm
            simp only [e, e', beq_iff_eq, if_false] at *
            omega }

/-- The completed packets are handed back to the caller. -/
theorem AccountedAt_returned {H L Q : List Nat}
    {RQ : List XENVIF_TRANSMITTER_REQUEST} {S : XENVIF_TRANSMITTER_STATE}
    {Pd : Nat → Option XENVIF_TRANSMITTER_FRAGMENT} {Free : List Nat} {PQd PCd : Nat}
    {PC Ret : List Nat} {Val : Nat → Nat}
    (h : AccountedAt H L [] Q RQ S Pd Free PQd PCd PC Ret Val) :
    AccountedAt H L [] Q RQ S Pd Free PQd PCd [] (Ret ++ PC) Val :=
  { once := h.once
    flight := h.flight
    value := h.value
    count := h.count
    owner := h.owner
    empty := h.empty
    ids := h.ids
    fresh := h.fresh
    slots := h.slots
    requests := h.requests
    queued := h.queued
    completed := h.completed
    bounds := h.bounds
    history := fun p => by
      have := h.history p
      simp only [List.count_append, List.count_nil] at this ⊢
      omega }

/-- An initialised ring is accounted for, with nothing queued so far. -/
theorem Accounted_initial (Ring : XENVIF_TRANSMITTER_RING) (h : Initial Ring) :
    Accounted [] Ring := by
  obtain ⟨h1, h2, h3, h4, h5, h6, h7, h8, h9, h10, h11⟩ := h
  refine ⟨[], ?_⟩
  rw [h1, h2, h3, h4, h6, h7, h8, h9]
  have hz : ∀ p, pendingCount Ring.Pending p
      (List.range (XENVIF_TRANSMITTER_MAXIMUM_FRAGMENT_ID + 1)) = 0 :=
    fun p => pendingCount_zero _ p _ (fun id _ => h5 id)
  exact
    { once := fun p => by
        show 0 + 0 + 0 + 0 ≤ 1
        omega
      flight := fun p => by
        rw [hz p]
        simp
      value := fun p hp => by simp at hp
      count := rfl
      owner := fun p hp => by cases hp
      empty := fun _ => rfl
      ids := h10
      fresh := fun id hid => ⟨h5 id, h11 id hid⟩
      slots := fun i F hF => by rw [h5 i] at hF; cases hF
      requests := rfl
      queued := rfl
      completed := rfl
      bounds := ⟨by omega, by omega⟩
      history := fun p => rfl }

/-- On a drained ring that is accounted for, both counters are the number
of packets queued, and the packets completed are the packets queued. -/
theorem Accounted_drained (H : List Nat) (Ring : XENVIF_TRANSMITTER_RING)
    (h : Accounted H Ring) (hD : Drained Ring) :
    Ring.PacketsCompleted = Ring.PacketsQueued ∧
    Ring.PacketsQueued = H.length % 4294967296 ∧
    ∀ p, (Ring.Returned ++ Ring.PacketComplete).count p = H.count p := by
  obtain ⟨L, h⟩ := h
  obtain ⟨d1, d2, d3, d4⟩ := hD
  have hL : L = [] := by
    cases L with
    | nil => rfl
    | cons p rest =>
      exfalso
      have h1 := (h.flight p).1 (List.mem_cons_self _ _)
      rw [pendingCount_zero Ring.Pending p _
        (fun id hid => d4 id (by have := List.mem_range.1 hid; omega))] at h1
      omega
  subst hL
  have hq := h.queued
  have hc := h.completed
  have hb := h.bounds
  rw [d1, d2, d3] at hc
  rw [d1] at hq
  simp only [Option.toList, List.length_nil] at hq hc
  refine ⟨by omega, by omega, fun p => ?_⟩
  have := h.history p
  rw [d1, d2, d3] at this
  simp only [Option.toList, List.count_nil, List.count_append] at this ⊢
  omega

/-! ### The custody of packets through the operations of the ring -/

/-- Only the parts in `custody`, and of the packets only `Value`, matter to
`Accounted`. -/
theorem Accounted_of_fields {H : List Nat} {A B : XENVIF_TRANSMITTER_RING}
    (h : Accounted H B)
    (e1 : A.Lock.Stash = B.Lock.Stash) (e2 : A.PacketQueue = B.PacketQueue)
    (e3 : A.RequestQueue = B.RequestQueue) (e4 : A.State = B.State)
    (e5 : A.Pending = B.Pending) (e6 : A.FreeIds = B.FreeIds)
    (e7 : A.PacketsQueued = B.PacketsQueued) (e8 : A.PacketsCompleted = B.PacketsCompleted)
    (e9 : A.PacketComplete = B.PacketComplete) (e10 : A.Returned = B.Returned)
    (e11 : ∀ p, (A.Packets p).Value = (B.Packets p).Value) : Accounted H A := by
  obtain ⟨L, h⟩ := h
  refine ⟨L, ?_⟩
  rw [e1, e2, e3, e4, e5, e6, e7, e8, e9, e10]
  exact AccountedAt_values _ e11 h

theorem Accounted_of_custody {H : List Nat} {A B : XENVIF_TRANSMITTER_RING}
    (e : custody A = custody B) (h : Accounted H B) : Accounted H A := by
  unfold custody at e
  simp only [Prod.mk.injEq] at e
  obtain ⟨e1, e2, e3, e4, e5, e6, e7, e8, e9, e10, e11⟩ := e
  exact Accounted_of_fields h e1 e2 e3 e4 e5 e6 e7 e8 e9 e10 (fun p => by rw [e11])

theorem custody_PushRequests (Ring : XENVIF_TRANSMITTER_RING) :
    custody (__TransmitterRingPushRequests Ring) = custody Ring := by
  unfold __TransmitterRingPushRequests __TransmitterRingSend
  simp only []
  split_ifs <;> rfl

theorem custody_of_postFrame {A B : XENVIF_TRANSMITTER_RING} (h : postFrame A = postFrame B) :
    A.Lock = B.Lock ∧ A.PacketQueue = B.PacketQueue ∧ A.RequestQueue = B.RequestQueue ∧
    A.FreeIds = B.FreeIds ∧ A.PacketsQueued = B.PacketsQueued ∧
    A.PacketsCompleted = B.PacketsCompleted ∧ A.PacketComplete = B.PacketComplete ∧
    A.Returned = B.Returned ∧ A.Packets = B.Packets ∧ A.State.Packet = B.State.Packet := by
  have a1 := congrArg XENVIF_TRANSMITTER_RING.Lock h
  have a2 := congrArg XENVIF_TRANSMITTER_RING.PacketQueue h
  have a3 := congrArg XENVIF_TRANSMITTER_RING.RequestQueue h
  have a4 := congrArg XENVIF_TRANSMITTER_RING.FreeIds h
  have a5 := congrArg XENVIF_TRANSMITTER_RING.PacketsQueued h
  have a6 := congrArg XENVIF_TRANSMITTER_RING.PacketsCompleted h
  have a7 := congrArg XENVIF_TRANSMITTER_RING.PacketComplete h
  have a8 := congrArg XENVIF_TRANSMITTER_RING.Returned h
  have a9 := congrArg XENVIF_TRANSMITTER_RING.Packets h
  have a10 := congrArg (fun R => R.State.Packet) h
  exact ⟨a1, a2, a3, a4, a5, a6, a7, a8, a9, a10⟩

theorem custody_of_counterFrame {A B : XENVIF_TRANSMITTER_RING}
    (h : counterFrame A = counterFrame B) :
    A.Lock = B.Lock ∧ A.PacketQueue = B.PacketQueue ∧ A.RequestQueue = B.RequestQueue ∧
    A.Pending = B.Pending ∧ A.PacketsQueued = B.PacketsQueued ∧
    A.PacketsCompleted = B.PacketsCompleted ∧ A.PacketComplete = B.PacketComplete ∧
    A.Returned = B.Returned := by
  have a1 := congrArg XENVIF_TRANSMITTER_RING.Lock h
  have a2 := congrArg XENVIF_TRANSMITTER_RING.PacketQueue h
  have a3 := congrArg XENVIF_TRANSMITTER_RING.RequestQueue h
  have a4 := congrArg XENVIF_TRANSMITTER_RING.Pending h
  have a5 := congrArg XENVIF_TRANSMITTER_RING.PacketsQueued h
  have a6 := congrArg XENVIF_TRANSMITTER_RING.PacketsCompleted h
  have a7 := congrArg XENVIF_TRANSMITTER_RING.PacketComplete h
  have a8 := congrArg XENVIF_TRANSMITTER_RING.Returned h
  exact ⟨a1, a2, a3, a4, a5, a6, a7, a8⟩

/-- The swizzle keeps the custody of packets. -/
theorem Swizzle_accounted (H : List Nat) (Ring : XENVIF_TRANSMITTER_RING)
    (h : Accounted H Ring) : Accounted H (TransmitterRingSwizzle Ring) := by
  obtain ⟨L, h⟩ := h
  obtain ⟨s1, s2, s3⟩ := Swizzle_spec Ring
  have hb : (TransmitterRingSwizzle Ring).PacketsQueued < 4294967296 := by
    unfold TransmitterRingSwizzle
    simp only []
    split
    · exact h.bounds.1
    · split_ifs
      · show ULONG_add _ _ < _
        unfold ULONG_add
        omega
      · exact h.bounds.1
  have hrest : (TransmitterRingSwizzle Ring).RequestQueue = Ring.RequestQueue ∧
      (TransmitterRingSwizzle Ring).State = Ring.State ∧
      (TransmitterRingSwizzle Ring).Pending = Ring.Pending ∧
      (TransmitterRingSwizzle Ring).FreeIds = Ring.FreeIds ∧
      (TransmitterRingSwizzle Ring).PacketsCompleted = Ring.PacketsCompleted ∧
      (TransmitterRingSwizzle Ring).PacketComplete = Ring.PacketComplete ∧
      (TransmitterRingSwizzle Ring).Returned = Ring.Returned ∧
      (TransmitterRingSwizzle Ring).Packets = Ring.Packets := by
    unfold TransmitterRingSwizzle
    simp only []
    split
    · exact ⟨rfl, rfl, rfl, rfl, rfl, rfl, rfl, rfl⟩
    · split_ifs <;> exact ⟨rfl, rfl, rfl, rfl, rfl, rfl, rfl, rfl⟩
  obtain ⟨r1, r2, r3, r4, r5, r6, r7, r8⟩ := hrest
  have hS : (TransmitterRingSwizzle Ring).Lock.Stash = [] := by rw [s1]
  refine ⟨L, ?_⟩
  rw [hS, s2, r1, r2, r3, r4, r5, r6, r7, r8]
  exact AccountedAt_swizzle _ h s3 hb

theorem PostFragment_stores (L : PostFragmentsLocals) (Ring : XENVIF_TRANSMITTER_RING)
    (Fragment : XENVIF_TRANSMITTER_FRAGMENT) :
    ∃ G : XENVIF_TRANSMITTER_FRAGMENT, G.Id = Fragment.Id ∧ G.packet = Fragment.packet ∧
      (PostFragment L Ring Fragment).2.Pending = setAt Ring.Pending G.Id (some G) := by
  cases h : L.FirstRequest with
  | false => exact ⟨Fragment, rfl, rfl, (PostFragment_later L Ring Fragment h).2.2.2⟩
  | true =>
    cases hx : needsExtra Ring.State.Send (some Fragment) with
    | false => exact ⟨Fragment, rfl, rfl, (PostFragment_first_plain L Ring Fragment h hx).2.2.2⟩
    | true =>
      exact ⟨{ Fragment with Extra := true }, rfl, rfl,
        (PostFragment_first_extra L Ring Fragment h hx).2.2.2⟩

/-- The request loop stores every fragment of `State->List` in `Pending`,
whatever the ring indices are. -/
theorem PostFragmentsLoop_stores :
    ∀ (fs : List XENVIF_TRANSMITTER_FRAGMENT) (fuel : Nat) (L : PostFragmentsLocals)
      (Ring : XENVIF_TRANSMITTER_RING),
      Ring.State.List = fs → Ring.State.Count = fs.length → fs.length ≤ fuel →
      ∃ gs : List XENVIF_TRANSMITTER_FRAGMENT,
        gs.map (fun F => F.Id) = fs.map (fun F => F.Id) ∧
        gs.map (fun F => F.packet) = fs.map (fun F => F.packet) ∧
        (PostFragmentsLoop fuel L Ring).2.Pending = storePending Ring.Pending gs ∧
        (PostFragmentsLoop fuel L Ring).2.State.Count = 0
  | [], fuel, L, Ring, hl, hc, _ => by
    have hres : PostFragmentsLoop fuel L Ring = (L, Ring) := by
      cases fuel with
      | zero => rfl
      | succ n =>
        rw [PostFragmentsLoop, if_pos (by simpa using hc)]
    rw [hres]
    exact ⟨[], rfl, rfl, rfl, by simpa using hc⟩
  | F :: rest, 0, L, Ring, _, _, hf => by simp at hf
  | F :: rest, fuel + 1, L, Ring, hl, hc, hf => by
    have hc0 : ¬ Ring.State.Count = 0 := by rw [hc]; simp
    rw [PostFragmentsLoop_step fuel L Ring F rest hl hc0]
    obtain ⟨G, g1, g2, g3⟩ := PostFragment_stores L
      { Ring with State := { Ring.State with Count := Ring.State.Count - 1, List := rest } } F
    have pS := PostFragment_State L
      { Ring with State := { Ring.State with Count := Ring.State.Count - 1, List := rest } } F
    generalize PostFragment L { Ring with State := { Ring.State with
      Count := Ring.State.Count - 1, List := rest } } F = r at g3 pS ⊢
    have hl' : r.2.State.List = rest := by rw [pS]
    have hc' : r.2.State.Count = rest.length := by
      rw [pS]
      show Ring.State.Count - 1 = rest.length
      rw [hc]
      simp
    obtain ⟨gs, i1, i2, i3, i4⟩ := PostFragmentsLoop_stores rest fuel r.1 r.2 hl' hc'
      (by simp at hf; omega)
    refine ⟨G :: gs, ?_, ?_, ?_, i4⟩
    · simp only [List.map_cons, g1, i1]
    · simp only [List.map_cons, g2, i2]
    · rw [i3, g3, storePending_cons]

theorem PostFragmentsPacket_Value (X : XENVIF_TRANSMITTER_RING) (p a b x : Nat) :
    ((PostFragmentsPacket X p a b).Packets x).Value = (X.Packets x).Value := by
  unfold PostFragmentsPacket XENVIF_TRANSMITTER_RING.updatePacket setAt
  simp only []
  split_ifs with e
  · rw [e]
  · rfl

/-- A post that fits and carries a packet: what it does to the parts that
take part in the custody of packets. -/
theorem PostFragments_custody (Ring : XENVIF_TRANSMITTER_RING) (p : Nat)
    (hc : Ring.State.Count = Ring.State.List.length) (hp : Ring.State.Packet = some p)
    (hle : ¬ ULONG_add Ring.State.Count (PostFragmentsExtra Ring.State) >
        RING_SLOTS_AVAILABLE Ring.Front.req_prod_pvt Ring.Front.rsp_cons) :
    (__TransmitterRingPostFragments Ring).2.Lock = Ring.Lock ∧
    (__TransmitterRingPostFragments Ring).2.PacketQueue = Ring.PacketQueue ∧
    (__TransmitterRingPostFragments Ring).2.RequestQueue = Ring.RequestQueue ∧
    (__TransmitterRingPostFragments Ring).2.FreeIds = Ring.FreeIds ∧
    (__TransmitterRingPostFragments Ring).2.PacketsQueued = Ring.PacketsQueued ∧
    (__TransmitterRingPostFragments Ring).2.PacketsCompleted = Ring.PacketsCompleted ∧
    (__TransmitterRingPostFragments Ring).2.PacketComplete = Ring.PacketComplete ∧
    (__TransmitterRingPostFragments Ring).2.Returned = Ring.Returned ∧
    (∀ x, ((__TransmitterRingPostFragments Ring).2.Packets x).Value = (Ring.Packets x).Value) ∧
    (__TransmitterRingPostFragments Ring).2.State.Packet = none ∧
    (__TransmitterRingPostFragments Ring).2.State.List = [] ∧
    (__TransmitterRingPostFragments Ring).2.State.Count = 0 ∧
    ∃ gs : List XENVIF_TRANSMITTER_FRAGMENT,
      gs.map (fun F => F.Id) = Ring.State.List.map (fun F => F.Id) ∧
      gs.map (fun F => F.packet) = Ring.State.List.map (fun F => F.packet) ∧
      (__TransmitterRingPostFragments Ring).2.Pending = storePending Ring.Pending gs := by
  obtain ⟨_, hres⟩ := PostFragments_result Ring hle
  rw [hp] at hres
  simp only [] at hres
  rw [hres]
  obtain ⟨gs, i1, i2, i3, i4⟩ := PostFragmentsLoop_stores Ring.State.List Ring.State.Count
    { req_prod := Ring.Front.req_prod_pvt, FirstRequest := true, PacketLength := 0,
      req := none } Ring rfl hc (by omega)
  have hfr := postFrame_PostFragmentsLoop Ring.State.Count
    { req_prod := Ring.Front.req_prod_pvt, FirstRequest := true, PacketLength := 0,
      req := none } Ring
  generalize PostFragmentsLoop Ring.State.Count
    { req_prod := Ring.Front.req_prod_pvt, FirstRequest := true, PacketLength := 0,
      req := none } Ring = r at i3 i4 hfr ⊢
  obtain ⟨f1, f2, f3, f4, f5, f6⟩ := PostFragmentsFinish_fields r.2 r.1
  obtain ⟨c1, c2, c3, c4, c5, c6, c7, c8, c9, c10⟩ :=
    custody_of_postFrame ((postFrame_PostFragmentsFinish r.2 r.1).trans hfr)
  generalize PostFragmentsFinish r.2 r.1 = X at f1 f2 f3 f4 f5 f6 c1 c2 c3 c4 c5 c6 c7 c8 c9 c10 ⊢
  refine ⟨c1, c2, c3, c4, c5, c6, c7, c8, ?_, rfl, ?_, ?_, gs, i1, i2, ?_⟩
  · intro x
    rw [PostFragmentsPacket_Value, c9]
  · show X.State.List = []
    rw [f5]
  · show X.State.Count = 0
    rw [f5]
    exact i4
  · show X.Pending = _
    rw [f3, i3]

/-- Posting the fragments held in `State` keeps the custody of packets; when
the post is not refused, `State` is empty afterwards. -/
theorem schedulePost_accounted (H : List Nat) (Ring : XENVIF_TRANSMITTER_RING)
    (h : Accounted H Ring) :
    Accounted H (schedulePost Ring).2 ∧
    ((schedulePost Ring).2.State.Count = 0 ∨ NT_SUCCESS (schedulePost Ring).1 = false) ∧
    (schedulePost Ring).2.Lock.Stash = Ring.Lock.Stash := by
  unfold schedulePost
  split_ifs with hc0
  · rcases PostFragments_cases Ring with ⟨_, heq⟩ | ⟨hle, _⟩
    · rw [heq]
      exact ⟨h, Or.inr rfl, rfl⟩
    · obtain ⟨L, hA⟩ := h
      cases hp : Ring.State.Packet with
      | none =>
        exfalso
        have h1 := hA.empty hp
        have h2 := hA.count
        rw [h1] at h2
        exact hc0 h2
      | some p =>
        obtain ⟨c1, c2, c3, c4, c5, c6, c7, c8, c9, c10, c11, c12, gs, i1, i2, i3⟩ :=
          PostFragments_custody Ring p hA.count hp hle
        generalize (__TransmitterRingPostFragments Ring).2 = R' at *
        have cS : R'.Lock.Stash = Ring.Lock.Stash := by rw [c1]
        refine ⟨⟨p :: L, ?_⟩, Or.inl c12, cS⟩
        rw [cS, c2, c3, c4, c5, c6, c7, c8, i3]
        exact AccountedAt_values _ c9 (AccountedAt_posted p gs R'.State hA hp i1 i2 c10 c11 c12)
  · exact ⟨h, Or.inl (not_not.1 hc0), rfl⟩

theorem schedulePacket_eq (Ring : XENVIF_TRANSMITTER_RING) (p : Nat) :
    schedulePacket Ring p =
      if (__TransmitterRingPreparePacket
          (Ring.updatePacket p (fun P => { P with Value := 0 })) p).1 = STATUS_SUCCESS
      then (__TransmitterRingPreparePacket
          (Ring.updatePacket p (fun P => { P with Value := 0 })) p).2
      else fakePacket (__TransmitterRingPreparePacket
          (Ring.updatePacket p (fun P => { P with Value := 0 })) p).2 p true := by
  unfold schedulePacket
  simp only []
  generalize __TransmitterRingPreparePacket
    (Ring.updatePacket p (fun P => { P with Value := 0 })) p = r
  split
  · next R1 hp => rw [if_pos rfl]
  · next st R1 hne =>
    have hs : ¬ st = STATUS_SUCCESS := fun e => hne (by rw [e])
    rw [if_neg hs]

/-- Different numbers up to 1023 are at most 1024. -/
theorem length_le_of_nodup_bounded (l : List Nat) (hnd : l.Nodup)
    (hb : ∀ x, x ∈ l → x ≤ XENVIF_TRANSMITTER_MAXIMUM_FRAGMENT_ID) :
    l.length ≤ XENVIF_TRANSMITTER_MAXIMUM_FRAGMENT_ID + 1 := by
  have hsub : l.toFinset ⊆ Finset.range (XENVIF_TRANSMITTER_MAXIMUM_FRAGMENT_ID + 1) := by
    intro x hx
    have := hb x (List.mem_toFinset.1 hx)
    exact Finset.mem_range.2 (by omega)
  have := Finset.card_le_card hsub
  rw [List.toFinset_card_of_nodup hnd, Finset.card_range] at this
  exact this

theorem fakePacket_custody (X : XENVIF_TRANSMITTER_RING) (p : Nat) :
    (fakePacket X p true).Lock = X.Lock ∧
    (fakePacket X p true).PacketQueue = X.PacketQueue ∧
    (fakePacket X p true).RequestQueue = X.RequestQueue ∧
    (fakePacket X p true).State = X.State ∧
    (fakePacket X p true).Pending = X.Pending ∧
    (fakePacket X p true).FreeIds = X.FreeIds ∧
    (fakePacket X p true).PacketsQueued = X.PacketsQueued ∧
    (fakePacket X p true).PacketsCompleted = ULONG_inc X.PacketsCompleted ∧
    (fakePacket X p true).PacketComplete = X.PacketComplete ++ [p] ∧
    (fakePacket X p true).Returned = X.Returned ∧
    (∀ q, q ≠ p → (fakePacket X p true).Packets q = X.Packets q) := by
  refine ⟨rfl, rfl, rfl, rfl, rfl, rfl, rfl, rfl, rfl, rfl, fun q hq => ?_⟩
  show setAt X.Packets p _ q = _
  rw [setAt_other _ _ _ _ hq]

/-- Taking the packet at the head of `PacketQueue`, preparing it, and faking
it if the preparation fails, keeps the custody of packets. -/
theorem schedulePacket_accounted (H : List Nat) (R1 : XENVIF_TRANSMITTER_RING) (p : Nat)
    (rest : List Nat) (h : Accounted H R1) (hQ : R1.PacketQueue = p :: rest)
    (hC : R1.State.Count = 0) :
    Accounted H (schedulePacket { R1 with PacketQueue := rest } p) ∧
    (schedulePacket { R1 with PacketQueue := rest } p).Lock.Stash = R1.Lock.Stash := by
  obtain ⟨L, hA⟩ := h
  rw [schedulePacket_eq]
  obtain ⟨hSn, hSl⟩ := AccountedAt_idle hA hC
  have x1 : (({ R1 with PacketQueue := rest } : XENVIF_TRANSMITTER_RING).updatePacket p
      (fun P => { P with Value := 0 })).Lock = R1.Lock := rfl
  have x2 : (({ R1 with PacketQueue := rest } : XENVIF_TRANSMITTER_RING).updatePacket p
      (fun P => { P with Value := 0 })).PacketQueue = rest := rfl
  have x3 : (({ R1 with PacketQueue := rest } : XENVIF_TRANSMITTER_RING).updatePacket p
      (fun P => { P with Value := 0 })).RequestQueue = R1.RequestQueue := rfl
  have x4 : (({ R1 with PacketQueue := rest } : XENVIF_TRANSMITTER_RING).updatePacket p
      (fun P => { P with Value := 0 })).State = R1.State := rfl
  have x5 : (({ R1 with PacketQueue := rest } : XENVIF_TRANSMITTER_RING).updatePacket p
      (fun P => { P with Value := 0 })).Pending = R1.Pending := rfl
  have x6 : (({ R1 with PacketQueue := rest } : XENVIF_TRANSMITTER_RING).updatePacket p
      (fun P => { P with Value := 0 })).FreeIds = R1.FreeIds := rfl
  have x7 : (({ R1 with PacketQueue := rest } : XENVIF_TRANSMITTER_RING).updatePacket p
      (fun P => { P with Value := 0 })).PacketsQueued = R1.PacketsQueued := rfl
  have x8 : (({ R1 with PacketQueue := rest } : XENVIF_TRANSMITTER_RING).updatePacket p
      (fun P => { P with Value := 0 })).PacketsCompleted = R1.PacketsCompleted := rfl
  have x9 : (({ R1 with PacketQueue := rest } : XENVIF_TRANSMITTER_RING).updatePacket p
      (fun P => { P with Value := 0 })).PacketComplete = R1.PacketComplete := rfl
  have x10 : (({ R1 with PacketQueue := rest } : XENVIF_TRANSMITTER_RING).updatePacket p
      (fun P => { P with Value := 0 })).Returned = R1.Returned := rfl
  have x11 : ((({ R1 with PacketQueue := rest } : XENVIF_TRANSMITTER_RING).updatePacket p
      (fun P => { P with Value := 0 })).Packets p).Value = 0 := by
    show (setAt R1.Packets p _ p).Value = 0
    rw [setAt_same]
  have x12 : ∀ q, q ≠ p → (({ R1 with PacketQueue := rest } : XENVIF_TRANSMITTER_RING).updatePacket
      p (fun P => { P with Value := 0 })).Packets q = R1.Packets q := by
    intro q hq
    show setAt R1.Packets p _ q = _
    rw [setAt_other _ _ _ _ hq]
  generalize ({ R1 with PacketQueue := rest } : XENVIF_TRANSMITTER_RING).updatePacket p
      (fun P => { P with Value := 0 }) = X at *
  have hC' : X.State.Count = 0 := by rw [x4]; exact hC
  have hIds : X.FreeIds.length ≤ XENVIF_TRANSMITTER_MAXIMUM_FRAGMENT_ID + 1 := by
    rw [x6]
    apply length_le_of_nodup_bounded
    · exact (List.nodup_append.1 hA.ids).2.1
    · intro x hx
      exact (hA.fresh x (List.mem_append_right _ hx)).2
  obtain ⟨s1, s2, _⟩ := PreparePacket_spec X p
  obtain ⟨k1, k2, k3, k4, k5, k6, k7, k8⟩ := custody_of_counterFrame s1
  by_cases hok : (__TransmitterRingPreparePacket X p).1 = STATUS_SUCCESS
  · rw [if_pos hok]
    obtain ⟨_, _, _, _, _, _, _, _, hT, hSP, _⟩ := PreparePacket_success X p hC' x11 hIds hok
    obtain ⟨_, _, _, _, hcnt1⟩ := s2 hok
    obtain ⟨_, _, t3, t4, t5, t6⟩ := hT
    have hv0 := (bound_of_ids X p x11 hIds).2
    have hEnter := (PreparePacketEnter_fields X p).2.1
    generalize (PreparePacketEnter X p).Packets = Pk at t4 hv0 hEnter
    generalize (__TransmitterRingPreparePacket X p).2 = R' at *
    have cS : R'.Lock.Stash = R1.Lock.Stash := by rw [k1, x1]
    refine ⟨⟨L, ?_⟩, cS⟩
    rw [cS, k2, x2, k3, x3, k4, x5, k5, x7, k6, x8, k7, x9, k8, x10]
    refine AccountedAt_prepared p rest R'.State R'.FreeIds _ hA hQ hC hSP ?_ t6 ?_ t5 ?_ ?_
    · intro hnil
      rw [t6, hnil] at hcnt1
      simp at hcnt1
    · show (R'.Packets p).Value = _
      rw [t4, setAt_same]
      show (Pk p).Value + _ = _
      rw [hv0]
      omega
    · rw [t3, x6]
    · intro q hq
      show (R'.Packets q).Value = (R1.Packets q).Value
      rw [t4, setAt_other _ _ _ _ hq, hEnter, setAt_other _ _ _ _ hq, x12 q hq]
  · rw [if_neg hok]
    obtain ⟨f1, _, _, f4, f5, ⟨Send, f6⟩, _⟩ := PreparePacket_failure X p hC' x11 hIds hok
    generalize (__TransmitterRingPreparePacket X p).2 = R' at *
    obtain ⟨g1, g2, g3, g4, g5, g6, g7, g8, g9, g10, g11⟩ := fakePacket_custody R' p
    generalize fakePacket R' p true = R2 at *
    have cS : R2.Lock.Stash = R1.Lock.Stash := by rw [g1, k1, x1]
    refine ⟨⟨L, ?_⟩, cS⟩
    rw [cS, g2, k2, x2, g3, k3, x3, g5, k4, x5, g6, f4, x6, g7, k5, x7, g8, k6, x8, g9, k7, x9,
      g10, k8, x10]
    refine AccountedAt_faked p rest R2.State _ _ hA hQ hC ?_ ?_ ?_ rfl ?_
    · rw [g4, f1]; rfl
    · rw [g4, f1]; rfl
    · rw [g4, f1]; rfl
    · intro q hq
      show (R2.Packets q).Value = (R1.Packets q).Value
      rw [g11 q hq, f6, setAt_other _ _ _ _ hq, x12 q hq]

/-- The scheduler loop keeps the custody of packets and does not touch the
packets pushed onto the lock word. -/
theorem ScheduleLoop_accounted (H : List Nat) :
    ∀ (fuel : Nat) (Ring Ring' : XENVIF_TRANSMITTER_RING), Accounted H Ring →
      TransmitterRingScheduleLoop fuel Ring = some Ring' →
      Accounted H Ring' ∧ Ring'.Lock.Stash = Ring.Lock.Stash
  | 0, Ring, Ring' => by
    intro _ h; simp [TransmitterRingScheduleLoop] at h
  | fuel + 1, Ring, Ring' => by
    intro hI
    rw [TransmitterRingScheduleLoop]
    obtain ⟨hposted, hcz, hst⟩ := schedulePost_accounted H Ring hI
    generalize schedulePost Ring = posted at *
    have hpushed : Accounted H (schedulePush posted.2) ∧
        (schedulePush posted.2).State = posted.2.State ∧
        (schedulePush posted.2).Lock.Stash = posted.2.Lock.Stash := by
      unfold schedulePush
      split_ifs
      · exact ⟨Accounted_of_custody (custody_PushRequests _) hposted,
          (PushRequests_spec _).2.2.1,
          congrArg (fun c => c.1) (custody_PushRequests posted.2)⟩
      · exact ⟨hposted, rfl, rfl⟩
    simp only []
    generalize schedulePush posted.2 = R1 at *
    obtain ⟨hp1, hp2, hp3⟩ := hpushed
    split_ifs with hs
    · intro h
      injection h with h
      rw [← h]
      exact ⟨Accounted_of_custody rfl hposted, hst⟩
    · have hreq : R1.RequestQueue = [] := by
        obtain ⟨L, hA⟩ := hp1
        exact hA.requests
      split
      · next Request rest hq =>
        rw [hreq] at hq
        cases hq
      · split
        · next Packet rest hq =>
          have hC : R1.State.Count = 0 := by
            rcases hcz with h0 | hf
            · rw [hp2]; exact h0
            · exfalso
              rw [hf] at hs
              exact hs rfl
          obtain ⟨a, b⟩ := schedulePacket_accounted H R1 Packet rest hp1 hq hC
          intro h
          obtain ⟨c, d⟩ := ScheduleLoop_accounted H fuel _ _ a h
          exact ⟨c, by rw [d, b, hp3, hst]⟩
        · intro h
          injection h with h
          rw [← h]
          exact ⟨hp1, by rw [hp3, hst]⟩

theorem Schedule_accounted (H : List Nat) (Ring Ring' : XENVIF_TRANSMITTER_RING)
    (hI : Accounted H Ring) (h : TransmitterRingSchedule Ring = some Ring') :
    Accounted H Ring' ∧ Ring'.Lock.Stash = Ring.Lock.Stash := by
  unfold TransmitterRingSchedule at h
  split_ifs at h
  · injection h with h; subst h; exact ⟨hI, rfl⟩
  · cases h1 : TransmitterRingScheduleLoop
        (Ring.RequestQueue.length + Ring.PacketQueue.length + 1) Ring with
    | none => rw [h1] at h; cases h
    | some R1 =>
      rw [h1] at h
      injection h with h
      subst h
      obtain ⟨a, b⟩ := ScheduleLoop_accounted H _ Ring R1 hI h1
      exact ⟨Accounted_of_custody (custody_PushRequests _) a,
        (congrArg (fun c => c.1) (custody_PushRequests R1)).trans b⟩

/-- Releasing the lock keeps the custody of packets. -/
theorem ReleaseLock_accounted (H : List Nat) (Ring Ring' : XENVIF_TRANSMITTER_RING)
    (hI : Accounted H Ring) (h : __TransmitterRingReleaseLock Ring = some Ring') :
    Accounted H Ring' := by
  unfold __TransmitterRingReleaseLock at h
  cases h1 : TransmitterRingSchedule (TransmitterRingSwizzle Ring) with
  | none => rw [h1] at h; cases h
  | some R1 =>
    rw [h1] at h
    injection h with h
    subst h
    obtain ⟨⟨L, hA⟩, b⟩ := Schedule_accounted H _ R1 (Swizzle_accounted H Ring hI) h1
    rw [(Swizzle_spec Ring).1] at b
    have b : R1.Lock.Stash = [] := b
    rw [b] at hA
    exact ⟨L, AccountedAt_returned hA⟩

/-- Queueing packets that the transmitter does not hold keeps the custody
of packets, the packets queued being added to the history. -/
theorem QueuePackets_accounted (H : List Nat) (Ring Ring' : XENVIF_TRANSMITTER_RING)
    (Packets : List Nat) (hI : Accounted H Ring)
    (hadm : eventAdmissible (RingEvent.Queue Packets) Ring = true)
    (h : __TransmitterRingQueuePackets Ring Packets = some Ring') :
    Accounted (H ++ Packets) Ring' := by
  have hpush : Accounted (H ++ Packets) (pushPackets Ring Packets) := by
    obtain ⟨L, hA⟩ := hI
    refine ⟨L, ?_⟩
    unfold eventAdmissible at hadm
    obtain ⟨hnd, hfree⟩ := of_decide_eq_true hadm
    refine AccountedAt_push Packets hA hnd (fun p hp => ?_)
    have hn := hfree p hp
    unfold heldPackets at hn
    simp only [List.mem_append, not_or] at hn
    obtain ⟨⟨⟨⟨n1, n2⟩, n3⟩, n4⟩, _⟩ := hn
    refine ⟨n1, n2, n3, fun hL => n4 ?_⟩
    exact (mem_pendingPackets Ring p).2 ((hA.flight p).1 hL)
  unfold __TransmitterRingQueuePackets at h
  simp only [] at h
  split_ifs at h
  · injection h with h; subst h; exact hpush
  · exact ReleaseLock_accounted _ _ Ring' (Accounted_of_custody rfl hpush) h

theorem PollRelease_custody (Ring : XENVIF_TRANSMITTER_RING) (id : Nat)
    (Fragment : XENVIF_TRANSMITTER_FRAGMENT) :
    (PollRelease Ring id Fragment).Lock = Ring.Lock ∧
    (PollRelease Ring id Fragment).PacketQueue = Ring.PacketQueue ∧
    (PollRelease Ring id Fragment).RequestQueue = Ring.RequestQueue ∧
    (PollRelease Ring id Fragment).State = Ring.State ∧
    (PollRelease Ring id Fragment).Pending = setAt Ring.Pending id none ∧
    (PollRelease Ring id Fragment).FreeIds = Fragment.Id :: Ring.FreeIds ∧
    (PollRelease Ring id Fragment).PacketsQueued = Ring.PacketsQueued ∧
    (PollRelease Ring id Fragment).PacketsCompleted = Ring.PacketsCompleted ∧
    (PollRelease Ring id Fragment).PacketComplete = Ring.PacketComplete ∧
    (PollRelease Ring id Fragment).Returned = Ring.Returned ∧
    (PollRelease Ring id Fragment).Packets = Ring.Packets := by
  unfold PollRelease releaseContext RevokeForeignAccess __TransmitterPutFragment
    __TransmitterPutBuffer
  simp only []
  cases Fragment.Context <;> cases Fragment.Entry <;>
    exact ⟨rfl, rfl, rfl, rfl, rfl, rfl, rfl, rfl, rfl, rfl, rfl⟩

theorem PollPacket_custody (Ring : XENVIF_TRANSMITTER_RING) (Q : Nat) (status : Int)
    (rsp_cons : Nat) :
    (PollPacket Ring Q status rsp_cons).Lock = Ring.Lock ∧
    (PollPacket Ring Q status rsp_cons).PacketQueue = Ring.PacketQueue ∧
    (PollPacket Ring Q status rsp_cons).RequestQueue = Ring.RequestQueue ∧
    (PollPacket Ring Q status rsp_cons).State = Ring.State ∧
    (PollPacket Ring Q status rsp_cons).Pending = Ring.Pending ∧
    (PollPacket Ring Q status rsp_cons).FreeIds = Ring.FreeIds ∧
    (PollPacket Ring Q status rsp_cons).PacketsQueued = Ring.PacketsQueued ∧
    (PollPacket Ring Q status rsp_cons).Returned = Ring.Returned ∧
    (PollPacket Ring Q status rsp_cons).PacketsCompleted =
      (if ULONG_PTR_dec (Ring.Packets Q).Value ≠ 0 then Ring.PacketsCompleted
       else ULONG_inc Ring.PacketsCompleted) := by
  unfold PollPacket
  simp only []
  have hv : ((zeroResponse ((decValue Ring Q).updatePacket Q (fun P => { P with
      Completion := { P.Completion with
        Status := translateStatus status P.Completion.Status } })) rsp_cons).Packets Q).Value =
      ULONG_PTR_dec (Ring.Packets Q).Value := by
    simp [zeroResponse, decValue, Packets_updatePacket]
  rw [hv]
  by_cases h0 : ULONG_PTR_dec (Ring.Packets Q).Value = 0
  · simp only [h0, ne_eq, not_true_eq_false, if_false]
    exact ⟨rfl, rfl, rfl, rfl, rfl, rfl, rfl, rfl, rfl⟩
  · simp only [h0, ne_eq, not_false_eq_true, if_true]
    exact ⟨rfl, rfl, rfl, rfl, rfl, rfl, rfl, rfl, rfl⟩

/-- A pass of the response loop keeps the custody of packets. -/
theorem PollResponse_accounted (H : List Nat) (Ring Ring' : XENVIF_TRANSMITTER_RING)
    (rsp_cons : Nat) (hI : Accounted H Ring) (h : PollResponse Ring rsp_cons = some Ring') :
    Accounted H Ring' := by
  revert h
  unfold PollResponse
  simp only []
  have hpend : (PollCount Ring).Pending = Ring.Pending := rfl
  rw [hpend]
  generalize Ring.Shared.Rsp (rsp_cons % XENVIF_TRANSMITTER_RING_SIZE) = rsp
  by_cases hn : rsp.status = NETIF_RSP_NULL
  · rw [if_pos hn]
    intro h; injection h with h; subst h
    exact Accounted_of_custody rfl hI
  · rw [if_neg hn]
    by_cases hid : rsp.id > XENVIF_TRANSMITTER_MAXIMUM_FRAGMENT_ID
    · rw [if_pos hid]; intro h; cases h
    · rw [if_neg hid]
      have hid' : rsp.id ≤ XENVIF_TRANSMITTER_MAXIMUM_FRAGMENT_ID := by omega
      cases hF : Ring.Pending rsp.id with
      | none => intro h; simp only [] at h; cases h
      | some F =>
        simp only []
        obtain ⟨r1, r2, r3, r4, r5, r6, r7, r8, r9, r10, r11⟩ :=
          PollRelease_custody (PollCount Ring) rsp.id F
        have r1 : (PollRelease (PollCount Ring) rsp.id F).Lock = Ring.Lock := r1
        have r2 : (PollRelease (PollCount Ring) rsp.id F).PacketQueue = Ring.PacketQueue := r2
        have r3 : (PollRelease (PollCount Ring) rsp.id F).RequestQueue = Ring.RequestQueue := r3
        have r4 : (PollRelease (PollCount Ring) rsp.id F).State = Ring.State := r4
        have r5 : (PollRelease (PollCount Ring) rsp.id F).Pending =
            setAt Ring.Pending rsp.id none := r5
        have r6 : (PollRelease (PollCount Ring) rsp.id F).FreeIds = F.Id :: Ring.FreeIds := r6
        have r7 : (PollRelease (PollCount Ring) rsp.id F).PacketsQueued =
            Ring.PacketsQueued := r7
        have r8 : (PollRelease (PollCount Ring) rsp.id F).PacketsCompleted =
            Ring.PacketsCompleted := r8
        have r9 : (PollRelease (PollCount Ring) rsp.id F).PacketComplete =
            Ring.PacketComplete := r9
        have r10 : (PollRelease (PollCount Ring) rsp.id F).Returned = Ring.Returned := r10
        have r11 : (PollRelease (PollCount Ring) rsp.id F).Packets = Ring.Packets := r11
        generalize PollRelease (PollCount Ring) rsp.id F = X at *
        have rS : X.Lock.Stash = Ring.Lock.Stash := by rw [r1]
        obtain ⟨L, hA⟩ := hI
        cases hq : F.packet with
        | none =>
          simp only []
          intro h; injection h with h; subst h
          refine Accounted_of_custody (B := X) rfl ⟨L, ?_⟩
          rw [rS, r2, r3, r4, r5, r6, r7, r8, r9, r10, r11]
          exact AccountedAt_response_plain rsp.id F hA hF hid' hq
        | some q =>
          simp only []
          intro h; injection h with h; subst h
          obtain ⟨p1, p2, _, p4, _⟩ := PollPacket_spec X q rsp.status rsp_cons
          obtain ⟨m1, m2, m3, m4, m5, m6, m7, m8, m9⟩ :=
            PollPacket_custody X q rsp.status rsp_cons
          generalize PollPacket X q rsp.status rsp_cons = Y at *
          have mS : Y.Lock.Stash = Ring.Lock.Stash := by rw [m1, r1]
          rw [r11] at p2 p4 m9
          obtain ⟨L', hA'⟩ := AccountedAt_response rsp.id q F (fun x => (Y.Packets x).Value)
            Y.PacketComplete Y.PacketsCompleted hA hF hid' hq p2
            (fun x hx => by
              show (Y.Packets x).Value = (Ring.Packets x).Value
              rw [p1 x hx, r11])
            (by rw [p4, r9])
            (by rw [m9, r8])
          refine ⟨L', ?_⟩
          rw [mS, m2, r2, m3, r3, m4, r4, m5, r5, m6, r6, m7, r7, m8, r10]
          exact hA'

theorem PollLoop_accounted (H : List Nat) :
    ∀ (n rsp_cons : Nat) (Ring Ring' : XENVIF_TRANSMITTER_RING),
      Accounted H Ring → PollLoop n rsp_cons Ring = some Ring' → Accounted H Ring' := by
  intro n
  induction n with
  | zero =>
    intro c Ring Ring' hI h
    simp only [PollLoop] at h
    injection h with h; subst h; exact hI
  | succ n ih =>
    intro c Ring Ring' hI h
    simp only [PollLoop] at h
    cases h1 : PollResponse Ring c with
    | none => rw [h1] at h; cases h
    | some R1 =>
      rw [h1] at h
      exact ih _ R1 Ring' (PollResponse_accounted H Ring R1 c hI h1) h

/-- The poll keeps the custody of packets. -/
theorem Poll_accounted (H : List Nat) (X R' : XENVIF_TRANSMITTER_RING)
    (hI : Accounted H X) (h : TransmitterRingPoll X = some R') : Accounted H R' := by
  unfold TransmitterRingPoll at h
  simp only [] at h
  split_ifs at h with he
  · injection h with h; subst h; exact hI
  · cases h1 : PollLoop (ULONG_sub X.Shared.rsp_prod X.Front.rsp_cons) X.Front.rsp_cons X with
    | none => rw [h1] at h; cases h
    | some R2 =>
      rw [h1] at h
      injection h with h
      subst h
      exact Accounted_of_custody rfl (PollLoop_accounted H _ _ X R2 hI h1)

theorem queuedPackets_cons (e : RingEvent) (rest : List RingEvent) :
    queuedPackets (e :: rest) = queuedPackets [e] ++ queuedPackets rest := by
  cases e <;> simp [queuedPackets]

/-- An admissible event keeps the custody of packets, the packets it queues
being added to the history. -/
theorem stepEvent_accounted (H : List Nat) (e : RingEvent)
    (Ring Ring' : XENVIF_TRANSMITTER_RING) (hI : Accounted H Ring)
    (hadm : eventAdmissible e Ring = true) (h : stepEvent e Ring = some Ring') :
    Accounted (H ++ queuedPackets [e]) Ring' := by
  cases e with
  | Queue Packets =>
    have : queuedPackets [RingEvent.Queue Packets] = Packets := by simp [queuedPackets]
    rw [this]
    exact QueuePackets_accounted H Ring Ring' Packets hI hadm h
  | Acquire =>
    have : queuedPackets [RingEvent.Acquire] = [] := rfl
    rw [this, List.append_nil]
    simp only [stepEvent] at h
    injection h with h; subst h
    exact Accounted_of_custody rfl hI
  | Release =>
    have : queuedPackets [RingEvent.Release] = [] := rfl
    rw [this, List.append_nil]
    exact ReleaseLock_accounted H Ring Ring' hI h
  | Backend Shared =>
    have : queuedPackets [RingEvent.Backend Shared] = [] := rfl
    rw [this, List.append_nil]
    simp only [stepEvent] at h
    injection h with h; subst h
    exact Accounted_of_custody rfl hI
  | Poll =>
    have : queuedPackets [RingEvent.Poll] = [] := rfl
    rw [this, List.append_nil]
    exact Poll_accounted H Ring Ring' hI h

/-- An admissible list of events keeps the custody of packets. -/
theorem runEvents_accounted :
    ∀ (es : List RingEvent) (H : List Nat) (Ring Ring' : XENVIF_TRANSMITTER_RING),
      Accounted H Ring → Admissible es Ring = true → runEvents es Ring = some Ring' →
      Accounted (H ++ queuedPackets es) Ring'
  | [], H, Ring, Ring' => by
    intro hI _ h
    simp only [runEvents] at h
    injection h with h; subst h
    simpa [queuedPackets] using hI
  | e :: rest, H, Ring, Ring' => by
    intro hI hadm h
    simp only [Admissible, Bool.and_eq_true] at hadm
    simp only [runEvents] at h
    cases hs : stepEvent e Ring with
    | none => rw [hs] at h; cases h
    | some R1 =>
      rw [hs] at h hadm
      have h1 := stepEvent_accounted H e Ring R1 hI hadm.1 hs
      have h2 := runEvents_accounted rest _ R1 Ring' h1 hadm.2 h
      rw [queuedPackets_cons, ← List.append_assoc]
      exact h2

/-- Only a poll can fail to return a ring: queueing, taking and releasing
the lock and the backend's writes always do. -/
theorem stepEvent_returns (e : RingEvent) (Ring : XENVIF_TRANSMITTER_RING)
    (h : stepEvent e Ring = none) : e = RingEvent.Poll := by
  cases e with
  | Queue Packets =>
    exfalso
    simp only [stepEvent, __TransmitterRingQueuePackets] at h
    split_ifs at h
    obtain ⟨R1, h1⟩ := ReleaseLock_total (__TransmitterRingAcquireLock (pushPackets Ring Packets))
    rw [h1] at h
    cases h
  | Acquire => simp [stepEvent] at h
  | Release =>
    exfalso
    obtain ⟨R1, h1⟩ := ReleaseLock_total Ring
    simp only [stepEvent] at h
    rw [h1] at h
    cases h
  | Backend Shared => simp [stepEvent] at h
  | Poll => rfl

theorem eq_some_getD {α : Type} (o : Option α) (d : α) (h : o.isSome = true) :
    o = some (o.getD d) := by
  cases o with
  | none => cases h
  | some a => rfl

/-- C12: take a ring as initialisation leaves it and any list of events on
it (a list of packets is queued, the lock is taken, the lock is released with
its swizzle and schedule, the backend rewrites the shared page, the responses
are polled), in which the caller queues no packet that the transmitter still
holds and every function returns (`runEvents`; only a poll that meets a
response naming no pending fragment does not, `stepEvent_returns`).  If the
ring is then fully drained (nothing on the lock word, `PacketQueue` empty, no
packet in `State`, every entry of `Pending` null), `PacketsCompleted ==
PacketsQueued`, both are the number of packets queued (as `ULONG`), and every
packet was put on `PacketComplete` (where it still is, or from where it was
returned) exactly as often as it was queued. -/
theorem Drained_ring_completed_equals_queued (es : List RingEvent)
    (R0 R : XENVIF_TRANSMITTER_RING) (h0 : Initial R0) (hadm : Admissible es R0 = true)
    (hrun : runEvents es R0 = some R) (hD : Drained R) :
    R.PacketsCompleted = R.PacketsQueued ∧
    R.PacketsQueued = (queuedPackets es).length % 4294967296 ∧
    ∀ p, (R.Returned ++ R.PacketComplete).count p = (queuedPackets es).count p := by
  have h1 := runEvents_accounted es [] R0 R (Accounted_initial R0 h0) hadm hrun
  rw [List.nil_append] at h1
  exact Accounted_drained _ R h1 hD

set_option maxRecDepth 100000 in
/-- C12 on the run `drainEvents`: the fresh ring is initial, the run is
admissible and returns `drainedRing`, which is drained; both counters are 1
and packet 0 was completed once. -/
theorem Drained_ring_completed_equals_queued_witness :
    Initial (freshRing 14 1514 0 (fun _ => true)) ∧
    Admissible drainEvents (freshRing 14 1514 0 (fun _ => true)) = true ∧
    runEvents drainEvents (freshRing 14 1514 0 (fun _ => true)) = some drainedRing ∧
    Drained drainedRing ∧
    (drainedRing.PacketsCompleted = drainedRing.PacketsQueued ∧
      drainedRing.PacketsQueued = (queuedPackets drainEvents).length % 4294967296 ∧
      ∀ p, (drainedRing.Returned ++ drainedRing.PacketComplete).count p =
        (queuedPackets drainEvents).count p) :=
  have i0 : Initial (freshRing 14 1514 0 (fun _ => true)) :=
    ⟨rfl, rfl, rfl, rfl, fun _ => rfl, rfl, rfl, rfl, rfl, List.nodup_range' 1 1023,
      fun id hid => by
        have := List.mem_range'_1.1 hid
        show id ≤ 1023
        omega⟩
  have a0 : Admissible drainEvents (freshRing 14 1514 0 (fun _ => true)) = true := by decide
  have r0 : runEvents drainEvents (freshRing 14 1514 0 (fun _ => true)) = some drainedRing :=
    eq_some_getD _ _ (by decide)
  have d0 : Drained drainedRing := by
    unfold Drained
    decide
  ⟨i0, a0, r0, d0, Drained_ring_completed_equals_queued drainEvents _ drainedRing i0 a0 r0 d0⟩

/-! ### Faked responses and an extra-info slot whose request is answered -/

theorem FakeResponse_none (Pending : Nat → Option XENVIF_TRANSMITTER_FRAGMENT)
    (L : FakeResponsesLocals) (id : Nat) (h : Pending id = none) :
    FakeResponse Pending L id = L := by
  unfold FakeResponse
  rw [h]

theorem FakeResponses_foldl_none (Pending : Nat → Option XENVIF_TRANSMITTER_FRAGMENT) :
    ∀ (ids : List Nat) (L : FakeResponsesLocals), (∀ id, id ∈ ids → Pending id = none) →
      ids.foldl (FakeResponse Pending) L = L
  | [], _, _ => rfl
  | id :: rest, L, h => by
    rw [List.foldl_cons, FakeResponse_none Pending L id (h id (List.mem_cons_self _ _))]
    exact FakeResponses_foldl_none Pending rest L (fun j hj => h j (List.mem_cons_of_mem _ hj))

/-- With nothing in `Pending`, `__TransmitterRingFakeResponses` publishes
`rsp_prod = Front.rsp_cons`: it writes no response. -/
theorem FakeResponses_nothing_pending (Ring : XENVIF_TRANSMITTER_RING)
    (h : ∀ id, id ∈ List.range (XENVIF_TRANSMITTER_MAXIMUM_FRAGMENT_ID + 1) →
      Ring.Pending id = none) :
    (__TransmitterRingFakeResponses Ring).Shared.rsp_prod = Ring.Front.rsp_cons := by
  rw [(FakeResponses_fields Ring).2.2.2.2.2.2.1]
  unfold FakeResponsesLoop
  rw [FakeResponses_foldl_none Ring.Pending _ _ h]

/-- The loop of `__TransmitterRingDisable` with the backend not connected
does not end on a ring with nothing in `Pending`, every published response
consumed, and `ResponsesProcessed != RequestsPushed`: each pass polls nothing
and fakes nothing. -/
theorem DisableLoop_stuck (State : Nat) (hS : State ≠ XenbusStateConnected) :
    ∀ (fuel : Nat) (Ring : XENVIF_TRANSMITTER_RING),
      (∀ id, id ∈ List.range (XENVIF_TRANSMITTER_MAXIMUM_FRAGMENT_ID + 1) →
        Ring.Pending id = none) →
      Ring.Shared.rsp_prod = Ring.Front.rsp_cons →
      Ring.ResponsesProcessed ≠ Ring.RequestsPushed →
      DisableLoop State fuel Ring = none
  | 0, Ring, _, _, hne => by
    simp only [DisableLoop, if_neg hne]
  | fuel + 1, Ring, hP, hrsp, hne => by
    obtain ⟨s1, s2, s3, _, _, s6, s7⟩ := Send_fields Ring
    have hpoll : TransmitterRingPoll (__TransmitterRingSend Ring) =
        some (__TransmitterRingSend Ring) := by
      unfold TransmitterRingPoll
      simp only []
      rw [if_pos (by rw [s1, s2]; exact hrsp.symm)]
    simp only [DisableLoop, if_neg hne, hpoll]
    have hF : DisableFake State (__TransmitterRingSend Ring) =
        __TransmitterRingFakeResponses (__TransmitterRingSend Ring) := by
      unfold DisableFake
      rw [if_pos hS]
    rw [hF]
    obtain ⟨f1, f2, _, _, f5, f6, _, _⟩ := FakeResponses_fields (__TransmitterRingSend Ring)
    apply DisableLoop_stuck State hS fuel
    · intro id hid
      rw [f2, s3]
      exact hP id hid
    · rw [FakeResponses_nothing_pending _ (fun id hid => by rw [s3]; exact hP id hid), f1]
    · rw [f5, f6, s6, s7]
      exact hne

set_option maxRecDepth 100000 in
/-- C4: the code departs from the claim, and from its own assertion
`ASSERT3U(Ring->Shared->rsp_prod, ==, Ring->Front.req_prod_pvt)`
(transmitter.c:2245), when the backend went away after it had published the
response to a request but not yet the response for the extra-info slot that
follows it.  Packet 0, a large-send packet, is queued on a fresh ring and
pushed as three slots (`extraPostedRing`); the backend publishes the response
to the first of them (`halfAnsweredRing`), so that `RequestsPushed ==
RequestsPosted` and `ResponsesProcessed < RequestsPushed`.
`__TransmitterRingDisable` with the backend not connected then polls that
response, which empties the entry of `Pending` of the header fragment
(`halfPolledRing`: three slots pushed, one response processed), and
`__TransmitterRingFakeResponses`, which walks `Pending` only, fakes one
response, for the payload fragment, and publishes `rsp_prod = 2` while
`req_prod_pvt` is 3.  The following poll leaves every entry of `Pending` null
and completes the packet as `DROPPED`, but `ResponsesProcessed` is 2 and
`RequestsPushed` is 3; every later pass polls and fakes nothing, and
`__TransmitterRingDisable` does not return, whatever the number of passes. -/
theorem FakeResponses_misses_extra_slot :
    __TransmitterRingQueuePackets largeFreshRing [0] = some extraPostedRing ∧
    (halfAnsweredRing.RequestsPushed = halfAnsweredRing.RequestsPosted ∧
      halfAnsweredRing.ResponsesProcessed < halfAnsweredRing.RequestsPushed) ∧
    TransmitterRingPoll (__TransmitterRingSend
      (DisablePrologue (__TransmitterRingAcquireLock halfAnsweredRing))) = some halfPolledRing ∧
    (halfPolledRing.RequestsPushed = 3 ∧ halfPolledRing.ResponsesProcessed = 1 ∧
      halfPolledRing.Front.rsp_cons = 1 ∧ halfPolledRing.Front.req_prod_pvt = 3) ∧
    ((FakeResponsesLoop halfPolledRing).Count = 1 ∧
      (__TransmitterRingFakeResponses halfPolledRing).Shared.rsp_prod = 2 ∧
      (__TransmitterRingFakeResponses halfPolledRing).Shared.rsp_prod ≠
        (__TransmitterRingFakeResponses halfPolledRing).Front.req_prod_pvt) ∧
    TransmitterRingPoll (__TransmitterRingSend
      (__TransmitterRingFakeResponses halfPolledRing)) = some fakedPolledRing ∧
    (∀ id, id ≤ XENVIF_TRANSMITTER_MAXIMUM_FRAGMENT_ID → fakedPolledRing.Pending id = none) ∧
    (fakedPolledRing.Packets 0).Completion.Status = XENVIF_TRANSMITTER_PACKET_DROPPED ∧
    fakedPolledRing.PacketComplete = [0] ∧
    (fakedPolledRing.ResponsesProcessed = 2 ∧ fakedPolledRing.RequestsPushed = 3) ∧
    ∀ fuel, __TransmitterRingDisable XenbusStateClosed fuel halfAnsweredRing = none := by
  have h1 : __TransmitterRingQueuePackets largeFreshRing [0] = some extraPostedRing :=
    eq_some_getD _ _ (by decide)
  have h3 : TransmitterRingPoll (__TransmitterRingSend
      (DisablePrologue (__TransmitterRingAcquireLock halfAnsweredRing))) = some halfPolledRing :=
    eq_some_getD _ _ (by decide)
  have h6 : TransmitterRingPoll (__TransmitterRingSend
      (__TransmitterRingFakeResponses halfPolledRing)) = some fakedPolledRing :=
    eq_some_getD _ _ (by decide)
  have hB : ∀ id, id ≤ XENVIF_TRANSMITTER_MAXIMUM_FRAGMENT_ID →
      fakedPolledRing.Pending id = none := by decide
  have hP : ∀ id, id ∈ List.range (XENVIF_TRANSMITTER_MAXIMUM_FRAGMENT_ID + 1) →
      fakedPolledRing.Pending id = none :=
    fun id hid => hB id (by have := List.mem_range.1 hid; omega)
  have hfake : ∀ R, DisableFake XenbusStateClosed R = __TransmitterRingFakeResponses R := by
    intro R
    unfold DisableFake
    rw [if_pos (by decide)]
  refine ⟨h1, by decide, h3, by decide, by decide, h6, hB, by decide, by decide, by decide, ?_⟩
  · intro fuel
    have hloop : DisableLoop XenbusStateClosed fuel
        (DisablePrologue (__TransmitterRingAcquireLock halfAnsweredRing)) = none := by
      cases fuel with
      | zero =>
        simp only [DisableLoop]
        rw [if_neg (by decide)]
      | succ n =>
        simp only [DisableLoop]
        rw [if_neg (by decide), h3]
        simp only [hfake]
        cases n with
        | zero =>
          simp only [DisableLoop]
          rw [if_neg (by decide)]
        | succ m =>
          simp only [DisableLoop]
          rw [if_neg (by decide), h6]
          simp only [hfake]
          obtain ⟨f1, f2, _, _, f5, f6, _, _⟩ := FakeResponses_fields fakedPolledRing
          apply DisableLoop_stuck XenbusStateClosed (by decide) m
          · intro id hid
            rw [f2]
            exact hP id hid
          · rw [FakeResponses_nothing_pending _ hP, f1]
          · rw [f5, f6]
            decide
    unfold __TransmitterRingDisable
    rw [hloop]

/-! ### The assignments to `Frontend->State`, one by one -/

/-- Every assignment that one pass of the loop body makes is one of the
eight that the arms of the switch contain. -/
theorem FrontendSetStateBody_assignments (ok : Bool) (cur target : XENVIF_FRONTEND_STATE) :
    ∀ p ∈ stateAssignments (FrontendSetStateBody ok target cur).Events,
      p ∈ [(FRONTEND_UNKNOWN, FRONTEND_PREPARED), (FRONTEND_CLOSED, FRONTEND_PREPARED),
           (FRONTEND_CLOSED, FRONTEND_UNKNOWN), (FRONTEND_PREPARED, FRONTEND_CONNECTED),
           (FRONTEND_PREPARED, FRONTEND_CLOSED), (FRONTEND_CONNECTED, FRONTEND_ENABLED),
           (FRONTEND_CONNECTED, FRONTEND_CLOSED), (FRONTEND_ENABLED, FRONTEND_CONNECTED)] := by
  cases cur <;> cases target <;> cases ok <;> decide

/-- Every assignment that the loop of `FrontendSetState` makes, however it
ends, is one of the eight. -/
theorem FrontendSetStateLoop_assignments (oracle : Nat → Bool)
    (target : XENVIF_FRONTEND_STATE) :
    ∀ (fuel pass : Nat) (cur : XENVIF_FRONTEND_STATE) (r : FrontendStep),
      FrontendSetStateLoop oracle target fuel pass cur = some r →
      ∀ p ∈ stateAssignments r.Events,
        p ∈ [(FRONTEND_UNKNOWN, FRONTEND_PREPARED), (FRONTEND_CLOSED, FRONTEND_PREPARED),
             (FRONTEND_CLOSED, FRONTEND_UNKNOWN), (FRONTEND_PREPARED, FRONTEND_CONNECTED),
             (FRONTEND_PREPARED, FRONTEND_CLOSED), (FRONTEND_CONNECTED, FRONTEND_ENABLED),
             (FRONTEND_CONNECTED, FRONTEND_CLOSED), (FRONTEND_ENABLED, FRONTEND_CONNECTED)] := by
  intro fuel
  induction fuel with
  | zero =>
    intro pass cur r h
    unfold FrontendSetStateLoop at h
    by_cases hc : cur = target
    · simp only [hc, if_true, Option.some.injEq] at h
      subst h
      intro p hp
      simp [stateAssignments] at hp
    · simp only [hc, if_false] at h
      cases h
  | succ n ih =>
    intro pass cur r h
    rw [FrontendSetStateLoop] at h
    by_cases hc : cur = target
    · simp only [hc, if_true, Option.some.injEq] at h
      subst h
      intro p hp
      simp [stateAssignments] at hp
    · simp only [hc, if_false] at h
      by_cases hf : (FrontendSetStateBody (oracle pass) target cur).Failed = true
      · simp only [hf, if_true, Option.some.injEq] at h
        subst h
        exact FrontendSetStateBody_assignments (oracle pass) cur target
      · simp only [hf, if_false] at h
        cases hl : FrontendSetStateLoop oracle target n (pass + 1)
            (FrontendSetStateBody (oracle pass) target cur).State with
        | none => rw [hl] at h; cases h
        | some r1 =>
          rw [hl] at h
          simp only [Bool.false_eq_true, if_false, Option.some.injEq] at h
          subst h
          intro p hp
          rw [stateAssignments_append] at hp
          rcases List.mem_append.mp hp with hp | hp
          · exact FrontendSetStateBody_assignments (oracle pass) cur target p hp
          · exact ih (pass + 1) _ r1 hl p hp

/-- C6 (amended): for every start state, target and outcome of the
sub-steps `FrontendSetState` returns, and every assignment to
`Frontend->State` that it makes is one of the eight directed steps
UNKNOWN to PREPARED, CLOSED to PREPARED, CLOSED to UNKNOWN, PREPARED to
CONNECTED, PREPARED to CLOSED, CONNECTED to ENABLED, CONNECTED to CLOSED and
ENABLED to CONNECTED: neighbours on the chain, except that a successful
`FrontendPrepare` moves UNKNOWN directly to PREPARED and `FrontendClose` moves
CONNECTED directly to CLOSED.  No other assignment is ever made (so never
UNKNOWN to CLOSED, PREPARED to UNKNOWN, CONNECTED to PREPARED or ENABLED to
anything but CONNECTED), and each of the eight is made by some call. -/
theorem FrontendSetState_assignments_directed :
    (∀ (oracle : Nat → Bool) (cur target : XENVIF_FRONTEND_STATE),
      ∃ r, FrontendSetState 4 oracle cur target = some r ∧
        ∀ p ∈ stateAssignments r.Events,
          p ∈ [(FRONTEND_UNKNOWN, FRONTEND_PREPARED), (FRONTEND_CLOSED, FRONTEND_PREPARED),
               (FRONTEND_CLOSED, FRONTEND_UNKNOWN), (FRONTEND_PREPARED, FRONTEND_CONNECTED),
               (FRONTEND_PREPARED, FRONTEND_CLOSED), (FRONTEND_CONNECTED, FRONTEND_ENABLED),
               (FRONTEND_CONNECTED, FRONTEND_CLOSED), (FRONTEND_ENABLED, FRONTEND_CONNECTED)]) ∧
    (∀ q ∈ [(FRONTEND_UNKNOWN, FRONTEND_PREPARED), (FRONTEND_CLOSED, FRONTEND_PREPARED),
            (FRONTEND_CLOSED, FRONTEND_UNKNOWN), (FRONTEND_PREPARED, FRONTEND_CONNECTED),
            (FRONTEND_PREPARED, FRONTEND_CLOSED), (FRONTEND_CONNECTED, FRONTEND_ENABLED),
            (FRONTEND_CONNECTED, FRONTEND_CLOSED), (FRONTEND_ENABLED, FRONTEND_CONNECTED)],
      ∃ r, FrontendSetState 4 (fun _ => true) q.1 q.2 = some r ∧
        q ∈ stateAssignments r.Events) := by
  constructor
  · intro oracle cur target
    obtain ⟨r, hr, -, -⟩ :=
      FrontendSetStateLoop_spec oracle target 4 0 cur (passesToTarget_le cur target)
    refine ⟨⟨if r.Failed then STATUS_UNSUCCESSFUL else STATUS_SUCCESS, r.State, r.Events⟩,
      ?_, ?_⟩
    · simp [FrontendSetState, hr]
    · exact FrontendSetStateLoop_assignments oracle target 4 0 cur r hr
  · decide

end Xenvif
